import Mathlib

/-! # The input dispatcher (libs/ui/InputDispatcher.cpp, include/ui/InputDispatcher.h)

A shallow embedding of the dispatcher state machine.  Conventions:

* `nsecs_t`, pids, uids, key codes and device ids are `Int`; 32-bit words that the
  code treats as bit sets (actions, flags, sources, policy flags) are `Nat`.
* A pointer into a vector or a pool is the index of the object: an `InputWindow*`
  is an index into `mWindows`, an `EventEntry*` an index into the event pool
  `mEvents`, a `Connection*` an index into the connection pool `mConnections`,
  a `MotionSample*` the position of the sample in its event's chain
  (0 is the inline `firstSample`).  An entry given back to its pool keeps its
  slot with `refCount = 0`; slots are never reused.
* An intrusive sentinel queue is the list of its entries from head to tail; the
  section on the sentinel queue has the queue with its pointers and relates the two.
* The sample chain of a motion entry is `firstSample` and the list `nextSamples`;
  the section on the sample chain has the chain with its `next` pointers, the
  pointer `lastSample` and the sample pool.
* The collaborators that are not part of the dispatcher (clock, policy,
  publisher) are read from an `Env` record that each operation receives.
* Float coordinates and offsets are integers.
-/

namespace InputDispatcher

/-! ## Constants -/

abbrev nsecs_t := Int

def LONG_LONG_MAX : Int := 9223372036854775807

def LONG_LONG_MIN : Int := -9223372036854775808

/-- Delay between reporting long touch events to the power manager (300 ms). -/
def EVENT_IGNORE_DURATION : Int := 300 * 1000000

/-- Default input dispatching timeout (5 s). -/
def DEFAULT_INPUT_DISPATCHING_TIMEOUT : Int := 5000 * 1000000

/-- Time allowed for pending events once an app switch key is on the way (0.5 s). -/
def APP_SWITCH_TIMEOUT : Int := 500 * 1000000

def INPUT_EVENT_INJECTION_PENDING : Int := -1

def INPUT_EVENT_INJECTION_SUCCEEDED : Int := 0

def INPUT_EVENT_INJECTION_PERMISSION_DENIED : Int := 1

def INPUT_EVENT_INJECTION_FAILED : Int := 2

def INPUT_EVENT_INJECTION_TIMED_OUT : Int := 3

def INPUT_EVENT_INJECTION_SYNC_NONE : Int := 0

def INPUT_EVENT_INJECTION_SYNC_WAIT_FOR_RESULT : Int := 1

def INPUT_EVENT_INJECTION_SYNC_WAIT_FOR_FINISHED : Int := 2

/-! Constants of `android/input.h`, `ui/Input.h`, `utils/Errors.h` and `poll.h`.
These headers are not part of the sources; the values are the platform ones. -/

def AKEY_EVENT_ACTION_DOWN : Nat := 0

def AKEY_EVENT_ACTION_UP : Nat := 1

def AKEY_EVENT_FLAG_CANCELED : Nat := 0x20

def AKEY_EVENT_FLAG_LONG_PRESS : Nat := 0x80

def AMOTION_EVENT_ACTION_MASK : Nat := 0xff

def AMOTION_EVENT_ACTION_DOWN : Nat := 0

def AMOTION_EVENT_ACTION_UP : Nat := 1

def AMOTION_EVENT_ACTION_MOVE : Nat := 2

def AMOTION_EVENT_ACTION_CANCEL : Nat := 3

def AMOTION_EVENT_ACTION_OUTSIDE : Nat := 4

def AMOTION_EVENT_ACTION_POINTER_DOWN : Nat := 5

def AMOTION_EVENT_ACTION_POINTER_UP : Nat := 6

def AMOTION_EVENT_FLAG_WINDOW_IS_OBSCURED : Nat := 0x1

def AINPUT_SOURCE_CLASS_POINTER : Nat := 0x2

def AKEYCODE_HOME : Int := 3

def AKEYCODE_ENDCALL : Int := 6

def POLICY_FLAG_RAW_MASK : Nat := 0x0000ffff

def POLICY_FLAG_INJECTED : Nat := 0x01000000

def MAX_POINTERS : Nat := 10

def OK : Int := 0

def NO_MEMORY : Int := -12

def BAD_VALUE : Int := -22

def FAILED_TRANSACTION : Int := -2147483646

def POLLIN : Nat := 0x1

def POLLERR : Nat := 0x8

def POLLHUP : Nat := 0x10

def POLLNVAL : Nat := 0x20

def POWER_MANAGER_TOUCH_EVENT : Int := 2

def POWER_MANAGER_TOUCH_UP_EVENT : Int := 3

def POWER_MANAGER_LONG_TOUCH_EVENT : Int := 4

def POWER_MANAGER_BUTTON_EVENT : Int := 1

/-! ## Data model -/

/-- An input channel, identified by its receive pipe file descriptor (two live
channels never share one). -/
abbrev InputChannel := Nat

namespace InputTarget

def FLAG_SYNC : Nat := 0x01

def FLAG_OUTSIDE : Nat := 0x02

def FLAG_CANCEL : Nat := 0x04

def FLAG_WINDOW_IS_OBSCURED : Nat := 0x08

end InputTarget

/-- How an input event is to be dispatched to a particular window. -/
structure InputTarget where
  inputChannel : InputChannel
  flags : Nat
  timeout : Int
  timeSpentWaitingForApplication : Int
  xOffset : Int
  yOffset : Int
deriving DecidableEq, Repr

namespace InputWindow

def FLAG_NOT_FOCUSABLE : Nat := 0x00000008

def FLAG_NOT_TOUCHABLE : Nat := 0x00000010

def FLAG_NOT_TOUCH_MODAL : Nat := 0x00000020

def FLAG_TOUCHABLE_WHEN_WAKING : Nat := 0x00000040

def FLAG_WATCH_OUTSIDE_TOUCH : Nat := 0x00040000

def FLAG_SYSTEM_ERROR : Nat := 0x40000000

def TYPE_WALLPAPER : Int := 2013

end InputWindow

/-- The bounds and properties of a window that can receive input. -/
structure InputWindow where
  inputChannel : InputChannel
  layoutParamsFlags : Nat
  layoutParamsType : Int
  dispatchingTimeout : Int
  frameLeft : Int
  frameTop : Int
  frameRight : Int
  frameBottom : Int
  visibleFrameLeft : Int
  visibleFrameTop : Int
  visibleFrameRight : Int
  visibleFrameBottom : Int
  touchableAreaLeft : Int
  touchableAreaTop : Int
  touchableAreaRight : Int
  touchableAreaBottom : Int
  visible : Bool
  hasFocus : Bool
  hasWallpaper : Bool
  paused : Bool
  ownerPid : Int
  ownerUid : Int
deriving DecidableEq, Repr, Inhabited

/-- An application that can receive input (its name is only logged). -/
structure InputApplication where
  dispatchingTimeout : Int
  handle : Nat
deriving DecidableEq, Repr

structure PointerCoords where
  x : Int
  y : Int
  pressure : Int
  size : Int
  touchMajor : Int
  touchMinor : Int
  toolMajor : Int
  toolMinor : Int
  orientation : Int
deriving DecidableEq, Repr, Inhabited

structure MotionSample where
  eventTime : Int
  pointerCoords : List PointerCoords
deriving DecidableEq, Repr, Inhabited

inductive InterceptKeyResult where
  | INTERCEPT_KEY_RESULT_UNKNOWN
  | INTERCEPT_KEY_RESULT_SKIP
  | INTERCEPT_KEY_RESULT_CONTINUE
deriving DecidableEq, Repr

/-- The fields that `KeyEntry` adds to `EventEntry`. -/
structure KeyEntry where
  deviceId : Int
  source : Nat
  policyFlags : Nat
  action : Nat
  flags : Nat
  keyCode : Int
  scanCode : Int
  metaState : Int
  repeatCount : Int
  downTime : Int
  syntheticRepeat : Bool
  interceptKeyResult : InterceptKeyResult
deriving DecidableEq, Repr

/-- The fields that `MotionEntry` adds to `EventEntry`.  The chain of samples is
`firstSample` followed by `nextSamples`; `lastSample` is the last of them. -/
structure MotionEntry where
  deviceId : Int
  source : Nat
  policyFlags : Nat
  action : Nat
  flags : Nat
  metaState : Int
  edgeFlags : Int
  xPrecision : Int
  yPrecision : Int
  downTime : Int
  pointerCount : Nat
  pointerIds : List Int
  firstSample : MotionSample
  nextSamples : List MotionSample
deriving DecidableEq, Repr

inductive EventBody where
  | configurationChanged
  | key (k : KeyEntry)
  | motion (m : MotionEntry)
deriving DecidableEq, Repr

structure EventEntry where
  refCount : Int
  eventTime : Int
  injectionResult : Int
  injectionIsAsync : Bool
  injectorPid : Int
  injectorUid : Int
  dispatchInProgress : Bool
  pendingSyncDispatches : Int
  body : EventBody
deriving DecidableEq, Repr

/-- Tracks the progress of dispatching a particular event to a particular connection. -/
structure DispatchEntry where
  eventEntry : Nat
  targetFlags : Nat
  xOffset : Int
  yOffset : Int
  timeout : Int
  inProgress : Bool
  headMotionSample : Option Nat
  tailMotionSample : Option Nat
deriving DecidableEq, Repr

inductive Command where
  | doNotifyConfigurationChangedInterruptible
  | doNotifyInputChannelBrokenLockedInterruptible
  | doNotifyInputChannelANRLockedInterruptible
  | doNotifyInputChannelRecoveredFromANRLockedInterruptible
  | doInterceptKeyBeforeDispatchingLockedInterruptible
  | doPokeUserActivityLockedInterruptible
  | doTargetsNotReadyTimeoutLockedInterruptible
deriving DecidableEq, Repr

structure CommandEntry where
  command : Command
  connection : Option Nat
  eventTime : Int
  keyEntry : Option Nat
  inputChannel : Option InputChannel
  inputApplicationHandle : Option Nat
  windowType : Int
  userActivityEventType : Int
deriving DecidableEq, Repr

structure KeyMemento where
  deviceId : Int
  source : Nat
  keyCode : Int
  scanCode : Int
  downTime : Int
deriving DecidableEq, Repr

structure MotionMemento where
  deviceId : Int
  source : Nat
  xPrecision : Int
  yPrecision : Int
  downTime : Int
  pointerCount : Nat
  pointerIds : List Int
  pointerCoords : List PointerCoords
deriving DecidableEq, Repr

inductive Consistency where
  | CONSISTENT
  | TOLERABLE
  | BROKEN
deriving DecidableEq, Repr

structure InputState where
  mIsOutOfSync : Bool
  mKeyMementos : List KeyMemento
  mMotionMementos : List MotionMemento
deriving DecidableEq, Repr

inductive Status where
  | STATUS_NORMAL
  | STATUS_BROKEN
  | STATUS_NOT_RESPONDING
  | STATUS_ZOMBIE
deriving DecidableEq, Repr

/-- A call made on a connection's publisher. -/
inductive PublisherCall where
  | publishKeyEvent (deviceId : Int) (source action flags : Nat)
      (keyCode scanCode metaState repeatCount downTime eventTime : Int)
  | publishMotionEvent (deviceId : Int) (source action flags : Nat) (edgeFlags metaState : Int)
      (xOffset yOffset xPrecision yPrecision downTime eventTime : Int)
      (pointerCount : Nat) (pointerIds : List Int) (pointerCoords : List PointerCoords)
  | appendMotionSample (eventTime : Int) (pointerCoords : List PointerCoords)
  | sendDispatchSignal
  | receiveFinishedSignal
  | reset
deriving DecidableEq, Repr

/-- The dispatch state of one input channel.  `inputPublisher` is the record of the
calls made on the publisher, oldest first. -/
structure Connection where
  status : Status
  inputChannel : InputChannel
  inputPublisher : List PublisherCall
  inputState : InputState
  outboundQueue : List DispatchEntry
  nextTimeoutTime : Int
  lastEventTime : Int
  lastDispatchTime : Int
  lastANRTime : Int
deriving DecidableEq, Repr

structure ThrottleState where
  minTimeBetweenEvents : Int
  lastEventTime : Int
  lastDeviceId : Int
  lastSource : Nat
  originalSampleCount : Nat
deriving DecidableEq, Repr

structure KeyRepeatState where
  lastKeyEntry : Option Nat
  nextRepeatTime : Int
deriving DecidableEq, Repr

structure OutsideTarget where
  window : Nat
  obscured : Bool
deriving DecidableEq, Repr

inductive InputTargetWaitCause where
  | INPUT_TARGET_WAIT_CAUSE_NONE
  | INPUT_TARGET_WAIT_CAUSE_SYSTEM_NOT_READY
  | INPUT_TARGET_WAIT_CAUSE_APPLICATION_NOT_READY
deriving DecidableEq, Repr

/-- The members of `InputDispatcher` that the lock guards, with the two pools
(`mEvents`, `mConnections`) and the `nextWakeupTime` local of `dispatchOnce` that the
pass updates through a pointer. -/
structure State where
  mEvents : List EventEntry
  mConnections : List Connection
  mPendingEvent : Option Nat
  mInboundQueue : List Nat
  mCommandQueue : List CommandEntry
  mAppSwitchDueTime : Int
  mConnectionsByReceiveFd : List (InputChannel × Nat)
  mActiveConnections : List Nat
  mMonitoringChannels : List InputChannel
  mThrottleState : ThrottleState
  mKeyRepeatState : KeyRepeatState
  mDispatchEnabled : Bool
  mDispatchFrozen : Bool
  mWindows : List InputWindow
  mWallpaperWindows : List Nat
  mFocusedWindow : Option Nat
  mTouchDown : Bool
  mTouchedWindow : Option Nat
  mTouchedWindowIsObscured : Bool
  mTouchedWallpaperWindows : List Nat
  mTempTouchedOutsideTargets : List OutsideTarget
  mFocusedApplication : Option InputApplication
  mCurrentInputTargetsValid : Bool
  mCurrentInputTargets : List InputTarget
  mCurrentInputWindowType : Int
  mCurrentInputChannel : Option InputChannel
  mInputTargetWaitCause : InputTargetWaitCause
  mInputTargetWaitStartTime : Int
  mInputTargetWaitTimeoutTime : Int
  mInputTargetWaitTimeoutExpired : Bool
  nextWakeupTime : Int
deriving DecidableEq, Repr

/-- What the collaborators answer during one operation: the clock, the policy and the
publishers of the channels. -/
structure Env where
  now : Int
  getKeyRepeatTimeout : Int
  getKeyRepeatDelay : Int
  checkInjectEventsPermissionNonReentrant : Int → Int → Bool
  interceptKeyBeforeDispatching : Option InputChannel → KeyEntry → Bool
  notifyInputChannelANR : InputChannel → Int
  notifyANR : Nat → Int
  publishKeyEvent : InputChannel → Int
  publishMotionEvent : InputChannel → Int
  appendMotionSample : InputChannel → MotionSample → Int
  sendDispatchSignal : InputChannel → Int
  receiveFinishedSignal : InputChannel → Int
  reset : InputChannel → Int
  publisherInitialize : InputChannel → Int

/-! ## Pools and pointers -/

/-- Applies `f` to the element at position `n` (nothing happens past the end). -/
def modifyAt {α : Type} (f : α → α) : Nat → List α → List α
  | _, [] => []
  | 0, a :: l => f a :: l
  | n + 1, a :: l => a :: modifyAt f n l

/-- Writes through an `EventEntry*`. -/
def modifyEvent (id : Nat) (f : EventEntry → EventEntry) (s : State) : State :=
  { s with mEvents := modifyAt f id s.mEvents }

/-- Writes through a `Connection*`. -/
def modifyConnection (id : Nat) (f : Connection → Connection) (s : State) : State :=
  { s with mConnections := modifyAt f id s.mConnections }

/-! ## InputWindow -/

def InputWindow.visibleFrameIntersects (w other : InputWindow) : Bool :=
  decide (w.visibleFrameRight > other.visibleFrameLeft)
    && decide (w.visibleFrameLeft < other.visibleFrameRight)
    && decide (w.visibleFrameBottom > other.visibleFrameTop)
    && decide (w.visibleFrameTop < other.visibleFrameBottom)

def InputWindow.touchableAreaContainsPoint (w : InputWindow) (x y : Int) : Bool :=
  decide (x ≥ w.touchableAreaLeft) && decide (x ≤ w.touchableAreaRight)
    && decide (y ≥ w.touchableAreaTop) && decide (y ≤ w.touchableAreaBottom)

/-! ## Allocator -/

def EventEntry.isInjected (e : EventEntry) : Bool :=
  decide (e.injectorPid ≥ 0)

def initializeEventEntry (body : EventBody) (eventTime : Int) : EventEntry :=
  { refCount := 1
    dispatchInProgress := false
    eventTime := eventTime
    injectionResult := INPUT_EVENT_INJECTION_PENDING
    injectionIsAsync := false
    injectorPid := -1
    injectorUid := -1
    pendingSyncDispatches := 0
    body := body }

/-- Takes a fresh slot of the event pool for `e`; the result is the new pointer. -/
def allocEvent (e : EventEntry) (s : State) : Nat × State :=
  (s.mEvents.length, { s with mEvents := s.mEvents ++ [e] })

def obtainConfigurationChangedEntry (eventTime : Int) (s : State) : Nat × State :=
  allocEvent (initializeEventEntry EventBody.configurationChanged eventTime) s

def obtainKeyEntry (eventTime deviceId : Int) (source policyFlags action flags : Nat)
    (keyCode scanCode metaState repeatCount downTime : Int) (s : State) : Nat × State :=
  allocEvent (initializeEventEntry (EventBody.key
    { deviceId := deviceId
      source := source
      policyFlags := policyFlags
      action := action
      flags := flags
      keyCode := keyCode
      scanCode := scanCode
      metaState := metaState
      repeatCount := repeatCount
      downTime := downTime
      syntheticRepeat := false
      interceptKeyResult := InterceptKeyResult.INTERCEPT_KEY_RESULT_UNKNOWN }) eventTime) s

def obtainMotionEntry (eventTime deviceId : Int) (source policyFlags action flags : Nat)
    (metaState edgeFlags xPrecision yPrecision downTime : Int) (pointerCount : Nat)
    (pointerIds : List Int) (pointerCoords : List PointerCoords) (s : State) : Nat × State :=
  allocEvent (initializeEventEntry (EventBody.motion
    { deviceId := deviceId
      source := source
      policyFlags := policyFlags
      action := action
      flags := flags
      metaState := metaState
      edgeFlags := edgeFlags
      xPrecision := xPrecision
      yPrecision := yPrecision
      downTime := downTime
      pointerCount := pointerCount
      pointerIds := pointerIds.take pointerCount
      firstSample := { eventTime := eventTime, pointerCoords := pointerCoords.take pointerCount }
      nextSamples := [] }) eventTime) s

def obtainDispatchEntry (eventEntry : Nat) (targetFlags : Nat) (xOffset yOffset timeout : Int)
    (s : State) : DispatchEntry × State :=
  ({ eventEntry := eventEntry
     targetFlags := targetFlags
     xOffset := xOffset
     yOffset := yOffset
     timeout := timeout
     inProgress := false
     headMotionSample := none
     tailMotionSample := none },
   modifyEvent eventEntry (fun e => { e with refCount := e.refCount + 1 }) s)

def obtainCommandEntry (command : Command) : CommandEntry :=
  { command := command
    connection := none
    eventTime := 0
    keyEntry := none
    inputChannel := none
    inputApplicationHandle := none
    windowType := 0
    userActivityEventType := 0 }

/-- The three typed release functions do the same to the counter: the entry goes back
to its pool when the count reaches 0 (it then stays in its slot with `refCount = 0`). -/
def releaseKeyEntry (entry : Nat) (s : State) : State :=
  modifyEvent entry (fun e => { e with refCount := e.refCount - 1 }) s

def releaseMotionEntry (entry : Nat) (s : State) : State :=
  modifyEvent entry (fun e => { e with refCount := e.refCount - 1 }) s

def releaseConfigurationChangedEntry (entry : Nat) (s : State) : State :=
  modifyEvent entry (fun e => { e with refCount := e.refCount - 1 }) s

def releaseEventEntry (entry : Nat) (s : State) : State :=
  match s.mEvents[entry]? with
  | none => s
  | some e =>
    match e.body with
    | EventBody.configurationChanged => releaseConfigurationChangedEntry entry s
    | EventBody.key _ => releaseKeyEntry entry s
    | EventBody.motion _ => releaseMotionEntry entry s

def releaseDispatchEntry (entry : DispatchEntry) (s : State) : State :=
  releaseEventEntry entry.eventEntry s

def MotionEntry.appendSample (m : MotionEntry) (eventTime : Int)
    (pointerCoords : List PointerCoords) : MotionEntry :=
  let sample : MotionSample :=
    { eventTime := eventTime, pointerCoords := pointerCoords.take m.pointerCount }
  { m with nextSamples := m.nextSamples ++ [sample] }

def appendMotionSample (motionEntry : Nat) (eventTime : Int) (pointerCoords : List PointerCoords)
    (s : State) : State :=
  modifyEvent motionEntry (fun e =>
    match e.body with
    | EventBody.motion m => { e with body := EventBody.motion (m.appendSample eventTime pointerCoords) }
    | _ => e) s

def EventEntry.recycle (e : EventEntry) : EventEntry :=
  { e with
    injectionResult := INPUT_EVENT_INJECTION_PENDING
    dispatchInProgress := false
    pendingSyncDispatches := 0 }

def KeyEntry.recycle (k : KeyEntry) : KeyEntry :=
  { k with
    syntheticRepeat := false
    interceptKeyResult := InterceptKeyResult.INTERCEPT_KEY_RESULT_UNKNOWN }

def MotionEntry.countSamples (m : MotionEntry) : Nat :=
  1 + m.nextSamples.length

/-- The sample a `MotionSample*` points to. -/
def MotionEntry.sampleAt (m : MotionEntry) : Nat → Option MotionSample
  | 0 => some m.firstSample
  | n + 1 => m.nextSamples[n]?

/-- The pointer `lastSample`. -/
def MotionEntry.lastSample (m : MotionEntry) : Nat :=
  m.nextSamples.length

/-- The pointer `sample->next`. -/
def MotionEntry.nextOf (m : MotionEntry) (sample : Nat) : Option Nat :=
  if sample + 1 ≤ m.nextSamples.length then some (sample + 1) else none

/-! ## InputState -/

def InputState.isNeutral (st : InputState) : Bool :=
  st.mKeyMementos.isEmpty && st.mMotionMementos.isEmpty

def InputState.isOutOfSync (st : InputState) : Bool :=
  st.mIsOutOfSync

def InputState.setOutOfSync (st : InputState) : InputState :=
  if ! st.isNeutral then { st with mIsOutOfSync := true } else st

def InputState.resetOutOfSync (st : InputState) : InputState :=
  { st with mIsOutOfSync := false }

def InputState.clear (_st : InputState) : InputState :=
  { mIsOutOfSync := false, mKeyMementos := [], mMotionMementos := [] }

def InputState.trackKey (st : InputState) (entry : KeyEntry) : Consistency × InputState :=
  match st.mKeyMementos.findIdx? (fun memento =>
      decide (memento.deviceId = entry.deviceId) && decide (memento.source = entry.source)
        && decide (memento.keyCode = entry.keyCode)
        && decide (memento.scanCode = entry.scanCode)) with
  | some i =>
    if entry.action = AKEY_EVENT_ACTION_UP then
      let st1 := { st with mKeyMementos := st.mKeyMementos.eraseIdx i }
      (Consistency.CONSISTENT, if st1.isNeutral then { st1 with mIsOutOfSync := false } else st1)
    else if entry.action = AKEY_EVENT_ACTION_DOWN then
      (Consistency.TOLERABLE, st)
    else
      (Consistency.BROKEN, st)
  | none =>
    if entry.action = AKEY_EVENT_ACTION_DOWN then
      let memento : KeyMemento :=
        { deviceId := entry.deviceId
          source := entry.source
          keyCode := entry.keyCode
          scanCode := entry.scanCode
          downTime := entry.downTime }
      (Consistency.CONSISTENT, { st with mKeyMementos := st.mKeyMementos ++ [memento] })
    else
      (Consistency.BROKEN, st)

def MotionMemento.setPointers (memento : MotionMemento) (entry : MotionEntry) : MotionMemento :=
  { memento with
    pointerCount := entry.pointerCount
    pointerIds := entry.pointerIds.take entry.pointerCount
    pointerCoords :=
      ((entry.sampleAt entry.lastSample).getD entry.firstSample).pointerCoords.take
        entry.pointerCount }

def InputState.trackMotion (st : InputState) (entry : MotionEntry) : Consistency × InputState :=
  let action := entry.action &&& AMOTION_EVENT_ACTION_MASK
  match st.mMotionMementos.findIdx? (fun memento =>
      decide (memento.deviceId = entry.deviceId) && decide (memento.source = entry.source)) with
  | some i =>
    match st.mMotionMementos[i]? with
    | none => (Consistency.BROKEN, st)
    | some memento =>
      if action = AMOTION_EVENT_ACTION_UP ∨ action = AMOTION_EVENT_ACTION_CANCEL then
        let st1 := { st with mMotionMementos := st.mMotionMementos.eraseIdx i }
        (Consistency.CONSISTENT, if st1.isNeutral then { st1 with mIsOutOfSync := false } else st1)
      else if action = AMOTION_EVENT_ACTION_DOWN then
        (Consistency.TOLERABLE, st)
      else if action = AMOTION_EVENT_ACTION_POINTER_DOWN then
        if entry.pointerCount = (memento.pointerCount + 1) % 2 ^ 32 then
          let mementos := modifyAt (fun m => m.setPointers entry) i st.mMotionMementos
          (Consistency.CONSISTENT, { st with mMotionMementos := mementos })
        else (Consistency.BROKEN, st)
      else if action = AMOTION_EVENT_ACTION_POINTER_UP then
        if entry.pointerCount = (memento.pointerCount + 2 ^ 32 - 1) % 2 ^ 32 then
          let mementos := modifyAt (fun m => m.setPointers entry) i st.mMotionMementos
          (Consistency.CONSISTENT, { st with mMotionMementos := mementos })
        else (Consistency.BROKEN, st)
      else if action = AMOTION_EVENT_ACTION_MOVE then
        if entry.pointerCount = memento.pointerCount then (Consistency.CONSISTENT, st)
        else (Consistency.BROKEN, st)
      else (Consistency.BROKEN, st)
  | none =>
    if action = AMOTION_EVENT_ACTION_DOWN then
      let memento : MotionMemento :=
        { deviceId := entry.deviceId
          source := entry.source
          xPrecision := entry.xPrecision
          yPrecision := entry.yPrecision
          downTime := entry.downTime
          pointerCount := 0
          pointerIds := []
          pointerCoords := [] }
      (Consistency.CONSISTENT,
        { st with mMotionMementos := st.mMotionMementos ++ [memento.setPointers entry] })
    else (Consistency.BROKEN, st)

def InputState.trackEvent (st : InputState) (entry : EventEntry) : Consistency × InputState :=
  match entry.body with
  | EventBody.key k => st.trackKey k
  | EventBody.motion m => st.trackMotion m
  | EventBody.configurationChanged => (Consistency.CONSISTENT, st)

/-- The first loop of `synthesizeCancelationEvents`. -/
def synthesizeKeyCancelationEvents (now : Int) : List KeyMemento → State → List Nat × State
  | [], s => ([], s)
  | memento :: rest, s =>
    let r := obtainKeyEntry now memento.deviceId memento.source 0 AKEY_EVENT_ACTION_UP
      AKEY_EVENT_FLAG_CANCELED memento.keyCode memento.scanCode 0 0 memento.downTime s
    let r2 := synthesizeKeyCancelationEvents now rest r.2
    (r.1 :: r2.1, r2.2)

/-- The second loop of `synthesizeCancelationEvents`. -/
def synthesizeMotionCancelationEvents (now : Int) :
    List MotionMemento → State → List Nat × State
  | [], s => ([], s)
  | memento :: rest, s =>
    let r := obtainMotionEntry now memento.deviceId memento.source 0 AMOTION_EVENT_ACTION_CANCEL
      0 0 0 memento.xPrecision memento.yPrecision memento.downTime memento.pointerCount
      memento.pointerIds memento.pointerCoords s
    let r2 := synthesizeMotionCancelationEvents now rest r.2
    (r.1 :: r2.1, r2.2)

/-- Pushes the cancelation events for the mementos of `st` (keys, then motions) onto
`outEvents`. -/
def InputState.synthesizeCancelationEvents (st : InputState) (now : Int) (s : State) :
    List Nat × State :=
  let r := synthesizeKeyCancelationEvents now st.mKeyMementos s
  let r2 := synthesizeMotionCancelationEvents now st.mMotionMementos r.2
  (r.1 ++ r2.1, r2.2)

/-! ## DispatchEntry and Connection -/

def DispatchEntry.isSyncTarget (d : DispatchEntry) : Bool :=
  d.targetFlags &&& InputTarget.FLAG_SYNC != 0

/-- Executes `targetFlags &= ~ FLAG_SYNC` on a 32-bit word. -/
def DispatchEntry.preemptSyncTarget (d : DispatchEntry) : DispatchEntry :=
  { d with targetFlags := d.targetFlags &&& (0xFFFFFFFF ^^^ InputTarget.FLAG_SYNC) }

/-- The state of a connection made by `new Connection(inputChannel)`. -/
def Connection.new (inputChannel : InputChannel) : Connection :=
  { status := Status.STATUS_NORMAL
    inputChannel := inputChannel
    inputPublisher := []
    inputState := { mIsOutOfSync := false, mKeyMementos := [], mMotionMementos := [] }
    outboundQueue := []
    nextTimeoutTime := LONG_LONG_MAX
    lastEventTime := LONG_LONG_MAX
    lastDispatchTime := LONG_LONG_MAX
    lastANRTime := LONG_LONG_MAX }

def Connection.setNextTimeoutTime (c : Connection) (currentTime timeout : Int) : Connection :=
  { c with nextTimeoutTime := if timeout ≥ 0 then currentTime + timeout else LONG_LONG_MAX }

def Connection.resetTimeout (c : Connection) (currentTime : Int) : Connection :=
  match c.outboundQueue with
  | [] => { c with nextTimeoutTime := LONG_LONG_MAX }
  | head :: _ => c.setNextTimeoutTime currentTime head.timeout

/-- Walks the queue from the tail; the result is the position (from the head) of the
entry found. -/
def findQueuedFrom (eventEntry : Nat) : List DispatchEntry → Option Nat
  | [] => none
  | d :: rest =>
    match findQueuedFrom eventEntry rest with
    | some i => some (i + 1)
    | none => if d.eventEntry = eventEntry then some 0 else none

def Connection.findQueuedDispatchEntryForEvent (c : Connection) (eventEntry : Nat) : Option Nat :=
  findQueuedFrom eventEntry c.outboundQueue

def Connection.hasPendingSyncTarget (c : Connection) : Bool :=
  match c.outboundQueue.getLast? with
  | none => false
  | some d => d.isSyncTarget

/-- Makes the tail of the outbound queue asynchronous. -/
def Connection.preemptSyncTarget (c : Connection) : Connection :=
  let queue := modifyAt DispatchEntry.preemptSyncTarget (c.outboundQueue.length - 1) c.outboundQueue
  { c with outboundQueue := queue }

/-! ## Commands and target bookkeeping -/

/-- Appends a command to the command queue (the caller has filled in its parameters). -/
def postCommandLocked (commandEntry : CommandEntry) (s : State) : State :=
  { s with mCommandQueue := s.mCommandQueue ++ [commandEntry] }

/-- Reads through an `InputWindow*`. -/
def State.window (s : State) (window : Nat) : InputWindow :=
  s.mWindows.getD window default

def startFindingTargetsLocked (s : State) : State :=
  { s with
    mCurrentInputTargetsValid := false
    mCurrentInputTargets := []
    mCurrentInputChannel := none
    mInputTargetWaitCause := InputTargetWaitCause.INPUT_TARGET_WAIT_CAUSE_NONE }

def finishFindingTargetsLocked (window : Nat) (s : State) : State :=
  { s with
    mCurrentInputWindowType := (s.window window).layoutParamsType
    mCurrentInputChannel := some (s.window window).inputChannel
    mCurrentInputTargetsValid := true }

def handleTargetsNotReadyLocked (currentTime : Int) (application : Option InputApplication)
    (window : Option Nat) (s : State) : Int × State :=
  let s1 : State :=
    if application.isNone && window.isNone then
      if s.mInputTargetWaitCause ≠ InputTargetWaitCause.INPUT_TARGET_WAIT_CAUSE_SYSTEM_NOT_READY then
        { s with
          mInputTargetWaitCause := InputTargetWaitCause.INPUT_TARGET_WAIT_CAUSE_SYSTEM_NOT_READY
          mInputTargetWaitStartTime := currentTime
          mInputTargetWaitTimeoutTime := LONG_LONG_MAX
          mInputTargetWaitTimeoutExpired := false }
      else s
    else
      if s.mInputTargetWaitCause ≠
          InputTargetWaitCause.INPUT_TARGET_WAIT_CAUSE_APPLICATION_NOT_READY then
        let timeout : Int :=
          match window with
          | some w => (s.window w).dispatchingTimeout
          | none =>
            match application with
            | some a => a.dispatchingTimeout
            | none => DEFAULT_INPUT_DISPATCHING_TIMEOUT
        { s with
          mInputTargetWaitCause := InputTargetWaitCause.INPUT_TARGET_WAIT_CAUSE_APPLICATION_NOT_READY
          mInputTargetWaitStartTime := currentTime
          mInputTargetWaitTimeoutTime := currentTime + timeout
          mInputTargetWaitTimeoutExpired := false }
      else s
  if s1.mInputTargetWaitTimeoutExpired then
    (INPUT_EVENT_INJECTION_TIMED_OUT, s1)
  else if currentTime ≥ s1.mInputTargetWaitTimeoutTime then
    let commandEntry : CommandEntry :=
      { obtainCommandEntry Command.doTargetsNotReadyTimeoutLockedInterruptible with
        inputApplicationHandle := application.map (fun a => a.handle)
        inputChannel := window.map (fun w => (s1.window w).inputChannel) }
    (INPUT_EVENT_INJECTION_PENDING,
      { postCommandLocked commandEntry s1 with nextWakeupTime := LONG_LONG_MIN })
  else
    (INPUT_EVENT_INJECTION_PENDING,
      if s1.mInputTargetWaitTimeoutTime < s1.nextWakeupTime then
        { s1 with nextWakeupTime := s1.mInputTargetWaitTimeoutTime }
      else s1)

def resumeAfterTargetsNotReadyTimeoutLocked (env : Env) (newTimeout : Int) (s : State) : State :=
  if newTimeout > 0 then
    { s with mInputTargetWaitTimeoutTime := env.now + newTimeout }
  else
    { s with mInputTargetWaitTimeoutExpired := true }

def getTimeSpentWaitingForApplicationWhileFindingTargetsLocked (currentTime : Int) (s : State) :
    Int :=
  if s.mInputTargetWaitCause = InputTargetWaitCause.INPUT_TARGET_WAIT_CAUSE_APPLICATION_NOT_READY then
    currentTime - s.mInputTargetWaitStartTime
  else 0

def releaseTouchedWindowLocked (s : State) : State :=
  { s with
    mTouchedWindow := none
    mTouchedWindowIsObscured := false
    mTouchedWallpaperWindows := [] }

def addWindowTargetLocked (window : Nat) (targetFlags : Nat)
    (timeSpentWaitingForApplication : Int) (s : State) : State :=
  let target : InputTarget :=
    { inputChannel := (s.window window).inputChannel
      flags := targetFlags
      timeout := (s.window window).dispatchingTimeout
      timeSpentWaitingForApplication := timeSpentWaitingForApplication
      xOffset := - (s.window window).frameLeft
      yOffset := - (s.window window).frameTop }
  { s with mCurrentInputTargets := s.mCurrentInputTargets ++ [target] }

/-- The target pushed for one monitoring channel. -/
def monitoringTarget (inputChannel : InputChannel) : InputTarget :=
  { inputChannel := inputChannel
    flags := 0
    timeout := -1
    timeSpentWaitingForApplication := 0
    xOffset := 0
    yOffset := 0 }

def addMonitoringTargetsLocked (s : State) : State :=
  { s with mCurrentInputTargets := s.mCurrentInputTargets ++ s.mMonitoringChannels.map monitoringTarget }

def checkInjectionPermission (env : Env) (window : Option Nat) (injectorPid injectorUid : Int)
    (s : State) : Bool :=
  let otherOwner : Bool :=
    match window with
    | none => true
    | some w => decide ((s.window w).ownerUid ≠ injectorUid)
  if decide (injectorUid > 0) && otherOwner then
    env.checkInjectEventsPermissionNonReentrant injectorPid injectorUid
  else true

/-- The loop of `isWindowObscuredLocked`, at window `i` with `rest` still to visit. -/
def isWindowObscuredFrom (w : InputWindow) (window : Nat) : List InputWindow → Nat → Bool
  | [], _ => false
  | other :: rest, i =>
    if i = window then false
    else if other.visible && w.visibleFrameIntersects other then true
    else isWindowObscuredFrom w window rest (i + 1)

def isWindowObscuredLocked (window : Nat) (s : State) : Bool :=
  isWindowObscuredFrom (s.window window) window s.mWindows 0

def pokeUserActivityLocked (eventTime : Int) (windowType eventType : Int) (s : State) : State :=
  postCommandLocked
    { obtainCommandEntry Command.doPokeUserActivityLockedInterruptible with
      eventTime := eventTime
      windowType := windowType
      userActivityEventType := eventType } s

/-! ## Focused-window selection -/

/-- The body of `findFocusedWindowLocked` after the out-window and the current targets
have been cleared. -/
def findFocusedWindowBody (env : Env) (currentTime : Int) (entry : EventEntry) (s : State) :
    Int × Option Nat × State :=
  match s.mFocusedWindow with
  | none =>
    match s.mFocusedApplication with
    | some application =>
      let r := handleTargetsNotReadyLocked currentTime (some application) none s
      (r.1, none, r.2)
    | none => (INPUT_EVENT_INJECTION_FAILED, none, s)
  | some focused =>
    if ! checkInjectionPermission env (some focused) entry.injectorPid entry.injectorUid s then
      (INPUT_EVENT_INJECTION_PERMISSION_DENIED, none, s)
    else if (s.window focused).paused then
      let r := handleTargetsNotReadyLocked currentTime s.mFocusedApplication (some focused) s
      (r.1, none, r.2)
    else
      (INPUT_EVENT_INJECTION_SUCCEEDED, some focused,
        addWindowTargetLocked focused InputTarget.FLAG_SYNC
          (getTimeSpentWaitingForApplicationWhileFindingTargetsLocked currentTime s) s)

def findFocusedWindowLocked (env : Env) (currentTime : Int) (entry : EventEntry) (s : State) :
    Int × Option Nat × State :=
  findFocusedWindowBody env currentTime entry { s with mCurrentInputTargets := [] }

/-! ## Touched-window selection -/

inductive InjectionPermission where
  | INJECTION_PERMISSION_UNKNOWN
  | INJECTION_PERMISSION_GRANTED
  | INJECTION_PERMISSION_DENIED
deriving DecidableEq, Repr

/-- The locals of the window loop of case 1 (`mTempTouchedOutsideTargets` included). -/
structure TouchScan where
  newTouchedWindow : Option Nat
  obscured : Bool
  topErrorWindow : Option Nat
  outsideTargets : List OutsideTarget
deriving DecidableEq, Repr

/-- The front-to-back traversal of case 1, at window `i` with `window :: rest` still to
visit. -/
def scanWindows (s : State) (x y : Int) (screenWasOff : Bool) :
    List InputWindow → Nat → TouchScan → TouchScan
  | [], _, acc => acc
  | window :: rest, i, acc =>
    let flags := window.layoutParamsFlags
    let acc1 : TouchScan :=
      if flags &&& InputWindow.FLAG_SYSTEM_ERROR ≠ 0 ∧ acc.topErrorWindow = none then
        { acc with topErrorWindow := some i }
      else acc
    if window.visible then
      let isTouchModal : Bool :=
        flags &&& (InputWindow.FLAG_NOT_FOCUSABLE ||| InputWindow.FLAG_NOT_TOUCH_MODAL) == 0
      if flags &&& InputWindow.FLAG_NOT_TOUCHABLE = 0 ∧
          (isTouchModal || window.touchableAreaContainsPoint x y) = true then
        if (! screenWasOff) || (flags &&& InputWindow.FLAG_TOUCHABLE_WHEN_WAKING != 0) then
          { acc1 with newTouchedWindow := some i, obscured := isWindowObscuredLocked i s }
        else acc1
      else
        let acc2 : TouchScan :=
          if flags &&& InputWindow.FLAG_WATCH_OUTSIDE_TOUCH ≠ 0 then
            { acc1 with outsideTargets := acc1.outsideTargets ++
                [{ window := i, obscured := isWindowObscuredLocked i s }] }
          else acc1
        scanWindows s x y screenWasOff rest (i + 1) acc2
    else scanWindows s x y screenWasOff rest (i + 1) acc1

/-- The code from the label `Failed` to the label `Unresponsive`. -/
def findTouchedWindowFailed (env : Env) (action : Nat) (entry : EventEntry)
    (injectionResult : Int) (injectionPermission : InjectionPermission) (s : State) : State :=
  let injectionPermission1 : InjectionPermission :=
    if injectionPermission = InjectionPermission.INJECTION_PERMISSION_UNKNOWN then
      if checkInjectionPermission env
          (if action = AMOTION_EVENT_ACTION_DOWN then none else s.mTouchedWindow)
          entry.injectorPid entry.injectorUid s then
        InjectionPermission.INJECTION_PERMISSION_GRANTED
      else InjectionPermission.INJECTION_PERMISSION_DENIED
    else injectionPermission
  if injectionPermission1 = InjectionPermission.INJECTION_PERMISSION_GRANTED then
    if action = AMOTION_EVENT_ACTION_DOWN then
      let s1 : State := if s.mTouchDown then s else { s with mTouchDown := true }
      if injectionResult ≠ INPUT_EVENT_INJECTION_SUCCEEDED then releaseTouchedWindowLocked s1
      else s1
    else if action = AMOTION_EVENT_ACTION_UP then
      releaseTouchedWindowLocked { s with mTouchDown := false }
    else s
  else s

/-- The targets pushed for the touched wallpaper windows. -/
def addWallpaperTargets : List Nat → State → State
  | [], s => s
  | window :: rest, s =>
    addWallpaperTargets rest (addWindowTargetLocked window InputTarget.FLAG_WINDOW_IS_OBSCURED 0 s)

/-- The flags of the target pushed for an outside target. -/
def outsideTargetFlags (outsideTarget : OutsideTarget) : Nat :=
  if outsideTarget.obscured then InputTarget.FLAG_OUTSIDE ||| InputTarget.FLAG_WINDOW_IS_OBSCURED
  else InputTarget.FLAG_OUTSIDE

/-- The targets pushed for the outside targets. -/
def addOutsideTargets : List OutsideTarget → State → State
  | [], s => s
  | outsideTarget :: rest, s =>
    addOutsideTargets rest
      (addWindowTargetLocked outsideTarget.window (outsideTargetFlags outsideTarget) 0 s)

/-- The block after "Success!  Output targets." up to the label `Failed`. -/
def findTouchedWindowOutput (currentTime : Int) (s : State) : Option Nat × State :=
  let s1 := addWallpaperTargets s.mTouchedWallpaperWindows s
  let s2 := addOutsideTargets s1.mTempTouchedOutsideTargets s1
  let s3 : State := { s2 with mTempTouchedOutsideTargets := [] }
  let targetFlags : Nat :=
    if s3.mTouchedWindowIsObscured then InputTarget.FLAG_SYNC ||| InputTarget.FLAG_WINDOW_IS_OBSCURED
    else InputTarget.FLAG_SYNC
  match s3.mTouchedWindow with
  | some touched =>
    (some touched, addWindowTargetLocked touched targetFlags
      (getTimeSpentWaitingForApplicationWhileFindingTargetsLocked currentTime s3) s3)
  | none => (none, s3)

/-- The exit through "Success!  Output targets.": the output block, then the code at
the label `Failed`. -/
def findTouchedWindowSucceeded (env : Env) (currentTime : Int) (action : Nat)
    (entry : EventEntry) (s : State) : Int × Option Nat × State :=
  let out := findTouchedWindowOutput currentTime s
  (INPUT_EVENT_INJECTION_SUCCEEDED, out.1,
    findTouchedWindowFailed env action entry INPUT_EVENT_INJECTION_SUCCEEDED
      InjectionPermission.INJECTION_PERMISSION_GRANTED out.2)

/-- Case 1 of `findTouchedWindowLocked`: ACTION_DOWN. -/
def findTouchedWindowDown (env : Env) (currentTime : Int) (entry : EventEntry)
    (motion : MotionEntry) (s : State) : Int × Option Nat × State :=
  let screenWasOff : Bool := false
  let x : Int := (motion.firstSample.pointerCoords.getD 0 default).x
  let y : Int := (motion.firstSample.pointerCoords.getD 0 default).y
  let scan := scanWindows s x y screenWasOff s.mWindows 0
    { newTouchedWindow := none, obscured := false, topErrorWindow := none, outsideTargets := [] }
  let s1 : State := { s with mTempTouchedOutsideTargets := scan.outsideTargets }
  if scan.topErrorWindow ≠ none ∧ scan.newTouchedWindow ≠ scan.topErrorWindow then
    let r := handleTargetsNotReadyLocked currentTime none none s1
    (r.1, none, r.2)
  else
    match scan.newTouchedWindow with
    | none =>
      match s1.mFocusedApplication with
      | some application =>
        let r := handleTargetsNotReadyLocked currentTime (some application) none s1
        (r.1, none, r.2)
      | none =>
        (INPUT_EVENT_INJECTION_FAILED, none,
          findTouchedWindowFailed env motion.action entry INPUT_EVENT_INJECTION_FAILED
            InjectionPermission.INJECTION_PERMISSION_UNKNOWN s1)
    | some newTouchedWindow =>
      if ! checkInjectionPermission env (some newTouchedWindow) entry.injectorPid
          entry.injectorUid s1 then
        (INPUT_EVENT_INJECTION_PERMISSION_DENIED, none,
          findTouchedWindowFailed env motion.action entry INPUT_EVENT_INJECTION_PERMISSION_DENIED
            InjectionPermission.INJECTION_PERMISSION_DENIED s1)
      else if (s1.window newTouchedWindow).paused then
        let r := handleTargetsNotReadyLocked currentTime none (some newTouchedWindow) s1
        (r.1, none, r.2)
      else
        let s2 := releaseTouchedWindowLocked s1
        let s3 : State :=
          { s2 with mTouchedWindow := some newTouchedWindow, mTouchedWindowIsObscured := scan.obscured }
        let s4 : State :=
          if (s3.window newTouchedWindow).hasWallpaper then
            { s3 with mTouchedWallpaperWindows := s3.mTouchedWallpaperWindows ++ s3.mWallpaperWindows }
          else s3
        findTouchedWindowSucceeded env currentTime motion.action entry s4

/-- Case 2 of `findTouchedWindowLocked`: everything but ACTION_DOWN. -/
def findTouchedWindowNotDown (env : Env) (currentTime : Int) (entry : EventEntry)
    (motion : MotionEntry) (s : State) : Int × Option Nat × State :=
  if ! checkInjectionPermission env s.mTouchedWindow entry.injectorPid entry.injectorUid s then
    (INPUT_EVENT_INJECTION_PERMISSION_DENIED, none,
      findTouchedWindowFailed env motion.action entry INPUT_EVENT_INJECTION_PERMISSION_DENIED
        InjectionPermission.INJECTION_PERMISSION_DENIED s)
  else if ! s.mTouchDown then
    (INPUT_EVENT_INJECTION_FAILED, none,
      findTouchedWindowFailed env motion.action entry INPUT_EVENT_INJECTION_FAILED
        InjectionPermission.INJECTION_PERMISSION_GRANTED s)
  else
    match s.mTouchedWindow with
    | none =>
      (INPUT_EVENT_INJECTION_FAILED, none,
        findTouchedWindowFailed env motion.action entry INPUT_EVENT_INJECTION_FAILED
          InjectionPermission.INJECTION_PERMISSION_GRANTED s)
    | some touched =>
      if (s.window touched).paused then
        let r := handleTargetsNotReadyLocked currentTime none (some touched) s
        (r.1, none, r.2)
      else findTouchedWindowSucceeded env currentTime motion.action entry s

/-- Clears the current targets, then runs case 1 for a DOWN and case 2 for every other
action.  Case 1 clears `mTempTouchedOutsideTargets` before its traversal, which is why
the traversal starts from an empty list. -/
def findTouchedWindowLocked (env : Env) (currentTime : Int) (entry : EventEntry)
    (motion : MotionEntry) (s : State) : Int × Option Nat × State :=
  let s0 : State := { s with mCurrentInputTargets := [] }
  if motion.action = AMOTION_EVENT_ACTION_DOWN then
    findTouchedWindowDown env currentTime entry motion s0
  else findTouchedWindowNotDown env currentTime entry motion s0

/-! ## The dispatch cycle of one connection -/

def getConnectionIndex (inputChannel : InputChannel) (s : State) : Option Nat :=
  s.mConnectionsByReceiveFd.lookup inputChannel

def activateConnectionLocked (connection : Nat) (s : State) : State :=
  if s.mActiveConnections.contains connection then s
  else { s with mActiveConnections := s.mActiveConnections ++ [connection] }

def deactivateConnectionLocked (connection : Nat) (s : State) : State :=
  { s with mActiveConnections := s.mActiveConnections.erase connection }

def setInjectionResultLocked (entry : Nat) (injectionResult : Int) (s : State) : State :=
  modifyEvent entry (fun e =>
    if e.isInjected then { e with injectionResult := injectionResult } else e) s

def decrementPendingSyncDispatchesLocked (entry : Nat) (s : State) : State :=
  modifyEvent entry (fun e => { e with pendingSyncDispatches := e.pendingSyncDispatches - 1 }) s

def onDispatchCycleFinishedLocked (connection : Nat) (recoveredFromANR : Bool) (s : State) :
    State :=
  if recoveredFromANR then
    postCommandLocked
      { obtainCommandEntry Command.doNotifyInputChannelRecoveredFromANRLockedInterruptible with
        connection := some connection } s
  else s

def onDispatchCycleANRLocked (connection : Nat) (s : State) : State :=
  postCommandLocked
    { obtainCommandEntry Command.doNotifyInputChannelANRLockedInterruptible with
      connection := some connection } s

def onDispatchCycleBrokenLocked (connection : Nat) (s : State) : State :=
  postCommandLocked
    { obtainCommandEntry Command.doNotifyInputChannelBrokenLockedInterruptible with
      connection := some connection } s

/-- The body of the loop of `drainOutboundQueueLocked` for the entries already taken
off the queue. -/
def drainEntries : List DispatchEntry → State → State
  | [], s => s
  | dispatchEntry :: rest, s =>
    let s1 :=
      if dispatchEntry.isSyncTarget then
        decrementPendingSyncDispatchesLocked dispatchEntry.eventEntry s
      else s
    drainEntries rest (releaseDispatchEntry dispatchEntry s1)

/-- Drains the outbound queue from the entry at position `firstDispatchEntryToDrain`
to the tail. -/
def drainOutboundQueueLocked (connection : Nat) (firstDispatchEntryToDrain : Nat) (s : State) :
    State :=
  match s.mConnections[connection]? with
  | none => s
  | some c =>
    let kept := c.outboundQueue.take firstDispatchEntryToDrain
    let s1 := modifyConnection connection (fun c => { c with outboundQueue := kept }) s
    let s2 := drainEntries (c.outboundQueue.drop firstDispatchEntryToDrain) s1
    if kept.isEmpty then deactivateConnectionLocked connection s2 else s2

def abortDispatchCycleLocked (connection : Nat) (broken : Bool) (s : State) : State :=
  let s1 := modifyConnection connection (fun c =>
    { c with nextTimeoutTime := LONG_LONG_MAX, inputState := c.inputState.setOutOfSync }) s
  let s2 := drainOutboundQueueLocked connection 0 s1
  match s2.mConnections[connection]? with
  | none => s2
  | some c =>
    if broken && (c.status == Status.STATUS_NORMAL || c.status == Status.STATUS_NOT_RESPONDING) then
      onDispatchCycleBrokenLocked connection
        (modifyConnection connection (fun c => { c with status := Status.STATUS_BROKEN }) s2)
    else s2

def timeoutDispatchCycleLocked (currentTime : Int) (connection : Nat) (s : State) : State :=
  match s.mConnections[connection]? with
  | none => s
  | some c =>
    if c.status = Status.STATUS_NORMAL then
      onDispatchCycleANRLocked connection
        (modifyConnection connection (fun c =>
          { c with status := Status.STATUS_NOT_RESPONDING, lastANRTime := currentTime }) s)
    else if c.status ≠ Status.STATUS_NOT_RESPONDING then s
    else onDispatchCycleANRLocked connection s

def resumeAfterTimeoutDispatchCycleLocked (currentTime : Int) (connection : Nat)
    (newTimeout : Int) (s : State) : State :=
  match s.mConnections[connection]? with
  | none => s
  | some c =>
    if c.status ≠ Status.STATUS_NOT_RESPONDING then s
    else if newTimeout > 0 then
      modifyConnection connection (fun c =>
        Connection.setNextTimeoutTime { c with status := Status.STATUS_NORMAL } currentTime
          newTimeout) s
    else
      let s1 := modifyConnection connection (fun c =>
        { c with nextTimeoutTime := LONG_LONG_MAX, inputState := c.inputState.setOutOfSync }) s
      if ! c.outboundQueue.isEmpty then
        let s2 := modifyConnection connection (fun c =>
          { c with outboundQueue := modifyAt DispatchEntry.preemptSyncTarget 0 c.outboundQueue }) s1
        drainOutboundQueueLocked connection 1 s2
      else s1

/-- Records calls made on the publisher of a connection. -/
def publisherCalled (connection : Nat) (calls : List PublisherCall) (s : State) : State :=
  modifyConnection connection (fun c => { c with inputPublisher := c.inputPublisher ++ calls }) s

/-- The loop of `startDispatchCycleLocked` that appends the samples after the first one;
`i` is the pointer to the sample at the head of the list.  The result is the last
status, the pointer `nextMotionSample` at the exit of the loop and the calls made. -/
def appendNextSamples (env : Env) (inputChannel : InputChannel) :
    List MotionSample → Nat → List PublisherCall → Int × Option Nat × List PublisherCall
  | [], _, calls => (OK, none, calls)
  | sample :: rest, i, calls =>
    let status := env.appendMotionSample inputChannel sample
    let calls1 := calls ++ [PublisherCall.appendMotionSample sample.eventTime sample.pointerCoords]
    if status = NO_MEMORY then (status, some i, calls1)
    else if status ≠ OK then (status, some i, calls1)
    else appendNextSamples env inputChannel rest (i + 1) calls1

/-- The tail of `startDispatchCycleLocked` from "Send the dispatch signal." on. -/
def sendDispatchSignalAndRecord (env : Env) (currentTime : Int) (connection : Nat)
    (timeSpentWaitingForApplication : Int) (dispatchEntry : DispatchEntry) (eventTime : Int)
    (s : State) : State :=
  let s1 := publisherCalled connection [PublisherCall.sendDispatchSignal] s
  match s1.mConnections[connection]? with
  | none => s1
  | some c =>
    if env.sendDispatchSignal c.inputChannel ≠ OK then
      abortDispatchCycleLocked connection true s1
    else
      let timeout := dispatchEntry.timeout - timeSpentWaitingForApplication
      modifyConnection connection (fun c =>
        Connection.setNextTimeoutTime
          { c with lastEventTime := eventTime, lastDispatchTime := currentTime }
          currentTime timeout) s1

/-- `FILTER_INPUT_EVENTS` is not defined, so the consistency that `trackEvent` returns is
not looked at. -/
def startDispatchCycleLocked (env : Env) (currentTime : Int) (connection : Nat)
    (timeSpentWaitingForApplication : Int) (s : State) : State :=
  match s.mConnections[connection]? with
  | none => s
  | some c =>
    match c.outboundQueue with
    | [] => s
    | head :: rest =>
      match s.mEvents[head.eventEntry]? with
      | none => s
      | some eventEntry =>
        let dispatchEntry : DispatchEntry := { head with inProgress := true }
        let s1 := modifyConnection connection (fun c =>
          { c with
            outboundQueue := dispatchEntry :: rest
            inputState := (c.inputState.trackEvent eventEntry).2 }) s
        match eventEntry.body with
        | EventBody.key keyEntry =>
          let flags : Nat :=
            if dispatchEntry.targetFlags &&& InputTarget.FLAG_CANCEL ≠ 0 then
              keyEntry.flags ||| AKEY_EVENT_FLAG_CANCELED
            else keyEntry.flags
          let s2 := publisherCalled connection
            [PublisherCall.publishKeyEvent keyEntry.deviceId keyEntry.source keyEntry.action
              flags keyEntry.keyCode keyEntry.scanCode keyEntry.metaState
              keyEntry.repeatCount keyEntry.downTime eventEntry.eventTime] s1
          if env.publishKeyEvent c.inputChannel ≠ OK then
            abortDispatchCycleLocked connection true s2
          else
            sendDispatchSignalAndRecord env currentTime connection
              timeSpentWaitingForApplication dispatchEntry eventEntry.eventTime s2
        | EventBody.motion motionEntry =>
          let action0 : Nat :=
            if dispatchEntry.targetFlags &&& InputTarget.FLAG_OUTSIDE ≠ 0 then
              AMOTION_EVENT_ACTION_OUTSIDE
            else motionEntry.action
          let action : Nat :=
            if dispatchEntry.targetFlags &&& InputTarget.FLAG_CANCEL ≠ 0 then
              AMOTION_EVENT_ACTION_CANCEL
            else action0
          let flags : Nat :=
            if dispatchEntry.targetFlags &&& InputTarget.FLAG_WINDOW_IS_OBSCURED ≠ 0 then
              motionEntry.flags ||| AMOTION_EVENT_FLAG_WINDOW_IS_OBSCURED
            else motionEntry.flags
          let firstMotionSample : Nat := dispatchEntry.headMotionSample.getD 0
          let firstSample : MotionSample :=
            (motionEntry.sampleAt firstMotionSample).getD motionEntry.firstSample
          let xOffset : Int :=
            if motionEntry.source &&& AINPUT_SOURCE_CLASS_POINTER ≠ 0 then dispatchEntry.xOffset
            else 0
          let yOffset : Int :=
            if motionEntry.source &&& AINPUT_SOURCE_CLASS_POINTER ≠ 0 then dispatchEntry.yOffset
            else 0
          let s2 := publisherCalled connection
            [PublisherCall.publishMotionEvent motionEntry.deviceId motionEntry.source action
              flags motionEntry.edgeFlags motionEntry.metaState xOffset yOffset
              motionEntry.xPrecision motionEntry.yPrecision motionEntry.downTime
              firstSample.eventTime motionEntry.pointerCount motionEntry.pointerIds
              firstSample.pointerCoords] s1
          if env.publishMotionEvent c.inputChannel ≠ OK then
            abortDispatchCycleLocked connection true s2
          else
            let r := appendNextSamples env c.inputChannel
              (motionEntry.nextSamples.drop firstMotionSample) (firstMotionSample + 1) []
            let s3 := publisherCalled connection r.2.2 s2
            if r.1 ≠ OK ∧ r.1 ≠ NO_MEMORY then
              abortDispatchCycleLocked connection true s3
            else
              let dispatchEntry1 : DispatchEntry := { dispatchEntry with tailMotionSample := r.2.1 }
              let s4 := modifyConnection connection (fun c =>
                { c with outboundQueue := modifyAt (fun _ => dispatchEntry1) 0 c.outboundQueue }) s3
              sendDispatchSignalAndRecord env currentTime connection
                timeSpentWaitingForApplication dispatchEntry1 eventEntry.eventTime s4
        | EventBody.configurationChanged =>
          sendDispatchSignalAndRecord env currentTime connection
            timeSpentWaitingForApplication dispatchEntry eventEntry.eventTime s1

/-- The `while` loop of `startNextDispatchCycleLocked`; every turn that does not return
takes one entry off the queue, so `fuel` = length of the queue + 1 turns are enough. -/
def startNextDispatchCycleLoop (env : Env) (currentTime : Int) (connection : Nat) :
    Nat → State → State
  | 0, s => s
  | fuel + 1, s =>
    match s.mConnections[connection]? with
    | none => s
    | some c =>
      match c.outboundQueue with
      | [] => deactivateConnectionLocked connection s
      | dispatchEntry :: rest =>
        if dispatchEntry.inProgress then
          if dispatchEntry.tailMotionSample.isSome then
            let dispatchEntry1 : DispatchEntry :=
              { dispatchEntry with
                inProgress := false
                headMotionSample := dispatchEntry.tailMotionSample
                tailMotionSample := none }
            startDispatchCycleLocked env currentTime connection 0
              (modifyConnection connection (fun c =>
                { c with outboundQueue := dispatchEntry1 :: rest }) s)
          else
            let s1 := modifyConnection connection (fun c => { c with outboundQueue := rest }) s
            let s2 :=
              if dispatchEntry.isSyncTarget then
                decrementPendingSyncDispatchesLocked dispatchEntry.eventEntry s1
              else s1
            startNextDispatchCycleLoop env currentTime connection fuel
              (releaseDispatchEntry dispatchEntry s2)
        else
          startDispatchCycleLocked env currentTime connection 0 s

def startNextDispatchCycleLocked (env : Env) (currentTime : Int) (connection : Nat) (s : State) :
    State :=
  match s.mConnections[connection]? with
  | none => s
  | some c =>
    startNextDispatchCycleLoop env currentTime connection (c.outboundQueue.length + 1) s

def finishDispatchCycleLocked (env : Env) (currentTime : Int) (connection : Nat) (s : State) :
    State :=
  match s.mConnections[connection]? with
  | none => s
  | some c =>
    if c.status = Status.STATUS_BROKEN ∨ c.status = Status.STATUS_ZOMBIE then s
    else
      let s1 := modifyConnection connection (fun c => { c with nextTimeoutTime := LONG_LONG_MAX }) s
      let s2 :=
        if c.status = Status.STATUS_NOT_RESPONDING then
          onDispatchCycleFinishedLocked connection true
            (modifyConnection connection (fun c => { c with status := Status.STATUS_NORMAL }) s1)
        else onDispatchCycleFinishedLocked connection false s1
      let s3 := publisherCalled connection [PublisherCall.reset] s2
      if env.reset c.inputChannel ≠ OK then
        abortDispatchCycleLocked connection true s3
      else startNextDispatchCycleLocked env currentTime connection s3

/-- The loop of `prepareDispatchCycleLocked` over `mTempCancelationEvents`. -/
def enqueueCancelationEvents (connection : Nat) (inputTarget : InputTarget) :
    List Nat → State → State
  | [], s => s
  | cancelationEventEntry :: rest, s =>
    let r := obtainDispatchEntry cancelationEventEntry 0 inputTarget.xOffset inputTarget.yOffset
      inputTarget.timeout s
    let s1 := modifyConnection connection (fun c =>
      { c with outboundQueue := c.outboundQueue ++ [r.1] }) r.2
    enqueueCancelationEvents connection inputTarget rest
      (releaseEventEntry cancelationEventEntry s1)

/-- The pointer `lastSample` of the motion event `eventEntry`. -/
def State.lastSampleOf (s : State) (eventEntry : Nat) : Nat :=
  match s.mEvents[eventEntry]? with
  | some e =>
    match e.body with
    | EventBody.motion m => m.lastSample
    | _ => 0
  | none => 0

/-- The sample that the pointer `sample` of the motion event `eventEntry` points to. -/
def State.sampleOf (s : State) (eventEntry : Nat) (sample : Nat) : MotionSample :=
  match s.mEvents[eventEntry]? with
  | some e =>
    match e.body with
    | EventBody.motion m => (m.sampleAt sample).getD m.firstSample
    | _ => default
  | none => default

/-- The part of `prepareDispatchCycleLocked` from "Bring the input state back in line with
reality" to its end: the cancelation events, the new dispatch entry, and the start of
the cycle when the queue was empty.  `c` is the connection as it was on entry. -/
def prepareDispatchCycleEnqueue (env : Env) (currentTime : Int) (connection : Nat)
    (eventEntry : Nat) (inputTarget : InputTarget) (resumeWithAppendedMotionSample : Bool)
    (c : Connection) (s : State) : State :=
  let wasEmpty : Bool := c.outboundQueue.isEmpty
  let s1 : State :=
    if c.inputState.isOutOfSync then
      let r := c.inputState.synthesizeCancelationEvents env.now s
      let s2 := modifyConnection connection (fun c =>
        { c with inputState := c.inputState.resetOutOfSync }) r.2
      enqueueCancelationEvents connection inputTarget r.1 s2
    else s
  let r := obtainDispatchEntry eventEntry inputTarget.flags inputTarget.xOffset
    inputTarget.yOffset inputTarget.timeout s1
  let s3 : State :=
    if r.1.isSyncTarget then
      modifyEvent eventEntry (fun e =>
        { e with pendingSyncDispatches := e.pendingSyncDispatches + 1 }) r.2
    else r.2
  let dispatchEntry : DispatchEntry :=
    if resumeWithAppendedMotionSample then
      { r.1 with headMotionSample := some (s3.lastSampleOf eventEntry) }
    else r.1
  let s4 := modifyConnection connection (fun c =>
    { c with outboundQueue := c.outboundQueue ++ [dispatchEntry] }) s3
  if wasEmpty then
    startDispatchCycleLocked env currentTime connection
      inputTarget.timeSpentWaitingForApplication (activateConnectionLocked connection s4)
  else s4

def prepareDispatchCycleLocked (env : Env) (currentTime : Int) (connection : Nat)
    (eventEntry : Nat) (inputTarget : InputTarget) (resumeWithAppendedMotionSample : Bool)
    (s : State) : State :=
  match s.mConnections[connection]? with
  | none => s
  | some c =>
    if c.status ≠ Status.STATUS_NORMAL then
      if c.status = Status.STATUS_NOT_RESPONDING then
        timeoutDispatchCycleLocked currentTime connection s
      else s
    else
      let wasEmpty : Bool := c.outboundQueue.isEmpty
      if ! wasEmpty && resumeWithAppendedMotionSample then
        match c.findQueuedDispatchEntryForEvent eventEntry with
        | some position =>
          match c.outboundQueue[position]? with
          | none => s
          | some motionEventDispatchEntry =>
            if ! motionEventDispatchEntry.inProgress then s
            else if motionEventDispatchEntry.tailMotionSample.isSome then s
            else
              let appendedMotionSample := s.lastSampleOf eventEntry
              let sample := s.sampleOf eventEntry appendedMotionSample
              let s1 := publisherCalled connection
                [PublisherCall.appendMotionSample sample.eventTime sample.pointerCoords] s
              if env.appendMotionSample c.inputChannel sample = OK then s1
              else
                let setTail (d : DispatchEntry) : DispatchEntry :=
                  { d with tailMotionSample := some appendedMotionSample }
                modifyConnection connection (fun c =>
                  { c with outboundQueue := modifyAt setTail position c.outboundQueue }) s1
        | none =>
          prepareDispatchCycleEnqueue env currentTime connection eventEntry inputTarget
            resumeWithAppendedMotionSample c s
      else
        prepareDispatchCycleEnqueue env currentTime connection eventEntry inputTarget
          resumeWithAppendedMotionSample c s

/-- The loop of `dispatchEventToCurrentInputTargetsLocked` over the targets not yet
served. -/
def dispatchEventToTargets (env : Env) (currentTime : Int) (eventEntry : Nat)
    (resumeWithAppendedMotionSample : Bool) : List InputTarget → State → State
  | [], s => s
  | inputTarget :: rest, s =>
    let s1 :=
      match getConnectionIndex inputTarget.inputChannel s with
      | some connection =>
        prepareDispatchCycleLocked env currentTime connection eventEntry inputTarget
          resumeWithAppendedMotionSample s
      | none => s
    dispatchEventToTargets env currentTime eventEntry resumeWithAppendedMotionSample rest s1

def dispatchEventToCurrentInputTargetsLocked (env : Env) (currentTime : Int) (eventEntry : Nat)
    (resumeWithAppendedMotionSample : Bool) (s : State) : State :=
  dispatchEventToTargets env currentTime eventEntry resumeWithAppendedMotionSample
    s.mCurrentInputTargets s

/-! ## Inbound events -/

def isAppSwitchKey (keyCode : Int) : Bool :=
  keyCode == AKEYCODE_HOME || keyCode == AKEYCODE_ENDCALL

def isAppSwitchPendingLocked (s : State) : Bool :=
  s.mAppSwitchDueTime != LONG_LONG_MAX

def isEventFromReliableSourceLocked (env : Env) (entry : EventEntry) : Bool :=
  (! entry.isInjected) || entry.injectorUid == 0
    || env.checkInjectEventsPermissionNonReentrant entry.injectorPid entry.injectorUid

def detectPendingAppSwitchLocked (env : Env) (inboundKeyEntry : EventEntry) (k : KeyEntry)
    (s : State) : Bool × State :=
  if k.action == AKEY_EVENT_ACTION_UP && (k.flags &&& AKEY_EVENT_FLAG_CANCELED == 0)
      && isAppSwitchKey k.keyCode && isEventFromReliableSourceLocked env inboundKeyEntry then
    (true, { s with mAppSwitchDueTime := inboundKeyEntry.eventTime + APP_SWITCH_TIMEOUT })
  else (false, s)

def resetPendingAppSwitchLocked (_handled : Bool) (s : State) : State :=
  { s with mAppSwitchDueTime := LONG_LONG_MAX }

def enqueueInboundEventLocked (env : Env) (entry : Nat) (s : State) : Bool × State :=
  let needWake : Bool := s.mInboundQueue.isEmpty
  let s1 : State := { s with mInboundQueue := s.mInboundQueue ++ [entry] }
  match s1.mEvents[entry]? with
  | some e =>
    match e.body with
    | EventBody.key k =>
      let r := detectPendingAppSwitchLocked env e k s1
      (needWake || r.1, r.2)
    | _ => (needWake, s1)
  | none => (needWake, s1)

def releaseInboundEventLocked (entry : Nat) (wasDropped : Bool) (s : State) : State :=
  releaseEventEntry entry
    (if wasDropped then setInjectionResultLocked entry INPUT_EVENT_INJECTION_FAILED s else s)

/-- The loop of `drainInboundQueueLocked` over the entries of the inbound queue. -/
def drainInboundEntries : List Nat → State → State
  | [], s => s
  | entry :: rest, s => drainInboundEntries rest (releaseInboundEventLocked entry true s)

def drainInboundQueueLocked (s : State) : State :=
  drainInboundEntries s.mInboundQueue { s with mInboundQueue := [] }

def releasePendingEventLocked (wasDropped : Bool) (s : State) : State :=
  match s.mPendingEvent with
  | some entry => { releaseInboundEventLocked entry wasDropped s with mPendingEvent := none }
  | none => s

/-! ## Key repeat -/

def resetKeyRepeatLocked (s : State) : State :=
  match s.mKeyRepeatState.lastKeyEntry with
  | some entry =>
    { releaseKeyEntry entry s with
      mKeyRepeatState := { s.mKeyRepeatState with lastKeyEntry := none } }
  | none => s

/-- Writes the `KeyEntry` fields of the event `entry`. -/
def modifyKey (entry : Nat) (f : KeyEntry → KeyEntry) (s : State) : State :=
  modifyEvent entry (fun e =>
    match e.body with
    | EventBody.key k => { e with body := EventBody.key (f k) }
    | _ => e) s

/-- Reads the `KeyEntry` fields of the event `entry`. -/
def State.keyOf (s : State) (entry : Nat) : Option (EventEntry × KeyEntry) :=
  match s.mEvents[entry]? with
  | some e =>
    match e.body with
    | EventBody.key k => some (e, k)
    | _ => none
  | none => none

def synthesizeKeyRepeatLocked (currentTime keyRepeatDelay : Int) (s : State) :
    Option Nat × State :=
  match s.mKeyRepeatState.lastKeyEntry with
  | none => (none, s)
  | some entry =>
    match s.keyOf entry with
    | none => (none, s)
    | some (e, k) =>
      let policyFlags : Nat := k.policyFlags &&& POLICY_FLAG_RAW_MASK
      let r : Nat × State :=
        if e.refCount = 1 then
          let s1 := modifyEvent entry (fun e => { e.recycle with eventTime := currentTime }) s
          (entry, modifyKey entry (fun k =>
            { k.recycle with policyFlags := policyFlags, repeatCount := k.repeatCount + 1 }) s1)
        else
          let r1 := obtainKeyEntry currentTime k.deviceId k.source policyFlags k.action k.flags
            k.keyCode k.scanCode k.metaState (k.repeatCount + 1) k.downTime s
          let s1 : State :=
            { r1.2 with mKeyRepeatState := { r1.2.mKeyRepeatState with lastKeyEntry := some r1.1 } }
          (r1.1, releaseKeyEntry entry s1)
      let s2 := modifyKey r.1 (fun k => { k with syntheticRepeat := true }) r.2
      let s3 := modifyEvent r.1 (fun e => { e with refCount := e.refCount + 1 }) s2
      let s4 := modifyKey r.1 (fun k =>
        if k.repeatCount = 1 then { k with flags := k.flags ||| AKEY_EVENT_FLAG_LONG_PRESS }
        else k) s3
      (some r.1,
        { s4 with
          mKeyRepeatState := { s4.mKeyRepeatState with nextRepeatTime := currentTime + keyRepeatDelay } })

/-! ## Dispatching the pending event -/

def dispatchConfigurationChangedLocked (_currentTime : Int) (entry : Nat) (s : State) :
    Bool × State :=
  let s1 := resetKeyRepeatLocked s
  let eventTime : Int :=
    match s1.mEvents[entry]? with
    | some e => e.eventTime
    | none => 0
  (true, postCommandLocked
    { obtainCommandEntry Command.doNotifyConfigurationChangedInterruptible with
      eventTime := eventTime } s1)

/-- The preprocessing block of `dispatchKeyLocked` (run when the entry is not yet in
progress). -/
def dispatchKeyPreprocess (entry : Nat) (keyRepeatTimeout : Int) (s : State) : State :=
  match s.keyOf entry with
  | none => s
  | some (e, k) =>
    let s1 : State :=
      if k.repeatCount = 0 ∧ k.action = AKEY_EVENT_ACTION_DOWN ∧ e.isInjected = false then
        let last : Option KeyEntry :=
          match s.mKeyRepeatState.lastKeyEntry with
          | some lastKeyEntry => (s.keyOf lastKeyEntry).map (fun r => r.2)
          | none => none
        let s2 : State :=
          match last with
          | some lastKey =>
            if lastKey.keyCode = k.keyCode then
              let s3 := modifyKey entry (fun k => { k with repeatCount := lastKey.repeatCount + 1 }) s
              let s4 := resetKeyRepeatLocked s3
              { s4 with mKeyRepeatState := { s4.mKeyRepeatState with nextRepeatTime := LONG_LONG_MAX } }
            else
              let s4 := resetKeyRepeatLocked s
              { s4 with
                mKeyRepeatState :=
                  { s4.mKeyRepeatState with nextRepeatTime := e.eventTime + keyRepeatTimeout } }
          | none =>
            let s4 := resetKeyRepeatLocked s
            { s4 with
              mKeyRepeatState :=
                { s4.mKeyRepeatState with nextRepeatTime := e.eventTime + keyRepeatTimeout } }
        let s5 : State :=
          { s2 with mKeyRepeatState := { s2.mKeyRepeatState with lastKeyEntry := some entry } }
        modifyEvent entry (fun e => { e with refCount := e.refCount + 1 }) s5
      else if ! k.syntheticRepeat then resetKeyRepeatLocked s
      else s
    startFindingTargetsLocked
      (modifyEvent entry (fun e => { e with dispatchInProgress := true }) s1)

/-- The part of `dispatchKeyLocked` after the targets have been identified. -/
def dispatchKeyToTargets (env : Env) (currentTime : Int) (entry : Nat) (s : State) :
    Bool × State :=
  match s.keyOf entry with
  | none => (true, s)
  | some (e, k) =>
    if k.interceptKeyResult = InterceptKeyResult.INTERCEPT_KEY_RESULT_UNKNOWN then
      let s1 := postCommandLocked
        { obtainCommandEntry Command.doInterceptKeyBeforeDispatchingLockedInterruptible with
          inputChannel := s.mCurrentInputChannel
          keyEntry := some entry } s
      (false, modifyEvent entry (fun e => { e with refCount := e.refCount + 1 }) s1)
    else if k.interceptKeyResult = InterceptKeyResult.INTERCEPT_KEY_RESULT_SKIP then
      (true, s)
    else
      let s1 := dispatchEventToCurrentInputTargetsLocked env currentTime entry false s
      (true, pokeUserActivityLocked e.eventTime s1.mCurrentInputWindowType
        POWER_MANAGER_BUTTON_EVENT s1)

def dispatchKeyLocked (env : Env) (currentTime : Int) (entry : Nat) (keyRepeatTimeout : Int)
    (s : State) : Bool × State :=
  match s.mEvents[entry]? with
  | none => (true, s)
  | some e0 =>
    let s1 := if ! e0.dispatchInProgress then dispatchKeyPreprocess entry keyRepeatTimeout s else s
    if ! s1.mCurrentInputTargetsValid then
      match s1.mEvents[entry]? with
      | none => (true, s1)
      | some e =>
        let r := findFocusedWindowLocked env currentTime e s1
        if r.1 = INPUT_EVENT_INJECTION_PENDING then (false, r.2.2)
        else
          let s2 := setInjectionResultLocked entry r.1 r.2.2
          if r.1 ≠ INPUT_EVENT_INJECTION_SUCCEEDED then (true, s2)
          else
            match r.2.1 with
            | none => (true, s2)
            | some window =>
              dispatchKeyToTargets env currentTime entry
                (finishFindingTargetsLocked window (addMonitoringTargetsLocked s2))
    else dispatchKeyToTargets env currentTime entry s1

/-- The part of `dispatchMotionLocked` after the targets have been identified. -/
def dispatchMotionToTargets (env : Env) (currentTime : Int) (entry : Nat) (e : EventEntry)
    (m : MotionEntry) (s : State) : Bool × State :=
  let isPointerEvent : Bool := m.source &&& AINPUT_SOURCE_CLASS_POINTER != 0
  let s1 := dispatchEventToCurrentInputTargetsLocked env currentTime entry false s
  let eventType : Int :=
    if isPointerEvent then
      if m.action = AMOTION_EVENT_ACTION_DOWN then POWER_MANAGER_TOUCH_EVENT
      else if m.action = AMOTION_EVENT_ACTION_UP then POWER_MANAGER_TOUCH_UP_EVENT
      else if e.eventTime - m.downTime ≥ EVENT_IGNORE_DURATION then POWER_MANAGER_TOUCH_EVENT
      else POWER_MANAGER_LONG_TOUCH_EVENT
    else POWER_MANAGER_BUTTON_EVENT
  (true, pokeUserActivityLocked e.eventTime s1.mCurrentInputWindowType eventType s1)

def dispatchMotionLocked (env : Env) (currentTime : Int) (entry : Nat) (s : State) :
    Bool × State :=
  match s.mEvents[entry]? with
  | none => (true, s)
  | some e0 =>
    let s1 :=
      if ! e0.dispatchInProgress then
        startFindingTargetsLocked
          (modifyEvent entry (fun e => { e with dispatchInProgress := true }) s)
      else s
    match s1.mEvents[entry]? with
    | none => (true, s1)
    | some e =>
      match e.body with
      | EventBody.motion m =>
        let isPointerEvent : Bool := m.source &&& AINPUT_SOURCE_CLASS_POINTER != 0
        if ! s1.mCurrentInputTargetsValid then
          let r :=
            if isPointerEvent then findTouchedWindowLocked env currentTime e m s1
            else findFocusedWindowLocked env currentTime e s1
          if r.1 = INPUT_EVENT_INJECTION_PENDING then (false, r.2.2)
          else
            let s2 := setInjectionResultLocked entry r.1 r.2.2
            if r.1 ≠ INPUT_EVENT_INJECTION_SUCCEEDED then (true, s2)
            else
              match r.2.1 with
              | none => (true, s2)
              | some window =>
                dispatchMotionToTargets env currentTime entry e m
                  (finishFindingTargetsLocked window (addMonitoringTargetsLocked s2))
        else dispatchMotionToTargets env currentTime entry e m s1
      | _ => (true, s1)

/-! ## One pass of the dispatch loop -/

/-- The locals that the first loop of `dispatchOnceInnerLocked` builds. -/
structure ConnectionScan where
  havePendingSyncTarget : Bool
  timedOutConnections : List Nat
deriving DecidableEq, Repr

/-- The loop of `dispatchOnceInnerLocked` over the active connections. -/
def scanActiveConnections (currentTime : Int) (isAppSwitchDue : Bool) :
    List Nat → ConnectionScan → State → ConnectionScan × State
  | [], acc, s => (acc, s)
  | connection :: rest, acc, s =>
    match s.mConnections[connection]? with
    | none => scanActiveConnections currentTime isAppSwitchDue rest acc s
    | some c =>
      let r : ConnectionScan × State :=
        if c.hasPendingSyncTarget then
          if isAppSwitchDue then
            (acc, modifyConnection connection Connection.preemptSyncTarget s)
          else ({ acc with havePendingSyncTarget := true }, s)
        else (acc, s)
      let connectionTimeoutTime := c.nextTimeoutTime
      if connectionTimeoutTime ≤ currentTime then
        scanActiveConnections currentTime isAppSwitchDue rest
          { r.1 with timedOutConnections := r.1.timedOutConnections ++ [connection] } r.2
      else if connectionTimeoutTime < r.2.nextWakeupTime then
        scanActiveConnections currentTime isAppSwitchDue rest r.1
          { r.2 with nextWakeupTime := connectionTimeoutTime }
      else scanActiveConnections currentTime isAppSwitchDue rest r.1 r.2

/-- The loop of `dispatchOnceInnerLocked` over the timed out connections. -/
def timeoutConnections (currentTime : Int) : List Nat → State → State
  | [], s => s
  | connection :: rest, s =>
    timeoutConnections currentTime rest
      { timeoutDispatchCycleLocked currentTime connection s with nextWakeupTime := LONG_LONG_MIN }

/-- The `switch` of `dispatchOnceInnerLocked` over the type of the pending event; the
result is `done`, `dropped` and the state. -/
def dispatchPendingEventByType (env : Env) (currentTime keyRepeatTimeout : Int)
    (isAppSwitchDue : Bool) (pending : Nat) (e : EventEntry) (s : State) : Bool × Bool × State :=
  match e.body with
  | EventBody.configurationChanged =>
    let d := dispatchConfigurationChangedLocked currentTime pending s
    (d.1, false, d.2)
  | EventBody.key k =>
    if isAppSwitchPendingLocked s then
      if isAppSwitchKey k.keyCode then
        let d := dispatchKeyLocked env currentTime pending keyRepeatTimeout
          (resetPendingAppSwitchLocked true s)
        (d.1, false, d.2)
      else if isAppSwitchDue then (false, true, s)
      else
        let d := dispatchKeyLocked env currentTime pending keyRepeatTimeout s
        (d.1, false, d.2)
    else
      let d := dispatchKeyLocked env currentTime pending keyRepeatTimeout s
      (d.1, false, d.2)
  | EventBody.motion _ =>
    if isAppSwitchDue then (false, true, s)
    else
      let d := dispatchMotionLocked env currentTime pending s
      (d.1, false, d.2)

/-- The end of `dispatchOnceInnerLocked`, from "Now we have an event to dispatch." on. -/
def dispatchPendingEvent (env : Env) (currentTime keyRepeatTimeout : Int) (isAppSwitchDue : Bool)
    (s : State) : State :=
  match s.mPendingEvent with
  | none => s
  | some pending =>
    match s.mEvents[pending]? with
    | none => s
    | some e =>
      let r := dispatchPendingEventByType env currentTime keyRepeatTimeout isAppSwitchDue
        pending e s
      if r.1 || r.2.1 then
        { releasePendingEventLocked r.2.1 r.2.2 with nextWakeupTime := LONG_LONG_MIN }
      else r.2.2

/-- The part of `dispatchOnceInnerLocked` that takes the next event when there is no
pending one; the result is false when the pass returns without an event. -/
def pickPendingEvent (currentTime keyRepeatDelay : Int) (isAppSwitchDue : Bool) (s : State) :
    Bool × Bool × State :=
  match s.mInboundQueue with
  | [] =>
    let r : Bool × State :=
      if isAppSwitchDue then (false, resetPendingAppSwitchLocked false s) else (isAppSwitchDue, s)
    let s1 : State :=
      if r.2.mKeyRepeatState.lastKeyEntry.isSome then
        if currentTime ≥ r.2.mKeyRepeatState.nextRepeatTime then
          let k := synthesizeKeyRepeatLocked currentTime keyRepeatDelay r.2
          { k.2 with mPendingEvent := k.1 }
        else if r.2.mKeyRepeatState.nextRepeatTime < r.2.nextWakeupTime then
          { r.2 with nextWakeupTime := r.2.mKeyRepeatState.nextRepeatTime }
        else r.2
      else r.2
    (s1.mPendingEvent.isSome, r.1, s1)
  | entry :: rest =>
    let take (s : State) : Bool × Bool × State :=
      (true, isAppSwitchDue, { s with mInboundQueue := rest, mPendingEvent := some entry })
    match s.mEvents[entry]? with
    | none => take s
    | some e =>
      match e.body with
      | EventBody.motion motionEntry =>
        let deviceId := motionEntry.deviceId
        let source := motionEntry.source
        let nextTime := s.mThrottleState.lastEventTime + s.mThrottleState.minTimeBetweenEvents
        if (! isAppSwitchDue) && rest.isEmpty
            && motionEntry.action == AMOTION_EVENT_ACTION_MOVE
            && deviceId == s.mThrottleState.lastDeviceId
            && source == s.mThrottleState.lastSource
            && decide (currentTime < nextTime) then
          let s1 : State :=
            if nextTime < s.nextWakeupTime then { s with nextWakeupTime := nextTime } else s
          let s2 : State :=
            if s1.mThrottleState.originalSampleCount = 0 then
              { s1 with
                mThrottleState :=
                  { s1.mThrottleState with originalSampleCount := motionEntry.countSamples } }
            else s1
          (false, isAppSwitchDue, s2)
        else
          take
            { s with
              mThrottleState :=
                { s.mThrottleState with
                  lastEventTime := if e.eventTime < currentTime then e.eventTime else currentTime
                  lastDeviceId := deviceId
                  lastSource := source } }
      | _ => take s

def dispatchOnceInnerLocked (env : Env) (keyRepeatTimeout keyRepeatDelay : Int) (s : State) :
    State :=
  let currentTime := env.now
  let s1 := if keyRepeatTimeout < 0 then resetKeyRepeatLocked s else s
  if ! s1.mDispatchEnabled then
    if s1.mPendingEvent.isSome || ! s1.mInboundQueue.isEmpty then
      drainInboundQueueLocked (releasePendingEventLocked true s1)
    else s1
  else if s1.mDispatchFrozen then s1
  else
    let isAppSwitchDue : Bool := decide (s1.mAppSwitchDueTime ≤ currentTime)
    let s2 : State :=
      if s1.mAppSwitchDueTime < s1.nextWakeupTime then
        { s1 with nextWakeupTime := s1.mAppSwitchDueTime }
      else s1
    let scan := scanActiveConnections currentTime isAppSwitchDue s2.mActiveConnections
      { havePendingSyncTarget := false, timedOutConnections := [] } s2
    let s3 := timeoutConnections currentTime scan.1.timedOutConnections scan.2
    if scan.1.havePendingSyncTarget then s3
    else if s3.mPendingEvent.isNone then
      let r := pickPendingEvent currentTime keyRepeatDelay isAppSwitchDue s3
      if r.1 then dispatchPendingEvent env currentTime keyRepeatTimeout r.2.1 r.2.2
      else r.2.2
    else dispatchPendingEvent env currentTime keyRepeatTimeout isAppSwitchDue s3

/-! ## Commands -/

def doNotifyConfigurationChangedInterruptible (_env : Env) (_commandEntry : CommandEntry)
    (s : State) : State :=
  s

def doNotifyInputChannelBrokenLockedInterruptible (_env : Env) (_commandEntry : CommandEntry)
    (s : State) : State :=
  s

def doNotifyInputChannelANRLockedInterruptible (env : Env) (commandEntry : CommandEntry)
    (s : State) : State :=
  match commandEntry.connection with
  | none => s
  | some connection =>
    match s.mConnections[connection]? with
    | none => s
    | some c =>
      if c.status ≠ Status.STATUS_ZOMBIE then
        let newTimeout := env.notifyInputChannelANR c.inputChannel
        resumeAfterTimeoutDispatchCycleLocked env.now connection newTimeout s
      else s

def doNotifyInputChannelRecoveredFromANRLockedInterruptible (_env : Env)
    (_commandEntry : CommandEntry) (s : State) : State :=
  s

def doInterceptKeyBeforeDispatchingLockedInterruptible (env : Env) (commandEntry : CommandEntry)
    (s : State) : State :=
  match commandEntry.keyEntry with
  | none => s
  | some entry =>
    match s.keyOf entry with
    | none => s
    | some (_, k) =>
      let consumed := env.interceptKeyBeforeDispatching commandEntry.inputChannel k
      let s1 := modifyKey entry (fun k =>
        { k with
          interceptKeyResult :=
            if consumed then InterceptKeyResult.INTERCEPT_KEY_RESULT_SKIP
            else InterceptKeyResult.INTERCEPT_KEY_RESULT_CONTINUE }) s
      releaseKeyEntry entry s1

def doPokeUserActivityLockedInterruptible (_env : Env) (_commandEntry : CommandEntry)
    (s : State) : State :=
  s

def doTargetsNotReadyTimeoutLockedInterruptible (env : Env) (commandEntry : CommandEntry)
    (s : State) : State :=
  let newTimeout : Int :=
    match commandEntry.inputChannel with
    | some inputChannel => env.notifyInputChannelANR inputChannel
    | none =>
      match commandEntry.inputApplicationHandle with
      | some handle => env.notifyANR handle
      | none => 0
  resumeAfterTargetsNotReadyTimeoutLocked env newTimeout s

/-- Calls the member function that `commandEntry->command` points to. -/
def runCommand (env : Env) (commandEntry : CommandEntry) (s : State) : State :=
  match commandEntry.command with
  | Command.doNotifyConfigurationChangedInterruptible =>
    doNotifyConfigurationChangedInterruptible env commandEntry s
  | Command.doNotifyInputChannelBrokenLockedInterruptible =>
    doNotifyInputChannelBrokenLockedInterruptible env commandEntry s
  | Command.doNotifyInputChannelANRLockedInterruptible =>
    doNotifyInputChannelANRLockedInterruptible env commandEntry s
  | Command.doNotifyInputChannelRecoveredFromANRLockedInterruptible =>
    doNotifyInputChannelRecoveredFromANRLockedInterruptible env commandEntry s
  | Command.doInterceptKeyBeforeDispatchingLockedInterruptible =>
    doInterceptKeyBeforeDispatchingLockedInterruptible env commandEntry s
  | Command.doPokeUserActivityLockedInterruptible =>
    doPokeUserActivityLockedInterruptible env commandEntry s
  | Command.doTargetsNotReadyTimeoutLockedInterruptible =>
    doTargetsNotReadyTimeoutLockedInterruptible env commandEntry s

/-- The `do ... while` loop of `runCommandsLockedInterruptible`; no command posts a
command, so `fuel` = length of the command queue turns empty it. -/
def runCommandsLoop (env : Env) : Nat → State → State
  | 0, s => s
  | fuel + 1, s =>
    match s.mCommandQueue with
    | [] => s
    | commandEntry :: rest =>
      runCommandsLoop env fuel (runCommand env commandEntry { s with mCommandQueue := rest })

def runCommandsLockedInterruptible (env : Env) (s : State) : Bool × State :=
  if s.mCommandQueue.isEmpty then (false, s)
  else (true, runCommandsLoop env s.mCommandQueue.length s)

/-! ## The public operations -/

def dispatchOnce (env : Env) (s : State) : State :=
  let keyRepeatTimeout := env.getKeyRepeatTimeout
  let keyRepeatDelay := env.getKeyRepeatDelay
  let s1 := dispatchOnceInnerLocked env keyRepeatTimeout keyRepeatDelay
    { s with nextWakeupTime := LONG_LONG_MAX }
  let r := runCommandsLockedInterruptible env s1
  if r.1 then { r.2 with nextWakeupTime := LONG_LONG_MIN } else r.2

def handleReceiveCallback (env : Env) (receiveFd : Nat) (events : Nat) (s : State) :
    Bool × State :=
  match s.mConnectionsByReceiveFd.lookup receiveFd with
  | none => (false, s)
  | some connection =>
    match s.mConnections[connection]? with
    | none => (false, s)
    | some c =>
      let currentTime := env.now
      if events &&& (POLLERR ||| POLLHUP ||| POLLNVAL) ≠ 0 then
        (false, (runCommandsLockedInterruptible env
          (abortDispatchCycleLocked connection true s)).2)
      else if events &&& POLLIN = 0 then (true, s)
      else
        let s1 := publisherCalled connection [PublisherCall.receiveFinishedSignal] s
        if env.receiveFinishedSignal c.inputChannel ≠ OK then
          (false, (runCommandsLockedInterruptible env
            (abortDispatchCycleLocked connection true s1)).2)
        else
          (true, (runCommandsLockedInterruptible env
            (finishDispatchCycleLocked env currentTime connection s1)).2)

def notifyConfigurationChanged (env : Env) (eventTime : Int) (s : State) : State :=
  let r := obtainConfigurationChangedEntry eventTime s
  (enqueueInboundEventLocked env r.1 r.2).2

def notifyKey (env : Env) (eventTime deviceId : Int) (source policyFlags action flags : Nat)
    (keyCode scanCode metaState downTime : Int) (s : State) : State :=
  let repeatCount : Int := 0
  let r := obtainKeyEntry eventTime deviceId source policyFlags action flags keyCode scanCode
    metaState repeatCount downTime s
  (enqueueInboundEventLocked env r.1 r.2).2

/-- How the batching and streaming searches of `notifyMotion` end. -/
inductive BatchSearch where
  | found (entry : Nat)
  | noBatchingOrStreaming
  | notFound
deriving DecidableEq, Repr

/-- The batching loop of `notifyMotion`: walks the inbound queue from the tail (the
argument is the queue reversed). -/
def findBatchEntry (s : State) (deviceId : Int) (pointerCount : Nat) : List Nat → BatchSearch
  | [] => BatchSearch.notFound
  | entry :: rest =>
    match s.mEvents[entry]? with
    | none => findBatchEntry s deviceId pointerCount rest
    | some e =>
      match e.body with
      | EventBody.motion motionEntry =>
        if motionEntry.deviceId ≠ deviceId then findBatchEntry s deviceId pointerCount rest
        else if motionEntry.action ≠ AMOTION_EVENT_ACTION_MOVE
            ∨ motionEntry.pointerCount ≠ pointerCount ∨ e.isInjected = true then
          BatchSearch.noBatchingOrStreaming
        else BatchSearch.found entry
      | _ => findBatchEntry s deviceId pointerCount rest

/-- The streaming loop of `notifyMotion` over the active connections. -/
def findStreamEntry (s : State) (deviceId : Int) (pointerCount : Nat) : List Nat → BatchSearch
  | [] => BatchSearch.notFound
  | connection :: rest =>
    match s.mConnections[connection]? with
    | none => findStreamEntry s deviceId pointerCount rest
    | some c =>
      match c.outboundQueue.getLast? with
      | none => findStreamEntry s deviceId pointerCount rest
      | some dispatchEntry =>
        if dispatchEntry.isSyncTarget then
          match s.mEvents[dispatchEntry.eventEntry]? with
          | none => BatchSearch.noBatchingOrStreaming
          | some e =>
            match e.body with
            | EventBody.motion syncedMotionEntry =>
              if syncedMotionEntry.action ≠ AMOTION_EVENT_ACTION_MOVE
                  ∨ syncedMotionEntry.deviceId ≠ deviceId
                  ∨ syncedMotionEntry.pointerCount ≠ pointerCount ∨ e.isInjected = true then
                BatchSearch.noBatchingOrStreaming
              else BatchSearch.found dispatchEntry.eventEntry
            | _ => BatchSearch.noBatchingOrStreaming
        else findStreamEntry s deviceId pointerCount rest

def notifyMotion (env : Env) (eventTime deviceId : Int) (source policyFlags action flags : Nat)
    (metaState edgeFlags : Int) (pointerCount : Nat) (pointerIds : List Int)
    (pointerCoords : List PointerCoords) (xPrecision yPrecision downTime : Int) (s : State) :
    State :=
  let enqueue (s : State) : State :=
    let r := obtainMotionEntry eventTime deviceId source policyFlags action flags metaState
      edgeFlags xPrecision yPrecision downTime pointerCount pointerIds pointerCoords s
    (enqueueInboundEventLocked env r.1 r.2).2
  if action = AMOTION_EVENT_ACTION_MOVE then
    match findBatchEntry s deviceId pointerCount s.mInboundQueue.reverse with
    | BatchSearch.found motionEntry => appendMotionSample motionEntry eventTime pointerCoords s
    | BatchSearch.noBatchingOrStreaming => enqueue s
    | BatchSearch.notFound =>
      if s.mCurrentInputTargetsValid then
        match findStreamEntry s deviceId pointerCount s.mActiveConnections with
        | BatchSearch.found syncedMotionEntry =>
          let s1 := appendMotionSample syncedMotionEntry eventTime pointerCoords s
          let s2 := dispatchEventToCurrentInputTargetsLocked env env.now syncedMotionEntry true s1
          (runCommandsLockedInterruptible env s2).2
        | _ => enqueue s
      else enqueue s
  else enqueue s

/-! ## Injection -/

/-- Modelled from the spec: the key event handed to `inject` (§4.9); class `KeyEvent` of
`ui/Input.h` is not part of the sources.  The fields are what its getters return. -/
structure KeyEvent where
  deviceId : Int
  source : Nat
  action : Nat
  flags : Nat
  keyCode : Int
  scanCode : Int
  metaState : Int
  repeatCount : Int
  downTime : Int
  eventTime : Int
deriving DecidableEq, Repr

/-- Modelled from the spec: the motion event handed to `inject` (§4.9); class
`MotionEvent` of `ui/Input.h` is not part of the sources.  It holds the pointer ids, one
event time per sample and the pointer coords of all samples one after the other. -/
structure MotionEvent where
  deviceId : Int
  source : Nat
  action : Nat
  flags : Nat
  metaState : Int
  edgeFlags : Int
  xPrecision : Int
  yPrecision : Int
  downTime : Int
  pointerIds : List Int
  sampleEventTimes : List Int
  samplePointerCoords : List PointerCoords
deriving DecidableEq, Repr

def MotionEvent.getPointerCount (e : MotionEvent) : Nat :=
  e.pointerIds.length

def MotionEvent.getHistorySize (e : MotionEvent) : Nat :=
  e.sampleEventTimes.length - 1

/-- An `InputEvent*`; `other` is an event whose `getType()` is neither key nor motion. -/
inductive InputEvent where
  | key (keyEvent : KeyEvent)
  | motion (motionEvent : MotionEvent)
  | other (type : Int)
deriving DecidableEq, Repr

def isValidKeyAction (action : Nat) : Bool :=
  if action = AKEY_EVENT_ACTION_DOWN then true
  else if action = AKEY_EVENT_ACTION_UP then true
  else false

def isValidMotionAction (action : Nat) : Bool :=
  let masked := action &&& AMOTION_EVENT_ACTION_MASK
  if masked = AMOTION_EVENT_ACTION_DOWN then true
  else if masked = AMOTION_EVENT_ACTION_UP then true
  else if masked = AMOTION_EVENT_ACTION_CANCEL then true
  else if masked = AMOTION_EVENT_ACTION_MOVE then true
  else if masked = AMOTION_EVENT_ACTION_POINTER_DOWN then true
  else if masked = AMOTION_EVENT_ACTION_POINTER_UP then true
  else if masked = AMOTION_EVENT_ACTION_OUTSIDE then true
  else false

/-- The loop of `createEntryFromInjectedInputEventLocked` over the history: the
arguments are the event times and the pointer coords from the cursors on. -/
def appendInjectedSamples (motionEntry : Nat) (pointerCount : Nat) :
    List Int → List PointerCoords → State → State
  | [], _, s => s
  | sampleEventTime :: sampleEventTimes, samplePointerCoords, s =>
    appendInjectedSamples motionEntry pointerCount sampleEventTimes
      (samplePointerCoords.drop pointerCount)
      (appendMotionSample motionEntry sampleEventTime samplePointerCoords s)

/-- An invalid pointer count is logged only: the function goes on to make the entry. -/
def createEntryFromInjectedInputEventLocked (event : InputEvent) (s : State) :
    Option Nat × State :=
  match event with
  | InputEvent.key keyEvent =>
    if ! isValidKeyAction keyEvent.action then (none, s)
    else
      let policyFlags := POLICY_FLAG_INJECTED
      let r := obtainKeyEntry keyEvent.eventTime keyEvent.deviceId keyEvent.source policyFlags
        keyEvent.action keyEvent.flags keyEvent.keyCode keyEvent.scanCode keyEvent.metaState
        keyEvent.repeatCount keyEvent.downTime s
      (some r.1, r.2)
  | InputEvent.motion motionEvent =>
    if ! isValidMotionAction motionEvent.action then (none, s)
    else
      let policyFlags := POLICY_FLAG_INJECTED
      let pointerCount := motionEvent.getPointerCount
      let r := obtainMotionEntry (motionEvent.sampleEventTimes.getD 0 0) motionEvent.deviceId
        motionEvent.source policyFlags motionEvent.action motionEvent.flags motionEvent.metaState
        motionEvent.edgeFlags motionEvent.xPrecision motionEvent.yPrecision motionEvent.downTime
        pointerCount motionEvent.pointerIds motionEvent.samplePointerCoords s
      (some r.1, appendInjectedSamples r.1 pointerCount (motionEvent.sampleEventTimes.drop 1)
        (motionEvent.samplePointerCoords.drop pointerCount) r.2)
  | InputEvent.other _ => (none, s)

/-- The first critical section of `injectInputEvent`. -/
def injectInputEventEnqueue (env : Env) (event : InputEvent) (injectorPid injectorUid : Int)
    (syncMode : Int) (s : State) : Option Nat × State :=
  let r := createEntryFromInjectedInputEventLocked event s
  match r.1 with
  | none => (none, r.2)
  | some injectedEntry =>
    let s1 := modifyEvent injectedEntry (fun e =>
      { e with
        refCount := e.refCount + 1
        injectorPid := injectorPid
        injectorUid := injectorUid
        injectionIsAsync :=
          if syncMode = INPUT_EVENT_INJECTION_SYNC_NONE then true else e.injectionIsAsync }) r.2
    (some injectedEntry, (enqueueInboundEventLocked env injectedEntry s1).2)

/-- The first wait loop of `injectInputEvent`, for a dispatcher that nobody else enters
meanwhile; `clock` lists what the successive calls of `now()` return.  The result is
`none` while the caller is still waiting when the list ends. -/
def awaitInjectionResult (endTime : Int) (injectionResult : Int) : List Int → Option (Int × List Int)
  | [] => if injectionResult ≠ INPUT_EVENT_INJECTION_PENDING then some (injectionResult, []) else none
  | t :: rest =>
    if injectionResult ≠ INPUT_EVENT_INJECTION_PENDING then some (injectionResult, t :: rest)
    else if endTime - t ≤ 0 then some (INPUT_EVENT_INJECTION_TIMED_OUT, rest)
    else awaitInjectionResult endTime injectionResult rest

/-- The second wait loop of `injectInputEvent`, under the same reading of `clock`. -/
def awaitInjectionFinished (endTime : Int) (injectionResult : Int) (pendingSyncDispatches : Int) :
    List Int → Option Int
  | [] => if pendingSyncDispatches ≠ 0 then none else some injectionResult
  | t :: rest =>
    if pendingSyncDispatches ≠ 0 then
      if endTime - t ≤ 0 then some INPUT_EVENT_INJECTION_TIMED_OUT
      else awaitInjectionFinished endTime injectionResult pendingSyncDispatches rest
    else some injectionResult

/-- The second critical section of `injectInputEvent` up to the release of the entry. -/
def injectInputEventWait (endTime : Int) (syncMode : Int) (injectedEntry : EventEntry)
    (clock : List Int) : Option Int :=
  if syncMode = INPUT_EVENT_INJECTION_SYNC_NONE then some INPUT_EVENT_INJECTION_SUCCEEDED
  else
    match awaitInjectionResult endTime injectedEntry.injectionResult clock with
    | none => none
    | some (injectionResult, clock1) =>
      if injectionResult = INPUT_EVENT_INJECTION_SUCCEEDED
          ∧ syncMode = INPUT_EVENT_INJECTION_SYNC_WAIT_FOR_FINISHED then
        awaitInjectionFinished endTime injectionResult injectedEntry.pendingSyncDispatches clock1
      else some injectionResult

/-- The whole of `injectInputEvent` when no other thread enters the dispatcher between
its two critical sections nor during its waits. -/
def injectInputEvent (env : Env) (clock : List Int) (event : InputEvent)
    (injectorPid injectorUid : Int) (syncMode : Int) (timeoutMillis : Int) (s : State) :
    Option (Int × State) :=
  let endTime := env.now + timeoutMillis * 1000000
  let r := injectInputEventEnqueue env event injectorPid injectorUid syncMode s
  match r.1 with
  | none => some (INPUT_EVENT_INJECTION_FAILED, r.2)
  | some injectedEntry =>
    match r.2.mEvents[injectedEntry]? with
    | none => none
    | some e =>
      match injectInputEventWait endTime syncMode e clock with
      | none => none
      | some injectionResult => some (injectionResult, releaseEventEntry injectedEntry r.2)

/-! ## Windows, focus and mode -/

/-- The loop of `preemptInputDispatchInnerLocked` over the active connections. -/
def preemptConnections : List Nat → State → Bool × State
  | [], s => (false, s)
  | connection :: rest, s =>
    match s.mConnections[connection]? with
    | none => preemptConnections rest s
    | some c =>
      if c.hasPendingSyncTarget then
        (true, (preemptConnections rest
          (modifyConnection connection Connection.preemptSyncTarget s)).2)
      else preemptConnections rest s

def preemptInputDispatchInnerLocked (s : State) : Bool × State :=
  preemptConnections s.mActiveConnections s

def preemptInputDispatch (s : State) : State :=
  (preemptInputDispatchInnerLocked s).2

/-- The loop of `setInputWindows` over the new windows, at window `i`;
`mTempTouchedWallpaperChannels` is read at index `i`, as the code does. -/
def resolveWindows (touchedWindowChannel : Option InputChannel)
    (tempTouchedWallpaperChannels : List InputChannel) : List InputWindow → Nat → State → State
  | [], _, s => s
  | window :: rest, i, s =>
    let s1 : State := if window.hasFocus then { s with mFocusedWindow := some i } else s
    let s2 : State :=
      if window.layoutParamsType = InputWindow.TYPE_WALLPAPER then
        let pushes : List Nat :=
          if tempTouchedWallpaperChannels[i]? = some window.inputChannel then
            List.replicate tempTouchedWallpaperChannels.length i
          else []
        { s1 with
          mWallpaperWindows := s1.mWallpaperWindows ++ [i]
          mTouchedWallpaperWindows := s1.mTouchedWallpaperWindows ++ pushes }
      else s1
    let s3 : State :=
      if some window.inputChannel = touchedWindowChannel then { s2 with mTouchedWindow := some i }
      else s2
    resolveWindows touchedWindowChannel tempTouchedWallpaperChannels rest (i + 1) s3

def setInputWindows (inputWindows : List InputWindow) (s : State) : State :=
  let touchedWindowChannel : Option InputChannel :=
    s.mTouchedWindow.map (fun w => (s.window w).inputChannel)
  let tempTouchedWallpaperChannels : List InputChannel :=
    s.mTouchedWallpaperWindows.map (fun w => (s.window w).inputChannel)
  let hadFocusedWindow : Bool := s.mFocusedWindow.isSome
  let s1 : State :=
    { s with
      mTouchedWindow := none
      mTouchedWallpaperWindows := []
      mFocusedWindow := none
      mWallpaperWindows := []
      mWindows := inputWindows }
  let s2 := resolveWindows touchedWindowChannel tempTouchedWallpaperChannels inputWindows 0 s1
  let focusedInvisible : Bool :=
    match s2.mFocusedWindow with
    | some w => ! (s2.window w).visible
    | none => false
  if (hadFocusedWindow && s2.mFocusedWindow.isNone) || focusedInvisible then
    (preemptInputDispatchInnerLocked s2).2
  else s2

def releaseFocusedApplicationLocked (s : State) : State :=
  { s with mFocusedApplication := none }

def setFocusedApplication (inputApplication : Option InputApplication) (s : State) : State :=
  let s1 := releaseFocusedApplicationLocked s
  match inputApplication with
  | some application => { s1 with mFocusedApplication := some application }
  | none => s1

/-- The loop of `resetANRTimeoutsLocked` over the active connections. -/
def resetConnectionTimeouts (currentTime : Int) : List Nat → State → State
  | [], s => s
  | connection :: rest, s =>
    resetConnectionTimeouts currentTime rest
      (modifyConnection connection (fun c => c.resetTimeout currentTime) s)

def resetANRTimeoutsLocked (env : Env) (s : State) : State :=
  let s1 := resetConnectionTimeouts env.now s.mActiveConnections s
  { s1 with mInputTargetWaitCause := InputTargetWaitCause.INPUT_TARGET_WAIT_CAUSE_NONE }

def setInputDispatchMode (env : Env) (enabled frozen : Bool) (s : State) : State :=
  if s.mDispatchEnabled ≠ enabled ∨ s.mDispatchFrozen ≠ frozen then
    let s1 := if s.mDispatchFrozen && ! frozen then resetANRTimeoutsLocked env s else s
    { s1 with mDispatchEnabled := enabled, mDispatchFrozen := frozen }
  else s

/-! ## Registration -/

def registerInputChannel (env : Env) (inputChannel : InputChannel) (monitor : Bool) (s : State) :
    Int × State :=
  if (getConnectionIndex inputChannel s).isSome then (BAD_VALUE, s)
  else
    let status := env.publisherInitialize inputChannel
    if status ≠ OK then (status, s)
    else
      let connection := s.mConnections.length
      let s1 : State :=
        { s with
          mConnections := s.mConnections ++ [Connection.new inputChannel]
          mConnectionsByReceiveFd := s.mConnectionsByReceiveFd ++ [(inputChannel, connection)] }
      let s2 : State :=
        if monitor then { s1 with mMonitoringChannels := s1.mMonitoringChannels ++ [inputChannel] }
        else s1
      (OK, (runCommandsLockedInterruptible env s2).2)

def unregisterInputChannel (env : Env) (inputChannel : InputChannel) (s : State) : Int × State :=
  match getConnectionIndex inputChannel s with
  | none => (BAD_VALUE, s)
  | some connection =>
    let s1 : State :=
      { s with
        mConnectionsByReceiveFd :=
          s.mConnectionsByReceiveFd.filter (fun entry => entry.1 != inputChannel) }
    let s2 := modifyConnection connection (fun c => { c with status := Status.STATUS_ZOMBIE }) s1
    let s3 : State := { s2 with mMonitoringChannels := s2.mMonitoringChannels.erase inputChannel }
    let s4 := abortDispatchCycleLocked connection true s3
    (OK, (runCommandsLockedInterruptible env s4).2)

/-- The state that the constructor leaves; the members it does not set are 0. -/
def State.initial (maxEventsPerSecond : Int) : State :=
  { mEvents := []
    mConnections := []
    mPendingEvent := none
    mInboundQueue := []
    mCommandQueue := []
    mAppSwitchDueTime := LONG_LONG_MAX
    mConnectionsByReceiveFd := []
    mActiveConnections := []
    mMonitoringChannels := []
    mThrottleState :=
      { minTimeBetweenEvents := Int.tdiv 1000000000 maxEventsPerSecond
        lastEventTime := 0
        lastDeviceId := -1
        lastSource := 0
        originalSampleCount := 0 }
    mKeyRepeatState := { lastKeyEntry := none, nextRepeatTime := 0 }
    mDispatchEnabled := true
    mDispatchFrozen := false
    mWindows := []
    mWallpaperWindows := []
    mFocusedWindow := none
    mTouchDown := false
    mTouchedWindow := none
    mTouchedWindowIsObscured := false
    mTouchedWallpaperWindows := []
    mTempTouchedOutsideTargets := []
    mFocusedApplication := none
    mCurrentInputTargetsValid := false
    mCurrentInputTargets := []
    mCurrentInputWindowType := 0
    mCurrentInputChannel := none
    mInputTargetWaitCause := InputTargetWaitCause.INPUT_TARGET_WAIT_CAUSE_NONE
    mInputTargetWaitStartTime := 0
    mInputTargetWaitTimeoutTime := 0
    mInputTargetWaitTimeoutExpired := false
    nextWakeupTime := LONG_LONG_MAX }

/-! ## Reachable states

The public operations as one step function.  Each step comes with the `Env` that answers
during it, so the clock and the policy may answer differently from step to step.
`injectInputEvent` takes the lock twice, and `runCommandsLockedInterruptible` gives it
up around every command, so their parts are steps of their own as well: what another
thread can do in between is then part of the traces. -/

inductive Op where
  | notifyConfigurationChanged (eventTime : Int)
  | notifyKey (eventTime deviceId : Int) (source policyFlags action flags : Nat)
      (keyCode scanCode metaState downTime : Int)
  | notifyMotion (eventTime deviceId : Int) (source policyFlags action flags : Nat)
      (metaState edgeFlags : Int) (pointerCount : Nat) (pointerIds : List Int)
      (pointerCoords : List PointerCoords) (xPrecision yPrecision downTime : Int)
  | injectInputEvent (clock : List Int) (event : InputEvent) (injectorPid injectorUid : Int)
      (syncMode : Int) (timeoutMillis : Int)
  | injectInputEventEnqueue (event : InputEvent) (injectorPid injectorUid : Int) (syncMode : Int)
  | injectInputEventRelease (injectedEntry : Nat)
  | setInputWindows (inputWindows : List InputWindow)
  | setFocusedApplication (inputApplication : Option InputApplication)
  | setInputDispatchMode (enabled frozen : Bool)
  | preemptInputDispatch
  | registerInputChannel (inputChannel : InputChannel) (monitor : Bool)
  | unregisterInputChannel (inputChannel : InputChannel)
  | dispatchOnce
  | dispatchOnceInnerLocked
  | runCommand
  | handleReceiveCallback (receiveFd : Nat) (events : Nat)

/-- The state after one operation.  An injection whose wait does not end within its
clock has done its first critical section only. -/
def step (env : Env) (op : Op) (s : State) : State :=
  match op with
  | Op.notifyConfigurationChanged eventTime => notifyConfigurationChanged env eventTime s
  | Op.notifyKey eventTime deviceId source policyFlags action flags keyCode scanCode metaState
      downTime =>
    notifyKey env eventTime deviceId source policyFlags action flags keyCode scanCode metaState
      downTime s
  | Op.notifyMotion eventTime deviceId source policyFlags action flags metaState edgeFlags
      pointerCount pointerIds pointerCoords xPrecision yPrecision downTime =>
    notifyMotion env eventTime deviceId source policyFlags action flags metaState edgeFlags
      pointerCount pointerIds pointerCoords xPrecision yPrecision downTime s
  | Op.injectInputEvent clock event injectorPid injectorUid syncMode timeoutMillis =>
    match injectInputEvent env clock event injectorPid injectorUid syncMode timeoutMillis s with
    | some r => r.2
    | none => (injectInputEventEnqueue env event injectorPid injectorUid syncMode s).2
  | Op.injectInputEventEnqueue event injectorPid injectorUid syncMode =>
    (injectInputEventEnqueue env event injectorPid injectorUid syncMode s).2
  | Op.injectInputEventRelease injectedEntry => releaseEventEntry injectedEntry s
  | Op.setInputWindows inputWindows => setInputWindows inputWindows s
  | Op.setFocusedApplication inputApplication => setFocusedApplication inputApplication s
  | Op.setInputDispatchMode enabled frozen => setInputDispatchMode env enabled frozen s
  | Op.preemptInputDispatch => preemptInputDispatch s
  | Op.registerInputChannel inputChannel monitor =>
    (registerInputChannel env inputChannel monitor s).2
  | Op.unregisterInputChannel inputChannel => (unregisterInputChannel env inputChannel s).2
  | Op.dispatchOnce => dispatchOnce env s
  | Op.dispatchOnceInnerLocked =>
    dispatchOnceInnerLocked env env.getKeyRepeatTimeout env.getKeyRepeatDelay s
  | Op.runCommand =>
    match s.mCommandQueue with
    | [] => s
    | commandEntry :: rest => runCommand env commandEntry { s with mCommandQueue := rest }
  | Op.handleReceiveCallback receiveFd events => (handleReceiveCallback env receiveFd events s).2

/-- The state after the operations of `trace`, the first one first. -/
def run : List (Env × Op) → State → State
  | [], s => s
  | (env, op) :: rest, s => run rest (step env op s)

/-- The states that the operations reach from the state the constructor leaves. -/
def Reachable (s : State) : Prop :=
  ∃ (maxEventsPerSecond : Int) (trace : List (Env × Op)),
    s = run trace (State.initial maxEventsPerSecond)

/-! ## Predicates of the claims -/

/-- Every entry behind the head of an outbound queue is not in progress. -/
def QueueOk (q : List DispatchEntry) : Prop :=
  ∀ d ∈ q.tail, d.inProgress = false

/-- `QueueOk` for the outbound queue of every connection. -/
def ConnsOk (cs : List Connection) : Prop :=
  ∀ c ∈ cs, QueueOk c.outboundQueue

/-- The target that `addWindowTargetLocked` makes of the window `w`. -/
def targetOf (w : InputWindow) (flags : Nat) (timeSpentWaitingForApplication : Int) :
    InputTarget :=
  { inputChannel := w.inputChannel
    flags := flags
    timeout := w.dispatchingTimeout
    timeSpentWaitingForApplication := timeSpentWaitingForApplication
    xOffset := - w.frameLeft
    yOffset := - w.frameTop }

/-- The target list of a touch, in the order of the claim: the touched wallpaper
windows, the windows that watch touches outside of them, then the touched window. -/
def touchTargets (windows : List InputWindow) (wallpapers : List Nat)
    (outside : List OutsideTarget) (touched : Nat) (obscured : Bool)
    (timeSpentWaitingForApplication : Int) : List InputTarget :=
  wallpapers.map (fun w => targetOf (windows.getD w default) InputTarget.FLAG_WINDOW_IS_OBSCURED 0)
  ++ outside.map (fun o => targetOf (windows.getD o.window default)
      (if o.obscured then InputTarget.FLAG_OUTSIDE ||| InputTarget.FLAG_WINDOW_IS_OBSCURED
        else InputTarget.FLAG_OUTSIDE) 0)
  ++ [targetOf (windows.getD touched default)
      (if obscured then InputTarget.FLAG_SYNC ||| InputTarget.FLAG_WINDOW_IS_OBSCURED
        else InputTarget.FLAG_SYNC) timeSpentWaitingForApplication]

/-- The hit test in the words of the claim: the window is visible, does not have
`FLAG_NOT_TOUCHABLE`, and is touch modal or has `(x, y)` in its touchable area. -/
def hitTest (x y : Int) (w : InputWindow) : Bool :=
  w.visible && (w.layoutParamsFlags &&& InputWindow.FLAG_NOT_TOUCHABLE == 0)
    && (((w.layoutParamsFlags &&& InputWindow.FLAG_NOT_FOCUSABLE == 0)
          && (w.layoutParamsFlags &&& InputWindow.FLAG_NOT_TOUCH_MODAL == 0))
        || w.touchableAreaContainsPoint x y)

/-- The traversal that `findTouchedWindowLocked` makes for a DOWN: from the first window,
at the coordinates of the first pointer of the first sample. -/
def touchScan (motion : MotionEntry) (s : State) : TouchScan :=
  scanWindows s (motion.firstSample.pointerCoords.getD 0 default).x
    (motion.firstSample.pointerCoords.getD 0 default).y false s.mWindows 0
    { newTouchedWindow := none, obscured := false, topErrorWindow := none, outsideTargets := [] }

/-- The touch state that a DOWN which hits the window `hit` sets. -/
def downSession (motion : MotionEntry) (s : State) (hit : Nat) : State :=
  { s with
    mTempTouchedOutsideTargets := (touchScan motion s).outsideTargets
    mTouchedWindow := some hit
    mTouchedWindowIsObscured := (touchScan motion s).obscured
    mTouchedWallpaperWindows := if (s.window hit).hasWallpaper then s.mWallpaperWindows else [] }

/-- A new event entry as the injection leaves it before the caller takes its reference. -/
def FreshEntry (e : EventEntry) : Prop :=
  e.refCount = 1 ∧ e.injectionResult = INPUT_EVENT_INJECTION_PENDING

/-- The window `k` is the first one of the list that passes the hit test at `(x, y)`. -/
def FirstHit (x y : Int) (windows : List InputWindow) (k : Nat) : Prop :=
  k < windows.length ∧ hitTest x y (windows.getD k default) = true ∧
    ∀ j, j < k → hitTest x y (windows.getD j default) = false

/-- The windows in front of the window `hit` that get an outside target: with their
indices, those that are visible and have `FLAG_WATCH_OUTSIDE_TOUCH`, each with its
obscured bit. -/
def outsideWatchers (s : State) (hit : Nat) : List OutsideTarget :=
  (((s.mWindows.take hit).enum).filter (fun p =>
      p.2.visible && (p.2.layoutParamsFlags &&& InputWindow.FLAG_WATCH_OUTSIDE_TOUCH != 0))).map
    (fun p => { window := p.1, obscured := isWindowObscuredLocked p.1 s })

/-- The event that cancels the key of the memento `m`: a fresh entry at time `now` with a
key UP that has `AKEY_EVENT_FLAG_CANCELED` and the device, source, key code, scan code
and down time of the memento. -/
def keyCancelationEntry (now : Int) (m : KeyMemento) : EventEntry :=
  initializeEventEntry (EventBody.key
    { deviceId := m.deviceId
      source := m.source
      policyFlags := 0
      action := AKEY_EVENT_ACTION_UP
      flags := AKEY_EVENT_FLAG_CANCELED
      keyCode := m.keyCode
      scanCode := m.scanCode
      metaState := 0
      repeatCount := 0
      downTime := m.downTime
      syntheticRepeat := false
      interceptKeyResult := InterceptKeyResult.INTERCEPT_KEY_RESULT_UNKNOWN }) now

/-- The event that cancels the motion of the memento `m`: a fresh entry at time `now`
with a motion CANCEL of one sample that has the device, source, precisions, down time,
pointer count, pointer ids and pointer coords of the memento. -/
def motionCancelationEntry (now : Int) (m : MotionMemento) : EventEntry :=
  initializeEventEntry (EventBody.motion
    { deviceId := m.deviceId
      source := m.source
      policyFlags := 0
      action := AMOTION_EVENT_ACTION_CANCEL
      flags := 0
      metaState := 0
      edgeFlags := 0
      xPrecision := m.xPrecision
      yPrecision := m.yPrecision
      downTime := m.downTime
      pointerCount := m.pointerCount
      pointerIds := m.pointerIds.take m.pointerCount
      firstSample := { eventTime := now, pointerCoords := m.pointerCoords.take m.pointerCount }
      nextSamples := [] }) now

/-- The entry `e` arms the app switch: it is a key UP without `AKEY_EVENT_FLAG_CANCELED`,
with key code HOME or ENDCALL, that is not injected, or is injected by uid 0, or by an
injector that the policy permits. -/
def ArmsAppSwitch (env : Env) (e : EventEntry) : Prop :=
  ∃ k, e.body = EventBody.key k ∧ k.action = AKEY_EVENT_ACTION_UP
    ∧ k.flags &&& AKEY_EVENT_FLAG_CANCELED = 0
    ∧ (k.keyCode = AKEYCODE_HOME ∨ k.keyCode = AKEYCODE_ENDCALL)
    ∧ (e.isInjected = false ∨ e.injectorUid = 0
        ∨ env.checkInjectEventsPermissionNonReentrant e.injectorPid e.injectorUid = true)

/-- The state without the three fields that the loops of a pass over the connections
write: the connections, the command queue and the wake-up time. -/
def State.eventSide (s : State) : State :=
  { s with mConnections := [], mCommandQueue := [], nextWakeupTime := 0 }

/-- The pass of `dispatchOnceInnerLocked` up to the point where it looks at the pending
event, for a dispatcher that is enabled and not frozen: the reset of the key repeat, the
wake-up time of the app switch, the loop over the active connections and the loop over
the timed out connections.  The result is the scan and the state. -/
def passBeforeEvent (env : Env) (keyRepeatTimeout : Int) (s : State) : ConnectionScan × State :=
  let currentTime := env.now
  let s1 := if keyRepeatTimeout < 0 then resetKeyRepeatLocked s else s
  let isAppSwitchDue : Bool := decide (s1.mAppSwitchDueTime ≤ currentTime)
  let s2 : State :=
    if s1.mAppSwitchDueTime < s1.nextWakeupTime then
      { s1 with nextWakeupTime := s1.mAppSwitchDueTime }
    else s1
  let scan := scanActiveConnections currentTime isAppSwitchDue s2.mActiveConnections
    { havePendingSyncTarget := false, timedOutConnections := [] } s2
  (scan.1, timeoutConnections currentTime scan.1.timedOutConnections scan.2)

/-- The local `isAppSwitchDue` and the state of the pass when it reaches "Now we have an
event to dispatch": the state of `passBeforeEvent` when an event is pending already,
and otherwise what `pickPendingEvent` makes of it. -/
def passAtEvent (env : Env) (keyRepeatTimeout keyRepeatDelay : Int) (s : State) : Bool × State :=
  let s1 := if keyRepeatTimeout < 0 then resetKeyRepeatLocked s else s
  let isAppSwitchDue : Bool := decide (s1.mAppSwitchDueTime ≤ env.now)
  let s3 := (passBeforeEvent env keyRepeatTimeout s).2
  if s3.mPendingEvent.isNone then
    (pickPendingEvent env.now keyRepeatDelay isAppSwitchDue s3).2
  else (isAppSwitchDue, s3)

/-- Whether the entry is a key event that `synthesizeKeyRepeatLocked` produced. -/
def EventEntry.isSyntheticRepeat (e : EventEntry) : Bool :=
  match e.body with
  | EventBody.key k => k.syntheticRepeat
  | _ => false

/-- The pools and the registries of the dispatcher: the events, the connections, the
map from receive fd to connection, the active connections and the monitoring channels. -/
abbrev State.pools (s : State) :
    List EventEntry × List Connection × List (InputChannel × Nat) × List Nat
      × List InputChannel :=
  (s.mEvents, s.mConnections, s.mConnectionsByReceiveFd, s.mActiveConnections,
    s.mMonitoringChannels)

/-- What the code between two states `s0` and `s` did not do: it registered and
unregistered nothing (same by-fd map, same monitoring channels, as many connections), it
activated connections of the pool only and none twice, and, when `repeats` is false, it
made no synthetic key repeat (an entry of `s` that is one was one in `s0`). -/
structure Quiet (repeats : Bool) (s0 s : State) : Prop where
  byFd : s.mConnectionsByReceiveFd = s0.mConnectionsByReceiveFd
  monitoring : s.mMonitoringChannels = s0.mMonitoringChannels
  length : s.mConnections.length = s0.mConnections.length
  active : ∀ i ∈ s.mActiveConnections,
    i ∈ s0.mActiveConnections ∨ i < s0.mConnections.length
  nodup : s0.mActiveConnections.Nodup → s.mActiveConnections.Nodup
  synth : repeats = false → ∀ (i : Nat) (e : EventEntry), s.mEvents[i]? = some e →
    e.isSyntheticRepeat = true → ∃ e0, s0.mEvents[i]? = some e0 ∧ e0.isSyntheticRepeat = true

/-- The connections and the registries of the dispatcher (`State.pools` without the
events). -/
abbrev State.registry (s : State) :
    List Connection × List (InputChannel × Nat) × List Nat × List InputChannel :=
  (s.mConnections, s.mConnectionsByReceiveFd, s.mActiveConnections, s.mMonitoringChannels)

/-- No entry of the event pool is a synthetic key repeat. -/
def SynthFree (s : State) : Prop :=
  ∀ (i : Nat) (e : EventEntry), s.mEvents[i]? = some e → e.isSyntheticRepeat = false

/-- The operation is neither `registerInputChannel` nor `unregisterInputChannel`. -/
def Op.keepsRegistry : Op → Bool
  | Op.registerInputChannel _ _ => false
  | Op.unregisterInputChannel _ => false
  | _ => true

/-- The registries of the dispatcher: the map from receive fd to connection, the active
connections and the monitoring channels. -/
abbrev State.directory (s : State) : List (InputChannel × Nat) × List Nat × List InputChannel :=
  (s.mConnectionsByReceiveFd, s.mActiveConnections, s.mMonitoringChannels)

/-- The registries fit together: no channel monitors twice, every monitoring channel has
a connection in the by-fd map, and every active connection is one of the pool. -/
def RegistryOk (s : State) : Prop :=
  s.mMonitoringChannels.Nodup
    ∧ (∀ ch ∈ s.mMonitoringChannels, (getConnectionIndex ch s).isSome = true)
    ∧ (∀ i ∈ s.mActiveConnections, i < s.mConnections.length)

/-- What draining the dispatch entries `ds` does to the event in slot `entry`: one
reference is dropped for each entry of `ds` that points at it, and one pending synchronous
dispatch for each such entry that is a synchronous target. -/
def EventEntry.afterDrain (ds : List DispatchEntry) (entry : Nat) (e : EventEntry) : EventEntry :=
  { e with
    refCount := e.refCount - (ds.countP (fun d => decide (d.eventEntry = entry)) : Nat)
    pendingSyncDispatches :=
      e.pendingSyncDispatches
        - (ds.countP (fun d => decide (d.eventEntry = entry) && d.isSyncTarget) : Nat) }

/-- The state of `startDispatchCycleLocked` after it has marked the head entry in
progress and updated the input state. -/
def cycleStarted (connection : Nat) (head : DispatchEntry) (rest : List DispatchEntry)
    (eventEntry : EventEntry) (s : State) : State :=
  modifyConnection connection (fun c =>
    { c with
      outboundQueue := { head with inProgress := true } :: rest
      inputState := (c.inputState.trackEvent eventEntry).2 }) s

/-- The call that publishes the motion event `m` for the dispatch entry `head`: the action
is CANCEL for a cancel target, else OUTSIDE for an outside target, else the action of the
event; the flags gain WINDOW_IS_OBSCURED for an obscured target; the offsets are those of
the entry for a pointer source and 0 otherwise; the sample is the one `headMotionSample`
points to, or the first one. -/
def publishedMotion (head : DispatchEntry) (m : MotionEntry) : PublisherCall :=
  PublisherCall.publishMotionEvent m.deviceId m.source
    (if head.targetFlags &&& InputTarget.FLAG_CANCEL ≠ 0 then AMOTION_EVENT_ACTION_CANCEL
      else if head.targetFlags &&& InputTarget.FLAG_OUTSIDE ≠ 0 then AMOTION_EVENT_ACTION_OUTSIDE
      else m.action)
    (if head.targetFlags &&& InputTarget.FLAG_WINDOW_IS_OBSCURED ≠ 0 then
      m.flags ||| AMOTION_EVENT_FLAG_WINDOW_IS_OBSCURED else m.flags)
    m.edgeFlags m.metaState
    (if m.source &&& AINPUT_SOURCE_CLASS_POINTER ≠ 0 then head.xOffset else 0)
    (if m.source &&& AINPUT_SOURCE_CLASS_POINTER ≠ 0 then head.yOffset else 0)
    m.xPrecision m.yPrecision m.downTime
    ((m.sampleAt (head.headMotionSample.getD 0)).getD m.firstSample).eventTime
    m.pointerCount m.pointerIds
    ((m.sampleAt (head.headMotionSample.getD 0)).getD m.firstSample).pointerCoords

/-- The call that appends `sample` to the event being published. -/
def appendCall (sample : MotionSample) : PublisherCall :=
  PublisherCall.appendMotionSample sample.eventTime sample.pointerCoords

/-- The samples at the head of `l` that the publisher accepts (answers OK for). -/
def acceptedSamples (env : Env) (inputChannel : InputChannel) (l : List MotionSample) :
    List MotionSample :=
  l.takeWhile (fun sample => decide (env.appendMotionSample inputChannel sample = OK))

/-- The samples that a dispatch cycle publishes when it starts at the sample pointer `h`:
the sample at `h` and the samples behind it up to the first one that is not accepted. -/
def cycleSamples (env : Env) (inputChannel : InputChannel) (m : MotionEntry) (h : Nat) :
    List MotionSample :=
  (m.sampleAt h).getD m.firstSample :: acceptedSamples env inputChannel (m.nextSamples.drop h)

/-- The pointer to the first sample that a cycle starting at `h` does not publish, if
there is one. -/
def cycleTail (env : Env) (inputChannel : InputChannel) (m : MotionEntry) (h : Nat) :
    Option Nat :=
  if (acceptedSamples env inputChannel (m.nextSamples.drop h)).length
      < (m.nextSamples.drop h).length then
    some (h + 1 + (acceptedSamples env inputChannel (m.nextSamples.drop h)).length)
  else none

/-- The calls of a cycle that starts at the sample pointer `h` and sends its dispatch
signal: the event with the sample at `h`, one append for each further sample that is
accepted, the append that is refused, if there is one, and the dispatch signal. -/
def cycleCalls (env : Env) (inputChannel : InputChannel) (head : DispatchEntry)
    (m : MotionEntry) (h : Nat) : List PublisherCall :=
  publishedMotion { head with headMotionSample := some h } m
    :: (acceptedSamples env inputChannel (m.nextSamples.drop h)
          ++ ((m.nextSamples.drop h)[(acceptedSamples env inputChannel
                (m.nextSamples.drop h)).length]?).toList).map appendCall
    ++ [PublisherCall.sendDispatchSignal]

/-- The cycles that publish a motion entry: the first one starts at the given sample
pointer with the first environment, each further one at the tail that the cycle before
left, as long as there is a tail and an environment. -/
def cyclePlan (inputChannel : InputChannel) (m : MotionEntry) :
    List Env → Option Nat → List (Env × Nat)
  | [], _ => []
  | _ :: _, none => []
  | env :: envs, some h => (env, h) :: cyclePlan inputChannel m envs (cycleTail env inputChannel m h)

/-- The tail that the cycles of `cyclePlan` leave. -/
def streamTail (inputChannel : InputChannel) (m : MotionEntry) :
    List Env → Option Nat → Option Nat
  | [], t => t
  | _ :: _, none => none
  | env :: envs, some h => streamTail inputChannel m envs (cycleTail env inputChannel m h)

/-- The publisher of the channel takes every event and every dispatch signal and answers
OK or NO_MEMORY to the append of each sample of `m`. -/
def PublisherOk (env : Env) (inputChannel : InputChannel) (m : MotionEntry) : Prop :=
  env.publishMotionEvent inputChannel = OK ∧ env.sendDispatchSignal inputChannel = OK
    ∧ ∀ sample ∈ m.nextSamples, env.appendMotionSample inputChannel sample = OK
        ∨ env.appendMotionSample inputChannel sample = NO_MEMORY

/-- The focused window that the loop of `setInputWindows` leaves: the last window that
has the focus, or `acc` when there is none. -/
def lastFocus : List InputWindow → Nat → Option Nat → Option Nat
  | [], _, acc => acc
  | window :: rest, i, acc => lastFocus rest (i + 1) (if window.hasFocus then some i else acc)

/-- The wallpaper windows that the loop of `setInputWindows` pushes. -/
def wallpaperIndices : List InputWindow → Nat → List Nat
  | [], _ => []
  | window :: rest, i =>
    (if window.layoutParamsType = InputWindow.TYPE_WALLPAPER then [i] else [])
      ++ wallpaperIndices rest (i + 1)

/-- The touched wallpaper windows that the loop of `setInputWindows` pushes: the wallpaper
window at position `i` is pushed once for each saved channel when the saved channel at
position `i` is its own. -/
def touchedWallpaperPushes (tempTouchedWallpaperChannels : List InputChannel) :
    List InputWindow → Nat → List Nat
  | [], _ => []
  | window :: rest, i =>
    (if window.layoutParamsType = InputWindow.TYPE_WALLPAPER
        ∧ tempTouchedWallpaperChannels[i]? = some window.inputChannel then
      List.replicate tempTouchedWallpaperChannels.length i else [])
      ++ touchedWallpaperPushes tempTouchedWallpaperChannels rest (i + 1)

/-- The touched window that the loop of `setInputWindows` leaves: the last window on the
saved channel, or `acc` when there is none. -/
def lastOnChannel (touchedWindowChannel : Option InputChannel) :
    List InputWindow → Nat → Option Nat → Option Nat
  | [], _, acc => acc
  | window :: rest, i, acc =>
    lastOnChannel touchedWindowChannel rest (i + 1)
      (if some window.inputChannel = touchedWindowChannel then some i else acc)

/-- The channel of the touched window, which `setInputWindows` saves. -/
def touchedChannel (s : State) : Option InputChannel :=
  s.mTouchedWindow.map (fun w => (s.window w).inputChannel)

/-- The state of `setInputWindows` after its loop over the new windows. -/
def resolvedWindows (inputWindows : List InputWindow) (s : State) : State :=
  { s with
    mTouchedWindow := lastOnChannel (touchedChannel s) inputWindows 0 none
    mTouchedWallpaperWindows :=
      touchedWallpaperPushes (s.mTouchedWallpaperWindows.map (fun w => (s.window w).inputChannel))
        inputWindows 0
    mFocusedWindow := lastFocus inputWindows 0 none
    mWallpaperWindows := wallpaperIndices inputWindows 0
    mWindows := inputWindows }

/-- The condition under which `setInputWindows` preempts: there was a focused window and
there is none now, or the window that has the focus now is not visible. -/
def focusLost (inputWindows : List InputWindow) (s : State) : Bool :=
  (s.mFocusedWindow.isSome && (lastFocus inputWindows 0 none).isNone)
    || ((lastFocus inputWindows 0 none).map
          (fun w => ! (inputWindows.getD w default).visible)).getD false

/-! ## The sentinel queue -/

/-- What a `T*` of a queue can point to: one of the two sentinels of the queue or an
entry; `NULL` is `none`. -/
inductive Node where
  | headSentinel
  | tailSentinel
  | entry (id : Nat)
deriving DecidableEq, Repr

/-- The members `prev` and `next` of a `Link<T>`. -/
structure Links where
  prev : Option Node
  next : Option Node
deriving DecidableEq, Repr

/-- The links of the sentinels of one queue and of all entries. -/
abbrev QueueMemory := Node → Links

/-- Executes `n->prev = v`. -/
def Queue.setPrev (m : QueueMemory) (n : Node) (v : Option Node) : QueueMemory :=
  fun k => if k = n then { m k with prev := v } else m k

/-- Executes `n->next = v`. -/
def Queue.setNext (m : QueueMemory) (n : Node) (v : Option Node) : QueueMemory :=
  fun k => if k = n then { m k with next := v } else m k

/-- The constructor `Queue()`. -/
def Queue.new (m : QueueMemory) : QueueMemory :=
  let m1 := Queue.setPrev m Node.headSentinel none
  let m2 := Queue.setNext m1 Node.headSentinel (some Node.tailSentinel)
  let m3 := Queue.setPrev m2 Node.tailSentinel (some Node.headSentinel)
  Queue.setNext m3 Node.tailSentinel none

def Queue.isEmpty (m : QueueMemory) : Bool :=
  decide ((m Node.headSentinel).next = some Node.tailSentinel)

/-- The result is `none` when a null pointer is dereferenced. -/
def Queue.enqueueAtTail (entry : Node) (m : QueueMemory) : Option QueueMemory :=
  match (m Node.tailSentinel).prev with
  | none => none
  | some last =>
    let m1 := Queue.setNext m last (some entry)
    let m2 := Queue.setPrev m1 entry (some last)
    let m3 := Queue.setNext m2 entry (some Node.tailSentinel)
    some (Queue.setPrev m3 Node.tailSentinel (some entry))

def Queue.enqueueAtHead (entry : Node) (m : QueueMemory) : Option QueueMemory :=
  match (m Node.headSentinel).next with
  | none => none
  | some first =>
    let m1 := Queue.setNext m Node.headSentinel (some entry)
    let m2 := Queue.setPrev m1 entry (some Node.headSentinel)
    let m3 := Queue.setNext m2 entry (some first)
    some (Queue.setPrev m3 first (some entry))

def Queue.dequeue (entry : Node) (m : QueueMemory) : Option QueueMemory :=
  match (m entry).prev with
  | none => none
  | some prev =>
    let m1 := Queue.setNext m prev (m entry).next
    match (m1 entry).next with
    | none => none
    | some next => some (Queue.setPrev m1 next (m1 entry).prev)

def Queue.dequeueAtHead (m : QueueMemory) : Option (Node × QueueMemory) :=
  match (m Node.headSentinel).next with
  | none => none
  | some first => (Queue.dequeue first m).map (fun m1 => (first, m1))

/-- The entries met on the way from the pointer `p` along `next` to the tail sentinel;
`none` when the walk meets `NULL` or the head sentinel or takes more than `fuel` steps. -/
def Queue.walkNext (m : QueueMemory) : Nat → Option Node → Option (List Nat)
  | 0, _ => none
  | _ + 1, none => none
  | _ + 1, some Node.headSentinel => none
  | _ + 1, some Node.tailSentinel => some []
  | fuel + 1, some (Node.entry id) =>
    (Queue.walkNext m fuel (m (Node.entry id)).next).map (fun l => id :: l)

/-- The entries met on the way from the pointer `p` along `prev` to the head sentinel. -/
def Queue.walkPrev (m : QueueMemory) : Nat → Option Node → Option (List Nat)
  | 0, _ => none
  | _ + 1, none => none
  | _ + 1, some Node.tailSentinel => none
  | _ + 1, some Node.headSentinel => some []
  | fuel + 1, some (Node.entry id) =>
    (Queue.walkPrev m fuel (m (Node.entry id)).prev).map (fun l => id :: l)

/-- The walk `for (e = headSentinel.next; e != & tailSentinel; e = e->next)`. -/
def Queue.headToTail (m : QueueMemory) (fuel : Nat) : Option (List Nat) :=
  Queue.walkNext m fuel (m Node.headSentinel).next

/-- The walk `for (e = tailSentinel.prev; e != & headSentinel; e = e->prev)`. -/
def Queue.tailToHead (m : QueueMemory) (fuel : Nat) : Option (List Nat) :=
  Queue.walkPrev m fuel (m Node.tailSentinel).prev

/-- The operations of a queue on entries. -/
inductive QueueOp where
  | enqueueAtTail (entry : Nat)
  | enqueueAtHead (entry : Nat)
  | dequeue (entry : Nat)
  | dequeueAtHead
deriving DecidableEq, Repr

/-- One operation of the code; the first component is what it returns. -/
def Queue.step (op : QueueOp) (m : QueueMemory) : Option (Option Node × QueueMemory) :=
  match op with
  | QueueOp.enqueueAtTail entry =>
    (Queue.enqueueAtTail (Node.entry entry) m).map (fun m1 => (none, m1))
  | QueueOp.enqueueAtHead entry =>
    (Queue.enqueueAtHead (Node.entry entry) m).map (fun m1 => (none, m1))
  | QueueOp.dequeue entry => (Queue.dequeue (Node.entry entry) m).map (fun m1 => (none, m1))
  | QueueOp.dequeueAtHead => (Queue.dequeueAtHead m).map (fun r => (some r.1, r.2))

/-- A sequence of operations of the code, with what each one returned. -/
def Queue.run : List QueueOp → QueueMemory → Option (List (Option Node) × QueueMemory)
  | [], m => some ([], m)
  | op :: rest, m =>
    match Queue.step op m with
    | none => none
    | some r => (Queue.run rest r.2).map (fun q => (r.1 :: q.1, q.2))

/-- The list side of the refinement, in the words of the claim: `enqueueAtTail` appends,
`enqueueAtHead` prepends, `dequeue` removes a member and `dequeueAtHead` removes and
returns the first element of a non-empty list. -/
def listQueueStep (op : QueueOp) (l : List Nat) : Option (Option Nat × List Nat) :=
  match op with
  | QueueOp.enqueueAtTail entry => some (none, l ++ [entry])
  | QueueOp.enqueueAtHead entry => some (none, entry :: l)
  | QueueOp.dequeue entry => if entry ∈ l then some (none, l.erase entry) else none
  | QueueOp.dequeueAtHead =>
    match l with
    | [] => none
    | first :: rest => some (some first, rest)

/-- The list side of the refinement for a sequence of operations, with what each one
returned. -/
def listQueueRun : List QueueOp → List Nat → Option (List (Option Nat) × List Nat)
  | [], l => some ([], l)
  | op :: rest, l =>
    match listQueueStep op l with
    | none => none
    | some r => (listQueueRun rest r.2).map (fun q => (r.1 :: q.1, q.2))

/-- An enqueue operation is fresh for the list when its entry is not in the list. -/
def QueueOp.fresh : QueueOp → List Nat → Bool
  | QueueOp.enqueueAtTail entry, l => decide (entry ∉ l)
  | QueueOp.enqueueAtHead entry, l => decide (entry ∉ l)
  | QueueOp.dequeue _, _ => true
  | QueueOp.dequeueAtHead, _ => true

/-- The operations of the sequence enqueue only entries that are not in the list at that
point. -/
def enqueuesFresh : List QueueOp → List Nat → Bool
  | [], _ => true
  | op :: rest, l =>
    op.fresh l
      && (match listQueueStep op l with
        | none => true
        | some r => enqueuesFresh rest r.2)

/-- The links from `p` through the entries of the list to `q`: each `next` points to the
node behind and each `prev` to the node before. -/
def Chain (m : QueueMemory) : Node → List Nat → Node → Prop
  | p, [], q => (m p).next = some q ∧ (m q).prev = some p
  | p, e :: rest, q =>
    (m p).next = some (Node.entry e) ∧ (m (Node.entry e)).prev = some p
      ∧ Chain m (Node.entry e) rest q

/-- The queue in the memory `m` holds the entries of `l`, from the head to the tail. -/
def Represents (m : QueueMemory) (l : List Nat) : Prop :=
  l.Nodup ∧ Chain m Node.headSentinel l Node.tailSentinel

/-- The node before the tail of the chain from `p` through `l`. -/
def lastNode : Node → List Nat → Node
  | p, [] => p
  | _, e :: rest => lastNode (Node.entry e) rest

/-- The node behind the head of the chain through `l` to `q`. -/
def firstNode : List Nat → Node → Node
  | [], q => q
  | e :: _, _ => Node.entry e

/-! ## The lock and the calls into the policy -/

/-- The member functions of `InputDispatcherPolicyInterface` that the dispatcher calls. -/
inductive PolicyCall where
  | getMaxEventsPerSecond
  | getKeyRepeatTimeout
  | getKeyRepeatDelay
  | checkInjectEventsPermissionNonReentrant
  | notifyConfigurationChanged
  | notifyInputChannelBroken
  | notifyInputChannelANR
  | notifyInputChannelRecoveredFromANR
  | interceptKeyBeforeDispatching
  | pokeUserActivity
  | notifyANR
deriving DecidableEq, Repr

/-- What a thread does to `mLock` and to the policy, and where a command starts and
ends. -/
inductive LockEvent where
  | acquire
  | release
  | policy (call : PolicyCall)
  | commandBegin
  | commandEnd
deriving DecidableEq, Repr

/-- The control skeleton of a function: its operations on `mLock`, its calls into the
policy and its calls of commands, in the order of the code; every other statement is left
out, a branch or an early return is a `choice`, a loop a `loop`. -/
inductive Code where
  | skip
  | lock
  | unlock
  | policy (call : PolicyCall)
  | command (body : Code)
  | seq (a b : Code)
  | choice (a b : Code)
  | loop (body : Code)
deriving Repr

/-- Runs `f` as many times as `n` says, threading the decisions through. -/
def iterateRun (f : List Nat → List LockEvent × List Nat) :
    Nat → List Nat → List LockEvent × List Nat
  | 0, decisions => ([], decisions)
  | n + 1, decisions =>
    let r := f decisions
    let q := iterateRun f n r.2
    (r.1 ++ q.1, q.2)

/-- The events of one run of the skeleton; the list of decisions says which branch a
`choice` takes (0 is the first) and how often a `loop` runs. -/
def Code.run : Code → List Nat → List LockEvent × List Nat
  | Code.skip, decisions => ([], decisions)
  | Code.lock, decisions => ([LockEvent.acquire], decisions)
  | Code.unlock, decisions => ([LockEvent.release], decisions)
  | Code.policy call, decisions => ([LockEvent.policy call], decisions)
  | Code.command body, decisions =>
    let r := body.run decisions
    (LockEvent.commandBegin :: r.1 ++ [LockEvent.commandEnd], r.2)
  | Code.seq a b, decisions =>
    let r := a.run decisions
    let q := b.run r.2
    (r.1 ++ q.1, q.2)
  | Code.choice a b, decisions =>
    match decisions with
    | [] => a.run []
    | d :: rest => if d = 0 then a.run rest else b.run rest
  | Code.loop body, decisions =>
    match decisions with
    | [] => ([], [])
    | n :: rest => iterateRun body.run n rest

def Skeleton.checkInjectionPermission : Code :=
  Code.choice (Code.policy PolicyCall.checkInjectEventsPermissionNonReentrant) Code.skip

def Skeleton.isEventFromReliableSourceLocked : Code :=
  Code.choice Code.skip (Code.policy PolicyCall.checkInjectEventsPermissionNonReentrant)

def Skeleton.detectPendingAppSwitchLocked : Code :=
  Code.choice Skeleton.isEventFromReliableSourceLocked Code.skip

def Skeleton.enqueueInboundEventLocked : Code :=
  Code.choice Skeleton.detectPendingAppSwitchLocked Code.skip

/-- The first branch is a `goto` taken before the permission check. -/
def Skeleton.findFocusedWindowLocked : Code :=
  Code.choice Code.skip Skeleton.checkInjectionPermission

/-- The first `choice` is `if (action == AMOTION_EVENT_ACTION_DOWN)`, with the `goto`s
taken before the check of the DOWN branch; the second one is the check behind `Failed:`,
which is made when the permission is still unknown. -/
def Skeleton.findTouchedWindowLocked : Code :=
  Code.seq
    (Code.choice (Code.choice Code.skip Skeleton.checkInjectionPermission)
      Skeleton.checkInjectionPermission)
    (Code.choice Skeleton.checkInjectionPermission Code.skip)

def Skeleton.dispatchKeyLocked : Code :=
  Code.choice Skeleton.findFocusedWindowLocked Code.skip

def Skeleton.dispatchMotionLocked : Code :=
  Code.choice (Code.choice Skeleton.findTouchedWindowLocked Skeleton.findFocusedWindowLocked)
    Code.skip

/-- The first branch stands for the early returns, the others for the `switch` over the
type of the pending event. -/
def Skeleton.dispatchOnceInnerLocked : Code :=
  Code.choice Code.skip
    (Code.choice Code.skip
      (Code.choice (Code.choice Code.skip Skeleton.dispatchKeyLocked)
        (Code.choice Code.skip Skeleton.dispatchMotionLocked)))

def Skeleton.doNotifyConfigurationChangedInterruptible : Code :=
  Code.seq Code.unlock
    (Code.seq (Code.policy PolicyCall.notifyConfigurationChanged) Code.lock)

def Skeleton.doNotifyInputChannelBrokenLockedInterruptible : Code :=
  Code.choice
    (Code.seq Code.unlock
      (Code.seq (Code.policy PolicyCall.notifyInputChannelBroken) Code.lock))
    Code.skip

def Skeleton.doNotifyInputChannelANRLockedInterruptible : Code :=
  Code.choice
    (Code.seq Code.unlock
      (Code.seq (Code.policy PolicyCall.notifyInputChannelANR) Code.lock))
    Code.skip

def Skeleton.doNotifyInputChannelRecoveredFromANRLockedInterruptible : Code :=
  Code.choice
    (Code.seq Code.unlock
      (Code.seq (Code.policy PolicyCall.notifyInputChannelRecoveredFromANR) Code.lock))
    Code.skip

def Skeleton.doInterceptKeyBeforeDispatchingLockedInterruptible : Code :=
  Code.seq Code.unlock
    (Code.seq (Code.policy PolicyCall.interceptKeyBeforeDispatching) Code.lock)

def Skeleton.doPokeUserActivityLockedInterruptible : Code :=
  Code.seq Code.unlock (Code.seq (Code.policy PolicyCall.pokeUserActivity) Code.lock)

def Skeleton.doTargetsNotReadyTimeoutLockedInterruptible : Code :=
  Code.seq Code.unlock
    (Code.seq
      (Code.choice (Code.policy PolicyCall.notifyInputChannelANR)
        (Code.choice (Code.policy PolicyCall.notifyANR) Code.skip))
      Code.lock)

/-- The call `(this->*command)(commandEntry)` of `runCommandsLockedInterruptible`: any of
the seven commands. -/
def Skeleton.runCommand : Code :=
  Code.command
    (Code.choice Skeleton.doNotifyConfigurationChangedInterruptible
      (Code.choice Skeleton.doNotifyInputChannelBrokenLockedInterruptible
        (Code.choice Skeleton.doNotifyInputChannelANRLockedInterruptible
          (Code.choice Skeleton.doNotifyInputChannelRecoveredFromANRLockedInterruptible
            (Code.choice Skeleton.doInterceptKeyBeforeDispatchingLockedInterruptible
              (Code.choice Skeleton.doPokeUserActivityLockedInterruptible
                Skeleton.doTargetsNotReadyTimeoutLockedInterruptible))))))

def Skeleton.runCommandsLockedInterruptible : Code :=
  Code.choice Code.skip (Code.seq Skeleton.runCommand (Code.loop Skeleton.runCommand))

/-- The call of `pollOnce` at the end is left out: the callbacks it makes are
`handleReceiveCallback`, an entry point of its own. -/
def Skeleton.dispatchOnce : Code :=
  Code.seq (Code.policy PolicyCall.getKeyRepeatTimeout)
    (Code.seq (Code.policy PolicyCall.getKeyRepeatDelay)
      (Code.seq Code.lock
        (Code.seq Skeleton.dispatchOnceInnerLocked
          (Code.seq Skeleton.runCommandsLockedInterruptible Code.unlock))))

def Skeleton.handleReceiveCallback : Code :=
  Code.seq Code.lock
    (Code.seq
      (Code.choice Code.skip
        (Code.choice Skeleton.runCommandsLockedInterruptible
          (Code.choice Code.skip
            (Code.choice Skeleton.runCommandsLockedInterruptible
              Skeleton.runCommandsLockedInterruptible))))
      Code.unlock)

def Skeleton.notifyConfigurationChanged : Code :=
  Code.seq Code.lock (Code.seq Skeleton.enqueueInboundEventLocked Code.unlock)

def Skeleton.notifyKey : Code :=
  Code.seq Code.lock (Code.seq Skeleton.enqueueInboundEventLocked Code.unlock)

/-- The branches are the batched sample, the streamed sample and the new entry. -/
def Skeleton.notifyMotion : Code :=
  Code.seq Code.lock
    (Code.seq
      (Code.choice Code.skip
        (Code.choice Skeleton.runCommandsLockedInterruptible Skeleton.enqueueInboundEventLocked))
      Code.unlock)

/-- The call `waitRelative(mLock, remainingTimeout)` of a condition. -/
def Skeleton.waitRelative : Code :=
  Code.seq Code.unlock Code.lock

def Skeleton.injectInputEvent : Code :=
  Code.seq Code.lock
    (Code.choice Code.unlock
      (Code.seq Skeleton.enqueueInboundEventLocked
        (Code.seq Code.unlock
          (Code.seq Code.lock
            (Code.seq (Code.loop Skeleton.waitRelative)
              (Code.seq (Code.loop Skeleton.waitRelative) Code.unlock))))))

def Skeleton.setInputWindows : Code :=
  Code.seq Code.lock Code.unlock

def Skeleton.setFocusedApplication : Code :=
  Code.seq Code.lock Code.unlock

def Skeleton.setInputDispatchMode : Code :=
  Code.seq Code.lock Code.unlock

def Skeleton.preemptInputDispatch : Code :=
  Code.seq Code.lock Code.unlock

def Skeleton.registerInputChannel : Code :=
  Code.seq Code.lock
    (Code.seq (Code.choice Code.skip Skeleton.runCommandsLockedInterruptible) Code.unlock)

def Skeleton.unregisterInputChannel : Code :=
  Code.seq Code.lock
    (Code.seq (Code.choice Code.skip Skeleton.runCommandsLockedInterruptible) Code.unlock)

/-- The function `dump` reads the state without taking the lock. -/
def Skeleton.dump : Code :=
  Code.skip

/-- The constructor `InputDispatcher(policy)`: it reads the maximal event rate from the
policy and does not take the lock. -/
def Skeleton.InputDispatcher : Code :=
  Code.policy PolicyCall.getMaxEventsPerSecond

/-- The destructor `~InputDispatcher`. -/
def Skeleton.destructor : Code :=
  Code.seq (Code.seq Code.lock Code.unlock) (Code.loop Skeleton.unregisterInputChannel)

/-- The constructor, the destructor and the functions of the dispatcher that other
threads and the poll loop call. -/
inductive EntryPoint where
  | InputDispatcher
  | destructor
  | dispatchOnce
  | handleReceiveCallback
  | notifyConfigurationChanged
  | notifyKey
  | notifyMotion
  | injectInputEvent
  | setInputWindows
  | setFocusedApplication
  | setInputDispatchMode
  | preemptInputDispatch
  | registerInputChannel
  | unregisterInputChannel
  | dump
deriving DecidableEq, Repr

def EntryPoint.body : EntryPoint → Code
  | EntryPoint.InputDispatcher => Skeleton.InputDispatcher
  | EntryPoint.destructor => Skeleton.destructor
  | EntryPoint.dispatchOnce => Skeleton.dispatchOnce
  | EntryPoint.handleReceiveCallback => Skeleton.handleReceiveCallback
  | EntryPoint.notifyConfigurationChanged => Skeleton.notifyConfigurationChanged
  | EntryPoint.notifyKey => Skeleton.notifyKey
  | EntryPoint.notifyMotion => Skeleton.notifyMotion
  | EntryPoint.injectInputEvent => Skeleton.injectInputEvent
  | EntryPoint.setInputWindows => Skeleton.setInputWindows
  | EntryPoint.setFocusedApplication => Skeleton.setFocusedApplication
  | EntryPoint.setInputDispatchMode => Skeleton.setInputDispatchMode
  | EntryPoint.preemptInputDispatch => Skeleton.preemptInputDispatch
  | EntryPoint.registerInputChannel => Skeleton.registerInputChannel
  | EntryPoint.unregisterInputChannel => Skeleton.unregisterInputChannel
  | EntryPoint.dump => Skeleton.dump

/-- The wait cause that a call of `handleTargetsNotReadyLocked` stands for: the system
is not ready when neither an application nor a window is given, the application is not
ready otherwise. -/
def waitCauseOf (application : Option InputApplication) (window : Option Nat) :
    InputTargetWaitCause :=
  if application.isNone && window.isNone then
    InputTargetWaitCause.INPUT_TARGET_WAIT_CAUSE_SYSTEM_NOT_READY
  else InputTargetWaitCause.INPUT_TARGET_WAIT_CAUSE_APPLICATION_NOT_READY

/-- The command that `handleTargetsNotReadyLocked` posts when the wait has timed out. -/
def targetsNotReadyCommand (application : Option InputApplication) (window : Option Nat)
    (s : State) : CommandEntry :=
  { obtainCommandEntry Command.doTargetsNotReadyTimeoutLockedInterruptible with
    inputApplicationHandle := application.map (fun a => a.handle)
    inputChannel := window.map (fun w => (s.window w).inputChannel) }

/-- An input state that is out of sync is not neutral. -/
def InputState.SyncOk (st : InputState) : Prop :=
  st.isOutOfSync = true → st.isNeutral = false

/-- The indices at which the inner loop of `setInputWindows` reads
`mTempTouchedWallpaperChannels`: for each wallpaper window, `numTouchedWallpapers` times
the position `i` of the window in the new list. -/
def tempChannelReads (numTouchedWallpapers : Nat) : List InputWindow → Nat → List Nat
  | [], _ => []
  | window :: rest, i =>
    (if window.layoutParamsType = InputWindow.TYPE_WALLPAPER then
      List.replicate numTouchedWallpapers i else [])
      ++ tempChannelReads numTouchedWallpapers rest (i + 1)

/-- The key that `synthesizeKeyRepeatLocked` makes of the last key `k`: the next repeat
of `k`, with the policy flags masked to the raw ones, marked as synthetic, not yet seen
by the policy, and flagged as a long press when it is the first repeat. -/
def KeyEntry.nextRepeat (k : KeyEntry) : KeyEntry :=
  { k with
    policyFlags := k.policyFlags &&& POLICY_FLAG_RAW_MASK
    repeatCount := k.repeatCount + 1
    syntheticRepeat := true
    interceptKeyResult := InterceptKeyResult.INTERCEPT_KEY_RESULT_UNKNOWN
    flags := if k.repeatCount + 1 = 1 then k.flags ||| AKEY_EVENT_FLAG_LONG_PRESS else k.flags }

/-- The key fields of the last key of the key repeat state, as `dispatchKeyLocked` reads
them through `mKeyRepeatState.lastKeyEntry`. -/
def State.lastKey (s : State) : Option KeyEntry :=
  match s.mKeyRepeatState.lastKeyEntry with
  | some lastKeyEntry => (s.keyOf lastKeyEntry).map (fun r => r.2)
  | none => none

/-- The condition under which the pass leaves the motion event `m` at the head of the
inbound queue, `rest` being the queue behind it: the app switch is not due, the event is
the only one, it is a MOVE of the device and source of the throttle state, and the time
between events has not passed. -/
def Throttled (currentTime : Int) (isAppSwitchDue : Bool) (s : State) (rest : List Nat)
    (m : MotionEntry) : Prop :=
  isAppSwitchDue = false ∧ rest = [] ∧ m.action = AMOTION_EVENT_ACTION_MOVE
    ∧ m.deviceId = s.mThrottleState.lastDeviceId ∧ m.source = s.mThrottleState.lastSource
    ∧ currentTime < s.mThrottleState.lastEventTime + s.mThrottleState.minTimeBetweenEvents

/-- Whether the connection `connection` of `s` has a pending sync target. -/
def State.hasPendingSyncTarget (s : State) (connection : Nat) : Bool :=
  match s.mConnections[connection]? with
  | some c => c.hasPendingSyncTarget
  | none => false

/-- Whether the timeout of the connection `connection` of `s` has passed at `currentTime`. -/
def State.isTimedOut (s : State) (currentTime : Int) (connection : Nat) : Bool :=
  match s.mConnections[connection]? with
  | some c => decide (c.nextTimeoutTime ≤ currentTime)
  | none => false

/-- Calls `trackEvent` on the events of a list, in order: the classifications and the
state after the last call. -/
def InputState.trackEvents : InputState → List EventEntry → List Consistency × InputState
  | st, [] => ([], st)
  | st, e :: rest =>
    ((st.trackEvent e).1 :: ((st.trackEvent e).2.trackEvents rest).1,
      ((st.trackEvent e).2.trackEvents rest).2)

/-- The input state after the calls of `trackEvent` for `entries` on the state that the
constructor makes. -/
def trackedState (entries : List EventEntry) : InputState :=
  (InputState.trackEvents
    { mIsOutOfSync := false, mKeyMementos := [], mMotionMementos := [] } entries).2

/-- No two key mementos have the same device, source, key code and scan code, and no two
motion mementos have the same device and source. -/
def InputState.Distinct (st : InputState) : Prop :=
  st.mKeyMementos.Pairwise (fun a b =>
      ¬ (a.deviceId = b.deviceId ∧ a.source = b.source ∧ a.keyCode = b.keyCode
        ∧ a.scanCode = b.scanCode))
    ∧ st.mMotionMementos.Pairwise (fun a b =>
      ¬ (a.deviceId = b.deviceId ∧ a.source = b.source))

/-- What the invariant of the active connections looks at: the list
`mActiveConnections` and, for each connection of the pool, whether its outbound queue is
empty. -/
abbrev State.activity (s : State) : List Nat × List Bool :=
  (s.mActiveConnections, s.mConnections.map (fun c => c.outboundQueue.isEmpty))

/-- The activity of a state with the entry of the connection `x` blanked. -/
def State.activityExcept (x : Nat) (s : State) : List Nat × List Bool :=
  (s.mActiveConnections,
    modifyAt (fun _ => true) x (s.mConnections.map (fun c => c.outboundQueue.isEmpty)))

/-- A connection is in the active list if and only if its outbound queue is not empty,
and no connection is in the list twice. -/
def ActiveOk (s : State) : Prop :=
  s.mActiveConnections.Nodup
    ∧ ∀ connection : Nat, connection ∈ s.mActiveConnections
        ↔ ∃ c, s.mConnections[connection]? = some c ∧ c.outboundQueue ≠ []

/-- The property `ActiveOk` as a property of the activity. -/
def ActOk (a : List Nat × List Bool) : Prop :=
  a.1.Nodup ∧ ∀ i : Nat, i ∈ a.1 ↔ a.2[i]? = some false

/-- The property `ActOk` for all connections but `x`; the members of the list are
connections of the pool. -/
def HotOk (x : Nat) (a : List Nat × List Bool) : Prop :=
  a.1.Nodup ∧ (∀ i ∈ a.1, i < a.2.length)
    ∧ ∀ i : Nat, i ≠ x → (i ∈ a.1 ↔ a.2[i]? = some false)

/-! ## The sample chain with its pointers -/

/-- A `MotionSample*` of one motion entry: the address of its `firstSample`, or a cell of
`mMotionSamplePool`. -/
inductive SamplePtr where
  | first
  | cell (index : Nat)
deriving DecidableEq, Repr

/-- A `MotionSample` in memory with its `next` pointer; `none` is NULL. -/
structure SampleNode where
  next : Option SamplePtr
  eventTime : Int
  pointerCoords : List PointerCoords
deriving DecidableEq, Repr

/-- The sample that a node holds. -/
def SampleNode.sample (node : SampleNode) : MotionSample :=
  { eventTime := node.eventTime, pointerCoords := node.pointerCoords }

/-- The fields of a `MotionEntry` that the sample chain uses, with `firstSample` and
`lastSample` as in the structure, and the cells of `mMotionSamplePool`. -/
structure SampleChain where
  pointerCount : Nat
  pointerIds : List Int
  firstSample : SampleNode
  lastSample : SamplePtr
  mMotionSamplePool : List SampleNode
deriving DecidableEq, Repr

/-- Reads through a `MotionSample*`. -/
def SampleChain.read (c : SampleChain) : SamplePtr → Option SampleNode
  | SamplePtr.first => some c.firstSample
  | SamplePtr.cell index => c.mMotionSamplePool[index]?

/-- Writes through a `MotionSample*`. -/
def SampleChain.write (c : SampleChain) (f : SampleNode → SampleNode) : SamplePtr → SampleChain
  | SamplePtr.first => { c with firstSample := f c.firstSample }
  | SamplePtr.cell index => { c with mMotionSamplePool := modifyAt f index c.mMotionSamplePool }

/-- The writes of `obtainMotionEntry` to the sample fields, with the pool as it is. -/
def SampleChain.obtainMotionEntry (eventTime : Int) (pointerCount : Nat) (pointerIds : List Int)
    (pointerCoords : List PointerCoords) (pool : List SampleNode) : SampleChain :=
  { pointerCount := pointerCount
    pointerIds := pointerIds.take pointerCount
    firstSample :=
      { next := none, eventTime := eventTime, pointerCoords := pointerCoords.take pointerCount }
    lastSample := SamplePtr.first
    mMotionSamplePool := pool }

/-- The body of `appendMotionSample` on the pointers: a new cell of the pool is filled, its
`next` is NULL, the `next` of `lastSample` is set to it and `lastSample` moves to it. -/
def SampleChain.appendMotionSample (c : SampleChain) (eventTime : Int)
    (pointerCoords : List PointerCoords) : SampleChain :=
  let sample := SamplePtr.cell c.mMotionSamplePool.length
  let c1 : SampleChain :=
    { c with
      mMotionSamplePool := c.mMotionSamplePool ++
        [{ next := none, eventTime := eventTime,
           pointerCoords := pointerCoords.take c.pointerCount }] }
  let c2 := c1.write (fun node => { node with next := some sample }) c1.lastSample
  { c2 with lastSample := sample }

/-- The loop of `countSamples` from the pointer `sample` with the counter `count`; the
result is `none` when the fuel runs out or a pointer leaves the pool. -/
def SampleChain.countLoop (c : SampleChain) : Nat → Option SamplePtr → Nat → Option Nat
  | _, none, count => some count
  | 0, some _, _ => none
  | fuel + 1, some sample, count =>
    match c.read sample with
    | none => none
    | some node => c.countLoop fuel node.next (count + 1)

def SampleChain.countSamples (c : SampleChain) (fuel : Nat) : Option Nat :=
  c.countLoop fuel c.firstSample.next 1

/-- The nodes met on the way along `next` from the pointer `sample`, each with its address;
the result is `none` when the fuel runs out or a pointer leaves the pool. -/
def SampleChain.walkFrom (c : SampleChain) :
    Nat → Option SamplePtr → Option (List (SamplePtr × MotionSample))
  | _, none => some []
  | 0, some _ => none
  | fuel + 1, some sample =>
    match c.read sample with
    | none => none
    | some node => (c.walkFrom fuel node.next).map (fun rest => (sample, node.sample) :: rest)

/-- The sample chain walked from `firstSample`. -/
def SampleChain.walk (c : SampleChain) (fuel : Nat) : Option (List (SamplePtr × MotionSample)) :=
  c.walkFrom fuel (some SamplePtr.first)

/-- The calls of `appendMotionSample` for a list of event times and coords, in order. -/
def SampleChain.appendAll (c : SampleChain) (appended : List (Int × List PointerCoords)) :
    SampleChain :=
  appended.foldl (fun c1 a => c1.appendMotionSample a.1 a.2) c

/-- The calls of `appendMotionSample` on the entry `motionEntry` of the pool of events, for
a list of event times and coords, in order. -/
def appendMotionSamples (motionEntry : Nat) (appended : List (Int × List PointerCoords))
    (s : State) : State :=
  appended.foldl (fun s1 a => appendMotionSample motionEntry a.1 a.2 s1) s

/-- The sample that `appendMotionSample` stores for an event time and coords given to it,
in an entry of `pointerCount` pointers. -/
def storedSample (pointerCount : Nat) (a : Int × List PointerCoords) : MotionSample :=
  { eventTime := a.1, pointerCoords := a.2.take pointerCount }

/-- The cells of a chain of the samples `xs` that starts at the cell `base`. -/
def linkCells : Nat → List MotionSample → List SampleNode
  | _, [] => []
  | base, x :: rest =>
    { next := if rest.isEmpty then none else some (SamplePtr.cell (base + 1))
      eventTime := x.eventTime
      pointerCoords := x.pointerCoords } :: linkCells (base + 1) rest

/-- The chain of the first sample `first` and the samples `xs` in new cells after `pool`. -/
def chainOf (pool : List SampleNode) (pointerCount : Nat) (pointerIds : List Int)
    (first : MotionSample) (xs : List MotionSample) : SampleChain :=
  { pointerCount := pointerCount
    pointerIds := pointerIds
    firstSample :=
      { next := if xs.isEmpty then none else some (SamplePtr.cell pool.length)
        eventTime := first.eventTime
        pointerCoords := first.pointerCoords }
    lastSample :=
      if xs.isEmpty then SamplePtr.first else SamplePtr.cell (pool.length + xs.length - 1)
    mMotionSamplePool := pool ++ linkCells pool.length xs }

/-- The addresses and samples of the cells of `xs` from the cell `base` on. -/
def cellsFrom (base : Nat) (xs : List MotionSample) : List (SamplePtr × MotionSample) :=
  (xs.enumFrom base).map (fun p => (SamplePtr.cell p.1, p.2))

/-! ## Sample inputs -/

/-- A policy that lets every key through and a publisher that never fails, at time 1000. -/
def quietEnv : Env :=
  { now := 1000
    getKeyRepeatTimeout := 500000000
    getKeyRepeatDelay := 50000000
    checkInjectEventsPermissionNonReentrant := fun _ _ => true
    interceptKeyBeforeDispatching := fun _ _ => false
    notifyInputChannelANR := fun _ => 0
    notifyANR := fun _ => 0
    publishKeyEvent := fun _ => OK
    publishMotionEvent := fun _ => OK
    appendMotionSample := fun _ _ => OK
    sendDispatchSignal := fun _ => OK
    receiveFinishedSignal := fun _ => OK
    reset := fun _ => OK
    publisherInitialize := fun _ => OK }

/-- A focused application window on channel 7 whose frame starts at (5, 6). -/
def appWindow : InputWindow :=
  { inputChannel := 7, layoutParamsFlags := 0, layoutParamsType := 1, dispatchingTimeout := 5000,
    frameLeft := 5, frameTop := 6, frameRight := 10, frameBottom := 10,
    visibleFrameLeft := 5, visibleFrameTop := 6, visibleFrameRight := 10, visibleFrameBottom := 10,
    touchableAreaLeft := 5, touchableAreaTop := 6, touchableAreaRight := 10,
    touchableAreaBottom := 10,
    visible := true, hasFocus := true, hasWallpaper := true, paused := false, ownerPid := 1,
    ownerUid := 1000 }

/-- A wallpaper window on channel 8. -/
def wallpaperWindow : InputWindow :=
  { inputChannel := 8, layoutParamsFlags := InputWindow.FLAG_NOT_TOUCHABLE,
    layoutParamsType := InputWindow.TYPE_WALLPAPER, dispatchingTimeout := 3000,
    frameLeft := 0, frameTop := 0, frameRight := 20, frameBottom := 20,
    visibleFrameLeft := 0, visibleFrameTop := 0, visibleFrameRight := 20, visibleFrameBottom := 20,
    touchableAreaLeft := 0, touchableAreaTop := 0, touchableAreaRight := 20,
    touchableAreaBottom := 20,
    visible := true, hasFocus := false, hasWallpaper := false, paused := false, ownerPid := 2,
    ownerUid := 1000 }

/-- A small window on channel 9 that watches the touches outside of it. -/
def watcherWindow : InputWindow :=
  { inputChannel := 9,
    layoutParamsFlags := InputWindow.FLAG_NOT_TOUCH_MODAL ||| InputWindow.FLAG_WATCH_OUTSIDE_TOUCH,
    layoutParamsType := 1, dispatchingTimeout := 4000,
    frameLeft := 0, frameTop := 0, frameRight := 2, frameBottom := 2,
    visibleFrameLeft := 0, visibleFrameTop := 0, visibleFrameRight := 2, visibleFrameBottom := 2,
    touchableAreaLeft := 0, touchableAreaTop := 0, touchableAreaRight := 2,
    touchableAreaBottom := 2,
    visible := true, hasFocus := false, hasWallpaper := false, paused := false, ownerPid := 3,
    ownerUid := 1000 }

def keyUp : KeyEntry :=
  { deviceId := 1, source := 0x101, policyFlags := 0, action := AKEY_EVENT_ACTION_UP, flags := 0,
    keyCode := 42, scanCode := 0, metaState := 0, repeatCount := 0, downTime := 5,
    syntheticRepeat := false,
    interceptKeyResult := InterceptKeyResult.INTERCEPT_KEY_RESULT_UNKNOWN }

/-- A DOWN of one pointer at (7, 8). -/
def touchDown : MotionEntry :=
  { deviceId := 1, source := 0x1002, policyFlags := 0, action := AMOTION_EVENT_ACTION_DOWN,
    flags := 0, metaState := 0, edgeFlags := 0, xPrecision := 1, yPrecision := 1, downTime := 5,
    pointerCount := 1, pointerIds := [0],
    firstSample :=
      { eventTime := 5,
        pointerCoords :=
          [{ x := 7, y := 8, pressure := 1, size := 1, touchMajor := 0, touchMinor := 0,
             toolMajor := 0, toolMinor := 0, orientation := 0 }] },
    nextSamples := [] }

/-- The state after `setInputWindows` with the three sample windows, front to back. -/
def windowsState : State :=
  setInputWindows [watcherWindow, appWindow, wallpaperWindow] (State.initial 60)

/-- A key event with an action that is neither DOWN nor UP. -/
def badActionKey : KeyEvent :=
  { deviceId := 1, source := 0x101, action := 2, flags := 0, keyCode := 42, scanCode := 0,
    metaState := 0, repeatCount := 0, downTime := 5, eventTime := 10 }

/-- A key UP to inject. -/
def keyUpEvent : KeyEvent :=
  { deviceId := 1, source := 0x101, action := AKEY_EVENT_ACTION_UP, flags := 0, keyCode := 42,
    scanCode := 0, metaState := 0, repeatCount := 0, downTime := 5, eventTime := 10 }

/-- A MOVE with no pointer at all. -/
def noPointerMove : MotionEvent :=
  { deviceId := 1, source := 0x1002, action := AMOTION_EVENT_ACTION_MOVE, flags := 0,
    metaState := 0, edgeFlags := 0, xPrecision := 1, yPrecision := 1, downTime := 0,
    pointerIds := [], sampleEventTimes := [5], samplePointerCoords := [] }

/-- A key UP for the focused window, followed by two passes of the dispatch loop: the
first pass asks the policy about the key, the second one dispatches it.  The channel of
the window is registered first, as a monitor when `monitor` is set. -/
def keyDispatchTrace (monitor : Bool) : List (Env × Op) :=
  [(quietEnv, Op.registerInputChannel 7 monitor),
   (quietEnv, Op.setInputWindows [appWindow]),
   (quietEnv, Op.notifyKey 10 1 0x101 0 AKEY_EVENT_ACTION_UP 0 42 0 0 5),
   (quietEnv, Op.dispatchOnce),
   (quietEnv, Op.dispatchOnce)]

/-- The key dispatch above, then a preemption, then the finished signal of the window. -/
def preemptedKeyTrace : List (Env × Op) :=
  keyDispatchTrace false
    ++ [(quietEnv, Op.preemptInputDispatch), (quietEnv, Op.handleReceiveCallback 7 POLLIN)]

/-- A one-pointer position with unit pressure and size. -/
def pointerAt (x y : Int) : PointerCoords :=
  { x := x, y := y, pressure := 1, size := 1, touchMajor := 0, touchMinor := 0,
    toolMajor := 0, toolMinor := 0, orientation := 0 }

/-- The window W1 of the outside-touch scenario: frame and touchable area (0,0,10,10),
visible, on channel 1, with the layout flags `flags`. -/
def frontWindow (flags : Nat) : InputWindow :=
  { inputChannel := 1, layoutParamsFlags := flags, layoutParamsType := 1,
    dispatchingTimeout := 5000,
    frameLeft := 0, frameTop := 0, frameRight := 10, frameBottom := 10,
    visibleFrameLeft := 0, visibleFrameTop := 0, visibleFrameRight := 10, visibleFrameBottom := 10,
    touchableAreaLeft := 0, touchableAreaTop := 0, touchableAreaRight := 10,
    touchableAreaBottom := 10,
    visible := true, hasFocus := false, hasWallpaper := false, paused := false, ownerPid := 1,
    ownerUid := 1000 }

/-- The window W2 of the outside-touch scenario: frame and touchable area
(20,20,30,30), visible, on channel 2, with `FLAG_WATCH_OUTSIDE_TOUCH`. -/
def backWindow : InputWindow :=
  { inputChannel := 2, layoutParamsFlags := InputWindow.FLAG_WATCH_OUTSIDE_TOUCH,
    layoutParamsType := 1, dispatchingTimeout := 5000,
    frameLeft := 20, frameTop := 20, frameRight := 30, frameBottom := 30,
    visibleFrameLeft := 20, visibleFrameTop := 20, visibleFrameRight := 30,
    visibleFrameBottom := 30,
    touchableAreaLeft := 20, touchableAreaTop := 20, touchableAreaRight := 30,
    touchableAreaBottom := 30,
    visible := true, hasFocus := false, hasWallpaper := false, paused := false, ownerPid := 2,
    ownerUid := 1000 }

/-- A motion entry of one pointer at `(x, y)` with the action `action`. -/
def pointerMotion (action : Nat) (x y : Int) : MotionEntry :=
  { deviceId := 1, source := 0x1002, policyFlags := 0, action := action,
    flags := 0, metaState := 0, edgeFlags := 0, xPrecision := 1, yPrecision := 1, downTime := 5,
    pointerCount := 1, pointerIds := [0],
    firstSample := { eventTime := 5, pointerCoords := [pointerAt x y] },
    nextSamples := [] }

/-- The state after `setInputWindows` with W1 (with the flags `flags`) in front of W2. -/
def outsideScenario (flags : Nat) : State :=
  setInputWindows [frontWindow flags, backWindow] (State.initial 60)

/-- One pointer goes down at (7, 8) on the focused sample window and the window signals
that it has finished; then a motion with the action `lastAction` arrives and is
dispatched. -/
def touchTrace (lastAction : Nat) : List (Env × Op) :=
  [(quietEnv, Op.registerInputChannel 7 false),
   (quietEnv, Op.setInputWindows [appWindow]),
   (quietEnv, Op.notifyMotion 10 1 0x1002 0 AMOTION_EVENT_ACTION_DOWN 0 0 0 1 [0]
      [pointerAt 7 8] 1 1 10),
   (quietEnv, Op.dispatchOnce),
   (quietEnv, Op.handleReceiveCallback 7 POLLIN),
   (quietEnv, Op.notifyMotion 20 1 0x1002 0 lastAction 0 0 0 1 [0] [pointerAt 7 8] 1 1 10),
   (quietEnv, Op.dispatchOnce)]

/-- A HOME key UP from the device, in the pool of an otherwise fresh dispatcher. -/
def homeUpState : State :=
  (obtainKeyEntry 10 1 0x101 0 AKEY_EVENT_ACTION_UP 0 AKEYCODE_HOME 0 0 0 5 (State.initial 60)).2

/-- The environment of `quietEnv` at a time after the app switch timeout. -/
def lateEnv : Env := { quietEnv with now := 600000000 }

/-- A key-up event with the given key code at time 10. -/
def keyUpOf (keyCode : Int) : Op :=
  Op.notifyKey 10 1 0x101 0 AKEY_EVENT_ACTION_UP 0 keyCode 0 0 10

/-- A dispatcher with the window of `appWindow` whose inbound queue holds the release
of key 42 and then the release of HOME, which arms the app switch for time 500000010. -/
def overdueState : State :=
  run [(quietEnv, Op.registerInputChannel 7 false),
       (quietEnv, Op.setInputWindows [appWindow]),
       (quietEnv, keyUpOf 42),
       (quietEnv, keyUpOf AKEYCODE_HOME)] (State.initial 60)

/-- The environment of `quietEnv` with key repeat switched off. -/
def noRepeatEnv : Env := { quietEnv with getKeyRepeatTimeout := -1 }

/-- A key DOWN for the focused window and three passes, all with a negative key repeat
timeout; the second pass dispatches the key, the third one finds the queue empty. -/
def noRepeatTrace : List (Env × Op) :=
  [(noRepeatEnv, Op.registerInputChannel 7 false),
   (noRepeatEnv, Op.setInputWindows [appWindow]),
   (noRepeatEnv, Op.notifyKey 10 1 0x101 0 AKEY_EVENT_ACTION_DOWN 0 42 0 0 10),
   (noRepeatEnv, Op.dispatchOnce),
   (noRepeatEnv, Op.dispatchOnce),
   (noRepeatEnv, Op.dispatchOnce)]

/-- The same key DOWN dispatched with the key repeat timeout of `quietEnv`: the key is
the last key of the key repeat state, and its repeat is due from time 500000010 on. -/
def repeatArmedState : State :=
  run [(quietEnv, Op.registerInputChannel 7 false),
       (quietEnv, Op.setInputWindows [appWindow]),
       (quietEnv, Op.notifyKey 10 1 0x101 0 AKEY_EVENT_ACTION_DOWN 0 42 0 0 10),
       (quietEnv, Op.dispatchOnce),
       (quietEnv, Op.dispatchOnce),
       (quietEnv, Op.handleReceiveCallback 7 POLLIN)] (State.initial 60)

/-- The dispatcher of `keyDispatchTrace` after the first pass over the release of key
42: channel 7 is registered and the command that asks the policy about the key waits in
the command queue. -/
def busyState : State :=
  run ((keyDispatchTrace true).take 4 ++ [(quietEnv, Op.dispatchOnceInnerLocked)])
    (State.initial 60)

/-- The dispatcher of `keyDispatchTrace` with channel 7 as a monitor, after a pass at a
time past the timeout of the key: the connection is NOT_RESPONDING, its queue holds the
entry of the window (synchronous, in progress) and the entry of the monitor. -/
def stalledState : State :=
  run (keyDispatchTrace true ++ [(lateEnv, Op.dispatchOnceInnerLocked)]) (State.initial 60)

/-- The connection of channel 7 in `stalledState`. -/
def stalledConnection : Connection :=
  { status := Status.STATUS_NOT_RESPONDING
    inputChannel := 7
    inputPublisher :=
      [PublisherCall.publishKeyEvent 1 257 1 0 42 0 0 0 5 10, PublisherCall.sendDispatchSignal]
    inputState := { mIsOutOfSync := false, mKeyMementos := [], mMotionMementos := [] }
    outboundQueue :=
      [{ eventEntry := 0, targetFlags := 1, xOffset := -5, yOffset := -6, timeout := 5000,
         inProgress := true, headMotionSample := none, tailMotionSample := none },
       { eventEntry := 0, targetFlags := 0, xOffset := 0, yOffset := 0, timeout := -1,
         inProgress := false, headMotionSample := none, tailMotionSample := none }]
    nextTimeoutTime := 6000
    lastEventTime := 10
    lastDispatchTime := 1000
    lastANRTime := 600000000 }

/-- The environment of `quietEnv` at time 10000. -/
def laterEnv : Env := { quietEnv with now := 10000 }

/-- A key arrives at time 1000 while the focused application has no window yet; the
window of `appWindow` (timeout 5000) appears, and the passes at time 10000 find it and
dispatch the key after a wait of 9000. -/
def longWaitTrace : List (Env × Op) :=
  [(quietEnv, Op.registerInputChannel 7 false),
   (quietEnv, Op.setFocusedApplication (some { dispatchingTimeout := 1000000, handle := 1 })),
   (quietEnv, Op.notifyKey 10 1 0x101 0 AKEY_EVENT_ACTION_UP 0 42 0 0 5),
   (quietEnv, Op.dispatchOnce),
   (quietEnv, Op.setInputWindows [appWindow]),
   (laterEnv, Op.dispatchOnce),
   (laterEnv, Op.dispatchOnce)]

/-- A connection on channel 7 whose outbound queue holds one entry, not yet in progress,
for a one-pointer DOWN, with the target flags OUTSIDE, CANCEL and WINDOW_IS_OBSCURED and
the offsets (-5, -6). -/
def canceledOutsideState : State :=
  modifyConnection 0 (fun c =>
    { c with
      outboundQueue :=
        [{ eventEntry := 0
           targetFlags := InputTarget.FLAG_OUTSIDE ||| InputTarget.FLAG_CANCEL
             ||| InputTarget.FLAG_WINDOW_IS_OBSCURED
           xOffset := -5, yOffset := -6, timeout := 5000, inProgress := false
           headMotionSample := none, tailMotionSample := none }] })
    (allocEvent (initializeEventEntry
        (EventBody.motion (pointerMotion AMOTION_EVENT_ACTION_DOWN 7 8)) 5)
      (registerInputChannel quietEnv 7 false (State.initial 60)).2).2

/-- The key 42 goes down and is dispatched to channel 7, the window does not answer, the
policy gives it no more time, and then the window finishes the key: the connection is
NORMAL again with an empty queue, but its input state is out of sync and still holds
the memento of the key. -/
def driftTrace : List (Env × Op) :=
  [(quietEnv, Op.registerInputChannel 7 false),
   (quietEnv, Op.setInputWindows [appWindow]),
   (quietEnv, Op.notifyKey 10 1 0x101 0 AKEY_EVENT_ACTION_DOWN 0 42 0 0 10),
   (quietEnv, Op.dispatchOnce),
   (quietEnv, Op.dispatchOnce),
   (lateEnv, Op.dispatchOnce),
   (lateEnv, Op.handleReceiveCallback 7 POLLIN)]

/-- The connection of channel 7 after `driftTrace`. -/
def driftedConnection : Connection :=
  { status := Status.STATUS_NORMAL
    inputChannel := 7
    inputPublisher :=
      [PublisherCall.publishKeyEvent 1 257 0 0 42 0 0 0 10 10, PublisherCall.sendDispatchSignal,
       PublisherCall.receiveFinishedSignal, PublisherCall.reset]
    inputState :=
      { mIsOutOfSync := true
        mKeyMementos := [{ deviceId := 1, source := 257, keyCode := 42, scanCode := 0,
                           downTime := 10 }]
        mMotionMementos := [] }
    outboundQueue := []
    nextTimeoutTime := LONG_LONG_MAX
    lastEventTime := 10
    lastDispatchTime := 1000
    lastANRTime := 600000000 }

/-- The target that `appWindow` makes for a synchronous dispatch. -/
def appTarget : InputTarget :=
  { inputChannel := 7, flags := InputTarget.FLAG_SYNC, timeout := 5000,
    timeSpentWaitingForApplication := 0, xOffset := -5, yOffset := -6 }

/-- The environment of `lateEnv` with a publisher that has no room for the sample of
time 40. -/
def tightEnv : Env :=
  { lateEnv with
    appendMotionSample := fun _ sample => if sample.eventTime = 40 then NO_MEMORY else OK }

/-- A MOVE of one pointer to `(x, 8)` at time `t`. -/
def moveAt (t x : Int) : Op :=
  Op.notifyMotion t 1 0x1002 0 AMOTION_EVENT_ACTION_MOVE 0 0 0 1 [0] [pointerAt x 8] 1 1 10

/-- A pointer goes down on the window of `appWindow`; while the window handles the DOWN
four moves arrive and are batched into one motion entry; the window finishes the DOWN;
the moves are dispatched by a publisher that has no room for the third sample, and the
window finishes that cycle. -/
def streamTrace : List (Env × Op) :=
  [(quietEnv, Op.registerInputChannel 7 false),
   (quietEnv, Op.setInputWindows [appWindow]),
   (quietEnv, Op.notifyMotion 10 1 0x1002 0 AMOTION_EVENT_ACTION_DOWN 0 0 0 1 [0]
      [pointerAt 7 8] 1 1 10),
   (quietEnv, Op.dispatchOnce),
   (quietEnv, moveAt 20 6),
   (quietEnv, moveAt 30 7),
   (quietEnv, moveAt 40 8),
   (quietEnv, moveAt 50 9),
   (quietEnv, Op.handleReceiveCallback 7 POLLIN),
   (tightEnv, Op.dispatchOnce),
   (lateEnv, Op.handleReceiveCallback 7 POLLIN)]

/-- The batched motion entry of `streamTrace`: four samples, at the times 20 to 50. -/
def streamMotion : MotionEntry :=
  { deviceId := 1, source := 0x1002, policyFlags := 0, action := AMOTION_EVENT_ACTION_MOVE,
    flags := 0, metaState := 0, edgeFlags := 0, xPrecision := 1, yPrecision := 1, downTime := 10,
    pointerCount := 1, pointerIds := [0],
    firstSample := { eventTime := 20, pointerCoords := [pointerAt 6 8] },
    nextSamples :=
      [{ eventTime := 30, pointerCoords := [pointerAt 7 8] },
       { eventTime := 40, pointerCoords := [pointerAt 8 8] },
       { eventTime := 50, pointerCoords := [pointerAt 9 8] }] }

/-- The dispatch entry that the window of `appWindow` gets for event 1. -/
def streamHead : DispatchEntry :=
  { eventEntry := 1, targetFlags := InputTarget.FLAG_SYNC, xOffset := -5, yOffset := -6,
    timeout := 5000, inProgress := false, headMotionSample := none, tailMotionSample := none }

/-- The state of `streamTrace` before the moves are dispatched, with the dispatch entry of
the moves on the queue of channel 7. -/
def streamReadyState : State :=
  modifyConnection 0 (fun c => { c with outboundQueue := [streamHead] })
    (run (streamTrace.take 9) (State.initial 60))

/-- A second wallpaper window, on channel 6. -/
def secondWallpaper : InputWindow := { wallpaperWindow with inputChannel := 6 }

/-- Two wallpaper windows in front of the window of `appWindow`. -/
def twoWallpapers : List InputWindow := [wallpaperWindow, secondWallpaper, appWindow]

/-- One pointer goes down at (7, 8) on the window of `appWindow`, which has the two
wallpaper windows behind its touch. -/
def touchedTrace : List (Env × Op) :=
  [(quietEnv, Op.registerInputChannel 7 false),
   (quietEnv, Op.setInputWindows twoWallpapers),
   (quietEnv, Op.notifyMotion 10 1 0x1002 0 AMOTION_EVENT_ACTION_DOWN 0 0 0 1 [0]
      [pointerAt 7 8] 1 1 10),
   (quietEnv, Op.dispatchOnce)]

/-- A memory in which every pointer is `NULL`. -/
def nullMemory : QueueMemory := fun _ => { prev := none, next := none }

/-- The dispatcher of `longWaitTrace` after the pass at time 1000: the key waits for the
focused application, which has no window yet; the wait started at 1000 and times out at
1001000. -/
def waitingState : State := run (longWaitTrace.take 4) (State.initial 60)

/-- An input state that tracks the key of `keyUp` as down and is out of sync. -/
def heldKeyState : InputState :=
  { mIsOutOfSync := true
    mKeyMementos := [{ deviceId := 1, source := 0x101, keyCode := 42, scanCode := 0, downTime := 5 }]
    mMotionMementos := [] }

/-- The window of `appWindow` in front of the two wallpaper windows. -/
def wallpapersBehind : List InputWindow := [appWindow, wallpaperWindow, secondWallpaper]

/-- One pointer goes down at (7, 8) on the window of `appWindow`, the first of the list
`wallpapersBehind`. -/
def touchedBehindTrace : List (Env × Op) :=
  [(quietEnv, Op.registerInputChannel 7 false),
   (quietEnv, Op.setInputWindows wallpapersBehind),
   (quietEnv, Op.notifyMotion 10 1 0x1002 0 AMOTION_EVENT_ACTION_DOWN 0 0 0 1 [0]
      [pointerAt 7 8] 1 1 10),
   (quietEnv, Op.dispatchOnce)]

/-- The dispatcher of `repeatArmedState` before the window has finished the key: the key
is the last key of the key repeat state and is still referenced by the outbound queue. -/
def repeatQueuedState : State :=
  run [(quietEnv, Op.registerInputChannel 7 false),
       (quietEnv, Op.setInputWindows [appWindow]),
       (quietEnv, Op.notifyKey 10 1 0x101 0 AKEY_EVENT_ACTION_DOWN 0 42 0 0 10),
       (quietEnv, Op.dispatchOnce),
       (quietEnv, Op.dispatchOnce)] (State.initial 60)

/-- The key fields of the key DOWN of `repeatArmedState` after its dispatch. -/
def dispatchedKeyDown : KeyEntry :=
  { deviceId := 1, source := 0x101, policyFlags := 0, action := AKEY_EVENT_ACTION_DOWN,
    flags := 0, keyCode := 42, scanCode := 0, metaState := 0, repeatCount := 0, downTime := 10,
    syntheticRepeat := false,
    interceptKeyResult := InterceptKeyResult.INTERCEPT_KEY_RESULT_CONTINUE }

/-- The key fields of a DOWN of key 42 that the dispatcher has not looked at yet. -/
def dispatchedKeyDownFresh : KeyEntry :=
  { deviceId := 1, source := 0x101, policyFlags := 0, action := AKEY_EVENT_ACTION_DOWN,
    flags := 0, keyCode := 42, scanCode := 0, metaState := 0, repeatCount := 0, downTime := 10,
    syntheticRepeat := false,
    interceptKeyResult := InterceptKeyResult.INTERCEPT_KEY_RESULT_UNKNOWN }

/-- A key DOWN (key 42, event time 10) for the focused window has been taken from the
inbound queue by a pass at time 1000 and is about to be dispatched; no key is stored in
the key repeat state. -/
def firstDownState : State :=
  (passAtEvent quietEnv 500000000 50000000
    (run [(quietEnv, Op.registerInputChannel 7 false),
          (quietEnv, Op.setInputWindows [appWindow]),
          (quietEnv, Op.notifyKey 10 1 0x101 0 AKEY_EVENT_ACTION_DOWN 0 42 0 0 10)]
      (State.initial 60))).2

/-- After the key DOWN of `repeatArmedState`, which is stored in the key repeat state, a
second DOWN of key 42 (event time 20) has been taken from the inbound queue and is about
to be dispatched. -/
def secondDownState : State :=
  (passAtEvent quietEnv 500000000 50000000
    (step quietEnv (Op.notifyKey 20 1 0x101 0 AKEY_EVENT_ACTION_DOWN 0 42 0 0 10)
      repeatArmedState)).2

/-- A dispatcher at time 600000000 in which the app switch is due since 500000010 (the
release of HOME that armed it was dropped while dispatch was disabled), the last
motion was delivered with event time 590000000, and a MOVE of the same device and source
is alone in the inbound queue. -/
def dueMoveState : State :=
  run [(lateEnv, Op.registerInputChannel 7 false),
       (lateEnv, Op.setInputWindows [appWindow]),
       (lateEnv, Op.notifyMotion 590000000 1 0x1002 0 AMOTION_EVENT_ACTION_DOWN 0 0 0 1 [0]
          [pointerAt 7 8] 1 1 590000000),
       (lateEnv, Op.dispatchOnce),
       (lateEnv, Op.handleReceiveCallback 7 POLLIN),
       (lateEnv, Op.setInputDispatchMode false false),
       (lateEnv, keyUpOf AKEYCODE_HOME),
       (lateEnv, Op.dispatchOnce),
       (lateEnv, Op.setInputDispatchMode true false),
       (lateEnv, Op.notifyMotion 595000000 1 0x1002 0 AMOTION_EVENT_ACTION_MOVE 0 0 0 1 [0]
          [pointerAt 7 9] 1 1 590000000)] (State.initial 60)

/-- The dispatcher of `dueMoveState` without the release of HOME: the app switch is not
armed. -/
def quietMoveState : State :=
  run [(lateEnv, Op.registerInputChannel 7 false),
       (lateEnv, Op.setInputWindows [appWindow]),
       (lateEnv, Op.notifyMotion 590000000 1 0x1002 0 AMOTION_EVENT_ACTION_DOWN 0 0 0 1 [0]
          [pointerAt 7 8] 1 1 590000000),
       (lateEnv, Op.dispatchOnce),
       (lateEnv, Op.handleReceiveCallback 7 POLLIN),
       (lateEnv, Op.notifyMotion 595000000 1 0x1002 0 AMOTION_EVENT_ACTION_MOVE 0 0 0 1 [0]
          [pointerAt 7 9] 1 1 590000000)] (State.initial 60)

/-- The MOVE at the head of the inbound queue of `dueMoveState` and `quietMoveState`. -/
def queuedMove : MotionEntry :=
  { deviceId := 1, source := 0x1002, policyFlags := 0, action := AMOTION_EVENT_ACTION_MOVE,
    flags := 0, metaState := 0, edgeFlags := 0, xPrecision := 1, yPrecision := 1,
    downTime := 590000000, pointerCount := 1, pointerIds := [0],
    firstSample := { eventTime := 595000000, pointerCoords := [pointerAt 7 9] },
    nextSamples := [] }

/-- The dispatcher of `repeatQueuedState` after the release of HOME has been queued: the
connection of channel 7 still holds the synchronous entry of the key, and the app switch
is due from time 500000010 on. -/
def dueSyncState : State :=
  run [(quietEnv, keyUpOf AKEYCODE_HOME)] repeatQueuedState

/-- The DOWN of the key of `keyUp`, the DOWN of `touchDown` and a second DOWN of the same
key, as tracked events. -/
def heldInputs : List EventEntry :=
  [initializeEventEntry (EventBody.key { keyUp with action := AKEY_EVENT_ACTION_DOWN }) 10,
   initializeEventEntry (EventBody.motion touchDown) 10,
   initializeEventEntry (EventBody.key { keyUp with action := AKEY_EVENT_ACTION_DOWN }) 20]

/-- A chain of three samples of one pointer: the entry is made at time 5 and gets the
samples of times 6 and 7; the sample pool holds one cell of another entry before. -/
def threeSamples : SampleChain :=
  (SampleChain.obtainMotionEntry 5 1 [0] [pointerAt 7 8, pointerAt 1 1]
    [{ next := none, eventTime := 1, pointerCoords := [] }]).appendAll
      [(6, [pointerAt 8 8, pointerAt 2 2]), (7, [pointerAt 9 8])]

/-- The dispatcher of `repeatQueuedState` after a pass at a time past the timeout of the
key DOWN: the connection is NOT_RESPONDING and its input state holds the key. -/
def stalledDownState : State :=
  run [(lateEnv, Op.dispatchOnceInnerLocked)] repeatQueuedState

/-! # Lemmas -/

theorem mem_modifyAt {α : Type} (f : α → α) (a : α) :
    ∀ (n : Nat) (l : List α), a ∈ modifyAt f n l → a ∈ l ∨ ∃ b ∈ l, a = f b := by
  intro n l
  induction l generalizing n with
  | nil => intro h; simp [modifyAt] at h
  | cons x xs ih =>
    intro h
    cases n with
    | zero =>
      simp only [modifyAt, List.mem_cons] at h
      rcases h with h | h
      · exact Or.inr ⟨x, List.mem_cons_self _ _, h⟩
      · exact Or.inl (List.mem_cons_of_mem _ h)
    | succ n =>
      simp only [modifyAt, List.mem_cons] at h
      rcases h with h | h
      · exact Or.inl (h ▸ List.mem_cons_self _ _)
      · rcases ih n h with h1 | ⟨b, hb, hab⟩
        · exact Or.inl (List.mem_cons_of_mem _ h1)
        · exact Or.inr ⟨b, List.mem_cons_of_mem _ hb, hab⟩

theorem tail_modifyAt_succ {α : Type} (f : α → α) (n : Nat) (l : List α) :
    (modifyAt f (n + 1) l).tail = modifyAt f n l.tail := by
  cases l <;> simp [modifyAt]

theorem tail_modifyAt_zero {α : Type} (f : α → α) (l : List α) :
    (modifyAt f 0 l).tail = l.tail := by
  cases l <;> simp [modifyAt]

theorem queueOk_nil : QueueOk [] := by
  intro d hd; simp at hd

theorem queueOk_cons_iff (d : DispatchEntry) (q : List DispatchEntry) :
    QueueOk (d :: q) ↔ ∀ e ∈ q, e.inProgress = false := Iff.rfl

theorem queueOk_of_all (q : List DispatchEntry) (h : ∀ e ∈ q, e.inProgress = false) :
    QueueOk q := fun d hd => h d (List.mem_of_mem_tail hd)

theorem queueOk_tail_of (d : DispatchEntry) (q : List DispatchEntry) (h : QueueOk (d :: q)) :
    QueueOk q := queueOk_of_all q h

theorem queueOk_take (n : Nat) (q : List DispatchEntry) (h : QueueOk q) : QueueOk (q.take n) := by
  cases q with
  | nil => simpa using h
  | cons d rest =>
    cases n with
    | zero => simpa using queueOk_nil
    | succ n =>
      intro e he
      simp only [List.take_succ_cons, List.tail_cons] at he
      exact h e (List.mem_of_mem_take he)

theorem queueOk_append (q : List DispatchEntry) (d : DispatchEntry) (h : QueueOk q)
    (hd : d.inProgress = false) : QueueOk (q ++ [d]) := by
  cases q with
  | nil => simpa using queueOk_nil
  | cons x rest =>
    intro e he
    simp only [List.cons_append, List.tail_cons, List.mem_append, List.mem_singleton] at he
    rcases he with he | he
    · exact h e he
    · exact he ▸ hd

theorem queueOk_modifyAt (f : DispatchEntry → DispatchEntry)
    (hf : ∀ d, (f d).inProgress = d.inProgress) (n : Nat) (q : List DispatchEntry)
    (h : QueueOk q) : QueueOk (modifyAt f n q) := by
  cases n with
  | zero => intro e he; rw [tail_modifyAt_zero] at he; exact h e he
  | succ n =>
    intro e he
    rw [tail_modifyAt_succ] at he
    rcases mem_modifyAt f e n _ he with h1 | ⟨b, hb, rfl⟩
    · exact h e h1
    · rw [hf]; exact h b hb

theorem queueOk_modifyAt_zero (f : DispatchEntry → DispatchEntry) (q : List DispatchEntry)
    (h : QueueOk q) : QueueOk (modifyAt f 0 q) := by
  intro e he; rw [tail_modifyAt_zero] at he; exact h e he

theorem connsOk_modifyAt (f : Connection → Connection)
    (hf : ∀ c, QueueOk c.outboundQueue → QueueOk (f c).outboundQueue) (n : Nat)
    (cs : List Connection) (h : ConnsOk cs) : ConnsOk (modifyAt f n cs) := by
  intro c hc
  rcases mem_modifyAt f c n cs hc with h1 | ⟨b, hb, rfl⟩
  · exact h c h1
  · exact hf b (h b hb)

theorem connsOk_append (cs : List Connection) (c : Connection) (h : ConnsOk cs)
    (hc : QueueOk c.outboundQueue) : ConnsOk (cs ++ [c]) := by
  intro x hx
  simp only [List.mem_append, List.mem_singleton] at hx
  rcases hx with hx | hx
  · exact h x hx
  · exact hx ▸ hc

theorem connsOk_getElem? (cs : List Connection) (h : ConnsOk cs) (i : Nat) (c : Connection)
    (hc : cs[i]? = some c) : QueueOk c.outboundQueue :=
  h c (List.getElem?_mem hc)

/-! ### Functions that leave the connections alone -/

theorem modifyEvent_mConnections (id : Nat) (f : EventEntry → EventEntry) (s : State) :
    (modifyEvent id f s).mConnections = s.mConnections := rfl

theorem allocEvent_mConnections (e : EventEntry) (s : State) :
    (allocEvent e s).2.mConnections = s.mConnections := rfl

theorem obtainKeyEntry_mConnections (eventTime deviceId : Int)
    (source policyFlags action flags : Nat) (keyCode scanCode metaState repeatCount downTime : Int)
    (s : State) :
    (obtainKeyEntry eventTime deviceId source policyFlags action flags keyCode scanCode metaState
      repeatCount downTime s).2.mConnections = s.mConnections := rfl

theorem obtainMotionEntry_mConnections (eventTime deviceId : Int)
    (source policyFlags action flags : Nat)
    (metaState edgeFlags xPrecision yPrecision downTime : Int) (pointerCount : Nat)
    (pointerIds : List Int) (pointerCoords : List PointerCoords) (s : State) :
    (obtainMotionEntry eventTime deviceId source policyFlags action flags metaState edgeFlags
      xPrecision yPrecision downTime pointerCount pointerIds pointerCoords s).2.mConnections
      = s.mConnections := rfl

theorem obtainDispatchEntry_mConnections (eventEntry targetFlags : Nat)
    (xOffset yOffset timeout : Int) (s : State) :
    (obtainDispatchEntry eventEntry targetFlags xOffset yOffset timeout s).2.mConnections
      = s.mConnections := rfl

theorem obtainDispatchEntry_inProgress (eventEntry targetFlags : Nat)
    (xOffset yOffset timeout : Int) (s : State) :
    (obtainDispatchEntry eventEntry targetFlags xOffset yOffset timeout s).1.inProgress = false :=
  rfl

theorem releaseEventEntry_mConnections (entry : Nat) (s : State) :
    (releaseEventEntry entry s).mConnections = s.mConnections := by
  unfold releaseEventEntry
  split
  · rfl
  · split <;> rfl

theorem releaseKeyEntry_mConnections (entry : Nat) (s : State) :
    (releaseKeyEntry entry s).mConnections = s.mConnections := rfl

theorem releaseDispatchEntry_mConnections (d : DispatchEntry) (s : State) :
    (releaseDispatchEntry d s).mConnections = s.mConnections :=
  releaseEventEntry_mConnections _ _

theorem appendMotionSample_mConnections (entry : Nat) (eventTime : Int)
    (pointerCoords : List PointerCoords) (s : State) :
    (appendMotionSample entry eventTime pointerCoords s).mConnections = s.mConnections := rfl

theorem postCommandLocked_mConnections (c : CommandEntry) (s : State) :
    (postCommandLocked c s).mConnections = s.mConnections := rfl

theorem activateConnectionLocked_mConnections (connection : Nat) (s : State) :
    (activateConnectionLocked connection s).mConnections = s.mConnections := by
  unfold activateConnectionLocked
  split <;> rfl

theorem deactivateConnectionLocked_mConnections (connection : Nat) (s : State) :
    (deactivateConnectionLocked connection s).mConnections = s.mConnections := rfl

theorem setInjectionResultLocked_mConnections (entry : Nat) (r : Int) (s : State) :
    (setInjectionResultLocked entry r s).mConnections = s.mConnections := rfl

theorem decrementPendingSyncDispatchesLocked_mConnections (entry : Nat) (s : State) :
    (decrementPendingSyncDispatchesLocked entry s).mConnections = s.mConnections := rfl

theorem onDispatchCycleFinishedLocked_mConnections (connection : Nat) (b : Bool)
    (s : State) :
    (onDispatchCycleFinishedLocked connection b s).mConnections = s.mConnections := by
  unfold onDispatchCycleFinishedLocked
  split <;> rfl

theorem onDispatchCycleANRLocked_mConnections (connection : Nat) (s : State) :
    (onDispatchCycleANRLocked connection s).mConnections = s.mConnections := rfl

theorem onDispatchCycleBrokenLocked_mConnections (connection : Nat) (s : State) :
    (onDispatchCycleBrokenLocked connection s).mConnections = s.mConnections := rfl

theorem drainEntries_mConnections (ds : List DispatchEntry) : ∀ s : State,
    (drainEntries ds s).mConnections = s.mConnections := by
  induction ds with
  | nil => intro s; rfl
  | cons d rest ih =>
    intro s
    simp only [drainEntries, ih, releaseDispatchEntry_mConnections]
    split <;> rfl

theorem synthesizeKeyCancelationEvents_mConnections (now : Int) (ms : List KeyMemento) :
    ∀ s : State, (synthesizeKeyCancelationEvents now ms s).2.mConnections = s.mConnections := by
  induction ms with
  | nil => intro s; rfl
  | cons m rest ih => intro s; simp only [synthesizeKeyCancelationEvents, ih]; rfl

theorem synthesizeMotionCancelationEvents_mConnections (now : Int)
    (ms : List MotionMemento) :
    ∀ s : State, (synthesizeMotionCancelationEvents now ms s).2.mConnections = s.mConnections := by
  induction ms with
  | nil => intro s; rfl
  | cons m rest ih => intro s; simp only [synthesizeMotionCancelationEvents, ih]; rfl

theorem synthesizeCancelationEvents_mConnections (st : InputState) (now : Int)
    (s : State) : (st.synthesizeCancelationEvents now s).2.mConnections = s.mConnections := by
  simp only [InputState.synthesizeCancelationEvents, synthesizeMotionCancelationEvents_mConnections,
    synthesizeKeyCancelationEvents_mConnections]

theorem handleTargetsNotReadyLocked_mConnections (currentTime : Int)
    (application : Option InputApplication) (window : Option Nat) (s : State) :
    (handleTargetsNotReadyLocked currentTime application window s).2.mConnections
      = s.mConnections := by
  unfold handleTargetsNotReadyLocked
  simp only [postCommandLocked]
  split_ifs <;> rfl

theorem findFocusedWindowLocked_mConnections (env : Env) (currentTime : Int)
    (entry : EventEntry) (s : State) :
    (findFocusedWindowLocked env currentTime entry s).2.2.mConnections = s.mConnections := by
  unfold findFocusedWindowLocked findFocusedWindowBody
  simp only []
  split
  · split
    · simp only [handleTargetsNotReadyLocked_mConnections]
    · rfl
  · split_ifs
    · rfl
    · simp only [handleTargetsNotReadyLocked_mConnections]
    · rfl

theorem findTouchedWindowFailed_mConnections (env : Env) (action : Nat)
    (entry : EventEntry) (r : Int) (p : InjectionPermission) (s : State) :
    (findTouchedWindowFailed env action entry r p s).mConnections = s.mConnections := by
  unfold findTouchedWindowFailed
  simp only [releaseTouchedWindowLocked]
  split_ifs <;> rfl

theorem addWallpaperTargets_mConnections (ws : List Nat) : ∀ s : State,
    (addWallpaperTargets ws s).mConnections = s.mConnections := by
  induction ws with
  | nil => intro s; rfl
  | cons w rest ih => intro s; simp only [addWallpaperTargets, ih]; rfl

theorem addOutsideTargets_mConnections (os : List OutsideTarget) : ∀ s : State,
    (addOutsideTargets os s).mConnections = s.mConnections := by
  induction os with
  | nil => intro s; rfl
  | cons o rest ih => intro s; simp only [addOutsideTargets, ih]; rfl

theorem findTouchedWindowOutput_mConnections (currentTime : Int) (s : State) :
    (findTouchedWindowOutput currentTime s).2.mConnections = s.mConnections := by
  unfold findTouchedWindowOutput
  simp only []
  split
  · simp only [addWindowTargetLocked, addOutsideTargets_mConnections,
      addWallpaperTargets_mConnections]
  · simp only [addOutsideTargets_mConnections, addWallpaperTargets_mConnections]

theorem findTouchedWindowSucceeded_mConnections (env : Env) (currentTime : Int)
    (action : Nat) (entry : EventEntry) (s : State) :
    (findTouchedWindowSucceeded env currentTime action entry s).2.2.mConnections
      = s.mConnections := by
  simp only [findTouchedWindowSucceeded, findTouchedWindowFailed_mConnections,
    findTouchedWindowOutput_mConnections]

theorem findTouchedWindowLocked_mConnections (env : Env) (currentTime : Int)
    (entry : EventEntry) (motion : MotionEntry) (s : State) :
    (findTouchedWindowLocked env currentTime entry motion s).2.2.mConnections
      = s.mConnections := by
  unfold findTouchedWindowLocked findTouchedWindowDown findTouchedWindowNotDown
  simp only []
  split_ifs
  · simp only [handleTargetsNotReadyLocked_mConnections]
  · split
    · split
      · simp only [handleTargetsNotReadyLocked_mConnections]
      · simp only [findTouchedWindowFailed_mConnections]
    · split_ifs
      · simp only [findTouchedWindowFailed_mConnections]
      · simp only [handleTargetsNotReadyLocked_mConnections]
      · simp only [findTouchedWindowSucceeded_mConnections, releaseTouchedWindowLocked]
      · simp only [findTouchedWindowSucceeded_mConnections, releaseTouchedWindowLocked]
  · simp only [findTouchedWindowFailed_mConnections]
  · simp only [findTouchedWindowFailed_mConnections]
  · split
    · simp only [findTouchedWindowFailed_mConnections]
    · split_ifs
      · simp only [handleTargetsNotReadyLocked_mConnections]
      · simp only [findTouchedWindowSucceeded_mConnections]

/-! ### The dispatch cycle keeps every entry behind the head not in progress -/

theorem connsOk_ite (p : Prop) [Decidable p] (a b : State) (ha : ConnsOk a.mConnections)
    (hb : ConnsOk b.mConnections) : ConnsOk (if p then a else b).mConnections := by
  split <;> assumption

theorem connsOk_modifyConnection (i : Nat) (f : Connection → Connection) (s : State)
    (hf : ∀ c, QueueOk c.outboundQueue → QueueOk (f c).outboundQueue)
    (h : ConnsOk s.mConnections) : ConnsOk (modifyConnection i f s).mConnections :=
  connsOk_modifyAt f hf i s.mConnections h

theorem connsOk_drainOutboundQueueLocked (connection n : Nat) (s : State)
    (h : ConnsOk s.mConnections) :
    ConnsOk (drainOutboundQueueLocked connection n s).mConnections := by
  unfold drainOutboundQueueLocked
  split
  · exact h
  · rename_i c hc
    have hq := connsOk_getElem? _ h _ _ hc
    have h1 : ConnsOk (modifyConnection connection
        (fun c1 => { c1 with outboundQueue := c.outboundQueue.take n }) s).mConnections :=
      connsOk_modifyConnection _ _ _ (fun _ _ => queueOk_take n _ hq) h
    simp only []
    split
    · rw [deactivateConnectionLocked_mConnections, drainEntries_mConnections]; exact h1
    · rw [drainEntries_mConnections]; exact h1

theorem connsOk_abortDispatchCycleLocked (connection : Nat) (broken : Bool) (s : State)
    (h : ConnsOk s.mConnections) :
    ConnsOk (abortDispatchCycleLocked connection broken s).mConnections := by
  unfold abortDispatchCycleLocked
  have h2 := connsOk_drainOutboundQueueLocked connection 0 _
    (connsOk_modifyConnection connection (fun c =>
      { c with nextTimeoutTime := LONG_LONG_MAX, inputState := c.inputState.setOutOfSync }) s
      (fun _ hq => hq) h)
  simp only []
  split
  · exact h2
  · split
    · rw [onDispatchCycleBrokenLocked_mConnections]
      exact connsOk_modifyConnection _ _ _ (fun _ hq => hq) h2
    · exact h2

theorem connsOk_timeoutDispatchCycleLocked (currentTime : Int) (connection : Nat) (s : State)
    (h : ConnsOk s.mConnections) :
    ConnsOk (timeoutDispatchCycleLocked currentTime connection s).mConnections := by
  unfold timeoutDispatchCycleLocked
  split
  · exact h
  · split_ifs
    · rw [onDispatchCycleANRLocked_mConnections]
      exact connsOk_modifyConnection _ _ _ (fun _ hq => hq) h
    · exact h
    · rw [onDispatchCycleANRLocked_mConnections]; exact h

theorem connsOk_resumeAfterTimeoutDispatchCycleLocked (currentTime : Int) (connection : Nat)
    (newTimeout : Int) (s : State) (h : ConnsOk s.mConnections) :
    ConnsOk (resumeAfterTimeoutDispatchCycleLocked currentTime connection newTimeout
      s).mConnections := by
  unfold resumeAfterTimeoutDispatchCycleLocked
  split
  · exact h
  · simp only []
    split_ifs
    · exact h
    · refine connsOk_modifyConnection _ _ _ (fun c hq => ?_) h
      unfold Connection.setNextTimeoutTime
      split <;> exact hq
    · apply connsOk_drainOutboundQueueLocked
      refine connsOk_modifyConnection _ _ _ (fun c hq => queueOk_modifyAt_zero _ _ hq) ?_
      exact connsOk_modifyConnection _ _ _ (fun _ hq => hq) h
    · exact connsOk_modifyConnection _ _ _ (fun _ hq => hq) h

theorem connsOk_publisherCalled (connection : Nat) (calls : List PublisherCall) (s : State)
    (h : ConnsOk s.mConnections) : ConnsOk (publisherCalled connection calls s).mConnections :=
  connsOk_modifyConnection _ _ _ (fun _ hq => hq) h

theorem queueOk_setNextTimeoutTime (c : Connection) (currentTime timeout : Int)
    (hq : QueueOk c.outboundQueue) :
    QueueOk (Connection.setNextTimeoutTime c currentTime timeout).outboundQueue := by
  unfold Connection.setNextTimeoutTime
  split <;> exact hq

theorem connsOk_sendDispatchSignalAndRecord (env : Env) (currentTime : Int) (connection : Nat)
    (timeSpent : Int) (d : DispatchEntry) (eventTime : Int) (s : State)
    (h : ConnsOk s.mConnections) :
    ConnsOk (sendDispatchSignalAndRecord env currentTime connection timeSpent d eventTime
      s).mConnections := by
  unfold sendDispatchSignalAndRecord
  have h1 := connsOk_publisherCalled connection [PublisherCall.sendDispatchSignal] s h
  simp only []
  split
  · exact h1
  · split_ifs
    · exact connsOk_abortDispatchCycleLocked _ _ _ h1
    · exact connsOk_modifyConnection _ _ _
        (fun c hq => queueOk_setNextTimeoutTime _ _ _ hq) h1

theorem connsOk_startDispatchCycleLocked (env : Env) (currentTime : Int) (connection : Nat)
    (timeSpent : Int) (s : State) (h : ConnsOk s.mConnections) :
    ConnsOk (startDispatchCycleLocked env currentTime connection timeSpent s).mConnections := by
  unfold startDispatchCycleLocked
  split
  · exact h
  · rename_i c hc
    have hq := connsOk_getElem? _ h _ _ hc
    split
    · exact h
    · rename_i head rest hqueue
      rw [hqueue] at hq
      split
      · exact h
      · rename_i eventEntry _
        have h1 : ConnsOk (modifyConnection connection (fun c1 =>
            { c1 with
              outboundQueue := { head with inProgress := true } :: rest
              inputState := (c1.inputState.trackEvent eventEntry).2 }) s).mConnections :=
          connsOk_modifyConnection _ _ _ (fun _ _ => hq) h
        simp only []
        split
        · refine connsOk_ite _ _ _ ?_ ?_
          · exact connsOk_abortDispatchCycleLocked _ _ _ (connsOk_publisherCalled _ _ _ h1)
          · exact connsOk_sendDispatchSignalAndRecord _ _ _ _ _ _ _
              (connsOk_publisherCalled _ _ _ h1)
        · refine connsOk_ite _ _ _ ?_ ?_
          · exact connsOk_abortDispatchCycleLocked _ _ _ (connsOk_publisherCalled _ _ _ h1)
          · refine connsOk_ite _ _ _ ?_ ?_
            · exact connsOk_abortDispatchCycleLocked _ _ _
                (connsOk_publisherCalled _ _ _ (connsOk_publisherCalled _ _ _ h1))
            · exact connsOk_sendDispatchSignalAndRecord _ _ _ _ _ _ _
                (connsOk_modifyConnection _ _ _ (fun c hq => queueOk_modifyAt_zero _ _ hq)
                  (connsOk_publisherCalled _ _ _ (connsOk_publisherCalled _ _ _ h1)))
        · exact connsOk_sendDispatchSignalAndRecord _ _ _ _ _ _ _ h1

theorem connsOk_startNextDispatchCycleLoop (env : Env) (currentTime : Int) (connection : Nat) :
    ∀ (fuel : Nat) (s : State), ConnsOk s.mConnections →
      ConnsOk (startNextDispatchCycleLoop env currentTime connection fuel s).mConnections := by
  intro fuel
  induction fuel with
  | zero => intro s h; exact h
  | succ fuel ih =>
    intro s h
    unfold startNextDispatchCycleLoop
    split
    · exact h
    · rename_i c hc
      have hq := connsOk_getElem? _ h _ _ hc
      split
      · rw [deactivateConnectionLocked_mConnections]; exact h
      · rename_i d rest hqueue
        rw [hqueue] at hq
        split_ifs
        · apply connsOk_startDispatchCycleLocked
          exact connsOk_modifyConnection _ _ _ (fun _ _ => hq) h
        · apply ih
          rw [releaseDispatchEntry_mConnections, decrementPendingSyncDispatchesLocked_mConnections]
          exact connsOk_modifyConnection _ _ _ (fun _ _ => queueOk_tail_of d rest hq) h
        · apply ih
          rw [releaseDispatchEntry_mConnections]
          exact connsOk_modifyConnection _ _ _ (fun _ _ => queueOk_tail_of d rest hq) h
        · exact connsOk_startDispatchCycleLocked _ _ _ _ _ h

theorem connsOk_startNextDispatchCycleLocked (env : Env) (currentTime : Int) (connection : Nat)
    (s : State) (h : ConnsOk s.mConnections) :
    ConnsOk (startNextDispatchCycleLocked env currentTime connection s).mConnections := by
  unfold startNextDispatchCycleLocked
  split
  · exact h
  · exact connsOk_startNextDispatchCycleLoop _ _ _ _ _ h

theorem connsOk_finishDispatchCycleLocked (env : Env) (currentTime : Int) (connection : Nat)
    (s : State) (h : ConnsOk s.mConnections) :
    ConnsOk (finishDispatchCycleLocked env currentTime connection s).mConnections := by
  unfold finishDispatchCycleLocked
  split
  · exact h
  · have h1 := connsOk_modifyConnection connection
      (fun c => { c with nextTimeoutTime := LONG_LONG_MAX }) s (fun _ hq => hq) h
    rename_i c hc
    have h2 : ConnsOk (if c.status = Status.STATUS_NOT_RESPONDING then
          onDispatchCycleFinishedLocked connection true
            (modifyConnection connection (fun c => { c with status := Status.STATUS_NORMAL })
              (modifyConnection connection
                (fun c => { c with nextTimeoutTime := LONG_LONG_MAX }) s))
        else onDispatchCycleFinishedLocked connection false
          (modifyConnection connection
            (fun c => { c with nextTimeoutTime := LONG_LONG_MAX }) s)).mConnections := by
      refine connsOk_ite _ _ _ ?_ ?_
      · rw [onDispatchCycleFinishedLocked_mConnections]
        exact connsOk_modifyConnection _ _ _ (fun _ hq => hq) h1
      · rw [onDispatchCycleFinishedLocked_mConnections]
        exact h1
    refine connsOk_ite _ _ _ h ?_
    refine connsOk_ite _ _ _ ?_ ?_
    · exact connsOk_abortDispatchCycleLocked _ _ _ (connsOk_publisherCalled _ _ _ h2)
    · exact connsOk_startNextDispatchCycleLocked _ _ _ _ (connsOk_publisherCalled _ _ _ h2)

theorem connsOk_enqueueCancelationEvents (connection : Nat) (inputTarget : InputTarget)
    (es : List Nat) : ∀ s : State, ConnsOk s.mConnections →
      ConnsOk (enqueueCancelationEvents connection inputTarget es s).mConnections := by
  induction es with
  | nil => intro s h; exact h
  | cons e rest ih =>
    intro s h
    unfold enqueueCancelationEvents
    apply ih
    rw [releaseEventEntry_mConnections]
    refine connsOk_modifyConnection _ _ _ (fun c hq => queueOk_append _ _ hq rfl) ?_
    exact h

theorem connsOk_prepareDispatchCycleEnqueue (env : Env) (currentTime : Int) (connection : Nat)
    (eventEntry : Nat) (inputTarget : InputTarget) (resume : Bool) (c : Connection) (s : State)
    (h : ConnsOk s.mConnections) :
    ConnsOk (prepareDispatchCycleEnqueue env currentTime connection eventEntry inputTarget resume
      c s).mConnections := by
  unfold prepareDispatchCycleEnqueue
  have h1 : ConnsOk (if c.inputState.isOutOfSync then
        enqueueCancelationEvents connection inputTarget
          (c.inputState.synthesizeCancelationEvents env.now s).1
          (modifyConnection connection (fun c =>
            { c with inputState := c.inputState.resetOutOfSync })
            (c.inputState.synthesizeCancelationEvents env.now s).2)
      else s).mConnections := by
    refine connsOk_ite _ _ _ ?_ h
    apply connsOk_enqueueCancelationEvents
    refine connsOk_modifyConnection _ _ _ (fun _ hq => hq) ?_
    rw [synthesizeCancelationEvents_mConnections]; exact h
  simp only []
  generalize (if c.inputState.isOutOfSync then
        enqueueCancelationEvents connection inputTarget
          (c.inputState.synthesizeCancelationEvents env.now s).1
          (modifyConnection connection (fun c =>
            { c with inputState := c.inputState.resetOutOfSync })
            (c.inputState.synthesizeCancelationEvents env.now s).2)
      else s) = s1 at h1 ⊢
  have h3 : ConnsOk (if (obtainDispatchEntry eventEntry inputTarget.flags inputTarget.xOffset
        inputTarget.yOffset inputTarget.timeout s1).1.isSyncTarget then
        modifyEvent eventEntry (fun e =>
          { e with pendingSyncDispatches := e.pendingSyncDispatches + 1 })
          (obtainDispatchEntry eventEntry inputTarget.flags inputTarget.xOffset
            inputTarget.yOffset inputTarget.timeout s1).2
      else (obtainDispatchEntry eventEntry inputTarget.flags inputTarget.xOffset
            inputTarget.yOffset inputTarget.timeout s1).2).mConnections := by
    refine connsOk_ite _ _ _ ?_ ?_
    · exact h1
    · exact h1
  generalize (if (obtainDispatchEntry eventEntry inputTarget.flags inputTarget.xOffset
        inputTarget.yOffset inputTarget.timeout s1).1.isSyncTarget then
        modifyEvent eventEntry (fun e =>
          { e with pendingSyncDispatches := e.pendingSyncDispatches + 1 })
          (obtainDispatchEntry eventEntry inputTarget.flags inputTarget.xOffset
            inputTarget.yOffset inputTarget.timeout s1).2
      else (obtainDispatchEntry eventEntry inputTarget.flags inputTarget.xOffset
            inputTarget.yOffset inputTarget.timeout s1).2) = s3 at h3 ⊢
  have h4 : ∀ d : DispatchEntry, d.inProgress = false →
      ConnsOk (modifyConnection connection (fun c =>
        { c with outboundQueue := c.outboundQueue ++ [d] }) s3).mConnections :=
    fun d hd => connsOk_modifyConnection _ _ _ (fun c hq => queueOk_append _ _ hq hd) h3
  have hd : (if resume = true then
      { (obtainDispatchEntry eventEntry inputTarget.flags inputTarget.xOffset
          inputTarget.yOffset inputTarget.timeout s1).1 with
        headMotionSample := some (s3.lastSampleOf eventEntry) }
      else (obtainDispatchEntry eventEntry inputTarget.flags inputTarget.xOffset
          inputTarget.yOffset inputTarget.timeout s1).1).inProgress = false := by
    split <;> rfl
  refine connsOk_ite _ _ _ ?_ ?_
  · apply connsOk_startDispatchCycleLocked
    rw [activateConnectionLocked_mConnections]
    exact h4 _ hd
  · exact h4 _ hd

theorem connsOk_prepareDispatchCycleLocked (env : Env) (currentTime : Int) (connection : Nat)
    (eventEntry : Nat) (inputTarget : InputTarget) (resume : Bool) (s : State)
    (h : ConnsOk s.mConnections) :
    ConnsOk (prepareDispatchCycleLocked env currentTime connection eventEntry inputTarget resume
      s).mConnections := by
  unfold prepareDispatchCycleLocked
  split
  · exact h
  · refine connsOk_ite _ _ _ ?_ ?_
    · exact connsOk_ite _ _ _ (connsOk_timeoutDispatchCycleLocked _ _ _ h) h
    · simp only []
      refine connsOk_ite _ _ _ ?_ (connsOk_prepareDispatchCycleEnqueue _ _ _ _ _ _ _ _ h)
      split
      · split
        · exact h
        · refine connsOk_ite _ _ _ h ?_
          refine connsOk_ite _ _ _ h ?_
          refine connsOk_ite _ _ _ (connsOk_publisherCalled _ _ _ h) ?_
          refine connsOk_modifyConnection _ _ _ (fun c hq => ?_)
            (connsOk_publisherCalled _ _ _ h)
          exact queueOk_modifyAt
            (fun d => { d with tailMotionSample := some (s.lastSampleOf eventEntry) })
            (fun _ => rfl) _ _ hq
      · exact connsOk_prepareDispatchCycleEnqueue _ _ _ _ _ _ _ _ h

theorem connsOk_dispatchEventToTargets (env : Env) (currentTime : Int) (eventEntry : Nat)
    (resume : Bool) (ts : List InputTarget) : ∀ s : State, ConnsOk s.mConnections →
      ConnsOk (dispatchEventToTargets env currentTime eventEntry resume ts s).mConnections := by
  induction ts with
  | nil => intro s h; exact h
  | cons t rest ih =>
    intro s h
    unfold dispatchEventToTargets
    apply ih
    split
    · exact connsOk_prepareDispatchCycleLocked _ _ _ _ _ _ _ h
    · exact h

theorem connsOk_dispatchEventToCurrentInputTargetsLocked (env : Env) (currentTime : Int)
    (eventEntry : Nat) (resume : Bool) (s : State) (h : ConnsOk s.mConnections) :
    ConnsOk (dispatchEventToCurrentInputTargetsLocked env currentTime eventEntry resume
      s).mConnections :=
  connsOk_dispatchEventToTargets _ _ _ _ _ _ h

/-! ### Inbound events, key repeat and the dispatch of the pending event -/

theorem startFindingTargetsLocked_mConnections (s : State) :
    (startFindingTargetsLocked s).mConnections = s.mConnections := rfl

theorem finishFindingTargetsLocked_mConnections (w : Nat) (s : State) :
    (finishFindingTargetsLocked w s).mConnections = s.mConnections := rfl

theorem addMonitoringTargetsLocked_mConnections (s : State) :
    (addMonitoringTargetsLocked s).mConnections = s.mConnections := rfl

theorem pokeUserActivityLocked_mConnections (eventTime windowType eventType : Int)
    (s : State) :
    (pokeUserActivityLocked eventTime windowType eventType s).mConnections = s.mConnections := rfl

theorem resetPendingAppSwitchLocked_mConnections (b : Bool) (s : State) :
    (resetPendingAppSwitchLocked b s).mConnections = s.mConnections := rfl

theorem detectPendingAppSwitchLocked_mConnections (env : Env) (e : EventEntry)
    (k : KeyEntry) (s : State) :
    (detectPendingAppSwitchLocked env e k s).2.mConnections = s.mConnections := by
  unfold detectPendingAppSwitchLocked
  split <;> rfl

theorem enqueueInboundEventLocked_mConnections (env : Env) (entry : Nat) (s : State) :
    (enqueueInboundEventLocked env entry s).2.mConnections = s.mConnections := by
  unfold enqueueInboundEventLocked
  simp only []
  split
  · split
    · simp only [detectPendingAppSwitchLocked_mConnections]
    · rfl
  · rfl

theorem releaseInboundEventLocked_mConnections (entry : Nat) (b : Bool) (s : State) :
    (releaseInboundEventLocked entry b s).mConnections = s.mConnections := by
  unfold releaseInboundEventLocked
  rw [releaseEventEntry_mConnections]
  split <;> rfl

theorem drainInboundEntries_mConnections (es : List Nat) : ∀ s : State,
    (drainInboundEntries es s).mConnections = s.mConnections := by
  induction es with
  | nil => intro s; rfl
  | cons e rest ih =>
    intro s
    simp only [drainInboundEntries, ih, releaseInboundEventLocked_mConnections]

theorem drainInboundQueueLocked_mConnections (s : State) :
    (drainInboundQueueLocked s).mConnections = s.mConnections := by
  unfold drainInboundQueueLocked
  rw [drainInboundEntries_mConnections]

theorem releasePendingEventLocked_mConnections (b : Bool) (s : State) :
    (releasePendingEventLocked b s).mConnections = s.mConnections := by
  unfold releasePendingEventLocked
  split
  · exact releaseInboundEventLocked_mConnections _ _ _
  · rfl

theorem resetKeyRepeatLocked_mConnections (s : State) :
    (resetKeyRepeatLocked s).mConnections = s.mConnections := by
  unfold resetKeyRepeatLocked
  split <;> rfl

theorem modifyKey_mConnections (entry : Nat) (f : KeyEntry → KeyEntry) (s : State) :
    (modifyKey entry f s).mConnections = s.mConnections := rfl

theorem synthesizeKeyRepeatLocked_mConnections (currentTime keyRepeatDelay : Int)
    (s : State) :
    (synthesizeKeyRepeatLocked currentTime keyRepeatDelay s).2.mConnections = s.mConnections := by
  unfold synthesizeKeyRepeatLocked
  split
  · rfl
  · split
    · rfl
    · simp only [modifyKey_mConnections, modifyEvent_mConnections]
      split <;> rfl

theorem dispatchConfigurationChangedLocked_mConnections (currentTime : Int) (entry : Nat)
    (s : State) :
    (dispatchConfigurationChangedLocked currentTime entry s).2.mConnections = s.mConnections := by
  unfold dispatchConfigurationChangedLocked
  simp only [postCommandLocked_mConnections, resetKeyRepeatLocked_mConnections]

theorem dispatchKeyPreprocess_mConnections (entry : Nat) (keyRepeatTimeout : Int)
    (s : State) :
    (dispatchKeyPreprocess entry keyRepeatTimeout s).mConnections = s.mConnections := by
  unfold dispatchKeyPreprocess
  split
  · rfl
  · simp only [startFindingTargetsLocked_mConnections, modifyEvent_mConnections]
    split_ifs
    · split
      · split_ifs
        · simp only [resetKeyRepeatLocked_mConnections, modifyKey_mConnections]; rfl
        · simp only [resetKeyRepeatLocked_mConnections]; rfl
      · simp only [resetKeyRepeatLocked_mConnections]; rfl
    · simp only [resetKeyRepeatLocked_mConnections]
    · rfl

theorem connsOk_dispatchKeyToTargets (env : Env) (currentTime : Int) (entry : Nat) (s : State)
    (h : ConnsOk s.mConnections) :
    ConnsOk (dispatchKeyToTargets env currentTime entry s).2.mConnections := by
  unfold dispatchKeyToTargets
  split
  · exact h
  · split_ifs
    · exact h
    · exact h
    · simp only [pokeUserActivityLocked_mConnections]
      exact connsOk_dispatchEventToCurrentInputTargetsLocked _ _ _ _ _ h

theorem connsOk_dispatchKeyLocked (env : Env) (currentTime : Int) (entry : Nat)
    (keyRepeatTimeout : Int) (s : State) (h : ConnsOk s.mConnections) :
    ConnsOk (dispatchKeyLocked env currentTime entry keyRepeatTimeout s).2.mConnections := by
  unfold dispatchKeyLocked
  split
  · exact h
  · rename_i e0 _
    have h1 : ConnsOk (if (! e0.dispatchInProgress) = true then
        dispatchKeyPreprocess entry keyRepeatTimeout s else s).mConnections := by
      refine connsOk_ite _ _ _ ?_ h
      rw [dispatchKeyPreprocess_mConnections]; exact h
    simp only []
    generalize (if (! e0.dispatchInProgress) = true then
        dispatchKeyPreprocess entry keyRepeatTimeout s else s) = s1 at h1 ⊢
    split_ifs
    · split
      · exact h1
      · rename_i e _
        have h2 : ConnsOk (findFocusedWindowLocked env currentTime e s1).2.2.mConnections := by
          rw [findFocusedWindowLocked_mConnections]; exact h1
        split_ifs
        · exact h2
        · exact h2
        · split
          · exact h2
          · apply connsOk_dispatchKeyToTargets
            exact h2
    · exact connsOk_dispatchKeyToTargets _ _ _ _ h1

theorem connsOk_dispatchMotionToTargets (env : Env) (currentTime : Int) (entry : Nat)
    (e : EventEntry) (m : MotionEntry) (s : State) (h : ConnsOk s.mConnections) :
    ConnsOk (dispatchMotionToTargets env currentTime entry e m s).2.mConnections := by
  unfold dispatchMotionToTargets
  simp only [pokeUserActivityLocked_mConnections]
  exact connsOk_dispatchEventToCurrentInputTargetsLocked _ _ _ _ _ h

theorem connsOk_dispatchMotionLocked (env : Env) (currentTime : Int) (entry : Nat) (s : State)
    (h : ConnsOk s.mConnections) :
    ConnsOk (dispatchMotionLocked env currentTime entry s).2.mConnections := by
  unfold dispatchMotionLocked
  split
  · exact h
  · rename_i e0 _
    have h1 : ConnsOk (if (! e0.dispatchInProgress) = true then
        startFindingTargetsLocked
          (modifyEvent entry (fun e => { e with dispatchInProgress := true }) s)
        else s).mConnections := connsOk_ite _ _ _ h h
    simp only []
    generalize (if (! e0.dispatchInProgress) = true then
        startFindingTargetsLocked
          (modifyEvent entry (fun e => { e with dispatchInProgress := true }) s)
        else s) = s1 at h1 ⊢
    split
    · exact h1
    · rename_i e _
      split
      · rename_i m _
        have h2 : ConnsOk (if (m.source &&& AINPUT_SOURCE_CLASS_POINTER != 0) = true then
            findTouchedWindowLocked env currentTime e m s1
            else findFocusedWindowLocked env currentTime e s1).2.2.mConnections := by
          split
          · rw [findTouchedWindowLocked_mConnections]; exact h1
          · rw [findFocusedWindowLocked_mConnections]; exact h1
        generalize (if (m.source &&& AINPUT_SOURCE_CLASS_POINTER != 0) = true then
            findTouchedWindowLocked env currentTime e m s1
            else findFocusedWindowLocked env currentTime e s1) = r at h2 ⊢
        split_ifs
        · exact h2
        · exact h2
        · split
          · exact h2
          · exact connsOk_dispatchMotionToTargets _ _ _ _ _ _ h2
        · exact connsOk_dispatchMotionToTargets _ _ _ _ _ _ h1
      · exact h1

/-! ### One pass of the dispatch loop, the commands and the public operations -/

theorem queueOk_preemptSyncTarget (c : Connection) (hq : QueueOk c.outboundQueue) :
    QueueOk c.preemptSyncTarget.outboundQueue :=
  queueOk_modifyAt DispatchEntry.preemptSyncTarget (fun _ => rfl) _ _ hq

theorem connsOk_scanActiveConnections (currentTime : Int) (isAppSwitchDue : Bool)
    (cs : List Nat) : ∀ (acc : ConnectionScan) (s : State), ConnsOk s.mConnections →
      ConnsOk (scanActiveConnections currentTime isAppSwitchDue cs acc s).2.mConnections := by
  induction cs with
  | nil => intro acc s h; exact h
  | cons connection rest ih =>
    intro acc s h
    unfold scanActiveConnections
    split
    · exact ih _ _ h
    · rename_i c _
      have h1 : ConnsOk (if c.hasPendingSyncTarget = true then
            if isAppSwitchDue = true then
              (acc, modifyConnection connection Connection.preemptSyncTarget s)
            else ({ acc with havePendingSyncTarget := true }, s)
          else (acc, s)).2.mConnections := by
        split
        · split
          · exact connsOk_modifyConnection _ _ _ queueOk_preemptSyncTarget h
          · exact h
        · exact h
      simp only []
      generalize (if c.hasPendingSyncTarget = true then
            if isAppSwitchDue = true then
              (acc, modifyConnection connection Connection.preemptSyncTarget s)
            else ({ acc with havePendingSyncTarget := true }, s)
          else (acc, s)) = r at h1 ⊢
      split_ifs
      · exact ih _ _ h1
      · exact ih _ _ h1
      · exact ih _ _ h1

theorem connsOk_timeoutConnections (currentTime : Int) (cs : List Nat) :
    ∀ s : State, ConnsOk s.mConnections →
      ConnsOk (timeoutConnections currentTime cs s).mConnections := by
  induction cs with
  | nil => intro s h; exact h
  | cons connection rest ih =>
    intro s h
    unfold timeoutConnections
    exact ih _ (connsOk_timeoutDispatchCycleLocked currentTime connection s h)

theorem connsOk_dispatchPendingEventByType (env : Env) (currentTime keyRepeatTimeout : Int)
    (isAppSwitchDue : Bool) (pending : Nat) (e : EventEntry) (s : State)
    (h : ConnsOk s.mConnections) :
    ConnsOk (dispatchPendingEventByType env currentTime keyRepeatTimeout isAppSwitchDue pending e
      s).2.2.mConnections := by
  unfold dispatchPendingEventByType
  split
  · simp only [dispatchConfigurationChangedLocked_mConnections]; exact h
  · split_ifs
    · exact connsOk_dispatchKeyLocked _ _ _ _ _ h
    · exact h
    · exact connsOk_dispatchKeyLocked _ _ _ _ _ h
    · exact connsOk_dispatchKeyLocked _ _ _ _ _ h
  · split_ifs
    · exact h
    · exact connsOk_dispatchMotionLocked _ _ _ _ h

theorem connsOk_dispatchPendingEvent (env : Env) (currentTime keyRepeatTimeout : Int)
    (isAppSwitchDue : Bool) (s : State) (h : ConnsOk s.mConnections) :
    ConnsOk (dispatchPendingEvent env currentTime keyRepeatTimeout isAppSwitchDue
      s).mConnections := by
  unfold dispatchPendingEvent
  split
  · exact h
  · rename_i pending _
    split
    · exact h
    · rename_i e _
      have h1 := connsOk_dispatchPendingEventByType env currentTime keyRepeatTimeout
        isAppSwitchDue pending e s h
      simp only []
      generalize dispatchPendingEventByType env currentTime keyRepeatTimeout
        isAppSwitchDue pending e s = r at h1 ⊢
      split
      · show ConnsOk (releasePendingEventLocked r.2.1 r.2.2).mConnections
        rw [releasePendingEventLocked_mConnections]; exact h1
      · exact h1

theorem pickPendingEvent_mConnections (currentTime keyRepeatDelay : Int)
    (isAppSwitchDue : Bool) (s : State) :
    (pickPendingEvent currentTime keyRepeatDelay isAppSwitchDue s).2.2.mConnections
      = s.mConnections := by
  unfold pickPendingEvent
  split
  · simp only []
    split_ifs <;>
      first
        | rfl
        | (show (synthesizeKeyRepeatLocked _ _ _).2.mConnections = _
           rw [synthesizeKeyRepeatLocked_mConnections] <;> rfl)
  · simp only []
    split
    · rfl
    · split
      · split_ifs <;> rfl
      · rfl

theorem connsOk_dispatchOnceInnerLocked (env : Env) (keyRepeatTimeout keyRepeatDelay : Int)
    (s : State) (h : ConnsOk s.mConnections) :
    ConnsOk (dispatchOnceInnerLocked env keyRepeatTimeout keyRepeatDelay s).mConnections := by
  unfold dispatchOnceInnerLocked
  have h1 : ConnsOk (if keyRepeatTimeout < 0 then resetKeyRepeatLocked s else s).mConnections := by
    refine connsOk_ite _ _ _ ?_ h
    rw [resetKeyRepeatLocked_mConnections]; exact h
  simp only []
  generalize (if keyRepeatTimeout < 0 then resetKeyRepeatLocked s else s) = s1 at h1 ⊢
  refine connsOk_ite _ _ _ ?_ ?_
  · refine connsOk_ite _ _ _ ?_ h1
    rw [drainInboundQueueLocked_mConnections, releasePendingEventLocked_mConnections]
    exact h1
  · refine connsOk_ite _ _ _ h1 ?_
    have h2 : ConnsOk (if s1.mAppSwitchDueTime < s1.nextWakeupTime then
        { s1 with nextWakeupTime := s1.mAppSwitchDueTime } else s1).mConnections :=
      connsOk_ite _ _ _ h1 h1
    generalize (if s1.mAppSwitchDueTime < s1.nextWakeupTime then
        { s1 with nextWakeupTime := s1.mAppSwitchDueTime } else s1) = s2 at h2 ⊢
    have h3 := connsOk_timeoutConnections env.now
      (scanActiveConnections env.now (decide (s1.mAppSwitchDueTime ≤ env.now))
        s2.mActiveConnections { havePendingSyncTarget := false, timedOutConnections := [] }
        s2).1.timedOutConnections _
      (connsOk_scanActiveConnections env.now (decide (s1.mAppSwitchDueTime ≤ env.now))
        s2.mActiveConnections { havePendingSyncTarget := false, timedOutConnections := [] }
        s2 h2)
    generalize timeoutConnections env.now
      (scanActiveConnections env.now (decide (s1.mAppSwitchDueTime ≤ env.now))
        s2.mActiveConnections { havePendingSyncTarget := false, timedOutConnections := [] }
        s2).1.timedOutConnections
      (scanActiveConnections env.now (decide (s1.mAppSwitchDueTime ≤ env.now))
        s2.mActiveConnections { havePendingSyncTarget := false, timedOutConnections := [] }
        s2).2 = s3 at h3 ⊢
    refine connsOk_ite _ _ _ h3 ?_
    refine connsOk_ite _ _ _ ?_ (connsOk_dispatchPendingEvent _ _ _ _ _ h3)
    refine connsOk_ite _ _ _ ?_ ?_
    · apply connsOk_dispatchPendingEvent
      rw [pickPendingEvent_mConnections]; exact h3
    · rw [pickPendingEvent_mConnections]; exact h3

theorem resumeAfterTargetsNotReadyTimeoutLocked_mConnections (env : Env)
    (newTimeout : Int) (s : State) :
    (resumeAfterTargetsNotReadyTimeoutLocked env newTimeout s).mConnections
      = s.mConnections := by
  unfold resumeAfterTargetsNotReadyTimeoutLocked
  split <;> rfl

theorem connsOk_runCommand (env : Env) (commandEntry : CommandEntry) (s : State)
    (h : ConnsOk s.mConnections) : ConnsOk (runCommand env commandEntry s).mConnections := by
  unfold runCommand
  split
  · exact h
  · exact h
  · unfold doNotifyInputChannelANRLockedInterruptible
    split
    · exact h
    · split
      · exact h
      · exact connsOk_ite _ _ _ (connsOk_resumeAfterTimeoutDispatchCycleLocked _ _ _ _ h) h
  · exact h
  · unfold doInterceptKeyBeforeDispatchingLockedInterruptible
    split
    · exact h
    · split
      · exact h
      · exact h
  · exact h
  · unfold doTargetsNotReadyTimeoutLockedInterruptible
    rw [resumeAfterTargetsNotReadyTimeoutLocked_mConnections]; exact h

theorem connsOk_runCommandsLoop (env : Env) : ∀ (fuel : Nat) (s : State),
    ConnsOk s.mConnections → ConnsOk (runCommandsLoop env fuel s).mConnections := by
  intro fuel
  induction fuel with
  | zero => intro s h; exact h
  | succ fuel ih =>
    intro s h
    unfold runCommandsLoop
    split
    · exact h
    · exact ih _ (connsOk_runCommand _ _ _ h)

theorem connsOk_runCommandsLockedInterruptible (env : Env) (s : State)
    (h : ConnsOk s.mConnections) :
    ConnsOk (runCommandsLockedInterruptible env s).2.mConnections := by
  unfold runCommandsLockedInterruptible
  split
  · exact h
  · exact connsOk_runCommandsLoop _ _ _ h

theorem connsOk_dispatchOnce (env : Env) (s : State) (h : ConnsOk s.mConnections) :
    ConnsOk (dispatchOnce env s).mConnections := by
  unfold dispatchOnce
  have h1 := connsOk_runCommandsLockedInterruptible env _
    (connsOk_dispatchOnceInnerLocked env env.getKeyRepeatTimeout env.getKeyRepeatDelay
      { s with nextWakeupTime := LONG_LONG_MAX } h)
  exact connsOk_ite _ _ _ h1 h1

theorem connsOk_handleReceiveCallback (env : Env) (receiveFd events : Nat) (s : State)
    (h : ConnsOk s.mConnections) :
    ConnsOk (handleReceiveCallback env receiveFd events s).2.mConnections := by
  unfold handleReceiveCallback
  split
  · exact h
  · split
    · exact h
    · simp only []
      split_ifs
      · exact connsOk_runCommandsLockedInterruptible _ _
          (connsOk_abortDispatchCycleLocked _ _ _ h)
      · exact h
      · exact connsOk_runCommandsLockedInterruptible _ _
          (connsOk_abortDispatchCycleLocked _ _ _ (connsOk_publisherCalled _ _ _ h))
      · exact connsOk_runCommandsLockedInterruptible _ _
          (connsOk_finishDispatchCycleLocked _ _ _ _ (connsOk_publisherCalled _ _ _ h))

theorem notifyConfigurationChanged_mConnections (env : Env) (eventTime : Int)
    (s : State) :
    (notifyConfigurationChanged env eventTime s).mConnections = s.mConnections := by
  unfold notifyConfigurationChanged
  rw [enqueueInboundEventLocked_mConnections]; rfl

theorem notifyKey_mConnections (env : Env) (eventTime deviceId : Int)
    (source policyFlags action flags : Nat) (keyCode scanCode metaState downTime : Int)
    (s : State) :
    (notifyKey env eventTime deviceId source policyFlags action flags keyCode scanCode metaState
      downTime s).mConnections = s.mConnections := by
  unfold notifyKey
  rw [enqueueInboundEventLocked_mConnections]; rfl

theorem connsOk_notifyMotion (env : Env) (eventTime deviceId : Int)
    (source policyFlags action flags : Nat) (metaState edgeFlags : Int) (pointerCount : Nat)
    (pointerIds : List Int) (pointerCoords : List PointerCoords)
    (xPrecision yPrecision downTime : Int) (s : State) (h : ConnsOk s.mConnections) :
    ConnsOk (notifyMotion env eventTime deviceId source policyFlags action flags metaState
      edgeFlags pointerCount pointerIds pointerCoords xPrecision yPrecision downTime
      s).mConnections := by
  have he : ConnsOk (enqueueInboundEventLocked env
      (obtainMotionEntry eventTime deviceId source policyFlags action flags metaState edgeFlags
        xPrecision yPrecision downTime pointerCount pointerIds pointerCoords s).1
      (obtainMotionEntry eventTime deviceId source policyFlags action flags metaState edgeFlags
        xPrecision yPrecision downTime pointerCount pointerIds pointerCoords
        s).2).2.mConnections := by
    rw [enqueueInboundEventLocked_mConnections]; exact h
  unfold notifyMotion
  simp only []
  split
  · split
    · exact h
    · exact he
    · split
      · split
        · apply connsOk_runCommandsLockedInterruptible
          apply connsOk_dispatchEventToCurrentInputTargetsLocked
          exact h
        · exact he
      · exact he
  · exact he

theorem appendInjectedSamples_mConnections (motionEntry pointerCount : Nat)
    (ts : List Int) : ∀ (cs : List PointerCoords) (s : State),
      (appendInjectedSamples motionEntry pointerCount ts cs s).mConnections = s.mConnections := by
  induction ts with
  | nil => intro cs s; rfl
  | cons t rest ih => intro cs s; simp only [appendInjectedSamples, ih]; rfl

theorem createEntryFromInjectedInputEventLocked_mConnections (event : InputEvent)
    (s : State) :
    (createEntryFromInjectedInputEventLocked event s).2.mConnections = s.mConnections := by
  unfold createEntryFromInjectedInputEventLocked
  split
  · split <;> rfl
  · split
    · rfl
    · simp only [appendInjectedSamples_mConnections]; rfl
  · rfl

theorem injectInputEventEnqueue_mConnections (env : Env) (event : InputEvent)
    (injectorPid injectorUid syncMode : Int) (s : State) :
    (injectInputEventEnqueue env event injectorPid injectorUid syncMode s).2.mConnections
      = s.mConnections := by
  unfold injectInputEventEnqueue
  simp only []
  split
  · exact createEntryFromInjectedInputEventLocked_mConnections _ _
  · simp only [enqueueInboundEventLocked_mConnections, modifyEvent_mConnections,
      createEntryFromInjectedInputEventLocked_mConnections]

theorem injectInputEvent_mConnections (env : Env) (clock : List Int) (event : InputEvent)
    (injectorPid injectorUid syncMode timeoutMillis : Int) (s : State) (r : Int × State)
    (hr : injectInputEvent env clock event injectorPid injectorUid syncMode timeoutMillis s
      = some r) : r.2.mConnections = s.mConnections := by
  unfold injectInputEvent at hr
  simp only [] at hr
  split at hr
  · cases hr
    exact injectInputEventEnqueue_mConnections _ _ _ _ _ _
  · split at hr
    · cases hr
    · split at hr
      · cases hr
      · cases hr
        simp only [releaseEventEntry_mConnections, injectInputEventEnqueue_mConnections]

theorem connsOk_preemptConnections (cs : List Nat) : ∀ s : State, ConnsOk s.mConnections →
    ConnsOk (preemptConnections cs s).2.mConnections := by
  induction cs with
  | nil => intro s h; exact h
  | cons connection rest ih =>
    intro s h
    unfold preemptConnections
    split
    · exact ih _ h
    · split
      · exact ih _ (connsOk_modifyConnection _ _ _ queueOk_preemptSyncTarget h)
      · exact ih _ h

theorem connsOk_preemptInputDispatch (s : State) (h : ConnsOk s.mConnections) :
    ConnsOk (preemptInputDispatch s).mConnections :=
  connsOk_preemptConnections _ _ h

theorem resolveWindows_mConnections (t : Option InputChannel) (ws : List InputChannel)
    (windows : List InputWindow) : ∀ (i : Nat) (s : State),
      (resolveWindows t ws windows i s).mConnections = s.mConnections := by
  induction windows with
  | nil => intro i s; rfl
  | cons w rest ih =>
    intro i s
    simp only [resolveWindows, ih]
    split_ifs <;> rfl

theorem connsOk_setInputWindows (inputWindows : List InputWindow) (s : State)
    (h : ConnsOk s.mConnections) : ConnsOk (setInputWindows inputWindows s).mConnections := by
  unfold setInputWindows
  simp only []
  have h2 : ∀ t ws, ConnsOk (resolveWindows t ws inputWindows 0
      { s with
        mTouchedWindow := none
        mTouchedWallpaperWindows := []
        mFocusedWindow := none
        mWallpaperWindows := []
        mWindows := inputWindows }).mConnections := by
    intro t ws
    rw [resolveWindows_mConnections]; exact h
  refine connsOk_ite _ _ _ ?_ (h2 _ _)
  exact connsOk_preemptConnections _ _ (h2 _ _)

theorem setFocusedApplication_mConnections (a : Option InputApplication) (s : State) :
    (setFocusedApplication a s).mConnections = s.mConnections := by
  unfold setFocusedApplication
  split <;> rfl

theorem queueOk_resetTimeout (c : Connection) (currentTime : Int)
    (hq : QueueOk c.outboundQueue) : QueueOk (c.resetTimeout currentTime).outboundQueue := by
  unfold Connection.resetTimeout
  split
  · exact hq
  · exact queueOk_setNextTimeoutTime _ _ _ hq

theorem connsOk_resetConnectionTimeouts (currentTime : Int) (cs : List Nat) :
    ∀ s : State, ConnsOk s.mConnections →
      ConnsOk (resetConnectionTimeouts currentTime cs s).mConnections := by
  induction cs with
  | nil => intro s h; exact h
  | cons connection rest ih =>
    intro s h
    unfold resetConnectionTimeouts
    exact ih _ (connsOk_modifyConnection _ _ _ (fun c hq => queueOk_resetTimeout c _ hq) h)

theorem connsOk_setInputDispatchMode (env : Env) (enabled frozen : Bool) (s : State)
    (h : ConnsOk s.mConnections) :
    ConnsOk (setInputDispatchMode env enabled frozen s).mConnections := by
  unfold setInputDispatchMode
  refine connsOk_ite _ _ _ ?_ h
  show ConnsOk (if (s.mDispatchFrozen && ! frozen) = true then resetANRTimeoutsLocked env s
    else s).mConnections
  refine connsOk_ite _ _ _ ?_ h
  exact connsOk_resetConnectionTimeouts _ _ _ h

theorem connsOk_registerInputChannel (env : Env) (inputChannel : InputChannel) (monitor : Bool)
    (s : State) (h : ConnsOk s.mConnections) :
    ConnsOk (registerInputChannel env inputChannel monitor s).2.mConnections := by
  unfold registerInputChannel
  split
  · exact h
  · simp only []
    split
    · exact h
    · apply connsOk_runCommandsLockedInterruptible
      have h1 : ConnsOk (s.mConnections ++ [Connection.new inputChannel]) :=
        connsOk_append _ _ h queueOk_nil
      split
      · exact h1
      · exact h1

theorem connsOk_unregisterInputChannel (env : Env) (inputChannel : InputChannel) (s : State)
    (h : ConnsOk s.mConnections) :
    ConnsOk (unregisterInputChannel env inputChannel s).2.mConnections := by
  unfold unregisterInputChannel
  split
  · exact h
  · apply connsOk_runCommandsLockedInterruptible
    apply connsOk_abortDispatchCycleLocked
    rename_i connection _
    exact connsOk_modifyAt
      (fun c : Connection => { c with status := Status.STATUS_ZOMBIE }) (fun _ hq => hq)
      connection s.mConnections h

theorem connsOk_step (env : Env) (op : Op) (s : State) (h : ConnsOk s.mConnections) :
    ConnsOk (step env op s).mConnections := by
  cases op with
  | notifyConfigurationChanged eventTime =>
    show ConnsOk (notifyConfigurationChanged env eventTime s).mConnections
    rw [notifyConfigurationChanged_mConnections]; exact h
  | notifyKey eventTime deviceId source policyFlags action flags keyCode scanCode metaState
      downTime =>
    show ConnsOk (notifyKey env eventTime deviceId source policyFlags action flags keyCode
      scanCode metaState downTime s).mConnections
    rw [notifyKey_mConnections]; exact h
  | notifyMotion eventTime deviceId source policyFlags action flags metaState edgeFlags
      pointerCount pointerIds pointerCoords xPrecision yPrecision downTime =>
    exact connsOk_notifyMotion _ _ _ _ _ _ _ _ _ _ _ _ _ _ _ _ h
  | injectInputEvent clock event injectorPid injectorUid syncMode timeoutMillis =>
    show ConnsOk (match injectInputEvent env clock event injectorPid injectorUid syncMode
        timeoutMillis s with
      | some r => r.2
      | none => (injectInputEventEnqueue env event injectorPid injectorUid syncMode
          s).2).mConnections
    split
    · rename_i r hr
      rw [injectInputEvent_mConnections _ _ _ _ _ _ _ _ _ hr]; exact h
    · rw [injectInputEventEnqueue_mConnections]; exact h
  | injectInputEventEnqueue event injectorPid injectorUid syncMode =>
    show ConnsOk (injectInputEventEnqueue env event injectorPid injectorUid syncMode
      s).2.mConnections
    rw [injectInputEventEnqueue_mConnections]; exact h
  | injectInputEventRelease injectedEntry =>
    show ConnsOk (releaseEventEntry injectedEntry s).mConnections
    rw [releaseEventEntry_mConnections]; exact h
  | setInputWindows inputWindows => exact connsOk_setInputWindows _ _ h
  | setFocusedApplication inputApplication =>
    show ConnsOk (setFocusedApplication inputApplication s).mConnections
    rw [setFocusedApplication_mConnections]; exact h
  | setInputDispatchMode enabled frozen => exact connsOk_setInputDispatchMode _ _ _ _ h
  | preemptInputDispatch => exact connsOk_preemptInputDispatch _ h
  | registerInputChannel inputChannel monitor => exact connsOk_registerInputChannel _ _ _ _ h
  | unregisterInputChannel inputChannel => exact connsOk_unregisterInputChannel _ _ _ h
  | dispatchOnce => exact connsOk_dispatchOnce _ _ h
  | dispatchOnceInnerLocked => exact connsOk_dispatchOnceInnerLocked _ _ _ _ h
  | runCommand =>
    show ConnsOk (match s.mCommandQueue with
      | [] => s
      | commandEntry :: rest =>
        runCommand env commandEntry { s with mCommandQueue := rest }).mConnections
    split
    · exact h
    · exact connsOk_runCommand _ _ _ h
  | handleReceiveCallback receiveFd events => exact connsOk_handleReceiveCallback _ _ _ _ h

theorem connsOk_run (trace : List (Env × Op)) : ∀ s : State, ConnsOk s.mConnections →
    ConnsOk (run trace s).mConnections := by
  induction trace with
  | nil => intro s h; exact h
  | cons x rest ih =>
    intro s h
    obtain ⟨env, op⟩ := x
    exact ih _ (connsOk_step env op s h)

theorem connsOk_initial (maxEventsPerSecond : Int) :
    ConnsOk (State.initial maxEventsPerSecond).mConnections := by
  intro c hc
  simp [State.initial] at hc

theorem connsOk_of_reachable (s : State) (h : Reachable s) : ConnsOk s.mConnections := by
  obtain ⟨m, trace, rfl⟩ := h
  exact connsOk_run trace _ (connsOk_initial m)

theorem filter_inProgress_length_le (q : List DispatchEntry) (h : QueueOk q) :
    (q.filter (fun d => d.inProgress)).length ≤ 1 := by
  cases q with
  | nil => simp
  | cons d rest =>
    have hrest : rest.filter (fun d => d.inProgress) = [] := by
      rw [List.filter_eq_nil_iff]
      intro a ha
      simp [h a ha]
    rw [List.filter_cons]
    split
    · simp [hrest]
    · simp [hrest]

/-! ### Target selection -/

theorem handleTargetsNotReadyLocked_targets (currentTime : Int)
    (application : Option InputApplication) (window : Option Nat) (s : State) :
    (handleTargetsNotReadyLocked currentTime application window s).2.mCurrentInputTargets
      = s.mCurrentInputTargets := by
  unfold handleTargetsNotReadyLocked
  simp only [postCommandLocked]
  split_ifs <;> rfl

theorem handleTargetsNotReadyLocked_result (currentTime : Int)
    (application : Option InputApplication) (window : Option Nat) (s : State)
    (h : application.isSome ∨ window.isSome) :
    (handleTargetsNotReadyLocked currentTime application window s).1 =
      if s.mInputTargetWaitCause = InputTargetWaitCause.INPUT_TARGET_WAIT_CAUSE_APPLICATION_NOT_READY
          ∧ s.mInputTargetWaitTimeoutExpired = true
      then INPUT_EVENT_INJECTION_TIMED_OUT else INPUT_EVENT_INJECTION_PENDING := by
  unfold handleTargetsNotReadyLocked
  have h1 : (application.isNone && window.isNone) = false := by
    rcases h with h | h
    · cases application <;> simp_all
    · cases window <;> simp_all
  simp only [h1]
  by_cases hc : s.mInputTargetWaitCause = InputTargetWaitCause.INPUT_TARGET_WAIT_CAUSE_APPLICATION_NOT_READY
  · by_cases he : s.mInputTargetWaitTimeoutExpired = true
    · simp [hc, he]
    · simp [hc, he]
      split_ifs <;> rfl
  · simp [hc]
    split_ifs <;> rfl

theorem handleTargetsNotReadyLocked_ne_succeeded (currentTime : Int)
    (application : Option InputApplication) (window : Option Nat) (s : State) :
    (handleTargetsNotReadyLocked currentTime application window s).1
      ≠ INPUT_EVENT_INJECTION_SUCCEEDED := by
  unfold handleTargetsNotReadyLocked
  simp only []
  split_ifs
  all_goals first
    | exact (by decide : INPUT_EVENT_INJECTION_TIMED_OUT ≠ INPUT_EVENT_INJECTION_SUCCEEDED)
    | exact (by decide : INPUT_EVENT_INJECTION_PENDING ≠ INPUT_EVENT_INJECTION_SUCCEEDED)

/-- The decision order on the body of the function, for any state. -/
theorem findFocusedWindowBody_decision_order (env : Env) (currentTime : Int)
    (entry : EventEntry) (s : State) :
    let r := findFocusedWindowBody env currentTime entry s
    let waiting : Int :=
      if s.mInputTargetWaitCause = InputTargetWaitCause.INPUT_TARGET_WAIT_CAUSE_APPLICATION_NOT_READY
          ∧ s.mInputTargetWaitTimeoutExpired = true
      then INPUT_EVENT_INJECTION_TIMED_OUT else INPUT_EVENT_INJECTION_PENDING
    (s.mFocusedWindow = none → s.mFocusedApplication = none →
        r.1 = INPUT_EVENT_INJECTION_FAILED)
    ∧ (s.mFocusedWindow = none → s.mFocusedApplication ≠ none → r.1 = waiting)
    ∧ (∀ w, s.mFocusedWindow = some w →
        (checkInjectionPermission env (some w) entry.injectorPid entry.injectorUid s = false →
          r.1 = INPUT_EVENT_INJECTION_PERMISSION_DENIED)
        ∧ (checkInjectionPermission env (some w) entry.injectorPid entry.injectorUid s = true →
            (s.window w).paused = true → r.1 = waiting)
        ∧ (checkInjectionPermission env (some w) entry.injectorPid entry.injectorUid s = true →
            (s.window w).paused = false →
            r.1 = INPUT_EVENT_INJECTION_SUCCEEDED ∧ r.2.1 = some w))
    ∧ (r.1 ≠ INPUT_EVENT_INJECTION_SUCCEEDED →
        r.2.1 = none ∧ r.2.2.mCurrentInputTargets = s.mCurrentInputTargets) := by
  intro r waiting
  refine ⟨?_, ?_, ?_, ?_⟩
  · intro hw ha
    simp only [r, findFocusedWindowBody, hw, ha]
  · intro hw ha
    obtain ⟨a, ha1⟩ := Option.ne_none_iff_exists'.mp ha
    simp only [r, findFocusedWindowBody, hw, ha1]
    exact handleTargetsNotReadyLocked_result currentTime (some a) none _ (Or.inl rfl)
  · intro w hw
    refine ⟨?_, ?_, ?_⟩
    · intro hperm
      simp [r, findFocusedWindowBody, hw, hperm]
    · intro hperm hpaused
      simp only [r, findFocusedWindowBody, hw, hperm, hpaused]
      exact handleTargetsNotReadyLocked_result currentTime _ (some w) _ (Or.inr rfl)
    · intro hperm hpaused
      simp [r, findFocusedWindowBody, hw, hperm, hpaused]
  · intro hne
    simp only [r] at hne ⊢
    unfold findFocusedWindowBody at hne ⊢
    split
    · split
      · simp only [handleTargetsNotReadyLocked_targets, and_self]
      · simp only [and_self]
    · rename_i w hw
      simp only [hw] at hne
      split_ifs at hne ⊢ with h1 h2
      · simp only [and_self]
      · simp only [handleTargetsNotReadyLocked_targets, and_self]
      · exact absurd rfl hne

theorem findFocusedWindowBody_succeeded (env : Env) (currentTime : Int)
    (entry : EventEntry) (s : State)
    (h : (findFocusedWindowBody env currentTime entry s).1 = INPUT_EVENT_INJECTION_SUCCEEDED) :
    ∃ w, s.mFocusedWindow = some w ∧
      findFocusedWindowBody env currentTime entry s
        = (INPUT_EVENT_INJECTION_SUCCEEDED, some w,
            addWindowTargetLocked w InputTarget.FLAG_SYNC
              (getTimeSpentWaitingForApplicationWhileFindingTargetsLocked currentTime s) s) := by
  have hF : INPUT_EVENT_INJECTION_FAILED ≠ INPUT_EVENT_INJECTION_SUCCEEDED := by decide
  have hD : INPUT_EVENT_INJECTION_PERMISSION_DENIED ≠ INPUT_EVENT_INJECTION_SUCCEEDED := by decide
  unfold findFocusedWindowBody at h ⊢
  split at h
  · split at h
    · exact absurd h (handleTargetsNotReadyLocked_ne_succeeded _ _ _ _)
    · exact absurd h hF
  · rename_i w hw
    refine ⟨w, hw, ?_⟩
    simp only [hw]
    split_ifs at h ⊢ with h1 h2
    · exact absurd h hD
    · exact absurd h (handleTargetsNotReadyLocked_ne_succeeded _ _ _ _)
    · rfl

theorem addWindowTargetLocked_eq (window : Nat) (flags : Nat) (t : Int) (s : State) :
    addWindowTargetLocked window flags t s
      = { s with mCurrentInputTargets :=
            s.mCurrentInputTargets ++ [targetOf (s.window window) flags t] } := rfl

theorem addWallpaperTargets_eq (ws : List Nat) : ∀ s : State,
    addWallpaperTargets ws s
      = { s with mCurrentInputTargets := s.mCurrentInputTargets ++
            ws.map (fun w => targetOf (s.window w) InputTarget.FLAG_WINDOW_IS_OBSCURED 0) } := by
  induction ws with
  | nil => intro s; simp [addWallpaperTargets]
  | cons w rest ih =>
    intro s
    rw [addWallpaperTargets, ih, addWindowTargetLocked_eq]
    simp [State.window]

theorem addOutsideTargets_eq (os : List OutsideTarget) : ∀ s : State,
    addOutsideTargets os s
      = { s with mCurrentInputTargets := s.mCurrentInputTargets ++
            os.map (fun o => targetOf (s.window o.window) (outsideTargetFlags o) 0) } := by
  induction os with
  | nil => intro s; simp [addOutsideTargets]
  | cons o rest ih =>
    intro s
    rw [addOutsideTargets, ih, addWindowTargetLocked_eq]
    simp [State.window]

theorem findTouchedWindowOutput_eq (currentTime : Int) (s : State) (touched : Nat)
    (h : s.mTouchedWindow = some touched) :
    findTouchedWindowOutput currentTime s
      = (some touched,
          { s with
            mTempTouchedOutsideTargets := []
            mCurrentInputTargets := s.mCurrentInputTargets ++
              touchTargets s.mWindows s.mTouchedWallpaperWindows s.mTempTouchedOutsideTargets
                touched s.mTouchedWindowIsObscured
                (getTimeSpentWaitingForApplicationWhileFindingTargetsLocked currentTime s) }) := by
  unfold findTouchedWindowOutput
  simp only [addWallpaperTargets_eq, addOutsideTargets_eq, addWindowTargetLocked_eq]
  split
  · rename_i t ht
    have : t = touched := Option.some.inj (ht.symm.trans h)
    subst this
    simp [touchTargets, State.window, outsideTargetFlags,
      getTimeSpentWaitingForApplicationWhileFindingTargetsLocked]
  · rename_i ht
    exact absurd (ht.symm.trans h) (by simp)

theorem findTouchedWindowFailed_targets (env : Env) (action : Nat) (entry : EventEntry)
    (injectionResult : Int) (injectionPermission : InjectionPermission) (s : State) :
    (findTouchedWindowFailed env action entry injectionResult injectionPermission s).mCurrentInputTargets
      = s.mCurrentInputTargets := by
  unfold findTouchedWindowFailed
  simp only [releaseTouchedWindowLocked]
  split_ifs <;> rfl

/-- What the exit of the function on success returns. -/
theorem findTouchedWindowSucceeded_spec (env : Env) (currentTime : Int) (action : Nat)
    (entry : EventEntry) (s : State) (touched : Nat) (h : s.mTouchedWindow = some touched) :
    (findTouchedWindowSucceeded env currentTime action entry s).1 = INPUT_EVENT_INJECTION_SUCCEEDED
    ∧ (findTouchedWindowSucceeded env currentTime action entry s).2.1 = some touched
    ∧ (findTouchedWindowSucceeded env currentTime action entry s).2.2.mCurrentInputTargets
        = s.mCurrentInputTargets ++
            touchTargets s.mWindows s.mTouchedWallpaperWindows s.mTempTouchedOutsideTargets
              touched s.mTouchedWindowIsObscured
              (getTimeSpentWaitingForApplicationWhileFindingTargetsLocked currentTime s) := by
  unfold findTouchedWindowSucceeded
  simp only [findTouchedWindowOutput_eq currentTime s touched h, findTouchedWindowFailed_targets,
    and_self]

theorem findTouchedWindowNotDown_succeeded (env : Env) (currentTime : Int) (entry : EventEntry)
    (motion : MotionEntry) (s : State)
    (h : (findTouchedWindowNotDown env currentTime entry motion s).1
      = INPUT_EVENT_INJECTION_SUCCEEDED) :
    ∃ touched, s.mTouchedWindow = some touched ∧ s.mTouchDown = true
      ∧ (s.window touched).paused = false
      ∧ findTouchedWindowNotDown env currentTime entry motion s
          = findTouchedWindowSucceeded env currentTime motion.action entry s := by
  have hF : INPUT_EVENT_INJECTION_FAILED ≠ INPUT_EVENT_INJECTION_SUCCEEDED := by decide
  have hD : INPUT_EVENT_INJECTION_PERMISSION_DENIED ≠ INPUT_EVENT_INJECTION_SUCCEEDED := by decide
  unfold findTouchedWindowNotDown at h ⊢
  split_ifs at h ⊢ with h1 h2
  · exact absurd h hD
  · exact absurd h hF
  · split at h
    · exact absurd h hF
    · rename_i touched ht
      refine ⟨touched, ht, by simpa using h2, ?_⟩
      simp only [ht]
      split_ifs at h ⊢ with h3
      · exact absurd h (handleTargetsNotReadyLocked_ne_succeeded _ _ _ _)
      · exact ⟨by simpa using h3, rfl⟩

theorem findTouchedWindowDown_succeeded (env : Env) (currentTime : Int) (entry : EventEntry)
    (motion : MotionEntry) (s : State)
    (h : (findTouchedWindowDown env currentTime entry motion s).1
      = INPUT_EVENT_INJECTION_SUCCEEDED) :
    ∃ hit, (touchScan motion s).newTouchedWindow = some hit
      ∧ findTouchedWindowDown env currentTime entry motion s
          = findTouchedWindowSucceeded env currentTime motion.action entry
              (downSession motion s hit) := by
  have hF : INPUT_EVENT_INJECTION_FAILED ≠ INPUT_EVENT_INJECTION_SUCCEEDED := by decide
  have hD : INPUT_EVENT_INJECTION_PERMISSION_DENIED ≠ INPUT_EVENT_INJECTION_SUCCEEDED := by decide
  unfold findTouchedWindowDown at h ⊢
  simp only [] at h ⊢
  split_ifs at h ⊢ with h1
  · exact absurd h (handleTargetsNotReadyLocked_ne_succeeded _ _ _ _)
  · split at h
    · split at h
      · exact absurd h (handleTargetsNotReadyLocked_ne_succeeded _ _ _ _)
      · exact absurd h hF
    · rename_i hit hhit
      refine ⟨hit, hhit, ?_⟩
      have hhit' : (scanWindows s (motion.firstSample.pointerCoords.getD 0 default).x
        (motion.firstSample.pointerCoords.getD 0 default).y false s.mWindows 0
        { newTouchedWindow := none, obscured := false, topErrorWindow := none,
          outsideTargets := [] }).newTouchedWindow = some hit := hhit
      split_ifs at h ⊢ with h2 h3 h4
      · exact absurd h hD
      · exact absurd h (handleTargetsNotReadyLocked_ne_succeeded _ _ _ _)
      · have h4' : (s.mWindows.getD hit default).hasWallpaper = true := h4
        simp only [downSession, touchScan, releaseTouchedWindowLocked, State.window, h4',
          List.nil_append, if_true]
      · have h4' : ¬ (s.mWindows.getD hit default).hasWallpaper = true := h4
        simp only [downSession, touchScan, releaseTouchedWindowLocked, State.window, h4',
          if_false]
        simp

theorem lor_eq_zero_iff (a b : Nat) : a ||| b = 0 ↔ a = 0 ∧ b = 0 := by
  constructor
  · intro h
    constructor
    · apply Nat.eq_of_testBit_eq
      intro i
      have := congrArg (fun n => Nat.testBit n i) h
      simp only [Nat.testBit_or, Nat.zero_testBit, Bool.or_eq_false_iff] at this
      simp [this.1]
    · apply Nat.eq_of_testBit_eq
      intro i
      have := congrArg (fun n => Nat.testBit n i) h
      simp only [Nat.testBit_or, Nat.zero_testBit, Bool.or_eq_false_iff] at this
      simp [this.2]
  · rintro ⟨rfl, rfl⟩
    rfl

theorem hitTest_iff (x y : Int) (w : InputWindow) :
    hitTest x y w = true ↔
      w.visible = true ∧ w.layoutParamsFlags &&& InputWindow.FLAG_NOT_TOUCHABLE = 0 ∧
        ((w.layoutParamsFlags &&&
            (InputWindow.FLAG_NOT_FOCUSABLE ||| InputWindow.FLAG_NOT_TOUCH_MODAL) == 0)
          || w.touchableAreaContainsPoint x y) = true := by
  simp only [hitTest, Bool.and_eq_true, Bool.or_eq_true, beq_iff_eq, Nat.and_or_distrib_left,
    lor_eq_zero_iff, and_assoc]

theorem scanWindows_newTouchedWindow (s : State) (x y : Int) (ws : List InputWindow) :
    ∀ (i : Nat) (acc : TouchScan), acc.newTouchedWindow = none →
      (scanWindows s x y false ws i acc).newTouchedWindow = ws.findIdx? (hitTest x y) i := by
  induction ws with
  | nil => intro i acc h; simpa [scanWindows] using h
  | cons w rest ih =>
    intro i acc h
    rw [List.findIdx?_cons]
    simp only [scanWindows]
    have hacc1 : (if w.layoutParamsFlags &&& InputWindow.FLAG_SYSTEM_ERROR ≠ 0
        ∧ acc.topErrorWindow = none then { acc with topErrorWindow := some i } else acc
          : TouchScan).newTouchedWindow = none := by
      split_ifs <;> exact h
    by_cases hv : w.visible = true
    · by_cases hc : w.layoutParamsFlags &&& InputWindow.FLAG_NOT_TOUCHABLE = 0 ∧
          ((w.layoutParamsFlags &&&
            (InputWindow.FLAG_NOT_FOCUSABLE ||| InputWindow.FLAG_NOT_TOUCH_MODAL) == 0)
          || w.touchableAreaContainsPoint x y) = true
      · have hh : hitTest x y w = true := (hitTest_iff x y w).2 ⟨hv, hc⟩
        rw [if_pos hv, if_pos hc, if_pos hh, if_pos (by simp)]
      · have hh : ¬ hitTest x y w = true := fun hh => hc ((hitTest_iff x y w).1 hh).2
        rw [if_pos hv, if_neg hc, if_neg hh]
        apply ih
        split_ifs <;> exact h
    · have hh : ¬ hitTest x y w = true := fun hh => hv ((hitTest_iff x y w).1 hh).1
      rw [if_neg hv, if_neg hh]
      exact ih _ _ hacc1

theorem touchScan_newTouchedWindow (motion : MotionEntry) (s : State) :
    (touchScan motion s).newTouchedWindow
      = s.mWindows.findIdx? (hitTest (motion.firstSample.pointerCoords.getD 0 default).x
          (motion.firstSample.pointerCoords.getD 0 default).y) :=
  scanWindows_newTouchedWindow s _ _ s.mWindows 0 _ rfl

theorem isWindowObscuredLocked_congr (s s' : State) (h : s'.mWindows = s.mWindows) (i : Nat) :
    isWindowObscuredLocked i s' = isWindowObscuredLocked i s := by
  simp only [isWindowObscuredLocked, State.window, h]

theorem scanWindows_congr (s s' : State) (h : s'.mWindows = s.mWindows) (x y : Int) (b : Bool)
    (ws : List InputWindow) : ∀ (i : Nat) (acc : TouchScan),
    scanWindows s' x y b ws i acc = scanWindows s x y b ws i acc := by
  induction ws with
  | nil => intro i acc; rfl
  | cons w rest ih =>
    intro i acc
    simp only [scanWindows, ih, isWindowObscuredLocked_congr s s' h]

theorem touchScan_congr (motion : MotionEntry) (s s' : State) (h : s'.mWindows = s.mWindows) :
    touchScan motion s' = touchScan motion s := by
  unfold touchScan
  rw [h]
  exact scanWindows_congr s s' h _ _ _ _ _ _

theorem findIdx?_first (p : InputWindow → Bool) (ws : List InputWindow) (k : Nat) :
    ws.findIdx? p = some k ↔
      k < ws.length ∧ p (ws.getD k default) = true ∧ ∀ j, j < k → p (ws.getD j default) = false := by
  rw [List.findIdx?_eq_some_iff_getElem]
  constructor
  · rintro ⟨hk, hp, hj⟩
    refine ⟨hk, ?_, ?_⟩
    · rw [List.getD_eq_getElem _ _ hk]; exact hp
    · intro j hjk
      rw [List.getD_eq_getElem _ _ (Nat.lt_trans hjk hk)]
      simpa using hj j hjk
  · rintro ⟨hk, hp, hj⟩
    refine ⟨hk, ?_, ?_⟩
    · rw [List.getD_eq_getElem _ _ hk] at hp; exact hp
    · intro j hjk
      have := hj j hjk
      rw [List.getD_eq_getElem _ _ (Nat.lt_trans hjk hk)] at this
      simp [this]

theorem findIdx?_none (p : InputWindow → Bool) (ws : List InputWindow) :
    ws.findIdx? p = none ↔ ∀ j, j < ws.length → p (ws.getD j default) = false := by
  rw [List.findIdx?_eq_none_iff]
  constructor
  · intro h j hj
    rw [List.getD_eq_getElem _ _ hj]
    exact h _ (List.getElem_mem _)
  · intro h x hx
    obtain ⟨j, hj, rfl⟩ := List.getElem_of_mem hx
    have := h j hj
    rwa [List.getD_eq_getElem _ _ hj] at this

/-! ### Injection -/

theorem modifyAt_length_append {α : Type} (f : α → α) (a : α) :
    ∀ l : List α, modifyAt f l.length (l ++ [a]) = l ++ [f a] := by
  intro l
  induction l with
  | nil => rfl
  | cons x xs ih => simp [modifyAt, ih]

theorem getElem?_length_append {α : Type} (l : List α) (a : α) :
    (l ++ [a])[l.length]? = some a := by
  simp

theorem appendInjectedSamples_fresh (pointerCount : Nat) (ts : List Int) :
    ∀ (cs : List PointerCoords) (s : State) (e : EventEntry), FreshEntry e →
      ∃ e1, FreshEntry e1 ∧
        appendInjectedSamples s.mEvents.length pointerCount ts cs
            { s with mEvents := s.mEvents ++ [e] }
          = { s with mEvents := s.mEvents ++ [e1] } := by
  induction ts with
  | nil => intro cs s e he; exact ⟨e, he, rfl⟩
  | cons t rest ih =>
    intro cs s e he
    unfold appendInjectedSamples
    have h1 : ∀ f : EventEntry → EventEntry,
        modifyEvent s.mEvents.length f { s with mEvents := s.mEvents ++ [e] }
          = { s with mEvents := s.mEvents ++ [f e] } := by
      intro f
      simp only [modifyEvent, modifyAt_length_append]
    unfold appendMotionSample
    rw [h1]
    apply ih
    show FreshEntry _
    split
    · exact he
    · exact he

theorem createEntryFromInjectedInputEventLocked_valid (event : InputEvent) (s : State)
    (hvalid : match event with
      | InputEvent.key keyEvent => isValidKeyAction keyEvent.action = true
      | InputEvent.motion motionEvent => isValidMotionAction motionEvent.action = true
      | InputEvent.other _ => False) :
    ∃ e, FreshEntry e ∧ createEntryFromInjectedInputEventLocked event s
      = (some s.mEvents.length, { s with mEvents := s.mEvents ++ [e] }) := by
  cases event with
  | key keyEvent =>
    simp only [] at hvalid
    simp only [createEntryFromInjectedInputEventLocked, hvalid, Bool.not_true, Bool.false_eq_true,
      if_false]
    exact ⟨_, ⟨rfl, rfl⟩, rfl⟩
  | motion motionEvent =>
    simp only [] at hvalid
    simp only [createEntryFromInjectedInputEventLocked, hvalid, Bool.not_true, Bool.false_eq_true,
      if_false]
    obtain ⟨e1, he1, h1⟩ := appendInjectedSamples_fresh motionEvent.getPointerCount
      (motionEvent.sampleEventTimes.drop 1)
      (motionEvent.samplePointerCoords.drop motionEvent.getPointerCount) s
      (initializeEventEntry (EventBody.motion
        { deviceId := motionEvent.deviceId
          source := motionEvent.source
          policyFlags := POLICY_FLAG_INJECTED
          action := motionEvent.action
          flags := motionEvent.flags
          metaState := motionEvent.metaState
          edgeFlags := motionEvent.edgeFlags
          xPrecision := motionEvent.xPrecision
          yPrecision := motionEvent.yPrecision
          downTime := motionEvent.downTime
          pointerCount := motionEvent.getPointerCount
          pointerIds := motionEvent.pointerIds.take motionEvent.getPointerCount
          firstSample :=
            { eventTime := motionEvent.sampleEventTimes.getD 0 0,
              pointerCoords := motionEvent.samplePointerCoords.take motionEvent.getPointerCount }
          nextSamples := [] }) (motionEvent.sampleEventTimes.getD 0 0)) ⟨rfl, rfl⟩
    refine ⟨e1, he1, ?_⟩
    simp only [obtainMotionEntry, allocEvent]
    rw [h1]
  | other t => exact absurd hvalid id

theorem enqueueInboundEventLocked_mEvents (env : Env) (entry : Nat) (s : State) :
    (enqueueInboundEventLocked env entry s).2.mEvents = s.mEvents := by
  unfold enqueueInboundEventLocked
  simp only []
  split
  · split
    · unfold detectPendingAppSwitchLocked
      split <;> rfl
    · rfl
  · rfl

theorem enqueueInboundEventLocked_mInboundQueue (env : Env) (entry : Nat) (s : State) :
    (enqueueInboundEventLocked env entry s).2.mInboundQueue = s.mInboundQueue ++ [entry] := by
  unfold enqueueInboundEventLocked
  simp only []
  split
  · split
    · unfold detectPendingAppSwitchLocked
      split <;> rfl
    · rfl
  · rfl

theorem injectInputEventEnqueue_valid (env : Env) (event : InputEvent)
    (injectorPid injectorUid syncMode : Int) (s : State)
    (hvalid : match event with
      | InputEvent.key keyEvent => isValidKeyAction keyEvent.action = true
      | InputEvent.motion motionEvent => isValidMotionAction motionEvent.action = true
      | InputEvent.other _ => False) :
    ∃ e, e.refCount = 2 ∧ e.injectionResult = INPUT_EVENT_INJECTION_PENDING ∧
      (injectInputEventEnqueue env event injectorPid injectorUid syncMode s).1
        = some s.mEvents.length ∧
      (injectInputEventEnqueue env event injectorPid injectorUid syncMode s).2.mEvents
        = s.mEvents ++ [e] ∧
      (injectInputEventEnqueue env event injectorPid injectorUid syncMode s).2.mInboundQueue
        = s.mInboundQueue ++ [s.mEvents.length] := by
  obtain ⟨e0, ⟨href, hres⟩, h0⟩ := createEntryFromInjectedInputEventLocked_valid event s hvalid
  refine ⟨{ e0 with
      refCount := e0.refCount + 1
      injectorPid := injectorPid
      injectorUid := injectorUid
      injectionIsAsync :=
        if syncMode = INPUT_EVENT_INJECTION_SYNC_NONE then true else e0.injectionIsAsync },
    ?_, hres, ?_, ?_, ?_⟩
  · show e0.refCount + 1 = 2
    rw [href]; rfl
  · simp only [injectInputEventEnqueue, h0]
  · simp only [injectInputEventEnqueue, h0, enqueueInboundEventLocked_mEvents, modifyEvent,
      modifyAt_length_append]
  · simp only [injectInputEventEnqueue, h0, enqueueInboundEventLocked_mInboundQueue, modifyEvent]

theorem releaseEventEntry_length_append (l : List EventEntry) (e : EventEntry) (s : State)
    (h : s.mEvents = l ++ [e]) :
    (releaseEventEntry l.length s).mEvents = l ++ [{ e with refCount := e.refCount - 1 }] ∧
    (releaseEventEntry l.length s).mInboundQueue = s.mInboundQueue := by
  have hget : s.mEvents[l.length]? = some e := by rw [h]; simp
  unfold releaseEventEntry
  rw [hget]
  simp only []
  split <;>
    exact ⟨by
      simp only [releaseConfigurationChangedEntry, releaseKeyEntry, releaseMotionEntry,
        modifyEvent, h, modifyAt_length_append], rfl⟩

/-! ### The window that a DOWN hits -/

theorem findTouchedWindowDown_outWindow (env : Env) (currentTime : Int) (entry : EventEntry)
    (motion : MotionEntry) (s : State)
    (h : (findTouchedWindowDown env currentTime entry motion s).1
      ≠ INPUT_EVENT_INJECTION_SUCCEEDED) :
    (findTouchedWindowDown env currentTime entry motion s).2.1 = none := by
  unfold findTouchedWindowDown at h ⊢
  simp only [] at h ⊢
  split_ifs at h ⊢
  · rfl
  · split at h
    · split <;> rfl
    · split_ifs at h ⊢
      · rfl
      · rfl
      · exact absurd rfl h
      · exact absurd rfl h

theorem checkInjectionPermission_congr (env : Env) (window : Option Nat)
    (injectorPid injectorUid : Int) (s s' : State) (h : s'.mWindows = s.mWindows) :
    checkInjectionPermission env window injectorPid injectorUid s'
      = checkInjectionPermission env window injectorPid injectorUid s := by
  simp only [checkInjectionPermission, State.window, h]

theorem findTouchedWindowDown_hit (env : Env) (currentTime : Int) (entry : EventEntry)
    (motion : MotionEntry) (s : State) (k : Nat)
    (hk : (touchScan motion s).newTouchedWindow = some k)
    (herr : (touchScan motion s).topErrorWindow = none
      ∨ (touchScan motion s).topErrorWindow = some k)
    (hperm : checkInjectionPermission env (some k) entry.injectorPid entry.injectorUid s = true)
    (hpaused : (s.window k).paused = false) :
    (findTouchedWindowDown env currentTime entry motion s).1 = INPUT_EVENT_INJECTION_SUCCEEDED := by
  have hk' : (scanWindows s (motion.firstSample.pointerCoords.getD 0 default).x
      (motion.firstSample.pointerCoords.getD 0 default).y false s.mWindows 0
      { newTouchedWindow := none, obscured := false, topErrorWindow := none,
        outsideTargets := [] }).newTouchedWindow = some k := hk
  have herr' : ¬ ((scanWindows s (motion.firstSample.pointerCoords.getD 0 default).x
      (motion.firstSample.pointerCoords.getD 0 default).y false s.mWindows 0
      { newTouchedWindow := none, obscured := false, topErrorWindow := none,
        outsideTargets := [] }).topErrorWindow ≠ none ∧
      (scanWindows s (motion.firstSample.pointerCoords.getD 0 default).x
      (motion.firstSample.pointerCoords.getD 0 default).y false s.mWindows 0
      { newTouchedWindow := none, obscured := false, topErrorWindow := none,
        outsideTargets := [] }).newTouchedWindow ≠
      (scanWindows s (motion.firstSample.pointerCoords.getD 0 default).x
      (motion.firstSample.pointerCoords.getD 0 default).y false s.mWindows 0
      { newTouchedWindow := none, obscured := false, topErrorWindow := none,
        outsideTargets := [] }).topErrorWindow) := by
    rintro ⟨h1, h2⟩
    rcases herr with h | h
    · exact h1 h
    · exact h2 (hk'.trans h.symm)
  have hperm' : ∀ o, checkInjectionPermission env (some k) entry.injectorPid entry.injectorUid
      { s with mTempTouchedOutsideTargets := o } = true := fun o =>
    (checkInjectionPermission_congr env _ _ _ s _ rfl).trans hperm
  have hpaused' : (s.mWindows.getD k default).paused = false := hpaused
  have herr2 := herr'
  rw [hk'] at herr2
  unfold findTouchedWindowDown
  simp only [hk', if_neg herr2, hperm', State.window, hpaused', Bool.not_true,
    Bool.false_eq_true, if_false]
  rfl

/-! ### The touch state after a selection that succeeded -/

theorem findTouchedWindowFailed_granted_succeeded (env : Env) (action : Nat)
    (entry : EventEntry) (s : State) :
    findTouchedWindowFailed env action entry INPUT_EVENT_INJECTION_SUCCEEDED
        InjectionPermission.INJECTION_PERMISSION_GRANTED s
      = if action = AMOTION_EVENT_ACTION_DOWN then { s with mTouchDown := true }
        else if action = AMOTION_EVENT_ACTION_UP then
          releaseTouchedWindowLocked { s with mTouchDown := false }
        else s := by
  unfold findTouchedWindowFailed
  simp only [ne_eq, not_true_eq_false, if_false, if_true,
    (by decide : InjectionPermission.INJECTION_PERMISSION_GRANTED
      ≠ InjectionPermission.INJECTION_PERMISSION_UNKNOWN)]
  split
  · cases h : s.mTouchDown
    · simp
    · simp only [if_true]
      cases s
      simp_all
  · rfl

theorem findTouchedWindowSucceeded_session (env : Env) (currentTime : Int) (action : Nat)
    (entry : EventEntry) (s : State) (touched : Nat) (h : s.mTouchedWindow = some touched) :
    (action = AMOTION_EVENT_ACTION_DOWN →
      (findTouchedWindowSucceeded env currentTime action entry s).2.2.mTouchDown = true
      ∧ (findTouchedWindowSucceeded env currentTime action entry s).2.2.mTouchedWindow
          = some touched
      ∧ (findTouchedWindowSucceeded env currentTime action entry s).2.2.mTouchedWindowIsObscured
          = s.mTouchedWindowIsObscured
      ∧ (findTouchedWindowSucceeded env currentTime action entry s).2.2.mTouchedWallpaperWindows
          = s.mTouchedWallpaperWindows)
    ∧ (action = AMOTION_EVENT_ACTION_UP →
      (findTouchedWindowSucceeded env currentTime action entry s).2.2.mTouchDown = false
      ∧ (findTouchedWindowSucceeded env currentTime action entry s).2.2.mTouchedWindow = none
      ∧ (findTouchedWindowSucceeded env currentTime action entry s).2.2.mTouchedWindowIsObscured
          = false
      ∧ (findTouchedWindowSucceeded env currentTime action entry s).2.2.mTouchedWallpaperWindows
          = [])
    ∧ (action ≠ AMOTION_EVENT_ACTION_DOWN → action ≠ AMOTION_EVENT_ACTION_UP →
      (findTouchedWindowSucceeded env currentTime action entry s).2.2.mTouchDown = s.mTouchDown
      ∧ (findTouchedWindowSucceeded env currentTime action entry s).2.2.mTouchedWindow
          = some touched
      ∧ (findTouchedWindowSucceeded env currentTime action entry s).2.2.mTouchedWindowIsObscured
          = s.mTouchedWindowIsObscured
      ∧ (findTouchedWindowSucceeded env currentTime action entry s).2.2.mTouchedWallpaperWindows
          = s.mTouchedWallpaperWindows) := by
  have hup : AMOTION_EVENT_ACTION_UP ≠ AMOTION_EVENT_ACTION_DOWN := by decide
  unfold findTouchedWindowSucceeded
  simp only [findTouchedWindowOutput_eq currentTime s touched h,
    findTouchedWindowFailed_granted_succeeded]
  refine ⟨?_, ?_, ?_⟩
  · intro ha
    rw [if_pos ha]
    exact ⟨rfl, h, rfl, rfl⟩
  · intro ha
    rw [ha, if_neg hup, if_pos rfl]
    exact ⟨rfl, rfl, rfl, rfl⟩
  · intro h1 h2
    rw [if_neg h1, if_neg h2]
    exact ⟨rfl, h, rfl, rfl⟩

/-! ### The outside targets of a DOWN -/

/-- The outside targets that the traversal collects over `ws`, whose first window has
index `i`: it stops at the first window that passes the hit test. -/
theorem scanWindows_outsideTargets (s : State) (x y : Int) (ws : List InputWindow) :
    ∀ (i : Nat) (acc : TouchScan),
      (scanWindows s x y false ws i acc).outsideTargets
        = acc.outsideTargets ++
          (((ws.takeWhile (fun w => ! hitTest x y w)).enumFrom i).filter (fun p =>
            p.2.visible && (p.2.layoutParamsFlags &&& InputWindow.FLAG_WATCH_OUTSIDE_TOUCH != 0))).map
          (fun p => { window := p.1, obscured := isWindowObscuredLocked p.1 s }) := by
  induction ws with
  | nil => intro i acc; simp [scanWindows]
  | cons w rest ih =>
    intro i acc
    simp only [scanWindows]
    by_cases hv : w.visible = true
    · by_cases hc : w.layoutParamsFlags &&& InputWindow.FLAG_NOT_TOUCHABLE = 0 ∧
          ((w.layoutParamsFlags &&&
            (InputWindow.FLAG_NOT_FOCUSABLE ||| InputWindow.FLAG_NOT_TOUCH_MODAL) == 0)
          || w.touchableAreaContainsPoint x y) = true
      · have hh : hitTest x y w = true := (hitTest_iff x y w).2 ⟨hv, hc⟩
        rw [if_pos hv, if_pos hc, if_pos (by simp)]
        rw [List.takeWhile_cons, hh]
        simp only [Bool.not_true, Bool.false_eq_true, if_false, List.enumFrom_nil,
          List.filter_nil, List.map_nil, List.append_nil]
        split <;> rfl
      · have hh : hitTest x y w = false := by
          cases h : hitTest x y w
          · rfl
          · exact absurd ((hitTest_iff x y w).1 h).2 hc
        rw [if_pos hv, if_neg hc, ih]
        rw [List.takeWhile_cons, hh]
        simp only [Bool.not_false, if_true, List.enumFrom_cons, List.filter_cons, hv,
          Bool.true_and]
        by_cases hw : w.layoutParamsFlags &&& InputWindow.FLAG_WATCH_OUTSIDE_TOUCH ≠ 0
        · have hw2 : (w.layoutParamsFlags &&& InputWindow.FLAG_WATCH_OUTSIDE_TOUCH != 0) = true := by
            simpa using hw
          rw [if_pos hw, hw2]
          simp only [if_true, List.map_cons, List.append_assoc, List.singleton_append]
          split <;> rfl
        · have hw2 : (w.layoutParamsFlags &&& InputWindow.FLAG_WATCH_OUTSIDE_TOUCH != 0) = false := by
            simpa using hw
          rw [if_neg hw, hw2]
          simp only [Bool.false_eq_true, if_false]
          split <;> rfl
    · have hh : hitTest x y w = false := by
        cases h : hitTest x y w
        · rfl
        · exact absurd ((hitTest_iff x y w).1 h).1 hv
      rw [if_neg hv, ih, List.takeWhile_cons, hh]
      have hv2 : w.visible = false := by simpa using hv
      simp only [Bool.not_false, if_true, List.enumFrom_cons, List.filter_cons, hv2,
        Bool.false_and, Bool.false_eq_true, if_false]
      split <;> rfl

/-- The obscured bit that the traversal notes for the window it hits. -/
theorem scanWindows_obscured (s : State) (x y : Int) (ws : List InputWindow) :
    ∀ (i : Nat) (acc : TouchScan) (k : Nat),
      (scanWindows s x y false ws i acc).newTouchedWindow = some k →
      acc.newTouchedWindow = none →
      (scanWindows s x y false ws i acc).obscured = isWindowObscuredLocked k s := by
  induction ws with
  | nil =>
    intro i acc k h hacc
    simp only [scanWindows] at h
    rw [hacc] at h
    exact absurd h (by simp)
  | cons w rest ih =>
    intro i acc k h hacc
    have hacc1 : (if w.layoutParamsFlags &&& InputWindow.FLAG_SYSTEM_ERROR ≠ 0
        ∧ acc.topErrorWindow = none then { acc with topErrorWindow := some i } else acc
          : TouchScan).newTouchedWindow = none := by
      split_ifs <;> exact hacc
    simp only [scanWindows] at h ⊢
    by_cases hv : w.visible = true
    · by_cases hc : w.layoutParamsFlags &&& InputWindow.FLAG_NOT_TOUCHABLE = 0 ∧
          ((w.layoutParamsFlags &&&
            (InputWindow.FLAG_NOT_FOCUSABLE ||| InputWindow.FLAG_NOT_TOUCH_MODAL) == 0)
          || w.touchableAreaContainsPoint x y) = true
      · rw [if_pos hv, if_pos hc, if_pos (by simp)] at h ⊢
        have hk : i = k := Option.some.inj h
        rw [hk]
      · rw [if_pos hv, if_neg hc] at h ⊢
        apply ih _ _ _ h
        split_ifs <;> exact hacc
    · rw [if_neg hv] at h ⊢
      exact ih _ _ _ h hacc1

theorem touchScan_outsideTargets (motion : MotionEntry) (s : State) (hit : Nat)
    (h : (touchScan motion s).newTouchedWindow = some hit) :
    (touchScan motion s).outsideTargets = outsideWatchers s hit
    ∧ (touchScan motion s).obscured = isWindowObscuredLocked hit s := by
  constructor
  · have h1 := h
    rw [touchScan_newTouchedWindow, List.findIdx?_eq_some_iff_findIdx_eq] at h1
    unfold touchScan outsideWatchers
    rw [scanWindows_outsideTargets, List.takeWhile_eq_take_findIdx_not]
    simp only [Bool.not_not, List.nil_append, List.enum]
    rw [h1.2]
  · exact scanWindows_obscured s _ _ s.mWindows 0 _ hit h rfl

/-! ### Obscured windows -/

theorem isWindowObscuredFrom_iff (w : InputWindow) (k : Nat) (ws : List InputWindow) :
    ∀ i, i ≤ k →
      (isWindowObscuredFrom w k ws i = true ↔
        ∃ n, n < ws.length ∧ i + n < k ∧ (ws.getD n default).visible = true
          ∧ w.visibleFrameIntersects (ws.getD n default) = true) := by
  induction ws with
  | nil =>
    intro i _
    simp [isWindowObscuredFrom]
  | cons other rest ih =>
    intro i hik
    unfold isWindowObscuredFrom
    by_cases h1 : i = k
    · rw [if_pos h1]
      constructor
      · intro h; exact absurd h (by simp)
      · rintro ⟨n, -, hn, -⟩
        omega
    · rw [if_neg h1]
      have hlt : i < k := Nat.lt_of_le_of_ne hik h1
      by_cases h2 : (other.visible && w.visibleFrameIntersects other) = true
      · rw [if_pos h2]
        simp only [Bool.and_eq_true] at h2
        constructor
        · intro _
          exact ⟨0, by simp, by omega, by simpa using h2.1, by simpa using h2.2⟩
        · intro _; rfl
      · rw [if_neg h2, ih (i + 1) hlt]
        constructor
        · rintro ⟨n, hn, hk, hv, hx⟩
          exact ⟨n + 1, by simp; omega, by omega, by simpa using hv, by simpa using hx⟩
        · rintro ⟨n, hn, hk, hv, hx⟩
          cases n with
          | zero =>
            exfalso
            apply h2
            simp only [List.getD_cons_zero] at hv hx
            simp [hv, hx]
          | succ m =>
            refine ⟨m, ?_, by omega, by simpa using hv, by simpa using hx⟩
            simp only [List.length_cons] at hn
            omega

/-! ### Cancelation events -/

theorem synthesizeKeyCancelationEvents_eq (now : Int) (ms : List KeyMemento) :
    ∀ s : State, synthesizeKeyCancelationEvents now ms s
      = (List.range' s.mEvents.length ms.length,
          { s with mEvents := s.mEvents ++ ms.map (keyCancelationEntry now) }) := by
  induction ms with
  | nil => intro s; simp [synthesizeKeyCancelationEvents]
  | cons m rest ih =>
    intro s
    simp only [synthesizeKeyCancelationEvents, ih, obtainKeyEntry, allocEvent, List.length_cons,
      List.range'_succ, List.map_cons, List.length_append, List.length_singleton,
      List.append_assoc, List.singleton_append]
    rfl

theorem synthesizeMotionCancelationEvents_eq (now : Int) (ms : List MotionMemento) :
    ∀ s : State, synthesizeMotionCancelationEvents now ms s
      = (List.range' s.mEvents.length ms.length,
          { s with mEvents := s.mEvents ++ ms.map (motionCancelationEntry now) }) := by
  induction ms with
  | nil => intro s; simp [synthesizeMotionCancelationEvents]
  | cons m rest ih =>
    intro s
    simp only [synthesizeMotionCancelationEvents, ih, obtainMotionEntry, allocEvent,
      List.length_cons, List.range'_succ, List.map_cons, List.length_append,
      List.length_singleton, List.append_assoc, List.singleton_append]
    rfl

/-! ### Arming the app switch -/

theorem detectPendingAppSwitchLocked_cond (env : Env) (e : EventEntry) (k : KeyEntry)
    (hb : e.body = EventBody.key k) :
    (k.action == AKEY_EVENT_ACTION_UP && (k.flags &&& AKEY_EVENT_FLAG_CANCELED == 0)
      && isAppSwitchKey k.keyCode && isEventFromReliableSourceLocked env e) = true
    ↔ ArmsAppSwitch env e := by
  unfold ArmsAppSwitch isAppSwitchKey isEventFromReliableSourceLocked
  simp only [Bool.and_eq_true, Bool.or_eq_true, beq_iff_eq, Bool.not_eq_true', and_assoc,
    or_assoc]
  constructor
  · rintro ⟨h1, h2, h3, h4⟩
    exact ⟨k, hb, h1, h2, h3, h4⟩
  · rintro ⟨k2, hb2, h1, h2, h3, h4⟩
    have : k2 = k := by
      rw [hb] at hb2
      exact (EventBody.key.inj hb2).symm
    subst this
    exact ⟨h1, h2, h3, h4⟩

/-! ### Preemption -/

theorem length_modifyAt {α : Type} (f : α → α) : ∀ (n : Nat) (l : List α),
    (modifyAt f n l).length = l.length := by
  intro n l
  induction l generalizing n with
  | nil => simp [modifyAt]
  | cons x xs ih =>
    cases n with
    | zero => rfl
    | succ n => simp [modifyAt, ih]

theorem getElem?_modifyAt {α : Type} (f : α → α) : ∀ (n : Nat) (l : List α) (i : Nat),
    (modifyAt f n l)[i]? = if i = n then l[i]?.map f else l[i]? := by
  intro n l
  induction l generalizing n with
  | nil => intro i; simp [modifyAt]
  | cons x xs ih =>
    intro i
    cases n with
    | zero =>
      cases i with
      | zero => simp [modifyAt]
      | succ i => simp [modifyAt]
    | succ n =>
      cases i with
      | zero => simp [modifyAt]
      | succ i => simp [modifyAt, ih]

theorem modifyAt_last {α : Type} (f : α → α) : ∀ l : List α,
    modifyAt f (l.length - 1) l = l.dropLast ++ (l.getLast?.map f).toList := by
  intro l
  induction l with
  | nil => rfl
  | cons x xs ih =>
    cases xs with
    | nil => rfl
    | cons y ys =>
      have h : (x :: y :: ys).length - 1 = ((y :: ys).length - 1) + 1 := by simp
      rw [h]
      simp only [modifyAt, ih, List.dropLast_cons₂, List.getLast?_cons_cons, List.cons_append]

theorem preemptSyncTarget_isSyncTarget (d : DispatchEntry) :
    d.preemptSyncTarget.isSyncTarget = false := by
  unfold DispatchEntry.isSyncTarget DispatchEntry.preemptSyncTarget
  have h : d.targetFlags &&& (0xFFFFFFFF ^^^ InputTarget.FLAG_SYNC) &&& InputTarget.FLAG_SYNC
      = 0 := by
    rw [Nat.and_assoc]
    have : (0xFFFFFFFF ^^^ InputTarget.FLAG_SYNC) &&& InputTarget.FLAG_SYNC = 0 := by decide
    rw [this, Nat.and_zero]
  simp [h]

theorem preemptSyncTarget_testBit (d : DispatchEntry) :
    d.preemptSyncTarget.targetFlags.testBit 0 = false
    ∧ ∀ j, 0 < j → j < 32 →
        d.preemptSyncTarget.targetFlags.testBit j = d.targetFlags.testBit j := by
  unfold DispatchEntry.preemptSyncTarget
  simp only [Nat.testBit_and]
  constructor
  · have : (0xFFFFFFFF ^^^ InputTarget.FLAG_SYNC).testBit 0 = false := by decide
    rw [this, Bool.and_false]
  · intro j h0 h32
    have : (0xFFFFFFFF ^^^ InputTarget.FLAG_SYNC).testBit j = true := by
      interval_cases j <;> decide
    rw [this, Bool.and_true]

theorem connection_preemptSyncTarget_eq (c : Connection) :
    c.preemptSyncTarget
      = { c with outboundQueue := c.outboundQueue.dropLast
            ++ (c.outboundQueue.getLast?.map DispatchEntry.preemptSyncTarget).toList } := by
  unfold Connection.preemptSyncTarget
  simp only [modifyAt_last]

theorem connection_preemptSyncTarget_hasPendingSyncTarget (c : Connection) :
    c.preemptSyncTarget.hasPendingSyncTarget = false := by
  rw [connection_preemptSyncTarget_eq]
  unfold Connection.hasPendingSyncTarget
  cases h : c.outboundQueue.getLast? with
  | none =>
    have : c.outboundQueue = [] := List.getLast?_eq_none_iff.1 h
    simp [this]
  | some d =>
    simp [preemptSyncTarget_isSyncTarget]

theorem preemptConnections_fields (cs : List Nat) : ∀ s : State,
    (preemptConnections cs s).2
      = { s with mConnections := (preemptConnections cs s).2.mConnections } := by
  induction cs with
  | nil => intro s; rfl
  | cons a rest ih =>
    intro s
    unfold preemptConnections
    split
    · exact ih s
    · split
      · exact ih (modifyConnection a Connection.preemptSyncTarget s)
      · exact ih s

theorem preemptConnections_length (cs : List Nat) : ∀ s : State,
    (preemptConnections cs s).2.mConnections.length = s.mConnections.length := by
  induction cs with
  | nil => intro s; rfl
  | cons a rest ih =>
    intro s
    unfold preemptConnections
    split
    · exact ih s
    · split
      · rw [ih]
        exact length_modifyAt _ _ _
      · exact ih s

theorem preemptConnections_getElem? (cs : List Nat) : ∀ (s : State) (i : Nat) (c : Connection),
    s.mConnections[i]? = some c →
    (preemptConnections cs s).2.mConnections[i]?
      = some (if i ∈ cs ∧ c.hasPendingSyncTarget = true then c.preemptSyncTarget else c) := by
  induction cs with
  | nil => intro s i c h; simpa [preemptConnections] using h
  | cons a rest ih =>
    intro s i c h
    unfold preemptConnections
    split
    · rename_i hnone
      have hia : i ≠ a := by
        intro e; rw [e, hnone] at h; exact absurd h (by simp)
      rw [ih s i c h]
      simp only [List.mem_cons, hia, false_or]
    · rename_i c0 hc0
      split
      · rename_i hp
        by_cases hia : i = a
        · have hcc : c0 = c := by
            rw [hia, hc0] at h; exact Option.some.inj h
          have h1 : (modifyConnection a Connection.preemptSyncTarget s).mConnections[i]?
              = some c.preemptSyncTarget := by
            show (modifyAt Connection.preemptSyncTarget a s.mConnections)[i]? = _
            rw [getElem?_modifyAt, if_pos hia, h]
            rfl
          rw [ih _ i _ h1, connection_preemptSyncTarget_hasPendingSyncTarget]
          rw [hcc] at hp
          simp [hia, hp]
        · have h1 : (modifyConnection a Connection.preemptSyncTarget s).mConnections[i]?
              = some c := by
            show (modifyAt Connection.preemptSyncTarget a s.mConnections)[i]? = _
            rw [getElem?_modifyAt, if_neg hia, h]
          rw [ih _ i _ h1]
          simp only [List.mem_cons, hia, false_or]
      · rename_i hp
        rw [ih s i c h]
        by_cases hia : i = a
        · have hcc : c0 = c := by
            rw [hia, hc0] at h; exact Option.some.inj h
          rw [hcc] at hp
          simp [hp]
        · simp only [List.mem_cons, hia, false_or]

theorem preemptConnections_result (cs : List Nat) : ∀ s : State,
    (preemptConnections cs s).1 = true ↔
      ∃ i ∈ cs, ∃ c, s.mConnections[i]? = some c ∧ c.hasPendingSyncTarget = true := by
  induction cs with
  | nil => intro s; simp [preemptConnections]
  | cons a rest ih =>
    intro s
    unfold preemptConnections
    split
    · rename_i hnone
      rw [ih s]
      constructor
      · rintro ⟨i, hi, c, hc, hp⟩
        exact ⟨i, List.mem_cons_of_mem _ hi, c, hc, hp⟩
      · rintro ⟨i, hi, c, hc, hp⟩
        rcases List.mem_cons.1 hi with h | h
        · rw [h, hnone] at hc; exact absurd hc (by simp)
        · exact ⟨i, h, c, hc, hp⟩
    · rename_i c0 hc0
      split
      · rename_i hp
        constructor
        · intro _
          exact ⟨a, List.mem_cons_self _ _, c0, hc0, hp⟩
        · intro _; rfl
      · rename_i hp
        rw [ih s]
        constructor
        · rintro ⟨i, hi, c, hc, hp2⟩
          exact ⟨i, List.mem_cons_of_mem _ hi, c, hc, hp2⟩
        · rintro ⟨i, hi, c, hc, hp2⟩
          rcases List.mem_cons.1 hi with h | h
          · rw [h, hc0] at hc
            rw [Option.some.inj hc] at hp
            exact absurd hp2 hp
          · exact ⟨i, h, c, hc, hp2⟩

theorem preemptConnections_no_pending (cs : List Nat) (s : State) (i : Nat) (hi : i ∈ cs)
    (c : Connection) (hc : (preemptConnections cs s).2.mConnections[i]? = some c) :
    c.hasPendingSyncTarget = false := by
  have hlen := preemptConnections_length cs s
  have hlt : i < s.mConnections.length := by
    rw [← hlen]
    exact (List.getElem?_eq_some_iff.1 hc).1
  have h0 : s.mConnections[i]? = some (s.mConnections[i]) := List.getElem?_eq_getElem hlt
  rw [preemptConnections_getElem? cs s i _ h0] at hc
  have hc2 := Option.some.inj hc
  by_cases hp : (s.mConnections[i]).hasPendingSyncTarget = true
  · rw [if_pos ⟨hi, hp⟩] at hc2
    rw [← hc2]
    exact connection_preemptSyncTarget_hasPendingSyncTarget _
  · rw [if_neg (fun h => hp h.2)] at hc2
    rw [← hc2]
    simpa using hp

theorem preemptConnections_idle (cs : List Nat) : ∀ s : State,
    (∀ i ∈ cs, ∀ c, s.mConnections[i]? = some c → c.hasPendingSyncTarget = false) →
    preemptConnections cs s = (false, s) := by
  induction cs with
  | nil => intro s _; rfl
  | cons a rest ih =>
    intro s h
    unfold preemptConnections
    have hrest := ih s (fun i hi c hc => h i (List.mem_cons_of_mem _ hi) c hc)
    split
    · exact hrest
    · rename_i c0 hc0
      have := h a (List.mem_cons_self _ _) c0 hc0
      rw [this]
      simpa using hrest

/-! ### A pass with an overdue app switch -/

theorem scanActiveConnections_eventSide (currentTime : Int) (isAppSwitchDue : Bool)
    (cs : List Nat) : ∀ (acc : ConnectionScan) (s : State),
      (scanActiveConnections currentTime isAppSwitchDue cs acc s).2.eventSide = s.eventSide := by
  induction cs with
  | nil => intro acc s; rfl
  | cons connection rest ih =>
    intro acc s
    unfold scanActiveConnections
    split
    · exact ih _ _
    · simp only []
      split_ifs <;> rw [ih] <;> rfl

theorem scanActiveConnections_due (currentTime : Int) (cs : List Nat) :
    ∀ (acc : ConnectionScan) (s : State),
      (scanActiveConnections currentTime true cs acc s).1.havePendingSyncTarget
        = acc.havePendingSyncTarget := by
  induction cs with
  | nil => intro acc s; rfl
  | cons connection rest ih =>
    intro acc s
    unfold scanActiveConnections
    split
    · exact ih _ _
    · simp only []
      split_ifs <;> rw [ih]

theorem timeoutDispatchCycleLocked_eventSide (currentTime : Int) (connection : Nat) (s : State) :
    (timeoutDispatchCycleLocked currentTime connection s).eventSide = s.eventSide := by
  unfold timeoutDispatchCycleLocked
  split
  · rfl
  · split_ifs <;> rfl

theorem timeoutConnections_eventSide (currentTime : Int) (cs : List Nat) : ∀ s : State,
    (timeoutConnections currentTime cs s).eventSide = s.eventSide := by
  induction cs with
  | nil => intro s; rfl
  | cons connection rest ih =>
    intro s
    unfold timeoutConnections
    rw [ih]
    exact timeoutDispatchCycleLocked_eventSide currentTime connection s

theorem passBeforeEvent_eventSide (env : Env) (keyRepeatTimeout : Int) (s : State) :
    (passBeforeEvent env keyRepeatTimeout s).2.eventSide
      = (if keyRepeatTimeout < 0 then resetKeyRepeatLocked s else s).eventSide := by
  unfold passBeforeEvent
  simp only [timeoutConnections_eventSide, scanActiveConnections_eventSide]
  split_ifs <;> rfl

theorem resetKeyRepeatLocked_shape (s : State) (pending : Nat) (e : EventEntry)
    (he : s.mEvents[pending]? = some e) :
    ∃ ev ks e1, resetKeyRepeatLocked s = { s with mEvents := ev, mKeyRepeatState := ks }
      ∧ ev[pending]? = some e1 ∧ (e1 = e ∨ e1 = { e with refCount := e.refCount - 1 }) := by
  unfold resetKeyRepeatLocked
  split
  · rename_i entry _
    by_cases h : pending = entry
    · refine ⟨modifyAt (fun e => { e with refCount := e.refCount - 1 }) entry s.mEvents,
        { s.mKeyRepeatState with lastKeyEntry := none }, { e with refCount := e.refCount - 1 },
        rfl, ?_, Or.inr rfl⟩
      rw [getElem?_modifyAt, he, if_pos h]
      rfl
    · refine ⟨modifyAt (fun e => { e with refCount := e.refCount - 1 }) entry s.mEvents,
        { s.mKeyRepeatState with lastKeyEntry := none }, e, rfl, ?_, Or.inl rfl⟩
      rw [getElem?_modifyAt, he, if_neg h]
  · exact ⟨s.mEvents, s.mKeyRepeatState, e, rfl, he, Or.inl rfl⟩

theorem eq_of_eventSide (s t : State) (h : s.eventSide = t.eventSide) :
    s = { t with mConnections := s.mConnections, mCommandQueue := s.mCommandQueue,
                 nextWakeupTime := s.nextWakeupTime } := by
  have h1 : ∀ u : State, u = s.eventSide →
      s = { u with mConnections := s.mConnections, mCommandQueue := s.mCommandQueue,
                   nextWakeupTime := s.nextWakeupTime } := by
    intro u hu
    subst hu
    rfl
  have h2 := h1 _ h.symm
  exact h2

theorem passBeforeEvent_shape (env : Env) (keyRepeatTimeout : Int) (s : State) (pending : Nat)
    (e : EventEntry) (he : s.mEvents[pending]? = some e) :
    ∃ ev ks cs q t e1, (passBeforeEvent env keyRepeatTimeout s).2
        = { s with mEvents := ev, mKeyRepeatState := ks, mConnections := cs,
                   mCommandQueue := q, nextWakeupTime := t }
      ∧ ev[pending]? = some e1 ∧ (e1 = e ∨ e1 = { e with refCount := e.refCount - 1 }) := by
  have h := eq_of_eventSide _ _ (passBeforeEvent_eventSide env keyRepeatTimeout s)
  by_cases hk : keyRepeatTimeout < 0
  · obtain ⟨ev, ks, e1, hr, h1, h2⟩ := resetKeyRepeatLocked_shape s pending e he
    rw [if_pos hk, hr] at h
    exact ⟨ev, ks, _, _, _, e1, h, h1, h2⟩
  · rw [if_neg hk] at h
    exact ⟨s.mEvents, s.mKeyRepeatState, _, _, _, e, h, he, Or.inl rfl⟩

theorem passBeforeEvent_due (env : Env) (keyRepeatTimeout : Int) (s : State)
    (hdue : s.mAppSwitchDueTime ≤ env.now) :
    (passBeforeEvent env keyRepeatTimeout s).1.havePendingSyncTarget = false := by
  have h1 : (if keyRepeatTimeout < 0 then resetKeyRepeatLocked s else s).mAppSwitchDueTime
      = s.mAppSwitchDueTime := by
    split
    · unfold resetKeyRepeatLocked; split <;> rfl
    · rfl
  unfold passBeforeEvent
  simp only [h1, hdue, decide_True]
  rw [scanActiveConnections_due]

theorem passAtEvent_shape (env : Env) (keyRepeatTimeout keyRepeatDelay : Int) (s : State)
    (pending : Nat) (e : EventEntry)
    (hdue : s.mAppSwitchDueTime ≤ env.now)
    (hpending : s.mPendingEvent = some pending
      ∨ (s.mPendingEvent = none ∧ s.mInboundQueue.head? = some pending))
    (he : s.mEvents[pending]? = some e) :
    ∃ ev ks cs q t th iq e1, passAtEvent env keyRepeatTimeout keyRepeatDelay s
        = (true, { s with mEvents := ev, mKeyRepeatState := ks, mConnections := cs,
                          mCommandQueue := q, nextWakeupTime := t, mThrottleState := th,
                          mInboundQueue := iq, mPendingEvent := some pending })
      ∧ ev[pending]? = some e1 ∧ (e1 = e ∨ e1 = { e with refCount := e.refCount - 1 })
      ∧ ((passBeforeEvent env keyRepeatTimeout s).2.mPendingEvent.isNone = true →
          (pickPendingEvent env.now keyRepeatDelay true
            (passBeforeEvent env keyRepeatTimeout s).2).1 = true) := by
  have h1 : (if keyRepeatTimeout < 0 then resetKeyRepeatLocked s else s).mAppSwitchDueTime
      = s.mAppSwitchDueTime := by
    split
    · unfold resetKeyRepeatLocked; split <;> rfl
    · rfl
  obtain ⟨ev, ks, cs, q, t, e1, hs3, hev, he1⟩ :=
    passBeforeEvent_shape env keyRepeatTimeout s pending e he
  unfold passAtEvent
  simp only [h1, hdue, decide_True]
  rw [hs3]
  rcases hpending with hp | ⟨hp, hq⟩
  · refine ⟨ev, ks, cs, q, t, s.mThrottleState, s.mInboundQueue, e1, ?_, hev, he1, ?_⟩
    · simp only [hp, Option.isNone_some, Bool.false_eq_true, if_false]
    · simp only [hp, Option.isNone_some, Bool.false_eq_true, false_implies]
  · obtain ⟨rest, hrest⟩ : ∃ rest, s.mInboundQueue = pending :: rest := by
      cases hl : s.mInboundQueue with
      | nil => rw [hl] at hq; simp at hq
      | cons a rest => rw [hl] at hq; simp at hq; exact ⟨rest, by rw [hq]⟩
    simp only [hp, Option.isNone_none, if_true]
    unfold pickPendingEvent
    simp only [hrest, hev]
    cases hb : e1.body with
    | motion m =>
      simp only [Bool.not_true, Bool.false_and, Bool.false_eq_true, if_false]
      exact ⟨ev, ks, cs, q, t, _, rest, e1, rfl, hev, he1, fun _ => trivial⟩
    | key k =>
      exact ⟨ev, ks, cs, q, t, _, rest, e1, rfl, hev, he1, fun _ => rfl⟩
    | configurationChanged =>
      exact ⟨ev, ks, cs, q, t, _, rest, e1, rfl, hev, he1, fun _ => rfl⟩

theorem dispatchOnceInnerLocked_overdue (env : Env) (keyRepeatTimeout keyRepeatDelay : Int)
    (s : State) (pending : Nat) (e : EventEntry)
    (henabled : s.mDispatchEnabled = true) (hfrozen : s.mDispatchFrozen = false)
    (hdue : s.mAppSwitchDueTime ≤ env.now)
    (hpending : s.mPendingEvent = some pending
      ∨ (s.mPendingEvent = none ∧ s.mInboundQueue.head? = some pending))
    (he : s.mEvents[pending]? = some e) :
    dispatchOnceInnerLocked env keyRepeatTimeout keyRepeatDelay s
      = dispatchPendingEvent env env.now keyRepeatTimeout true
          (passAtEvent env keyRepeatTimeout keyRepeatDelay s).2 := by
  obtain ⟨ev, ks, cs, q, t, th, iq, e1, hat, hev, he1, hpick⟩ :=
    passAtEvent_shape env keyRepeatTimeout keyRepeatDelay s pending e hdue hpending he
  have hsync := passBeforeEvent_due env keyRepeatTimeout s hdue
  have h1 : (if keyRepeatTimeout < 0 then resetKeyRepeatLocked s else s).mAppSwitchDueTime
      = s.mAppSwitchDueTime := by
    split
    · unfold resetKeyRepeatLocked; split <;> rfl
    · rfl
  have h2 : (if keyRepeatTimeout < 0 then resetKeyRepeatLocked s else s).mDispatchEnabled
      = true := by
    rw [← henabled]
    split
    · unfold resetKeyRepeatLocked; split <;> rfl
    · rfl
  have h3 : (if keyRepeatTimeout < 0 then resetKeyRepeatLocked s else s).mDispatchFrozen
      = false := by
    rw [← hfrozen]
    split
    · unfold resetKeyRepeatLocked; split <;> rfl
    · rfl
  have hunfold : dispatchOnceInnerLocked env keyRepeatTimeout keyRepeatDelay s
      = (let s1 := if keyRepeatTimeout < 0 then resetKeyRepeatLocked s else s
         if ! s1.mDispatchEnabled then
           if s1.mPendingEvent.isSome || ! s1.mInboundQueue.isEmpty then
             drainInboundQueueLocked (releasePendingEventLocked true s1)
           else s1
         else if s1.mDispatchFrozen then s1
         else
           let isAppSwitchDue : Bool := decide (s1.mAppSwitchDueTime ≤ env.now)
           let p := passBeforeEvent env keyRepeatTimeout s
           if p.1.havePendingSyncTarget then p.2
           else if p.2.mPendingEvent.isNone then
             let r := pickPendingEvent env.now keyRepeatDelay isAppSwitchDue p.2
             if r.1 then dispatchPendingEvent env env.now keyRepeatTimeout r.2.1 r.2.2
             else r.2.2
           else dispatchPendingEvent env env.now keyRepeatTimeout isAppSwitchDue p.2) := rfl
  have hfst : (passAtEvent env keyRepeatTimeout keyRepeatDelay s).1 = true := by rw [hat]
  rw [hunfold]
  unfold passAtEvent at hfst ⊢
  simp only [h1, h2, h3, hdue, decide_True, Bool.not_true, Bool.false_eq_true, if_false, hsync]
    at hfst ⊢
  split
  · rename_i hnone
    rw [if_pos hnone] at hfst
    rw [if_pos (hpick hnone), hfst]
  · rfl

theorem releaseEventEntry_frame (entry : Nat) (s : State) :
    releaseEventEntry entry s = { s with mEvents := (releaseEventEntry entry s).mEvents } := by
  unfold releaseEventEntry
  split
  · rfl
  · split <;> rfl

theorem releaseEventEntry_getElem? (entry : Nat) (s : State) (e : EventEntry)
    (he : s.mEvents[entry]? = some e) :
    (releaseEventEntry entry s).mEvents[entry]? = some { e with refCount := e.refCount - 1 } := by
  unfold releaseEventEntry
  rw [he]
  simp only []
  split <;>
    simp only [releaseConfigurationChangedEntry, releaseKeyEntry, releaseMotionEntry,
      modifyEvent, getElem?_modifyAt, he, if_true, Option.map_some']

theorem releaseInboundEventLocked_frame (entry : Nat) (wasDropped : Bool) (s : State) :
    releaseInboundEventLocked entry wasDropped s
      = { s with mEvents := (releaseInboundEventLocked entry wasDropped s).mEvents } := by
  unfold releaseInboundEventLocked
  rw [releaseEventEntry_frame]
  split <;> rfl

theorem releaseInboundEventLocked_dropped (entry : Nat) (s : State) (e : EventEntry)
    (he : s.mEvents[entry]? = some e) :
    (releaseInboundEventLocked entry true s).mEvents[entry]? = some
      { e with
        injectionResult :=
          if e.isInjected then INPUT_EVENT_INJECTION_FAILED else e.injectionResult
        refCount := e.refCount - 1 } := by
  unfold releaseInboundEventLocked
  have h1 : (setInjectionResultLocked entry INPUT_EVENT_INJECTION_FAILED s).mEvents[entry]?
      = some (if e.isInjected then { e with injectionResult := INPUT_EVENT_INJECTION_FAILED }
              else e) := by
    simp only [setInjectionResultLocked, modifyEvent, getElem?_modifyAt, he, if_true,
      Option.map_some']
  rw [if_pos rfl, releaseEventEntry_getElem? _ _ _ h1]
  split <;> rfl

/-! ### Code that registers nothing and synthesizes no key repeat -/

theorem quiet_refl (b : Bool) (s : State) : Quiet b s s :=
  ⟨rfl, rfl, rfl, fun _ h => Or.inl h, fun h => h, fun _ _ e h1 h2 => ⟨e, h1, h2⟩⟩

theorem quiet_of_pools {b : Bool} {s0 s s' : State} (h : Quiet b s0 s)
    (hp : s'.pools = s.pools) : Quiet b s0 s' := by
  simp only [State.pools, Prod.mk.injEq] at hp
  obtain ⟨h1, h2, h3, h4, h5⟩ := hp
  exact ⟨h3.trans h.byFd, h5.trans h.monitoring, (congrArg List.length h2).trans h.length,
    fun i hi => h.active i (h4 ▸ hi), fun hn => h4 ▸ h.nodup hn,
    fun hb i e he hs => h.synth hb i e (h1 ▸ he) hs⟩

theorem quiet_of_frame {b : Bool} {s0 s s' : State} (hp : s'.pools = s.pools)
    (h : Quiet b s0 s) : Quiet b s0 s' :=
  quiet_of_pools h hp

theorem quiet_ite {b : Bool} {s0 : State} (c : Prop) [Decidable c] (s1 s2 : State)
    (h1 : Quiet b s0 s1) (h2 : Quiet b s0 s2) : Quiet b s0 (if c then s1 else s2) := by
  split
  · exact h1
  · exact h2

theorem quiet_modifyEvent {b : Bool} {s0 s : State} (id : Nat) (f : EventEntry → EventEntry)
    (hf : ∀ e, (f e).isSyntheticRepeat = true → e.isSyntheticRepeat = true)
    (h : Quiet b s0 s) : Quiet b s0 (modifyEvent id f s) := by
  refine ⟨h.byFd, h.monitoring, h.length, h.active, h.nodup, ?_⟩
  intro hb i e he hs
  have he1 : (modifyAt f id s.mEvents)[i]? = some e := he
  rw [getElem?_modifyAt] at he1
  split at he1
  · cases hx : s.mEvents[i]? with
    | none => rw [hx] at he1; simp at he1
    | some x =>
      rw [hx] at he1
      simp only [Option.map_some', Option.some.injEq] at he1
      subst he1
      exact h.synth hb i x hx (hf x hs)
  · exact h.synth hb i e he1 hs

theorem quiet_modifyKey {b : Bool} {s0 s : State} (id : Nat) (f : KeyEntry → KeyEntry)
    (hf : ∀ k, (f k).syntheticRepeat = true → k.syntheticRepeat = true)
    (h : Quiet b s0 s) : Quiet b s0 (modifyKey id f s) := by
  unfold modifyKey
  refine quiet_modifyEvent _ _ ?_ h
  intro e
  cases hb : e.body with
  | key k =>
    simp only [EventEntry.isSyntheticRepeat, hb]
    exact hf k
  | motion m => simp only [hb]; exact fun h => h
  | configurationChanged => simp only [hb]; exact fun h => h

theorem quiet_modifyConnection {b : Bool} {s0 s : State} (id : Nat)
    (f : Connection → Connection) (h : Quiet b s0 s) :
    Quiet b s0 (modifyConnection id f s) :=
  ⟨h.byFd, h.monitoring, (length_modifyAt f id s.mConnections).trans h.length, h.active,
    h.nodup, h.synth⟩

theorem quiet_allocEvent {b : Bool} {s0 s : State} (e : EventEntry)
    (he : e.isSyntheticRepeat = false) (h : Quiet b s0 s) :
    Quiet b s0 (allocEvent e s).2 := by
  refine ⟨h.byFd, h.monitoring, h.length, h.active, h.nodup, ?_⟩
  intro hb i x hx hs
  have hx1 : (s.mEvents ++ [e])[i]? = some x := hx
  by_cases hi : i < s.mEvents.length
  · rw [List.getElem?_append_left hi] at hx1
    exact h.synth hb i x hx1 hs
  · rw [List.getElem?_append_right (Nat.le_of_not_lt hi)] at hx1
    cases hj : i - s.mEvents.length with
    | zero =>
      rw [hj] at hx1
      simp only [List.getElem?_cons_zero, Option.some.injEq] at hx1
      rw [← hx1, he] at hs
      cases hs
    | succ j => rw [hj] at hx1; simp at hx1

theorem quiet_activateConnectionLocked {b : Bool} {s0 s : State} (connection : Nat)
    (hc : connection < s.mConnections.length) (h : Quiet b s0 s) :
    Quiet b s0 (activateConnectionLocked connection s) := by
  unfold activateConnectionLocked
  split
  · exact h
  · rename_i hnew
    refine ⟨h.byFd, h.monitoring, h.length, ?_, ?_, h.synth⟩
    · intro i hi
      have hi1 : i ∈ s.mActiveConnections ++ [connection] := hi
      rcases List.mem_append.mp hi1 with h1 | h1
      · exact h.active i h1
      · rw [List.mem_singleton] at h1
        exact Or.inr (h1 ▸ h.length ▸ hc)
    · intro hn
      show (s.mActiveConnections ++ [connection]).Nodup
      rw [List.nodup_append]
      refine ⟨h.nodup hn, List.nodup_singleton _, ?_⟩
      intro a ha hb
      rw [List.mem_singleton] at hb
      subst hb
      exact hnew (by simpa using ha)

theorem quiet_deactivateConnectionLocked {b : Bool} {s0 s : State} (connection : Nat)
    (h : Quiet b s0 s) : Quiet b s0 (deactivateConnectionLocked connection s) :=
  ⟨h.byFd, h.monitoring, h.length,
    fun i hi => h.active i (List.mem_of_mem_erase hi),
    fun hn => (h.nodup hn).erase connection, h.synth⟩

theorem postCommandLocked_pools (c : CommandEntry) (s : State) :
    (postCommandLocked c s).pools = s.pools := rfl

theorem onDispatchCycleFinishedLocked_pools (connection : Nat) (b : Bool)
    (s : State) :
    (onDispatchCycleFinishedLocked connection b s).pools = s.pools := by
  unfold onDispatchCycleFinishedLocked
  split <;> rfl

theorem onDispatchCycleANRLocked_pools (connection : Nat) (s : State) :
    (onDispatchCycleANRLocked connection s).pools = s.pools := rfl

theorem onDispatchCycleBrokenLocked_pools (connection : Nat) (s : State) :
    (onDispatchCycleBrokenLocked connection s).pools = s.pools := rfl

theorem handleTargetsNotReadyLocked_pools (currentTime : Int)
    (application : Option InputApplication) (window : Option Nat) (s : State) :
    (handleTargetsNotReadyLocked currentTime application window s).2.pools
      = s.pools := by
  unfold handleTargetsNotReadyLocked
  simp only [postCommandLocked]
  split_ifs <;> rfl

theorem findFocusedWindowLocked_pools (env : Env) (currentTime : Int)
    (entry : EventEntry) (s : State) :
    (findFocusedWindowLocked env currentTime entry s).2.2.pools = s.pools := by
  unfold findFocusedWindowLocked findFocusedWindowBody
  simp only []
  split
  · split
    · simp only [handleTargetsNotReadyLocked_pools]
    · rfl
  · split_ifs
    · rfl
    · simp only [handleTargetsNotReadyLocked_pools]
    · rfl

theorem findTouchedWindowFailed_pools (env : Env) (action : Nat)
    (entry : EventEntry) (r : Int) (p : InjectionPermission) (s : State) :
    (findTouchedWindowFailed env action entry r p s).pools = s.pools := by
  unfold findTouchedWindowFailed
  simp only [releaseTouchedWindowLocked]
  split_ifs <;> rfl

theorem addWallpaperTargets_pools (ws : List Nat) : ∀ s : State,
    (addWallpaperTargets ws s).pools = s.pools := by
  induction ws with
  | nil => intro s; rfl
  | cons w rest ih => intro s; simp only [addWallpaperTargets, ih]; rfl

theorem addOutsideTargets_pools (os : List OutsideTarget) : ∀ s : State,
    (addOutsideTargets os s).pools = s.pools := by
  induction os with
  | nil => intro s; rfl
  | cons o rest ih => intro s; simp only [addOutsideTargets, ih]; rfl

theorem findTouchedWindowOutput_pools (currentTime : Int) (s : State) :
    (findTouchedWindowOutput currentTime s).2.pools = s.pools := by
  unfold findTouchedWindowOutput
  simp only []
  split
  · show (addOutsideTargets _ (addWallpaperTargets _ s)).pools = s.pools
    rw [addOutsideTargets_pools, addWallpaperTargets_pools]
  · show (addOutsideTargets _ (addWallpaperTargets _ s)).pools = s.pools
    rw [addOutsideTargets_pools, addWallpaperTargets_pools]

theorem findTouchedWindowSucceeded_pools (env : Env) (currentTime : Int)
    (action : Nat) (entry : EventEntry) (s : State) :
    (findTouchedWindowSucceeded env currentTime action entry s).2.2.pools
      = s.pools := by
  simp only [findTouchedWindowSucceeded, findTouchedWindowFailed_pools,
    findTouchedWindowOutput_pools]

theorem findTouchedWindowLocked_pools (env : Env) (currentTime : Int)
    (entry : EventEntry) (motion : MotionEntry) (s : State) :
    (findTouchedWindowLocked env currentTime entry motion s).2.2.pools
      = s.pools := by
  unfold findTouchedWindowLocked findTouchedWindowDown findTouchedWindowNotDown
  simp only []
  split_ifs
  · simp only [handleTargetsNotReadyLocked_pools]
  · split
    · split
      · simp only [handleTargetsNotReadyLocked_pools]
      · simp only [findTouchedWindowFailed_pools]
    · split_ifs
      · simp only [findTouchedWindowFailed_pools]
      · simp only [handleTargetsNotReadyLocked_pools]
      · simp only [findTouchedWindowSucceeded_pools, releaseTouchedWindowLocked]
      · simp only [findTouchedWindowSucceeded_pools, releaseTouchedWindowLocked]
  · simp only [findTouchedWindowFailed_pools]
  · simp only [findTouchedWindowFailed_pools]
  · split
    · simp only [findTouchedWindowFailed_pools]
    · split_ifs
      · simp only [handleTargetsNotReadyLocked_pools]
      · simp only [findTouchedWindowSucceeded_pools]

theorem startFindingTargetsLocked_pools (s : State) :
    (startFindingTargetsLocked s).pools = s.pools := rfl

theorem finishFindingTargetsLocked_pools (w : Nat) (s : State) :
    (finishFindingTargetsLocked w s).pools = s.pools := rfl

theorem addMonitoringTargetsLocked_pools (s : State) :
    (addMonitoringTargetsLocked s).pools = s.pools := rfl

theorem pokeUserActivityLocked_pools (eventTime windowType eventType : Int)
    (s : State) :
    (pokeUserActivityLocked eventTime windowType eventType s).pools = s.pools := rfl

theorem resetPendingAppSwitchLocked_pools (b : Bool) (s : State) :
    (resetPendingAppSwitchLocked b s).pools = s.pools := rfl

theorem detectPendingAppSwitchLocked_pools (env : Env) (e : EventEntry)
    (k : KeyEntry) (s : State) :
    (detectPendingAppSwitchLocked env e k s).2.pools = s.pools := by
  unfold detectPendingAppSwitchLocked
  split <;> rfl

theorem enqueueInboundEventLocked_pools (env : Env) (entry : Nat) (s : State) :
    (enqueueInboundEventLocked env entry s).2.pools = s.pools := by
  unfold enqueueInboundEventLocked
  simp only []
  split
  · split
    · simp only [detectPendingAppSwitchLocked_pools]
    · rfl
  · rfl

theorem resumeAfterTargetsNotReadyTimeoutLocked_pools (env : Env)
    (newTimeout : Int) (s : State) :
    (resumeAfterTargetsNotReadyTimeoutLocked env newTimeout s).pools
      = s.pools := by
  unfold resumeAfterTargetsNotReadyTimeoutLocked
  split <;> rfl

theorem resolveWindows_pools (t : Option InputChannel) (ws : List InputChannel)
    (windows : List InputWindow) : ∀ (i : Nat) (s : State),
      (resolveWindows t ws windows i s).pools = s.pools := by
  induction windows with
  | nil => intro i s; rfl
  | cons w rest ih =>
    intro i s
    simp only [resolveWindows, ih]
    split_ifs <;> rfl

theorem setFocusedApplication_pools (a : Option InputApplication) (s : State) :
    (setFocusedApplication a s).pools = s.pools := by
  unfold setFocusedApplication
  split <;> rfl

theorem quiet_obtainKeyEntry {b : Bool} {s0 s : State} (eventTime deviceId : Int)
    (source policyFlags action flags : Nat) (keyCode scanCode metaState repeatCount downTime : Int)
    (h : Quiet b s0 s) :
    Quiet b s0 (obtainKeyEntry eventTime deviceId source policyFlags action flags keyCode
      scanCode metaState repeatCount downTime s).2 :=
  quiet_allocEvent _ rfl h

theorem quiet_obtainMotionEntry {b : Bool} {s0 s : State} (eventTime deviceId : Int)
    (source policyFlags action flags : Nat)
    (metaState edgeFlags xPrecision yPrecision downTime : Int) (pointerCount : Nat)
    (pointerIds : List Int) (pointerCoords : List PointerCoords) (h : Quiet b s0 s) :
    Quiet b s0 (obtainMotionEntry eventTime deviceId source policyFlags action flags metaState
      edgeFlags xPrecision yPrecision downTime pointerCount pointerIds pointerCoords s).2 :=
  quiet_allocEvent _ rfl h

theorem quiet_obtainConfigurationChangedEntry {b : Bool} {s0 s : State} (eventTime : Int)
    (h : Quiet b s0 s) : Quiet b s0 (obtainConfigurationChangedEntry eventTime s).2 :=
  quiet_allocEvent _ rfl h

theorem quiet_obtainDispatchEntry {b : Bool} {s0 s : State} (eventEntry targetFlags : Nat)
    (xOffset yOffset timeout : Int) (h : Quiet b s0 s) :
    Quiet b s0 (obtainDispatchEntry eventEntry targetFlags xOffset yOffset timeout s).2 :=
  quiet_modifyEvent _ _ (fun _ h => h) h

theorem quiet_releaseKeyEntry {b : Bool} {s0 s : State} (entry : Nat) (h : Quiet b s0 s) :
    Quiet b s0 (releaseKeyEntry entry s) :=
  quiet_modifyEvent _ _ (fun _ h => h) h

theorem quiet_releaseEventEntry {b : Bool} {s0 s : State} (entry : Nat) (h : Quiet b s0 s) :
    Quiet b s0 (releaseEventEntry entry s) := by
  unfold releaseEventEntry
  split
  · exact h
  · split <;> exact quiet_modifyEvent _ _ (fun _ h => h) h

theorem quiet_releaseDispatchEntry {b : Bool} {s0 s : State} (d : DispatchEntry)
    (h : Quiet b s0 s) : Quiet b s0 (releaseDispatchEntry d s) :=
  quiet_releaseEventEntry _ h

theorem quiet_appendMotionSample {b : Bool} {s0 s : State} (entry : Nat) (eventTime : Int)
    (pointerCoords : List PointerCoords) (h : Quiet b s0 s) :
    Quiet b s0 (appendMotionSample entry eventTime pointerCoords s) := by
  unfold appendMotionSample
  refine quiet_modifyEvent _ _ ?_ h
  intro e
  cases hb : e.body with
  | key k => simp only [hb]; exact id
  | motion m => simp only [EventEntry.isSyntheticRepeat, hb]; exact id
  | configurationChanged => simp only [hb]; exact id

theorem quiet_setInjectionResultLocked {b : Bool} {s0 s : State} (entry : Nat) (r : Int)
    (h : Quiet b s0 s) : Quiet b s0 (setInjectionResultLocked entry r s) := by
  unfold setInjectionResultLocked
  refine quiet_modifyEvent _ _ ?_ h
  intro e
  split
  · exact id
  · exact id

theorem quiet_decrementPendingSyncDispatchesLocked {b : Bool} {s0 s : State} (entry : Nat)
    (h : Quiet b s0 s) : Quiet b s0 (decrementPendingSyncDispatchesLocked entry s) :=
  quiet_modifyEvent _ _ (fun _ h => h) h

theorem quiet_drainEntries {b : Bool} {s0 : State} (ds : List DispatchEntry) :
    ∀ s : State, Quiet b s0 s → Quiet b s0 (drainEntries ds s) := by
  induction ds with
  | nil => intro s h; exact h
  | cons d rest ih =>
    intro s h
    unfold drainEntries
    refine ih _ (quiet_releaseDispatchEntry _ ?_)
    exact quiet_ite _ _ _ (quiet_decrementPendingSyncDispatchesLocked _ h) h

theorem quiet_synthesizeKeyCancelationEvents {b : Bool} {s0 : State} (now : Int)
    (ms : List KeyMemento) :
    ∀ s : State, Quiet b s0 s → Quiet b s0 (synthesizeKeyCancelationEvents now ms s).2 := by
  induction ms with
  | nil => intro s h; exact h
  | cons m rest ih =>
    intro s h
    unfold synthesizeKeyCancelationEvents
    exact ih _ (quiet_obtainKeyEntry _ _ _ _ _ _ _ _ _ _ _ h)

theorem quiet_synthesizeMotionCancelationEvents {b : Bool} {s0 : State} (now : Int)
    (ms : List MotionMemento) :
    ∀ s : State, Quiet b s0 s → Quiet b s0 (synthesizeMotionCancelationEvents now ms s).2 := by
  induction ms with
  | nil => intro s h; exact h
  | cons m rest ih =>
    intro s h
    unfold synthesizeMotionCancelationEvents
    exact ih _ (quiet_obtainMotionEntry _ _ _ _ _ _ _ _ _ _ _ _ _ _ h)

theorem quiet_synthesizeCancelationEvents {b : Bool} {s0 s : State} (st : InputState)
    (now : Int) (h : Quiet b s0 s) : Quiet b s0 (st.synthesizeCancelationEvents now s).2 := by
  unfold InputState.synthesizeCancelationEvents
  exact quiet_synthesizeMotionCancelationEvents _ _ _
    (quiet_synthesizeKeyCancelationEvents _ _ _ h)

theorem quiet_drainOutboundQueueLocked {b : Bool} {s0 s : State} (connection n : Nat)
    (h : Quiet b s0 s) : Quiet b s0 (drainOutboundQueueLocked connection n s) := by
  unfold drainOutboundQueueLocked
  split
  · exact h
  · simp only []
    split
    · exact quiet_deactivateConnectionLocked _
        (quiet_drainEntries _ _ (quiet_modifyConnection _ _ h))
    · exact quiet_drainEntries _ _ (quiet_modifyConnection _ _ h)

theorem quiet_abortDispatchCycleLocked {b : Bool} {s0 s : State} (connection : Nat)
    (broken : Bool) (h : Quiet b s0 s) :
    Quiet b s0 (abortDispatchCycleLocked connection broken s) := by
  unfold abortDispatchCycleLocked
  have h2 : Quiet b s0 (drainOutboundQueueLocked connection 0 (modifyConnection connection
      (fun c => { c with nextTimeoutTime := LONG_LONG_MAX,
                         inputState := c.inputState.setOutOfSync }) s)) :=
    quiet_drainOutboundQueueLocked connection 0 (quiet_modifyConnection _ _ h)
  simp only []
  split
  · exact h2
  · split
    · exact quiet_of_pools (quiet_modifyConnection _ _ h2) (onDispatchCycleBrokenLocked_pools _ _)
    · exact h2

theorem quiet_timeoutDispatchCycleLocked {b : Bool} {s0 s : State} (currentTime : Int)
    (connection : Nat) (h : Quiet b s0 s) :
    Quiet b s0 (timeoutDispatchCycleLocked currentTime connection s) := by
  unfold timeoutDispatchCycleLocked
  split
  · exact h
  · split_ifs
    · exact quiet_of_pools (quiet_modifyConnection _ _ h) (onDispatchCycleANRLocked_pools _ _)
    · exact h
    · exact quiet_of_pools h (onDispatchCycleANRLocked_pools _ _)

theorem quiet_resumeAfterTimeoutDispatchCycleLocked {b : Bool} {s0 s : State}
    (currentTime : Int) (connection : Nat) (newTimeout : Int) (h : Quiet b s0 s) :
    Quiet b s0 (resumeAfterTimeoutDispatchCycleLocked currentTime connection newTimeout s) := by
  unfold resumeAfterTimeoutDispatchCycleLocked
  split
  · exact h
  · simp only []
    split_ifs
    · exact h
    · exact quiet_modifyConnection _ _ h
    · exact quiet_drainOutboundQueueLocked _ _
        (quiet_modifyConnection _ _ (quiet_modifyConnection _ _ h))
    · exact quiet_modifyConnection _ _ h

theorem quiet_publisherCalled {b : Bool} {s0 s : State} (connection : Nat)
    (calls : List PublisherCall) (h : Quiet b s0 s) :
    Quiet b s0 (publisherCalled connection calls s) :=
  quiet_modifyConnection _ _ h

theorem quiet_sendDispatchSignalAndRecord {b : Bool} {s0 s : State} (env : Env)
    (currentTime : Int) (connection : Nat) (timeSpent : Int) (d : DispatchEntry)
    (eventTime : Int) (h : Quiet b s0 s) :
    Quiet b s0 (sendDispatchSignalAndRecord env currentTime connection timeSpent d eventTime
      s) := by
  unfold sendDispatchSignalAndRecord
  have h1 : Quiet b s0 (publisherCalled connection [PublisherCall.sendDispatchSignal] s) :=
    quiet_publisherCalled _ _ h
  simp only []
  split
  · exact h1
  · split_ifs
    · exact quiet_abortDispatchCycleLocked _ _ h1
    · exact quiet_modifyConnection _ _ h1

theorem quiet_startDispatchCycleLocked {b : Bool} {s0 s : State} (env : Env)
    (currentTime : Int) (connection : Nat) (timeSpent : Int) (h : Quiet b s0 s) :
    Quiet b s0 (startDispatchCycleLocked env currentTime connection timeSpent s) := by
  unfold startDispatchCycleLocked
  split
  · exact h
  · split
    · exact h
    · rename_i head rest hqueue
      split
      · exact h
      · rename_i eventEntry _
        have h1 : Quiet b s0 (modifyConnection connection (fun c1 =>
            { c1 with
              outboundQueue := { head with inProgress := true } :: rest
              inputState := (c1.inputState.trackEvent eventEntry).2 }) s) :=
          quiet_modifyConnection _ _ h
        simp only []
        split
        · refine quiet_ite _ _ _ ?_ ?_
          · exact quiet_abortDispatchCycleLocked _ _ (quiet_publisherCalled _ _ h1)
          · exact quiet_sendDispatchSignalAndRecord _ _ _ _ _ _
              (quiet_publisherCalled _ _ h1)
        · refine quiet_ite _ _ _ ?_ ?_
          · exact quiet_abortDispatchCycleLocked _ _ (quiet_publisherCalled _ _ h1)
          · refine quiet_ite _ _ _ ?_ ?_
            · exact quiet_abortDispatchCycleLocked _ _
                (quiet_publisherCalled _ _ (quiet_publisherCalled _ _ h1))
            · exact quiet_sendDispatchSignalAndRecord _ _ _ _ _ _
                (quiet_modifyConnection _ _
                  (quiet_publisherCalled _ _ (quiet_publisherCalled _ _ h1)))
        · exact quiet_sendDispatchSignalAndRecord _ _ _ _ _ _ h1

theorem quiet_startNextDispatchCycleLoop {b : Bool} {s0 : State} (env : Env)
    (currentTime : Int) (connection : Nat) :
    ∀ (fuel : Nat) (s : State), Quiet b s0 s →
      Quiet b s0 (startNextDispatchCycleLoop env currentTime connection fuel s) := by
  intro fuel
  induction fuel with
  | zero => intro s h; exact h
  | succ fuel ih =>
    intro s h
    unfold startNextDispatchCycleLoop
    split
    · exact h
    · split
      · exact quiet_deactivateConnectionLocked _ h
      · split_ifs
        · exact quiet_startDispatchCycleLocked _ _ _ _ (quiet_modifyConnection _ _ h)
        · exact ih _ (quiet_releaseDispatchEntry _
            (quiet_decrementPendingSyncDispatchesLocked _ (quiet_modifyConnection _ _ h)))
        · exact ih _ (quiet_releaseDispatchEntry _ (quiet_modifyConnection _ _ h))
        · exact quiet_startDispatchCycleLocked _ _ _ _ h

theorem quiet_startNextDispatchCycleLocked {b : Bool} {s0 s : State} (env : Env)
    (currentTime : Int) (connection : Nat) (h : Quiet b s0 s) :
    Quiet b s0 (startNextDispatchCycleLocked env currentTime connection s) := by
  unfold startNextDispatchCycleLocked
  split
  · exact h
  · exact quiet_startNextDispatchCycleLoop _ _ _ _ _ h

theorem quiet_finishDispatchCycleLocked {b : Bool} {s0 s : State} (env : Env)
    (currentTime : Int) (connection : Nat) (h : Quiet b s0 s) :
    Quiet b s0 (finishDispatchCycleLocked env currentTime connection s) := by
  unfold finishDispatchCycleLocked
  split
  · exact h
  · have h1 : Quiet b s0 (modifyConnection connection
        (fun c => { c with nextTimeoutTime := LONG_LONG_MAX }) s) :=
      quiet_modifyConnection _ _ h
    rename_i c hc
    have h2 : Quiet b s0 (if c.status = Status.STATUS_NOT_RESPONDING then
          onDispatchCycleFinishedLocked connection true
            (modifyConnection connection (fun c => { c with status := Status.STATUS_NORMAL })
              (modifyConnection connection
                (fun c => { c with nextTimeoutTime := LONG_LONG_MAX }) s))
        else onDispatchCycleFinishedLocked connection false
          (modifyConnection connection
            (fun c => { c with nextTimeoutTime := LONG_LONG_MAX }) s)) := by
      refine quiet_ite _ _ _ ?_ ?_
      · exact quiet_of_pools (quiet_modifyConnection _ _ h1)
          (onDispatchCycleFinishedLocked_pools _ _ _)
      · exact quiet_of_pools h1 (onDispatchCycleFinishedLocked_pools _ _ _)
    refine quiet_ite _ _ _ h ?_
    refine quiet_ite _ _ _ ?_ ?_
    · exact quiet_abortDispatchCycleLocked _ _ (quiet_publisherCalled _ _ h2)
    · exact quiet_startNextDispatchCycleLocked _ _ _ (quiet_publisherCalled _ _ h2)

theorem quiet_enqueueCancelationEvents {b : Bool} {s0 : State} (connection : Nat)
    (inputTarget : InputTarget) (es : List Nat) : ∀ s : State, Quiet b s0 s →
      Quiet b s0 (enqueueCancelationEvents connection inputTarget es s) := by
  induction es with
  | nil => intro s h; exact h
  | cons e rest ih =>
    intro s h
    unfold enqueueCancelationEvents
    exact ih _ (quiet_releaseEventEntry _
      (quiet_modifyConnection _ _ (quiet_obtainDispatchEntry _ _ _ _ _ h)))

theorem quiet_prepareDispatchCycleEnqueue {b : Bool} {s0 s : State} (env : Env)
    (currentTime : Int) (connection : Nat) (eventEntry : Nat) (inputTarget : InputTarget)
    (resume : Bool) (c : Connection) (hc : connection < s.mConnections.length)
    (h : Quiet b s0 s) :
    Quiet b s0 (prepareDispatchCycleEnqueue env currentTime connection eventEntry inputTarget
      resume c s) := by
  unfold prepareDispatchCycleEnqueue
  have h1 : Quiet b s0 (if c.inputState.isOutOfSync then
        enqueueCancelationEvents connection inputTarget
          (c.inputState.synthesizeCancelationEvents env.now s).1
          (modifyConnection connection (fun c =>
            { c with inputState := c.inputState.resetOutOfSync })
            (c.inputState.synthesizeCancelationEvents env.now s).2)
      else s) := by
    refine quiet_ite _ _ _ ?_ h
    exact quiet_enqueueCancelationEvents _ _ _ _
      (quiet_modifyConnection _ _ (quiet_synthesizeCancelationEvents _ _ h))
  simp only []
  generalize (if c.inputState.isOutOfSync then
        enqueueCancelationEvents connection inputTarget
          (c.inputState.synthesizeCancelationEvents env.now s).1
          (modifyConnection connection (fun c =>
            { c with inputState := c.inputState.resetOutOfSync })
            (c.inputState.synthesizeCancelationEvents env.now s).2)
      else s) = s1 at h1 ⊢
  have h3 : Quiet b s0 (if (obtainDispatchEntry eventEntry inputTarget.flags inputTarget.xOffset
        inputTarget.yOffset inputTarget.timeout s1).1.isSyncTarget then
        modifyEvent eventEntry (fun e =>
          { e with pendingSyncDispatches := e.pendingSyncDispatches + 1 })
          (obtainDispatchEntry eventEntry inputTarget.flags inputTarget.xOffset
            inputTarget.yOffset inputTarget.timeout s1).2
      else (obtainDispatchEntry eventEntry inputTarget.flags inputTarget.xOffset
            inputTarget.yOffset inputTarget.timeout s1).2) := by
    refine quiet_ite _ _ _ ?_ ?_
    · exact quiet_modifyEvent _ _ (fun _ h => h) (quiet_obtainDispatchEntry _ _ _ _ _ h1)
    · exact quiet_obtainDispatchEntry _ _ _ _ _ h1
  generalize (if (obtainDispatchEntry eventEntry inputTarget.flags inputTarget.xOffset
        inputTarget.yOffset inputTarget.timeout s1).1.isSyncTarget then
        modifyEvent eventEntry (fun e =>
          { e with pendingSyncDispatches := e.pendingSyncDispatches + 1 })
          (obtainDispatchEntry eventEntry inputTarget.flags inputTarget.xOffset
            inputTarget.yOffset inputTarget.timeout s1).2
      else (obtainDispatchEntry eventEntry inputTarget.flags inputTarget.xOffset
            inputTarget.yOffset inputTarget.timeout s1).2) = s3 at h3 ⊢
  have h4 : ∀ d : DispatchEntry,
      Quiet b s0 (modifyConnection connection (fun c =>
        { c with outboundQueue := c.outboundQueue ++ [d] }) s3) :=
    fun d => quiet_modifyConnection _ _ h3
  have hlen : ∀ d : DispatchEntry, connection < (modifyConnection connection (fun c =>
      { c with outboundQueue := c.outboundQueue ++ [d] }) s3).mConnections.length := by
    intro d
    rw [(h4 d).length, ← h.length]
    exact hc
  refine quiet_ite _ _ _ ?_ ?_
  · exact quiet_startDispatchCycleLocked _ _ _ _
      (quiet_activateConnectionLocked _ (hlen _) (h4 _))
  · exact h4 _

theorem quiet_prepareDispatchCycleLocked {b : Bool} {s0 s : State} (env : Env)
    (currentTime : Int) (connection : Nat) (eventEntry : Nat) (inputTarget : InputTarget)
    (resume : Bool) (h : Quiet b s0 s) :
    Quiet b s0 (prepareDispatchCycleLocked env currentTime connection eventEntry inputTarget
      resume s) := by
  unfold prepareDispatchCycleLocked
  split
  · exact h
  · rename_i c hc
    have hlt : connection < s.mConnections.length := by
      by_contra hge
      rw [List.getElem?_eq_none (Nat.le_of_not_lt hge)] at hc
      cases hc
    refine quiet_ite _ _ _ ?_ ?_
    · exact quiet_ite _ _ _ (quiet_timeoutDispatchCycleLocked _ _ h) h
    · simp only []
      refine quiet_ite _ _ _ ?_ (quiet_prepareDispatchCycleEnqueue _ _ _ _ _ _ _ hlt h)
      split
      · split
        · exact h
        · refine quiet_ite _ _ _ h ?_
          refine quiet_ite _ _ _ h ?_
          refine quiet_ite _ _ _ (quiet_publisherCalled _ _ h) ?_
          exact quiet_modifyConnection _ _ (quiet_publisherCalled _ _ h)
      · exact quiet_prepareDispatchCycleEnqueue _ _ _ _ _ _ _ hlt h

theorem quiet_dispatchEventToTargets {b : Bool} {s0 : State} (env : Env) (currentTime : Int)
    (eventEntry : Nat) (resume : Bool) (ts : List InputTarget) : ∀ s : State, Quiet b s0 s →
      Quiet b s0 (dispatchEventToTargets env currentTime eventEntry resume ts s) := by
  induction ts with
  | nil => intro s h; exact h
  | cons t rest ih =>
    intro s h
    unfold dispatchEventToTargets
    apply ih
    split
    · exact quiet_prepareDispatchCycleLocked _ _ _ _ _ _ h
    · exact h

theorem quiet_dispatchEventToCurrentInputTargetsLocked {b : Bool} {s0 s : State} (env : Env)
    (currentTime : Int) (eventEntry : Nat) (resume : Bool) (h : Quiet b s0 s) :
    Quiet b s0 (dispatchEventToCurrentInputTargetsLocked env currentTime eventEntry resume s) :=
  quiet_dispatchEventToTargets _ _ _ _ _ _ h

theorem quiet_releaseInboundEventLocked {b : Bool} {s0 s : State} (entry : Nat)
    (wasDropped : Bool) (h : Quiet b s0 s) :
    Quiet b s0 (releaseInboundEventLocked entry wasDropped s) := by
  unfold releaseInboundEventLocked
  exact quiet_releaseEventEntry _ (quiet_ite _ _ _ (quiet_setInjectionResultLocked _ _ h) h)

theorem quiet_drainInboundEntries {b : Bool} {s0 : State} (es : List Nat) :
    ∀ s : State, Quiet b s0 s → Quiet b s0 (drainInboundEntries es s) := by
  induction es with
  | nil => intro s h; exact h
  | cons e rest ih =>
    intro s h
    unfold drainInboundEntries
    exact ih _ (quiet_releaseInboundEventLocked _ _ h)

theorem quiet_drainInboundQueueLocked {b : Bool} {s0 s : State} (h : Quiet b s0 s) :
    Quiet b s0 (drainInboundQueueLocked s) := by
  unfold drainInboundQueueLocked
  exact quiet_drainInboundEntries _ _ (quiet_of_pools h rfl)

theorem quiet_releasePendingEventLocked {b : Bool} {s0 s : State} (wasDropped : Bool)
    (h : Quiet b s0 s) : Quiet b s0 (releasePendingEventLocked wasDropped s) := by
  unfold releasePendingEventLocked
  split
  · exact quiet_of_pools (quiet_releaseInboundEventLocked _ _ h) rfl
  · exact h

theorem quiet_resetKeyRepeatLocked {b : Bool} {s0 s : State} (h : Quiet b s0 s) :
    Quiet b s0 (resetKeyRepeatLocked s) := by
  unfold resetKeyRepeatLocked
  split
  · exact quiet_of_pools (quiet_releaseKeyEntry _ h) rfl
  · exact h

theorem quiet_dispatchConfigurationChangedLocked {b : Bool} {s0 s : State}
    (currentTime : Int) (entry : Nat) (h : Quiet b s0 s) :
    Quiet b s0 (dispatchConfigurationChangedLocked currentTime entry s).2 := by
  unfold dispatchConfigurationChangedLocked
  exact quiet_of_pools (quiet_resetKeyRepeatLocked h) (postCommandLocked_pools _ _)

theorem quiet_dispatchKeyPreprocess {b : Bool} {s0 s : State} (entry : Nat)
    (keyRepeatTimeout : Int) (h : Quiet b s0 s) :
    Quiet b s0 (dispatchKeyPreprocess entry keyRepeatTimeout s) := by
  unfold dispatchKeyPreprocess
  split
  · exact h
  · simp only []
    refine quiet_of_frame (startFindingTargetsLocked_pools _)
      (quiet_modifyEvent _ _ (fun _ h => h) ?_)
    refine quiet_ite _ _ _ ?_ ?_
    · refine quiet_modifyEvent _ _ (fun _ h => h) ?_
      have hk : ∀ f : KeyEntry → KeyEntry,
          (∀ k, (f k).syntheticRepeat = true → k.syntheticRepeat = true) →
          Quiet b s0 (resetKeyRepeatLocked (modifyKey entry f s)) :=
        fun f hf => quiet_resetKeyRepeatLocked (quiet_modifyKey _ _ hf h)
      have hr : Quiet b s0 (resetKeyRepeatLocked s) := quiet_resetKeyRepeatLocked h
      split
      · split
        · exact quiet_of_pools (hk _ (by intro _ h; exact h)) rfl
        · exact quiet_of_pools hr rfl
      · exact quiet_of_pools hr rfl
    · exact quiet_ite _ _ _ (quiet_resetKeyRepeatLocked h) h

theorem quiet_dispatchKeyToTargets {b : Bool} {s0 s : State} (env : Env) (currentTime : Int)
    (entry : Nat) (h : Quiet b s0 s) :
    Quiet b s0 (dispatchKeyToTargets env currentTime entry s).2 := by
  unfold dispatchKeyToTargets
  split
  · exact h
  · split_ifs
    · exact quiet_modifyEvent _ _ (fun _ h => h) (quiet_of_pools h (postCommandLocked_pools _ _))
    · exact h
    · exact quiet_of_pools (quiet_dispatchEventToCurrentInputTargetsLocked _ _ _ _ h)
        (pokeUserActivityLocked_pools _ _ _ _)

theorem quiet_dispatchKeyLocked {b : Bool} {s0 s : State} (env : Env) (currentTime : Int)
    (entry : Nat) (keyRepeatTimeout : Int) (h : Quiet b s0 s) :
    Quiet b s0 (dispatchKeyLocked env currentTime entry keyRepeatTimeout s).2 := by
  unfold dispatchKeyLocked
  split
  · exact h
  · rename_i e0 _
    have h1 : Quiet b s0 (if (! e0.dispatchInProgress) = true then
        dispatchKeyPreprocess entry keyRepeatTimeout s else s) :=
      quiet_ite _ _ _ (quiet_dispatchKeyPreprocess _ _ h) h
    simp only []
    generalize (if (! e0.dispatchInProgress) = true then
        dispatchKeyPreprocess entry keyRepeatTimeout s else s) = s1 at h1 ⊢
    split_ifs
    · split
      · exact h1
      · rename_i e _
        have h2 : Quiet b s0 (findFocusedWindowLocked env currentTime e s1).2.2 :=
          quiet_of_pools h1 (findFocusedWindowLocked_pools _ _ _ _)
        have h3 : Quiet b s0 (setInjectionResultLocked entry
            (findFocusedWindowLocked env currentTime e s1).1
            (findFocusedWindowLocked env currentTime e s1).2.2) :=
          quiet_setInjectionResultLocked _ _ h2
        split_ifs
        · exact h2
        · exact h3
        · split
          · exact h3
          · exact quiet_dispatchKeyToTargets _ _ _ (quiet_of_pools h3 rfl)
    · exact quiet_dispatchKeyToTargets _ _ _ h1

theorem quiet_dispatchMotionToTargets {b : Bool} {s0 s : State} (env : Env)
    (currentTime : Int) (entry : Nat) (e : EventEntry) (m : MotionEntry) (h : Quiet b s0 s) :
    Quiet b s0 (dispatchMotionToTargets env currentTime entry e m s).2 := by
  unfold dispatchMotionToTargets
  exact quiet_of_pools (quiet_dispatchEventToCurrentInputTargetsLocked _ _ _ _ h)
    (pokeUserActivityLocked_pools _ _ _ _)

theorem quiet_dispatchMotionLocked {b : Bool} {s0 s : State} (env : Env) (currentTime : Int)
    (entry : Nat) (h : Quiet b s0 s) :
    Quiet b s0 (dispatchMotionLocked env currentTime entry s).2 := by
  unfold dispatchMotionLocked
  split
  · exact h
  · rename_i e0 _
    have h1 : Quiet b s0 (if (! e0.dispatchInProgress) = true then
        startFindingTargetsLocked
          (modifyEvent entry (fun e => { e with dispatchInProgress := true }) s)
        else s) :=
      quiet_ite _ _ _ (quiet_of_frame (startFindingTargetsLocked_pools _)
        (quiet_modifyEvent _ _ (fun _ h => h) h)) h
    simp only []
    generalize (if (! e0.dispatchInProgress) = true then
        startFindingTargetsLocked
          (modifyEvent entry (fun e => { e with dispatchInProgress := true }) s)
        else s) = s1 at h1 ⊢
    split
    · exact h1
    · rename_i e _
      split
      · rename_i m _
        have h2 : Quiet b s0 (if (m.source &&& AINPUT_SOURCE_CLASS_POINTER != 0) = true then
            findTouchedWindowLocked env currentTime e m s1
            else findFocusedWindowLocked env currentTime e s1).2.2 := by
          split
          · exact quiet_of_pools h1 (findTouchedWindowLocked_pools _ _ _ _ _)
          · exact quiet_of_pools h1 (findFocusedWindowLocked_pools _ _ _ _)
        generalize (if (m.source &&& AINPUT_SOURCE_CLASS_POINTER != 0) = true then
            findTouchedWindowLocked env currentTime e m s1
            else findFocusedWindowLocked env currentTime e s1) = r at h2 ⊢
        have h3 : Quiet b s0 (setInjectionResultLocked entry r.1 r.2.2) :=
          quiet_setInjectionResultLocked _ _ h2
        split_ifs
        · exact h2
        · exact h3
        · split
          · exact h3
          · exact quiet_dispatchMotionToTargets _ _ _ _ _ (quiet_of_pools h3 rfl)
        · exact quiet_dispatchMotionToTargets _ _ _ _ _ h1
      · exact h1

theorem quiet_of_registry {s0 s s' : State} (h : Quiet true s0 s)
    (hr : s'.registry = s.registry) : Quiet true s0 s' := by
  simp only [State.registry, Prod.mk.injEq] at hr
  obtain ⟨h2, h3, h4, h5⟩ := hr
  exact ⟨h3.trans h.byFd, h5.trans h.monitoring, (congrArg List.length h2).trans h.length,
    fun i hi => h.active i (h4 ▸ hi), fun hn => h4 ▸ h.nodup hn, fun hb => by cases hb⟩

theorem quiet_scanActiveConnections {b : Bool} {s0 : State} (currentTime : Int)
    (isAppSwitchDue : Bool) (cs : List Nat) : ∀ (acc : ConnectionScan) (s : State),
      Quiet b s0 s →
      Quiet b s0 (scanActiveConnections currentTime isAppSwitchDue cs acc s).2 := by
  induction cs with
  | nil => intro acc s h; exact h
  | cons connection rest ih =>
    intro acc s h
    unfold scanActiveConnections
    split
    · exact ih _ _ h
    · rename_i c _
      have h1 : Quiet b s0 (if c.hasPendingSyncTarget = true then
            if isAppSwitchDue = true then
              (acc, modifyConnection connection Connection.preemptSyncTarget s)
            else ({ acc with havePendingSyncTarget := true }, s)
          else (acc, s)).2 := by
        split
        · split
          · exact quiet_modifyConnection _ _ h
          · exact h
        · exact h
      simp only []
      generalize (if c.hasPendingSyncTarget = true then
            if isAppSwitchDue = true then
              (acc, modifyConnection connection Connection.preemptSyncTarget s)
            else ({ acc with havePendingSyncTarget := true }, s)
          else (acc, s)) = r at h1 ⊢
      split_ifs
      · exact ih _ _ h1
      · exact ih _ _ (quiet_of_pools h1 rfl)
      · exact ih _ _ h1

theorem quiet_timeoutConnections {b : Bool} {s0 : State} (currentTime : Int) (cs : List Nat) :
    ∀ s : State, Quiet b s0 s → Quiet b s0 (timeoutConnections currentTime cs s) := by
  induction cs with
  | nil => intro s h; exact h
  | cons connection rest ih =>
    intro s h
    unfold timeoutConnections
    exact ih _ (quiet_of_pools (quiet_timeoutDispatchCycleLocked currentTime connection h) rfl)

theorem quiet_dispatchPendingEventByType {b : Bool} {s0 s : State} (env : Env)
    (currentTime keyRepeatTimeout : Int) (isAppSwitchDue : Bool) (pending : Nat)
    (e : EventEntry) (h : Quiet b s0 s) :
    Quiet b s0 (dispatchPendingEventByType env currentTime keyRepeatTimeout isAppSwitchDue
      pending e s).2.2 := by
  unfold dispatchPendingEventByType
  split
  · exact quiet_dispatchConfigurationChangedLocked currentTime pending h
  · split_ifs
    · exact quiet_dispatchKeyLocked _ _ _ _ (quiet_of_pools h rfl)
    · exact h
    · exact quiet_dispatchKeyLocked _ _ _ _ h
    · exact quiet_dispatchKeyLocked _ _ _ _ h
  · split_ifs
    · exact h
    · exact quiet_dispatchMotionLocked _ _ _ h

theorem quiet_dispatchPendingEvent {b : Bool} {s0 s : State} (env : Env)
    (currentTime keyRepeatTimeout : Int) (isAppSwitchDue : Bool) (h : Quiet b s0 s) :
    Quiet b s0 (dispatchPendingEvent env currentTime keyRepeatTimeout isAppSwitchDue s) := by
  unfold dispatchPendingEvent
  split
  · exact h
  · rename_i pending _
    split
    · exact h
    · rename_i e _
      have h1 : Quiet b s0 (dispatchPendingEventByType env currentTime keyRepeatTimeout
          isAppSwitchDue pending e s).2.2 :=
        quiet_dispatchPendingEventByType env currentTime keyRepeatTimeout
          isAppSwitchDue pending e h
      simp only []
      generalize dispatchPendingEventByType env currentTime keyRepeatTimeout
        isAppSwitchDue pending e s = r at h1 ⊢
      split
      · exact quiet_of_pools (quiet_releasePendingEventLocked r.2.1 h1) rfl
      · exact h1

theorem synthesizeKeyRepeatLocked_registry (currentTime keyRepeatDelay : Int) (s : State) :
    (synthesizeKeyRepeatLocked currentTime keyRepeatDelay s).2.registry = s.registry := by
  unfold synthesizeKeyRepeatLocked
  split
  · rfl
  · split
    · rfl
    · simp only []
      split <;> rfl

theorem pickPendingEvent_registry (currentTime keyRepeatDelay : Int)
    (isAppSwitchDue : Bool) (s : State) :
    (pickPendingEvent currentTime keyRepeatDelay isAppSwitchDue s).2.2.registry
      = s.registry := by
  unfold pickPendingEvent
  split
  · simp only []
    split_ifs <;>
      first
        | rfl
        | (show (synthesizeKeyRepeatLocked _ _ _).2.registry = _
           rw [synthesizeKeyRepeatLocked_registry] <;> rfl)
  · simp only []
    split
    · rfl
    · split
      · split_ifs <;> rfl
      · rfl

/-- Without a last key there is nothing to repeat: the next event comes from the inbound
queue, and the pools stay as they are. -/
theorem pickPendingEvent_pools (currentTime keyRepeatDelay : Int)
    (isAppSwitchDue : Bool) (s : State) (hk : s.mKeyRepeatState.lastKeyEntry = none) :
    (pickPendingEvent currentTime keyRepeatDelay isAppSwitchDue s).2.2.pools = s.pools := by
  unfold pickPendingEvent
  split
  · cases isAppSwitchDue <;>
      simp only [resetPendingAppSwitchLocked, hk, Option.isSome_none, Bool.false_eq_true,
        if_false, if_true]
  · simp only []
    split
    · rfl
    · split
      · split_ifs <;> rfl
      · rfl

theorem quiet_pickPendingEvent {b : Bool} {s0 s : State} (currentTime keyRepeatDelay : Int)
    (isAppSwitchDue : Bool) (hk : b = false → s.mKeyRepeatState.lastKeyEntry = none)
    (h : Quiet b s0 s) :
    Quiet b s0 (pickPendingEvent currentTime keyRepeatDelay isAppSwitchDue s).2.2 := by
  cases b with
  | false => exact quiet_of_pools h (pickPendingEvent_pools _ _ _ _ (hk rfl))
  | true => exact quiet_of_registry h (pickPendingEvent_registry _ _ _ _)

theorem resetKeyRepeatLocked_lastKeyEntry (s : State) :
    (resetKeyRepeatLocked s).mKeyRepeatState.lastKeyEntry = none := by
  unfold resetKeyRepeatLocked
  split
  · rfl
  · assumption

theorem passBeforeEvent_lastKeyEntry (env : Env) (keyRepeatTimeout : Int) (s : State)
    (hk : keyRepeatTimeout < 0) :
    (passBeforeEvent env keyRepeatTimeout s).2.mKeyRepeatState.lastKeyEntry = none := by
  have h := congrArg (fun t : State => t.mKeyRepeatState.lastKeyEntry)
    (passBeforeEvent_eventSide env keyRepeatTimeout s)
  rw [if_pos hk] at h
  exact h.trans (resetKeyRepeatLocked_lastKeyEntry s)

theorem quiet_passBeforeEvent {b : Bool} {s0 s : State} (env : Env) (keyRepeatTimeout : Int)
    (h : Quiet b s0 s) : Quiet b s0 (passBeforeEvent env keyRepeatTimeout s).2 := by
  unfold passBeforeEvent
  have h1 : Quiet b s0 (if keyRepeatTimeout < 0 then resetKeyRepeatLocked s else s) :=
    quiet_ite _ _ _ (quiet_resetKeyRepeatLocked h) h
  simp only []
  generalize (if keyRepeatTimeout < 0 then resetKeyRepeatLocked s else s) = s1 at h1 ⊢
  have h2 : Quiet b s0 (if s1.mAppSwitchDueTime < s1.nextWakeupTime then
      { s1 with nextWakeupTime := s1.mAppSwitchDueTime } else s1) :=
    quiet_ite _ _ _ (quiet_of_pools h1 rfl) h1
  exact quiet_timeoutConnections _ _ _ (quiet_scanActiveConnections _ _ _ _ _ h2)

theorem dispatchOnceInnerLocked_eq (env : Env) (keyRepeatTimeout keyRepeatDelay : Int)
    (s : State) :
    dispatchOnceInnerLocked env keyRepeatTimeout keyRepeatDelay s
      = (let s1 := if keyRepeatTimeout < 0 then resetKeyRepeatLocked s else s
         if ! s1.mDispatchEnabled then
           if s1.mPendingEvent.isSome || ! s1.mInboundQueue.isEmpty then
             drainInboundQueueLocked (releasePendingEventLocked true s1)
           else s1
         else if s1.mDispatchFrozen then s1
         else
           let isAppSwitchDue : Bool := decide (s1.mAppSwitchDueTime ≤ env.now)
           let p := passBeforeEvent env keyRepeatTimeout s
           if p.1.havePendingSyncTarget then p.2
           else if p.2.mPendingEvent.isNone then
             let r := pickPendingEvent env.now keyRepeatDelay isAppSwitchDue p.2
             if r.1 then dispatchPendingEvent env env.now keyRepeatTimeout r.2.1 r.2.2
             else r.2.2
           else dispatchPendingEvent env env.now keyRepeatTimeout isAppSwitchDue p.2) := rfl

theorem quiet_dispatchOnceInnerLocked {b : Bool} {s0 s : State} (env : Env)
    (keyRepeatTimeout keyRepeatDelay : Int) (hb : b = false → keyRepeatTimeout < 0)
    (h : Quiet b s0 s) :
    Quiet b s0 (dispatchOnceInnerLocked env keyRepeatTimeout keyRepeatDelay s) := by
  rw [dispatchOnceInnerLocked_eq]
  have h1 : Quiet b s0 (if keyRepeatTimeout < 0 then resetKeyRepeatLocked s else s) :=
    quiet_ite _ _ _ (quiet_resetKeyRepeatLocked h) h
  have h3 : Quiet b s0 (passBeforeEvent env keyRepeatTimeout s).2 :=
    quiet_passBeforeEvent env keyRepeatTimeout h
  have hk : b = false →
      (passBeforeEvent env keyRepeatTimeout s).2.mKeyRepeatState.lastKeyEntry = none :=
    fun h => passBeforeEvent_lastKeyEntry env keyRepeatTimeout s (hb h)
  simp only []
  generalize (if keyRepeatTimeout < 0 then resetKeyRepeatLocked s else s) = s1 at h1 ⊢
  generalize passBeforeEvent env keyRepeatTimeout s = p at h3 hk ⊢
  refine quiet_ite _ _ _ ?_ ?_
  · refine quiet_ite _ _ _ ?_ h1
    exact quiet_drainInboundQueueLocked (quiet_releasePendingEventLocked _ h1)
  · refine quiet_ite _ _ _ h1 ?_
    refine quiet_ite _ _ _ h3 ?_
    refine quiet_ite _ _ _ ?_ (quiet_dispatchPendingEvent _ _ _ _ h3)
    refine quiet_ite _ _ _ ?_ ?_
    · exact quiet_dispatchPendingEvent _ _ _ _ (quiet_pickPendingEvent _ _ _ hk h3)
    · exact quiet_pickPendingEvent _ _ _ hk h3

theorem quiet_runCommand {b : Bool} {s0 s : State} (env : Env) (commandEntry : CommandEntry)
    (h : Quiet b s0 s) : Quiet b s0 (runCommand env commandEntry s) := by
  unfold runCommand
  split
  · exact h
  · exact h
  · unfold doNotifyInputChannelANRLockedInterruptible
    split
    · exact h
    · split
      · exact h
      · exact quiet_ite _ _ _ (quiet_resumeAfterTimeoutDispatchCycleLocked _ _ _ h) h
  · exact h
  · unfold doInterceptKeyBeforeDispatchingLockedInterruptible
    split
    · exact h
    · split
      · exact h
      · exact quiet_releaseKeyEntry _ (quiet_modifyKey _ _ (by intro _ h; exact h) h)
  · exact h
  · unfold doTargetsNotReadyTimeoutLockedInterruptible
    exact quiet_of_pools h (resumeAfterTargetsNotReadyTimeoutLocked_pools _ _ _)

theorem quiet_runCommandsLoop {b : Bool} {s0 : State} (env : Env) : ∀ (fuel : Nat) (s : State),
    Quiet b s0 s → Quiet b s0 (runCommandsLoop env fuel s) := by
  intro fuel
  induction fuel with
  | zero => intro s h; exact h
  | succ fuel ih =>
    intro s h
    unfold runCommandsLoop
    split
    · exact h
    · exact ih _ (quiet_runCommand _ _ (quiet_of_pools h rfl))

theorem quiet_runCommandsLockedInterruptible {b : Bool} {s0 s : State} (env : Env)
    (h : Quiet b s0 s) : Quiet b s0 (runCommandsLockedInterruptible env s).2 := by
  unfold runCommandsLockedInterruptible
  split
  · exact h
  · exact quiet_runCommandsLoop _ _ _ h

theorem quiet_dispatchOnce {b : Bool} {s0 s : State} (env : Env)
    (hb : b = false → env.getKeyRepeatTimeout < 0) (h : Quiet b s0 s) :
    Quiet b s0 (dispatchOnce env s) := by
  unfold dispatchOnce
  have h1 : Quiet b s0 (runCommandsLockedInterruptible env
      (dispatchOnceInnerLocked env env.getKeyRepeatTimeout env.getKeyRepeatDelay
        { s with nextWakeupTime := LONG_LONG_MAX })).2 :=
    quiet_runCommandsLockedInterruptible env
      (quiet_dispatchOnceInnerLocked env env.getKeyRepeatTimeout env.getKeyRepeatDelay hb
        (quiet_of_pools h rfl))
  exact quiet_ite _ _ _ (quiet_of_pools h1 rfl) h1

theorem quiet_handleReceiveCallback {b : Bool} {s0 s : State} (env : Env)
    (receiveFd events : Nat) (h : Quiet b s0 s) :
    Quiet b s0 (handleReceiveCallback env receiveFd events s).2 := by
  unfold handleReceiveCallback
  split
  · exact h
  · split
    · exact h
    · simp only []
      split_ifs
      · exact quiet_runCommandsLockedInterruptible _ (quiet_abortDispatchCycleLocked _ _ h)
      · exact h
      · exact quiet_runCommandsLockedInterruptible _
          (quiet_abortDispatchCycleLocked _ _ (quiet_publisherCalled _ _ h))
      · exact quiet_runCommandsLockedInterruptible _
          (quiet_finishDispatchCycleLocked _ _ _ (quiet_publisherCalled _ _ h))

theorem quiet_enqueueInboundEventLocked {b : Bool} {s0 s : State} (env : Env) (entry : Nat)
    (h : Quiet b s0 s) : Quiet b s0 (enqueueInboundEventLocked env entry s).2 :=
  quiet_of_pools h (enqueueInboundEventLocked_pools _ _ _)

theorem quiet_notifyConfigurationChanged {b : Bool} {s0 s : State} (env : Env)
    (eventTime : Int) (h : Quiet b s0 s) :
    Quiet b s0 (notifyConfigurationChanged env eventTime s) := by
  unfold notifyConfigurationChanged
  exact quiet_enqueueInboundEventLocked _ _ (quiet_obtainConfigurationChangedEntry _ h)

theorem quiet_notifyKey {b : Bool} {s0 s : State} (env : Env) (eventTime deviceId : Int)
    (source policyFlags action flags : Nat) (keyCode scanCode metaState downTime : Int)
    (h : Quiet b s0 s) :
    Quiet b s0 (notifyKey env eventTime deviceId source policyFlags action flags keyCode
      scanCode metaState downTime s) := by
  unfold notifyKey
  exact quiet_enqueueInboundEventLocked _ _ (quiet_obtainKeyEntry _ _ _ _ _ _ _ _ _ _ _ h)

theorem quiet_notifyMotion {b : Bool} {s0 s : State} (env : Env) (eventTime deviceId : Int)
    (source policyFlags action flags : Nat) (metaState edgeFlags : Int) (pointerCount : Nat)
    (pointerIds : List Int) (pointerCoords : List PointerCoords)
    (xPrecision yPrecision downTime : Int) (h : Quiet b s0 s) :
    Quiet b s0 (notifyMotion env eventTime deviceId source policyFlags action flags metaState
      edgeFlags pointerCount pointerIds pointerCoords xPrecision yPrecision downTime s) := by
  have he : Quiet b s0 (enqueueInboundEventLocked env
      (obtainMotionEntry eventTime deviceId source policyFlags action flags metaState edgeFlags
        xPrecision yPrecision downTime pointerCount pointerIds pointerCoords s).1
      (obtainMotionEntry eventTime deviceId source policyFlags action flags metaState edgeFlags
        xPrecision yPrecision downTime pointerCount pointerIds pointerCoords s).2).2 :=
    quiet_enqueueInboundEventLocked _ _
      (quiet_obtainMotionEntry _ _ _ _ _ _ _ _ _ _ _ _ _ _ h)
  unfold notifyMotion
  simp only []
  split
  · split
    · exact quiet_appendMotionSample _ _ _ h
    · exact he
    · split
      · split
        · exact quiet_runCommandsLockedInterruptible _
            (quiet_dispatchEventToCurrentInputTargetsLocked _ _ _ _
              (quiet_appendMotionSample _ _ _ h))
        · exact he
      · exact he
  · exact he

theorem quiet_appendInjectedSamples {b : Bool} {s0 : State} (motionEntry pointerCount : Nat)
    (ts : List Int) : ∀ (cs : List PointerCoords) (s : State), Quiet b s0 s →
      Quiet b s0 (appendInjectedSamples motionEntry pointerCount ts cs s) := by
  induction ts with
  | nil => intro cs s h; exact h
  | cons t rest ih =>
    intro cs s h
    unfold appendInjectedSamples
    exact ih _ _ (quiet_appendMotionSample _ _ _ h)

theorem quiet_createEntryFromInjectedInputEventLocked {b : Bool} {s0 s : State}
    (event : InputEvent) (h : Quiet b s0 s) :
    Quiet b s0 (createEntryFromInjectedInputEventLocked event s).2 := by
  unfold createEntryFromInjectedInputEventLocked
  split
  · split
    · exact h
    · exact quiet_obtainKeyEntry _ _ _ _ _ _ _ _ _ _ _ h
  · split
    · exact h
    · exact quiet_appendInjectedSamples _ _ _ _ _
        (quiet_obtainMotionEntry _ _ _ _ _ _ _ _ _ _ _ _ _ _ h)
  · exact h

theorem quiet_injectInputEventEnqueue {b : Bool} {s0 s : State} (env : Env)
    (event : InputEvent) (injectorPid injectorUid syncMode : Int) (h : Quiet b s0 s) :
    Quiet b s0 (injectInputEventEnqueue env event injectorPid injectorUid syncMode s).2 := by
  unfold injectInputEventEnqueue
  have h1 := quiet_createEntryFromInjectedInputEventLocked event h
  simp only []
  split
  · exact h1
  · exact quiet_enqueueInboundEventLocked _ _
      (quiet_modifyEvent _ _ (by intro _ h; exact h) h1)

theorem quiet_injectInputEvent {b : Bool} {s0 s : State} (env : Env) (clock : List Int)
    (event : InputEvent) (injectorPid injectorUid syncMode timeoutMillis : Int)
    (r : Int × State)
    (hr : injectInputEvent env clock event injectorPid injectorUid syncMode timeoutMillis s
      = some r) (h : Quiet b s0 s) : Quiet b s0 r.2 := by
  have h1 := quiet_injectInputEventEnqueue env event injectorPid injectorUid syncMode h
  unfold injectInputEvent at hr
  simp only [] at hr
  split at hr
  · cases hr
    exact h1
  · split at hr
    · cases hr
    · split at hr
      · cases hr
      · cases hr
        exact quiet_releaseEventEntry _ h1

theorem quiet_preemptConnections {b : Bool} {s0 : State} (cs : List Nat) :
    ∀ s : State, Quiet b s0 s → Quiet b s0 (preemptConnections cs s).2 := by
  induction cs with
  | nil => intro s h; exact h
  | cons connection rest ih =>
    intro s h
    unfold preemptConnections
    split
    · exact ih _ h
    · split
      · exact ih _ (quiet_modifyConnection _ _ h)
      · exact ih _ h

theorem quiet_preemptInputDispatch {b : Bool} {s0 s : State} (h : Quiet b s0 s) :
    Quiet b s0 (preemptInputDispatch s) :=
  quiet_preemptConnections _ _ h

theorem quiet_setInputWindows {b : Bool} {s0 s : State} (inputWindows : List InputWindow)
    (h : Quiet b s0 s) : Quiet b s0 (setInputWindows inputWindows s) := by
  unfold setInputWindows
  simp only []
  have h2 : ∀ t ws, Quiet b s0 (resolveWindows t ws inputWindows 0
      { s with
        mTouchedWindow := none
        mTouchedWallpaperWindows := []
        mFocusedWindow := none
        mWallpaperWindows := []
        mWindows := inputWindows }) := by
    intro t ws
    exact quiet_of_frame (resolveWindows_pools _ _ _ _ _) (quiet_of_pools h rfl)
  refine quiet_ite _ _ _ ?_ (h2 _ _)
  exact quiet_preemptConnections _ _ (h2 _ _)

theorem quiet_resetConnectionTimeouts {b : Bool} {s0 : State} (currentTime : Int)
    (cs : List Nat) : ∀ s : State, Quiet b s0 s →
      Quiet b s0 (resetConnectionTimeouts currentTime cs s) := by
  induction cs with
  | nil => intro s h; exact h
  | cons connection rest ih =>
    intro s h
    unfold resetConnectionTimeouts
    exact ih _ (quiet_modifyConnection _ _ h)

theorem quiet_setInputDispatchMode {b : Bool} {s0 s : State} (env : Env)
    (enabled frozen : Bool) (h : Quiet b s0 s) :
    Quiet b s0 (setInputDispatchMode env enabled frozen s) := by
  unfold setInputDispatchMode
  refine quiet_ite _ _ _ ?_ h
  have h1 : Quiet b s0 (if (s.mDispatchFrozen && ! frozen) = true then
      resetANRTimeoutsLocked env s else s) := by
    refine quiet_ite _ _ _ ?_ h
    exact quiet_of_pools (quiet_resetConnectionTimeouts _ _ _ h) rfl
  exact quiet_of_pools h1 rfl

theorem quiet_step {b : Bool} (env : Env) (op : Op) (s : State)
    (hop : op.keepsRegistry = true) (hb : b = false → env.getKeyRepeatTimeout < 0) :
    Quiet b s (step env op s) := by
  have h : Quiet b s s := quiet_refl b s
  cases op with
  | notifyConfigurationChanged eventTime => exact quiet_notifyConfigurationChanged _ _ h
  | notifyKey eventTime deviceId source policyFlags action flags keyCode scanCode metaState
      downTime => exact quiet_notifyKey _ _ _ _ _ _ _ _ _ _ _ h
  | notifyMotion eventTime deviceId source policyFlags action flags metaState edgeFlags
      pointerCount pointerIds pointerCoords xPrecision yPrecision downTime =>
    exact quiet_notifyMotion _ _ _ _ _ _ _ _ _ _ _ _ _ _ _ h
  | injectInputEvent clock event injectorPid injectorUid syncMode timeoutMillis =>
    show Quiet b s (match injectInputEvent env clock event injectorPid injectorUid syncMode
        timeoutMillis s with
      | some r => r.2
      | none => (injectInputEventEnqueue env event injectorPid injectorUid syncMode s).2)
    split
    · rename_i r hr
      exact quiet_injectInputEvent _ _ _ _ _ _ _ _ hr h
    · exact quiet_injectInputEventEnqueue _ _ _ _ _ h
  | injectInputEventEnqueue event injectorPid injectorUid syncMode =>
    exact quiet_injectInputEventEnqueue _ _ _ _ _ h
  | injectInputEventRelease injectedEntry => exact quiet_releaseEventEntry _ h
  | setInputWindows inputWindows => exact quiet_setInputWindows _ h
  | setFocusedApplication inputApplication =>
    exact quiet_of_pools h (setFocusedApplication_pools _ _)
  | setInputDispatchMode enabled frozen => exact quiet_setInputDispatchMode _ _ _ h
  | preemptInputDispatch => exact quiet_preemptInputDispatch h
  | registerInputChannel inputChannel monitor => cases hop
  | unregisterInputChannel inputChannel => cases hop
  | dispatchOnce => exact quiet_dispatchOnce _ hb h
  | dispatchOnceInnerLocked => exact quiet_dispatchOnceInnerLocked _ _ _ hb h
  | runCommand =>
    show Quiet b s (match s.mCommandQueue with
      | [] => s
      | commandEntry :: rest => runCommand env commandEntry { s with mCommandQueue := rest })
    split
    · exact h
    · exact quiet_runCommand _ _ (quiet_of_pools h rfl)
  | handleReceiveCallback receiveFd events => exact quiet_handleReceiveCallback _ _ _ h

/-! ### No key repeat with a negative timeout -/

theorem pickPendingEvent_noRepeat (currentTime keyRepeatDelay : Int)
    (isAppSwitchDue : Bool) (s : State) (hk : s.mKeyRepeatState.lastKeyEntry = none) :
    ∀ r, r = pickPendingEvent currentTime keyRepeatDelay isAppSwitchDue s →
      r.2.2.mKeyRepeatState = s.mKeyRepeatState
        ∧ (s.mPendingEvent = none →
            r.2.2.mPendingEvent = if r.1 then s.mInboundQueue.head? else none) := by
  intro r hr
  unfold pickPendingEvent at hr
  split at hr
  · cases isAppSwitchDue <;>
      simp only [resetPendingAppSwitchLocked, hk, Option.isSome_none, Bool.false_eq_true,
        if_false, if_true] at hr <;>
      subst hr <;>
      exact ⟨rfl, fun hp => by simp [hp]⟩
  · rename_i entry rest hq
    simp only [] at hr
    split at hr
    · subst hr
      exact ⟨rfl, fun _ => by simp [hq]⟩
    · split at hr
      · split_ifs at hr <;> subst hr <;> exact ⟨rfl, fun hp => by simp [hp, hq]⟩
      · subst hr
        exact ⟨rfl, fun _ => by simp [hq]⟩

theorem quiet_synthFree {s s' t : State} (h : Quiet false s' t) (he : s'.mEvents = s.mEvents)
    (hs : SynthFree s) : SynthFree t := by
  intro i e hi
  cases hse : e.isSyntheticRepeat with
  | false => rfl
  | true =>
    obtain ⟨e0, h0, h1⟩ := h.synth rfl i e hi hse
    rw [he] at h0
    rw [hs i e0 h0] at h1
    cases h1

theorem synthFree_step (env : Env) (op : Op) (s : State)
    (hk : env.getKeyRepeatTimeout < 0) (hs : SynthFree s) : SynthFree (step env op s) := by
  by_cases hop : op.keepsRegistry = true
  · exact quiet_synthFree (quiet_step env op s hop (fun _ => hk)) rfl hs
  · cases op with
    | registerInputChannel inputChannel monitor =>
      show SynthFree (registerInputChannel env inputChannel monitor s).2
      unfold registerInputChannel
      split
      · exact hs
      · simp only []
        split
        · exact hs
        · refine quiet_synthFree
            (quiet_runCommandsLockedInterruptible env (quiet_refl false _)) ?_ hs
          split <;> rfl
    | unregisterInputChannel inputChannel =>
      show SynthFree (unregisterInputChannel env inputChannel s).2
      unfold unregisterInputChannel
      split
      · exact hs
      · exact quiet_synthFree (quiet_runCommandsLockedInterruptible env
          (quiet_abortDispatchCycleLocked _ _ (quiet_refl false _))) rfl hs
    | _ => exact absurd rfl hop

theorem synthFree_run (trace : List (Env × Op)) : ∀ s : State,
    (∀ x ∈ trace, x.1.getKeyRepeatTimeout < 0) → SynthFree s → SynthFree (run trace s) := by
  induction trace with
  | nil => intro s _ hs; exact hs
  | cons x rest ih =>
    intro s hneg hs
    obtain ⟨env, op⟩ := x
    exact ih _ (fun y hy => hneg y (List.mem_cons_of_mem _ hy))
      (synthFree_step env op s (hneg (env, op) (List.mem_cons_self _ _)) hs)

theorem synthFree_initial (maxEventsPerSecond : Int) :
    SynthFree (State.initial maxEventsPerSecond) := by
  intro i e hi
  simp [State.initial] at hi

/-! ### Registering and unregistering a channel -/

theorem directory_of_pools {s s' : State} (h : s'.pools = s.pools) :
    s'.directory = s.directory := by
  simp only [State.pools, Prod.mk.injEq] at h
  obtain ⟨-, -, h3, h4, h5⟩ := h
  simp only [State.directory, h3, h4, h5]

theorem releaseEventEntry_directory (entry : Nat) (s : State) :
    (releaseEventEntry entry s).directory = s.directory := by
  unfold releaseEventEntry
  split
  · rfl
  · split <;> rfl

theorem drainEntries_directory (ds : List DispatchEntry) : ∀ s : State,
    (drainEntries ds s).directory = s.directory := by
  induction ds with
  | nil => intro s; rfl
  | cons d rest ih =>
    intro s
    unfold drainEntries
    rw [ih]
    unfold releaseDispatchEntry
    rw [releaseEventEntry_directory]
    split <;> rfl

theorem drainOutboundQueueLocked_kept (connection n : Nat) (s : State) (c : Connection)
    (hc : s.mConnections[connection]? = some c) (hne : c.outboundQueue.take n ≠ []) :
    (drainOutboundQueueLocked connection n s).directory = s.directory := by
  unfold drainOutboundQueueLocked
  rw [hc]
  simp only []
  have h : (c.outboundQueue.take n).isEmpty = false := by
    cases hk : c.outboundQueue.take n with
    | nil => exact absurd hk hne
    | cons a l => rfl
  rw [h]
  simp only [Bool.false_eq_true, if_false]
  rw [drainEntries_directory]
  rfl

theorem drainOutboundQueueLocked_getElem? (connection n : Nat) (s : State) (i : Nat)
    (hi : i ≠ connection) :
    (drainOutboundQueueLocked connection n s).mConnections[i]? = s.mConnections[i]? := by
  unfold drainOutboundQueueLocked
  split
  · rfl
  · simp only []
    have h : ∀ t : State, (if (List.take n ‹Connection›.outboundQueue).isEmpty = true then
        deactivateConnectionLocked connection t else t).mConnections = t.mConnections := by
      intro t
      split <;> rfl
    rw [h, drainEntries_mConnections]
    show (modifyAt _ connection s.mConnections)[i]? = _
    rw [getElem?_modifyAt, if_neg hi]

theorem resumeAfterTimeoutDispatchCycleLocked_directory (currentTime : Int) (connection : Nat)
    (newTimeout : Int) (s : State) :
    (resumeAfterTimeoutDispatchCycleLocked currentTime connection newTimeout s).directory
      = s.directory := by
  unfold resumeAfterTimeoutDispatchCycleLocked
  split
  · rfl
  · rename_i c hc
    simp only []
    split_ifs with h1 h2 h3
    · rfl
    · rfl
    · have hne : c.outboundQueue ≠ [] := by
        intro h
        rw [h] at h3
        simp at h3
      refine (drainOutboundQueueLocked_kept connection 1 _
        { c with nextTimeoutTime := LONG_LONG_MAX, inputState := c.inputState.setOutOfSync,
                 outboundQueue := modifyAt DispatchEntry.preemptSyncTarget 0 c.outboundQueue }
        ?_ ?_).trans rfl
      · show (modifyAt _ connection (modifyAt _ connection s.mConnections))[connection]? = _
        rw [getElem?_modifyAt, getElem?_modifyAt, if_pos rfl, if_pos rfl, hc]
        rfl
      · show (modifyAt DispatchEntry.preemptSyncTarget 0 c.outboundQueue).take 1 ≠ []
        cases hq : c.outboundQueue with
        | nil => exact absurd hq hne
        | cons a l => simp [modifyAt]
    · rfl

theorem resumeAfterTimeoutDispatchCycleLocked_getElem? (currentTime : Int) (connection : Nat)
    (newTimeout : Int) (s : State) (i : Nat) (c : Connection)
    (hc : s.mConnections[i]? = some c) (hst : c.status ≠ Status.STATUS_NOT_RESPONDING) :
    (resumeAfterTimeoutDispatchCycleLocked currentTime connection newTimeout s).mConnections[i]?
      = some c := by
  by_cases hi : i = connection
  · subst hi
    unfold resumeAfterTimeoutDispatchCycleLocked
    rw [hc]
    simp only [hst, ne_eq, not_false_eq_true, if_true]
    exact hc
  · unfold resumeAfterTimeoutDispatchCycleLocked
    split
    · exact hc
    · simp only []
      split_ifs
      · exact hc
      · show (modifyAt _ connection s.mConnections)[i]? = _
        rw [getElem?_modifyAt, if_neg hi]
        exact hc
      · rw [drainOutboundQueueLocked_getElem? _ _ _ _ hi]
        show (modifyAt _ connection (modifyAt _ connection s.mConnections))[i]? = _
        rw [getElem?_modifyAt, getElem?_modifyAt, if_neg hi, if_neg hi]
        exact hc
      · show (modifyAt _ connection s.mConnections)[i]? = _
        rw [getElem?_modifyAt, if_neg hi]
        exact hc

theorem runCommand_directory (env : Env) (commandEntry : CommandEntry) (s : State) :
    (runCommand env commandEntry s).directory = s.directory := by
  unfold runCommand
  split
  · rfl
  · rfl
  · unfold doNotifyInputChannelANRLockedInterruptible
    split
    · rfl
    · split
      · rfl
      · split
        · exact resumeAfterTimeoutDispatchCycleLocked_directory _ _ _ _
        · rfl
  · rfl
  · unfold doInterceptKeyBeforeDispatchingLockedInterruptible
    split
    · rfl
    · split
      · rfl
      · rfl
  · rfl
  · unfold doTargetsNotReadyTimeoutLockedInterruptible
    exact directory_of_pools (resumeAfterTargetsNotReadyTimeoutLocked_pools _ _ _)

theorem runCommand_getElem? (env : Env) (commandEntry : CommandEntry) (s : State) (i : Nat)
    (c : Connection) (hc : s.mConnections[i]? = some c)
    (hst : c.status ≠ Status.STATUS_NOT_RESPONDING) :
    (runCommand env commandEntry s).mConnections[i]? = some c := by
  unfold runCommand
  split
  · exact hc
  · exact hc
  · unfold doNotifyInputChannelANRLockedInterruptible
    split
    · exact hc
    · split
      · exact hc
      · split
        · exact resumeAfterTimeoutDispatchCycleLocked_getElem? _ _ _ _ _ _ hc hst
        · exact hc
  · exact hc
  · unfold doInterceptKeyBeforeDispatchingLockedInterruptible
    split
    · exact hc
    · split
      · exact hc
      · exact hc
  · exact hc
  · unfold doTargetsNotReadyTimeoutLockedInterruptible
    rw [resumeAfterTargetsNotReadyTimeoutLocked_mConnections]
    exact hc

theorem runCommandsLoop_directory (env : Env) : ∀ (fuel : Nat) (s : State),
    (runCommandsLoop env fuel s).directory = s.directory := by
  intro fuel
  induction fuel with
  | zero => intro s; rfl
  | succ fuel ih =>
    intro s
    unfold runCommandsLoop
    split
    · rfl
    · rw [ih, runCommand_directory]

theorem runCommandsLoop_getElem? (env : Env) (i : Nat) (c : Connection)
    (hst : c.status ≠ Status.STATUS_NOT_RESPONDING) : ∀ (fuel : Nat) (s : State),
    s.mConnections[i]? = some c → (runCommandsLoop env fuel s).mConnections[i]? = some c := by
  intro fuel
  induction fuel with
  | zero => intro s hc; exact hc
  | succ fuel ih =>
    intro s hc
    unfold runCommandsLoop
    split
    · exact hc
    · exact ih _ (runCommand_getElem? _ _ _ _ _ hc hst)

theorem runCommandsLockedInterruptible_directory (env : Env) (s : State) :
    (runCommandsLockedInterruptible env s).2.directory = s.directory := by
  unfold runCommandsLockedInterruptible
  split
  · rfl
  · exact runCommandsLoop_directory _ _ _

theorem runCommandsLockedInterruptible_getElem? (env : Env) (s : State) (i : Nat)
    (c : Connection) (hc : s.mConnections[i]? = some c)
    (hst : c.status ≠ Status.STATUS_NOT_RESPONDING) :
    (runCommandsLockedInterruptible env s).2.mConnections[i]? = some c := by
  unfold runCommandsLockedInterruptible
  split
  · exact hc
  · exact runCommandsLoop_getElem? _ _ _ hst _ _ hc

theorem runCommandsLockedInterruptible_length (env : Env) (s : State) :
    (runCommandsLockedInterruptible env s).2.mConnections.length = s.mConnections.length :=
  (quiet_runCommandsLockedInterruptible env (quiet_refl true s)).length

theorem lookup_append_of_none {β : Type} (a : Nat) (n : β) :
    ∀ l : List (Nat × β), l.lookup a = none → (l ++ [(a, n)]).lookup a = some n := by
  intro l
  induction l with
  | nil => intro _; simp [List.lookup]
  | cons p l ih =>
    intro h
    obtain ⟨k, v⟩ := p
    by_cases hk : a = k
    · subst hk
      simp [List.lookup] at h
    · have hb : (a == k) = false := by simpa using hk
      simp only [List.cons_append, List.lookup, hb] at h ⊢
      exact ih h

theorem filter_append_of_none {β : Type} (a : Nat) (n : β) :
    ∀ l : List (Nat × β), l.lookup a = none →
      (l ++ [(a, n)]).filter (fun entry => entry.1 != a) = l := by
  intro l
  induction l with
  | nil => intro _; simp
  | cons p l ih =>
    intro h
    obtain ⟨k, v⟩ := p
    by_cases hk : a = k
    · subst hk
      simp [List.lookup] at h
    · have hb : (a == k) = false := by simpa using hk
      simp only [List.lookup, hb] at h
      have hk2 : (k != a) = true := by simpa using fun h => hk h.symm
      simp only [List.cons_append, List.filter, hk2]
      exact congrArg _ (ih h)

theorem lookup_append_isSome {β : Type} (b : Nat) (x : List (Nat × β)) :
    ∀ l : List (Nat × β), (l.lookup b).isSome = true → ((l ++ x).lookup b).isSome = true := by
  intro l
  induction l with
  | nil => intro h; simp [List.lookup] at h
  | cons p l ih =>
    intro h
    obtain ⟨k, v⟩ := p
    cases hb : (b == k) with
    | true => simp [List.lookup, hb]
    | false =>
      simp only [List.cons_append, List.lookup, hb] at h ⊢
      exact ih h

theorem lookup_filter_ne {β : Type} (a b : Nat) (hab : b ≠ a) :
    ∀ l : List (Nat × β), (l.filter (fun entry => entry.1 != a)).lookup b = l.lookup b := by
  intro l
  induction l with
  | nil => rfl
  | cons p l ih =>
    obtain ⟨k, v⟩ := p
    by_cases hk : k = a
    · subst hk
      have hb : (b == k) = false := by simpa using hab
      simp [List.filter, List.lookup, hb, ih]
    · have hk2 : (k != a) = true := by simpa using hk
      simp only [List.filter, hk2, List.lookup]
      rw [ih]

theorem registryOk_of_quiet {b : Bool} {s s' : State} (h : Quiet b s s')
    (hs : RegistryOk s) : RegistryOk s' := by
  obtain ⟨h1, h2, h3⟩ := hs
  refine ⟨h.monitoring ▸ h1, ?_, ?_⟩
  · intro ch hch
    rw [h.monitoring] at hch
    have := h2 ch hch
    unfold getConnectionIndex at this ⊢
    rw [h.byFd]
    exact this
  · intro i hi
    rw [h.length]
    rcases h.active i hi with hi1 | hi1
    · exact h3 i hi1
    · exact hi1

theorem registryOk_not_monitoring (s : State) (hs : RegistryOk s) (ch : InputChannel)
    (hch : getConnectionIndex ch s = none) : ch ∉ s.mMonitoringChannels := by
  intro hm
  have := hs.2.1 ch hm
  rw [hch] at this
  cases this

theorem registryOk_registerInputChannel (env : Env) (inputChannel : InputChannel)
    (monitor : Bool) (s : State) (hs : RegistryOk s) :
    RegistryOk (registerInputChannel env inputChannel monitor s).2 := by
  unfold registerInputChannel
  split
  · exact hs
  · rename_i hnone
    have hch : getConnectionIndex inputChannel s = none := by
      cases h : getConnectionIndex inputChannel s with
      | none => rfl
      | some i => rw [h] at hnone; simp at hnone
    simp only []
    split
    · exact hs
    · refine registryOk_of_quiet (quiet_runCommandsLockedInterruptible env (quiet_refl true _)) ?_
      have hnot := registryOk_not_monitoring s hs inputChannel hch
      obtain ⟨h1, h2, h3⟩ := hs
      have hlook : ∀ ch ∈ s.mMonitoringChannels,
          ((s.mConnectionsByReceiveFd ++ [(inputChannel, s.mConnections.length)]).lookup
            ch).isSome = true :=
        fun ch hm => lookup_append_isSome ch _ _ (h2 ch hm)
      have hact : ∀ i ∈ s.mActiveConnections,
          i < (s.mConnections ++ [Connection.new inputChannel]).length := by
        intro i hi
        rw [List.length_append]
        exact Nat.lt_add_right _ (h3 i hi)
      split
      · refine ⟨?_, ?_, hact⟩
        · show (s.mMonitoringChannels ++ [inputChannel]).Nodup
          rw [List.nodup_append]
          refine ⟨h1, List.nodup_singleton _, ?_⟩
          intro a ha hb
          rw [List.mem_singleton] at hb
          exact hnot (hb ▸ ha)
        · intro ch hm
          have hm1 : ch ∈ s.mMonitoringChannels ++ [inputChannel] := hm
          rcases List.mem_append.mp hm1 with hm2 | hm2
          · exact hlook ch hm2
          · rw [List.mem_singleton] at hm2
            subst hm2
            show ((s.mConnectionsByReceiveFd ++ [(ch, s.mConnections.length)]).lookup
              ch).isSome = true
            rw [lookup_append_of_none ch _ _ hch]
            rfl
      · exact ⟨h1, hlook, hact⟩

theorem registryOk_unregisterInputChannel (env : Env) (inputChannel : InputChannel)
    (s : State) (hs : RegistryOk s) :
    RegistryOk (unregisterInputChannel env inputChannel s).2 := by
  unfold unregisterInputChannel
  split
  · exact hs
  · rename_i connection hconn
    refine registryOk_of_quiet (quiet_runCommandsLockedInterruptible env
      (quiet_abortDispatchCycleLocked _ _ (quiet_refl true _))) ?_
    obtain ⟨h1, h2, h3⟩ := hs
    refine ⟨h1.erase inputChannel, ?_, ?_⟩
    · intro ch hm
      have hm1 : ch ∈ s.mMonitoringChannels.erase inputChannel := hm
      have hne : ch ≠ inputChannel := fun h => (List.Nodup.not_mem_erase h1) (h ▸ hm1)
      have hm2 := List.mem_of_mem_erase hm1
      show ((s.mConnectionsByReceiveFd.filter (fun entry => entry.1 != inputChannel)).lookup
        ch).isSome = true
      rw [lookup_filter_ne inputChannel ch hne]
      exact h2 ch hm2
    · intro i hi
      show i < (modifyAt _ connection s.mConnections).length
      rw [length_modifyAt]
      exact h3 i hi

theorem registryOk_step (env : Env) (op : Op) (s : State) (hs : RegistryOk s) :
    RegistryOk (step env op s) := by
  by_cases hop : op.keepsRegistry = true
  · exact registryOk_of_quiet (@quiet_step true env op s hop (fun h => by cases h)) hs
  · cases op with
    | registerInputChannel inputChannel monitor =>
      exact registryOk_registerInputChannel _ _ _ _ hs
    | unregisterInputChannel inputChannel => exact registryOk_unregisterInputChannel _ _ _ hs
    | _ => exact absurd rfl hop

theorem registryOk_run (trace : List (Env × Op)) : ∀ s : State, RegistryOk s →
    RegistryOk (run trace s) := by
  induction trace with
  | nil => intro s h; exact h
  | cons x rest ih =>
    intro s h
    obtain ⟨env, op⟩ := x
    exact ih _ (registryOk_step env op s h)

theorem registryOk_initial (maxEventsPerSecond : Int) :
    RegistryOk (State.initial maxEventsPerSecond) := by
  refine ⟨List.nodup_nil, ?_, ?_⟩
  · intro ch h
    simp [State.initial] at h
  · intro i h
    simp [State.initial] at h

theorem registryOk_of_reachable (s : State) (h : Reachable s) : RegistryOk s := by
  obtain ⟨m, trace, rfl⟩ := h
  exact registryOk_run trace _ (registryOk_initial m)

theorem abortDispatchCycleLocked_zombie (connection : Nat) (s : State) (c : Connection)
    (hc : s.mConnections[connection]? = some c) (hz : c.status = Status.STATUS_ZOMBIE)
    (hq : c.outboundQueue = []) :
    (abortDispatchCycleLocked connection true s).directory
        = (s.mConnectionsByReceiveFd, s.mActiveConnections.erase connection,
            s.mMonitoringChannels)
      ∧ (abortDispatchCycleLocked connection true s).mConnections.length
          = s.mConnections.length
      ∧ ∃ c1, (abortDispatchCycleLocked connection true s).mConnections[connection]? = some c1
          ∧ c1.status = Status.STATUS_ZOMBIE ∧ c1.outboundQueue = []
          ∧ c1.inputChannel = c.inputChannel := by
  have h1 : (modifyConnection connection (fun c =>
      { c with nextTimeoutTime := LONG_LONG_MAX, inputState := c.inputState.setOutOfSync })
      s).mConnections[connection]?
      = some { c with nextTimeoutTime := LONG_LONG_MAX,
                      inputState := c.inputState.setOutOfSync } := by
    show (modifyAt _ connection s.mConnections)[connection]? = _
    rw [getElem?_modifyAt, if_pos rfl, hc]
    rfl
  have h2 : drainOutboundQueueLocked connection 0 (modifyConnection connection (fun c =>
      { c with nextTimeoutTime := LONG_LONG_MAX, inputState := c.inputState.setOutOfSync }) s)
      = deactivateConnectionLocked connection (modifyConnection connection
          (fun c1 => { c1 with outboundQueue := [] }) (modifyConnection connection (fun c =>
            { c with nextTimeoutTime := LONG_LONG_MAX,
                     inputState := c.inputState.setOutOfSync }) s)) := by
    unfold drainOutboundQueueLocked
    rw [h1]
    simp only [List.take_zero, List.drop_zero, hq, drainEntries, List.isEmpty_nil, if_true]
  have h3 : (deactivateConnectionLocked connection (modifyConnection connection
      (fun c1 => { c1 with outboundQueue := [] }) (modifyConnection connection (fun c =>
        { c with nextTimeoutTime := LONG_LONG_MAX,
                 inputState := c.inputState.setOutOfSync }) s))).mConnections[connection]?
      = some { c with nextTimeoutTime := LONG_LONG_MAX,
                      inputState := c.inputState.setOutOfSync, outboundQueue := [] } := by
    show (modifyAt _ connection (modifyAt _ connection s.mConnections))[connection]? = _
    rw [getElem?_modifyAt, getElem?_modifyAt, if_pos rfl, if_pos rfl, hc]
    rfl
  have h4 : abortDispatchCycleLocked connection true s
      = deactivateConnectionLocked connection (modifyConnection connection
          (fun c1 => { c1 with outboundQueue := [] }) (modifyConnection connection (fun c =>
            { c with nextTimeoutTime := LONG_LONG_MAX,
                     inputState := c.inputState.setOutOfSync }) s)) := by
    unfold abortDispatchCycleLocked
    simp only [h2, h3, hz]
    rfl
  rw [h4]
  refine ⟨rfl, ?_, _, h3, hz, rfl, rfl⟩
  show (modifyAt _ connection (modifyAt _ connection s.mConnections)).length = _
  rw [length_modifyAt, length_modifyAt]

theorem modifyAt_of_none {α : Type} (f : α → α) : ∀ (n : Nat) (l : List α),
    l[n]? = none → modifyAt f n l = l := by
  intro n l
  induction l generalizing n with
  | nil => intro _; cases n <;> rfl
  | cons x xs ih =>
    intro h
    cases n with
    | zero => simp at h
    | succ n =>
      simp only [List.getElem?_cons_succ] at h
      simp only [modifyAt, ih n h]

theorem releaseEventEntry_eq (entry : Nat) (s : State) :
    releaseEventEntry entry s
      = modifyEvent entry (fun e => { e with refCount := e.refCount - 1 }) s := by
  unfold releaseEventEntry
  split
  · rename_i h
    unfold modifyEvent
    rw [modifyAt_of_none _ _ _ h]
  · split <;> rfl

theorem drainEntries_frame (ds : List DispatchEntry) : ∀ s : State,
    drainEntries ds s = { s with mEvents := (drainEntries ds s).mEvents } := by
  induction ds with
  | nil => intro s; rfl
  | cons d rest ih =>
    intro s
    unfold drainEntries
    simp only []
    rw [ih]
    unfold releaseDispatchEntry
    rw [releaseEventEntry_eq]
    split <;> rfl

theorem afterDrain_nil (entry : Nat) (e : EventEntry) :
    EventEntry.afterDrain [] entry e = e := by
  unfold EventEntry.afterDrain
  simp

theorem afterDrain_cons (d : DispatchEntry) (rest : List DispatchEntry) (entry : Nat)
    (e : EventEntry) :
    EventEntry.afterDrain rest entry (EventEntry.afterDrain [d] entry e)
      = EventEntry.afterDrain (d :: rest) entry e := by
  unfold EventEntry.afterDrain
  simp only [List.countP_cons, List.countP_nil, Nat.zero_add]
  congr 1
  · push_cast
    ring
  · push_cast
    ring

theorem drainStep_mEvents (d : DispatchEntry) (s : State) (entry : Nat) :
    (releaseDispatchEntry d
        (if d.isSyncTarget then decrementPendingSyncDispatchesLocked d.eventEntry s
          else s)).mEvents[entry]?
      = (s.mEvents[entry]?).map (EventEntry.afterDrain [d] entry) := by
  unfold releaseDispatchEntry
  rw [releaseEventEntry_eq]
  by_cases he : entry = d.eventEntry
  · subst he
    cases hsync : d.isSyncTarget
    · simp only [Bool.false_eq_true, if_false, modifyEvent, getElem?_modifyAt, if_true]
      generalize s.mEvents[d.eventEntry]? = o
      cases o with
      | none => rfl
      | some e => simp [EventEntry.afterDrain, hsync]
    · simp only [if_true, modifyEvent, decrementPendingSyncDispatchesLocked, getElem?_modifyAt]
      generalize s.mEvents[d.eventEntry]? = o
      cases o with
      | none => rfl
      | some e => simp [EventEntry.afterDrain, hsync]
  · have he' : ¬ d.eventEntry = entry := fun h => he h.symm
    cases hsync : d.isSyncTarget
    · simp only [Bool.false_eq_true, if_false, modifyEvent, getElem?_modifyAt, if_neg he]
      generalize s.mEvents[entry]? = o
      cases o with
      | none => rfl
      | some e => simp [EventEntry.afterDrain, he']
    · simp only [if_true, modifyEvent, decrementPendingSyncDispatchesLocked, getElem?_modifyAt,
        if_neg he]
      generalize s.mEvents[entry]? = o
      cases o with
      | none => rfl
      | some e => simp [EventEntry.afterDrain, he']

theorem drainEntries_mEvents (ds : List DispatchEntry) : ∀ (s : State) (entry : Nat),
    (drainEntries ds s).mEvents[entry]?
      = (s.mEvents[entry]?).map (EventEntry.afterDrain ds entry) := by
  induction ds with
  | nil =>
    intro s entry
    show s.mEvents[entry]? = _
    cases s.mEvents[entry]? with
    | none => rfl
    | some e => simp [afterDrain_nil]
  | cons d rest ih =>
    intro s entry
    unfold drainEntries
    simp only []
    rw [ih, drainStep_mEvents]
    cases s.mEvents[entry]? with
    | none => rfl
    | some e => simp only [Option.map_some', afterDrain_cons]

/-! ### The active list holds no connection twice -/

theorem nodupActive_step (env : Env) (op : Op) (s : State)
    (hs : s.mActiveConnections.Nodup) : (step env op s).mActiveConnections.Nodup := by
  by_cases hop : op.keepsRegistry = true
  · exact (@quiet_step true env op s hop (fun h => by cases h)).nodup hs
  · cases op with
    | registerInputChannel inputChannel monitor =>
      show (registerInputChannel env inputChannel monitor s).2.mActiveConnections.Nodup
      unfold registerInputChannel
      split
      · exact hs
      · simp only []
        split
        · exact hs
        · refine (quiet_runCommandsLockedInterruptible env (quiet_refl true _)).nodup ?_
          split <;> exact hs
    | unregisterInputChannel inputChannel =>
      show (unregisterInputChannel env inputChannel s).2.mActiveConnections.Nodup
      unfold unregisterInputChannel
      split
      · exact hs
      · exact (quiet_runCommandsLockedInterruptible env
          (quiet_abortDispatchCycleLocked _ _ (quiet_refl true _))).nodup hs
    | _ => exact absurd rfl hop

theorem nodupActive_run (trace : List (Env × Op)) : ∀ s : State, s.mActiveConnections.Nodup →
    (run trace s).mActiveConnections.Nodup := by
  induction trace with
  | nil => intro s h; exact h
  | cons x rest ih =>
    intro s h
    obtain ⟨env, op⟩ := x
    exact ih _ (nodupActive_step env op s h)

theorem nodupActive_of_reachable (s : State) (h : Reachable s) :
    s.mActiveConnections.Nodup := by
  obtain ⟨m, trace, rfl⟩ := h
  exact nodupActive_run trace _ List.nodup_nil

/-! ### Draining, aborting and resuming -/

theorem drainOutboundQueueLocked_connection (connection n : Nat) (s : State) (c : Connection)
    (hc : s.mConnections[connection]? = some c) :
    (drainOutboundQueueLocked connection n s).mConnections[connection]?
      = some { c with outboundQueue := c.outboundQueue.take n } := by
  unfold drainOutboundQueueLocked
  rw [hc]
  simp only []
  have h : ∀ t : State, (if (List.take n c.outboundQueue).isEmpty = true then
      deactivateConnectionLocked connection t else t).mConnections = t.mConnections := by
    intro t
    split <;> rfl
  rw [h, drainEntries_mConnections]
  show (modifyAt _ connection s.mConnections)[connection]? = _
  rw [getElem?_modifyAt, if_pos rfl, hc]
  rfl

theorem drainOutboundQueueLocked_mEvents (connection n : Nat) (s : State) (c : Connection)
    (hc : s.mConnections[connection]? = some c) (entry : Nat) :
    (drainOutboundQueueLocked connection n s).mEvents[entry]?
      = (s.mEvents[entry]?).map (EventEntry.afterDrain (c.outboundQueue.drop n) entry) := by
  unfold drainOutboundQueueLocked
  rw [hc]
  simp only []
  have h : ∀ t : State, (if (List.take n c.outboundQueue).isEmpty = true then
      deactivateConnectionLocked connection t else t).mEvents = t.mEvents := by
    intro t
    split <;> rfl
  rw [h, drainEntries_mEvents]
  rfl

theorem drainOutboundQueueLocked_mActiveConnections (connection n : Nat) (s : State)
    (c : Connection) (hc : s.mConnections[connection]? = some c) :
    (drainOutboundQueueLocked connection n s).mActiveConnections
      = if (c.outboundQueue.take n).isEmpty then s.mActiveConnections.erase connection
        else s.mActiveConnections := by
  unfold drainOutboundQueueLocked
  rw [hc]
  simp only []
  have hd : ∀ t : State, (drainEntries (List.drop n c.outboundQueue) t).mActiveConnections
      = t.mActiveConnections := by
    intro t
    have := drainEntries_directory (List.drop n c.outboundQueue) t
    simp only [State.directory, Prod.mk.injEq] at this
    exact this.2.1
  split
  · show ((drainEntries _ _).mActiveConnections).erase connection = _
    rw [hd]
    rfl
  · rw [hd]
    rfl

theorem drainOutboundQueueLocked_mCommandQueue (connection n : Nat) (s : State) :
    (drainOutboundQueueLocked connection n s).mCommandQueue = s.mCommandQueue := by
  unfold drainOutboundQueueLocked
  split
  · rfl
  · simp only []
    have h : ∀ t : State, (if (List.take n ‹Connection›.outboundQueue).isEmpty = true then
        deactivateConnectionLocked connection t else t).mCommandQueue = t.mCommandQueue := by
      intro t
      split <;> rfl
    rw [h, drainEntries_frame]
    rfl

theorem getElem?_modifyAt_self {α : Type} (f : α → α) (n : Nat) (l : List α) (a : α)
    (h : l[n]? = some a) : (modifyAt f n l)[n]? = some (f a) := by
  rw [getElem?_modifyAt, if_pos rfl, h]
  rfl

theorem getElem?_modifyAt_ne {α : Type} (f : α → α) (n : Nat) (l : List α) (i : Nat)
    (h : i ≠ n) : (modifyAt f n l)[i]? = l[i]? := by
  rw [getElem?_modifyAt, if_neg h]

theorem drainOutboundQueueLocked_frame (connection n : Nat) (s : State) :
    drainOutboundQueueLocked connection n s
      = { s with
          mConnections := (drainOutboundQueueLocked connection n s).mConnections
          mEvents := (drainOutboundQueueLocked connection n s).mEvents
          mActiveConnections := (drainOutboundQueueLocked connection n s).mActiveConnections } := by
  unfold drainOutboundQueueLocked
  split
  · rfl
  · simp only []
    split
    · rw [drainEntries_frame]
      rfl
    · rw [drainEntries_frame]
      rfl

theorem abortDispatchCycleLocked_drained (connection : Nat) (s : State) (c : Connection)
    (hc : s.mConnections[connection]? = some c) :
    (drainOutboundQueueLocked connection 0
        (modifyConnection connection (fun c =>
          { c with nextTimeoutTime := LONG_LONG_MAX, inputState := c.inputState.setOutOfSync })
          s)).mConnections[connection]?
      = some
          { c with
            nextTimeoutTime := LONG_LONG_MAX
            inputState := c.inputState.setOutOfSync
            outboundQueue := [] } := by
  have hc1 : (modifyConnection connection (fun c =>
      { c with nextTimeoutTime := LONG_LONG_MAX, inputState := c.inputState.setOutOfSync })
      s).mConnections[connection]?
      = some { c with nextTimeoutTime := LONG_LONG_MAX, inputState := c.inputState.setOutOfSync } := by
    show (modifyAt _ connection s.mConnections)[connection]? = _
    rw [getElem?_modifyAt, if_pos rfl, hc]
    rfl
  rw [drainOutboundQueueLocked_connection _ _ _ _ hc1]
  rfl

theorem publisherCalled_connection (connection : Nat) (calls : List PublisherCall) (s : State)
    (c : Connection) (hc : s.mConnections[connection]? = some c) :
    (publisherCalled connection calls s).mConnections[connection]?
      = some { c with inputPublisher := c.inputPublisher ++ calls } := by
  show (modifyAt _ connection s.mConnections)[connection]? = _
  rw [getElem?_modifyAt, if_pos rfl, hc]
  rfl

theorem modifyConnection_connection (connection : Nat) (f : Connection → Connection) (s : State)
    (c : Connection) (hc : s.mConnections[connection]? = some c) :
    (modifyConnection connection f s).mConnections[connection]? = some (f c) := by
  show (modifyAt _ connection s.mConnections)[connection]? = _
  rw [getElem?_modifyAt, if_pos rfl, hc]
  rfl

theorem abortDispatchCycleLocked_inputPublisher (connection : Nat) (broken : Bool) (s : State)
    (c : Connection) (hc : s.mConnections[connection]? = some c) :
    ∃ c1, (abortDispatchCycleLocked connection broken s).mConnections[connection]? = some c1
      ∧ c1.inputPublisher = c.inputPublisher := by
  have hc1 := modifyConnection_connection connection (fun c =>
      { c with nextTimeoutTime := LONG_LONG_MAX, inputState := c.inputState.setOutOfSync })
      s c hc
  have hc2 := drainOutboundQueueLocked_connection connection 0 _ _ hc1
  have hmain : ∀ r : State, r = abortDispatchCycleLocked connection broken s →
      ∃ c1, r.mConnections[connection]? = some c1 ∧ c1.inputPublisher = c.inputPublisher := by
    intro r hr
    unfold abortDispatchCycleLocked at hr
    simp only [hc2] at hr
    split at hr
    · subst hr
      refine ⟨_, modifyConnection_connection connection _ _ _ hc2, rfl⟩
    · subst hr
      exact ⟨_, hc2, rfl⟩
  exact hmain _ rfl

theorem sendDispatchSignalAndRecord_ok (env : Env) (currentTime : Int) (connection : Nat)
    (timeSpentWaitingForApplication : Int) (dispatchEntry : DispatchEntry) (eventTime : Int)
    (s : State) (c : Connection) (hc : s.mConnections[connection]? = some c)
    (hsig : env.sendDispatchSignal c.inputChannel = OK) :
    (sendDispatchSignalAndRecord env currentTime connection timeSpentWaitingForApplication
        dispatchEntry eventTime s).mConnections[connection]?
      = some
          { c with
            inputPublisher := c.inputPublisher ++ [PublisherCall.sendDispatchSignal]
            lastEventTime := eventTime
            lastDispatchTime := currentTime
            nextTimeoutTime :=
              if dispatchEntry.timeout - timeSpentWaitingForApplication ≥ 0 then
                currentTime + (dispatchEntry.timeout - timeSpentWaitingForApplication)
              else LONG_LONG_MAX } := by
  have hc1 := publisherCalled_connection connection [PublisherCall.sendDispatchSignal] s c hc
  unfold sendDispatchSignalAndRecord
  simp only [hc1]
  rw [if_neg (not_not.mpr hsig)]
  rw [modifyConnection_connection connection _ _ _ hc1]
  rfl

theorem sendDispatchSignalAndRecord_inputPublisher (env : Env) (currentTime : Int)
    (connection : Nat) (timeSpentWaitingForApplication : Int) (dispatchEntry : DispatchEntry)
    (eventTime : Int) (s : State) (c : Connection)
    (hc : s.mConnections[connection]? = some c) :
    ∃ c1, (sendDispatchSignalAndRecord env currentTime connection
          timeSpentWaitingForApplication dispatchEntry eventTime s).mConnections[connection]?
        = some c1
      ∧ c1.inputPublisher = c.inputPublisher ++ [PublisherCall.sendDispatchSignal] := by
  have hc1 := publisherCalled_connection connection [PublisherCall.sendDispatchSignal] s c hc
  by_cases hsig : env.sendDispatchSignal c.inputChannel = OK
  · exact ⟨_, sendDispatchSignalAndRecord_ok env currentTime connection _ dispatchEntry
      eventTime s c hc hsig, rfl⟩
  · have heq : sendDispatchSignalAndRecord env currentTime connection
        timeSpentWaitingForApplication dispatchEntry eventTime s
        = abortDispatchCycleLocked connection true
            (publisherCalled connection [PublisherCall.sendDispatchSignal] s) := by
      unfold sendDispatchSignalAndRecord
      simp only [hc1]
      rw [if_pos hsig]
    rw [heq]
    obtain ⟨c1, h1, h2⟩ := abortDispatchCycleLocked_inputPublisher connection true _ _ hc1
    exact ⟨c1, h1, h2⟩

theorem cycleStarted_connection (connection : Nat) (head : DispatchEntry)
    (rest : List DispatchEntry) (eventEntry : EventEntry) (s : State) (c : Connection)
    (hc : s.mConnections[connection]? = some c) :
    (cycleStarted connection head rest eventEntry s).mConnections[connection]?
      = some
          { c with
            outboundQueue := { head with inProgress := true } :: rest
            inputState := (c.inputState.trackEvent eventEntry).2 } :=
  modifyConnection_connection connection _ s c hc

theorem startDispatchCycleLocked_key (env : Env) (currentTime : Int) (connection : Nat)
    (w : Int) (s : State) (c : Connection) (head : DispatchEntry) (rest : List DispatchEntry)
    (e : EventEntry) (k : KeyEntry)
    (hc : s.mConnections[connection]? = some c) (hq : c.outboundQueue = head :: rest)
    (he : s.mEvents[head.eventEntry]? = some e) (hb : e.body = EventBody.key k) :
    startDispatchCycleLocked env currentTime connection w s
      = if env.publishKeyEvent c.inputChannel ≠ OK then
          abortDispatchCycleLocked connection true
            (publisherCalled connection
              [PublisherCall.publishKeyEvent k.deviceId k.source k.action
                (if head.targetFlags &&& InputTarget.FLAG_CANCEL ≠ 0 then
                  k.flags ||| AKEY_EVENT_FLAG_CANCELED else k.flags)
                k.keyCode k.scanCode k.metaState k.repeatCount k.downTime e.eventTime]
              (cycleStarted connection head rest e s))
        else
          sendDispatchSignalAndRecord env currentTime connection w
            { head with inProgress := true } e.eventTime
            (publisherCalled connection
              [PublisherCall.publishKeyEvent k.deviceId k.source k.action
                (if head.targetFlags &&& InputTarget.FLAG_CANCEL ≠ 0 then
                  k.flags ||| AKEY_EVENT_FLAG_CANCELED else k.flags)
                k.keyCode k.scanCode k.metaState k.repeatCount k.downTime e.eventTime]
              (cycleStarted connection head rest e s)) := by
  unfold startDispatchCycleLocked
  simp only [hc, hq, he, hb]
  rfl

theorem startDispatchCycleLocked_motion (env : Env) (currentTime : Int) (connection : Nat)
    (w : Int) (s : State) (c : Connection) (head : DispatchEntry) (rest : List DispatchEntry)
    (e : EventEntry) (m : MotionEntry)
    (hc : s.mConnections[connection]? = some c) (hq : c.outboundQueue = head :: rest)
    (he : s.mEvents[head.eventEntry]? = some e) (hb : e.body = EventBody.motion m) :
    startDispatchCycleLocked env currentTime connection w s
      = if env.publishMotionEvent c.inputChannel ≠ OK then
          abortDispatchCycleLocked connection true
            (publisherCalled connection [publishedMotion head m]
              (cycleStarted connection head rest e s))
        else if (appendNextSamples env c.inputChannel
              (m.nextSamples.drop (head.headMotionSample.getD 0))
              (head.headMotionSample.getD 0 + 1) []).1 ≠ OK
            ∧ (appendNextSamples env c.inputChannel
              (m.nextSamples.drop (head.headMotionSample.getD 0))
              (head.headMotionSample.getD 0 + 1) []).1 ≠ NO_MEMORY then
          abortDispatchCycleLocked connection true
            (publisherCalled connection
              (appendNextSamples env c.inputChannel
                (m.nextSamples.drop (head.headMotionSample.getD 0))
                (head.headMotionSample.getD 0 + 1) []).2.2
              (publisherCalled connection [publishedMotion head m]
                (cycleStarted connection head rest e s)))
        else
          sendDispatchSignalAndRecord env currentTime connection w
            { head with
              inProgress := true
              tailMotionSample :=
                (appendNextSamples env c.inputChannel
                  (m.nextSamples.drop (head.headMotionSample.getD 0))
                  (head.headMotionSample.getD 0 + 1) []).2.1 }
            e.eventTime
            (modifyConnection connection (fun c1 =>
              { c1 with
                outboundQueue := modifyAt (fun _ =>
                  { head with
                    inProgress := true
                    tailMotionSample :=
                      (appendNextSamples env c.inputChannel
                        (m.nextSamples.drop (head.headMotionSample.getD 0))
                        (head.headMotionSample.getD 0 + 1) []).2.1 }) 0 c1.outboundQueue })
              (publisherCalled connection
                (appendNextSamples env c.inputChannel
                  (m.nextSamples.drop (head.headMotionSample.getD 0))
                  (head.headMotionSample.getD 0 + 1) []).2.2
                (publisherCalled connection [publishedMotion head m]
                  (cycleStarted connection head rest e s)))) := by
  unfold startDispatchCycleLocked
  simp only [hc, hq, he, hb]
  unfold publishedMotion
  by_cases h1 : head.targetFlags &&& InputTarget.FLAG_CANCEL ≠ 0
  · simp only [if_pos h1]
    rfl
  · simp only [if_neg h1]
    rfl

theorem startDispatchCycleLocked_configurationChanged (env : Env) (currentTime : Int)
    (connection : Nat) (w : Int) (s : State) (c : Connection) (head : DispatchEntry)
    (rest : List DispatchEntry) (e : EventEntry)
    (hc : s.mConnections[connection]? = some c) (hq : c.outboundQueue = head :: rest)
    (he : s.mEvents[head.eventEntry]? = some e) (hb : e.body = EventBody.configurationChanged) :
    startDispatchCycleLocked env currentTime connection w s
      = sendDispatchSignalAndRecord env currentTime connection w
          { head with inProgress := true } e.eventTime (cycleStarted connection head rest e s) := by
  unfold startDispatchCycleLocked
  simp only [hc, hq, he, hb]
  rfl

theorem startDispatchCycleLocked_key_ok (env : Env) (currentTime : Int) (connection : Nat)
    (w : Int) (s : State) (c : Connection) (head : DispatchEntry) (rest : List DispatchEntry)
    (e : EventEntry) (k : KeyEntry)
    (hc : s.mConnections[connection]? = some c) (hq : c.outboundQueue = head :: rest)
    (he : s.mEvents[head.eventEntry]? = some e) (hb : e.body = EventBody.key k)
    (hpub : env.publishKeyEvent c.inputChannel = OK)
    (hsig : env.sendDispatchSignal c.inputChannel = OK) :
    (startDispatchCycleLocked env currentTime connection w s).mConnections[connection]?
      = some
          { c with
            outboundQueue := { head with inProgress := true } :: rest
            inputState := (c.inputState.trackEvent e).2
            inputPublisher := c.inputPublisher ++
              [PublisherCall.publishKeyEvent k.deviceId k.source k.action
                (if head.targetFlags &&& InputTarget.FLAG_CANCEL ≠ 0 then
                  k.flags ||| AKEY_EVENT_FLAG_CANCELED else k.flags)
                k.keyCode k.scanCode k.metaState k.repeatCount k.downTime e.eventTime,
               PublisherCall.sendDispatchSignal]
            lastEventTime := e.eventTime
            lastDispatchTime := currentTime
            nextTimeoutTime :=
              if head.timeout - w ≥ 0 then currentTime + (head.timeout - w)
              else LONG_LONG_MAX } := by
  rw [startDispatchCycleLocked_key env currentTime connection w s c head rest e k hc hq he hb,
    if_neg (not_not.mpr hpub)]
  have h1 := publisherCalled_connection connection
    [PublisherCall.publishKeyEvent k.deviceId k.source k.action
      (if head.targetFlags &&& InputTarget.FLAG_CANCEL ≠ 0 then
        k.flags ||| AKEY_EVENT_FLAG_CANCELED else k.flags)
      k.keyCode k.scanCode k.metaState k.repeatCount k.downTime e.eventTime] _ _
    (cycleStarted_connection connection head rest e s c hc)
  rw [sendDispatchSignalAndRecord_ok env currentTime connection w _ e.eventTime _ _ h1 hsig]
  simp only [List.append_assoc, List.singleton_append]

theorem startDispatchCycleLocked_motion_ok (env : Env) (currentTime : Int) (connection : Nat)
    (w : Int) (s : State) (c : Connection) (head : DispatchEntry) (rest : List DispatchEntry)
    (e : EventEntry) (m : MotionEntry)
    (hc : s.mConnections[connection]? = some c) (hq : c.outboundQueue = head :: rest)
    (he : s.mEvents[head.eventEntry]? = some e) (hb : e.body = EventBody.motion m)
    (hpub : env.publishMotionEvent c.inputChannel = OK)
    (happ : (appendNextSamples env c.inputChannel
        (m.nextSamples.drop (head.headMotionSample.getD 0))
        (head.headMotionSample.getD 0 + 1) []).1 = OK
      ∨ (appendNextSamples env c.inputChannel
        (m.nextSamples.drop (head.headMotionSample.getD 0))
        (head.headMotionSample.getD 0 + 1) []).1 = NO_MEMORY)
    (hsig : env.sendDispatchSignal c.inputChannel = OK) :
    (startDispatchCycleLocked env currentTime connection w s).mConnections[connection]?
      = some
          { c with
            outboundQueue :=
              { head with
                inProgress := true
                tailMotionSample :=
                  (appendNextSamples env c.inputChannel
                    (m.nextSamples.drop (head.headMotionSample.getD 0))
                    (head.headMotionSample.getD 0 + 1) []).2.1 } :: rest
            inputState := (c.inputState.trackEvent e).2
            inputPublisher := c.inputPublisher ++
              (publishedMotion head m ::
                (appendNextSamples env c.inputChannel
                  (m.nextSamples.drop (head.headMotionSample.getD 0))
                  (head.headMotionSample.getD 0 + 1) []).2.2
                ++ [PublisherCall.sendDispatchSignal])
            lastEventTime := e.eventTime
            lastDispatchTime := currentTime
            nextTimeoutTime :=
              if head.timeout - w ≥ 0 then currentTime + (head.timeout - w)
              else LONG_LONG_MAX } := by
  rw [startDispatchCycleLocked_motion env currentTime connection w s c head rest e m hc hq he
    hb, if_neg (not_not.mpr hpub)]
  have hno : ¬ ((appendNextSamples env c.inputChannel
        (m.nextSamples.drop (head.headMotionSample.getD 0))
        (head.headMotionSample.getD 0 + 1) []).1 ≠ OK
      ∧ (appendNextSamples env c.inputChannel
        (m.nextSamples.drop (head.headMotionSample.getD 0))
        (head.headMotionSample.getD 0 + 1) []).1 ≠ NO_MEMORY) := by
    rintro ⟨h1, h2⟩
    rcases happ with h | h
    · exact h1 h
    · exact h2 h
  rw [if_neg hno]
  have h1 := publisherCalled_connection connection [publishedMotion head m] _ _
    (cycleStarted_connection connection head rest e s c hc)
  have h2 := publisherCalled_connection connection
    (appendNextSamples env c.inputChannel
      (m.nextSamples.drop (head.headMotionSample.getD 0))
      (head.headMotionSample.getD 0 + 1) []).2.2 _ _ h1
  have h3 := modifyConnection_connection connection (fun c1 =>
    { c1 with
      outboundQueue := modifyAt (fun _ =>
        { head with
          inProgress := true
          tailMotionSample :=
            (appendNextSamples env c.inputChannel
              (m.nextSamples.drop (head.headMotionSample.getD 0))
              (head.headMotionSample.getD 0 + 1) []).2.1 }) 0 c1.outboundQueue }) _ _ h2
  rw [sendDispatchSignalAndRecord_ok env currentTime connection w _ e.eventTime _ _ h3 hsig]
  simp only [List.append_assoc, List.singleton_append, modifyAt, List.cons_append,
    List.nil_append]

theorem appendNextSamples_calls (env : Env) (ch : InputChannel) :
    ∀ (l : List MotionSample) (i : Nat) (calls : List PublisherCall),
      ∃ more, (appendNextSamples env ch l i calls).2.2 = calls ++ more
        ∧ ∀ call ∈ more, ∃ t p, call = PublisherCall.appendMotionSample t p := by
  intro l
  induction l with
  | nil =>
    intro i calls
    exact ⟨[], by simp [appendNextSamples], by simp⟩
  | cons sample rest ih =>
    intro i calls
    unfold appendNextSamples
    simp only []
    split
    · exact ⟨[_], rfl, by simp⟩
    · split
      · exact ⟨[_], rfl, by simp⟩
      · obtain ⟨more, h1, h2⟩ := ih (i + 1)
          (calls ++ [PublisherCall.appendMotionSample sample.eventTime sample.pointerCoords])
        refine ⟨PublisherCall.appendMotionSample sample.eventTime sample.pointerCoords :: more,
          ?_, ?_⟩
        · rw [h1]
          simp
        · intro call hcall
          rcases List.mem_cons.mp hcall with h | h
          · exact ⟨_, _, h⟩
          · exact h2 call h

theorem enqueueCancelationEvents_connection (connection : Nat) (inputTarget : InputTarget) :
    ∀ (events : List Nat) (s : State) (c : Connection),
      s.mConnections[connection]? = some c →
      (enqueueCancelationEvents connection inputTarget events s).mConnections[connection]?
        = some
            { c with
              outboundQueue := c.outboundQueue ++ events.map (fun cancelationEventEntry =>
                (obtainDispatchEntry cancelationEventEntry 0 inputTarget.xOffset
                  inputTarget.yOffset inputTarget.timeout s).1) } := by
  intro events
  induction events with
  | nil =>
    intro s c hc
    unfold enqueueCancelationEvents
    rw [hc]
    simp
  | cons ev rest ih =>
    intro s c hc
    unfold enqueueCancelationEvents
    simp only []
    have h1 : (releaseEventEntry ev
        (modifyConnection connection (fun c =>
          { c with outboundQueue := c.outboundQueue ++
              [(obtainDispatchEntry ev 0 inputTarget.xOffset inputTarget.yOffset
                inputTarget.timeout s).1] })
          (obtainDispatchEntry ev 0 inputTarget.xOffset inputTarget.yOffset
            inputTarget.timeout s).2)).mConnections[connection]?
        = some
            { c with outboundQueue := c.outboundQueue ++
                [(obtainDispatchEntry ev 0 inputTarget.xOffset inputTarget.yOffset
                  inputTarget.timeout s).1] } := by
      rw [releaseEventEntry_mConnections]
      exact modifyConnection_connection connection _ _ c hc
    rw [ih _ _ h1]
    simp only [List.map_cons, List.append_assoc, List.singleton_append]
    rfl

theorem takeWhile_append_drop {α : Type} (p : α → Bool) : ∀ l : List α,
    l.takeWhile p ++ l.drop (l.takeWhile p).length = l := by
  intro l
  induction l with
  | nil => rfl
  | cons x xs ih =>
    cases hx : p x
    · simp [List.takeWhile, hx]
    · simp [List.takeWhile, hx, ih]

theorem take_accepted (env : Env) (ch : InputChannel) (l : List MotionSample) :
    l.take ((acceptedSamples env ch l).length + 1)
      = acceptedSamples env ch l ++ (l[(acceptedSamples env ch l).length]?).toList := by
  rw [List.take_succ]
  congr 1
  have h := takeWhile_append_drop
    (fun sample => decide (env.appendMotionSample ch sample = OK)) l
  have h1 : l.take (acceptedSamples env ch l).length
      = (acceptedSamples env ch l ++ l.drop (acceptedSamples env ch l).length).take
          (acceptedSamples env ch l).length := by
    unfold acceptedSamples
    rw [h]
  rw [h1, List.take_left']
  rfl

theorem OK_ne_NO_MEMORY : ¬ NO_MEMORY = OK := by decide

theorem appendNextSamples_spec (env : Env) (ch : InputChannel) :
    ∀ (l : List MotionSample) (i : Nat) (calls : List PublisherCall),
      (∀ sample ∈ l, env.appendMotionSample ch sample = OK
        ∨ env.appendMotionSample ch sample = NO_MEMORY) →
      ((appendNextSamples env ch l i calls).1 = OK
          ∨ (appendNextSamples env ch l i calls).1 = NO_MEMORY)
        ∧ (appendNextSamples env ch l i calls).2.1
            = (if (acceptedSamples env ch l).length < l.length then
                some (i + (acceptedSamples env ch l).length) else none)
        ∧ (appendNextSamples env ch l i calls).2.2
            = calls ++ (l.take ((acceptedSamples env ch l).length + 1)).map appendCall := by
  intro l
  induction l with
  | nil =>
    intro i calls _
    simp [appendNextSamples, acceptedSamples]
  | cons sample rest ih =>
    intro i calls hall
    have hrest : ∀ x ∈ rest, env.appendMotionSample ch x = OK
        ∨ env.appendMotionSample ch x = NO_MEMORY :=
      fun x hx => hall x (List.mem_cons_of_mem _ hx)
    unfold appendNextSamples
    simp only []
    rcases hall sample (List.mem_cons_self _ _) with hs | hs
    · have h1 : ¬ env.appendMotionSample ch sample = NO_MEMORY := by
        rw [hs]
        exact fun h => OK_ne_NO_MEMORY h.symm
      rw [if_neg h1, if_neg (not_not.mpr hs)]
      obtain ⟨i1, i2, i3⟩ := ih (i + 1)
        (calls ++ [PublisherCall.appendMotionSample sample.eventTime sample.pointerCoords]) hrest
      have hacc : acceptedSamples env ch (sample :: rest)
          = sample :: acceptedSamples env ch rest := by
        simp [acceptedSamples, List.takeWhile, hs]
      refine ⟨i1, ?_, ?_⟩
      · rw [i2, hacc]
        simp only [List.length_cons, Nat.add_lt_add_iff_right]
        split
        · congr 1
          omega
        · rfl
      · rw [i3, hacc]
        simp [appendCall]
    · rw [if_pos hs]
      have hacc : acceptedSamples env ch (sample :: rest) = [] := by
        have : ¬ env.appendMotionSample ch sample = OK := by
          rw [hs]
          exact OK_ne_NO_MEMORY
        simp [acceptedSamples, List.takeWhile, this]
      refine ⟨Or.inr hs, ?_, ?_⟩
      · rw [hacc]
        simp
      · rw [hacc]
        simp [appendCall]

theorem sendDispatchSignalAndRecord_mEvents_ok (env : Env) (currentTime : Int)
    (connection : Nat) (w : Int) (dispatchEntry : DispatchEntry) (eventTime : Int) (s : State)
    (c : Connection) (hc : s.mConnections[connection]? = some c)
    (hsig : env.sendDispatchSignal c.inputChannel = OK) :
    (sendDispatchSignalAndRecord env currentTime connection w dispatchEntry eventTime s).mEvents
      = s.mEvents := by
  have hc1 := publisherCalled_connection connection [PublisherCall.sendDispatchSignal] s c hc
  unfold sendDispatchSignalAndRecord
  simp only [hc1]
  rw [if_neg (not_not.mpr hsig)]
  rfl

theorem publishedMotion_head (head : DispatchEntry) (m : MotionEntry) :
    publishedMotion { head with headMotionSample := some (head.headMotionSample.getD 0) } m
      = publishedMotion head m := by
  simp only [publishedMotion, Option.getD_some]

theorem startDispatchCycleLocked_cycle (env : Env) (currentTime : Int) (connection : Nat)
    (w : Int) (s : State) (c : Connection) (head : DispatchEntry) (rest : List DispatchEntry)
    (e : EventEntry) (m : MotionEntry)
    (hc : s.mConnections[connection]? = some c) (hq : c.outboundQueue = head :: rest)
    (he : s.mEvents[head.eventEntry]? = some e) (hb : e.body = EventBody.motion m)
    (hpub : env.publishMotionEvent c.inputChannel = OK)
    (hsig : env.sendDispatchSignal c.inputChannel = OK)
    (hall : ∀ sample ∈ m.nextSamples, env.appendMotionSample c.inputChannel sample = OK
      ∨ env.appendMotionSample c.inputChannel sample = NO_MEMORY) :
    (startDispatchCycleLocked env currentTime connection w s).mConnections[connection]?
        = some
            { c with
              outboundQueue :=
                { head with
                  inProgress := true
                  tailMotionSample :=
                    cycleTail env c.inputChannel m (head.headMotionSample.getD 0) } :: rest
              inputState := (c.inputState.trackEvent e).2
              inputPublisher := c.inputPublisher ++
                cycleCalls env c.inputChannel head m (head.headMotionSample.getD 0)
              lastEventTime := e.eventTime
              lastDispatchTime := currentTime
              nextTimeoutTime :=
                if head.timeout - w ≥ 0 then currentTime + (head.timeout - w)
                else LONG_LONG_MAX }
      ∧ (startDispatchCycleLocked env currentTime connection w s).mEvents = s.mEvents := by
  have hdrop : ∀ sample ∈ m.nextSamples.drop (head.headMotionSample.getD 0),
      env.appendMotionSample c.inputChannel sample = OK
        ∨ env.appendMotionSample c.inputChannel sample = NO_MEMORY :=
    fun x hx => hall x (List.mem_of_mem_drop hx)
  obtain ⟨a1, a2, a3⟩ := appendNextSamples_spec env c.inputChannel
    (m.nextSamples.drop (head.headMotionSample.getD 0)) (head.headMotionSample.getD 0 + 1) []
    hdrop
  constructor
  · rw [startDispatchCycleLocked_motion_ok env currentTime connection w s c head rest e m hc hq
      he hb hpub a1 hsig, a2, a3]
    simp only [cycleTail, cycleCalls, publishedMotion_head, List.nil_append, List.cons_append,
      take_accepted]
  · rw [startDispatchCycleLocked_motion env currentTime connection w s c head rest e m hc hq he
      hb, if_neg (not_not.mpr hpub)]
    have hno : ¬ ((appendNextSamples env c.inputChannel
          (m.nextSamples.drop (head.headMotionSample.getD 0))
          (head.headMotionSample.getD 0 + 1) []).1 ≠ OK
        ∧ (appendNextSamples env c.inputChannel
          (m.nextSamples.drop (head.headMotionSample.getD 0))
          (head.headMotionSample.getD 0 + 1) []).1 ≠ NO_MEMORY) := by
      rintro ⟨h1, h2⟩
      rcases a1 with h | h
      · exact h1 h
      · exact h2 h
    rw [if_neg hno]
    have h1 := publisherCalled_connection connection [publishedMotion head m] _ _
      (cycleStarted_connection connection head rest e s c hc)
    have h2 := publisherCalled_connection connection
      (appendNextSamples env c.inputChannel
        (m.nextSamples.drop (head.headMotionSample.getD 0))
        (head.headMotionSample.getD 0 + 1) []).2.2 _ _ h1
    have h3 := modifyConnection_connection connection (fun c1 =>
      { c1 with
        outboundQueue := modifyAt (fun _ =>
          { head with
            inProgress := true
            tailMotionSample :=
              (appendNextSamples env c.inputChannel
                (m.nextSamples.drop (head.headMotionSample.getD 0))
                (head.headMotionSample.getD 0 + 1) []).2.1 }) 0 c1.outboundQueue }) _ _ h2
    rw [sendDispatchSignalAndRecord_mEvents_ok env currentTime connection w _ e.eventTime _ _ h3
      hsig]
    rfl

theorem startNextDispatchCycleLocked_resume (env : Env) (currentTime : Int) (connection : Nat)
    (s : State) (c : Connection) (head : DispatchEntry) (rest : List DispatchEntry) (t : Nat)
    (hc : s.mConnections[connection]? = some c) (hq : c.outboundQueue = head :: rest)
    (hin : head.inProgress = true) (ht : head.tailMotionSample = some t) :
    startNextDispatchCycleLocked env currentTime connection s
      = startDispatchCycleLocked env currentTime connection 0
          (modifyConnection connection (fun c =>
            { c with
              outboundQueue :=
                { head with
                  inProgress := false
                  headMotionSample := some t
                  tailMotionSample := none } :: rest }) s) := by
  unfold startNextDispatchCycleLocked
  simp only [hc, hq, List.length_cons]
  unfold startNextDispatchCycleLoop
  simp only [hc, hq, hin, ht, if_true, Option.isSome_some]

theorem startNextDispatchCycleLocked_cycle (env : Env) (currentTime : Int) (connection : Nat)
    (s : State) (c : Connection) (head : DispatchEntry) (rest : List DispatchEntry) (t : Nat)
    (e : EventEntry) (m : MotionEntry)
    (hc : s.mConnections[connection]? = some c) (hq : c.outboundQueue = head :: rest)
    (hin : head.inProgress = true) (ht : head.tailMotionSample = some t)
    (he : s.mEvents[head.eventEntry]? = some e) (hb : e.body = EventBody.motion m)
    (hok : PublisherOk env c.inputChannel m) :
    (startNextDispatchCycleLocked env currentTime connection s).mConnections[connection]?
        = some
            { c with
              outboundQueue :=
                { head with
                  inProgress := true
                  headMotionSample := some t
                  tailMotionSample := cycleTail env c.inputChannel m t } :: rest
              inputState := (c.inputState.trackEvent e).2
              inputPublisher := c.inputPublisher ++ cycleCalls env c.inputChannel head m t
              lastEventTime := e.eventTime
              lastDispatchTime := currentTime
              nextTimeoutTime :=
                if head.timeout - 0 ≥ 0 then currentTime + (head.timeout - 0)
                else LONG_LONG_MAX }
      ∧ (startNextDispatchCycleLocked env currentTime connection s).mEvents = s.mEvents := by
  rw [startNextDispatchCycleLocked_resume env currentTime connection s c head rest t hc hq hin
    ht]
  have hc1 := modifyConnection_connection connection (fun c =>
    { c with
      outboundQueue :=
        { head with
          inProgress := false
          headMotionSample := some t
          tailMotionSample := none } :: rest }) s c hc
  obtain ⟨h1, h2⟩ := startDispatchCycleLocked_cycle env currentTime connection 0 _ _
    { head with inProgress := false, headMotionSample := some t, tailMotionSample := none }
    rest e m hc1 rfl he hb hok.1 hok.2.1 hok.2.2
  exact ⟨h1, h2⟩

theorem cyclePlan_none (ch : InputChannel) (m : MotionEntry) (envs : List Env) :
    cyclePlan ch m envs none = [] := by
  cases envs <;> rfl

theorem streamTail_none (ch : InputChannel) (m : MotionEntry) (envs : List Env) :
    streamTail ch m envs none = none := by
  cases envs <;> rfl

theorem dispatchEntry_in_progress (head : DispatchEntry) (hin : head.inProgress = true) :
    head = { head with
             inProgress := true
             headMotionSample := head.headMotionSample
             tailMotionSample := head.tailMotionSample } := by
  cases head
  simp only at hin
  subst hin
  rfl

theorem resumeCycles_spec (currentTime : Int) (connection : Nat) (rest : List DispatchEntry)
    (e : EventEntry) (m : MotionEntry) :
    ∀ (envs : List Env) (s : State) (c : Connection) (head : DispatchEntry),
      s.mConnections[connection]? = some c → c.outboundQueue = head :: rest →
      head.inProgress = true → s.mEvents[head.eventEntry]? = some e →
      e.body = EventBody.motion m →
      (∀ x ∈ envs, PublisherOk x c.inputChannel m) →
      ∃ cN hd,
        (List.foldl (fun st x => startNextDispatchCycleLocked x currentTime connection st) s
            ((cyclePlan c.inputChannel m envs head.tailMotionSample).map Prod.fst)).mConnections[connection]?
          = some cN
        ∧ cN.inputChannel = c.inputChannel
        ∧ cN.inputPublisher = c.inputPublisher ++
            ((cyclePlan c.inputChannel m envs head.tailMotionSample).map
              (fun p => cycleCalls p.1 c.inputChannel head m p.2)).flatten
        ∧ cN.outboundQueue
            = { head with
                inProgress := true
                headMotionSample := hd
                tailMotionSample := streamTail c.inputChannel m envs head.tailMotionSample }
              :: rest := by
  intro envs
  induction envs with
  | nil =>
    intro s c head hc hq hin _ _ _
    refine ⟨c, head.headMotionSample, hc, rfl, by simp [cyclePlan], ?_⟩
    rw [hq]
    exact congrArg (fun d => d :: rest) (dispatchEntry_in_progress head hin)
  | cons env envs ih =>
    intro s c head hc hq hin he hb hok
    cases ht : head.tailMotionSample with
    | none =>
      refine ⟨c, head.headMotionSample, hc, rfl, by simp [cyclePlan], ?_⟩
      rw [hq]
      have := dispatchEntry_in_progress head hin
      rw [ht] at this
      exact congrArg (fun d => d :: rest) this
    | some t =>
      obtain ⟨h1, h2⟩ := startNextDispatchCycleLocked_cycle env currentTime connection s c head
        rest t e m hc hq hin ht he hb (hok env (List.mem_cons_self _ _))
      have he1 : (startNextDispatchCycleLocked env currentTime connection s).mEvents[
          ({ head with
             inProgress := true
             headMotionSample := some t
             tailMotionSample := cycleTail env c.inputChannel m t } : DispatchEntry).eventEntry]?
          = some e := by
        rw [h2]
        exact he
      obtain ⟨cN, hd, k1, k2, k3, k4⟩ := ih _ _
        { head with
          inProgress := true
          headMotionSample := some t
          tailMotionSample := cycleTail env c.inputChannel m t }
        h1 rfl rfl he1 hb (fun x hx => hok x (List.mem_cons_of_mem _ hx))
      refine ⟨cN, hd, ?_, k2, ?_, ?_⟩
      · simp only [cyclePlan, List.map_cons, List.foldl_cons]
        exact k1
      · rw [k3]
        simp only [cyclePlan, List.map_cons, List.flatten_cons, List.append_assoc]
        rfl
      · rw [k4]
        rfl

theorem takeWhile_eq_self {α : Type} (p : α → Bool) (l : List α)
    (h : ¬ (l.takeWhile p).length < l.length) : l.takeWhile p = l := by
  have h1 := takeWhile_append_drop p l
  have h2 : l.drop (l.takeWhile p).length = [] := by
    apply List.drop_eq_nil_of_le
    omega
  rw [h2, List.append_nil] at h1
  exact h1

theorem samples_drop (m : MotionEntry) (h : Nat) (hh : h ≤ m.nextSamples.length) :
    (m.firstSample :: m.nextSamples).drop h
      = (m.sampleAt h).getD m.firstSample :: m.nextSamples.drop h := by
  cases h with
  | zero => rfl
  | succ n =>
    have hn : n < m.nextSamples.length := hh
    simp only [List.drop_succ_cons, MotionEntry.sampleAt]
    rw [List.getElem?_eq_getElem hn, Option.getD_some]
    exact List.drop_eq_getElem_cons hn

theorem streamTail_enough (ch : InputChannel) (m : MotionEntry) :
    ∀ (envs : List Env) (h : Nat), h ≤ m.nextSamples.length →
      m.nextSamples.length - h < envs.length → streamTail ch m envs (some h) = none := by
  intro envs
  induction envs with
  | nil =>
    intro h _ hlen
    simp at hlen
  | cons env envs ih =>
    intro h hh hlen
    have hl : (m.nextSamples.drop h).length = m.nextSamples.length - h := List.length_drop _ _
    have hlen1 : (List.length (env :: envs)) = envs.length + 1 := rfl
    by_cases hlt : (acceptedSamples env ch (m.nextSamples.drop h)).length
        < (m.nextSamples.drop h).length
    · have htail : cycleTail env ch m h
          = some (h + 1 + (acceptedSamples env ch (m.nextSamples.drop h)).length) := by
        unfold cycleTail
        rw [if_pos hlt]
      simp only [streamTail, htail]
      exact ih _ (by omega) (by omega)
    · have htail : cycleTail env ch m h = none := by
        unfold cycleTail
        rw [if_neg hlt]
      simp only [streamTail, htail]
      exact streamTail_none ch m envs

theorem cyclePlan_samples (ch : InputChannel) (m : MotionEntry) :
    ∀ (envs : List Env) (h : Nat), h ≤ m.nextSamples.length →
      streamTail ch m envs (some h) = none →
      ((cyclePlan ch m envs (some h)).map (fun p => cycleSamples p.1 ch m p.2)).flatten
        = (m.firstSample :: m.nextSamples).drop h := by
  intro envs
  induction envs with
  | nil =>
    intro h _ hnone
    simp [streamTail] at hnone
  | cons env envs ih =>
    intro h hh hnone
    have hl : (m.nextSamples.drop h).length = m.nextSamples.length - h := List.length_drop _ _
    by_cases hlt : (acceptedSamples env ch (m.nextSamples.drop h)).length
        < (m.nextSamples.drop h).length
    · have htail : cycleTail env ch m h
          = some (h + 1 + (acceptedSamples env ch (m.nextSamples.drop h)).length) := by
        unfold cycleTail
        rw [if_pos hlt]
      simp only [streamTail, htail] at hnone
      have i2 := ih (h + 1 + (acceptedSamples env ch (m.nextSamples.drop h)).length)
        (by omega) hnone
      simp only [cyclePlan, htail, List.map_cons, List.flatten_cons]
      rw [i2, samples_drop m h hh]
      simp only [cycleSamples, List.cons_append]
      congr 1
      have h3 : (m.firstSample :: m.nextSamples).drop
          (h + 1 + (acceptedSamples env ch (m.nextSamples.drop h)).length)
          = (m.nextSamples.drop h).drop
              (acceptedSamples env ch (m.nextSamples.drop h)).length := by
        rw [List.drop_drop]
        have : h + 1 + (acceptedSamples env ch (m.nextSamples.drop h)).length
            = ((acceptedSamples env ch (m.nextSamples.drop h)).length + h) + 1 := by omega
        rw [this, List.drop_succ_cons, Nat.add_comm]
      rw [h3]
      exact takeWhile_append_drop _ _
    · have htail : cycleTail env ch m h = none := by
        unfold cycleTail
        rw [if_neg hlt]
      simp only [cyclePlan, htail, List.map_cons, List.flatten_cons, cyclePlan_none,
        List.map_nil, List.flatten_nil, List.append_nil]
      rw [samples_drop m h hh]
      simp only [cycleSamples]
      congr 1
      exact takeWhile_eq_self _ _ hlt

theorem resolveWindows_eq (tc : Option InputChannel) (temp : List InputChannel)
    (windows : List InputWindow) : ∀ (i : Nat) (s : State),
      resolveWindows tc temp windows i s
        = { s with
            mFocusedWindow := lastFocus windows i s.mFocusedWindow
            mWallpaperWindows := s.mWallpaperWindows ++ wallpaperIndices windows i
            mTouchedWallpaperWindows :=
              s.mTouchedWallpaperWindows ++ touchedWallpaperPushes temp windows i
            mTouchedWindow := lastOnChannel tc windows i s.mTouchedWindow } := by
  induction windows with
  | nil =>
    intro i s
    simp [resolveWindows, lastFocus, wallpaperIndices, touchedWallpaperPushes, lastOnChannel]
  | cons w rest ih =>
    intro i s
    simp only [resolveWindows, ih, lastFocus, wallpaperIndices, touchedWallpaperPushes,
      lastOnChannel]
    split_ifs <;> simp_all

theorem setInputWindows_eq (inputWindows : List InputWindow) (s : State) :
    setInputWindows inputWindows s
      = if focusLost inputWindows s then
          (preemptInputDispatchInnerLocked (resolvedWindows inputWindows s)).2
        else resolvedWindows inputWindows s := by
  unfold setInputWindows
  simp only [resolveWindows_eq, List.nil_append]
  unfold focusLost resolvedWindows touchedChannel
  cases h : lastFocus inputWindows 0 none with
  | none => simp
  | some w => simp [State.window]

theorem preemptInputDispatchInnerLocked_fields (s : State) :
    (preemptInputDispatchInnerLocked s).2
      = { s with mConnections := (preemptInputDispatchInnerLocked s).2.mConnections } :=
  preemptConnections_fields _ s

theorem setInputWindows_fields (inputWindows : List InputWindow) (s : State) :
    setInputWindows inputWindows s
      = { resolvedWindows inputWindows s with
          mConnections := (setInputWindows inputWindows s).mConnections } := by
  rw [setInputWindows_eq]
  split
  · rw [preemptInputDispatchInnerLocked_fields]
  · rfl

theorem lastOnChannel_none : ∀ (ws : List InputWindow) (i : Nat) (acc : Option Nat),
    lastOnChannel none ws i acc = acc := by
  intro ws
  induction ws with
  | nil => intro i acc; rfl
  | cons w rest ih =>
    intro i acc
    simp [lastOnChannel, ih]

theorem lastOnChannel_some (tc : Option InputChannel) :
    ∀ (ws : List InputWindow) (i : Nat) (acc : Option Nat) (k : Nat),
      lastOnChannel tc ws i acc = some k →
      acc = some k ∨ (i ≤ k ∧ ∃ w, ws[k - i]? = some w ∧ some w.inputChannel = tc) := by
  intro ws
  induction ws with
  | nil =>
    intro i acc k h
    exact Or.inl h
  | cons w rest ih =>
    intro i acc k h
    unfold lastOnChannel at h
    rcases ih _ _ _ h with h1 | ⟨h1, v, h2, h3⟩
    · by_cases hw : some w.inputChannel = tc
      · rw [if_pos hw] at h1
        right
        have hk : i = k := Option.some.inj h1
        subst hk
        exact ⟨Nat.le_refl _, w, by simp, hw⟩
      · rw [if_neg hw] at h1
        exact Or.inl h1
    · right
      refine ⟨by omega, v, ?_, h3⟩
      have hk : k - i = (k - (i + 1)) + 1 := by omega
      rw [hk, List.getElem?_cons_succ]
      exact h2

theorem lastOnChannel_idem (tc : Option InputChannel) (x : List InputWindow) :
    lastOnChannel ((lastOnChannel tc x 0 none).map (fun w => (x.getD w default).inputChannel))
        x 0 none
      = lastOnChannel tc x 0 none := by
  cases h : lastOnChannel tc x 0 none with
  | none => exact lastOnChannel_none x 0 none
  | some k =>
    rcases lastOnChannel_some tc x 0 none k h with h1 | ⟨_, w, h2, h3⟩
    · cases h1
    · have hw : (x.getD k default).inputChannel = w.inputChannel := by
        rw [Nat.sub_zero] at h2
        simp [List.getD, h2]
      simp only [Option.map_some', hw, h3]
      exact h

theorem preemptConnections_congr (cs : List Nat) : ∀ (s t : State),
    s.mConnections = t.mConnections →
    (preemptConnections cs s).2.mConnections = (preemptConnections cs t).2.mConnections := by
  induction cs with
  | nil => intro s t h; exact h
  | cons a rest ih =>
    intro s t h
    unfold preemptConnections
    rw [h]
    split
    · exact ih s t h
    · split
      · exact ih _ _ (by
          show modifyAt _ a s.mConnections = modifyAt _ a t.mConnections
          rw [h])
      · exact ih s t h

theorem setInputWindows_mConnections (inputWindows : List InputWindow) (s : State) :
    (setInputWindows inputWindows s).mConnections
      = if focusLost inputWindows s then (preemptInputDispatch s).mConnections
        else s.mConnections := by
  rw [setInputWindows_eq]
  split
  · exact preemptConnections_congr _ _ _ rfl
  · rfl

theorem setInputWindows_mActiveConnections (inputWindows : List InputWindow) (s : State) :
    (setInputWindows inputWindows s).mActiveConnections = s.mActiveConnections := by
  rw [setInputWindows_fields]
  rfl

theorem setInputWindows_no_pending (inputWindows : List InputWindow) (s : State)
    (h : focusLost inputWindows s = true) :
    ∀ i ∈ (setInputWindows inputWindows s).mActiveConnections, ∀ c,
      (setInputWindows inputWindows s).mConnections[i]? = some c →
      c.hasPendingSyncTarget = false := by
  intro i hi c hc
  rw [setInputWindows_mActiveConnections] at hi
  rw [setInputWindows_mConnections, if_pos h] at hc
  exact preemptConnections_no_pending _ s i hi c hc

theorem focusLost_again (x : List InputWindow) (s : State)
    (h : focusLost x (setInputWindows x s) = true) : focusLost x s = true := by
  have hf : (setInputWindows x s).mFocusedWindow = lastFocus x 0 none := by
    rw [setInputWindows_fields]
    rfl
  unfold focusLost at h ⊢
  rw [hf] at h
  cases hl : lastFocus x 0 none with
  | none =>
    rw [hl] at h
    simp at h
  | some w =>
    rw [hl] at h
    simp only [Option.isSome_some, Option.isNone_some, Bool.and_false, Bool.false_or] at h
    simp only [Option.isNone_some, Bool.and_false, Bool.false_or]
    exact h

theorem setInputWindows_twice_mConnections (x : List InputWindow) (s : State) :
    (setInputWindows x (setInputWindows x s)).mConnections
      = (setInputWindows x s).mConnections := by
  rw [setInputWindows_mConnections x (setInputWindows x s)]
  split
  · rename_i h
    have h0 := focusLost_again x s h
    have hnp := setInputWindows_no_pending x s h0
    have := preemptConnections_idle (setInputWindows x s).mActiveConnections
      (setInputWindows x s) hnp
    show (preemptConnections (setInputWindows x s).mActiveConnections
      (setInputWindows x s)).2.mConnections = _
    rw [this]
  · rfl

theorem state_touch_update (t : State) (a : Option Nat) (b : List Nat) (f : Option Nat)
    (w : List Nat) (x : List InputWindow) (c : List Connection)
    (h1 : t.mTouchedWindow = a) (h2 : t.mFocusedWindow = f) (h3 : t.mWallpaperWindows = w)
    (h4 : t.mWindows = x) (h5 : t.mConnections = c) :
    { t with
      mTouchedWindow := a
      mTouchedWallpaperWindows := b
      mFocusedWindow := f
      mWallpaperWindows := w
      mWindows := x
      mConnections := c } = { t with mTouchedWallpaperWindows := b } := by
  subst h1 h2 h3 h4 h5
  rfl

theorem setInputWindows_twice (x : List InputWindow) (s : State) :
    setInputWindows x (setInputWindows x s)
      = { setInputWindows x s with
          mTouchedWallpaperWindows :=
            (setInputWindows x (setInputWindows x s)).mTouchedWallpaperWindows } := by
  have h1 : (setInputWindows x s).mTouchedWindow = lastOnChannel (touchedChannel s) x 0 none := by
    rw [setInputWindows_fields]
    rfl
  have h2 : (setInputWindows x s).mFocusedWindow = lastFocus x 0 none := by
    rw [setInputWindows_fields]
    rfl
  have h3 : (setInputWindows x s).mWallpaperWindows = wallpaperIndices x 0 := by
    rw [setInputWindows_fields]
    rfl
  have h4 : (setInputWindows x s).mWindows = x := by
    rw [setInputWindows_fields]
    rfl
  have htc : touchedChannel (setInputWindows x s)
      = (lastOnChannel (touchedChannel s) x 0 none).map
          (fun w => (x.getD w default).inputChannel) := by
    simp only [touchedChannel, State.window, h4]
    rw [h1]
    rfl
  have h5 : lastOnChannel (touchedChannel (setInputWindows x s)) x 0 none
      = (setInputWindows x s).mTouchedWindow := by
    rw [htc, lastOnChannel_idem, h1]
  have hconn := setInputWindows_twice_mConnections x s
  have hb : (setInputWindows x (setInputWindows x s)).mTouchedWallpaperWindows
      = touchedWallpaperPushes
          ((setInputWindows x s).mTouchedWallpaperWindows.map
            (fun w => ((setInputWindows x s).window w).inputChannel)) x 0 := by
    rw [setInputWindows_fields x (setInputWindows x s)]
    rfl
  rw [hb]
  refine Eq.trans (setInputWindows_fields x (setInputWindows x s)) ?_
  exact state_touch_update (setInputWindows x s) _ _ _ _ _ _ h5.symm h2 h3 h4 hconn.symm

theorem setNext_next (m : QueueMemory) (n : Node) (v : Option Node) (k : Node) :
    (Queue.setNext m n v k).next = if k = n then v else (m k).next := by
  unfold Queue.setNext
  split <;> rfl

theorem setNext_prev (m : QueueMemory) (n : Node) (v : Option Node) (k : Node) :
    (Queue.setNext m n v k).prev = (m k).prev := by
  unfold Queue.setNext
  split <;> rfl

theorem setPrev_prev (m : QueueMemory) (n : Node) (v : Option Node) (k : Node) :
    (Queue.setPrev m n v k).prev = if k = n then v else (m k).prev := by
  unfold Queue.setPrev
  split <;> rfl

theorem setPrev_next (m : QueueMemory) (n : Node) (v : Option Node) (k : Node) :
    (Queue.setPrev m n v k).next = (m k).next := by
  unfold Queue.setPrev
  split <;> rfl

theorem chain_head_next (m : QueueMemory) (p q : Node) (l : List Nat) (h : Chain m p l q) :
    (m p).next = some (firstNode l q) := by
  cases l with
  | nil => exact h.1
  | cons e rest => exact h.1

theorem chain_tail_prev (m : QueueMemory) (q : Node) : ∀ (l : List Nat) (p : Node),
    Chain m p l q → (m q).prev = some (lastNode p l) := by
  intro l
  induction l with
  | nil => intro p h; exact h.2
  | cons e rest ih => intro p h; exact ih _ h.2.2

theorem lastNode_mem : ∀ (l : List Nat) (p : Node),
    lastNode p l = p ∨ ∃ e ∈ l, lastNode p l = Node.entry e := by
  intro l
  induction l with
  | nil => intro p; exact Or.inl rfl
  | cons e rest ih =>
    intro p
    right
    rcases ih (Node.entry e) with h | ⟨x, hx, h⟩
    · exact ⟨e, List.mem_cons_self _ _, h⟩
    · exact ⟨x, List.mem_cons_of_mem _ hx, h⟩

theorem chain_congr (m m1 : QueueMemory) (q : Node) : ∀ (l : List Nat) (p : Node),
    (m1 p).next = (m p).next →
    (∀ e ∈ l, (m1 (Node.entry e)).prev = (m (Node.entry e)).prev
      ∧ (m1 (Node.entry e)).next = (m (Node.entry e)).next) →
    (m1 q).prev = (m q).prev →
    Chain m p l q → Chain m1 p l q := by
  intro l
  induction l with
  | nil =>
    intro p hp _ hq h
    exact ⟨hp.trans h.1, hq.trans h.2⟩
  | cons e rest ih =>
    intro p hp hl hq h
    refine ⟨hp.trans h.1, (hl e (List.mem_cons_self _ _)).1.trans h.2.1, ?_⟩
    exact ih _ (hl e (List.mem_cons_self _ _)).2
      (fun x hx => hl x (List.mem_cons_of_mem _ hx)) hq h.2.2

/-! ### enqueueAtTail -/

theorem chain_enqueueAtTail (m m1 : QueueMemory) (e : Nat) (L : Node)
    (hnext : ∀ k, (m1 k).next = if k = Node.entry e then some Node.tailSentinel
      else if k = L then some (Node.entry e) else (m k).next)
    (hprev : ∀ k, (m1 k).prev = if k = Node.tailSentinel then some (Node.entry e)
      else if k = Node.entry e then some L else (m k).prev) :
    ∀ (l : List Nat) (p : Node), lastNode p l = L → Chain m p l Node.tailSentinel →
      p ≠ Node.entry e → e ∉ l → l.Nodup → (∀ x ∈ l, Node.entry x ≠ p) →
      Chain m1 p (l ++ [e]) Node.tailSentinel := by
  intro l
  induction l with
  | nil =>
    intro p hL _ hpe _ _ _
    have hL1 : p = L := hL
    subst hL1
    refine ⟨?_, ?_, ?_, ?_⟩
    · rw [hnext, if_neg hpe, if_pos rfl]
    · rw [hprev, if_neg (by simp), if_pos rfl]
    · rw [hnext, if_pos rfl]
    · rw [hprev, if_pos rfl]
  | cons x rest ih =>
    intro p hL h hpe he hnd hp
    have hxe : x ≠ e := fun hx => he (hx ▸ List.mem_cons_self _ _)
    have hpL : p ≠ L := by
      intro hpl
      rcases lastNode_mem rest (Node.entry x) with h1 | ⟨y, hy, h1⟩
      · have : L = Node.entry x := hL.symm.trans h1
        exact hp x (List.mem_cons_self _ _) (this.symm.trans hpl.symm)
      · have : L = Node.entry y := hL.symm.trans h1
        exact hp y (List.mem_cons_of_mem _ hy) (this.symm.trans hpl.symm)
    refine ⟨?_, ?_, ?_⟩
    · rw [hnext, if_neg hpe, if_neg hpL]
      exact h.1
    · rw [hprev, if_neg (by simp), if_neg (by simpa using hxe)]
      exact h.2.1
    · refine ih (Node.entry x) hL h.2.2 (by simpa using hxe)
        (fun hm => he (List.mem_cons_of_mem _ hm)) (List.nodup_cons.mp hnd).2 ?_
      intro y hy hyx
      have : y = x := by simpa using hyx
      exact (List.nodup_cons.mp hnd).1 (this ▸ hy)

theorem enqueueAtTail_represents (m : QueueMemory) (l : List Nat) (e : Nat)
    (h : Represents m l) (he : e ∉ l) :
    ∃ m1, Queue.enqueueAtTail (Node.entry e) m = some m1 ∧ Represents m1 (l ++ [e]) := by
  obtain ⟨hnd, hch⟩ := h
  have hlast := chain_tail_prev m _ l _ hch
  unfold Queue.enqueueAtTail
  rw [hlast]
  refine ⟨_, rfl, ?_, ?_⟩
  · rw [List.nodup_append]
    refine ⟨hnd, List.nodup_singleton _, ?_⟩
    intro a ha hb
    rw [List.mem_singleton] at hb
    exact he (hb ▸ ha)
  · refine chain_enqueueAtTail m _ e (lastNode Node.headSentinel l) ?_ ?_ l _ rfl hch
      (by simp) he hnd (by simp)
    · intro k
      simp only [setPrev_next, setNext_next]
    · intro k
      simp only [setPrev_prev, setNext_prev]

/-! ### enqueueAtHead -/

theorem enqueueAtHead_represents (m : QueueMemory) (l : List Nat) (e : Nat)
    (h : Represents m l) (he : e ∉ l) :
    ∃ m1, Queue.enqueueAtHead (Node.entry e) m = some m1 ∧ Represents m1 (e :: l) := by
  obtain ⟨hnd, hch⟩ := h
  have hfirst := chain_head_next m _ _ l hch
  unfold Queue.enqueueAtHead
  rw [hfirst]
  refine ⟨_, rfl, List.nodup_cons.mpr ⟨he, hnd⟩, ?_⟩
  have hfe : firstNode l Node.tailSentinel ≠ Node.entry e := by
    cases l with
    | nil => simp [firstNode]
    | cons x rest =>
      simp only [firstNode, ne_eq, Node.entry.injEq]
      intro hx
      exact he (hx ▸ List.mem_cons_self _ _)
  refine ⟨?_, ?_, ?_⟩
  · simp only [setPrev_next, setNext_next]
    simp
  · simp only [setPrev_prev, setNext_prev]
    rw [if_neg hfe.symm]
    simp
  · cases l with
    | nil =>
      refine ⟨?_, ?_⟩
      · simp only [setPrev_next, setNext_next, firstNode]
        simp
      · simp only [setPrev_prev, setNext_prev, firstNode]
        simp
    | cons x rest =>
      have hxe : x ≠ e := fun hx => he (hx ▸ List.mem_cons_self _ _)
      refine ⟨?_, ?_, ?_⟩
      · simp only [setPrev_next, setNext_next, firstNode]
        simp
      · simp only [setPrev_prev, setNext_prev, firstNode]
        simp
      · refine chain_congr m _ _ rest _ ?_ ?_ ?_ hch.2.2
        · simp only [setPrev_next, setNext_next]
          rw [if_neg (by simpa using hxe), if_neg (by simp)]
        · intro y hy
          have hye : y ≠ e := fun hx => he (hx ▸ List.mem_cons_of_mem _ hy)
          have hyx : y ≠ x := fun hx => (List.nodup_cons.mp hnd).1 (hx ▸ hy)
          constructor
          · simp only [setPrev_prev, setNext_prev, firstNode]
            rw [if_neg (by simpa using hyx), if_neg (by simpa using hye)]
          · simp only [setPrev_next, setNext_next]
            rw [if_neg (by simpa using hye), if_neg (by simp)]
        · simp only [setPrev_prev, setNext_prev, firstNode]
          rw [if_neg (by simp), if_neg (by simp)]

/-! ### dequeue -/

theorem chain_prev_of_mem (m : QueueMemory) (q : Node) (e : Nat) : ∀ (l : List Nat) (p : Node),
    Chain m p l q → e ∈ l →
    ∃ a, (m (Node.entry e)).prev = some a ∧ (a = p ∨ ∃ x ∈ l, a = Node.entry x) := by
  intro l
  induction l with
  | nil => intro p _ he; simp at he
  | cons x rest ih =>
    intro p h he
    by_cases hx : e = x
    · subst hx
      exact ⟨p, h.2.1, Or.inl rfl⟩
    · have her : e ∈ rest := by
        rcases List.mem_cons.mp he with h1 | h1
        · exact absurd h1 hx
        · exact h1
      obtain ⟨a, h1, h2⟩ := ih _ h.2.2 her
      refine ⟨a, h1, Or.inr ?_⟩
      rcases h2 with h2 | ⟨y, hy, h2⟩
      · exact ⟨x, List.mem_cons_self _ _, h2⟩
      · exact ⟨y, List.mem_cons_of_mem _ hy, h2⟩

theorem chain_next_of_mem (m : QueueMemory) (q : Node) (e : Nat) : ∀ (l : List Nat) (p : Node),
    Chain m p l q → e ∈ l →
    ∃ b, (m (Node.entry e)).next = some b ∧ (b = q ∨ ∃ x ∈ l, b = Node.entry x) := by
  intro l
  induction l with
  | nil => intro p _ he; simp at he
  | cons x rest ih =>
    intro p h he
    by_cases hx : e = x
    · subst hx
      refine ⟨firstNode rest q, chain_head_next m _ _ rest h.2.2, ?_⟩
      cases rest with
      | nil => exact Or.inl rfl
      | cons y r => exact Or.inr ⟨y, by simp, rfl⟩
    · have her : e ∈ rest := by
        rcases List.mem_cons.mp he with h1 | h1
        · exact absurd h1 hx
        · exact h1
      obtain ⟨b, h1, h2⟩ := ih _ h.2.2 her
      refine ⟨b, h1, ?_⟩
      rcases h2 with h2 | ⟨y, hy, h2⟩
      · exact Or.inl h2
      · exact Or.inr ⟨y, List.mem_cons_of_mem _ hy, h2⟩

theorem chain_dequeue (m m1 : QueueMemory) (e : Nat) (pe ne : Node) (q : Node)
    (hpe : (m (Node.entry e)).prev = some pe) (hne : (m (Node.entry e)).next = some ne)
    (hnext : ∀ k, (m1 k).next = if k = pe then some ne else (m k).next)
    (hprev : ∀ k, (m1 k).prev = if k = ne then some pe else (m k).prev)
    (hq : ∀ x : Nat, q ≠ Node.entry x) :
    ∀ (l : List Nat) (p : Node), Chain m p l q → e ∈ l → l.Nodup →
      (∀ x ∈ l, Node.entry x ≠ p) → p ≠ q → Chain m1 p (l.erase e) q := by
  intro l
  induction l with
  | nil => intro p _ he; simp at he
  | cons x rest ih =>
    intro p h he hnd hp hpq
    have hxr : x ∉ rest := (List.nodup_cons.mp hnd).1
    by_cases hx : x = e
    · subst hx
      rw [List.erase_cons_head]
      have h1 : pe = p := Option.some.inj (hpe.symm.trans h.2.1)
      have h2 : ne = firstNode rest q :=
        Option.some.inj (hne.symm.trans (chain_head_next m _ _ rest h.2.2))
      subst h1
      cases rest with
      | nil =>
        have h3 : ne = q := h2
        subst h3
        exact ⟨by rw [hnext, if_pos rfl], by rw [hprev, if_pos rfl]⟩
      | cons y r =>
        have h3 : ne = Node.entry y := h2
        subst h3
        have hyx : y ≠ x := fun hyx => hxr (hyx ▸ List.mem_cons_self _ _)
        have hyr : y ∉ r := (List.nodup_cons.mp (List.nodup_cons.mp hnd).2).1
        refine ⟨by rw [hnext, if_pos rfl], by rw [hprev, if_pos rfl], ?_⟩
        refine chain_congr m _ _ r _ ?_ ?_ ?_ h.2.2.2.2
        · rw [hnext, if_neg (hp y (by simp))]
        · intro z hz
          constructor
          · rw [hprev, if_neg]
            intro hzy
            exact hyr ((Node.entry.inj hzy) ▸ hz)
          · rw [hnext, if_neg (hp z (by simp [hz]))]
        · rw [hprev, if_neg]
          intro hqy
          exact hq y hqy
    · have her : e ∈ rest := by
        rcases List.mem_cons.mp he with h1 | h1
        · exact absurd h1.symm hx
        · exact h1
      have herase : (x :: rest).erase e = x :: rest.erase e := by
        rw [List.erase_cons_tail]
        simpa using hx
      rw [herase]
      obtain ⟨a, ha1, ha2⟩ := chain_prev_of_mem m q e rest _ h.2.2 her
      obtain ⟨b, hb1, hb2⟩ := chain_next_of_mem m q e rest _ h.2.2 her
      have hpa : pe = a := Option.some.inj (hpe.symm.trans ha1)
      have hnb : ne = b := Option.some.inj (hne.symm.trans hb1)
      have hppe : p ≠ pe := by
        rw [hpa]
        rcases ha2 with ha2 | ⟨y, hy, ha2⟩
        · rw [ha2]
          exact (hp x (List.mem_cons_self _ _)).symm
        · rw [ha2]
          exact (hp y (List.mem_cons_of_mem _ hy)).symm
      have hxne : Node.entry x ≠ ne := by
        rw [hnb]
        rcases hb2 with hb2 | ⟨y, hy, hb2⟩
        · rw [hb2]
          exact (hq x).symm
        · rw [hb2]
          intro hxy
          exact hxr ((Node.entry.inj hxy) ▸ hy)
      refine ⟨?_, ?_, ?_⟩
      · rw [hnext, if_neg hppe]
        exact h.1
      · rw [hprev, if_neg hxne]
        exact h.2.1
      · refine ih _ h.2.2 her (List.nodup_cons.mp hnd).2 ?_ (hq x).symm
        intro y hy hyx
        exact hxr ((Node.entry.inj hyx) ▸ hy)

theorem dequeue_represents (m : QueueMemory) (l : List Nat) (e : Nat)
    (h : Represents m l) (he : e ∈ l) :
    ∃ m1, Queue.dequeue (Node.entry e) m = some m1 ∧ Represents m1 (l.erase e) := by
  obtain ⟨hnd, hch⟩ := h
  obtain ⟨a, ha1, _⟩ := chain_prev_of_mem m _ e l _ hch he
  obtain ⟨b, hb1, _⟩ := chain_next_of_mem m _ e l _ hch he
  have hnext1 : (Queue.setNext m a (m (Node.entry e)).next (Node.entry e)).next = some b := by
    rw [setNext_next]
    split
    · exact hb1
    · exact hb1
  have hprev1 : (Queue.setNext m a (m (Node.entry e)).next (Node.entry e)).prev = some a := by
    rw [setNext_prev]
    exact ha1
  unfold Queue.dequeue
  rw [ha1]
  simp only [hnext1, hprev1]
  refine ⟨_, rfl, hnd.erase e, ?_⟩
  refine chain_dequeue m _ e a b _ ha1 hb1 ?_ ?_ (by simp) l _ hch he hnd (by simp) (by simp)
  · intro k
    rw [setPrev_next, setNext_next, hb1]
  · intro k
    rw [setPrev_prev, setNext_prev]

theorem dequeueAtHead_represents (m : QueueMemory) (e : Nat) (l : List Nat)
    (h : Represents m (e :: l)) :
    ∃ m1, Queue.dequeueAtHead m = some (Node.entry e, m1) ∧ Represents m1 l := by
  obtain ⟨m1, h1, h2⟩ := dequeue_represents m (e :: l) e h (List.mem_cons_self _ _)
  rw [List.erase_cons_head] at h2
  refine ⟨m1, ?_, h2⟩
  unfold Queue.dequeueAtHead
  rw [h.2.1]
  simp only [h1]
  rfl

/-! ### isEmpty, the constructor and the walks -/

theorem isEmpty_represents (m : QueueMemory) (l : List Nat) (h : Represents m l) :
    Queue.isEmpty m = true ↔ l = [] := by
  unfold Queue.isEmpty
  rw [decide_eq_true_iff, chain_head_next m _ _ l h.2]
  cases l with
  | nil => simp [firstNode]
  | cons x rest => simp [firstNode]

theorem new_represents (m : QueueMemory) : Represents (Queue.new m) [] := by
  refine ⟨List.nodup_nil, ?_, ?_⟩
  · simp [Queue.new, setNext_next, setPrev_next]
  · simp [Queue.new, setNext_prev, setPrev_prev]

theorem walkNext_chain (m : QueueMemory) : ∀ (l : List Nat) (p : Node) (fuel : Nat),
    Chain m p l Node.tailSentinel → l.length < fuel →
    Queue.walkNext m fuel (m p).next = some l := by
  intro l
  induction l with
  | nil =>
    intro p fuel h hf
    rw [h.1]
    cases fuel with
    | zero => simp at hf
    | succ n => rfl
  | cons e rest ih =>
    intro p fuel h hf
    rw [h.1]
    cases fuel with
    | zero => simp at hf
    | succ n =>
      unfold Queue.walkNext
      rw [ih _ n h.2.2 (by simpa using hf)]
      rfl

theorem chain_snoc (m : QueueMemory) (e : Nat) (q : Node) : ∀ (l : List Nat) (p : Node),
    Chain m p (l ++ [e]) q →
    Chain m p l (Node.entry e) ∧ (m (Node.entry e)).next = some q
      ∧ (m q).prev = some (Node.entry e) := by
  intro l
  induction l with
  | nil =>
    intro p h
    exact ⟨⟨h.1, h.2.1⟩, h.2.2.1, h.2.2.2⟩
  | cons x rest ih =>
    intro p h
    obtain ⟨h1, h2, h3⟩ := ih _ h.2.2
    exact ⟨⟨h.1, h.2.1, h1⟩, h2, h3⟩

theorem walkPrev_chain (m : QueueMemory) : ∀ (l : List Nat) (q : Node) (fuel : Nat),
    Chain m Node.headSentinel l q → l.length < fuel →
    Queue.walkPrev m fuel (m q).prev = some l.reverse := by
  intro l
  induction l using List.reverseRecOn with
  | nil =>
    intro q fuel h hf
    rw [h.2]
    cases fuel with
    | zero => simp at hf
    | succ n => rfl
  | append_singleton rest e ih =>
    intro q fuel h hf
    obtain ⟨h1, _, h3⟩ := chain_snoc m e q rest _ h
    rw [h3]
    cases fuel with
    | zero => simp at hf
    | succ n =>
      unfold Queue.walkPrev
      rw [ih _ n h1 (by simpa using hf)]
      simp

theorem walks_represents (m : QueueMemory) (l : List Nat) (h : Represents m l) (fuel : Nat)
    (hf : l.length < fuel) :
    Queue.headToTail m fuel = some l ∧ Queue.tailToHead m fuel = some l.reverse :=
  ⟨walkNext_chain m l _ fuel h.2 hf, walkPrev_chain m l _ fuel h.2 hf⟩

theorem queue_step_represents (op : QueueOp) (m : QueueMemory) (l : List Nat)
    (r : Option Nat × List Nat) (h : Represents m l) (hstep : listQueueStep op l = some r)
    (hfresh : enqueuesFresh [op] l = true) :
    ∃ m1, Queue.step op m = some (r.1.map Node.entry, m1) ∧ Represents m1 r.2 := by
  cases op with
  | enqueueAtTail e =>
    have he : e ∉ l := by
      have h0 := hfresh
      simp only [enqueuesFresh, QueueOp.fresh, Bool.and_eq_true, decide_eq_true_eq] at h0
      exact h0.1
    simp only [listQueueStep, Option.some.injEq] at hstep
    subst hstep
    obtain ⟨m1, h1, h2⟩ := enqueueAtTail_represents m l e h he
    exact ⟨m1, by simp [Queue.step, h1], h2⟩
  | enqueueAtHead e =>
    have he : e ∉ l := by
      have h0 := hfresh
      simp only [enqueuesFresh, QueueOp.fresh, Bool.and_eq_true, decide_eq_true_eq] at h0
      exact h0.1
    simp only [listQueueStep, Option.some.injEq] at hstep
    subst hstep
    obtain ⟨m1, h1, h2⟩ := enqueueAtHead_represents m l e h he
    exact ⟨m1, by simp [Queue.step, h1], h2⟩
  | dequeue e =>
    unfold listQueueStep at hstep
    simp only [] at hstep
    split at hstep
    · rename_i he
      simp only [Option.some.injEq] at hstep
      subst hstep
      obtain ⟨m1, h1, h2⟩ := dequeue_represents m l e h he
      exact ⟨m1, by simp [Queue.step, h1], h2⟩
    · cases hstep
  | dequeueAtHead =>
    cases l with
    | nil => simp [listQueueStep] at hstep
    | cons x rest =>
      simp only [listQueueStep, Option.some.injEq] at hstep
      subst hstep
      obtain ⟨m1, h1, h2⟩ := dequeueAtHead_represents m x rest h
      exact ⟨m1, by simp [Queue.step, h1], h2⟩

theorem enqueuesFresh_cons (op : QueueOp) (rest : List QueueOp) (l : List Nat)
    (r : Option Nat × List Nat) (hstep : listQueueStep op l = some r)
    (h : enqueuesFresh (op :: rest) l = true) :
    enqueuesFresh [op] l = true ∧ enqueuesFresh rest r.2 = true := by
  simp only [enqueuesFresh, hstep, Bool.and_eq_true] at h ⊢
  exact ⟨⟨h.1, trivial⟩, h.2⟩

theorem queue_run_represents : ∀ (ops : List QueueOp) (m : QueueMemory) (l : List Nat)
    (results : List (Option Nat)) (l1 : List Nat),
    Represents m l → listQueueRun ops l = some (results, l1) → enqueuesFresh ops l = true →
    ∃ m1, Queue.run ops m = some (results.map (Option.map Node.entry), m1)
      ∧ Represents m1 l1 := by
  intro ops
  induction ops with
  | nil =>
    intro m l results l1 h hrun _
    simp only [listQueueRun, Option.some.injEq, Prod.mk.injEq] at hrun
    obtain ⟨h1, h2⟩ := hrun
    subst h1 h2
    exact ⟨m, rfl, h⟩
  | cons op rest ih =>
    intro m l results l1 h hrun hfresh
    unfold listQueueRun at hrun
    cases hstep : listQueueStep op l with
    | none => simp [hstep] at hrun
    | some r =>
      simp only [hstep] at hrun
      cases hrest : listQueueRun rest r.2 with
      | none => simp [hrest] at hrun
      | some q =>
        simp only [hrest, Option.map_some', Option.some.injEq, Prod.mk.injEq] at hrun
        obtain ⟨h1, h2⟩ := hrun
        subst h1 h2
        obtain ⟨f1, f2⟩ := enqueuesFresh_cons op rest l r hstep hfresh
        obtain ⟨m1, k1, k2⟩ := queue_step_represents op m l r h hstep f1
        obtain ⟨m2, k3, k4⟩ := ih m1 r.2 q.1 q.2 k2 hrest f2
        refine ⟨m2, ?_, k4⟩
        unfold Queue.run
        simp only [k1, k3, Option.map_some', List.map_cons]

theorem queue_run_append : ∀ (a b : List QueueOp) (m : QueueMemory)
    (ra : List (Option Node)) (ma : QueueMemory) (rb : List (Option Node)) (mb : QueueMemory),
    Queue.run a m = some (ra, ma) → Queue.run b ma = some (rb, mb) →
    Queue.run (a ++ b) m = some (ra ++ rb, mb) := by
  intro a
  induction a with
  | nil =>
    intro b m ra ma rb mb ha hb
    simp only [Queue.run, Option.some.injEq, Prod.mk.injEq] at ha
    obtain ⟨h1, h2⟩ := ha
    subst h1 h2
    simpa using hb
  | cons op rest ih =>
    intro b m ra ma rb mb ha hb
    unfold Queue.run at ha
    cases hstep : Queue.step op m with
    | none => simp [hstep] at ha
    | some r =>
      simp only [hstep] at ha
      cases hrest : Queue.run rest r.2 with
      | none => simp [hrest] at ha
      | some q =>
        simp only [hrest, Option.map_some', Option.some.injEq, Prod.mk.injEq] at ha
        obtain ⟨h1, h2⟩ := ha
        subst h1 h2
        have := ih b r.2 q.1 q.2 rb mb hrest hb
        rw [List.cons_append]
        unfold Queue.run
        simp only [hstep, this, Option.map_some', List.cons_append]

theorem queue_enqueue_all : ∀ (es : List Nat) (m : QueueMemory) (l : List Nat),
    Represents m l → (l ++ es).Nodup →
    ∃ m1, Queue.run (es.map QueueOp.enqueueAtTail) m
        = some (List.replicate es.length none, m1)
      ∧ Represents m1 (l ++ es) := by
  intro es
  induction es with
  | nil =>
    intro m l h _
    exact ⟨m, rfl, by simpa using h⟩
  | cons e rest ih =>
    intro m l h hnd
    have he : e ∉ l := by
      intro hel
      have := List.nodup_append.mp hnd
      exact this.2.2 hel (List.mem_cons_self _ _)
    obtain ⟨m1, h1, h2⟩ := enqueueAtTail_represents m l e h he
    have hnd1 : ((l ++ [e]) ++ rest).Nodup := by simpa using hnd
    obtain ⟨m2, h3, h4⟩ := ih m1 (l ++ [e]) h2 hnd1
    refine ⟨m2, ?_, by simpa using h4⟩
    simp only [List.map_cons, Queue.run, Queue.step, h1, Option.map_some', h3,
      List.length_cons, List.replicate_succ]

theorem queue_dequeue_all : ∀ (l : List Nat) (m : QueueMemory), Represents m l →
    ∃ m1, Queue.run (List.replicate l.length QueueOp.dequeueAtHead) m
        = some (l.map (fun e => some (Node.entry e)), m1)
      ∧ Represents m1 [] := by
  intro l
  induction l with
  | nil =>
    intro m h
    exact ⟨m, rfl, h⟩
  | cons e rest ih =>
    intro m h
    obtain ⟨m1, h1, h2⟩ := dequeueAtHead_represents m e rest h
    obtain ⟨m2, h3, h4⟩ := ih m1 h2
    refine ⟨m2, ?_, h4⟩
    simp only [List.length_cons, List.replicate_succ, Queue.run, Queue.step, h1,
      Option.map_some', h3, List.map_cons]

theorem handleTargetsNotReadyLocked_cause (currentTime : Int)
    (application : Option InputApplication) (window : Option Nat) (s : State) :
    (handleTargetsNotReadyLocked currentTime application window s).2.mInputTargetWaitCause
      = waitCauseOf application window := by
  unfold handleTargetsNotReadyLocked waitCauseOf
  simp only [postCommandLocked]
  split_ifs <;> simp_all

theorem handleTargetsNotReadyLocked_enter (currentTime : Int)
    (application : Option InputApplication) (window : Option Nat) (s : State)
    (hc : s.mInputTargetWaitCause ≠ waitCauseOf application window) :
    (handleTargetsNotReadyLocked currentTime application window s).1
        = INPUT_EVENT_INJECTION_PENDING
      ∧ (handleTargetsNotReadyLocked currentTime application window s).2.mInputTargetWaitStartTime
        = currentTime
      ∧ (handleTargetsNotReadyLocked currentTime application window
          s).2.mInputTargetWaitTimeoutExpired = false := by
  unfold waitCauseOf at hc
  unfold handleTargetsNotReadyLocked
  simp only [postCommandLocked]
  split_ifs at hc ⊢ <;> simp_all

theorem handleTargetsNotReadyLocked_again (currentTime : Int)
    (application : Option InputApplication) (window : Option Nat) (s : State)
    (hc : s.mInputTargetWaitCause = waitCauseOf application window) :
    handleTargetsNotReadyLocked currentTime application window s
      = if s.mInputTargetWaitTimeoutExpired then (INPUT_EVENT_INJECTION_TIMED_OUT, s)
        else if currentTime ≥ s.mInputTargetWaitTimeoutTime then
          (INPUT_EVENT_INJECTION_PENDING,
            { s with
              mCommandQueue := s.mCommandQueue ++ [targetsNotReadyCommand application window s]
              nextWakeupTime := LONG_LONG_MIN })
        else
          (INPUT_EVENT_INJECTION_PENDING,
            { s with
              nextWakeupTime :=
                if s.mInputTargetWaitTimeoutTime < s.nextWakeupTime then
                  s.mInputTargetWaitTimeoutTime
                else s.nextWakeupTime }) := by
  unfold handleTargetsNotReadyLocked targetsNotReadyCommand
  cases hb : (application.isNone && window.isNone)
  · simp only [waitCauseOf, hb, Bool.false_eq_true, if_false] at hc
    simp only [hc, ne_eq, not_true_eq_false, if_false, Bool.false_eq_true, postCommandLocked]
    split_ifs <;> first | rfl | (cases s; simp only at hc; subst hc; rfl)
  · simp only [waitCauseOf, hb, if_true] at hc
    simp only [hc, ne_eq, not_true_eq_false, if_false, if_true, postCommandLocked]
    split_ifs <;> first | rfl | (cases s; simp only at hc; subst hc; rfl)

theorem syncOk_of_flag (st : InputState) (h : st.mIsOutOfSync = false) : st.SyncOk := by
  intro hs
  rw [InputState.isOutOfSync, h] at hs
  cases hs

theorem syncOk_of_not_neutral (st : InputState) (h : st.isNeutral = false) : st.SyncOk :=
  fun _ => h

theorem syncOk_settle (st : InputState) :
    (if st.isNeutral then { st with mIsOutOfSync := false } else st).SyncOk := by
  split
  · exact syncOk_of_flag _ rfl
  · rename_i h
    refine syncOk_of_not_neutral _ ?_
    cases hn : st.isNeutral
    · rfl
    · exact absurd hn h

theorem isNeutral_append_key (st : InputState) (memento : KeyMemento) :
    InputState.isNeutral { st with mKeyMementos := st.mKeyMementos ++ [memento] } = false := by
  simp [InputState.isNeutral]

theorem isNeutral_append_motion (st : InputState) (memento : MotionMemento) :
    InputState.isNeutral { st with mMotionMementos := st.mMotionMementos ++ [memento] }
      = false := by
  simp [InputState.isNeutral]

theorem isNeutral_modifyAt (st : InputState) (f : MotionMemento → MotionMemento) (i : Nat) :
    InputState.isNeutral { st with mMotionMementos := modifyAt f i st.mMotionMementos }
      = st.isNeutral := by
  simp only [InputState.isNeutral]
  congr 1
  cases hl : st.mMotionMementos with
  | nil => cases i <;> rfl
  | cons a l => cases i <;> rfl

theorem syncOk_trackKey (st : InputState) (entry : KeyEntry) (h : st.SyncOk) :
    (st.trackKey entry).2.SyncOk := by
  unfold InputState.trackKey
  split
  · split_ifs
    · exact syncOk_settle _
    · exact h
    · exact h
  · split_ifs
    · exact syncOk_of_not_neutral _ (isNeutral_append_key _ _)
    · exact h

theorem syncOk_trackMotion (st : InputState) (entry : MotionEntry) (h : st.SyncOk) :
    (st.trackMotion entry).2.SyncOk := by
  have hm : ∀ (f : MotionMemento → MotionMemento) (i : Nat),
      InputState.SyncOk { st with mMotionMementos := modifyAt f i st.mMotionMementos } := by
    intro f i hs
    rw [isNeutral_modifyAt]
    exact h hs
  unfold InputState.trackMotion
  simp only []
  split
  · split
    · exact h
    · split_ifs <;>
        first
        | exact h
        | exact hm _ _
        | exact syncOk_of_flag _ rfl
        | exact syncOk_of_not_neutral _ (Bool.eq_false_iff.mpr ‹_›)
  · split_ifs
    · exact syncOk_of_not_neutral _ (isNeutral_append_motion _ _)
    · exact h

theorem syncOk_trackEvent (st : InputState) (entry : EventEntry) (h : st.SyncOk) :
    (st.trackEvent entry).2.SyncOk := by
  unfold InputState.trackEvent
  split
  · exact syncOk_trackKey _ _ h
  · exact syncOk_trackMotion _ _ h
  · exact h

theorem modifyAt_modifyAt {α : Type} (f g : α → α) : ∀ (n : Nat) (l : List α),
    modifyAt f n (modifyAt g n l) = modifyAt (fun a => f (g a)) n l := by
  intro n l
  induction l generalizing n with
  | nil => cases n <;> rfl
  | cons x xs ih =>
    cases n with
    | zero => rfl
    | succ n => simp only [modifyAt, ih]

theorem modifyAt_congr {α : Type} (f g : α → α) : ∀ (n : Nat) (l : List α) (a : α),
    l[n]? = some a → f a = g a → modifyAt f n l = modifyAt g n l := by
  intro n l
  induction l generalizing n with
  | nil => intro a h; cases n <;> simp at h
  | cons x xs ih =>
    intro a h hfg
    cases n with
    | zero =>
      simp only [List.getElem?_cons_zero, Option.some.injEq] at h
      subst h
      simp only [modifyAt, hfg]
    | succ n =>
      simp only [List.getElem?_cons_succ] at h
      simp only [modifyAt, ih n a h hfg]

theorem modifyAt_append_last {α : Type} (f g : α → α) (a : α) : ∀ (l : List α) (n : Nat),
    n < l.length → modifyAt f l.length (modifyAt g n (l ++ [a])) = modifyAt g n l ++ [f a] := by
  intro l
  induction l with
  | nil => intro n hn; cases hn
  | cons x xs ih =>
    intro n hn
    cases n with
    | zero =>
      show g x :: modifyAt f xs.length (xs ++ [a]) = g x :: (xs ++ [f a])
      rw [modifyAt_length_append]
    | succ n =>
      show x :: modifyAt f xs.length (modifyAt g n (xs ++ [a])) = x :: (modifyAt g n xs ++ [f a])
      rw [ih n (Nat.lt_of_succ_lt_succ hn)]

theorem synthesizeKeyRepeatLocked_inPlace (currentTime keyRepeatDelay : Int) (s : State)
    (entry : Nat) (e : EventEntry) (k : KeyEntry)
    (hlast : s.mKeyRepeatState.lastKeyEntry = some entry)
    (he : s.mEvents[entry]? = some e) (hb : e.body = EventBody.key k) (hr : e.refCount = 1) :
    synthesizeKeyRepeatLocked currentTime keyRepeatDelay s
      = (some entry,
          { s with
            mEvents := modifyAt (fun _ =>
              { e with
                eventTime := currentTime
                refCount := 2
                injectionResult := INPUT_EVENT_INJECTION_PENDING
                dispatchInProgress := false
                pendingSyncDispatches := 0
                body := EventBody.key k.nextRepeat }) entry s.mEvents
            mKeyRepeatState :=
              { lastKeyEntry := some entry, nextRepeatTime := currentTime + keyRepeatDelay } }) := by
  have hk : s.keyOf entry = some (e, k) := by
    unfold State.keyOf
    rw [he]
    simp only [hb]
  unfold synthesizeKeyRepeatLocked
  simp only [hlast, hk, hr, if_true]
  refine Prod.ext rfl ?_
  simp only [modifyKey, modifyEvent, modifyAt_modifyAt]
  congr 1
  · refine modifyAt_congr _ _ entry s.mEvents e he ?_
    simp only [EventEntry.recycle, KeyEntry.recycle, hb, KeyEntry.nextRepeat, hr]
    split <;> rfl
  · rw [hlast]

theorem synthesizeKeyRepeatLocked_fresh (currentTime keyRepeatDelay : Int) (s : State)
    (entry : Nat) (e : EventEntry) (k : KeyEntry)
    (hlast : s.mKeyRepeatState.lastKeyEntry = some entry)
    (he : s.mEvents[entry]? = some e) (hb : e.body = EventBody.key k) (hr : e.refCount ≠ 1) :
    synthesizeKeyRepeatLocked currentTime keyRepeatDelay s
      = (some s.mEvents.length,
          { s with
            mEvents :=
              modifyAt (fun _ => { e with refCount := e.refCount - 1 }) entry s.mEvents
                ++ [{ initializeEventEntry (EventBody.key k.nextRepeat) currentTime with
                      refCount := 2 }]
            mKeyRepeatState :=
              { lastKeyEntry := some s.mEvents.length
                nextRepeatTime := currentTime + keyRepeatDelay } }) := by
  have hk : s.keyOf entry = some (e, k) := by
    unfold State.keyOf
    rw [he]
    simp only [hb]
  have hlt : entry < s.mEvents.length := by
    by_contra hge
    rw [List.getElem?_eq_none (Nat.le_of_not_lt hge)] at he
    cases he
  unfold synthesizeKeyRepeatLocked
  simp only [hlast, hk, hr, if_false]
  refine Prod.ext rfl ?_
  simp only [modifyKey, modifyEvent, modifyAt_modifyAt, obtainKeyEntry, allocEvent,
    releaseKeyEntry]
  rw [modifyAt_append_last _ _ _ _ _ hlt]
  congr 1
  congr 1
  · exact modifyAt_congr _ _ entry s.mEvents e he rfl
  · congr 1
    simp only [initializeEventEntry, KeyEntry.nextRepeat]
    split <;> rfl

theorem resetKeyRepeatLocked_mEvents (s : State) (i : Nat) :
    (resetKeyRepeatLocked s).mEvents[i]?
      = if s.mKeyRepeatState.lastKeyEntry = some i then
          (s.mEvents[i]?).map (fun e => { e with refCount := e.refCount - 1 })
        else s.mEvents[i]? := by
  unfold resetKeyRepeatLocked
  split
  · rename_i entry h
    show (modifyAt _ entry s.mEvents)[i]? = _
    rw [getElem?_modifyAt, h]
    by_cases hi : i = entry
    · subst hi
      simp
    · rw [if_neg hi, if_neg (fun hx => hi (Option.some.inj hx).symm)]
  · rename_i h
    rw [h, if_neg (fun hx => by cases hx)]

theorem resetKeyRepeatLocked_frame (s : State) :
    resetKeyRepeatLocked s
      = { s with
          mEvents := (resetKeyRepeatLocked s).mEvents
          mKeyRepeatState := { s.mKeyRepeatState with lastKeyEntry := none } } := by
  unfold resetKeyRepeatLocked
  split
  · rfl
  · rename_i h
    cases s
    simp only at h
    cases hk : ‹KeyRepeatState›
    rw [hk] at h
    simp only at h
    subst h
    rfl

theorem dispatchKeyPreprocess_down (entry : Nat) (keyRepeatTimeout : Int) (s : State)
    (e : EventEntry) (k : KeyEntry)
    (he : s.mEvents[entry]? = some e) (hb : e.body = EventBody.key k)
    (hcount : k.repeatCount = 0) (hdown : k.action = AKEY_EVENT_ACTION_DOWN)
    (hinj : e.isInjected = false) :
    dispatchKeyPreprocess entry keyRepeatTimeout s
      = startFindingTargetsLocked
          (modifyEvent entry (fun e => { e with dispatchInProgress := true })
            (modifyEvent entry (fun e => { e with refCount := e.refCount + 1 })
              { resetKeyRepeatLocked
                  (match s.lastKey with
                    | some lastKey =>
                      if lastKey.keyCode = k.keyCode then
                        modifyKey entry (fun k => { k with repeatCount := lastKey.repeatCount + 1 }) s
                      else s
                    | none => s) with
                mKeyRepeatState :=
                  { lastKeyEntry := some entry
                    nextRepeatTime :=
                      match s.lastKey with
                      | some lastKey =>
                        if lastKey.keyCode = k.keyCode then LONG_LONG_MAX
                        else e.eventTime + keyRepeatTimeout
                      | none => e.eventTime + keyRepeatTimeout } })) := by
  have hk : s.keyOf entry = some (e, k) := by
    unfold State.keyOf
    rw [he]
    simp only [hb]
  unfold dispatchKeyPreprocess
  simp only [hk, hcount, hdown, hinj, and_self, if_true]
  congr 2
  unfold State.lastKey
  cases hl : s.mKeyRepeatState.lastKeyEntry with
  | none => simp only []
  | some last =>
    simp only []
    cases hlk : (s.keyOf last).map (fun r => r.2) with
    | none => simp only []
    | some lastKey =>
      simp only []
      split
      · rw [resetKeyRepeatLocked_frame]
      · rw [resetKeyRepeatLocked_frame]

theorem dispatchKeyPreprocess_notRepeat (entry : Nat) (keyRepeatTimeout : Int) (s : State)
    (e : EventEntry) (k : KeyEntry)
    (he : s.mEvents[entry]? = some e) (hb : e.body = EventBody.key k)
    (hcount : k.repeatCount = 0) (hdown : k.action = AKEY_EVENT_ACTION_DOWN)
    (hinj : e.isInjected = false)
    (hnew : ∀ lastKey, s.lastKey = some lastKey → lastKey.keyCode ≠ k.keyCode) :
    dispatchKeyPreprocess entry keyRepeatTimeout s
      = startFindingTargetsLocked
          (modifyEvent entry (fun e => { e with dispatchInProgress := true })
            (modifyEvent entry (fun e => { e with refCount := e.refCount + 1 })
              { resetKeyRepeatLocked s with
                mKeyRepeatState :=
                  { lastKeyEntry := some entry
                    nextRepeatTime := e.eventTime + keyRepeatTimeout } })) := by
  rw [dispatchKeyPreprocess_down entry keyRepeatTimeout s e k he hb hcount hdown hinj]
  cases hl : s.lastKey with
  | none => rfl
  | some lastKey =>
    simp only [if_neg (hnew lastKey hl)]

theorem dispatchKeyPreprocess_driverRepeat (entry : Nat) (keyRepeatTimeout : Int) (s : State)
    (e : EventEntry) (k lastKey : KeyEntry)
    (he : s.mEvents[entry]? = some e) (hb : e.body = EventBody.key k)
    (hcount : k.repeatCount = 0) (hdown : k.action = AKEY_EVENT_ACTION_DOWN)
    (hinj : e.isInjected = false)
    (hl : s.lastKey = some lastKey) (hcode : lastKey.keyCode = k.keyCode) :
    dispatchKeyPreprocess entry keyRepeatTimeout s
      = startFindingTargetsLocked
          (modifyEvent entry (fun e => { e with dispatchInProgress := true })
            (modifyEvent entry (fun e => { e with refCount := e.refCount + 1 })
              { resetKeyRepeatLocked
                  (modifyKey entry (fun k => { k with repeatCount := lastKey.repeatCount + 1 })
                    s) with
                mKeyRepeatState :=
                  { lastKeyEntry := some entry, nextRepeatTime := LONG_LONG_MAX } })) := by
  rw [dispatchKeyPreprocess_down entry keyRepeatTimeout s e k he hb hcount hdown hinj]
  simp only [hl, if_pos hcode]

theorem lastKey_of_entry (s : State) (entry : Nat) (e : EventEntry) (k : KeyEntry)
    (he : s.mEvents[entry]? = some e) (hb : e.body = EventBody.key k)
    (hl : s.mKeyRepeatState.lastKeyEntry = some entry) : s.lastKey = some k := by
  unfold State.lastKey State.keyOf
  rw [hl]
  simp only [he, hb, Option.map_some']

theorem armed_mEvents (entry : Nat) (m : State) (ks : KeyRepeatState) (i : Nat) :
    (startFindingTargetsLocked
      (modifyEvent entry (fun e => { e with dispatchInProgress := true })
        (modifyEvent entry (fun e => { e with refCount := e.refCount + 1 })
          { resetKeyRepeatLocked m with mKeyRepeatState := ks }))).mEvents[i]?
      = if i = entry then
          ((resetKeyRepeatLocked m).mEvents[i]?).map (fun e =>
            { e with refCount := e.refCount + 1, dispatchInProgress := true })
        else (resetKeyRepeatLocked m).mEvents[i]? := by
  show (modifyAt _ entry (modifyAt _ entry (resetKeyRepeatLocked m).mEvents))[i]? = _
  rw [getElem?_modifyAt, getElem?_modifyAt]
  split
  · cases (resetKeyRepeatLocked m).mEvents[i]? <;> rfl
  · rfl

theorem dispatchKeyLocked_preprocessed (env : Env) (currentTime : Int) (entry : Nat)
    (keyRepeatTimeout : Int) (s : State) (e e1 : EventEntry)
    (he : s.mEvents[entry]? = some e) (hfirst : e.dispatchInProgress = false)
    (he1 : (dispatchKeyPreprocess entry keyRepeatTimeout s).mEvents[entry]? = some e1)
    (h1 : e1.dispatchInProgress = true) :
    dispatchKeyLocked env currentTime entry keyRepeatTimeout s
      = dispatchKeyLocked env currentTime entry keyRepeatTimeout
          (dispatchKeyPreprocess entry keyRepeatTimeout s) := by
  conv_lhs => unfold dispatchKeyLocked
  conv_rhs => unfold dispatchKeyLocked
  simp only [he, he1, hfirst, h1, Bool.not_false, Bool.not_true, if_true, Bool.false_eq_true,
    if_false]

theorem pickPendingEvent_throttled (currentTime keyRepeatDelay : Int) (isAppSwitchDue : Bool)
    (s : State) (entry : Nat) (rest : List Nat) (e : EventEntry) (m : MotionEntry)
    (hq : s.mInboundQueue = entry :: rest) (he : s.mEvents[entry]? = some e)
    (hb : e.body = EventBody.motion m) (h : Throttled currentTime isAppSwitchDue s rest m) :
    pickPendingEvent currentTime keyRepeatDelay isAppSwitchDue s
      = (false, isAppSwitchDue,
          { s with
            nextWakeupTime :=
              if s.mThrottleState.lastEventTime + s.mThrottleState.minTimeBetweenEvents
                  < s.nextWakeupTime then
                s.mThrottleState.lastEventTime + s.mThrottleState.minTimeBetweenEvents
              else s.nextWakeupTime
            mThrottleState :=
              { s.mThrottleState with
                originalSampleCount :=
                  if s.mThrottleState.originalSampleCount = 0 then m.countSamples
                  else s.mThrottleState.originalSampleCount } }) := by
  obtain ⟨h1, h2, h3, h4, h5, h6⟩ := h
  have key : ∀ r : Bool × Bool × State,
      r = (false, isAppSwitchDue,
          { s with
            nextWakeupTime :=
              if s.mThrottleState.lastEventTime + s.mThrottleState.minTimeBetweenEvents
                  < s.nextWakeupTime then
                s.mThrottleState.lastEventTime + s.mThrottleState.minTimeBetweenEvents
              else s.nextWakeupTime
            mThrottleState :=
              { s.mThrottleState with
                originalSampleCount :=
                  if s.mThrottleState.originalSampleCount = 0 then m.countSamples
                  else s.mThrottleState.originalSampleCount } }) →
      pickPendingEvent currentTime keyRepeatDelay isAppSwitchDue s = r := by
    intro r hr
    unfold pickPendingEvent
    split
    · rename_i hnil
      rw [hq] at hnil
      cases hnil
    · rename_i entry1 rest1 hq1
      obtain ⟨hx, hy⟩ := List.cons.inj (hq.symm.trans hq1)
      subst hx hy
      simp only [he, hb, h1, h2, h3, h4, h5, h6, Bool.not_false, List.isEmpty_nil,
        beq_self_eq_true, Bool.and_self, decide_True, if_true]
      subst hr
      rw [h1]
      split_ifs <;> rfl
  exact key _ rfl

theorem pickPendingEvent_taken (currentTime keyRepeatDelay : Int) (isAppSwitchDue : Bool)
    (s : State) (entry : Nat) (rest : List Nat) (e : EventEntry) (m : MotionEntry)
    (hq : s.mInboundQueue = entry :: rest) (he : s.mEvents[entry]? = some e)
    (hb : e.body = EventBody.motion m) (h : ¬ Throttled currentTime isAppSwitchDue s rest m) :
    pickPendingEvent currentTime keyRepeatDelay isAppSwitchDue s
      = (true, isAppSwitchDue,
          { s with
            mInboundQueue := rest
            mPendingEvent := some entry
            mThrottleState :=
              { s.mThrottleState with
                lastEventTime := if e.eventTime < currentTime then e.eventTime else currentTime
                lastDeviceId := m.deviceId
                lastSource := m.source } }) := by
  have key : ∀ r : Bool × Bool × State,
      r = (true, isAppSwitchDue,
          { s with
            mInboundQueue := rest
            mPendingEvent := some entry
            mThrottleState :=
              { s.mThrottleState with
                lastEventTime := if e.eventTime < currentTime then e.eventTime else currentTime
                lastDeviceId := m.deviceId
                lastSource := m.source } }) →
      pickPendingEvent currentTime keyRepeatDelay isAppSwitchDue s = r := by
    intro r hr
    unfold pickPendingEvent
    split
    · rename_i hnil
      rw [hq] at hnil
      cases hnil
    · rename_i entry1 rest1 hq1
      obtain ⟨hx, hy⟩ := List.cons.inj (hq.symm.trans hq1)
      subst hx hy
      simp only [he, hb]
      rw [if_neg]
      · exact hr.symm
      · intro hc
        apply h
        simp only [Bool.and_eq_true, Bool.not_eq_true', List.isEmpty_iff, beq_iff_eq,
          decide_eq_true_eq] at hc
        obtain ⟨⟨⟨⟨⟨h1, h2⟩, h3⟩, h4⟩, h5⟩, h6⟩ := hc
        exact ⟨h1, h2, h3, h4, h5, h6⟩
  exact key _ rfl

theorem dispatchOnceInnerLocked_pass (env : Env) (keyRepeatTimeout keyRepeatDelay : Int)
    (s : State) (henabled : s.mDispatchEnabled = true) (hfrozen : s.mDispatchFrozen = false) :
    dispatchOnceInnerLocked env keyRepeatTimeout keyRepeatDelay s
      = if (passBeforeEvent env keyRepeatTimeout s).1.havePendingSyncTarget then
          (passBeforeEvent env keyRepeatTimeout s).2
        else if (passBeforeEvent env keyRepeatTimeout s).2.mPendingEvent.isNone then
          if (pickPendingEvent env.now keyRepeatDelay (decide (s.mAppSwitchDueTime ≤ env.now))
              (passBeforeEvent env keyRepeatTimeout s).2).1 then
            dispatchPendingEvent env env.now keyRepeatTimeout
              (pickPendingEvent env.now keyRepeatDelay (decide (s.mAppSwitchDueTime ≤ env.now))
                (passBeforeEvent env keyRepeatTimeout s).2).2.1
              (pickPendingEvent env.now keyRepeatDelay (decide (s.mAppSwitchDueTime ≤ env.now))
                (passBeforeEvent env keyRepeatTimeout s).2).2.2
          else
            (pickPendingEvent env.now keyRepeatDelay (decide (s.mAppSwitchDueTime ≤ env.now))
              (passBeforeEvent env keyRepeatTimeout s).2).2.2
        else
          dispatchPendingEvent env env.now keyRepeatTimeout
            (decide (s.mAppSwitchDueTime ≤ env.now)) (passBeforeEvent env keyRepeatTimeout s).2 := by
  have h1 : (if keyRepeatTimeout < 0 then resetKeyRepeatLocked s else s).mAppSwitchDueTime
      = s.mAppSwitchDueTime := by
    split
    · unfold resetKeyRepeatLocked; split <;> rfl
    · rfl
  have h2 : (if keyRepeatTimeout < 0 then resetKeyRepeatLocked s else s).mDispatchEnabled
      = true := by
    rw [← henabled]
    split
    · unfold resetKeyRepeatLocked; split <;> rfl
    · rfl
  have h3 : (if keyRepeatTimeout < 0 then resetKeyRepeatLocked s else s).mDispatchFrozen
      = false := by
    rw [← hfrozen]
    split
    · unfold resetKeyRepeatLocked; split <;> rfl
    · rfl
  have hunfold : dispatchOnceInnerLocked env keyRepeatTimeout keyRepeatDelay s
      = (let s1 := if keyRepeatTimeout < 0 then resetKeyRepeatLocked s else s
         if ! s1.mDispatchEnabled then
           if s1.mPendingEvent.isSome || ! s1.mInboundQueue.isEmpty then
             drainInboundQueueLocked (releasePendingEventLocked true s1)
           else s1
         else if s1.mDispatchFrozen then s1
         else
           let isAppSwitchDue : Bool := decide (s1.mAppSwitchDueTime ≤ env.now)
           let p := passBeforeEvent env keyRepeatTimeout s
           if p.1.havePendingSyncTarget then p.2
           else if p.2.mPendingEvent.isNone then
             let r := pickPendingEvent env.now keyRepeatDelay isAppSwitchDue p.2
             if r.1 then dispatchPendingEvent env env.now keyRepeatTimeout r.2.1 r.2.2
             else r.2.2
           else dispatchPendingEvent env env.now keyRepeatTimeout isAppSwitchDue p.2) := rfl
  rw [hunfold]
  simp only [h1, h2, h3, Bool.not_true, Bool.false_eq_true, if_false]

theorem scanActiveConnections_due_mConnections (currentTime : Int) (cs : List Nat) :
    ∀ (acc : ConnectionScan) (s : State),
      (scanActiveConnections currentTime true cs acc s).2.mConnections
        = (preemptConnections cs s).2.mConnections := by
  induction cs with
  | nil => intro acc s; rfl
  | cons connection rest ih =>
    intro acc s
    unfold scanActiveConnections preemptConnections
    split
    · exact ih _ _
    · rename_i c hc
      simp only [if_true]
      by_cases hp : c.hasPendingSyncTarget = true
      · simp only [hp, if_true]
        split_ifs <;> (rw [ih]; try exact preemptConnections_congr rest _ _ rfl)
      · simp only [hp, Bool.false_eq_true, if_false]
        split_ifs <;> (rw [ih]; try exact preemptConnections_congr rest _ _ rfl)

theorem scanActiveConnections_notDue (currentTime : Int) (cs : List Nat) :
    ∀ (acc : ConnectionScan) (s : State),
      (scanActiveConnections currentTime false cs acc s).1
          = { havePendingSyncTarget :=
                acc.havePendingSyncTarget || cs.any (fun i => s.hasPendingSyncTarget i)
              timedOutConnections :=
                acc.timedOutConnections ++ cs.filter (fun i => s.isTimedOut currentTime i) }
        ∧ (scanActiveConnections currentTime false cs acc s).2
          = { s with
              nextWakeupTime :=
                (scanActiveConnections currentTime false cs acc s).2.nextWakeupTime } := by
  induction cs with
  | nil =>
    intro acc s
    simp [scanActiveConnections]
  | cons connection rest ih =>
    intro acc s
    unfold scanActiveConnections
    split
    · rename_i hnone
      have h1 : s.hasPendingSyncTarget connection = false := by
        unfold State.hasPendingSyncTarget; rw [hnone]
      have h2 : s.isTimedOut currentTime connection = false := by
        unfold State.isTimedOut; rw [hnone]
      refine ⟨?_, (ih _ _).2⟩
      rw [(ih _ _).1]
      simp [h1, h2]
    · rename_i c hc
      have h1 : s.hasPendingSyncTarget connection = c.hasPendingSyncTarget := by
        unfold State.hasPendingSyncTarget; rw [hc]
      have h2 : s.isTimedOut currentTime connection = decide (c.nextTimeoutTime ≤ currentTime) := by
        unfold State.isTimedOut; rw [hc]
      have hs : ∀ (w : Int) (i : Nat),
          State.hasPendingSyncTarget { s with nextWakeupTime := w } i = s.hasPendingSyncTarget i :=
        fun _ _ => rfl
      have ht : ∀ (w : Int) (i : Nat),
          State.isTimedOut { s with nextWakeupTime := w } currentTime i
            = s.isTimedOut currentTime i :=
        fun _ _ => rfl
      simp only [Bool.false_eq_true, if_false]
      by_cases hp : c.hasPendingSyncTarget = true
      · simp only [hp, if_true]
        split_ifs with ha hb
        · refine ⟨?_, (ih _ _).2⟩
          rw [(ih _ _).1]
          simp [h1, h2, hp, ha]
        · refine ⟨?_, ?_⟩
          · rw [(ih _ _).1]
            simp [h1, h2, hp, ha, hs, ht]
          · exact (ih _ _).2
        · refine ⟨?_, (ih _ _).2⟩
          rw [(ih _ _).1]
          simp [h1, h2, hp, ha]
      · have hp' : c.hasPendingSyncTarget = false := by
          cases hx : c.hasPendingSyncTarget
          · rfl
          · exact absurd hx hp
        simp only [hp', Bool.false_eq_true, if_false]
        split_ifs with ha hb
        · refine ⟨?_, (ih _ _).2⟩
          rw [(ih _ _).1]
          simp [h1, h2, hp', ha]
        · refine ⟨?_, ?_⟩
          · rw [(ih _ _).1]
            simp [h1, h2, hp', ha, hs, ht]
          · exact (ih _ _).2
        · refine ⟨?_, (ih _ _).2⟩
          rw [(ih _ _).1]
          simp [h1, h2, hp', ha]

theorem timeoutDispatchCycleLocked_queue (currentTime : Int) (connection : Nat) (s : State)
    (i : Nat) :
    ((timeoutDispatchCycleLocked currentTime connection s).mConnections[i]?).map
        (fun c => c.outboundQueue)
      = (s.mConnections[i]?).map (fun c => c.outboundQueue) := by
  unfold timeoutDispatchCycleLocked
  split
  · rfl
  · split_ifs
    · show ((modifyAt _ connection s.mConnections)[i]?).map _ = _
      rw [getElem?_modifyAt]
      split
      · cases s.mConnections[i]? <;> rfl
      · rfl
    · rfl
    · rfl

theorem timeoutConnections_queue (currentTime : Int) (cs : List Nat) : ∀ (s : State) (i : Nat),
    ((timeoutConnections currentTime cs s).mConnections[i]?).map (fun c => c.outboundQueue)
      = (s.mConnections[i]?).map (fun c => c.outboundQueue) := by
  induction cs with
  | nil => intro s i; rfl
  | cons connection rest ih =>
    intro s i
    unfold timeoutConnections
    rw [ih]
    exact timeoutDispatchCycleLocked_queue currentTime connection s i

theorem hasPendingSyncTarget_of_queue (c d : Connection)
    (h : c.outboundQueue = d.outboundQueue) :
    c.hasPendingSyncTarget = d.hasPendingSyncTarget := by
  unfold Connection.hasPendingSyncTarget
  rw [h]

theorem resetKeyRepeatLocked_side (keyRepeatTimeout : Int) (s : State) :
    (if keyRepeatTimeout < 0 then resetKeyRepeatLocked s else s)
      = { s with
          mEvents := (if keyRepeatTimeout < 0 then resetKeyRepeatLocked s else s).mEvents
          mKeyRepeatState :=
            (if keyRepeatTimeout < 0 then resetKeyRepeatLocked s else s).mKeyRepeatState } := by
  split
  · unfold resetKeyRepeatLocked
    split <;> rfl
  · rfl

theorem scan_notDue (currentTime : Int) (s2 : State) :
    (scanActiveConnections currentTime false s2.mActiveConnections
        { havePendingSyncTarget := false, timedOutConnections := [] } s2).1
      = { havePendingSyncTarget := s2.mActiveConnections.any (fun i => s2.hasPendingSyncTarget i)
          timedOutConnections :=
            s2.mActiveConnections.filter (fun i => s2.isTimedOut currentTime i) } := by
  rw [(scanActiveConnections_notDue currentTime s2.mActiveConnections _ s2).1]
  simp only [Bool.false_or, List.nil_append]

theorem passBeforeEvent_notDue (env : Env) (keyRepeatTimeout : Int) (s : State)
    (hnot : env.now < s.mAppSwitchDueTime) :
    ∃ w, passBeforeEvent env keyRepeatTimeout s
      = ({ havePendingSyncTarget := s.mActiveConnections.any (fun i => s.hasPendingSyncTarget i)
           timedOutConnections :=
             s.mActiveConnections.filter (fun i => s.isTimedOut env.now i) },
          timeoutConnections env.now
            (s.mActiveConnections.filter (fun i => s.isTimedOut env.now i))
            { (if keyRepeatTimeout < 0 then resetKeyRepeatLocked s else s) with
              nextWakeupTime := w }) := by
  have hs1 := resetKeyRepeatLocked_side keyRepeatTimeout s
  have key : ∀ s1 : State,
      s1 = { s with mEvents := s1.mEvents, mKeyRepeatState := s1.mKeyRepeatState } →
      ∀ s2 : State, (∃ w2, s2 = { s1 with nextWakeupTime := w2 }) →
      ∃ w, ((scanActiveConnections env.now (decide (s1.mAppSwitchDueTime ≤ env.now))
              s2.mActiveConnections
              { havePendingSyncTarget := false, timedOutConnections := [] } s2).1,
            timeoutConnections env.now
              (scanActiveConnections env.now (decide (s1.mAppSwitchDueTime ≤ env.now))
                s2.mActiveConnections
                { havePendingSyncTarget := false, timedOutConnections := [] }
                s2).1.timedOutConnections
              (scanActiveConnections env.now (decide (s1.mAppSwitchDueTime ≤ env.now))
                s2.mActiveConnections
                { havePendingSyncTarget := false, timedOutConnections := [] } s2).2)
        = ({ havePendingSyncTarget :=
               s.mActiveConnections.any (fun i => s.hasPendingSyncTarget i)
             timedOutConnections :=
               s.mActiveConnections.filter (fun i => s.isTimedOut env.now i) },
            timeoutConnections env.now
              (s.mActiveConnections.filter (fun i => s.isTimedOut env.now i))
              { s1 with nextWakeupTime := w }) := by
    intro s1 h1 s2 h2
    obtain ⟨w2, h2⟩ := h2
    have hdue : decide (s1.mAppSwitchDueTime ≤ env.now) = false := by
      rw [h1]
      exact decide_eq_false (not_le.mpr hnot)
    have hact : s2.mActiveConnections = s.mActiveConnections := by
      rw [h2, h1]
    have hconn : ∀ i, s2.hasPendingSyncTarget i = s.hasPendingSyncTarget i := by
      intro i
      rw [h2, h1]
      rfl
    have htime : ∀ i, s2.isTimedOut env.now i = s.isTimedOut env.now i := by
      intro i
      rw [h2, h1]
      rfl
    have hfun1 : (fun i => s2.hasPendingSyncTarget i) = fun i => s.hasPendingSyncTarget i :=
      funext hconn
    have hfun2 : (fun i => s2.isTimedOut env.now i) = fun i => s.isTimedOut env.now i :=
      funext htime
    rw [hdue, scan_notDue, hfun1, hfun2, hact]
    refine ⟨(scanActiveConnections env.now false s.mActiveConnections
      { havePendingSyncTarget := false, timedOutConnections := [] } s2).2.nextWakeupTime, ?_⟩
    have h3 := (scanActiveConnections_notDue env.now s.mActiveConnections
      { havePendingSyncTarget := false, timedOutConnections := [] } s2).2
    have h4 : ∀ w : Int, { s2 with nextWakeupTime := w } = { s1 with nextWakeupTime := w } := by
      intro w
      rw [h2]
    rw [h4] at h3
    rw [h3]
  have hs2 : ∀ s1 : State, ∃ w2,
      (if s1.mAppSwitchDueTime < s1.nextWakeupTime then
        { s1 with nextWakeupTime := s1.mAppSwitchDueTime } else s1)
        = { s1 with nextWakeupTime := w2 } := by
    intro s1
    by_cases h : s1.mAppSwitchDueTime < s1.nextWakeupTime
    · exact ⟨_, by rw [if_pos h]⟩
    · exact ⟨s1.nextWakeupTime, by rw [if_neg h]⟩
  unfold passBeforeEvent
  simp only []
  exact key _ hs1 _ (hs2 _)

theorem passBeforeEvent_due_queue (env : Env) (keyRepeatTimeout : Int) (s : State)
    (hdue : s.mAppSwitchDueTime ≤ env.now) (i : Nat) :
    ((passBeforeEvent env keyRepeatTimeout s).2.mConnections[i]?).map (fun c : Connection => c.outboundQueue)
      = ((preemptConnections s.mActiveConnections s).2.mConnections[i]?).map
          (fun c : Connection => c.outboundQueue) := by
  have hs1 := resetKeyRepeatLocked_side keyRepeatTimeout s
  have key : ∀ s1 : State,
      s1 = { s with mEvents := s1.mEvents, mKeyRepeatState := s1.mKeyRepeatState } →
      ∀ s2 : State, (∃ w2, s2 = { s1 with nextWakeupTime := w2 }) →
      (scanActiveConnections env.now (decide (s1.mAppSwitchDueTime ≤ env.now))
          s2.mActiveConnections
          { havePendingSyncTarget := false, timedOutConnections := [] } s2).2.mConnections
        = (preemptConnections s.mActiveConnections s).2.mConnections := by
    intro s1 h1 s2 h2
    obtain ⟨w2, h2⟩ := h2
    have hd : decide (s1.mAppSwitchDueTime ≤ env.now) = true := by
      rw [h1]
      exact decide_eq_true hdue
    have hact : s2.mActiveConnections = s.mActiveConnections := by
      rw [h2, h1]
    have hconn : s2.mConnections = s.mConnections := by
      rw [h2, h1]
    rw [hd, scanActiveConnections_due_mConnections, hact]
    exact preemptConnections_congr _ _ _ hconn
  have hs2 : ∀ s1 : State, ∃ w2,
      (if s1.mAppSwitchDueTime < s1.nextWakeupTime then
        { s1 with nextWakeupTime := s1.mAppSwitchDueTime } else s1)
        = { s1 with nextWakeupTime := w2 } := by
    intro s1
    by_cases h : s1.mAppSwitchDueTime < s1.nextWakeupTime
    · exact ⟨_, by rw [if_pos h]⟩
    · exact ⟨s1.nextWakeupTime, by rw [if_neg h]⟩
  unfold passBeforeEvent
  simp only []
  rw [timeoutConnections_queue, key _ hs1 _ (hs2 _)]

theorem resetKeyRepeatLocked_length (s : State) :
    (resetKeyRepeatLocked s).mEvents.length = s.mEvents.length := by
  unfold resetKeyRepeatLocked
  split
  · exact length_modifyAt _ _ _
  · rfl

theorem trackEvent_keyCancelationEntry (flag : Bool) (m : KeyMemento) (ks : List KeyMemento)
    (ms : List MotionMemento) (now : Int) :
    InputState.trackEvent { mIsOutOfSync := flag, mKeyMementos := m :: ks, mMotionMementos := ms }
        (keyCancelationEntry now m)
      = (Consistency.CONSISTENT,
          { mIsOutOfSync := flag && !(ks.isEmpty && ms.isEmpty), mKeyMementos := ks,
            mMotionMementos := ms }) := by
  simp only [InputState.trackEvent, keyCancelationEntry, initializeEventEntry,
    InputState.trackKey, List.findIdx?_cons, decide_True, Bool.and_self, if_true,
    List.eraseIdx_cons_zero, InputState.isNeutral]
  cases h : (ks.isEmpty && ms.isEmpty) <;> simp

theorem trackEvent_motionCancelationEntry (flag : Bool) (m : MotionMemento)
    (ms : List MotionMemento) (now : Int) :
    InputState.trackEvent { mIsOutOfSync := flag, mKeyMementos := [], mMotionMementos := m :: ms }
        (motionCancelationEntry now m)
      = (Consistency.CONSISTENT,
          { mIsOutOfSync := flag && !ms.isEmpty, mKeyMementos := [],
            mMotionMementos := ms }) := by
  have hc : AMOTION_EVENT_ACTION_CANCEL &&& AMOTION_EVENT_ACTION_MASK = AMOTION_EVENT_ACTION_UP
      ∨ AMOTION_EVENT_ACTION_CANCEL &&& AMOTION_EVENT_ACTION_MASK
        = AMOTION_EVENT_ACTION_CANCEL := Or.inr (by decide)
  simp only [InputState.trackEvent, motionCancelationEntry, initializeEventEntry,
    InputState.trackMotion, List.findIdx?_cons, decide_True, Bool.and_self, if_true,
    List.eraseIdx_cons_zero, InputState.isNeutral, List.getElem?_cons_zero, if_pos hc]
  cases h : ms.isEmpty <;> simp

theorem trackEvents_append (st : InputState) (xs ys : List EventEntry) :
    st.trackEvents (xs ++ ys)
      = ((st.trackEvents xs).1 ++ ((st.trackEvents xs).2.trackEvents ys).1,
          ((st.trackEvents xs).2.trackEvents ys).2) := by
  induction xs generalizing st with
  | nil => rfl
  | cons e rest ih =>
    show ((st.trackEvent e).1 :: ((st.trackEvent e).2.trackEvents (rest ++ ys)).1,
        ((st.trackEvent e).2.trackEvents (rest ++ ys)).2) = _
    rw [ih]
    rfl

theorem trackEvents_keyCancelations (now : Int) (ms : List MotionMemento) :
    ∀ (ks : List KeyMemento) (flag : Bool),
      InputState.trackEvents { mIsOutOfSync := flag, mKeyMementos := ks, mMotionMementos := ms }
          (ks.map (keyCancelationEntry now))
        = (List.replicate ks.length Consistency.CONSISTENT,
            { mIsOutOfSync := flag && (ks.isEmpty || !ms.isEmpty), mKeyMementos := [],
              mMotionMementos := ms }) := by
  intro ks
  induction ks with
  | nil => intro flag; simp [InputState.trackEvents]
  | cons m rest ih =>
    intro flag
    simp only [List.map_cons, InputState.trackEvents, trackEvent_keyCancelationEntry, ih,
      List.length_cons, List.replicate_succ]
    cases flag <;> cases rest <;> cases ms <;> rfl

theorem trackEvents_motionCancelations (now : Int) :
    ∀ (ms : List MotionMemento) (flag : Bool),
      InputState.trackEvents { mIsOutOfSync := flag, mKeyMementos := [], mMotionMementos := ms }
          (ms.map (motionCancelationEntry now))
        = (List.replicate ms.length Consistency.CONSISTENT,
            { mIsOutOfSync := flag && ms.isEmpty, mKeyMementos := [],
              mMotionMementos := [] }) := by
  intro ms
  induction ms with
  | nil => intro flag; simp [InputState.trackEvents]
  | cons m rest ih =>
    intro flag
    simp only [List.map_cons, InputState.trackEvents, trackEvent_motionCancelationEntry, ih,
      List.length_cons, List.replicate_succ]
    cases flag <;> cases rest <;> rfl

/-- Feeding the cancelation events of a state back to it, the keys and then the
motions: every one is CONSISTENT, no memento is left, and the flag stays only where the
state had no memento at all. -/
theorem trackEvents_cancelations (now : Int) (st : InputState) :
    st.trackEvents (st.mKeyMementos.map (keyCancelationEntry now)
        ++ st.mMotionMementos.map (motionCancelationEntry now))
      = (List.replicate (st.mKeyMementos.length + st.mMotionMementos.length)
            Consistency.CONSISTENT,
          { mIsOutOfSync := st.mIsOutOfSync && st.isNeutral, mKeyMementos := [],
            mMotionMementos := [] }) := by
  rw [trackEvents_append]
  have h := trackEvents_keyCancelations now st.mMotionMementos st.mKeyMementos st.mIsOutOfSync
  have h1 : st.trackEvents (st.mKeyMementos.map (keyCancelationEntry now))
      = (List.replicate st.mKeyMementos.length Consistency.CONSISTENT,
          { mIsOutOfSync := st.mIsOutOfSync
              && (st.mKeyMementos.isEmpty || !st.mMotionMementos.isEmpty),
            mKeyMementos := [], mMotionMementos := st.mMotionMementos }) := h
  rw [h1]
  simp only [trackEvents_motionCancelations, List.replicate_add, InputState.isNeutral]
  congr 2
  cases st.mIsOutOfSync <;> cases st.mKeyMementos.isEmpty <;> cases st.mMotionMementos.isEmpty
    <;> rfl

theorem map_getElem?_range' {α : Type} (l xs ys : List α) :
    (List.range' l.length xs.length).map (fun i => (l ++ (xs ++ ys))[i]?) = xs.map some := by
  apply List.ext_getElem?
  intro n
  simp only [List.getElem?_map, List.getElem?_range']
  by_cases h : n < xs.length
  · rw [List.getElem?_range' _ _ h]
    simp only [Option.map_some', Nat.one_mul]
    rw [List.getElem?_append_right (Nat.le_add_right _ _), Nat.add_sub_cancel_left,
      List.getElem?_append_left h, List.getElem?_eq_getElem h]
    rfl
  · have h1 : (List.range' l.length xs.length)[n]? = none := by
      rw [List.getElem?_eq_none_iff, List.length_range']
      exact Nat.le_of_not_lt h
    have h2 : xs[n]? = none := by
      rw [List.getElem?_eq_none_iff]
      exact Nat.le_of_not_lt h
    rw [h1, h2]
    rfl

theorem map_modifyAt_of_eq {α β : Type} (key : α → β) (f : α → α)
    (hf : ∀ a, key (f a) = key a) : ∀ (n : Nat) (l : List α),
    (modifyAt f n l).map key = l.map key
  | 0, [] => rfl
  | _ + 1, [] => rfl
  | 0, a :: l => by simp only [modifyAt, List.map_cons, hf]
  | n + 1, a :: l => by
    simp only [modifyAt, List.map_cons, map_modifyAt_of_eq key f hf n l]

theorem distinct_settle (st : InputState) (h : st.Distinct) :
    (if st.isNeutral then { st with mIsOutOfSync := false } else st).Distinct := by
  split
  · exact h
  · exact h

theorem distinct_trackKey (st : InputState) (entry : KeyEntry) (h : st.Distinct) :
    (st.trackKey entry).2.Distinct := by
  unfold InputState.trackKey
  split
  · split_ifs
    · exact distinct_settle _ ⟨h.1.sublist (List.eraseIdx_sublist _ _), h.2⟩
    · exact h
    · exact h
  · rename_i hnone
    split_ifs
    · refine ⟨?_, h.2⟩
      rw [List.findIdx?_eq_none_iff] at hnone
      show (st.mKeyMementos ++ [_]).Pairwise _
      rw [List.pairwise_append]
      refine ⟨h.1, List.pairwise_singleton _ _, ?_⟩
      intro a ha b hb
      rw [List.mem_singleton] at hb
      subst hb
      intro hsame
      have hp := hnone a ha
      simp only [hsame.1, hsame.2.1, hsame.2.2.1, hsame.2.2.2, decide_True, Bool.and_self] at hp
      cases hp
    · exact h

theorem distinct_trackMotion (st : InputState) (entry : MotionEntry) (h : st.Distinct) :
    (st.trackMotion entry).2.Distinct := by
  have hm : ∀ (i : Nat), InputState.Distinct
      { st with mMotionMementos :=
          modifyAt (fun m => m.setPointers entry) i st.mMotionMementos } := by
    intro i
    refine ⟨h.1, ?_⟩
    have hkey := map_modifyAt_of_eq (fun m : MotionMemento => (m.deviceId, m.source))
      (fun m => m.setPointers entry) (fun _ => rfl) i st.mMotionMementos
    have h2 := h.2
    have hp : ∀ l : List MotionMemento,
        l.Pairwise (fun a b => ¬ (a.deviceId = b.deviceId ∧ a.source = b.source))
          ↔ (l.map (fun m : MotionMemento => (m.deviceId, m.source))).Pairwise
              (fun a b => ¬ (a.1 = b.1 ∧ a.2 = b.2)) := by
      intro l
      rw [List.pairwise_map]
    show (modifyAt _ i st.mMotionMementos).Pairwise _
    rw [hp, hkey, ← hp]
    exact h2
  unfold InputState.trackMotion
  simp only []
  split
  · split
    · exact h
    · split_ifs <;>
        first
        | exact h
        | exact hm _
        | exact ⟨h.1, h.2.sublist (List.eraseIdx_sublist _ _)⟩
  · rename_i hnone
    split_ifs
    · refine ⟨h.1, ?_⟩
      rw [List.findIdx?_eq_none_iff] at hnone
      show (st.mMotionMementos ++ [_]).Pairwise _
      rw [List.pairwise_append]
      refine ⟨h.2, List.pairwise_singleton _ _, ?_⟩
      intro a ha b hb
      rw [List.mem_singleton] at hb
      subst hb
      intro hsame
      have hp := hnone a ha
      have h1 : a.deviceId = entry.deviceId := hsame.1
      have h2 : a.source = entry.source := hsame.2
      simp only [h1, h2, decide_True, Bool.and_self] at hp
      cases hp
    · exact h

theorem distinct_trackEvent (st : InputState) (entry : EventEntry) (h : st.Distinct) :
    (st.trackEvent entry).2.Distinct := by
  unfold InputState.trackEvent
  split
  · exact distinct_trackKey _ _ h
  · exact distinct_trackMotion _ _ h
  · exact h

theorem flag_settle (st : InputState) (h : st.mIsOutOfSync = false) :
    (if st.isNeutral then { st with mIsOutOfSync := false } else st).mIsOutOfSync = false := by
  split
  · rfl
  · exact h

theorem flag_trackEvent (st : InputState) (entry : EventEntry)
    (h : st.mIsOutOfSync = false) : (st.trackEvent entry).2.mIsOutOfSync = false := by
  unfold InputState.trackEvent
  split
  · unfold InputState.trackKey
    split
    · split_ifs
      · exact flag_settle _ h
      · exact h
      · exact h
    · split_ifs <;> exact h
  · unfold InputState.trackMotion
    simp only []
    split
    · split
      · exact h
      · split_ifs <;>
          first
          | exact h
          | exact flag_settle
              { st with mMotionMementos := st.mMotionMementos.eraseIdx _ } h
          | rfl
    · split_ifs <;> exact h
  · exact h

theorem trackEvents_invariant (entries : List EventEntry) :
    ∀ st : InputState, st.Distinct → st.mIsOutOfSync = false →
      (st.trackEvents entries).2.Distinct ∧ (st.trackEvents entries).2.mIsOutOfSync = false := by
  induction entries with
  | nil => intro st h1 h2; exact ⟨h1, h2⟩
  | cons e rest ih =>
    intro st h1 h2
    exact ih _ (distinct_trackEvent st e h1) (flag_trackEvent st e h2)

theorem length_linkCells : ∀ (xs : List MotionSample) (base : Nat),
    (linkCells base xs).length = xs.length
  | [], _ => rfl
  | _ :: rest, base => by
    simp only [linkCells, List.length_cons, length_linkCells rest (base + 1)]

theorem modifyAt_append_right {α : Type} (f : α → α) (l : List α) (i : Nat) :
    ∀ pre : List α, modifyAt f (pre.length + i) (pre ++ l) = pre ++ modifyAt f i l
  | [] => by simp
  | a :: pre => by
    have h : (a :: pre).length + i = (pre.length + i) + 1 := by
      simp only [List.length_cons]; omega
    rw [h]
    show a :: modifyAt f (pre.length + i) (pre ++ l) = _
    rw [modifyAt_append_right f l i pre]
    rfl

theorem linkCells_snoc (x : MotionSample) : ∀ (xs : List MotionSample) (base : Nat),
    xs ≠ [] →
    modifyAt (fun node : SampleNode =>
        { node with next := some (SamplePtr.cell (base + xs.length)) }) (xs.length - 1)
        (linkCells base xs ++
          [{ next := none, eventTime := x.eventTime, pointerCoords := x.pointerCoords }])
      = linkCells base (xs ++ [x])
  | [], _, h => absurd rfl h
  | [y], base, _ => rfl
  | y :: z :: rest, base, _ => by
    have ih := linkCells_snoc x (z :: rest) (base + 1) (List.cons_ne_nil _ _)
    have h1 : base + (y :: z :: rest).length = base + 1 + (z :: rest).length := by
      simp only [List.length_cons]; omega
    have h2 : (y :: z :: rest).length - 1 = ((z :: rest).length - 1) + 1 := by
      simp only [List.length_cons]; omega
    rw [h1, h2]
    show _ :: modifyAt _ ((z :: rest).length - 1) (linkCells (base + 1) (z :: rest) ++ _) = _
    rw [ih]
    rfl

theorem appendMotionSample_chainOf (pool : List SampleNode) (pointerCount : Nat)
    (pointerIds : List Int) (first : MotionSample) (xs : List MotionSample) (eventTime : Int)
    (pointerCoords : List PointerCoords) :
    (chainOf pool pointerCount pointerIds first xs).appendMotionSample eventTime pointerCoords
      = chainOf pool pointerCount pointerIds first
          (xs ++ [{ eventTime := eventTime,
                    pointerCoords := pointerCoords.take pointerCount }]) := by
  cases xs with
  | nil =>
    simp [SampleChain.appendMotionSample, chainOf, SampleChain.write, linkCells]
  | cons y rest =>
    have hsnoc := linkCells_snoc
      { eventTime := eventTime, pointerCoords := pointerCoords.take pointerCount }
      (y :: rest) pool.length (List.cons_ne_nil _ _)
    have hmod := modifyAt_append_right
      (fun node : SampleNode =>
        { node with next := some (SamplePtr.cell (pool.length + (y :: rest).length)) })
      (linkCells pool.length (y :: rest) ++
        [{ next := none, eventTime := eventTime,
           pointerCoords := pointerCoords.take pointerCount }])
      ((y :: rest).length - 1) pool
    rw [hsnoc] at hmod
    have hlen : (pool ++ linkCells pool.length (y :: rest)).length
        = pool.length + (y :: rest).length := by
      rw [List.length_append, length_linkCells]
    have hidx : pool.length + (y :: rest).length - 1 = pool.length + ((y :: rest).length - 1) := by
      simp only [List.length_cons]; omega
    simp only [SampleChain.appendMotionSample, chainOf, List.isEmpty_cons, Bool.false_eq_true,
      if_false, SampleChain.write, hlen, hidx, List.append_assoc, hmod]
    simp [List.length_append]

theorem obtainMotionEntry_chainOf (eventTime : Int) (pointerCount : Nat)
    (pointerIds : List Int) (pointerCoords : List PointerCoords) (pool : List SampleNode) :
    SampleChain.obtainMotionEntry eventTime pointerCount pointerIds pointerCoords pool
      = chainOf pool pointerCount (pointerIds.take pointerCount)
          { eventTime := eventTime, pointerCoords := pointerCoords.take pointerCount } [] := by
  simp [SampleChain.obtainMotionEntry, chainOf, linkCells]

theorem appendAll_chainOf (pool : List SampleNode) (pointerCount : Nat)
    (pointerIds : List Int) (first : MotionSample) :
    ∀ (appended : List (Int × List PointerCoords)) (xs : List MotionSample),
      (chainOf pool pointerCount pointerIds first xs).appendAll appended
        = chainOf pool pointerCount pointerIds first
            (xs ++ appended.map (fun a =>
              { eventTime := a.1, pointerCoords := a.2.take pointerCount })) := by
  intro appended
  induction appended with
  | nil => intro xs; simp [SampleChain.appendAll]
  | cons a rest ih =>
    intro xs
    show SampleChain.appendAll
      ((chainOf pool pointerCount pointerIds first xs).appendMotionSample a.1 a.2) rest = _
    rw [appendMotionSample_chainOf, ih]
    simp

theorem walkFrom_linkCells (c : SampleChain) : ∀ (xs : List MotionSample) (pre : List SampleNode)
    (extra : Nat), c.mMotionSamplePool = pre ++ linkCells pre.length xs →
    c.walkFrom (xs.length + extra)
        (if xs.isEmpty then none else some (SamplePtr.cell pre.length))
      = some (cellsFrom pre.length xs)
  | [], _, _, _ => by
    simp [SampleChain.walkFrom, cellsFrom]
  | x :: rest, pre, extra, h => by
    have hpool : c.mMotionSamplePool
        = (pre ++ [{ next := if rest.isEmpty then none else some (SamplePtr.cell (pre.length + 1))
                     eventTime := x.eventTime
                     pointerCoords := x.pointerCoords }])
          ++ linkCells (pre.length + 1) rest := by
      rw [h]
      simp [linkCells]
    have hread : c.read (SamplePtr.cell pre.length)
        = some { next := if rest.isEmpty then none else some (SamplePtr.cell (pre.length + 1))
                 eventTime := x.eventTime
                 pointerCoords := x.pointerCoords } := by
      show c.mMotionSamplePool[pre.length]? = _
      rw [h, List.getElem?_append_right (Nat.le_refl _), Nat.sub_self]
      simp only [linkCells, List.getElem?_cons_zero]
    have ih := walkFrom_linkCells c rest
      (pre ++ [{ next := if rest.isEmpty then none else some (SamplePtr.cell (pre.length + 1))
                 eventTime := x.eventTime
                 pointerCoords := x.pointerCoords }]) extra
      (by rw [hpool]; simp)
    have hlen : (x :: rest).length + extra = (rest.length + extra) + 1 := by
      simp only [List.length_cons]; omega
    simp only [List.length_append, List.length_singleton] at ih
    rw [hlen]
    simp only [List.isEmpty_cons, Bool.false_eq_true, if_false, SampleChain.walkFrom, hread, ih,
      Option.map_some', cellsFrom, List.enumFrom_cons, List.map_cons, SampleNode.sample]

theorem countLoop_linkCells (c : SampleChain) : ∀ (xs : List MotionSample)
    (pre : List SampleNode) (extra count : Nat),
    c.mMotionSamplePool = pre ++ linkCells pre.length xs →
    c.countLoop (xs.length + extra)
        (if xs.isEmpty then none else some (SamplePtr.cell pre.length)) count
      = some (count + xs.length)
  | [], _, _, _, _ => by
    simp [SampleChain.countLoop]
  | x :: rest, pre, extra, count, h => by
    have hpool : c.mMotionSamplePool
        = (pre ++ [{ next := if rest.isEmpty then none else some (SamplePtr.cell (pre.length + 1))
                     eventTime := x.eventTime
                     pointerCoords := x.pointerCoords }])
          ++ linkCells (pre.length + 1) rest := by
      rw [h]
      simp [linkCells]
    have hread : c.read (SamplePtr.cell pre.length)
        = some { next := if rest.isEmpty then none else some (SamplePtr.cell (pre.length + 1))
                 eventTime := x.eventTime
                 pointerCoords := x.pointerCoords } := by
      show c.mMotionSamplePool[pre.length]? = _
      rw [h, List.getElem?_append_right (Nat.le_refl _), Nat.sub_self]
      simp only [linkCells, List.getElem?_cons_zero]
    have ih := countLoop_linkCells c rest
      (pre ++ [{ next := if rest.isEmpty then none else some (SamplePtr.cell (pre.length + 1))
                 eventTime := x.eventTime
                 pointerCoords := x.pointerCoords }]) extra (count + 1)
      (by rw [hpool]; simp)
    have hlen : (x :: rest).length + extra = (rest.length + extra) + 1 := by
      simp only [List.length_cons]; omega
    simp only [List.length_append, List.length_singleton] at ih
    rw [hlen]
    simp only [List.isEmpty_cons, Bool.false_eq_true, if_false, SampleChain.countLoop, hread, ih,
      List.length_cons]
    congr 1
    omega

theorem walk_chainOf (pool : List SampleNode) (pointerCount : Nat) (pointerIds : List Int)
    (first : MotionSample) (xs : List MotionSample) (extra : Nat) :
    (chainOf pool pointerCount pointerIds first xs).walk (xs.length + 1 + extra)
      = some ((SamplePtr.first, first) :: cellsFrom pool.length xs) := by
  have h := walkFrom_linkCells (chainOf pool pointerCount pointerIds first xs) xs pool extra rfl
  have hlen : xs.length + 1 + extra = (xs.length + extra) + 1 := by omega
  rw [SampleChain.walk, hlen]
  show Option.map _ (SampleChain.walkFrom _ (xs.length + extra)
    (if xs.isEmpty then none else some (SamplePtr.cell pool.length))) = _
  rw [h]
  rfl

theorem countSamples_chainOf (pool : List SampleNode) (pointerCount : Nat)
    (pointerIds : List Int) (first : MotionSample) (xs : List MotionSample) (extra : Nat) :
    (chainOf pool pointerCount pointerIds first xs).countSamples (xs.length + extra)
      = some (xs.length + 1) := by
  have h := countLoop_linkCells (chainOf pool pointerCount pointerIds first xs) xs pool extra 1
    rfl
  rw [SampleChain.countSamples]
  show SampleChain.countLoop _ (xs.length + extra)
    (if xs.isEmpty then none else some (SamplePtr.cell pool.length)) 1 = _
  rw [h, Nat.add_comm]

theorem getLast?_snoc {α : Type} (a : α) (l : List α) (b : α) :
    (a :: (l ++ [b])).getLast? = some b := by
  rw [← List.cons_append, List.getLast?_append]
  rfl

theorem getLast?_cellsFrom (base : Nat) (xs : List MotionSample) (first : MotionSample) :
    ((SamplePtr.first, first) :: cellsFrom base xs).getLast?
      = (first :: xs).getLast?.map (fun x =>
          (if xs.isEmpty then SamplePtr.first else SamplePtr.cell (base + xs.length - 1), x)) := by
  rcases List.eq_nil_or_concat xs with h | ⟨ys, y, h⟩
  · subst h
    rfl
  · rw [List.concat_eq_append] at h
    subst h
    have h1 : cellsFrom base (ys ++ [y])
        = cellsFrom base ys ++ [(SamplePtr.cell (base + ys.length), y)] := by
      simp [cellsFrom, List.enumFrom_append]
    have h3 : base + (ys ++ [y]).length - 1 = base + ys.length := by
      simp only [List.length_append, List.length_singleton]; omega
    have h4 : (ys ++ [y]).isEmpty = false := by
      cases ys <;> rfl
    rw [h1, getLast?_snoc, getLast?_snoc, h3, h4]
    rfl

theorem linkCells_getElem?_last (y : MotionSample) : ∀ (ys : List MotionSample) (base : Nat),
    (linkCells base (ys ++ [y]))[ys.length]?
      = some { next := none, eventTime := y.eventTime, pointerCoords := y.pointerCoords }
  | [], _ => rfl
  | _ :: rest, base => by
    simp only [List.cons_append, linkCells, List.length_cons, List.getElem?_cons_succ]
    exact linkCells_getElem?_last y rest (base + 1)

theorem read_lastSample_chainOf (pool : List SampleNode) (pointerCount : Nat)
    (pointerIds : List Int) (first : MotionSample) (xs : List MotionSample) :
    (chainOf pool pointerCount pointerIds first xs).read
        (chainOf pool pointerCount pointerIds first xs).lastSample
      = (first :: xs).getLast?.map (fun x =>
          { next := none, eventTime := x.eventTime, pointerCoords := x.pointerCoords }) := by
  rcases List.eq_nil_or_concat xs with h | ⟨ys, y, h⟩
  · subst h
    rfl
  · rw [List.concat_eq_append] at h
    subst h
    have hidx : pool.length + (ys ++ [y]).length - 1 = pool.length + ys.length := by
      simp only [List.length_append, List.length_singleton]; omega
    have h4 : (ys ++ [y]).isEmpty = false := by
      cases ys <;> rfl
    rw [getLast?_snoc]
    simp only [chainOf, h4, Bool.false_eq_true, if_false, SampleChain.read, hidx]
    rw [List.getElem?_append_right (Nat.le_add_right _ _), Nat.add_sub_cancel_left]
    exact linkCells_getElem?_last y ys pool.length

theorem appendMotionSamples_last (s : State) (e : EventEntry) :
    ∀ (appended : List (Int × List PointerCoords)) (m : MotionEntry),
      appendMotionSamples s.mEvents.length appended
          { s with mEvents := s.mEvents ++ [{ e with body := EventBody.motion m }] }
        = { s with mEvents := s.mEvents ++
              [{ e with
                 body := EventBody.motion
                   { m with
                     nextSamples :=
                       m.nextSamples ++ appended.map (storedSample m.pointerCount) } }] } := by
  intro appended
  induction appended with
  | nil => intro m; simp [appendMotionSamples]
  | cons a rest ih =>
    intro m
    show appendMotionSamples s.mEvents.length rest
      (appendMotionSample s.mEvents.length a.1 a.2
        { s with mEvents := s.mEvents ++ [{ e with body := EventBody.motion m }] }) = _
    have h1 : appendMotionSample s.mEvents.length a.1 a.2
        { s with mEvents := s.mEvents ++ [{ e with body := EventBody.motion m }] }
        = { s with mEvents := s.mEvents ++
              [{ e with body := EventBody.motion (m.appendSample a.1 a.2) }] } := by
      simp only [appendMotionSample, modifyEvent, modifyAt_length_append]
    rw [h1, ih]
    simp [MotionEntry.appendSample, storedSample]

theorem sampleAt_lastSample (m : MotionEntry) :
    m.sampleAt m.lastSample = (m.firstSample :: m.nextSamples).getLast? := by
  unfold MotionEntry.lastSample
  rcases List.eq_nil_or_concat m.nextSamples with h | ⟨ys, y, h⟩
  · rw [h]
    rfl
  · rw [List.concat_eq_append] at h
    rw [h, getLast?_snoc, List.length_append, List.length_singleton]
    show m.nextSamples[ys.length]? = some y
    rw [h]
    simp

theorem obtainedChain_eq (eventTime : Int) (pointerCount : Nat) (pointerIds : List Int)
    (pointerCoords : List PointerCoords) (pool : List SampleNode)
    (appended : List (Int × List PointerCoords)) :
    (SampleChain.obtainMotionEntry eventTime pointerCount pointerIds pointerCoords
        pool).appendAll appended
      = chainOf pool pointerCount (pointerIds.take pointerCount)
          (storedSample pointerCount (eventTime, pointerCoords))
          (appended.map (storedSample pointerCount)) := by
  rw [obtainMotionEntry_chainOf, appendAll_chainOf]
  rfl

/-! ### The active connections are those with a queue that is not empty -/

theorem activity_getElem? (s : State) (i : Nat) :
    s.activity.2[i]? = (s.mConnections[i]?).map (fun c => c.outboundQueue.isEmpty) := by
  show (s.mConnections.map _)[i]? = _
  rw [List.getElem?_map]

theorem activeOk_iff_actOk (s : State) : ActiveOk s ↔ ActOk s.activity := by
  have hq : ∀ i : Nat, (∃ c, s.mConnections[i]? = some c ∧ c.outboundQueue ≠ [])
      ↔ s.activity.2[i]? = some false := by
    intro i
    rw [activity_getElem?]
    cases hc : s.mConnections[i]? with
    | none => simp
    | some c =>
      simp only [Option.some.injEq, exists_eq_left', Option.map_some', ne_eq]
      cases c.outboundQueue <;> simp
  unfold ActiveOk ActOk
  constructor
  · intro h
    exact ⟨h.1, fun i => (h.2 i).trans (hq i)⟩
  · intro h
    exact ⟨h.1, fun i => (h.2 i).trans (hq i).symm⟩

theorem activityExcept_eq (x : Nat) (s : State) :
    s.activityExcept x = (s.activity.1, modifyAt (fun _ => true) x s.activity.2) := rfl

theorem activityExcept_of_activity {s s' : State} (x : Nat) (h : s'.activity = s.activity) :
    s'.activityExcept x = s.activityExcept x := by
  rw [activityExcept_eq, activityExcept_eq, h]

theorem activityExcept_getElem? (x : Nat) (s : State) (i : Nat) (hi : i ≠ x) :
    (s.activityExcept x).2[i]? = s.activity.2[i]? := by
  show (modifyAt _ x s.activity.2)[i]? = _
  rw [getElem?_modifyAt, if_neg (fun h => hi h)]

theorem activityExcept_length (x : Nat) (s : State) :
    (s.activityExcept x).2.length = s.activity.2.length := by
  show (modifyAt _ x s.activity.2).length = _
  rw [length_modifyAt]

theorem activity_length (s : State) : s.activity.2.length = s.mConnections.length := by
  show (s.mConnections.map _).length = _
  rw [List.length_map]

theorem hotOk_of_actOk (x : Nat) (s : State) (h : ActOk s.activity) :
    HotOk x (s.activityExcept x) := by
  refine ⟨h.1, ?_, ?_⟩
  · intro i hi
    rw [activityExcept_length]
    have h1 := (h.2 i).mp hi
    exact (List.getElem?_eq_some_iff.mp h1).1
  · intro i hi
    rw [activityExcept_getElem? x s i hi]
    exact h.2 i

theorem actOk_of_hotOk (x : Nat) (s : State) (h : HotOk x (s.activityExcept x))
    (hx : x ∈ s.mActiveConnections ↔ s.activity.2[x]? = some false) : ActOk s.activity := by
  refine ⟨h.1, ?_⟩
  intro i
  by_cases hi : i = x
  · subst hi
    exact hx
  · have h1 := h.2.2 i hi
    rw [activityExcept_getElem? x s i hi] at h1
    exact h1

theorem actOk_of_except {s s' : State} (x : Nat) (h : ActOk s.activity)
    (he : s'.activityExcept x = s.activityExcept x)
    (hx : x ∈ s'.mActiveConnections ↔ s'.activity.2[x]? = some false) : ActOk s'.activity := by
  refine actOk_of_hotOk x s' ?_ hx
  rw [he]
  exact hotOk_of_actOk x s h

theorem map_modifyAt_at {α β : Type} (key : α → β) (f : α → α) : ∀ (n : Nat) (l : List α),
    (∀ a, l[n]? = some a → key (f a) = key a) → (modifyAt f n l).map key = l.map key
  | 0, [], _ => rfl
  | _ + 1, [], _ => rfl
  | 0, a :: l, h => by
    have h1 : key (f a) = key a := h a (by simp)
    simp only [modifyAt, List.map_cons, h1]
  | n + 1, a :: l, h => by
    simp only [modifyAt, List.map_cons]
    rw [map_modifyAt_at key f n l (fun b hb => h b (by simpa using hb))]

theorem modifyAt_map_blank {α : Type} (key : α → Bool) (f : α → α) : ∀ (n : Nat) (l : List α),
    modifyAt (fun _ => true) n ((modifyAt f n l).map key)
      = modifyAt (fun _ => true) n (l.map key)
  | 0, [] => rfl
  | _ + 1, [] => rfl
  | 0, a :: l => rfl
  | n + 1, a :: l => by
    simp only [modifyAt, List.map_cons]
    rw [modifyAt_map_blank key f n l]

theorem modifyConnection_activity_at (i : Nat) (f : Connection → Connection) (s : State)
    (hf : ∀ c, s.mConnections[i]? = some c →
      (f c).outboundQueue.isEmpty = c.outboundQueue.isEmpty) :
    (modifyConnection i f s).activity = s.activity := by
  show (s.mActiveConnections, (modifyAt f i s.mConnections).map _) = _
  rw [map_modifyAt_at _ f i s.mConnections hf]

theorem modifyConnection_activity (i : Nat) (f : Connection → Connection) (s : State)
    (hf : ∀ c, (f c).outboundQueue.isEmpty = c.outboundQueue.isEmpty) :
    (modifyConnection i f s).activity = s.activity :=
  modifyConnection_activity_at i f s (fun c _ => hf c)

theorem modifyConnection_activityExcept (x : Nat) (f : Connection → Connection) (s : State) :
    (modifyConnection x f s).activityExcept x = s.activityExcept x := by
  show (s.mActiveConnections,
    modifyAt (fun _ => true) x ((modifyAt f x s.mConnections).map _)) = _
  rw [modifyAt_map_blank]
  rfl

theorem modifyConnection_activity_getElem? (x : Nat) (f : Connection → Connection) (s : State) :
    (modifyConnection x f s).activity.2[x]?
      = (s.mConnections[x]?).map (fun c => (f c).outboundQueue.isEmpty) := by
  rw [activity_getElem?]
  show ((modifyAt f x s.mConnections)[x]?).map _ = _
  rw [getElem?_modifyAt, if_pos rfl]
  cases s.mConnections[x]? <;> rfl

theorem actOk_ite (p : Prop) [Decidable p] (a b : State) (ha : ActOk a.activity)
    (hb : ActOk b.activity) : ActOk (if p then a else b).activity := by
  split <;> assumption

theorem isEmpty_modifyAt {α : Type} (f : α → α) (n : Nat) (l : List α) :
    (modifyAt f n l).isEmpty = l.isEmpty := by
  cases l with
  | nil => cases n <;> rfl
  | cons a l => cases n <;> rfl

/-! ### Functions that leave the activity alone -/

theorem modifyEvent_activity (id : Nat) (f : EventEntry → EventEntry) (s : State) :
    (modifyEvent id f s).activity = s.activity := rfl

theorem obtainDispatchEntry_activity (eventEntry targetFlags : Nat)
    (xOffset yOffset timeout : Int) (s : State) :
    (obtainDispatchEntry eventEntry targetFlags xOffset yOffset timeout s).2.activity
      = s.activity := rfl

theorem releaseEventEntry_activity (entry : Nat) (s : State) :
    (releaseEventEntry entry s).activity = s.activity := by
  unfold releaseEventEntry
  split
  · rfl
  · split <;> rfl

theorem releaseDispatchEntry_activity (d : DispatchEntry) (s : State) :
    (releaseDispatchEntry d s).activity = s.activity :=
  releaseEventEntry_activity _ _

theorem postCommandLocked_activity (c : CommandEntry) (s : State) :
    (postCommandLocked c s).activity = s.activity := rfl

theorem decrementPendingSyncDispatchesLocked_activity (entry : Nat) (s : State) :
    (decrementPendingSyncDispatchesLocked entry s).activity = s.activity := rfl

theorem onDispatchCycleFinishedLocked_activity (connection : Nat) (b : Bool)
    (s : State) :
    (onDispatchCycleFinishedLocked connection b s).activity = s.activity := by
  unfold onDispatchCycleFinishedLocked
  split <;> rfl

theorem onDispatchCycleANRLocked_activity (connection : Nat) (s : State) :
    (onDispatchCycleANRLocked connection s).activity = s.activity := rfl

theorem onDispatchCycleBrokenLocked_activity (connection : Nat) (s : State) :
    (onDispatchCycleBrokenLocked connection s).activity = s.activity := rfl

theorem drainEntries_activity (ds : List DispatchEntry) : ∀ s : State,
    (drainEntries ds s).activity = s.activity := by
  induction ds with
  | nil => intro s; rfl
  | cons d rest ih =>
    intro s
    simp only [drainEntries, ih, releaseDispatchEntry_activity]
    split <;> rfl

theorem synthesizeKeyCancelationEvents_activity (now : Int) (ms : List KeyMemento) :
    ∀ s : State, (synthesizeKeyCancelationEvents now ms s).2.activity = s.activity := by
  induction ms with
  | nil => intro s; rfl
  | cons m rest ih => intro s; simp only [synthesizeKeyCancelationEvents, ih]; rfl

theorem synthesizeMotionCancelationEvents_activity (now : Int)
    (ms : List MotionMemento) :
    ∀ s : State, (synthesizeMotionCancelationEvents now ms s).2.activity = s.activity := by
  induction ms with
  | nil => intro s; rfl
  | cons m rest ih => intro s; simp only [synthesizeMotionCancelationEvents, ih]; rfl

theorem synthesizeCancelationEvents_activity (st : InputState) (now : Int)
    (s : State) : (st.synthesizeCancelationEvents now s).2.activity = s.activity := by
  simp only [InputState.synthesizeCancelationEvents, synthesizeMotionCancelationEvents_activity,
    synthesizeKeyCancelationEvents_activity]

theorem handleTargetsNotReadyLocked_activity (currentTime : Int)
    (application : Option InputApplication) (window : Option Nat) (s : State) :
    (handleTargetsNotReadyLocked currentTime application window s).2.activity
      = s.activity := by
  unfold handleTargetsNotReadyLocked
  simp only [postCommandLocked]
  split_ifs <;> rfl

theorem findFocusedWindowLocked_activity (env : Env) (currentTime : Int)
    (entry : EventEntry) (s : State) :
    (findFocusedWindowLocked env currentTime entry s).2.2.activity = s.activity := by
  unfold findFocusedWindowLocked findFocusedWindowBody
  simp only []
  split
  · split
    · simp only [handleTargetsNotReadyLocked_activity]
    · rfl
  · split_ifs
    · rfl
    · simp only [handleTargetsNotReadyLocked_activity]
    · rfl

theorem findTouchedWindowFailed_activity (env : Env) (action : Nat)
    (entry : EventEntry) (r : Int) (p : InjectionPermission) (s : State) :
    (findTouchedWindowFailed env action entry r p s).activity = s.activity := by
  unfold findTouchedWindowFailed
  simp only [releaseTouchedWindowLocked]
  split_ifs <;> rfl

theorem addWallpaperTargets_activity (ws : List Nat) : ∀ s : State,
    (addWallpaperTargets ws s).activity = s.activity := by
  induction ws with
  | nil => intro s; rfl
  | cons w rest ih => intro s; simp only [addWallpaperTargets, ih]; rfl

theorem addOutsideTargets_activity (os : List OutsideTarget) : ∀ s : State,
    (addOutsideTargets os s).activity = s.activity := by
  induction os with
  | nil => intro s; rfl
  | cons o rest ih => intro s; simp only [addOutsideTargets, ih]; rfl

theorem findTouchedWindowOutput_activity (currentTime : Int) (s : State) :
    (findTouchedWindowOutput currentTime s).2.activity = s.activity := by
  unfold findTouchedWindowOutput
  simp only []
  split
  · exact (addOutsideTargets_activity _ _).trans (addWallpaperTargets_activity _ _)
  · exact (addOutsideTargets_activity _ _).trans (addWallpaperTargets_activity _ _)

theorem findTouchedWindowSucceeded_activity (env : Env) (currentTime : Int)
    (action : Nat) (entry : EventEntry) (s : State) :
    (findTouchedWindowSucceeded env currentTime action entry s).2.2.activity
      = s.activity := by
  simp only [findTouchedWindowSucceeded, findTouchedWindowFailed_activity,
    findTouchedWindowOutput_activity]

theorem findTouchedWindowLocked_activity (env : Env) (currentTime : Int)
    (entry : EventEntry) (motion : MotionEntry) (s : State) :
    (findTouchedWindowLocked env currentTime entry motion s).2.2.activity
      = s.activity := by
  unfold findTouchedWindowLocked findTouchedWindowDown findTouchedWindowNotDown
  simp only []
  split_ifs
  · simp only [handleTargetsNotReadyLocked_activity]
  · split
    · split
      · simp only [handleTargetsNotReadyLocked_activity]
      · simp only [findTouchedWindowFailed_activity]
    · split_ifs
      · simp only [findTouchedWindowFailed_activity]
      · simp only [handleTargetsNotReadyLocked_activity]
      · simp only [findTouchedWindowSucceeded_activity, releaseTouchedWindowLocked]
      · simp only [findTouchedWindowSucceeded_activity, releaseTouchedWindowLocked]
  · simp only [findTouchedWindowFailed_activity]
  · simp only [findTouchedWindowFailed_activity]
  · split
    · simp only [findTouchedWindowFailed_activity]
    · split_ifs
      · simp only [handleTargetsNotReadyLocked_activity]
      · simp only [findTouchedWindowSucceeded_activity]

theorem startFindingTargetsLocked_activity (s : State) :
    (startFindingTargetsLocked s).activity = s.activity := rfl

theorem pokeUserActivityLocked_activity (eventTime windowType eventType : Int)
    (s : State) :
    (pokeUserActivityLocked eventTime windowType eventType s).activity = s.activity := rfl

theorem detectPendingAppSwitchLocked_activity (env : Env) (e : EventEntry)
    (k : KeyEntry) (s : State) :
    (detectPendingAppSwitchLocked env e k s).2.activity = s.activity := by
  unfold detectPendingAppSwitchLocked
  split <;> rfl

theorem enqueueInboundEventLocked_activity (env : Env) (entry : Nat) (s : State) :
    (enqueueInboundEventLocked env entry s).2.activity = s.activity := by
  unfold enqueueInboundEventLocked
  simp only []
  split
  · split
    · simp only [detectPendingAppSwitchLocked_activity]
    · rfl
  · rfl

theorem releaseInboundEventLocked_activity (entry : Nat) (b : Bool) (s : State) :
    (releaseInboundEventLocked entry b s).activity = s.activity := by
  unfold releaseInboundEventLocked
  rw [releaseEventEntry_activity]
  split <;> rfl

theorem drainInboundEntries_activity (es : List Nat) : ∀ s : State,
    (drainInboundEntries es s).activity = s.activity := by
  induction es with
  | nil => intro s; rfl
  | cons e rest ih =>
    intro s
    simp only [drainInboundEntries, ih, releaseInboundEventLocked_activity]

theorem drainInboundQueueLocked_activity (s : State) :
    (drainInboundQueueLocked s).activity = s.activity := by
  unfold drainInboundQueueLocked
  rw [drainInboundEntries_activity]

theorem releasePendingEventLocked_activity (b : Bool) (s : State) :
    (releasePendingEventLocked b s).activity = s.activity := by
  unfold releasePendingEventLocked
  split
  · exact releaseInboundEventLocked_activity _ _ _
  · rfl

theorem resetKeyRepeatLocked_activity (s : State) :
    (resetKeyRepeatLocked s).activity = s.activity := by
  unfold resetKeyRepeatLocked
  split <;> rfl

theorem modifyKey_activity (entry : Nat) (f : KeyEntry → KeyEntry) (s : State) :
    (modifyKey entry f s).activity = s.activity := rfl

theorem synthesizeKeyRepeatLocked_activity (currentTime keyRepeatDelay : Int)
    (s : State) :
    (synthesizeKeyRepeatLocked currentTime keyRepeatDelay s).2.activity = s.activity := by
  unfold synthesizeKeyRepeatLocked
  split
  · rfl
  · split
    · rfl
    · simp only [modifyKey_activity, modifyEvent_activity]
      split <;> rfl

theorem dispatchConfigurationChangedLocked_activity (currentTime : Int) (entry : Nat)
    (s : State) :
    (dispatchConfigurationChangedLocked currentTime entry s).2.activity = s.activity := by
  unfold dispatchConfigurationChangedLocked
  simp only [postCommandLocked_activity, resetKeyRepeatLocked_activity]

theorem dispatchKeyPreprocess_activity (entry : Nat) (keyRepeatTimeout : Int)
    (s : State) :
    (dispatchKeyPreprocess entry keyRepeatTimeout s).activity = s.activity := by
  unfold dispatchKeyPreprocess
  split
  · rfl
  · simp only [startFindingTargetsLocked_activity, modifyEvent_activity]
    split_ifs
    · split
      · split_ifs
        · exact (resetKeyRepeatLocked_activity _).trans (modifyKey_activity _ _ _)
        · exact resetKeyRepeatLocked_activity _
      · exact resetKeyRepeatLocked_activity _
    · simp only [resetKeyRepeatLocked_activity]
    · rfl

theorem pickPendingEvent_activity (currentTime keyRepeatDelay : Int)
    (isAppSwitchDue : Bool) (s : State) :
    (pickPendingEvent currentTime keyRepeatDelay isAppSwitchDue s).2.2.activity
      = s.activity := by
  unfold pickPendingEvent
  split
  · simp only []
    split_ifs <;>
      first
        | rfl
        | (show (synthesizeKeyRepeatLocked _ _ _).2.activity = _
           rw [synthesizeKeyRepeatLocked_activity] <;> rfl)
  · simp only []
    split
    · rfl
    · split
      · split_ifs <;> rfl
      · rfl

theorem resumeAfterTargetsNotReadyTimeoutLocked_activity (env : Env)
    (newTimeout : Int) (s : State) :
    (resumeAfterTargetsNotReadyTimeoutLocked env newTimeout s).activity
      = s.activity := by
  unfold resumeAfterTargetsNotReadyTimeoutLocked
  split <;> rfl

theorem notifyConfigurationChanged_activity (env : Env) (eventTime : Int)
    (s : State) :
    (notifyConfigurationChanged env eventTime s).activity = s.activity := by
  unfold notifyConfigurationChanged
  rw [enqueueInboundEventLocked_activity]; rfl

theorem notifyKey_activity (env : Env) (eventTime deviceId : Int)
    (source policyFlags action flags : Nat) (keyCode scanCode metaState downTime : Int)
    (s : State) :
    (notifyKey env eventTime deviceId source policyFlags action flags keyCode scanCode metaState
      downTime s).activity = s.activity := by
  unfold notifyKey
  rw [enqueueInboundEventLocked_activity]; rfl

theorem appendInjectedSamples_activity (motionEntry pointerCount : Nat)
    (ts : List Int) : ∀ (cs : List PointerCoords) (s : State),
      (appendInjectedSamples motionEntry pointerCount ts cs s).activity = s.activity := by
  induction ts with
  | nil => intro cs s; rfl
  | cons t rest ih => intro cs s; simp only [appendInjectedSamples, ih]; rfl

theorem createEntryFromInjectedInputEventLocked_activity (event : InputEvent)
    (s : State) :
    (createEntryFromInjectedInputEventLocked event s).2.activity = s.activity := by
  unfold createEntryFromInjectedInputEventLocked
  split
  · split <;> rfl
  · split
    · rfl
    · simp only [appendInjectedSamples_activity]; rfl
  · rfl

theorem injectInputEventEnqueue_activity (env : Env) (event : InputEvent)
    (injectorPid injectorUid syncMode : Int) (s : State) :
    (injectInputEventEnqueue env event injectorPid injectorUid syncMode s).2.activity
      = s.activity := by
  unfold injectInputEventEnqueue
  simp only []
  split
  · exact createEntryFromInjectedInputEventLocked_activity _ _
  · simp only [enqueueInboundEventLocked_activity, modifyEvent_activity,
      createEntryFromInjectedInputEventLocked_activity]

theorem injectInputEvent_activity (env : Env) (clock : List Int) (event : InputEvent)
    (injectorPid injectorUid syncMode timeoutMillis : Int) (s : State) (r : Int × State)
    (hr : injectInputEvent env clock event injectorPid injectorUid syncMode timeoutMillis s
      = some r) : r.2.activity = s.activity := by
  unfold injectInputEvent at hr
  simp only [] at hr
  split at hr
  · cases hr
    exact injectInputEventEnqueue_activity _ _ _ _ _ _
  · split at hr
    · cases hr
    · split at hr
      · cases hr
      · cases hr
        simp only [releaseEventEntry_activity, injectInputEventEnqueue_activity]

theorem resolveWindows_activity (t : Option InputChannel) (ws : List InputChannel)
    (windows : List InputWindow) : ∀ (i : Nat) (s : State),
      (resolveWindows t ws windows i s).activity = s.activity := by
  induction windows with
  | nil => intro i s; rfl
  | cons w rest ih =>
    intro i s
    simp only [resolveWindows, ih]
    split_ifs <;> rfl

theorem setFocusedApplication_activity (a : Option InputApplication) (s : State) :
    (setFocusedApplication a s).activity = s.activity := by
  unfold setFocusedApplication
  split <;> rfl

/-! ### The dispatch cycle keeps the active list in step with the queues -/

theorem actOk_deactivateConnectionLocked (x : Nat) (s : State)
    (h : HotOk x (s.activityExcept x)) (hq : s.activity.2[x]? ≠ some false) :
    ActOk (deactivateConnectionLocked x s).activity := by
  have hn : s.mActiveConnections.Nodup := h.1
  refine ⟨hn.erase x, ?_⟩
  intro i
  show i ∈ s.mActiveConnections.erase x ↔ s.activity.2[i]? = some false
  by_cases hi : i = x
  · subst hi
    constructor
    · intro hm
      exact absurd hm (List.Nodup.not_mem_erase hn)
    · intro hf
      exact absurd hf hq
  · rw [List.mem_erase_of_ne hi]
    have h1 := h.2.2 i hi
    rw [activityExcept_getElem? x s i hi] at h1
    exact h1

theorem actOk_activateConnectionLocked (x : Nat) (s : State)
    (h : HotOk x (s.activityExcept x)) (hq : s.activity.2[x]? = some false) :
    ActOk (activateConnectionLocked x s).activity := by
  have hn : s.mActiveConnections.Nodup := h.1
  have hrest : ∀ i : Nat, i ≠ x → (i ∈ s.mActiveConnections ↔ s.activity.2[i]? = some false) := by
    intro i hi
    have h1 := h.2.2 i hi
    rw [activityExcept_getElem? x s i hi] at h1
    exact h1
  unfold activateConnectionLocked
  split
  · rename_i hc
    have hx : x ∈ s.mActiveConnections := by
      simpa using hc
    refine ⟨hn, ?_⟩
    intro i
    by_cases hi : i = x
    · subst hi
      exact ⟨fun _ => hq, fun _ => hx⟩
    · exact hrest i hi
  · rename_i hc
    have hx : x ∉ s.mActiveConnections := by
      simpa using hc
    refine ⟨?_, ?_⟩
    · show (s.mActiveConnections ++ [x]).Nodup
      rw [List.nodup_append]
      refine ⟨hn, List.nodup_singleton x, ?_⟩
      intro a ha hb
      rw [List.mem_singleton] at hb
      subst hb
      exact hx ha
    · intro i
      show i ∈ s.mActiveConnections ++ [x] ↔ s.activity.2[i]? = some false
      rw [List.mem_append, List.mem_singleton]
      by_cases hi : i = x
      · subst hi
        exact ⟨fun _ => hq, fun _ => Or.inr rfl⟩
      · rw [← hrest i hi]
        exact ⟨fun hm => hm.resolve_right hi, Or.inl⟩

theorem isEmpty_take_of_isEmpty {α : Type} (n : Nat) (l : List α) (h : (l.take n).isEmpty = false) :
    l.isEmpty = false := by
  cases l with
  | nil => simp at h
  | cons a l => rfl

theorem actOk_drainOutboundQueueLocked (connection n : Nat) (s : State)
    (h : ActOk s.activity) : ActOk (drainOutboundQueueLocked connection n s).activity := by
  unfold drainOutboundQueueLocked
  split
  · exact h
  · rename_i c hc
    simp only []
    split
    · rename_i hkept
      apply actOk_deactivateConnectionLocked
      · rw [activityExcept_of_activity _ (drainEntries_activity _ _),
          modifyConnection_activityExcept]
        exact hotOk_of_actOk _ _ h
      · rw [drainEntries_activity, modifyConnection_activity_getElem?, hc]
        simp only [Option.map_some', hkept]
        intro hf
        cases hf
    · rename_i hkept
      rw [drainEntries_activity, modifyConnection_activity_at]
      · exact h
      · intro c1 hc1
        rw [hc] at hc1
        cases hc1
        have hk : (c.outboundQueue.take n).isEmpty = false := by
          cases hx : (c.outboundQueue.take n).isEmpty
          · rfl
          · exact absurd hx hkept
        show (c.outboundQueue.take n).isEmpty = c.outboundQueue.isEmpty
        rw [hk, isEmpty_take_of_isEmpty n _ hk]

theorem actOk_abortDispatchCycleLocked (connection : Nat) (broken : Bool) (s : State)
    (h : ActOk s.activity) : ActOk (abortDispatchCycleLocked connection broken s).activity := by
  unfold abortDispatchCycleLocked
  have h1 : ActOk (modifyConnection connection (fun c =>
      { c with nextTimeoutTime := LONG_LONG_MAX, inputState := c.inputState.setOutOfSync })
      s).activity := by
    rw [modifyConnection_activity _ _ _ (by intro _; rfl)]
    exact h
  have h2 := actOk_drainOutboundQueueLocked connection 0 _ h1
  simp only []
  split
  · exact h2
  · split
    · rw [onDispatchCycleBrokenLocked_activity, modifyConnection_activity _ _ _ (by intro _; rfl)]
      exact h2
    · exact h2

theorem timeoutDispatchCycleLocked_activity (currentTime : Int) (connection : Nat) (s : State) :
    (timeoutDispatchCycleLocked currentTime connection s).activity = s.activity := by
  unfold timeoutDispatchCycleLocked
  split
  · rfl
  · split_ifs
    · rw [onDispatchCycleANRLocked_activity, modifyConnection_activity _ _ _ (by intro _; rfl)]
    · rfl
    · rw [onDispatchCycleANRLocked_activity]

theorem actOk_resumeAfterTimeoutDispatchCycleLocked (currentTime : Int) (connection : Nat)
    (newTimeout : Int) (s : State) (h : ActOk s.activity) :
    ActOk (resumeAfterTimeoutDispatchCycleLocked currentTime connection newTimeout
      s).activity := by
  unfold resumeAfterTimeoutDispatchCycleLocked
  split
  · exact h
  · simp only []
    split_ifs
    · exact h
    · rw [modifyConnection_activity _ _ _ (by intro _; rfl)]
      exact h
    · apply actOk_drainOutboundQueueLocked
      rw [modifyConnection_activity _ _ _ (by intro c; exact isEmpty_modifyAt _ _ _),
        modifyConnection_activity _ _ _ (by intro _; rfl)]
      exact h
    · rw [modifyConnection_activity _ _ _ (by intro _; rfl)]
      exact h

theorem publisherCalled_activity (connection : Nat) (calls : List PublisherCall) (s : State) :
    (publisherCalled connection calls s).activity = s.activity :=
  modifyConnection_activity _ _ _ (by intro _; rfl)

theorem actOk_sendDispatchSignalAndRecord (env : Env) (currentTime : Int) (connection : Nat)
    (timeSpent : Int) (d : DispatchEntry) (eventTime : Int) (s : State)
    (h : ActOk s.activity) :
    ActOk (sendDispatchSignalAndRecord env currentTime connection timeSpent d eventTime
      s).activity := by
  unfold sendDispatchSignalAndRecord
  have h1 : ActOk (publisherCalled connection [PublisherCall.sendDispatchSignal] s).activity := by
    rw [publisherCalled_activity]
    exact h
  simp only []
  split
  · exact h1
  · split_ifs
    · exact actOk_abortDispatchCycleLocked _ _ _ h1
    · rw [modifyConnection_activity _ _ _ (by intro _; rfl)]
      exact h1

theorem actOk_startDispatchCycleLocked (env : Env) (currentTime : Int) (connection : Nat)
    (timeSpent : Int) (s : State) (h : ActOk s.activity) :
    ActOk (startDispatchCycleLocked env currentTime connection timeSpent s).activity := by
  unfold startDispatchCycleLocked
  split
  · exact h
  · rename_i c hc
    split
    · exact h
    · rename_i head rest hqueue
      split
      · exact h
      · rename_i eventEntry _
        have h1 : ActOk (modifyConnection connection (fun c1 =>
            { c1 with
              outboundQueue := { head with inProgress := true } :: rest
              inputState := (c1.inputState.trackEvent eventEntry).2 }) s).activity := by
          rw [modifyConnection_activity_at]
          · exact h
          · intro c1 hc1
            rw [hc] at hc1
            cases hc1
            rw [hqueue]
            rfl
        have hp : ∀ (calls : List PublisherCall) (t : State), ActOk t.activity →
            ActOk (publisherCalled connection calls t).activity := by
          intro calls t ht
          rw [publisherCalled_activity]
          exact ht
        simp only []
        split
        · refine actOk_ite _ _ _ ?_ ?_
          · exact actOk_abortDispatchCycleLocked _ _ _ (hp _ _ h1)
          · exact actOk_sendDispatchSignalAndRecord _ _ _ _ _ _ _ (hp _ _ h1)
        · refine actOk_ite _ _ _ ?_ ?_
          · exact actOk_abortDispatchCycleLocked _ _ _ (hp _ _ h1)
          · refine actOk_ite _ _ _ ?_ ?_
            · exact actOk_abortDispatchCycleLocked _ _ _ (hp _ _ (hp _ _ h1))
            · apply actOk_sendDispatchSignalAndRecord
              rw [modifyConnection_activity _ _ _ (by intro c; exact isEmpty_modifyAt _ _ _)]
              exact hp _ _ (hp _ _ h1)
        · exact actOk_sendDispatchSignalAndRecord _ _ _ _ _ _ _ h1

theorem actOk_startNextDispatchCycleLoop (env : Env) (currentTime : Int) (connection : Nat) :
    ∀ (fuel : Nat) (s : State), HotOk connection (s.activityExcept connection) →
      (∀ c, s.mConnections[connection]? = some c →
        c.outboundQueue.length < fuel
          ∧ (c.outboundQueue ≠ [] → connection ∈ s.mActiveConnections)) →
      ActOk (startNextDispatchCycleLoop env currentTime connection fuel s).activity := by
  intro fuel
  induction fuel with
  | zero =>
    intro s h hq
    show ActOk s.activity
    refine actOk_of_hotOk connection s h ?_
    rw [activity_getElem?]
    cases hc : s.mConnections[connection]? with
    | none =>
      constructor
      · intro hm
        have hlt := h.2.1 connection hm
        rw [activityExcept_length, activity_length] at hlt
        rw [List.getElem?_eq_none_iff] at hc
        omega
      · intro hf
        cases hf
    | some c =>
      exact absurd (hq c hc).1 (Nat.not_lt_zero _)
  | succ fuel ih =>
    intro s h hq
    unfold startNextDispatchCycleLoop
    split
    · rename_i hc
      refine actOk_of_hotOk connection s h ?_
      rw [activity_getElem?, hc]
      constructor
      · intro hm
        have hlt := h.2.1 connection hm
        rw [activityExcept_length, activity_length] at hlt
        rw [List.getElem?_eq_none_iff] at hc
        omega
      · intro hf
        cases hf
    · rename_i c hc
      have hqc := hq c hc
      split
      · rename_i hqueue
        apply actOk_deactivateConnectionLocked _ _ h
        rw [activity_getElem?, hc]
        simp only [Option.map_some', hqueue, List.isEmpty_nil]
        intro hf
        cases hf
      · rename_i d rest hqueue
        have hmem : connection ∈ s.mActiveConnections := by
          apply hqc.2
          rw [hqueue]
          exact List.cons_ne_nil _ _
        have hfull : ActOk s.activity := by
          refine actOk_of_hotOk connection s h ?_
          rw [activity_getElem?, hc]
          show connection ∈ s.mActiveConnections ↔ some c.outboundQueue.isEmpty = some false
          rw [hqueue]
          exact ⟨fun _ => rfl, fun _ => hmem⟩
        have hlen : rest.length < fuel := by
          have := hqc.1
          rw [hqueue, List.length_cons] at this
          omega
        have hrest : ∀ t : State,
            t.activity = (modifyConnection connection
              (fun c => { c with outboundQueue := rest }) s).activity →
            t.mConnections[connection]? = some { c with outboundQueue := rest } →
            ActOk (startNextDispatchCycleLoop env currentTime connection fuel t).activity := by
          intro t ht htc
          apply ih
          · rw [activityExcept_of_activity _ ht, modifyConnection_activityExcept]
            exact h
          · intro c1 hc1
            rw [htc] at hc1
            cases hc1
            refine ⟨hlen, fun _ => ?_⟩
            have ha : t.mActiveConnections = s.mActiveConnections :=
              congrArg Prod.fst ht
            rw [ha]
            exact hmem
        have hget : (modifyConnection connection
            (fun c => { c with outboundQueue := rest }) s).mConnections[connection]?
            = some { c with outboundQueue := rest } := by
          show (modifyAt _ connection s.mConnections)[connection]? = _
          rw [getElem?_modifyAt, if_pos rfl, hc]
          rfl
        split_ifs
        · apply actOk_startDispatchCycleLocked
          rw [modifyConnection_activity_at]
          · exact hfull
          · intro c1 hc1
            rw [hc] at hc1
            cases hc1
            rw [hqueue]
            rfl
        · apply hrest
          · rw [releaseDispatchEntry_activity, decrementPendingSyncDispatchesLocked_activity]
          · rw [releaseDispatchEntry_mConnections,
              decrementPendingSyncDispatchesLocked_mConnections]
            exact hget
        · apply hrest
          · rw [releaseDispatchEntry_activity]
          · rw [releaseDispatchEntry_mConnections]
            exact hget
        · exact actOk_startDispatchCycleLocked _ _ _ _ _ hfull

theorem actOk_startNextDispatchCycleLocked (env : Env) (currentTime : Int) (connection : Nat)
    (s : State) (h : ActOk s.activity) :
    ActOk (startNextDispatchCycleLocked env currentTime connection s).activity := by
  unfold startNextDispatchCycleLocked
  split
  · exact h
  · rename_i c hc
    apply actOk_startNextDispatchCycleLoop
    · exact hotOk_of_actOk _ _ h
    · intro c1 hc1
      rw [hc] at hc1
      cases hc1
      refine ⟨Nat.lt_succ_self _, fun hne => ?_⟩
      rw [h.2 connection, activity_getElem?, hc]
      cases hq : c.outboundQueue with
      | nil => exact absurd hq hne
      | cons d rest =>
        show some c.outboundQueue.isEmpty = some false
        rw [hq]
        rfl

theorem actOk_finishDispatchCycleLocked (env : Env) (currentTime : Int) (connection : Nat)
    (s : State) (h : ActOk s.activity) :
    ActOk (finishDispatchCycleLocked env currentTime connection s).activity := by
  unfold finishDispatchCycleLocked
  split
  · exact h
  · have h1 : ActOk (modifyConnection connection
        (fun c => { c with nextTimeoutTime := LONG_LONG_MAX }) s).activity := by
      rw [modifyConnection_activity _ _ _ (by intro _; rfl)]
      exact h
    rename_i c hc
    have h2 : ActOk (if c.status = Status.STATUS_NOT_RESPONDING then
          onDispatchCycleFinishedLocked connection true
            (modifyConnection connection (fun c => { c with status := Status.STATUS_NORMAL })
              (modifyConnection connection
                (fun c => { c with nextTimeoutTime := LONG_LONG_MAX }) s))
        else onDispatchCycleFinishedLocked connection false
          (modifyConnection connection
            (fun c => { c with nextTimeoutTime := LONG_LONG_MAX }) s)).activity := by
      refine actOk_ite _ _ _ ?_ ?_
      · rw [onDispatchCycleFinishedLocked_activity,
          modifyConnection_activity _ _ _ (by intro _; rfl)]
        exact h1
      · rw [onDispatchCycleFinishedLocked_activity]
        exact h1
    have h3 : ActOk (publisherCalled connection [PublisherCall.reset]
        (if c.status = Status.STATUS_NOT_RESPONDING then
          onDispatchCycleFinishedLocked connection true
            (modifyConnection connection (fun c => { c with status := Status.STATUS_NORMAL })
              (modifyConnection connection
                (fun c => { c with nextTimeoutTime := LONG_LONG_MAX }) s))
        else onDispatchCycleFinishedLocked connection false
          (modifyConnection connection
            (fun c => { c with nextTimeoutTime := LONG_LONG_MAX }) s))).activity := by
      rw [publisherCalled_activity]
      exact h2
    refine actOk_ite _ _ _ h ?_
    refine actOk_ite _ _ _ ?_ ?_
    · exact actOk_abortDispatchCycleLocked _ _ _ h3
    · exact actOk_startNextDispatchCycleLocked _ _ _ _ h3

theorem enqueueCancelationEvents_activityExcept (connection : Nat) (inputTarget : InputTarget)
    (es : List Nat) : ∀ s : State,
      (enqueueCancelationEvents connection inputTarget es s).activityExcept connection
        = s.activityExcept connection := by
  induction es with
  | nil => intro s; rfl
  | cons e rest ih =>
    intro s
    unfold enqueueCancelationEvents
    simp only []
    rw [ih, activityExcept_of_activity _ (releaseEventEntry_activity _ _),
      modifyConnection_activityExcept,
      activityExcept_of_activity _ (obtainDispatchEntry_activity _ _ _ _ _ _)]

theorem getElem?_of_activityExcept {s s' : State} (x : Nat)
    (he : s'.activityExcept x = s.activityExcept x) (c : Connection)
    (hc : s.mConnections[x]? = some c) : ∃ c1, s'.mConnections[x]? = some c1 := by
  have hlen : s'.mConnections.length = s.mConnections.length := by
    have h1 := congrArg (fun a : List Nat × List Bool => a.2.length) he
    simp only [activityExcept_length, activity_length, List.length_map] at h1
    exact h1
  have hlt : x < s.mConnections.length := (List.getElem?_eq_some_iff.mp hc).1
  rw [← hlen] at hlt
  exact ⟨s'.mConnections[x], List.getElem?_eq_getElem hlt⟩

theorem actOk_prepareDispatchCycleEnqueue (env : Env) (currentTime : Int) (connection : Nat)
    (eventEntry : Nat) (inputTarget : InputTarget) (resume : Bool) (c : Connection) (s : State)
    (hc : s.mConnections[connection]? = some c) (h : ActOk s.activity) :
    ActOk (prepareDispatchCycleEnqueue env currentTime connection eventEntry inputTarget resume
      c s).activity := by
  unfold prepareDispatchCycleEnqueue
  have h1 : (if c.inputState.isOutOfSync then
        enqueueCancelationEvents connection inputTarget
          (c.inputState.synthesizeCancelationEvents env.now s).1
          (modifyConnection connection (fun c =>
            { c with inputState := c.inputState.resetOutOfSync })
            (c.inputState.synthesizeCancelationEvents env.now s).2)
      else s).activityExcept connection = s.activityExcept connection := by
    split
    · rw [enqueueCancelationEvents_activityExcept, modifyConnection_activityExcept,
        activityExcept_of_activity _ (synthesizeCancelationEvents_activity _ _ _)]
    · rfl
  simp only []
  generalize (if c.inputState.isOutOfSync then
        enqueueCancelationEvents connection inputTarget
          (c.inputState.synthesizeCancelationEvents env.now s).1
          (modifyConnection connection (fun c =>
            { c with inputState := c.inputState.resetOutOfSync })
            (c.inputState.synthesizeCancelationEvents env.now s).2)
      else s) = s1 at h1 ⊢
  have h3 : (if (obtainDispatchEntry eventEntry inputTarget.flags inputTarget.xOffset
        inputTarget.yOffset inputTarget.timeout s1).1.isSyncTarget then
        modifyEvent eventEntry (fun e =>
          { e with pendingSyncDispatches := e.pendingSyncDispatches + 1 })
          (obtainDispatchEntry eventEntry inputTarget.flags inputTarget.xOffset
            inputTarget.yOffset inputTarget.timeout s1).2
      else (obtainDispatchEntry eventEntry inputTarget.flags inputTarget.xOffset
            inputTarget.yOffset inputTarget.timeout s1).2).activityExcept connection
      = s.activityExcept connection := by
    split
    · rw [activityExcept_of_activity _ (modifyEvent_activity _ _ _),
        activityExcept_of_activity _ (obtainDispatchEntry_activity _ _ _ _ _ _), h1]
    · rw [activityExcept_of_activity _ (obtainDispatchEntry_activity _ _ _ _ _ _), h1]
  generalize (if (obtainDispatchEntry eventEntry inputTarget.flags inputTarget.xOffset
        inputTarget.yOffset inputTarget.timeout s1).1.isSyncTarget then
        modifyEvent eventEntry (fun e =>
          { e with pendingSyncDispatches := e.pendingSyncDispatches + 1 })
          (obtainDispatchEntry eventEntry inputTarget.flags inputTarget.xOffset
            inputTarget.yOffset inputTarget.timeout s1).2
      else (obtainDispatchEntry eventEntry inputTarget.flags inputTarget.xOffset
            inputTarget.yOffset inputTarget.timeout s1).2) = s3 at h3 ⊢
  have h4 : ∀ d : DispatchEntry,
      (modifyConnection connection (fun c =>
        { c with outboundQueue := c.outboundQueue ++ [d] }) s3).activityExcept connection
        = s.activityExcept connection := by
    intro d
    rw [modifyConnection_activityExcept, h3]
  have h5 : ∀ d : DispatchEntry,
      (modifyConnection connection (fun c =>
        { c with outboundQueue := c.outboundQueue ++ [d] }) s3).activity.2[connection]?
        = some false := by
    intro d
    obtain ⟨c3, hc3⟩ := getElem?_of_activityExcept connection h3 c hc
    rw [modifyConnection_activity_getElem?, hc3]
    show some (c3.outboundQueue ++ [d]).isEmpty = some false
    cases c3.outboundQueue <;> rfl
  split
  · apply actOk_startDispatchCycleLocked
    apply actOk_activateConnectionLocked
    · rw [h4]
      exact hotOk_of_actOk _ _ h
    · exact h5 _
  · rename_i hwas
    refine actOk_of_except connection h (h4 _) ⟨fun _ => h5 _, fun _ => ?_⟩
    have ha : ∀ t : State, t.activityExcept connection = s.activityExcept connection →
        t.mActiveConnections = s.mActiveConnections := fun t ht => congrArg Prod.fst ht
    rw [ha _ (h4 _), h.2 connection, activity_getElem?, hc]
    show some c.outboundQueue.isEmpty = some false
    cases hq : c.outboundQueue.isEmpty
    · rfl
    · exact absurd hq hwas

theorem actOk_prepareDispatchCycleLocked (env : Env) (currentTime : Int) (connection : Nat)
    (eventEntry : Nat) (inputTarget : InputTarget) (resume : Bool) (s : State)
    (h : ActOk s.activity) :
    ActOk (prepareDispatchCycleLocked env currentTime connection eventEntry inputTarget resume
      s).activity := by
  unfold prepareDispatchCycleLocked
  split
  · exact h
  · rename_i c hc
    have hp : ∀ calls : List PublisherCall,
        ActOk (publisherCalled connection calls s).activity := by
      intro calls
      rw [publisherCalled_activity]
      exact h
    refine actOk_ite _ _ _ ?_ ?_
    · refine actOk_ite _ _ _ ?_ h
      rw [timeoutDispatchCycleLocked_activity]
      exact h
    · simp only []
      refine actOk_ite _ _ _ ?_ (actOk_prepareDispatchCycleEnqueue _ _ _ _ _ _ _ _ hc h)
      split
      · split
        · exact h
        · refine actOk_ite _ _ _ h ?_
          refine actOk_ite _ _ _ h ?_
          refine actOk_ite _ _ _ (hp _) ?_
          rw [modifyConnection_activity _ _ _ (by intro c; exact isEmpty_modifyAt _ _ _)]
          exact hp _
      · exact actOk_prepareDispatchCycleEnqueue _ _ _ _ _ _ _ _ hc h

theorem actOk_dispatchEventToTargets (env : Env) (currentTime : Int) (eventEntry : Nat)
    (resume : Bool) (ts : List InputTarget) : ∀ s : State, ActOk s.activity →
      ActOk (dispatchEventToTargets env currentTime eventEntry resume ts s).activity := by
  induction ts with
  | nil => intro s h; exact h
  | cons t rest ih =>
    intro s h
    unfold dispatchEventToTargets
    apply ih
    split
    · exact actOk_prepareDispatchCycleLocked _ _ _ _ _ _ _ h
    · exact h

theorem actOk_dispatchEventToCurrentInputTargetsLocked (env : Env) (currentTime : Int)
    (eventEntry : Nat) (resume : Bool) (s : State) (h : ActOk s.activity) :
    ActOk (dispatchEventToCurrentInputTargetsLocked env currentTime eventEntry resume
      s).activity :=
  actOk_dispatchEventToTargets _ _ _ _ _ _ h

theorem actOk_modifyConnection (i : Nat) (f : Connection → Connection) (s : State)
    (hf : ∀ c, (f c).outboundQueue.isEmpty = c.outboundQueue.isEmpty)
    (h : ActOk s.activity) : ActOk (modifyConnection i f s).activity := by
  rw [modifyConnection_activity i f s hf]
  exact h

theorem actOk_timeoutDispatchCycleLocked (currentTime : Int) (connection : Nat) (s : State)
    (h : ActOk s.activity) :
    ActOk (timeoutDispatchCycleLocked currentTime connection s).activity := by
  rw [timeoutDispatchCycleLocked_activity]
  exact h

theorem actOk_publisherCalled (connection : Nat) (calls : List PublisherCall) (s : State)
    (h : ActOk s.activity) : ActOk (publisherCalled connection calls s).activity := by
  rw [publisherCalled_activity]
  exact h

theorem isEmpty_preemptSyncTarget (c : Connection) :
    c.preemptSyncTarget.outboundQueue.isEmpty = c.outboundQueue.isEmpty :=
  isEmpty_modifyAt _ _ _

theorem isEmpty_resetTimeout (c : Connection) (currentTime : Int) :
    (c.resetTimeout currentTime).outboundQueue.isEmpty = c.outboundQueue.isEmpty := by
  unfold Connection.resetTimeout
  split
  · rename_i h
    show c.outboundQueue.isEmpty = _
    rfl
  · rfl

theorem actOk_append_empty (a : List Nat) (l : List Bool) (h : ActOk (a, l)) :
    ActOk (a, l ++ [true]) := by
  refine ⟨h.1, ?_⟩
  intro i
  have h1 := h.2 i
  show i ∈ a ↔ (l ++ [true])[i]? = some false
  rw [show (i ∈ a ↔ l[i]? = some false) from h1]
  by_cases hi : i < l.length
  · rw [List.getElem?_append_left hi]
  · have hn : l[i]? = none := List.getElem?_eq_none_iff.mpr (Nat.le_of_not_lt hi)
    rw [hn, List.getElem?_append_right (Nat.le_of_not_lt hi)]
    constructor
    · intro hf
      cases hf
    · intro hf
      cases hk : i - l.length with
      | zero =>
        rw [hk] at hf
        cases hf
      | succ k =>
        rw [hk] at hf
        cases hf

/-! ### One pass of the dispatch loop, the commands and the public operations -/

theorem actOk_dispatchKeyToTargets (env : Env) (currentTime : Int) (entry : Nat) (s : State)
    (h : ActOk s.activity) :
    ActOk (dispatchKeyToTargets env currentTime entry s).2.activity := by
  unfold dispatchKeyToTargets
  split
  · exact h
  · split_ifs
    · exact h
    · exact h
    · simp only [pokeUserActivityLocked_activity]
      exact actOk_dispatchEventToCurrentInputTargetsLocked _ _ _ _ _ h

theorem actOk_dispatchKeyLocked (env : Env) (currentTime : Int) (entry : Nat)
    (keyRepeatTimeout : Int) (s : State) (h : ActOk s.activity) :
    ActOk (dispatchKeyLocked env currentTime entry keyRepeatTimeout s).2.activity := by
  unfold dispatchKeyLocked
  split
  · exact h
  · rename_i e0 _
    have h1 : ActOk (if (! e0.dispatchInProgress) = true then
        dispatchKeyPreprocess entry keyRepeatTimeout s else s).activity := by
      refine actOk_ite _ _ _ ?_ h
      rw [dispatchKeyPreprocess_activity]; exact h
    simp only []
    generalize (if (! e0.dispatchInProgress) = true then
        dispatchKeyPreprocess entry keyRepeatTimeout s else s) = s1 at h1 ⊢
    split_ifs
    · split
      · exact h1
      · rename_i e _
        have h2 : ActOk (findFocusedWindowLocked env currentTime e s1).2.2.activity := by
          rw [findFocusedWindowLocked_activity]; exact h1
        split_ifs
        · exact h2
        · exact h2
        · split
          · exact h2
          · apply actOk_dispatchKeyToTargets
            exact h2
    · exact actOk_dispatchKeyToTargets _ _ _ _ h1

theorem actOk_dispatchMotionToTargets (env : Env) (currentTime : Int) (entry : Nat)
    (e : EventEntry) (m : MotionEntry) (s : State) (h : ActOk s.activity) :
    ActOk (dispatchMotionToTargets env currentTime entry e m s).2.activity := by
  unfold dispatchMotionToTargets
  simp only [pokeUserActivityLocked_activity]
  exact actOk_dispatchEventToCurrentInputTargetsLocked _ _ _ _ _ h

theorem actOk_dispatchMotionLocked (env : Env) (currentTime : Int) (entry : Nat) (s : State)
    (h : ActOk s.activity) :
    ActOk (dispatchMotionLocked env currentTime entry s).2.activity := by
  unfold dispatchMotionLocked
  split
  · exact h
  · rename_i e0 _
    have h1 : ActOk (if (! e0.dispatchInProgress) = true then
        startFindingTargetsLocked
          (modifyEvent entry (fun e => { e with dispatchInProgress := true }) s)
        else s).activity := actOk_ite _ _ _ h h
    simp only []
    generalize (if (! e0.dispatchInProgress) = true then
        startFindingTargetsLocked
          (modifyEvent entry (fun e => { e with dispatchInProgress := true }) s)
        else s) = s1 at h1 ⊢
    split
    · exact h1
    · rename_i e _
      split
      · rename_i m _
        have h2 : ActOk (if (m.source &&& AINPUT_SOURCE_CLASS_POINTER != 0) = true then
            findTouchedWindowLocked env currentTime e m s1
            else findFocusedWindowLocked env currentTime e s1).2.2.activity := by
          split
          · rw [findTouchedWindowLocked_activity]; exact h1
          · rw [findFocusedWindowLocked_activity]; exact h1
        generalize (if (m.source &&& AINPUT_SOURCE_CLASS_POINTER != 0) = true then
            findTouchedWindowLocked env currentTime e m s1
            else findFocusedWindowLocked env currentTime e s1) = r at h2 ⊢
        split_ifs
        · exact h2
        · exact h2
        · split
          · exact h2
          · exact actOk_dispatchMotionToTargets _ _ _ _ _ _ h2
        · exact actOk_dispatchMotionToTargets _ _ _ _ _ _ h1
      · exact h1

theorem actOk_scanActiveConnections (currentTime : Int) (isAppSwitchDue : Bool)
    (cs : List Nat) : ∀ (acc : ConnectionScan) (s : State), ActOk s.activity →
      ActOk (scanActiveConnections currentTime isAppSwitchDue cs acc s).2.activity := by
  induction cs with
  | nil => intro acc s h; exact h
  | cons connection rest ih =>
    intro acc s h
    unfold scanActiveConnections
    split
    · exact ih _ _ h
    · rename_i c _
      have h1 : ActOk (if c.hasPendingSyncTarget = true then
            if isAppSwitchDue = true then
              (acc, modifyConnection connection Connection.preemptSyncTarget s)
            else ({ acc with havePendingSyncTarget := true }, s)
          else (acc, s)).2.activity := by
        split
        · split
          · exact actOk_modifyConnection _ _ _ isEmpty_preemptSyncTarget h
          · exact h
        · exact h
      simp only []
      generalize (if c.hasPendingSyncTarget = true then
            if isAppSwitchDue = true then
              (acc, modifyConnection connection Connection.preemptSyncTarget s)
            else ({ acc with havePendingSyncTarget := true }, s)
          else (acc, s)) = r at h1 ⊢
      split_ifs
      · exact ih _ _ h1
      · exact ih _ _ h1
      · exact ih _ _ h1

theorem actOk_timeoutConnections (currentTime : Int) (cs : List Nat) :
    ∀ s : State, ActOk s.activity →
      ActOk (timeoutConnections currentTime cs s).activity := by
  induction cs with
  | nil => intro s h; exact h
  | cons connection rest ih =>
    intro s h
    unfold timeoutConnections
    exact ih _ (actOk_timeoutDispatchCycleLocked currentTime connection s h)

theorem actOk_dispatchPendingEventByType (env : Env) (currentTime keyRepeatTimeout : Int)
    (isAppSwitchDue : Bool) (pending : Nat) (e : EventEntry) (s : State)
    (h : ActOk s.activity) :
    ActOk (dispatchPendingEventByType env currentTime keyRepeatTimeout isAppSwitchDue pending e
      s).2.2.activity := by
  unfold dispatchPendingEventByType
  split
  · simp only [dispatchConfigurationChangedLocked_activity]; exact h
  · split_ifs
    · exact actOk_dispatchKeyLocked _ _ _ _ _ h
    · exact h
    · exact actOk_dispatchKeyLocked _ _ _ _ _ h
    · exact actOk_dispatchKeyLocked _ _ _ _ _ h
  · split_ifs
    · exact h
    · exact actOk_dispatchMotionLocked _ _ _ _ h

theorem actOk_dispatchPendingEvent (env : Env) (currentTime keyRepeatTimeout : Int)
    (isAppSwitchDue : Bool) (s : State) (h : ActOk s.activity) :
    ActOk (dispatchPendingEvent env currentTime keyRepeatTimeout isAppSwitchDue
      s).activity := by
  unfold dispatchPendingEvent
  split
  · exact h
  · rename_i pending _
    split
    · exact h
    · rename_i e _
      have h1 := actOk_dispatchPendingEventByType env currentTime keyRepeatTimeout
        isAppSwitchDue pending e s h
      simp only []
      generalize dispatchPendingEventByType env currentTime keyRepeatTimeout
        isAppSwitchDue pending e s = r at h1 ⊢
      split
      · show ActOk (releasePendingEventLocked r.2.1 r.2.2).activity
        rw [releasePendingEventLocked_activity]; exact h1
      · exact h1

theorem actOk_dispatchOnceInnerLocked (env : Env) (keyRepeatTimeout keyRepeatDelay : Int)
    (s : State) (h : ActOk s.activity) :
    ActOk (dispatchOnceInnerLocked env keyRepeatTimeout keyRepeatDelay s).activity := by
  unfold dispatchOnceInnerLocked
  have h1 : ActOk (if keyRepeatTimeout < 0 then resetKeyRepeatLocked s else s).activity := by
    refine actOk_ite _ _ _ ?_ h
    rw [resetKeyRepeatLocked_activity]; exact h
  simp only []
  generalize (if keyRepeatTimeout < 0 then resetKeyRepeatLocked s else s) = s1 at h1 ⊢
  refine actOk_ite _ _ _ ?_ ?_
  · refine actOk_ite _ _ _ ?_ h1
    rw [drainInboundQueueLocked_activity, releasePendingEventLocked_activity]
    exact h1
  · refine actOk_ite _ _ _ h1 ?_
    have h2 : ActOk (if s1.mAppSwitchDueTime < s1.nextWakeupTime then
        { s1 with nextWakeupTime := s1.mAppSwitchDueTime } else s1).activity :=
      actOk_ite _ _ _ h1 h1
    generalize (if s1.mAppSwitchDueTime < s1.nextWakeupTime then
        { s1 with nextWakeupTime := s1.mAppSwitchDueTime } else s1) = s2 at h2 ⊢
    have h3 := actOk_timeoutConnections env.now
      (scanActiveConnections env.now (decide (s1.mAppSwitchDueTime ≤ env.now))
        s2.mActiveConnections { havePendingSyncTarget := false, timedOutConnections := [] }
        s2).1.timedOutConnections _
      (actOk_scanActiveConnections env.now (decide (s1.mAppSwitchDueTime ≤ env.now))
        s2.mActiveConnections { havePendingSyncTarget := false, timedOutConnections := [] }
        s2 h2)
    generalize timeoutConnections env.now
      (scanActiveConnections env.now (decide (s1.mAppSwitchDueTime ≤ env.now))
        s2.mActiveConnections { havePendingSyncTarget := false, timedOutConnections := [] }
        s2).1.timedOutConnections
      (scanActiveConnections env.now (decide (s1.mAppSwitchDueTime ≤ env.now))
        s2.mActiveConnections { havePendingSyncTarget := false, timedOutConnections := [] }
        s2).2 = s3 at h3 ⊢
    refine actOk_ite _ _ _ h3 ?_
    refine actOk_ite _ _ _ ?_ (actOk_dispatchPendingEvent _ _ _ _ _ h3)
    refine actOk_ite _ _ _ ?_ ?_
    · apply actOk_dispatchPendingEvent
      rw [pickPendingEvent_activity]; exact h3
    · rw [pickPendingEvent_activity]; exact h3

theorem actOk_runCommand (env : Env) (commandEntry : CommandEntry) (s : State)
    (h : ActOk s.activity) : ActOk (runCommand env commandEntry s).activity := by
  unfold runCommand
  split
  · exact h
  · exact h
  · unfold doNotifyInputChannelANRLockedInterruptible
    split
    · exact h
    · split
      · exact h
      · exact actOk_ite _ _ _ (actOk_resumeAfterTimeoutDispatchCycleLocked _ _ _ _ h) h
  · exact h
  · unfold doInterceptKeyBeforeDispatchingLockedInterruptible
    split
    · exact h
    · split
      · exact h
      · exact h
  · exact h
  · unfold doTargetsNotReadyTimeoutLockedInterruptible
    rw [resumeAfterTargetsNotReadyTimeoutLocked_activity]; exact h

theorem actOk_runCommandsLoop (env : Env) : ∀ (fuel : Nat) (s : State),
    ActOk s.activity → ActOk (runCommandsLoop env fuel s).activity := by
  intro fuel
  induction fuel with
  | zero => intro s h; exact h
  | succ fuel ih =>
    intro s h
    unfold runCommandsLoop
    split
    · exact h
    · exact ih _ (actOk_runCommand _ _ _ h)

theorem actOk_runCommandsLockedInterruptible (env : Env) (s : State)
    (h : ActOk s.activity) :
    ActOk (runCommandsLockedInterruptible env s).2.activity := by
  unfold runCommandsLockedInterruptible
  split
  · exact h
  · exact actOk_runCommandsLoop _ _ _ h

theorem actOk_dispatchOnce (env : Env) (s : State) (h : ActOk s.activity) :
    ActOk (dispatchOnce env s).activity := by
  unfold dispatchOnce
  have h1 := actOk_runCommandsLockedInterruptible env _
    (actOk_dispatchOnceInnerLocked env env.getKeyRepeatTimeout env.getKeyRepeatDelay
      { s with nextWakeupTime := LONG_LONG_MAX } h)
  exact actOk_ite _ _ _ h1 h1

theorem actOk_handleReceiveCallback (env : Env) (receiveFd events : Nat) (s : State)
    (h : ActOk s.activity) :
    ActOk (handleReceiveCallback env receiveFd events s).2.activity := by
  unfold handleReceiveCallback
  split
  · exact h
  · split
    · exact h
    · simp only []
      split_ifs
      · exact actOk_runCommandsLockedInterruptible _ _
          (actOk_abortDispatchCycleLocked _ _ _ h)
      · exact h
      · exact actOk_runCommandsLockedInterruptible _ _
          (actOk_abortDispatchCycleLocked _ _ _ (actOk_publisherCalled _ _ _ h))
      · exact actOk_runCommandsLockedInterruptible _ _
          (actOk_finishDispatchCycleLocked _ _ _ _ (actOk_publisherCalled _ _ _ h))

theorem actOk_notifyMotion (env : Env) (eventTime deviceId : Int)
    (source policyFlags action flags : Nat) (metaState edgeFlags : Int) (pointerCount : Nat)
    (pointerIds : List Int) (pointerCoords : List PointerCoords)
    (xPrecision yPrecision downTime : Int) (s : State) (h : ActOk s.activity) :
    ActOk (notifyMotion env eventTime deviceId source policyFlags action flags metaState
      edgeFlags pointerCount pointerIds pointerCoords xPrecision yPrecision downTime
      s).activity := by
  have he : ActOk (enqueueInboundEventLocked env
      (obtainMotionEntry eventTime deviceId source policyFlags action flags metaState edgeFlags
        xPrecision yPrecision downTime pointerCount pointerIds pointerCoords s).1
      (obtainMotionEntry eventTime deviceId source policyFlags action flags metaState edgeFlags
        xPrecision yPrecision downTime pointerCount pointerIds pointerCoords
        s).2).2.activity := by
    rw [enqueueInboundEventLocked_activity]; exact h
  unfold notifyMotion
  simp only []
  split
  · split
    · exact h
    · exact he
    · split
      · split
        · apply actOk_runCommandsLockedInterruptible
          apply actOk_dispatchEventToCurrentInputTargetsLocked
          exact h
        · exact he
      · exact he
  · exact he

theorem actOk_preemptConnections (cs : List Nat) : ∀ s : State, ActOk s.activity →
    ActOk (preemptConnections cs s).2.activity := by
  induction cs with
  | nil => intro s h; exact h
  | cons connection rest ih =>
    intro s h
    unfold preemptConnections
    split
    · exact ih _ h
    · split
      · exact ih _ (actOk_modifyConnection _ _ _ isEmpty_preemptSyncTarget h)
      · exact ih _ h

theorem actOk_preemptInputDispatch (s : State) (h : ActOk s.activity) :
    ActOk (preemptInputDispatch s).activity :=
  actOk_preemptConnections _ _ h

theorem actOk_setInputWindows (inputWindows : List InputWindow) (s : State)
    (h : ActOk s.activity) : ActOk (setInputWindows inputWindows s).activity := by
  unfold setInputWindows
  simp only []
  have h2 : ∀ t ws, ActOk (resolveWindows t ws inputWindows 0
      { s with
        mTouchedWindow := none
        mTouchedWallpaperWindows := []
        mFocusedWindow := none
        mWallpaperWindows := []
        mWindows := inputWindows }).activity := by
    intro t ws
    rw [resolveWindows_activity]; exact h
  refine actOk_ite _ _ _ ?_ (h2 _ _)
  exact actOk_preemptConnections _ _ (h2 _ _)

theorem actOk_resetConnectionTimeouts (currentTime : Int) (cs : List Nat) :
    ∀ s : State, ActOk s.activity →
      ActOk (resetConnectionTimeouts currentTime cs s).activity := by
  induction cs with
  | nil => intro s h; exact h
  | cons connection rest ih =>
    intro s h
    unfold resetConnectionTimeouts
    exact ih _ (actOk_modifyConnection _ _ _ (by intro c; exact isEmpty_resetTimeout c _) h)

theorem actOk_setInputDispatchMode (env : Env) (enabled frozen : Bool) (s : State)
    (h : ActOk s.activity) :
    ActOk (setInputDispatchMode env enabled frozen s).activity := by
  unfold setInputDispatchMode
  refine actOk_ite _ _ _ ?_ h
  show ActOk (if (s.mDispatchFrozen && ! frozen) = true then resetANRTimeoutsLocked env s
    else s).activity
  refine actOk_ite _ _ _ ?_ h
  exact actOk_resetConnectionTimeouts _ _ _ h

theorem actOk_registerInputChannel (env : Env) (inputChannel : InputChannel) (monitor : Bool)
    (s : State) (h : ActOk s.activity) :
    ActOk (registerInputChannel env inputChannel monitor s).2.activity := by
  unfold registerInputChannel
  split
  · exact h
  · simp only []
    split
    · exact h
    · apply actOk_runCommandsLockedInterruptible
      have h1 : ActOk (s.mActiveConnections,
          (s.mConnections ++ [Connection.new inputChannel]).map
            (fun c => c.outboundQueue.isEmpty)) := by
        rw [List.map_append]
        exact actOk_append_empty _ _ h
      split
      · exact h1
      · exact h1

theorem actOk_unregisterInputChannel (env : Env) (inputChannel : InputChannel) (s : State)
    (h : ActOk s.activity) :
    ActOk (unregisterInputChannel env inputChannel s).2.activity := by
  unfold unregisterInputChannel
  split
  · exact h
  · apply actOk_runCommandsLockedInterruptible
    apply actOk_abortDispatchCycleLocked
    rename_i connection _
    exact actOk_modifyConnection connection
      (fun c : Connection => { c with status := Status.STATUS_ZOMBIE }) s (by intro _; rfl) h

theorem actOk_step (env : Env) (op : Op) (s : State) (h : ActOk s.activity) :
    ActOk (step env op s).activity := by
  cases op with
  | notifyConfigurationChanged eventTime =>
    show ActOk (notifyConfigurationChanged env eventTime s).activity
    rw [notifyConfigurationChanged_activity]; exact h
  | notifyKey eventTime deviceId source policyFlags action flags keyCode scanCode metaState
      downTime =>
    show ActOk (notifyKey env eventTime deviceId source policyFlags action flags keyCode
      scanCode metaState downTime s).activity
    rw [notifyKey_activity]; exact h
  | notifyMotion eventTime deviceId source policyFlags action flags metaState edgeFlags
      pointerCount pointerIds pointerCoords xPrecision yPrecision downTime =>
    exact actOk_notifyMotion _ _ _ _ _ _ _ _ _ _ _ _ _ _ _ _ h
  | injectInputEvent clock event injectorPid injectorUid syncMode timeoutMillis =>
    show ActOk (match injectInputEvent env clock event injectorPid injectorUid syncMode
        timeoutMillis s with
      | some r => r.2
      | none => (injectInputEventEnqueue env event injectorPid injectorUid syncMode
          s).2).activity
    split
    · rename_i r hr
      rw [injectInputEvent_activity _ _ _ _ _ _ _ _ _ hr]; exact h
    · rw [injectInputEventEnqueue_activity]; exact h
  | injectInputEventEnqueue event injectorPid injectorUid syncMode =>
    show ActOk (injectInputEventEnqueue env event injectorPid injectorUid syncMode
      s).2.activity
    rw [injectInputEventEnqueue_activity]; exact h
  | injectInputEventRelease injectedEntry =>
    show ActOk (releaseEventEntry injectedEntry s).activity
    rw [releaseEventEntry_activity]; exact h
  | setInputWindows inputWindows => exact actOk_setInputWindows _ _ h
  | setFocusedApplication inputApplication =>
    show ActOk (setFocusedApplication inputApplication s).activity
    rw [setFocusedApplication_activity]; exact h
  | setInputDispatchMode enabled frozen => exact actOk_setInputDispatchMode _ _ _ _ h
  | preemptInputDispatch => exact actOk_preemptInputDispatch _ h
  | registerInputChannel inputChannel monitor => exact actOk_registerInputChannel _ _ _ _ h
  | unregisterInputChannel inputChannel => exact actOk_unregisterInputChannel _ _ _ h
  | dispatchOnce => exact actOk_dispatchOnce _ _ h
  | dispatchOnceInnerLocked => exact actOk_dispatchOnceInnerLocked _ _ _ _ h
  | runCommand =>
    show ActOk (match s.mCommandQueue with
      | [] => s
      | commandEntry :: rest =>
        runCommand env commandEntry { s with mCommandQueue := rest }).activity
    split
    · exact h
    · exact actOk_runCommand _ _ _ h
  | handleReceiveCallback receiveFd events => exact actOk_handleReceiveCallback _ _ _ _ h

theorem actOk_run (trace : List (Env × Op)) : ∀ s : State, ActOk s.activity →
    ActOk (run trace s).activity := by
  induction trace with
  | nil => intro s h; exact h
  | cons x rest ih =>
    intro s h
    obtain ⟨env, op⟩ := x
    exact ih _ (actOk_step env op s h)

theorem actOk_initial (maxEventsPerSecond : Int) :
    ActOk (State.initial maxEventsPerSecond).activity := by
  refine ⟨List.nodup_nil, fun i => ?_⟩
  show i ∈ ([] : List Nat) ↔ ([] : List Bool)[i]? = some false
  simp

theorem actOk_of_reachable (s : State) (h : Reachable s) : ActOk s.activity := by
  obtain ⟨m, trace, rfl⟩ := h
  exact actOk_run trace _ (actOk_initial m)

theorem setOutOfSync_eq (st : InputState) :
    st.setOutOfSync
      = { mIsOutOfSync := st.mIsOutOfSync || ! st.isNeutral
          mKeyMementos := st.mKeyMementos
          mMotionMementos := st.mMotionMementos } := by
  unfold InputState.setOutOfSync
  cases hn : st.isNeutral
  · simp
  · cases st
    simp

/-- For a connection that is not NOT_RESPONDING, `resumeAfterTimeoutDispatchCycleLocked`
changes nothing. For one that is, a positive `newTimeout` makes the status NORMAL and the
next timeout time `currentTime + newTimeout` and leaves the outbound queue and everything
else as it was; otherwise the timeout is cleared, the input state is the one that
`setOutOfSync` leaves and the outbound queue holds exactly its former head with FLAG_SYNC
cleared, the entries behind it having been drained and released (each drops one reference
of its event, and one pending synchronous dispatch if it was a synchronous target); the
other connections and the registries are not touched. -/
theorem resumeAfterTimeoutDispatchCycleLocked_cases (currentTime : Int) (connection : Nat)
    (newTimeout : Int) (s : State) (c : Connection)
    (hc : s.mConnections[connection]? = some c) :
    (c.status ≠ Status.STATUS_NOT_RESPONDING →
        resumeAfterTimeoutDispatchCycleLocked currentTime connection newTimeout s = s)
      ∧ (c.status = Status.STATUS_NOT_RESPONDING → newTimeout > 0 →
          resumeAfterTimeoutDispatchCycleLocked currentTime connection newTimeout s
              = { s with
                  mConnections := modifyAt (fun _ =>
                    { c with
                      status := Status.STATUS_NORMAL
                      nextTimeoutTime := currentTime + newTimeout }) connection s.mConnections }
            ∧ (resumeAfterTimeoutDispatchCycleLocked currentTime connection newTimeout
                s).mConnections[connection]?
              = some
                  { c with
                    status := Status.STATUS_NORMAL
                    nextTimeoutTime := currentTime + newTimeout })
      ∧ (c.status = Status.STATUS_NOT_RESPONDING → newTimeout ≤ 0 →
          (resumeAfterTimeoutDispatchCycleLocked currentTime connection newTimeout
              s).mConnections[connection]?
            = some
                { c with
                  nextTimeoutTime := LONG_LONG_MAX
                  inputState := c.inputState.setOutOfSync
                  outboundQueue :=
                    (c.outboundQueue.head?.map DispatchEntry.preemptSyncTarget).toList }
          ∧ (∀ entry : Nat,
              (resumeAfterTimeoutDispatchCycleLocked currentTime connection newTimeout
                  s).mEvents[entry]?
                = (s.mEvents[entry]?).map (EventEntry.afterDrain c.outboundQueue.tail entry)))
      ∧ (∀ i : Nat, i ≠ connection →
          (resumeAfterTimeoutDispatchCycleLocked currentTime connection newTimeout
              s).mConnections[i]? = s.mConnections[i]?)
      ∧ (resumeAfterTimeoutDispatchCycleLocked currentTime connection newTimeout s).directory
          = s.directory
      ∧ resumeAfterTimeoutDispatchCycleLocked currentTime connection newTimeout s
          = { s with
              mConnections :=
                (resumeAfterTimeoutDispatchCycleLocked currentTime connection newTimeout
                  s).mConnections
              mEvents :=
                (resumeAfterTimeoutDispatchCycleLocked currentTime connection newTimeout
                  s).mEvents
              mActiveConnections :=
                (resumeAfterTimeoutDispatchCycleLocked currentTime connection newTimeout
                  s).mActiveConnections } := by
  refine ⟨?_, ?_, ?_, ?_, resumeAfterTimeoutDispatchCycleLocked_directory _ _ _ _, ?_⟩
  · intro hst
    unfold resumeAfterTimeoutDispatchCycleLocked
    rw [hc]
    simp only []
    rw [if_pos hst]
  · intro hst hpos
    have heq : resumeAfterTimeoutDispatchCycleLocked currentTime connection newTimeout s
        = modifyConnection connection (fun c =>
            Connection.setNextTimeoutTime { c with status := Status.STATUS_NORMAL } currentTime
              newTimeout) s := by
      unfold resumeAfterTimeoutDispatchCycleLocked
      rw [hc]
      simp only []
      rw [if_neg (not_not.mpr hst), if_pos hpos]
    have hge : newTimeout ≥ 0 := le_of_lt hpos
    constructor
    · rw [heq]
      unfold modifyConnection
      congr 1
      apply List.ext_getElem?
      intro i
      rw [getElem?_modifyAt, getElem?_modifyAt]
      split
      · rename_i hi
        subst hi
        rw [hc]
        simp only [Option.map_some', Connection.setNextTimeoutTime, if_pos hge]
      · rfl
    · rw [heq]
      show (modifyAt _ connection s.mConnections)[connection]? = _
      rw [getElem?_modifyAt_self _ _ _ _ hc]
      simp only [Connection.setNextTimeoutTime, if_pos hge]
  · intro hst hneg
    have hn : ¬ newTimeout > 0 := not_lt.mpr hneg
    cases hq : c.outboundQueue with
    | nil =>
      have heq : resumeAfterTimeoutDispatchCycleLocked currentTime connection newTimeout s
          = modifyConnection connection (fun c =>
              { c with nextTimeoutTime := LONG_LONG_MAX, inputState := c.inputState.setOutOfSync })
              s := by
        unfold resumeAfterTimeoutDispatchCycleLocked
        rw [hc]
        simp only []
        rw [if_neg (not_not.mpr hst), if_neg hn, hq]
        rfl
      rw [heq]
      constructor
      · show (modifyAt _ connection s.mConnections)[connection]? = _
        rw [getElem?_modifyAt_self _ _ _ _ hc]
        simp only [List.head?_nil, Option.map_none', Option.toList_none]
        rw [← hq]
      · intro entry
        show s.mEvents[entry]? = _
        simp only [List.tail_nil]
        cases s.mEvents[entry]? with
        | none => rfl
        | some e => simp [afterDrain_nil]
    | cons head rest =>
      have heq : resumeAfterTimeoutDispatchCycleLocked currentTime connection newTimeout s
          = drainOutboundQueueLocked connection 1
              (modifyConnection connection (fun c =>
                { c with outboundQueue :=
                    modifyAt DispatchEntry.preemptSyncTarget 0 c.outboundQueue })
                (modifyConnection connection (fun c =>
                  { c with nextTimeoutTime := LONG_LONG_MAX, inputState := c.inputState.setOutOfSync })
                  s)) := by
        unfold resumeAfterTimeoutDispatchCycleLocked
        rw [hc]
        simp only []
        rw [if_neg (not_not.mpr hst), if_neg hn, hq]
        rfl
      have hc2 : (modifyConnection connection (fun c =>
                { c with outboundQueue :=
                    modifyAt DispatchEntry.preemptSyncTarget 0 c.outboundQueue })
                (modifyConnection connection (fun c =>
                  { c with nextTimeoutTime := LONG_LONG_MAX, inputState := c.inputState.setOutOfSync })
                  s)).mConnections[connection]?
          = some
              { c with
                nextTimeoutTime := LONG_LONG_MAX
                inputState := c.inputState.setOutOfSync
                outboundQueue := head.preemptSyncTarget :: rest } := by
        show (modifyAt _ connection (modifyAt _ connection s.mConnections))[connection]? = _
        rw [getElem?_modifyAt_self _ _ _ _ (getElem?_modifyAt_self _ _ _ _ hc)]
        simp only [hq, modifyAt]
      rw [heq]
      constructor
      · rw [drainOutboundQueueLocked_connection _ _ _ _ hc2]
        rfl
      · intro entry
        rw [drainOutboundQueueLocked_mEvents _ _ _ _ hc2]
        rfl
  · intro i hi
    unfold resumeAfterTimeoutDispatchCycleLocked
    rw [hc]
    simp only []
    split
    · rfl
    · split
      · exact getElem?_modifyAt_ne _ _ _ _ hi
      · split
        · rw [drainOutboundQueueLocked_getElem? _ _ _ _ hi]
          show (modifyAt _ connection (modifyAt _ connection s.mConnections))[i]? = _
          rw [getElem?_modifyAt_ne _ _ _ _ hi, getElem?_modifyAt_ne _ _ _ _ hi]
        · exact getElem?_modifyAt_ne _ _ _ _ hi
  · unfold resumeAfterTimeoutDispatchCycleLocked
    rw [hc]
    simp only []
    split
    · rfl
    · split
      · rfl
      · split
        · rw [drainOutboundQueueLocked_frame]
          rfl
        · rfl

/-! # The claims -/

/-- C1: the sync entry of an outbound queue need not be its last entry.  When the channel
of the focused window is also registered as a monitor, the dispatch of one key leaves two
entries on the queue of its connection: the entry of the window target with `FLAG_SYNC`,
in progress at the head, and behind it the entry of the monitoring target with no
flag. -/
theorem monitored_window_sync_entry_not_last :
    (run (keyDispatchTrace true) (State.initial 60)).mConnections.map
        (fun c => c.outboundQueue.map (fun d => (d.targetFlags, d.inProgress)))
      = [[(InputTarget.FLAG_SYNC, true), (0, false)]] := by
  decide

/-- C2: in every state that the operations reach, the outbound queue of every connection
with status `STATUS_NORMAL` has at most one entry in progress, and an entry in progress
is the head of the queue.  (The proof does not use the status: the same holds of every
connection.) -/
theorem inProgress_only_at_head (maxEventsPerSecond : Int) (trace : List (Env × Op))
    (connection : Nat) (c : Connection)
    (hc : (run trace (State.initial maxEventsPerSecond)).mConnections[connection]? = some c)
    (_hstatus : c.status = Status.STATUS_NORMAL) :
    (c.outboundQueue.filter (fun d => d.inProgress)).length ≤ 1 ∧
      ∀ (i : Nat) (d : DispatchEntry),
        c.outboundQueue[i]? = some d → d.inProgress = true → i = 0 := by
  have hq : QueueOk c.outboundQueue :=
    connsOk_getElem? _ (connsOk_of_reachable _ ⟨maxEventsPerSecond, trace, rfl⟩) _ _ hc
  refine ⟨filter_inProgress_length_le _ hq, ?_⟩
  intro i d hd hp
  cases i with
  | zero => rfl
  | succ n =>
    have hmem : d ∈ c.outboundQueue.tail := by
      cases hqueue : c.outboundQueue with
      | nil => rw [hqueue] at hd; simp at hd
      | cons x rest =>
        rw [hqueue] at hd
        simp only [List.getElem?_cons_succ] at hd
        exact List.getElem?_mem hd
    rw [hq d hmem] at hp
    exact absurd hp (by decide)

/-- The connection of the focused window after the dispatch of a key: its status is
`STATUS_NORMAL` and the one entry of its queue is in progress. -/
theorem inProgress_only_at_head_witness :
    (run (keyDispatchTrace false) (State.initial 60)).mConnections[0]?
        = some ((run (keyDispatchTrace false) (State.initial 60)).mConnections.getD 0
            (Connection.new 0)) ∧
      ((run (keyDispatchTrace false) (State.initial 60)).mConnections.getD 0
          (Connection.new 0)).outboundQueue.map (fun d => d.inProgress) = [true] ∧
      (((run (keyDispatchTrace false) (State.initial 60)).mConnections.getD 0
          (Connection.new 0)).outboundQueue.filter (fun d => d.inProgress)).length ≤ 1 ∧
      ∀ (i : Nat) (d : DispatchEntry),
        ((run (keyDispatchTrace false) (State.initial 60)).mConnections.getD 0
          (Connection.new 0)).outboundQueue[i]? = some d → d.inProgress = true → i = 0 :=
  ⟨by decide, by decide,
    inProgress_only_at_head 60 (keyDispatchTrace false) 0 _ (by decide) (by decide)⟩

/-- C3: an event can go back to its pool with `pendingSyncDispatches` not 0.  A key is
dispatched to the focused window, `preemptInputDispatch` clears `FLAG_SYNC` of its
dispatch entry (the event then has `refCount = 1` and `pendingSyncDispatches = 1`), and
the finished signal of the window releases the entry without the decrement: the event
ends with `refCount = 0` and `pendingSyncDispatches = 1`. -/
theorem preempted_release_keeps_pendingSyncDispatches :
    (run (keyDispatchTrace false ++ [(quietEnv, Op.preemptInputDispatch)])
        (State.initial 60)).mEvents.map (fun e => (e.refCount, e.pendingSyncDispatches))
      = [(1, 1)] ∧
    (run preemptedKeyTrace (State.initial 60)).mEvents.map
        (fun e => (e.refCount, e.pendingSyncDispatches))
      = [(0, 1)] := by
  decide

/-- C4: an injected key event whose action is neither DOWN nor UP, and an injected motion
event whose masked action is none of DOWN, UP, CANCEL, MOVE, POINTER_DOWN, POINTER_UP and
OUTSIDE, make `injectInputEvent` return `INPUT_EVENT_INJECTION_FAILED` with the state as
it was, whatever the sync mode, the timeout and the clock. -/
theorem injectInputEvent_invalid_action (env : Env) (clock : List Int)
    (injectorPid injectorUid syncMode timeoutMillis : Int) (s : State) :
    (∀ keyEvent : KeyEvent,
      keyEvent.action ≠ AKEY_EVENT_ACTION_DOWN → keyEvent.action ≠ AKEY_EVENT_ACTION_UP →
      injectInputEvent env clock (InputEvent.key keyEvent) injectorPid injectorUid syncMode
        timeoutMillis s = some (INPUT_EVENT_INJECTION_FAILED, s)) ∧
    (∀ motionEvent : MotionEvent,
      (motionEvent.action &&& AMOTION_EVENT_ACTION_MASK) ∉
        [AMOTION_EVENT_ACTION_DOWN, AMOTION_EVENT_ACTION_UP, AMOTION_EVENT_ACTION_CANCEL,
          AMOTION_EVENT_ACTION_MOVE, AMOTION_EVENT_ACTION_POINTER_DOWN,
          AMOTION_EVENT_ACTION_POINTER_UP, AMOTION_EVENT_ACTION_OUTSIDE] →
      injectInputEvent env clock (InputEvent.motion motionEvent) injectorPid injectorUid syncMode
        timeoutMillis s = some (INPUT_EVENT_INJECTION_FAILED, s)) := by
  constructor
  · intro keyEvent h1 h2
    have hv : isValidKeyAction keyEvent.action = false := by
      simp only [isValidKeyAction, h1, h2, if_false]
    simp only [injectInputEvent, injectInputEventEnqueue,
      createEntryFromInjectedInputEventLocked, hv, Bool.not_false, if_true]
  · intro motionEvent h
    simp only [List.mem_cons, List.mem_singleton, List.not_mem_nil, or_false, not_or] at h
    obtain ⟨h1, h2, h3, h4, h5, h6, h7⟩ := h
    have hv : isValidMotionAction motionEvent.action = false := by
      simp only [isValidMotionAction, h1, h2, h3, h4, h5, h6, h7, if_false]
    simp only [injectInputEvent, injectInputEventEnqueue,
      createEntryFromInjectedInputEventLocked, hv, Bool.not_false, if_true]

/-- The injection of a key event with action 2. -/
theorem injectInputEvent_invalid_action_witness :
    injectInputEvent quietEnv [] (InputEvent.key badActionKey) 0 0
      INPUT_EVENT_INJECTION_SYNC_WAIT_FOR_FINISHED 100 windowsState
        = some (INPUT_EVENT_INJECTION_FAILED, windowsState) :=
  (injectInputEvent_invalid_action quietEnv [] 0 0 INPUT_EVENT_INJECTION_SYNC_WAIT_FOR_FINISHED
    100 windowsState).1 badActionKey (by decide) (by decide)

/-- C5: an injected motion event with no pointer is not dropped.  `injectInputEvent`
with sync mode NONE returns `INPUT_EVENT_INJECTION_SUCCEEDED` for it, and its entry is on
the inbound queue with the reference of the queue. -/
theorem injectInputEvent_no_pointer_enqueued :
    (injectInputEvent quietEnv [] (InputEvent.motion noPointerMove) 0 0
        INPUT_EVENT_INJECTION_SYNC_NONE 0 (State.initial 60)).map
          (fun r => (r.1, r.2.mInboundQueue, r.2.mEvents.map (fun e => e.refCount)))
      = some (INPUT_EVENT_INJECTION_SUCCEEDED, [0], [1]) ∧
    noPointerMove.getPointerCount = 0 := by
  decide

/-- C6: a valid injected event with `timeoutMillis = 0` and sync mode WAIT_FOR_RESULT or
WAIT_FOR_FINISHED makes `injectInputEvent` return `INPUT_EVENT_INJECTION_TIMED_OUT` at
the first reading `t` of the clock (which is not before the reading at the entry) and
without a wait, and afterwards the new event is the last entry of the inbound queue,
with injection result PENDING and the one reference of the queue. -/
theorem injectInputEvent_zero_timeout (env : Env) (t : Int) (clock : List Int)
    (event : InputEvent) (injectorPid injectorUid syncMode : Int) (s : State)
    (hvalid : match event with
      | InputEvent.key keyEvent => isValidKeyAction keyEvent.action = true
      | InputEvent.motion motionEvent => isValidMotionAction motionEvent.action = true
      | InputEvent.other _ => False)
    (hmode : syncMode = INPUT_EVENT_INJECTION_SYNC_WAIT_FOR_RESULT
      ∨ syncMode = INPUT_EVENT_INJECTION_SYNC_WAIT_FOR_FINISHED)
    (hclock : env.now ≤ t) :
    ∃ (s1 : State) (e : EventEntry),
      injectInputEvent env (t :: clock) event injectorPid injectorUid syncMode 0 s
        = some (INPUT_EVENT_INJECTION_TIMED_OUT, s1) ∧
      s1.mInboundQueue = s.mInboundQueue ++ [s.mEvents.length] ∧
      s1.mEvents = s.mEvents ++ [e] ∧
      e.injectionResult = INPUT_EVENT_INJECTION_PENDING ∧ e.refCount = 1 := by
  obtain ⟨e, href, hres, h1, h2, h3⟩ :=
    injectInputEventEnqueue_valid env event injectorPid injectorUid syncMode s hvalid
  have hrel := releaseEventEntry_length_append s.mEvents e _ h2
  have hne : syncMode ≠ INPUT_EVENT_INJECTION_SYNC_NONE := by
    rcases hmode with h | h <;> rw [h] <;> decide
  have hwait : injectInputEventWait (env.now + 0 * 1000000) syncMode e (t :: clock)
      = some INPUT_EVENT_INJECTION_TIMED_OUT := by
    have ht : env.now + 0 * 1000000 - t ≤ 0 := by omega
    have hT : ¬ (INPUT_EVENT_INJECTION_TIMED_OUT = INPUT_EVENT_INJECTION_SUCCEEDED
        ∧ syncMode = INPUT_EVENT_INJECTION_SYNC_WAIT_FOR_FINISHED) := by
      intro h; exact absurd h.1 (by decide)
    simp only [injectInputEventWait, hne, if_false, awaitInjectionResult, hres, ne_eq,
      not_true_eq_false, ht, if_true, hT]
  refine ⟨releaseEventEntry s.mEvents.length
      (injectInputEventEnqueue env event injectorPid injectorUid syncMode s).2,
    { e with refCount := e.refCount - 1 }, ?_, ?_, hrel.1, hres, ?_⟩
  · have hget : (injectInputEventEnqueue env event injectorPid injectorUid syncMode
        s).2.mEvents[s.mEvents.length]? = some e := by rw [h2]; simp
    simp only [injectInputEvent, h1, hget, hwait]
  · rw [hrel.2, h3]
  · show e.refCount - 1 = 1
    rw [href]; rfl

/-- The injection of a key UP with a timeout of 0 that waits for the result. -/
theorem injectInputEvent_zero_timeout_witness :
    ∃ (s1 : State) (e : EventEntry),
      injectInputEvent quietEnv [1000] (InputEvent.key keyUpEvent) 0 0
        INPUT_EVENT_INJECTION_SYNC_WAIT_FOR_RESULT 0 windowsState
        = some (INPUT_EVENT_INJECTION_TIMED_OUT, s1) ∧
      s1.mInboundQueue = windowsState.mInboundQueue ++ [windowsState.mEvents.length] ∧
      s1.mEvents = windowsState.mEvents ++ [e] ∧
      e.injectionResult = INPUT_EVENT_INJECTION_PENDING ∧ e.refCount = 1 :=
  injectInputEvent_zero_timeout quietEnv 1000 [] (InputEvent.key keyUpEvent) 0 0
    INPUT_EVENT_INJECTION_SYNC_WAIT_FOR_RESULT windowsState (by decide) (by decide) (by decide)

/-- C7: `findFocusedWindowLocked` decides its result in this order.  With no focused
window: FAILED when there is no focused application, otherwise the result of the wait
(TIMED_OUT when the state is waiting for the application and the wait has expired, else
PENDING).  With a focused window: PERMISSION_DENIED when `checkInjectionPermission`
fails, else the result of the wait when the window is paused, else SUCCEEDED with the
focused window as out-window.  On every result other than SUCCEEDED there is no
out-window and the current target list is empty. -/
theorem findFocusedWindowLocked_decision_order (env : Env) (currentTime : Int)
    (entry : EventEntry) (s : State) :
    let r := findFocusedWindowLocked env currentTime entry s
    let waiting : Int :=
      if s.mInputTargetWaitCause = InputTargetWaitCause.INPUT_TARGET_WAIT_CAUSE_APPLICATION_NOT_READY
          ∧ s.mInputTargetWaitTimeoutExpired = true
      then INPUT_EVENT_INJECTION_TIMED_OUT else INPUT_EVENT_INJECTION_PENDING
    (s.mFocusedWindow = none → s.mFocusedApplication = none →
        r.1 = INPUT_EVENT_INJECTION_FAILED)
    ∧ (s.mFocusedWindow = none → s.mFocusedApplication ≠ none → r.1 = waiting)
    ∧ (∀ w, s.mFocusedWindow = some w →
        (checkInjectionPermission env (some w) entry.injectorPid entry.injectorUid s = false →
          r.1 = INPUT_EVENT_INJECTION_PERMISSION_DENIED)
        ∧ (checkInjectionPermission env (some w) entry.injectorPid entry.injectorUid s = true →
            (s.window w).paused = true → r.1 = waiting)
        ∧ (checkInjectionPermission env (some w) entry.injectorPid entry.injectorUid s = true →
            (s.window w).paused = false →
            r.1 = INPUT_EVENT_INJECTION_SUCCEEDED ∧ r.2.1 = some w))
    ∧ (r.1 ≠ INPUT_EVENT_INJECTION_SUCCEEDED →
        r.2.1 = none ∧ r.2.2.mCurrentInputTargets = []) :=
  findFocusedWindowBody_decision_order env currentTime entry { s with mCurrentInputTargets := [] }

/-- C8 as stated fails: the target of the focused window carries the offsets
`(-frameLeft, -frameTop)` of the window, here (-5, -6), not (0, 0). -/
theorem focused_window_target_offsets_not_zero :
    (findFocusedWindowLocked quietEnv 1000 (initializeEventEntry (EventBody.key keyUp) 10)
      windowsState).1 = INPUT_EVENT_INJECTION_SUCCEEDED ∧
    (findFocusedWindowLocked quietEnv 1000 (initializeEventEntry (EventBody.key keyUp) 10)
      windowsState).2.2.mCurrentInputTargets.map (fun t => (t.xOffset, t.yOffset))
        = [(-5, -6)] := by
  decide

/-- C8, amended: when `findFocusedWindowLocked` succeeds, the current target list after
`addMonitoringTargetsLocked` is the target of the focused window, with the channel of
the window, `FLAG_SYNC`, the dispatching timeout of the window and the offsets
`(-frameLeft, -frameTop)`, followed by one target per monitoring channel, in the order
of `mMonitoringChannels`, with no flag, timeout -1 and offsets 0. -/
theorem focused_window_targets (env : Env) (currentTime : Int) (entry : EventEntry) (s : State)
    (h : (findFocusedWindowLocked env currentTime entry s).1 = INPUT_EVENT_INJECTION_SUCCEEDED) :
    ∃ w, s.mFocusedWindow = some w ∧
      (findFocusedWindowLocked env currentTime entry s).2.1 = some w ∧
      (addMonitoringTargetsLocked
          (findFocusedWindowLocked env currentTime entry s).2.2).mCurrentInputTargets
        = { inputChannel := (s.window w).inputChannel
            flags := InputTarget.FLAG_SYNC
            timeout := (s.window w).dispatchingTimeout
            timeSpentWaitingForApplication :=
              getTimeSpentWaitingForApplicationWhileFindingTargetsLocked currentTime s
            xOffset := - (s.window w).frameLeft
            yOffset := - (s.window w).frameTop }
          :: s.mMonitoringChannels.map (fun inputChannel =>
              { inputChannel := inputChannel
                flags := 0
                timeout := -1
                timeSpentWaitingForApplication := 0
                xOffset := 0
                yOffset := 0 }) := by
  obtain ⟨w, hw, he⟩ := findFocusedWindowBody_succeeded env currentTime entry
    { s with mCurrentInputTargets := [] } h
  refine ⟨w, hw, ?_, ?_⟩
  · show (findFocusedWindowBody env currentTime entry { s with mCurrentInputTargets := [] }).2.1 = _
    rw [he]
  · show (addMonitoringTargetsLocked
      (findFocusedWindowBody env currentTime entry { s with mCurrentInputTargets := [] }).2.2).mCurrentInputTargets = _
    rw [he]
    rfl

/-- The targets of a key for the focused sample window. -/
theorem focused_window_targets_witness :
    ∃ w, windowsState.mFocusedWindow = some w ∧
      (findFocusedWindowLocked quietEnv 1000 (initializeEventEntry (EventBody.key keyUp) 10)
        windowsState).2.1 = some w ∧
      (addMonitoringTargetsLocked
          (findFocusedWindowLocked quietEnv 1000 (initializeEventEntry (EventBody.key keyUp) 10)
            windowsState).2.2).mCurrentInputTargets
        = { inputChannel := (windowsState.window w).inputChannel
            flags := InputTarget.FLAG_SYNC
            timeout := (windowsState.window w).dispatchingTimeout
            timeSpentWaitingForApplication :=
              getTimeSpentWaitingForApplicationWhileFindingTargetsLocked 1000 windowsState
            xOffset := - (windowsState.window w).frameLeft
            yOffset := - (windowsState.window w).frameTop }
          :: windowsState.mMonitoringChannels.map (fun inputChannel =>
              { inputChannel := inputChannel
                flags := 0
                timeout := -1
                timeSpentWaitingForApplication := 0
                xOffset := 0
                yOffset := 0 }) :=
  focused_window_targets quietEnv 1000 (initializeEventEntry (EventBody.key keyUp) 10)
    windowsState (by decide)

/-- C9: for a DOWN at `(x, y)`, the window that the traversal of `findTouchedWindowLocked`
hits is the first window of the list, front to back, that passes the hit test of the
claim, and there is none exactly when no window passes it.  When the function succeeds
its out-window is that window, when it does not succeed there is no out-window, without
a hit it does not succeed, and with a hit that no error window overrides, that the
injector may touch and that is not paused, it succeeds. -/
theorem findTouchedWindowLocked_hits_first_window (env : Env) (currentTime : Int)
    (entry : EventEntry) (motion : MotionEntry) (s : State)
    (hdown : motion.action = AMOTION_EVENT_ACTION_DOWN) :
    let x := (motion.firstSample.pointerCoords.getD 0 default).x
    let y := (motion.firstSample.pointerCoords.getD 0 default).y
    let hit := (touchScan motion s).newTouchedWindow
    let r := findTouchedWindowLocked env currentTime entry motion s
    (∀ k, hit = some k ↔ FirstHit x y s.mWindows k)
    ∧ (hit = none ↔ ∀ j, j < s.mWindows.length → hitTest x y (s.mWindows.getD j default) = false)
    ∧ (r.1 = INPUT_EVENT_INJECTION_SUCCEEDED → r.2.1 = hit)
    ∧ (r.1 ≠ INPUT_EVENT_INJECTION_SUCCEEDED → r.2.1 = none)
    ∧ (hit = none → r.1 ≠ INPUT_EVENT_INJECTION_SUCCEEDED)
    ∧ (∀ k, hit = some k →
        (touchScan motion s).topErrorWindow = none ∨ (touchScan motion s).topErrorWindow = some k →
        checkInjectionPermission env (some k) entry.injectorPid entry.injectorUid s = true →
        (s.window k).paused = false →
        r.1 = INPUT_EVENT_INJECTION_SUCCEEDED) := by
  intro x y hit r
  have hr : r = findTouchedWindowDown env currentTime entry motion
      { s with mCurrentInputTargets := [] } := by
    simp only [r, findTouchedWindowLocked, if_pos hdown]
  have hsc : touchScan motion { s with mCurrentInputTargets := [] } = touchScan motion s :=
    touchScan_congr motion s _ rfl
  have hsucc : r.1 = INPUT_EVENT_INJECTION_SUCCEEDED → r.2.1 = hit := by
    intro h
    rw [hr] at h ⊢
    obtain ⟨k, hk, he⟩ := findTouchedWindowDown_succeeded env currentTime entry motion _ h
    obtain ⟨-, h2, -⟩ := findTouchedWindowSucceeded_spec env currentTime motion.action entry
      (downSession motion { s with mCurrentInputTargets := [] } k) k rfl
    rw [he, h2]
    exact (hsc ▸ hk).symm
  have hfail : r.1 ≠ INPUT_EVENT_INJECTION_SUCCEEDED → r.2.1 = none := by
    intro h
    rw [hr] at h ⊢
    exact findTouchedWindowDown_outWindow env currentTime entry motion _ h
  refine ⟨?_, ?_, hsucc, hfail, ?_, ?_⟩
  · intro k
    show (touchScan motion s).newTouchedWindow = some k ↔ _
    rw [touchScan_newTouchedWindow]
    exact findIdx?_first _ _ _
  · show (touchScan motion s).newTouchedWindow = none ↔ _
    rw [touchScan_newTouchedWindow]
    exact findIdx?_none _ _
  · intro hnone hs
    have h1 := hsucc hs
    rw [hr] at hs
    obtain ⟨k, hk, he⟩ := findTouchedWindowDown_succeeded env currentTime entry motion _ hs
    rw [hsc] at hk
    exact absurd (hnone.symm.trans hk) (by simp)
  · intro k hk herr hperm hpaused
    rw [hr]
    apply findTouchedWindowDown_hit env currentTime entry motion _ k
    · rw [hsc]; exact hk
    · rw [hsc]; exact herr
    · exact (checkInjectionPermission_congr env _ _ _ s _ rfl).trans hperm
    · exact hpaused

/-- The DOWN at (7, 8) over the three sample windows hits the second one. -/
theorem findTouchedWindowLocked_hits_first_window_witness :
    touchDown.action = AMOTION_EVENT_ACTION_DOWN ∧
    (findTouchedWindowLocked quietEnv 1000 (initializeEventEntry (EventBody.motion touchDown) 10)
      touchDown windowsState).2.1 = some 1 ∧
    ((touchScan touchDown windowsState).newTouchedWindow = some 1 ↔
      FirstHit 7 8 windowsState.mWindows 1) :=
  ⟨by decide, by decide,
    (findTouchedWindowLocked_hits_first_window quietEnv 1000
      (initializeEventEntry (EventBody.motion touchDown) 10) touchDown windowsState
      (by decide)).1 1⟩

/-- C10 as stated fails: the targets of the wallpaper window and of the window that
watches outside touches carry the dispatching timeouts of their windows, here 3000 and
4000, not 0. -/
theorem touch_targets_timeout_not_zero :
    (findTouchedWindowLocked quietEnv 1000 (initializeEventEntry (EventBody.motion touchDown) 10)
      touchDown windowsState).1 = INPUT_EVENT_INJECTION_SUCCEEDED ∧
    (findTouchedWindowLocked quietEnv 1000 (initializeEventEntry (EventBody.motion touchDown) 10)
      touchDown windowsState).2.2.mCurrentInputTargets.map
        (fun t => (t.inputChannel, t.flags, t.timeout))
        = [(8, InputTarget.FLAG_WINDOW_IS_OBSCURED, 3000), (9, InputTarget.FLAG_OUTSIDE, 4000),
            (7, InputTarget.FLAG_SYNC, 5000)] := by
  decide

/-- C10, amended: when `findTouchedWindowLocked` succeeds, its targets are, in this order,
one target per touched wallpaper window with `FLAG_WINDOW_IS_OBSCURED`, one target per
outside window with `FLAG_OUTSIDE` (and `FLAG_WINDOW_IS_OBSCURED` when it was noted
obscured), then the target of the touched window with `FLAG_SYNC` (and
`FLAG_WINDOW_IS_OBSCURED` when the session is obscured).  Every target has the
dispatching timeout and the offsets `(-frameLeft, -frameTop)` of its own window; what is
0 for the wallpaper and outside targets is the time spent waiting for the application.
For a DOWN the session is the one that the DOWN sets, otherwise the one of the state. -/
theorem findTouchedWindowLocked_targets (env : Env) (currentTime : Int) (entry : EventEntry)
    (motion : MotionEntry) (s : State)
    (h : (findTouchedWindowLocked env currentTime entry motion s).1
      = INPUT_EVENT_INJECTION_SUCCEEDED) :
    let r := findTouchedWindowLocked env currentTime entry motion s
    let timeSpent := getTimeSpentWaitingForApplicationWhileFindingTargetsLocked currentTime s
    (motion.action ≠ AMOTION_EVENT_ACTION_DOWN →
      ∃ touched, s.mTouchedWindow = some touched ∧ r.2.1 = some touched ∧
        r.2.2.mCurrentInputTargets = touchTargets s.mWindows s.mTouchedWallpaperWindows
          s.mTempTouchedOutsideTargets touched s.mTouchedWindowIsObscured timeSpent)
    ∧ (motion.action = AMOTION_EVENT_ACTION_DOWN →
      ∃ hit, (touchScan motion s).newTouchedWindow = some hit ∧ r.2.1 = some hit ∧
        r.2.2.mCurrentInputTargets = touchTargets s.mWindows
          (if (s.window hit).hasWallpaper then s.mWallpaperWindows else [])
          (touchScan motion s).outsideTargets hit (touchScan motion s).obscured timeSpent) := by
  intro r timeSpent
  constructor
  · intro hd
    have hr : r = findTouchedWindowNotDown env currentTime entry motion
        { s with mCurrentInputTargets := [] } := by
      simp only [r, findTouchedWindowLocked, if_neg hd]
    rw [hr]
    have h' : (findTouchedWindowNotDown env currentTime entry motion
        { s with mCurrentInputTargets := [] }).1 = INPUT_EVENT_INJECTION_SUCCEEDED := hr ▸ h
    obtain ⟨touched, ht, -, -, he⟩ := findTouchedWindowNotDown_succeeded env currentTime entry
      motion _ h'
    obtain ⟨-, h2, h3⟩ := findTouchedWindowSucceeded_spec env currentTime motion.action entry
      { s with mCurrentInputTargets := [] } touched ht
    refine ⟨touched, ht, ?_, ?_⟩
    · rw [he, h2]
    · rw [he, h3]
      rfl
  · intro hd
    have hr : r = findTouchedWindowDown env currentTime entry motion
        { s with mCurrentInputTargets := [] } := by
      simp only [r, findTouchedWindowLocked, if_pos hd]
    rw [hr]
    have h' : (findTouchedWindowDown env currentTime entry motion
        { s with mCurrentInputTargets := [] }).1 = INPUT_EVENT_INJECTION_SUCCEEDED := hr ▸ h
    obtain ⟨hit, hhit, he⟩ := findTouchedWindowDown_succeeded env currentTime entry motion _ h'
    have hsc : touchScan motion { s with mCurrentInputTargets := [] } = touchScan motion s :=
      touchScan_congr motion s _ rfl
    obtain ⟨-, h2, h3⟩ := findTouchedWindowSucceeded_spec env currentTime motion.action entry
      (downSession motion { s with mCurrentInputTargets := [] } hit) hit rfl
    refine ⟨hit, hsc ▸ hhit, ?_, ?_⟩
    · rw [he, h2]
    · rw [he, h3]
      simp only [downSession, hsc, List.nil_append]
      rfl

/-- The targets of the DOWN at (7, 8) over the three sample windows. -/
theorem findTouchedWindowLocked_targets_witness :
    touchDown.action = AMOTION_EVENT_ACTION_DOWN ∧
    ∃ hit, (touchScan touchDown windowsState).newTouchedWindow = some hit ∧
      (findTouchedWindowLocked quietEnv 1000
        (initializeEventEntry (EventBody.motion touchDown) 10) touchDown windowsState).2.1
        = some hit ∧
      (findTouchedWindowLocked quietEnv 1000
        (initializeEventEntry (EventBody.motion touchDown) 10) touchDown
        windowsState).2.2.mCurrentInputTargets
        = touchTargets windowsState.mWindows
          (if (windowsState.window hit).hasWallpaper then windowsState.mWallpaperWindows else [])
          (touchScan touchDown windowsState).outsideTargets hit
          (touchScan touchDown windowsState).obscured
          (getTimeSpentWaitingForApplicationWhileFindingTargetsLocked 1000 windowsState) :=
  ⟨by decide,
    (findTouchedWindowLocked_targets quietEnv 1000
      (initializeEventEntry (EventBody.motion touchDown) 10) touchDown windowsState
      (by decide)).2 (by decide)⟩

/-- C11 as stated fails: in the scenario of the claim W1 is not hit and has no
`FLAG_WATCH_OUTSIDE_TOUCH` (the flag is on W2, the window that is hit), so the DOWN at
(25, 25) has one target only, the primary target of W2 with offsets (-20, -20); no
target has `FLAG_OUTSIDE`. -/
theorem outside_scenario_single_target :
    (findTouchedWindowLocked quietEnv 1000
      (initializeEventEntry (EventBody.motion (pointerMotion AMOTION_EVENT_ACTION_DOWN 25 25)) 10)
      (pointerMotion AMOTION_EVENT_ACTION_DOWN 25 25)
      (outsideScenario InputWindow.FLAG_NOT_TOUCH_MODAL)).1 = INPUT_EVENT_INJECTION_SUCCEEDED ∧
    (findTouchedWindowLocked quietEnv 1000
      (initializeEventEntry (EventBody.motion (pointerMotion AMOTION_EVENT_ACTION_DOWN 25 25)) 10)
      (pointerMotion AMOTION_EVENT_ACTION_DOWN 25 25)
      (outsideScenario InputWindow.FLAG_NOT_TOUCH_MODAL)).2.2.mCurrentInputTargets.map
        (fun t => (t.inputChannel, t.flags, t.xOffset, t.yOffset))
      = [(2, InputTarget.FLAG_SYNC, -20, -20)] := by
  decide

/-- C11, amended: when `findTouchedWindowLocked` succeeds for a DOWN at `(x, y)`, the hit
window is the first window that passes the hit test, it is the out-window and the
touched window of the session, and the targets are those of the touched wallpaper
windows, then one `FLAG_OUTSIDE` target for each window in front of the hit window that
is visible and has `FLAG_WATCH_OUTSIDE_TOUCH`, in list order, then the primary target of
the hit window.  A window in front of the hit window without that flag gets no
target. -/
theorem down_outside_targets (env : Env) (currentTime : Int) (entry : EventEntry)
    (motion : MotionEntry) (s : State)
    (hdown : motion.action = AMOTION_EVENT_ACTION_DOWN)
    (hs : (findTouchedWindowLocked env currentTime entry motion s).1
      = INPUT_EVENT_INJECTION_SUCCEEDED) :
    ∃ hit,
      FirstHit (motion.firstSample.pointerCoords.getD 0 default).x
        (motion.firstSample.pointerCoords.getD 0 default).y s.mWindows hit
      ∧ (findTouchedWindowLocked env currentTime entry motion s).2.1 = some hit
      ∧ (findTouchedWindowLocked env currentTime entry motion s).2.2.mTouchedWindow = some hit
      ∧ (findTouchedWindowLocked env currentTime entry motion s).2.2.mCurrentInputTargets
          = touchTargets s.mWindows
              (if (s.window hit).hasWallpaper then s.mWallpaperWindows else [])
              (outsideWatchers s hit) hit (isWindowObscuredLocked hit s)
              (getTimeSpentWaitingForApplicationWhileFindingTargetsLocked currentTime s) := by
  have hr : findTouchedWindowLocked env currentTime entry motion s
      = findTouchedWindowDown env currentTime entry motion
          { s with mCurrentInputTargets := [] } := by
    simp only [findTouchedWindowLocked, if_pos hdown]
  rw [hr] at hs ⊢
  obtain ⟨hit, hhit, he⟩ := findTouchedWindowDown_succeeded env currentTime entry motion _ hs
  have hsc : touchScan motion { s with mCurrentInputTargets := [] } = touchScan motion s :=
    touchScan_congr motion s _ rfl
  rw [hsc] at hhit
  obtain ⟨-, h2, h3⟩ := findTouchedWindowSucceeded_spec env currentTime motion.action entry
    (downSession motion { s with mCurrentInputTargets := [] } hit) hit rfl
  obtain ⟨h4, -, -⟩ := findTouchedWindowSucceeded_session env currentTime motion.action entry
    (downSession motion { s with mCurrentInputTargets := [] } hit) hit rfl
  obtain ⟨ho, hb⟩ := touchScan_outsideTargets motion s hit hhit
  refine ⟨hit, ?_, ?_, ?_, ?_⟩
  · rw [touchScan_newTouchedWindow] at hhit
    exact (findIdx?_first _ _ _).1 hhit
  · rw [he, h2]
  · rw [he]; exact (h4 hdown).2.1
  · rw [he, h3]
    simp only [downSession, hsc, List.nil_append, ho, hb]
    rfl

/-- The scenario of the claim with `FLAG_WATCH_OUTSIDE_TOUCH` on W1: W1 gets the outside
target and W2 the primary target. -/
theorem down_outside_targets_witness :
    (findTouchedWindowLocked quietEnv 1000
      (initializeEventEntry (EventBody.motion (pointerMotion AMOTION_EVENT_ACTION_DOWN 25 25)) 10)
      (pointerMotion AMOTION_EVENT_ACTION_DOWN 25 25)
      (outsideScenario (InputWindow.FLAG_NOT_TOUCH_MODAL |||
        InputWindow.FLAG_WATCH_OUTSIDE_TOUCH))).2.2.mCurrentInputTargets.map
        (fun t => (t.inputChannel, t.flags, t.xOffset, t.yOffset))
      = [(1, InputTarget.FLAG_OUTSIDE, 0, 0), (2, InputTarget.FLAG_SYNC, -20, -20)] ∧
    ∃ hit,
      FirstHit 25 25 (outsideScenario (InputWindow.FLAG_NOT_TOUCH_MODAL |||
        InputWindow.FLAG_WATCH_OUTSIDE_TOUCH)).mWindows hit
      ∧ (findTouchedWindowLocked quietEnv 1000
          (initializeEventEntry
            (EventBody.motion (pointerMotion AMOTION_EVENT_ACTION_DOWN 25 25)) 10)
          (pointerMotion AMOTION_EVENT_ACTION_DOWN 25 25)
          (outsideScenario (InputWindow.FLAG_NOT_TOUCH_MODAL |||
            InputWindow.FLAG_WATCH_OUTSIDE_TOUCH))).2.1 = some hit
      ∧ (findTouchedWindowLocked quietEnv 1000
          (initializeEventEntry
            (EventBody.motion (pointerMotion AMOTION_EVENT_ACTION_DOWN 25 25)) 10)
          (pointerMotion AMOTION_EVENT_ACTION_DOWN 25 25)
          (outsideScenario (InputWindow.FLAG_NOT_TOUCH_MODAL |||
            InputWindow.FLAG_WATCH_OUTSIDE_TOUCH))).2.2.mTouchedWindow = some hit
      ∧ (findTouchedWindowLocked quietEnv 1000
          (initializeEventEntry
            (EventBody.motion (pointerMotion AMOTION_EVENT_ACTION_DOWN 25 25)) 10)
          (pointerMotion AMOTION_EVENT_ACTION_DOWN 25 25)
          (outsideScenario (InputWindow.FLAG_NOT_TOUCH_MODAL |||
            InputWindow.FLAG_WATCH_OUTSIDE_TOUCH))).2.2.mCurrentInputTargets
          = touchTargets (outsideScenario (InputWindow.FLAG_NOT_TOUCH_MODAL |||
              InputWindow.FLAG_WATCH_OUTSIDE_TOUCH)).mWindows
              (if ((outsideScenario (InputWindow.FLAG_NOT_TOUCH_MODAL |||
                  InputWindow.FLAG_WATCH_OUTSIDE_TOUCH)).window hit).hasWallpaper then
                (outsideScenario (InputWindow.FLAG_NOT_TOUCH_MODAL |||
                  InputWindow.FLAG_WATCH_OUTSIDE_TOUCH)).mWallpaperWindows else [])
              (outsideWatchers (outsideScenario (InputWindow.FLAG_NOT_TOUCH_MODAL |||
                InputWindow.FLAG_WATCH_OUTSIDE_TOUCH)) hit) hit
              (isWindowObscuredLocked hit (outsideScenario (InputWindow.FLAG_NOT_TOUCH_MODAL |||
                InputWindow.FLAG_WATCH_OUTSIDE_TOUCH)))
              (getTimeSpentWaitingForApplicationWhileFindingTargetsLocked 1000
                (outsideScenario (InputWindow.FLAG_NOT_TOUCH_MODAL |||
                  InputWindow.FLAG_WATCH_OUTSIDE_TOUCH))) :=
  ⟨by decide,
    down_outside_targets quietEnv 1000
      (initializeEventEntry (EventBody.motion (pointerMotion AMOTION_EVENT_ACTION_DOWN 25 25)) 10)
      (pointerMotion AMOTION_EVENT_ACTION_DOWN 25 25)
      (outsideScenario (InputWindow.FLAG_NOT_TOUCH_MODAL ||| InputWindow.FLAG_WATCH_OUTSIDE_TOUCH))
      (by decide) (by decide)⟩

/-- C12: when `findTouchedWindowLocked` returns SUCCEEDED for a DOWN, `mTouchDown` is true
afterwards and `mTouchedWindow` is not null: it is the window that the traversal hit,
which is also the out-window. -/
theorem down_sets_touch_session (env : Env) (currentTime : Int) (entry : EventEntry)
    (motion : MotionEntry) (s : State)
    (hdown : motion.action = AMOTION_EVENT_ACTION_DOWN)
    (hs : (findTouchedWindowLocked env currentTime entry motion s).1
      = INPUT_EVENT_INJECTION_SUCCEEDED) :
    (findTouchedWindowLocked env currentTime entry motion s).2.2.mTouchDown = true
    ∧ (findTouchedWindowLocked env currentTime entry motion s).2.2.mTouchedWindow ≠ none
    ∧ (findTouchedWindowLocked env currentTime entry motion s).2.2.mTouchedWindow
        = (findTouchedWindowLocked env currentTime entry motion s).2.1
    ∧ (findTouchedWindowLocked env currentTime entry motion s).2.1
        = (touchScan motion s).newTouchedWindow := by
  have hr : findTouchedWindowLocked env currentTime entry motion s
      = findTouchedWindowDown env currentTime entry motion
          { s with mCurrentInputTargets := [] } := by
    simp only [findTouchedWindowLocked, if_pos hdown]
  rw [hr] at hs ⊢
  obtain ⟨hit, hhit, he⟩ := findTouchedWindowDown_succeeded env currentTime entry motion _ hs
  have hsc : touchScan motion { s with mCurrentInputTargets := [] } = touchScan motion s :=
    touchScan_congr motion s _ rfl
  rw [hsc] at hhit
  obtain ⟨-, h2, -⟩ := findTouchedWindowSucceeded_spec env currentTime motion.action entry
    (downSession motion { s with mCurrentInputTargets := [] } hit) hit rfl
  obtain ⟨h4, -, -⟩ := findTouchedWindowSucceeded_session env currentTime motion.action entry
    (downSession motion { s with mCurrentInputTargets := [] } hit) hit rfl
  obtain ⟨h5, h6, -, -⟩ := h4 hdown
  rw [he, h2, h5, h6, hhit]
  exact ⟨rfl, by simp, rfl, rfl⟩

/-- The DOWN at (7, 8) over the three sample windows. -/
theorem down_sets_touch_session_witness :
    (findTouchedWindowLocked quietEnv 1000 (initializeEventEntry (EventBody.motion touchDown) 10)
      touchDown windowsState).2.2.mTouchedWindow = some 1 ∧
    ((findTouchedWindowLocked quietEnv 1000 (initializeEventEntry (EventBody.motion touchDown) 10)
        touchDown windowsState).2.2.mTouchDown = true
    ∧ (findTouchedWindowLocked quietEnv 1000 (initializeEventEntry (EventBody.motion touchDown) 10)
        touchDown windowsState).2.2.mTouchedWindow ≠ none
    ∧ (findTouchedWindowLocked quietEnv 1000 (initializeEventEntry (EventBody.motion touchDown) 10)
        touchDown windowsState).2.2.mTouchedWindow
        = (findTouchedWindowLocked quietEnv 1000
            (initializeEventEntry (EventBody.motion touchDown) 10) touchDown windowsState).2.1
    ∧ (findTouchedWindowLocked quietEnv 1000 (initializeEventEntry (EventBody.motion touchDown) 10)
        touchDown windowsState).2.1 = (touchScan touchDown windowsState).newTouchedWindow) :=
  ⟨by decide,
    down_sets_touch_session quietEnv 1000 (initializeEventEntry (EventBody.motion touchDown) 10)
      touchDown windowsState (by decide) (by decide)⟩

/-- C13: a CANCEL that is routed to the touched window leaves the touch session in place.
After a DOWN on the focused sample window and its finished signal,
`findTouchedWindowLocked` returns SUCCEEDED for the CANCEL of the pointer, and after the
pass that dispatches the CANCEL `mTouchDown` is still true and `mTouchedWindow` is still
the window; the same trace with an UP ends with `mTouchDown` false and no touched
window. -/
theorem cancel_keeps_touch_session :
    (findTouchedWindowLocked quietEnv 1000
        (initializeEventEntry (EventBody.motion (pointerMotion AMOTION_EVENT_ACTION_CANCEL 7 8))
          20)
        (pointerMotion AMOTION_EVENT_ACTION_CANCEL 7 8)
        (run ((touchTrace AMOTION_EVENT_ACTION_CANCEL).take 5) (State.initial 60))).1
      = INPUT_EVENT_INJECTION_SUCCEEDED ∧
    ((run (touchTrace AMOTION_EVENT_ACTION_CANCEL) (State.initial 60)).mTouchDown,
      (run (touchTrace AMOTION_EVENT_ACTION_CANCEL) (State.initial 60)).mTouchedWindow)
      = (true, some 0) ∧
    ((run (touchTrace AMOTION_EVENT_ACTION_UP) (State.initial 60)).mTouchDown,
      (run (touchTrace AMOTION_EVENT_ACTION_UP) (State.initial 60)).mTouchedWindow)
      = (false, none) := by
  decide

/-- C14: `isWindowObscuredLocked` of the window at index `k` is true if and only if some
window at an index `j < k` of the list is visible and its visible frame overlaps the
visible frame of the window strictly on both axes.  The windows at `k` and behind it
do not count. -/
theorem isWindowObscuredLocked_iff (s : State) (k : Nat) :
    isWindowObscuredLocked k s = true ↔
      ∃ j, j < k ∧ j < s.mWindows.length ∧ (s.window j).visible = true
        ∧ (s.window k).visibleFrameRight > (s.window j).visibleFrameLeft
        ∧ (s.window k).visibleFrameLeft < (s.window j).visibleFrameRight
        ∧ (s.window k).visibleFrameBottom > (s.window j).visibleFrameTop
        ∧ (s.window k).visibleFrameTop < (s.window j).visibleFrameBottom := by
  unfold isWindowObscuredLocked
  rw [isWindowObscuredFrom_iff (s.window k) k s.mWindows 0 (Nat.zero_le k)]
  simp only [InputWindow.visibleFrameIntersects, Bool.and_eq_true, decide_eq_true_eq,
    State.window, Nat.zero_add, and_assoc]
  constructor
  · rintro ⟨n, h1, h2, h3⟩
    exact ⟨n, h2, h1, h3⟩
  · rintro ⟨n, h1, h2, h3⟩
    exact ⟨n, h2, h1, h3⟩

/-- C15: `synthesizeCancelationEvents` makes exactly one event per memento, the key
mementos first and then the motion mementos, each in order: the out-events are the
`m + n` new pointers in pool order, the pool grows by the cancelation entries of the key
mementos followed by those of the motion mementos, and nothing else of the state
changes (the input state, kept in its connection, is the same).  Each key entry is a key
UP with `AKEY_EVENT_FLAG_CANCELED` and the ids and down time of its memento, each motion
entry a CANCEL with the pointers of its memento.  A neutral state yields no event. -/
theorem synthesizeCancelationEvents_spec (st : InputState) (now : Int) (s : State) :
    (st.synthesizeCancelationEvents now s).1
        = List.range' s.mEvents.length (st.mKeyMementos.length + st.mMotionMementos.length)
    ∧ (st.synthesizeCancelationEvents now s).2
        = { s with mEvents := s.mEvents ++ st.mKeyMementos.map (keyCancelationEntry now)
              ++ st.mMotionMementos.map (motionCancelationEntry now) }
    ∧ (∀ k ∈ st.mKeyMementos, ∃ key, (keyCancelationEntry now k).body = EventBody.key key
        ∧ key.action = AKEY_EVENT_ACTION_UP ∧ key.flags = AKEY_EVENT_FLAG_CANCELED
        ∧ key.deviceId = k.deviceId ∧ key.source = k.source ∧ key.keyCode = k.keyCode
        ∧ key.scanCode = k.scanCode ∧ key.downTime = k.downTime)
    ∧ (∀ p ∈ st.mMotionMementos, ∃ motion,
        (motionCancelationEntry now p).body = EventBody.motion motion
        ∧ motion.action = AMOTION_EVENT_ACTION_CANCEL
        ∧ motion.deviceId = p.deviceId ∧ motion.source = p.source
        ∧ motion.xPrecision = p.xPrecision ∧ motion.yPrecision = p.yPrecision
        ∧ motion.downTime = p.downTime ∧ motion.pointerCount = p.pointerCount
        ∧ motion.pointerIds = p.pointerIds.take p.pointerCount
        ∧ motion.firstSample.pointerCoords = p.pointerCoords.take p.pointerCount
        ∧ motion.nextSamples = [])
    ∧ (st.isNeutral = true → st.synthesizeCancelationEvents now s = ([], s)) := by
  have h : st.synthesizeCancelationEvents now s
      = (List.range' s.mEvents.length (st.mKeyMementos.length + st.mMotionMementos.length),
          { s with mEvents := s.mEvents ++ st.mKeyMementos.map (keyCancelationEntry now)
              ++ st.mMotionMementos.map (motionCancelationEntry now) }) := by
    simp only [InputState.synthesizeCancelationEvents, synthesizeKeyCancelationEvents_eq,
      synthesizeMotionCancelationEvents_eq, List.length_append, List.length_map,
      List.range'_append_1]
    rw [Nat.add_comm]
  refine ⟨by rw [h], by rw [h], ?_, ?_, ?_⟩
  · intro k _
    exact ⟨_, rfl, rfl, rfl, rfl, rfl, rfl, rfl, rfl⟩
  · intro p _
    exact ⟨_, rfl, rfl, rfl, rfl, rfl, rfl, rfl, rfl, rfl, rfl, rfl⟩
  · intro hn
    simp only [InputState.isNeutral, Bool.and_eq_true, List.isEmpty_iff] at hn
    rw [h, hn.1, hn.2]
    simp

/-- C16: with a negative key repeat timeout a pass of `dispatchOnceInnerLocked` makes no
key repeat.  `resetKeyRepeatLocked` leaves no last key, and there is none when the pass
comes to pick its event (`passBeforeEvent`), where the inbound queue and the pending
event are still those of the start.  What is picked then is the head of the inbound
queue or nothing, and the key repeat state stays empty.  Every entry of the event pool
that is a synthetic repeat after the pass was one before it, in the same slot.  And in a
run from the constructor in which every operation sees a negative timeout, no entry of
the pool is ever a synthetic repeat. -/
theorem negative_key_repeat_timeout_no_repeat (env : Env)
    (keyRepeatTimeout keyRepeatDelay : Int) (s : State) (maxEventsPerSecond : Int)
    (trace : List (Env × Op))
    (hk : keyRepeatTimeout < 0)
    (hneg : ∀ x ∈ trace, x.1.getKeyRepeatTimeout < 0) :
    let p := (passBeforeEvent env keyRepeatTimeout s).2
    (resetKeyRepeatLocked s).mKeyRepeatState.lastKeyEntry = none
      ∧ p.mKeyRepeatState.lastKeyEntry = none
      ∧ p.mInboundQueue = s.mInboundQueue
      ∧ p.mPendingEvent = s.mPendingEvent
      ∧ (∀ isAppSwitchDue : Bool,
          let r := pickPendingEvent env.now keyRepeatDelay isAppSwitchDue p
          r.2.2.mKeyRepeatState = p.mKeyRepeatState
            ∧ r.2.2.mEvents = p.mEvents
            ∧ (p.mPendingEvent = none →
                r.2.2.mPendingEvent = if r.1 then s.mInboundQueue.head? else none))
      ∧ (∀ (i : Nat) (e : EventEntry),
          (dispatchOnceInnerLocked env keyRepeatTimeout keyRepeatDelay s).mEvents[i]? = some e →
          e.isSyntheticRepeat = true →
          ∃ e0, s.mEvents[i]? = some e0 ∧ e0.isSyntheticRepeat = true)
      ∧ SynthFree (run trace (State.initial maxEventsPerSecond)) := by
  intro p
  have hside := passBeforeEvent_eventSide env keyRepeatTimeout s
  rw [if_pos hk] at hside
  have hlast : p.mKeyRepeatState.lastKeyEntry = none :=
    passBeforeEvent_lastKeyEntry env keyRepeatTimeout s hk
  have hq : p.mInboundQueue = s.mInboundQueue := by
    have h := congrArg (fun t : State => t.mInboundQueue) hside
    refine h.trans ?_
    unfold resetKeyRepeatLocked
    split <;> rfl
  have hp : p.mPendingEvent = s.mPendingEvent := by
    have h := congrArg (fun t : State => t.mPendingEvent) hside
    refine h.trans ?_
    unfold resetKeyRepeatLocked
    split <;> rfl
  refine ⟨resetKeyRepeatLocked_lastKeyEntry s, hlast, hq, hp, ?_, ?_, ?_⟩
  · intro isAppSwitchDue
    have h1 := pickPendingEvent_noRepeat env.now keyRepeatDelay isAppSwitchDue p hlast _ rfl
    have h2 := pickPendingEvent_pools env.now keyRepeatDelay isAppSwitchDue p hlast
    simp only [State.pools, Prod.mk.injEq] at h2
    refine ⟨h1.1, h2.1, ?_⟩
    rw [← hq]
    exact h1.2
  · exact (quiet_dispatchOnceInnerLocked env keyRepeatTimeout keyRepeatDelay (fun _ => hk)
      (quiet_refl false s)).synth rfl
  · exact synthFree_run trace _ hneg (synthFree_initial maxEventsPerSecond)

/-- A dispatcher whose last key is down and whose repeat is due: with the timeout of
`quietEnv` the pass turns the entry into a synthetic repeat, with the timeout -1 it does
not and the last key is dropped; and the run of `noRepeatTrace` makes no repeat. -/
theorem negative_key_repeat_timeout_no_repeat_witness :
    repeatArmedState.mKeyRepeatState.lastKeyEntry = some 0
      ∧ (dispatchOnceInnerLocked lateEnv 500000000 50000000
          repeatArmedState).mEvents.map EventEntry.isSyntheticRepeat = [true]
      ∧ (dispatchOnceInnerLocked lateEnv (-1) 50000000
          repeatArmedState).mEvents.map EventEntry.isSyntheticRepeat = [false]
      ∧ (resetKeyRepeatLocked repeatArmedState).mKeyRepeatState.lastKeyEntry = none
      ∧ SynthFree (run noRepeatTrace (State.initial 60)) := by
  have h := negative_key_repeat_timeout_no_repeat lateEnv (-1) 50000000 repeatArmedState 60
    noRepeatTrace (by decide) (by decide)
  exact ⟨by decide, by decide, by decide, h.1, h.2.2.2.2.2.2⟩

/-- C17: a pass of `dispatchOnceInnerLocked` on an enabled, unfrozen dispatcher whose
app switch is armed and overdue, with an event pending or at the head of the inbound
queue.  The pass reaches the pending event with `isAppSwitchDue` true (no sync target
holds it back), the event being `pending` and the arm as it was.  A motion, and a key
other than HOME and ENDCALL, is dropped: the pass ends in
`releasePendingEventLocked true`, so nothing is pending, the entry has lost one
reference and has the injection result FAILED when it was injected, and the current
targets, the touch and focus state and the connections are the ones the pass had when it
reached the event (no target was selected, nothing was enqueued).  HOME and ENDCALL go
to `dispatchKeyLocked` on the state whose arm `resetPendingAppSwitchLocked` cleared. -/
theorem overdue_app_switch_pass (env : Env) (keyRepeatTimeout keyRepeatDelay : Int)
    (s : State) (pending : Nat) (e : EventEntry)
    (henabled : s.mDispatchEnabled = true) (hfrozen : s.mDispatchFrozen = false)
    (harmed : s.mAppSwitchDueTime ≠ LONG_LONG_MAX)
    (hdue : s.mAppSwitchDueTime ≤ env.now)
    (hpending : s.mPendingEvent = some pending
      ∨ (s.mPendingEvent = none ∧ s.mInboundQueue.head? = some pending))
    (he : s.mEvents[pending]? = some e) :
    let p := passAtEvent env keyRepeatTimeout keyRepeatDelay s
    let s' := dispatchOnceInnerLocked env keyRepeatTimeout keyRepeatDelay s
    ∃ e1, p.1 = true ∧ p.2.mPendingEvent = some pending ∧ p.2.mEvents[pending]? = some e1
      ∧ (e1 = e ∨ e1 = { e with refCount := e.refCount - 1 })
      ∧ p.2.mAppSwitchDueTime = s.mAppSwitchDueTime
      ∧ p.2.mCurrentInputTargets = s.mCurrentInputTargets
      ∧ p.2.mCurrentInputTargetsValid = s.mCurrentInputTargetsValid
      ∧ s' = dispatchPendingEvent env env.now keyRepeatTimeout true p.2
      ∧ ((∃ m, e.body = EventBody.motion m)
            ∨ (∃ k, e.body = EventBody.key k ∧ k.keyCode ≠ AKEYCODE_HOME
                ∧ k.keyCode ≠ AKEYCODE_ENDCALL) →
          s' = { releasePendingEventLocked true p.2 with nextWakeupTime := LONG_LONG_MIN }
          ∧ s'.mPendingEvent = none
          ∧ s'.mEvents[pending]? = some
              { e1 with
                injectionResult :=
                  if e1.isInjected then INPUT_EVENT_INJECTION_FAILED else e1.injectionResult
                refCount := e1.refCount - 1 }
          ∧ s'.mCurrentInputTargets = p.2.mCurrentInputTargets
          ∧ s'.mCurrentInputTargetsValid = p.2.mCurrentInputTargetsValid
          ∧ s'.mTouchDown = p.2.mTouchDown ∧ s'.mTouchedWindow = p.2.mTouchedWindow
          ∧ s'.mFocusedWindow = p.2.mFocusedWindow
          ∧ s'.mInputTargetWaitCause = p.2.mInputTargetWaitCause
          ∧ s'.mConnections = p.2.mConnections
          ∧ s'.mActiveConnections = p.2.mActiveConnections
          ∧ s'.mInboundQueue = p.2.mInboundQueue
          ∧ s'.mAppSwitchDueTime = s.mAppSwitchDueTime)
      ∧ (∀ k, e.body = EventBody.key k →
            k.keyCode = AKEYCODE_HOME ∨ k.keyCode = AKEYCODE_ENDCALL →
          let d := dispatchKeyLocked env env.now pending keyRepeatTimeout
            (resetPendingAppSwitchLocked true p.2)
          (resetPendingAppSwitchLocked true p.2).mAppSwitchDueTime = LONG_LONG_MAX
          ∧ s' = if d.1 then
                   { releasePendingEventLocked false d.2 with nextWakeupTime := LONG_LONG_MIN }
                 else d.2) := by
  intro p s'
  have hs' : s' = dispatchPendingEvent env env.now keyRepeatTimeout true p.2 :=
    dispatchOnceInnerLocked_overdue env keyRepeatTimeout keyRepeatDelay s pending e henabled
      hfrozen hdue hpending he
  obtain ⟨ev, ks, cs, q, t, th, iq, e1, hat, hev, he1, -⟩ :=
    passAtEvent_shape env keyRepeatTimeout keyRepeatDelay s pending e hdue hpending he
  have hp : p = (true, { s with mEvents := ev, mKeyRepeatState := ks, mConnections := cs,
                                mCommandQueue := q, nextWakeupTime := t, mThrottleState := th,
                                mInboundQueue := iq, mPendingEvent := some pending }) := hat
  have hbody : e1.body = e.body := by
    rcases he1 with h | h <;> rw [h]
  have hpe : p.2.mEvents[pending]? = some e1 := by rw [hp]; exact hev
  have hpp : p.2.mPendingEvent = some pending := by rw [hp]
  have hpa : isAppSwitchPendingLocked p.2 = true := by
    rw [hp]
    simp only [isAppSwitchPendingLocked, bne_iff_ne, ne_eq]
    exact harmed
  refine ⟨e1, by rw [hp], hpp, hpe, he1, by rw [hp], by rw [hp], by rw [hp], hs', ?_, ?_⟩
  · intro hdrop
    have hbt : dispatchPendingEventByType env env.now keyRepeatTimeout true pending e1 p.2
        = (false, true, p.2) := by
      unfold dispatchPendingEventByType
      rcases hdrop with ⟨m, hm⟩ | ⟨k, hk, h1, h2⟩
      · rw [hbody, hm]
        rfl
      · rw [hbody, hk]
        have hnot : isAppSwitchKey k.keyCode = false := by
          simp [isAppSwitchKey, h1, h2]
        simp only [hpa, hnot, if_true, Bool.false_eq_true, if_false]
    have hfin : s' = { releasePendingEventLocked true p.2 with
        nextWakeupTime := LONG_LONG_MIN } := by
      rw [hs']
      unfold dispatchPendingEvent
      simp only [hpp, hpe, hbt, Bool.false_or, if_true]
    have hrel : releasePendingEventLocked true p.2
        = { releaseInboundEventLocked pending true p.2 with mPendingEvent := none } := by
      unfold releasePendingEventLocked
      simp only [hpp]
    have hev2 := releaseInboundEventLocked_dropped pending p.2 e1 hpe
    have hframe := releaseInboundEventLocked_frame pending true p.2
    refine ⟨hfin, ?_, ?_, ?_, ?_, ?_, ?_, ?_, ?_, ?_, ?_, ?_, ?_⟩
    all_goals rw [hfin, hrel]
    · exact hev2
    all_goals rw [hframe]
    · rw [hp]
  · intro k hk hkey
    have hyes : isAppSwitchKey k.keyCode = true := by
      rcases hkey with h | h <;> simp [isAppSwitchKey, h]
    refine ⟨rfl, ?_⟩
    rw [hs']
    unfold dispatchPendingEvent
    simp only [hpp, hpe]
    unfold dispatchPendingEventByType
    rw [hbody, hk]
    simp only [hpa, hyes, if_true, Bool.or_false]

/-- The release of key 42 waits in front of the release of HOME when the app switch is
overdue: the first pass drops key 42 without queueing anything for the window, the
second pass clears the arm and takes up HOME. -/
theorem overdue_app_switch_pass_witness :
    overdueState.mDispatchEnabled = true ∧ overdueState.mDispatchFrozen = false
      ∧ overdueState.mAppSwitchDueTime = 500000010
      ∧ overdueState.mPendingEvent = none ∧ overdueState.mInboundQueue = [0, 1]
      ∧ (dispatchOnceInnerLocked lateEnv 0 0 overdueState).mPendingEvent = none
      ∧ (dispatchOnceInnerLocked lateEnv 0 0 overdueState).mInboundQueue = [1]
      ∧ (dispatchOnceInnerLocked lateEnv 0 0 overdueState).mConnections.map
          (fun c => c.outboundQueue.length) = [0]
      ∧ (dispatchOnceInnerLocked lateEnv 0 0
          (dispatchOnceInnerLocked lateEnv 0 0 overdueState)).mAppSwitchDueTime = LONG_LONG_MAX
      ∧ (dispatchOnceInnerLocked lateEnv 0 0
          (dispatchOnceInnerLocked lateEnv 0 0 overdueState)).mPendingEvent = some 1
      ∧ dispatchOnceInnerLocked lateEnv 0 0 overdueState
          = dispatchPendingEvent lateEnv lateEnv.now 0 true
              (passAtEvent lateEnv 0 0 overdueState).2 := by
  refine ⟨by decide, by decide, by decide, by decide, by decide, by decide, by decide,
    by decide, by decide, by decide, ?_⟩
  obtain ⟨e1, -, -, -, -, -, -, -, h, -⟩ :=
    overdue_app_switch_pass lateEnv 0 0 overdueState 0
      { refCount := 1, eventTime := 10, injectionResult := -1, injectionIsAsync := false,
        injectorPid := -1, injectorUid := -1, dispatchInProgress := false,
        pendingSyncDispatches := 0, body := EventBody.key { keyUp with downTime := 10 } }
      (by decide) (by decide) (by decide) (by decide) (Or.inr ⟨by decide, by decide⟩)
      (by decide)
  exact h

/-- C18: `enqueueInboundEventLocked` puts the entry at the tail of the inbound queue, and
it arms the app switch exactly for an entry that `ArmsAppSwitch` describes: then
`mAppSwitchDueTime` is the event time plus 500 ms and a wake is requested; for every
other entry `mAppSwitchDueTime` stays as it was, and a wake is requested only when the
queue was empty. -/
theorem enqueueInboundEventLocked_arms_app_switch (env : Env) (entry : Nat) (s : State)
    (e : EventEntry) (he : s.mEvents[entry]? = some e) :
    (enqueueInboundEventLocked env entry s).2.mInboundQueue = s.mInboundQueue ++ [entry]
    ∧ (ArmsAppSwitch env e →
        (enqueueInboundEventLocked env entry s).2.mAppSwitchDueTime
            = e.eventTime + 500 * 1000000
        ∧ (enqueueInboundEventLocked env entry s).1 = true)
    ∧ (¬ ArmsAppSwitch env e →
        (enqueueInboundEventLocked env entry s).2.mAppSwitchDueTime = s.mAppSwitchDueTime
        ∧ (enqueueInboundEventLocked env entry s).1 = s.mInboundQueue.isEmpty) := by
  refine ⟨enqueueInboundEventLocked_mInboundQueue env entry s, ?_, ?_⟩
  · rintro harm
    obtain ⟨k, hb, -⟩ := id harm
    have hc := (detectPendingAppSwitchLocked_cond env e k hb).2 harm
    have he2 : ({ s with mInboundQueue := s.mInboundQueue ++ [entry] } : State).mEvents[entry]?
        = some e := he
    simp only [enqueueInboundEventLocked, he2, hb, detectPendingAppSwitchLocked, hc, if_true,
      Bool.or_true, APP_SWITCH_TIMEOUT, and_self]
  · intro harm
    have he2 : ({ s with mInboundQueue := s.mInboundQueue ++ [entry] } : State).mEvents[entry]?
        = some e := he
    cases hb : e.body with
    | configurationChanged =>
      simp only [enqueueInboundEventLocked, he2, hb, and_self]
    | motion m =>
      simp only [enqueueInboundEventLocked, he2, hb, and_self]
    | key k =>
      have hc : ¬ ((k.action == AKEY_EVENT_ACTION_UP
          && (k.flags &&& AKEY_EVENT_FLAG_CANCELED == 0)
          && isAppSwitchKey k.keyCode && isEventFromReliableSourceLocked env e) = true) :=
        fun h => harm ((detectPendingAppSwitchLocked_cond env e k hb).1 h)
      simp only [enqueueInboundEventLocked, he2, hb, detectPendingAppSwitchLocked, hc, if_false,
        Bool.false_eq_true, Bool.or_false, and_self]

/-- A HOME key UP from the device arms the app switch for 10 + 500 ms. -/
theorem enqueueInboundEventLocked_arms_app_switch_witness :
    ArmsAppSwitch quietEnv (homeUpState.mEvents.getD 0 (initializeEventEntry
      EventBody.configurationChanged 0)) ∧
    (enqueueInboundEventLocked quietEnv 0 homeUpState).2.mAppSwitchDueTime = 500000010 ∧
    (enqueueInboundEventLocked quietEnv 0 homeUpState).1 = true :=
  ⟨⟨_, rfl, by decide, by decide, Or.inl (by decide), Or.inl (by decide)⟩,
    ((enqueueInboundEventLocked_arms_app_switch quietEnv 0 homeUpState
      (homeUpState.mEvents.getD 0 (initializeEventEntry EventBody.configurationChanged 0))
      (by decide)).2.1
        ⟨_, rfl, by decide, by decide, Or.inl (by decide), Or.inl (by decide)⟩)⟩

/-- C19: `preemptInputDispatch` changes the connections only.  Every active connection
whose last outbound entry was a sync target gets that entry back with `FLAG_SYNC`
cleared, the other 31 flag bits and the other fields as they were, at the same place of
the queue; every other connection and entry is unchanged.  Afterwards no active
connection has a pending sync target.  The inner call returns true exactly when some
active connection had one, and a second call in a row returns false and changes
nothing. -/
theorem preemptInputDispatch_spec (s : State) :
    preemptInputDispatch s = (preemptInputDispatchInnerLocked s).2
    ∧ (preemptInputDispatchInnerLocked s).2
        = { s with mConnections := (preemptInputDispatchInnerLocked s).2.mConnections }
    ∧ (preemptInputDispatchInnerLocked s).2.mConnections.length = s.mConnections.length
    ∧ (∀ i c, s.mConnections[i]? = some c →
        (preemptInputDispatchInnerLocked s).2.mConnections[i]?
          = some (if i ∈ s.mActiveConnections ∧ c.hasPendingSyncTarget = true then
              { c with outboundQueue := c.outboundQueue.dropLast
                  ++ (c.outboundQueue.getLast?.map DispatchEntry.preemptSyncTarget).toList }
            else c))
    ∧ (∀ d : DispatchEntry,
        d.preemptSyncTarget = { d with targetFlags := d.preemptSyncTarget.targetFlags }
        ∧ d.preemptSyncTarget.targetFlags.testBit 0 = false
        ∧ ∀ j, 0 < j → j < 32 →
            d.preemptSyncTarget.targetFlags.testBit j = d.targetFlags.testBit j)
    ∧ (∀ i ∈ s.mActiveConnections, ∀ c,
        (preemptInputDispatchInnerLocked s).2.mConnections[i]? = some c →
        c.hasPendingSyncTarget = false)
    ∧ ((preemptInputDispatchInnerLocked s).1 = true ↔
        ∃ i ∈ s.mActiveConnections, ∃ c,
          s.mConnections[i]? = some c ∧ c.hasPendingSyncTarget = true)
    ∧ preemptInputDispatchInnerLocked (preemptInputDispatchInnerLocked s).2
        = (false, (preemptInputDispatchInnerLocked s).2) := by
  refine ⟨rfl, preemptConnections_fields _ s, preemptConnections_length _ s, ?_, ?_,
    fun i hi c hc => preemptConnections_no_pending _ s i hi c hc,
    preemptConnections_result _ s, ?_⟩
  · intro i c hc
    rw [← connection_preemptSyncTarget_eq]
    exact preemptConnections_getElem? _ s i c hc
  · intro d
    exact ⟨rfl, preemptSyncTarget_testBit d⟩
  · have hact : (preemptInputDispatchInnerLocked s).2.mActiveConnections
        = s.mActiveConnections := by
      have := preemptConnections_fields s.mActiveConnections s
      show (preemptConnections s.mActiveConnections s).2.mActiveConnections = _
      rw [this]
    unfold preemptInputDispatchInnerLocked at hact ⊢
    rw [hact]
    exact preemptConnections_idle _ _
      (fun i hi c hc => preemptConnections_no_pending _ s i hi c hc)

/-- C20: in a reachable state, for a channel that has no connection and whose publisher
initializes, `registerInputChannel` followed by `unregisterInputChannel` (each with its
own environment, and whatever commands were waiting) returns OK twice and leaves the
by-fd map, the monitoring channels and the active connections as they were before; the
pool has one connection more, the one made for the channel, in STATUS_ZOMBIE with an
empty outbound queue. -/
theorem register_unregister_restores_registry (s : State) (env1 env2 : Env)
    (inputChannel : InputChannel) (monitor : Bool)
    (hs : Reachable s)
    (hch : getConnectionIndex inputChannel s = none)
    (hinit : env1.publisherInitialize inputChannel = OK) :
    let r := registerInputChannel env1 inputChannel monitor s
    let u := unregisterInputChannel env2 inputChannel r.2
    r.1 = OK ∧ u.1 = OK
      ∧ getConnectionIndex inputChannel r.2 = some s.mConnections.length
      ∧ u.2.mConnectionsByReceiveFd = s.mConnectionsByReceiveFd
      ∧ u.2.mMonitoringChannels = s.mMonitoringChannels
      ∧ u.2.mActiveConnections = s.mActiveConnections
      ∧ u.2.mConnections.length = s.mConnections.length + 1
      ∧ ∃ c, u.2.mConnections[s.mConnections.length]? = some c
          ∧ c.status = Status.STATUS_ZOMBIE ∧ c.outboundQueue = []
          ∧ c.inputChannel = inputChannel := by
  intro r u
  have hok := registryOk_of_reachable s hs
  have hnot := registryOk_not_monitoring s hok inputChannel hch
  have hact : s.mConnections.length ∉ s.mActiveConnections :=
    fun h => Nat.lt_irrefl _ (hok.2.2 _ h)
  -- the state that `registerInputChannel` hands to its commands
  obtain ⟨s2, hs2, hr1, hr2⟩ : ∃ s2 : State,
      s2 = (let s1 : State :=
              { s with
                mConnections := s.mConnections ++ [Connection.new inputChannel]
                mConnectionsByReceiveFd :=
                  s.mConnectionsByReceiveFd ++ [(inputChannel, s.mConnections.length)] }
            if monitor then
              { s1 with mMonitoringChannels := s1.mMonitoringChannels ++ [inputChannel] }
            else s1)
      ∧ r.1 = OK ∧ r.2 = (runCommandsLockedInterruptible env1 s2).2 := by
    refine ⟨_, rfl, ?_, ?_⟩
    · show (registerInputChannel env1 inputChannel monitor s).1 = OK
      unfold registerInputChannel
      simp only [hch, hinit, Option.isSome_none, Bool.false_eq_true, if_false, ne_eq,
        not_true_eq_false]
    · show (registerInputChannel env1 inputChannel monitor s).2 = _
      unfold registerInputChannel
      simp only [hch, hinit, Option.isSome_none, Bool.false_eq_true, if_false, ne_eq,
        not_true_eq_false]
  have hs2fd : s2.mConnectionsByReceiveFd
      = s.mConnectionsByReceiveFd ++ [(inputChannel, s.mConnections.length)] := by
    rw [hs2]; simp only []; split <;> rfl
  have hs2act : s2.mActiveConnections = s.mActiveConnections := by
    rw [hs2]; simp only []; split <;> rfl
  have hs2mon : s2.mMonitoringChannels
      = if monitor then s.mMonitoringChannels ++ [inputChannel] else s.mMonitoringChannels := by
    rw [hs2]; simp only []; split <;> rfl
  have hs2conn : s2.mConnections = s.mConnections ++ [Connection.new inputChannel] := by
    rw [hs2]; simp only []; split <;> rfl
  have hdir := runCommandsLockedInterruptible_directory env1 s2
  rw [← hr2] at hdir
  simp only [State.directory, Prod.mk.injEq] at hdir
  obtain ⟨hrfd, hract, hrmon⟩ := hdir
  have hrconn : r.2.mConnections[s.mConnections.length]? = some (Connection.new inputChannel) := by
    rw [hr2]
    refine runCommandsLockedInterruptible_getElem? env1 s2 _ _ ?_
      (by show Status.STATUS_NORMAL ≠ Status.STATUS_NOT_RESPONDING; decide)
    rw [hs2conn, List.getElem?_append_right (Nat.le_refl _), Nat.sub_self]
    rfl
  have hrlen : r.2.mConnections.length = s.mConnections.length + 1 := by
    rw [hr2, runCommandsLockedInterruptible_length, hs2conn, List.length_append]
    rfl
  have hlook : getConnectionIndex inputChannel r.2 = some s.mConnections.length := by
    unfold getConnectionIndex at hch ⊢
    rw [hrfd, hs2fd]
    exact lookup_append_of_none inputChannel _ _ hch
  -- the state that `unregisterInputChannel` hands to `abortDispatchCycleLocked`
  obtain ⟨s3, hs3, hu1, hu2⟩ : ∃ s3 : State,
      s3 = { modifyConnection s.mConnections.length
              (fun c => { c with status := Status.STATUS_ZOMBIE })
              { r.2 with
                mConnectionsByReceiveFd :=
                  r.2.mConnectionsByReceiveFd.filter (fun entry => entry.1 != inputChannel) }
             with mMonitoringChannels := r.2.mMonitoringChannels.erase inputChannel }
      ∧ u.1 = OK
      ∧ u.2 = (runCommandsLockedInterruptible env2
          (abortDispatchCycleLocked s.mConnections.length true s3)).2 := by
    refine ⟨_, rfl, ?_, ?_⟩
    · show (unregisterInputChannel env2 inputChannel r.2).1 = OK
      unfold unregisterInputChannel
      simp only [hlook]
    · show (unregisterInputChannel env2 inputChannel r.2).2 = _
      unfold unregisterInputChannel
      simp only [hlook]
      rfl
  have hs3conn : s3.mConnections[s.mConnections.length]?
      = some { Connection.new inputChannel with status := Status.STATUS_ZOMBIE } := by
    rw [hs3]
    show (modifyAt _ s.mConnections.length r.2.mConnections)[s.mConnections.length]? = _
    rw [getElem?_modifyAt, if_pos rfl, hrconn]
    rfl
  have hs3len : s3.mConnections.length = s.mConnections.length + 1 := by
    rw [hs3]
    show (modifyAt _ s.mConnections.length r.2.mConnections).length = _
    rw [length_modifyAt, hrlen]
  obtain ⟨hadir, halen, c1, hac, hz, hq, hchan⟩ :=
    abortDispatchCycleLocked_zombie s.mConnections.length s3 _ hs3conn rfl rfl
  have hudir := runCommandsLockedInterruptible_directory env2
    (abortDispatchCycleLocked s.mConnections.length true s3)
  rw [← hu2, hadir] at hudir
  simp only [State.directory, Prod.mk.injEq] at hudir
  obtain ⟨hufd, huact, humon⟩ := hudir
  refine ⟨hr1, hu1, hlook, ?_, ?_, ?_, ?_, c1, ?_, hz, hq, hchan⟩
  · rw [hufd, hs3]
    show r.2.mConnectionsByReceiveFd.filter (fun entry => entry.1 != inputChannel) = _
    rw [hrfd, hs2fd]
    exact filter_append_of_none inputChannel _ _ hch
  · rw [humon, hs3]
    show r.2.mMonitoringChannels.erase inputChannel = _
    rw [hrmon, hs2mon]
    split
    · rw [List.erase_append_right _ hnot]
      simp
    · exact List.erase_of_not_mem hnot
  · rw [huact, hs3]
    show r.2.mActiveConnections.erase s.mConnections.length = _
    rw [hract, hs2act]
    exact List.erase_of_not_mem hact
  · rw [hu2, runCommandsLockedInterruptible_length, halen, hs3len]
  · rw [hu2]
    exact runCommandsLockedInterruptible_getElem? env2 _ _ _ hac (by rw [hz]; decide)

/-- Channel 9 is registered as a monitor and unregistered again on a dispatcher that is
busy with a key for channel 7 and has a command waiting: the registries are as before
and the connection of channel 9 stays in the pool as a zombie. -/
theorem register_unregister_restores_registry_witness :
    getConnectionIndex 9 busyState = none
      ∧ busyState.mCommandQueue.length = 1
      ∧ busyState.mConnectionsByReceiveFd = [(7, 0)]
      ∧ busyState.mMonitoringChannels = [7]
      ∧ busyState.mActiveConnections = [0]
      ∧ (unregisterInputChannel quietEnv 9
          (registerInputChannel quietEnv 9 true busyState).2).2.mConnectionsByReceiveFd
          = [(7, 0)]
      ∧ (unregisterInputChannel quietEnv 9
          (registerInputChannel quietEnv 9 true busyState).2).2.mMonitoringChannels = [7]
      ∧ (unregisterInputChannel quietEnv 9
          (registerInputChannel quietEnv 9 true busyState).2).2.mActiveConnections = [0]
      ∧ (unregisterInputChannel quietEnv 9
          (registerInputChannel quietEnv 9 true busyState).2).2.mConnections.map
          (fun c => (c.inputChannel, c.status, c.outboundQueue.length))
          = [(7, Status.STATUS_NORMAL, 2), (9, Status.STATUS_ZOMBIE, 0)]
      ∧ (unregisterInputChannel quietEnv 9
          (registerInputChannel quietEnv 9 true busyState).2).1 = OK := by
  have h := register_unregister_restores_registry busyState quietEnv quietEnv 9 true
    ⟨60, _, rfl⟩ (by decide) (by decide)
  exact ⟨by decide, by decide, by decide, by decide, by decide, h.2.2.2.1, h.2.2.2.2.1,
    h.2.2.2.2.2.1, by decide, h.2.1⟩

/-- C21: a second `setInputWindows` with the same list changes nothing but the list of
touched wallpaper windows: the window list, the focused window, the wallpaper windows,
the touched window and the connections with their outbound entries are those of the first
call. The touched wallpaper windows are not: after `touchedTrace` they are the windows 0
and 1; one call with the list of that trace leaves `[0, 0, 1, 1]`, a second one
`[0, 0, 0, 0]`, because the loop compares each wallpaper window with the saved channel at
the position of the window and pushes it once per saved channel. -/
theorem setInputWindows_twice_touched_wallpapers :
    (∀ (x : List InputWindow) (s : State),
        setInputWindows x (setInputWindows x s)
          = { setInputWindows x s with
              mTouchedWallpaperWindows :=
                (setInputWindows x (setInputWindows x s)).mTouchedWallpaperWindows })
      ∧ (run touchedTrace (State.initial 60)).mWindows = twoWallpapers
      ∧ (run touchedTrace (State.initial 60)).mTouchedWindow = some 2
      ∧ (run touchedTrace (State.initial 60)).mTouchedWallpaperWindows = [0, 1]
      ∧ (setInputWindows twoWallpapers
          (run touchedTrace (State.initial 60))).mTouchedWallpaperWindows = [0, 0, 1, 1]
      ∧ (setInputWindows twoWallpapers (setInputWindows twoWallpapers
          (run touchedTrace (State.initial 60)))).mTouchedWallpaperWindows = [0, 0, 0, 0] :=
  ⟨setInputWindows_twice, by decide, by decide, by decide, by decide, by decide⟩

/-- C23, as the claim has it, fails: the same entry is enqueued at the tail twice. The
list of the claim is `[1, 1]`; the walk of the queue from the head to the tail meets the
entry once, and the walk from the tail to the head does not end, because the entry has
become its own `prev`. -/
theorem queue_double_enqueue :
    listQueueRun [QueueOp.enqueueAtTail 1, QueueOp.enqueueAtTail 1] []
        = some ([none, none], [1, 1])
      ∧ (Queue.run [QueueOp.enqueueAtTail 1, QueueOp.enqueueAtTail 1]
            (Queue.new nullMemory)).map
          (fun r => (r.1, Queue.headToTail r.2 8, Queue.tailToHead r.2 8,
            (r.2 (Node.entry 1)).prev))
        = some ([none, none], some [1], none, some (Node.entry 1)) := by
  decide

/-- C23, amended: for every sequence of `enqueueAtTail` and `enqueueAtHead` of an entry
that is not in the queue, `dequeue` of a member and `dequeueAtHead` on a non-empty queue,
run on a new queue, the code returns what the list operations return (`dequeueAtHead`
the first element), the walk from the head to the tail is the list, the walk from the
tail to the head is its reverse, `isEmpty` holds exactly when the list is empty, and the
next `dequeueAtHead` returns the first element of the list. In particular entries
enqueued at the tail leave through `dequeueAtHead` in the order in which they came. -/
theorem queue_refines_list (ops : List QueueOp) (mem : QueueMemory)
    (results : List (Option Nat)) (l : List Nat)
    (hrun : listQueueRun ops [] = some (results, l))
    (hfresh : enqueuesFresh ops [] = true) :
    (∃ m, Queue.run ops (Queue.new mem) = some (results.map (Option.map Node.entry), m)
        ∧ (∀ fuel, l.length < fuel →
            Queue.headToTail m fuel = some l ∧ Queue.tailToHead m fuel = some l.reverse)
        ∧ (Queue.isEmpty m = true ↔ l = [])
        ∧ (∀ first rest, l = first :: rest →
            ∃ m1, Queue.dequeueAtHead m = some (Node.entry first, m1)))
      ∧ (∀ es : List Nat, es.Nodup →
          ∃ m, Queue.run (es.map QueueOp.enqueueAtTail
                ++ List.replicate es.length QueueOp.dequeueAtHead) (Queue.new mem)
              = some (List.replicate es.length none ++ es.map (fun e => some (Node.entry e)), m)
            ∧ Queue.isEmpty m = true) := by
  constructor
  · obtain ⟨m, h1, h2⟩ := queue_run_represents ops (Queue.new mem) [] results l
      (new_represents mem) hrun hfresh
    refine ⟨m, h1, fun fuel hf => walks_represents m l h2 fuel hf, isEmpty_represents m l h2, ?_⟩
    intro first rest hl
    subst hl
    obtain ⟨m1, k1, _⟩ := dequeueAtHead_represents m first rest h2
    exact ⟨m1, k1⟩
  · intro es hes
    obtain ⟨m1, h1, h2⟩ := queue_enqueue_all es (Queue.new mem) [] (new_represents mem)
      (by simpa using hes)
    rw [List.nil_append] at h2
    obtain ⟨m2, h3, h4⟩ := queue_dequeue_all es m1 h2
    exact ⟨m2, queue_run_append _ _ _ _ _ _ _ h1 h3, (isEmpty_represents m2 [] h4).mpr rfl⟩

/-- The entries 1 and 2 are enqueued at the tail and 3 at the head, 2 is dequeued, the
head is taken, and 4 is enqueued at the tail: the head that is taken is 3 and the queue
holds 1 and 4. -/
theorem queue_refines_list_witness :
    listQueueRun [QueueOp.enqueueAtTail 1, QueueOp.enqueueAtTail 2, QueueOp.enqueueAtHead 3,
        QueueOp.dequeue 2, QueueOp.dequeueAtHead, QueueOp.enqueueAtTail 4] []
        = some ([none, none, none, none, some 3, none], [1, 4])
      ∧ ∃ m, Queue.run [QueueOp.enqueueAtTail 1, QueueOp.enqueueAtTail 2,
            QueueOp.enqueueAtHead 3, QueueOp.dequeue 2, QueueOp.dequeueAtHead,
            QueueOp.enqueueAtTail 4] (Queue.new nullMemory)
          = some ([none, none, none, none, some (Node.entry 3), none], m)
        ∧ Queue.headToTail m 3 = some [1, 4] ∧ Queue.tailToHead m 3 = some [4, 1]
        ∧ Queue.isEmpty m = false := by
  refine ⟨by decide, ?_⟩
  obtain ⟨m, h1, h2, h3, _⟩ :=
    (queue_refines_list [QueueOp.enqueueAtTail 1, QueueOp.enqueueAtTail 2,
      QueueOp.enqueueAtHead 3, QueueOp.dequeue 2, QueueOp.dequeueAtHead,
      QueueOp.enqueueAtTail 4] nullMemory [none, none, none, none, some 3, none] [1, 4]
      (by decide) (by decide)).1
  refine ⟨m, h1, (h2 3 (by decide)).1, (h2 3 (by decide)).2, ?_⟩
  cases he : Queue.isEmpty m with
  | false => rfl
  | true => exact absurd (h3.mp he) (by decide)

/-- C25: the timeout that a dispatch cycle arms is computed from the difference
`timeout - timeSpentWaitingForApplication`: it is `currentTime` plus the difference when
the difference is not negative and LONG_LONG_MAX otherwise. In `longWaitTrace` the
target has the timeout 5000 and has waited 9000, the key is published at time 10000,
and the connection is left with `nextTimeoutTime = LONG_LONG_MAX` where the claim has
10000 + 5000 - 9000 = 6000. -/
theorem long_wait_disables_timeout :
    (∀ (env : Env) (currentTime : Int) (connection : Nat) (w : Int) (s : State)
        (c : Connection) (head : DispatchEntry) (rest : List DispatchEntry) (e : EventEntry)
        (k : KeyEntry),
        s.mConnections[connection]? = some c → c.outboundQueue = head :: rest →
        s.mEvents[head.eventEntry]? = some e → e.body = EventBody.key k →
        env.publishKeyEvent c.inputChannel = OK → env.sendDispatchSignal c.inputChannel = OK →
        ((startDispatchCycleLocked env currentTime connection w s).mConnections[connection]?).map
            (fun c1 => c1.nextTimeoutTime)
          = some (if head.timeout - w ≥ 0 then currentTime + (head.timeout - w)
              else LONG_LONG_MAX))
      ∧ (run (longWaitTrace.take 6) (State.initial 60)).mCurrentInputTargets.map
          (fun t => (t.inputChannel, t.timeout, t.timeSpentWaitingForApplication))
          = [(7, 5000, 9000)]
      ∧ (run (longWaitTrace.take 6) (State.initial 60)).mConnections.map
          (fun c => (c.inputPublisher.length, c.nextTimeoutTime)) = [(0, LONG_LONG_MAX)]
      ∧ (run longWaitTrace (State.initial 60)).mConnections.map
          (fun c => (c.inputPublisher, c.lastDispatchTime, c.nextTimeoutTime))
          = [([PublisherCall.publishKeyEvent 1 257 1 0 42 0 0 0 5 10,
                PublisherCall.sendDispatchSignal], 10000, LONG_LONG_MAX)]
      ∧ (10000 : Int) + 5000 - 9000 = 6000 := by
  refine ⟨?_, by decide, by decide, by decide, by decide⟩
  intro env currentTime connection w s c head rest e k hc hq he hb hpub hsig
  rw [startDispatchCycleLocked_key_ok env currentTime connection w s c head rest e k hc hq he
    hb hpub hsig]
  rfl

/-- C26: the first call that `startDispatchCycleLocked` makes on the publisher publishes
the event of the head entry. For a key the flags are those of the event with CANCELED
added exactly when the entry has FLAG_CANCEL, and the action is that of the event. For a
motion the action is CANCEL when the entry has FLAG_CANCEL, otherwise OUTSIDE when it
has FLAG_OUTSIDE, otherwise that of the event; the flags are those of the event with
WINDOW_IS_OBSCURED added when the entry has FLAG_WINDOW_IS_OBSCURED; the offsets are
those of the entry when the source is of the pointer class and (0, 0) otherwise. No
other call of the cycle publishes an event. -/
theorem startDispatchCycleLocked_publishes (env : Env) (currentTime : Int) (connection : Nat)
    (w : Int) (s : State) (c : Connection) (head : DispatchEntry) (rest : List DispatchEntry)
    (e : EventEntry)
    (hc : s.mConnections[connection]? = some c) (hq : c.outboundQueue = head :: rest)
    (he : s.mEvents[head.eventEntry]? = some e) :
    (∀ k : KeyEntry, e.body = EventBody.key k →
        ∃ c1 more,
          (startDispatchCycleLocked env currentTime connection w s).mConnections[connection]?
            = some c1
          ∧ c1.inputPublisher = c.inputPublisher ++
              PublisherCall.publishKeyEvent k.deviceId k.source k.action
                (if head.targetFlags &&& InputTarget.FLAG_CANCEL ≠ 0 then
                  k.flags ||| AKEY_EVENT_FLAG_CANCELED else k.flags)
                k.keyCode k.scanCode k.metaState k.repeatCount k.downTime e.eventTime :: more
          ∧ (more = [] ∨ more = [PublisherCall.sendDispatchSignal]))
      ∧ (∀ m : MotionEntry, e.body = EventBody.motion m →
        ∃ c1 more,
          (startDispatchCycleLocked env currentTime connection w s).mConnections[connection]?
            = some c1
          ∧ c1.inputPublisher = c.inputPublisher ++
              PublisherCall.publishMotionEvent m.deviceId m.source
                (if head.targetFlags &&& InputTarget.FLAG_CANCEL ≠ 0 then
                  AMOTION_EVENT_ACTION_CANCEL
                else if head.targetFlags &&& InputTarget.FLAG_OUTSIDE ≠ 0 then
                  AMOTION_EVENT_ACTION_OUTSIDE
                else m.action)
                (if head.targetFlags &&& InputTarget.FLAG_WINDOW_IS_OBSCURED ≠ 0 then
                  m.flags ||| AMOTION_EVENT_FLAG_WINDOW_IS_OBSCURED else m.flags)
                m.edgeFlags m.metaState
                (if m.source &&& AINPUT_SOURCE_CLASS_POINTER ≠ 0 then head.xOffset else 0)
                (if m.source &&& AINPUT_SOURCE_CLASS_POINTER ≠ 0 then head.yOffset else 0)
                m.xPrecision m.yPrecision m.downTime
                ((m.sampleAt (head.headMotionSample.getD 0)).getD m.firstSample).eventTime
                m.pointerCount m.pointerIds
                ((m.sampleAt (head.headMotionSample.getD 0)).getD m.firstSample).pointerCoords
                :: more
          ∧ ∀ call ∈ more, call = PublisherCall.sendDispatchSignal
              ∨ ∃ t p, call = PublisherCall.appendMotionSample t p) := by
  have h0 := cycleStarted_connection connection head rest e s c hc
  constructor
  · intro k hb
    rw [startDispatchCycleLocked_key env currentTime connection w s c head rest e k hc hq he hb]
    have h1 := publisherCalled_connection connection
      [PublisherCall.publishKeyEvent k.deviceId k.source k.action
        (if head.targetFlags &&& InputTarget.FLAG_CANCEL ≠ 0 then
          k.flags ||| AKEY_EVENT_FLAG_CANCELED else k.flags)
        k.keyCode k.scanCode k.metaState k.repeatCount k.downTime e.eventTime] _ _ h0
    split
    · obtain ⟨c1, h2, h3⟩ := abortDispatchCycleLocked_inputPublisher connection true _ _ h1
      exact ⟨c1, [], h2, h3, Or.inl rfl⟩
    · obtain ⟨c1, h2, h3⟩ := sendDispatchSignalAndRecord_inputPublisher env currentTime
        connection w { head with inProgress := true } e.eventTime _ _ h1
      refine ⟨c1, [PublisherCall.sendDispatchSignal], h2, ?_, Or.inr rfl⟩
      rw [h3]
      simp only [List.append_assoc, List.singleton_append]
  · intro m hb
    rw [startDispatchCycleLocked_motion env currentTime connection w s c head rest e m hc hq he
      hb]
    have h1 := publisherCalled_connection connection [publishedMotion head m] _ _ h0
    obtain ⟨app, happ, hall⟩ := appendNextSamples_calls env c.inputChannel
      (m.nextSamples.drop (head.headMotionSample.getD 0)) (head.headMotionSample.getD 0 + 1) []
    rw [List.nil_append] at happ
    have h2 := publisherCalled_connection connection
      (appendNextSamples env c.inputChannel
        (m.nextSamples.drop (head.headMotionSample.getD 0))
        (head.headMotionSample.getD 0 + 1) []).2.2 _ _ h1
    split
    · obtain ⟨c1, h3, h4⟩ := abortDispatchCycleLocked_inputPublisher connection true _ _ h1
      exact ⟨c1, [], h3, h4, by simp⟩
    · split
      · obtain ⟨c1, h3, h4⟩ := abortDispatchCycleLocked_inputPublisher connection true _ _ h2
        refine ⟨c1, app, h3, ?_, fun call hcall => Or.inr (hall call hcall)⟩
        rw [h4, happ]
        simp only [List.append_assoc, List.singleton_append]
        rfl
      · have h5 := modifyConnection_connection connection (fun c1 =>
          { c1 with
            outboundQueue := modifyAt (fun _ =>
              { head with
                inProgress := true
                tailMotionSample :=
                  (appendNextSamples env c.inputChannel
                    (m.nextSamples.drop (head.headMotionSample.getD 0))
                    (head.headMotionSample.getD 0 + 1) []).2.1 }) 0 c1.outboundQueue }) _ _ h2
        obtain ⟨c1, h3, h4⟩ := sendDispatchSignalAndRecord_inputPublisher env currentTime
          connection w
          { head with
            inProgress := true
            tailMotionSample :=
              (appendNextSamples env c.inputChannel
                (m.nextSamples.drop (head.headMotionSample.getD 0))
                (head.headMotionSample.getD 0 + 1) []).2.1 } e.eventTime _ _ h5
        refine ⟨c1, app ++ [PublisherCall.sendDispatchSignal], h3, ?_, ?_⟩
        · rw [h4, happ]
          simp only [List.append_assoc, List.singleton_append]
          rfl
        · intro call hcall
          rcases List.mem_append.mp hcall with h | h
          · exact Or.inr (hall call h)
          · exact Or.inl (List.mem_singleton.mp h)

/-- The DOWN of `canceledOutsideState` is published with the action CANCEL (not OUTSIDE),
the flag WINDOW_IS_OBSCURED and the offsets (-5, -6) of the entry. -/
theorem startDispatchCycleLocked_publishes_witness :
    canceledOutsideState.mConnections.map
          (fun c => (c.inputChannel, c.inputPublisher.length, c.outboundQueue.length))
        = [(7, 0, 1)]
      ∧ canceledOutsideState.mEvents[0]?
          = some (initializeEventEntry
              (EventBody.motion (pointerMotion AMOTION_EVENT_ACTION_DOWN 7 8)) 5)
      ∧ ∃ c1 more,
          (startDispatchCycleLocked quietEnv 1000 0 0 canceledOutsideState).mConnections[0]?
            = some c1
          ∧ c1.inputPublisher
              = PublisherCall.publishMotionEvent 1 0x1002 AMOTION_EVENT_ACTION_CANCEL
                  AMOTION_EVENT_FLAG_WINDOW_IS_OBSCURED 0 0 (-5) (-6) 1 1 5 5 1 [0]
                  [pointerAt 7 8] :: more := by
  refine ⟨by decide, by decide, ?_⟩
  obtain ⟨c1, more, h1, h2, _⟩ :=
    (startDispatchCycleLocked_publishes quietEnv 1000 0 0 canceledOutsideState
      (canceledOutsideState.mConnections.getD 0 (Connection.new 0))
      { eventEntry := 0
        targetFlags := InputTarget.FLAG_OUTSIDE ||| InputTarget.FLAG_CANCEL
          ||| InputTarget.FLAG_WINDOW_IS_OBSCURED
        xOffset := -5, yOffset := -6, timeout := 5000, inProgress := false
        headMotionSample := none, tailMotionSample := none }
      []
      (initializeEventEntry (EventBody.motion (pointerMotion AMOTION_EVENT_ACTION_DOWN 7 8)) 5)
      (by decide) (by decide) (by decide)).2
      (pointerMotion AMOTION_EVENT_ACTION_DOWN 7 8) rfl
  exact ⟨c1, more, h1, h2⟩

/-- C27: let the head of the outbound queue be the entry `head` of the motion event `m`,
and let the publisher take every event and signal and answer OK or NO_MEMORY to every
append. (1) One cycle of `startDispatchCycleLocked` makes the calls of `cycleCalls`, that
is, it publishes the sample that `headMotionSample` points to (the first one when it is
null) and appends the samples behind it up to the first one that is refused, and it sets
`tailMotionSample` to that sample, or to null at the end of the chain. (2)
`startNextDispatchCycleLocked` on an entry in progress with a tail is
`startDispatchCycleLocked` on the entry with `headMotionSample` set to that tail. (3) The
first cycle followed by the resumed cycles of `cyclePlan` makes exactly the calls of
these cycles. (4) As many cycles as there are samples leave no tail, and (5) when no tail
is left the samples that the cycles publish, in order, are the samples of the entry from
the first pointer on, each one once. -/
theorem motion_samples_published_once (currentTime : Int) (connection : Nat) (w : Int)
    (s : State) (c : Connection) (head : DispatchEntry) (rest : List DispatchEntry)
    (e : EventEntry) (m : MotionEntry) (env : Env) (envs : List Env)
    (hc : s.mConnections[connection]? = some c) (hq : c.outboundQueue = head :: rest)
    (he : s.mEvents[head.eventEntry]? = some e) (hb : e.body = EventBody.motion m)
    (hok : ∀ x ∈ env :: envs, PublisherOk x c.inputChannel m) :
    ((startDispatchCycleLocked env currentTime connection w s).mConnections[connection]?).map
          (fun c1 => (c1.inputPublisher, c1.outboundQueue))
        = some (c.inputPublisher
              ++ cycleCalls env c.inputChannel head m (head.headMotionSample.getD 0),
            { head with
              inProgress := true
              tailMotionSample :=
                cycleTail env c.inputChannel m (head.headMotionSample.getD 0) } :: rest)
      ∧ (∀ (x : Env) (s1 : State) (c1 : Connection) (head1 : DispatchEntry)
          (rest1 : List DispatchEntry) (t : Nat),
          s1.mConnections[connection]? = some c1 → c1.outboundQueue = head1 :: rest1 →
          head1.inProgress = true → head1.tailMotionSample = some t →
          startNextDispatchCycleLocked x currentTime connection s1
            = startDispatchCycleLocked x currentTime connection 0
                (modifyConnection connection (fun c =>
                  { c with
                    outboundQueue :=
                      { head1 with
                        inProgress := false
                        headMotionSample := some t
                        tailMotionSample := none } :: rest1 }) s1))
      ∧ (∃ cN hd,
          (List.foldl (fun st x => startNextDispatchCycleLocked x currentTime connection st)
              (startDispatchCycleLocked env currentTime connection w s)
              ((cyclePlan c.inputChannel m envs
                (cycleTail env c.inputChannel m (head.headMotionSample.getD 0))).map
                Prod.fst)).mConnections[connection]? = some cN
          ∧ cN.inputPublisher = c.inputPublisher ++
              ((cyclePlan c.inputChannel m (env :: envs)
                  (some (head.headMotionSample.getD 0))).map
                (fun p => cycleCalls p.1 c.inputChannel head m p.2)).flatten
          ∧ cN.outboundQueue
              = { head with
                  inProgress := true
                  headMotionSample := hd
                  tailMotionSample :=
                    streamTail c.inputChannel m (env :: envs)
                      (some (head.headMotionSample.getD 0)) } :: rest)
      ∧ (head.headMotionSample.getD 0 ≤ m.nextSamples.length →
          m.nextSamples.length - head.headMotionSample.getD 0 < (env :: envs).length →
          streamTail c.inputChannel m (env :: envs) (some (head.headMotionSample.getD 0)) = none)
      ∧ (head.headMotionSample.getD 0 ≤ m.nextSamples.length →
          streamTail c.inputChannel m (env :: envs) (some (head.headMotionSample.getD 0)) = none →
          ((cyclePlan c.inputChannel m (env :: envs)
                (some (head.headMotionSample.getD 0))).map
              (fun p => cycleSamples p.1 c.inputChannel m p.2)).flatten
            = (m.firstSample :: m.nextSamples).drop (head.headMotionSample.getD 0)) := by
  have hok0 := hok env (List.mem_cons_self _ _)
  obtain ⟨h1, h2⟩ := startDispatchCycleLocked_cycle env currentTime connection w s c head rest
    e m hc hq he hb hok0.1 hok0.2.1 hok0.2.2
  refine ⟨?_, ?_, ?_, ?_, ?_⟩
  · rw [h1]
    rfl
  · intro x s1 c1 head1 rest1 t k1 k2 k3 k4
    exact startNextDispatchCycleLocked_resume x currentTime connection s1 c1 head1 rest1 t k1
      k2 k3 k4
  · have he1 : (startDispatchCycleLocked env currentTime connection w s).mEvents[
        ({ head with
           inProgress := true
           tailMotionSample :=
             cycleTail env c.inputChannel m (head.headMotionSample.getD 0) }
          : DispatchEntry).eventEntry]? = some e := by
      rw [h2]
      exact he
    obtain ⟨cN, hd, k1, _, k3, k4⟩ := resumeCycles_spec currentTime connection rest e m envs _ _
      { head with
        inProgress := true
        tailMotionSample := cycleTail env c.inputChannel m (head.headMotionSample.getD 0) }
      h1 rfl rfl he1 hb (fun x hx => hok x (List.mem_cons_of_mem _ hx))
    refine ⟨cN, hd, k1, ?_, ?_⟩
    · rw [k3]
      simp only [cyclePlan, List.map_cons, List.flatten_cons, List.append_assoc]
      rfl
    · rw [k4]
      rfl
  · intro k1 k2
    exact streamTail_enough c.inputChannel m (env :: envs) _ k1 k2
  · intro k1 k2
    exact cyclePlan_samples c.inputChannel m (env :: envs) _ k1 k2

/-- The moves of `streamTrace` take two cycles: the first publishes the samples of the
times 20 and 30 and is refused the one of time 40, which becomes the tail; the second
publishes the samples of the times 40 and 50. The trace itself makes the same calls. -/
theorem motion_samples_published_once_witness :
    streamReadyState.mConnections.map
          (fun c => (c.inputChannel, c.inputPublisher.length, c.outboundQueue))
        = [(7, 4, [streamHead])]
      ∧ streamReadyState.mEvents[1]? = some (initializeEventEntry (EventBody.motion streamMotion) 20)
      ∧ ((startDispatchCycleLocked tightEnv 600000000 0 0 streamReadyState).mConnections.map
          (fun c => (c.inputPublisher.drop 4, c.outboundQueue.map (fun d => d.tailMotionSample))))
        = [([publishedMotion streamHead streamMotion,
              PublisherCall.appendMotionSample 30 [pointerAt 7 8],
              PublisherCall.appendMotionSample 40 [pointerAt 8 8],
              PublisherCall.sendDispatchSignal], [some 2])]
      ∧ (cyclePlan 7 streamMotion [tightEnv, lateEnv] (some 0)).map
          (fun p => (p.2, (cycleSamples p.1 7 streamMotion p.2).map (fun x => x.eventTime)))
          = [(0, [20, 30]), (2, [40, 50])]
      ∧ ((cyclePlan 7 streamMotion [tightEnv, lateEnv] (some 0)).map
          (fun p => cycleSamples p.1 7 streamMotion p.2)).flatten
          = streamMotion.firstSample :: streamMotion.nextSamples
      ∧ (run streamTrace (State.initial 60)).mConnections.map
          (fun c => (c.inputPublisher.drop 4, c.outboundQueue.map (fun d => d.tailMotionSample)))
          = [([publishedMotion streamHead streamMotion,
                PublisherCall.appendMotionSample 30 [pointerAt 7 8],
                PublisherCall.appendMotionSample 40 [pointerAt 8 8],
                PublisherCall.sendDispatchSignal,
                PublisherCall.receiveFinishedSignal,
                PublisherCall.reset,
                publishedMotion { streamHead with headMotionSample := some 2 } streamMotion,
                PublisherCall.appendMotionSample 50 [pointerAt 9 8],
                PublisherCall.sendDispatchSignal], [none])] := by
  have h := motion_samples_published_once 600000000 0 0 streamReadyState
    (streamReadyState.mConnections.getD 0 (Connection.new 0)) streamHead []
    (initializeEventEntry (EventBody.motion streamMotion) 20) streamMotion tightEnv [lateEnv]
    (by decide) (by decide) (by decide) rfl
    (by
      intro x hx
      rcases List.mem_cons.mp hx with h1 | h1
      · subst h1
        exact ⟨by decide, by decide, by decide⟩
      · rw [List.mem_singleton] at h1
        subst h1
        exact ⟨by decide, by decide, by decide⟩)
  exact ⟨by decide, by decide, by decide, by decide, h.2.2.2.2 (by decide) (by decide),
    by decide⟩

/-- C28: on a NORMAL connection whose input state is out of sync, outside the streaming
case, `prepareDispatchCycleLocked` first builds the state `prepared` and then, when the
outbound queue was empty, activates the connection and starts the dispatch cycle. In
`prepared` the out-of-sync flag is cleared and the queue is the old queue, then one
dispatch entry for each cancelation event that `synthesizeCancelationEvents` returned,
in that order, each with target flags 0 and the offsets and timeout of the target, then
the dispatch entry of the new event with the flags, offsets and timeout of the target. -/
theorem prepareDispatchCycleLocked_cancels_first (env : Env) (currentTime : Int)
    (connection : Nat) (eventEntry : Nat) (inputTarget : InputTarget)
    (resumeWithAppendedMotionSample : Bool) (s : State) (c : Connection)
    (hc : s.mConnections[connection]? = some c)
    (hnormal : c.status = Status.STATUS_NORMAL)
    (hsync : c.inputState.isOutOfSync = true)
    (hstream : resumeWithAppendedMotionSample = true → c.outboundQueue ≠ [] →
      c.findQueuedDispatchEntryForEvent eventEntry = none) :
    ∃ (prepared : State) (headMotionSample : Option Nat),
      prepareDispatchCycleLocked env currentTime connection eventEntry inputTarget
          resumeWithAppendedMotionSample s
        = (if c.outboundQueue.isEmpty then
            startDispatchCycleLocked env currentTime connection
              inputTarget.timeSpentWaitingForApplication
              (activateConnectionLocked connection prepared)
          else prepared)
      ∧ prepared.mConnections[connection]?
          = some
              { c with
                inputState := c.inputState.resetOutOfSync
                outboundQueue :=
                  c.outboundQueue
                    ++ (c.inputState.synthesizeCancelationEvents env.now s).1.map
                        (fun cancelationEventEntry =>
                          { eventEntry := cancelationEventEntry
                            targetFlags := 0
                            xOffset := inputTarget.xOffset
                            yOffset := inputTarget.yOffset
                            timeout := inputTarget.timeout
                            inProgress := false
                            headMotionSample := none
                            tailMotionSample := none })
                    ++ [{ eventEntry := eventEntry
                          targetFlags := inputTarget.flags
                          xOffset := inputTarget.xOffset
                          yOffset := inputTarget.yOffset
                          timeout := inputTarget.timeout
                          inProgress := false
                          headMotionSample := headMotionSample
                          tailMotionSample := none }] }
      ∧ (resumeWithAppendedMotionSample = false → headMotionSample = none)
      ∧ (c.inputState.synthesizeCancelationEvents env.now s).1
          = List.range' s.mEvents.length
              (c.inputState.mKeyMementos.length + c.inputState.mMotionMementos.length) := by
  have heq : prepareDispatchCycleLocked env currentTime connection eventEntry inputTarget
      resumeWithAppendedMotionSample s
      = prepareDispatchCycleEnqueue env currentTime connection eventEntry inputTarget
          resumeWithAppendedMotionSample c s := by
    unfold prepareDispatchCycleLocked
    simp only [hc]
    rw [if_neg (not_not.mpr hnormal)]
    split
    · rename_i hcond
      simp only [Bool.and_eq_true, Bool.not_eq_true', List.isEmpty_eq_false] at hcond
      have hne : c.outboundQueue ≠ [] := by
        intro h
        rw [h] at hcond
        simp at hcond
      rw [hstream hcond.2 hne]
    · rfl
  have hcount : (c.inputState.synthesizeCancelationEvents env.now s).1
      = List.range' s.mEvents.length
          (c.inputState.mKeyMementos.length + c.inputState.mMotionMementos.length) := by
    simp only [InputState.synthesizeCancelationEvents, synthesizeKeyCancelationEvents_eq,
      synthesizeMotionCancelationEvents_eq, List.length_append, List.length_map,
      List.range'_append_1]
    rw [Nat.add_comm]
  have h1 : (c.inputState.synthesizeCancelationEvents env.now s).2.mConnections[connection]?
      = some c := by
    rw [synthesizeCancelationEvents_mConnections]
    exact hc
  have h2 := modifyConnection_connection connection (fun c =>
    { c with inputState := c.inputState.resetOutOfSync }) _ c h1
  have h3 := enqueueCancelationEvents_connection connection inputTarget
    (c.inputState.synthesizeCancelationEvents env.now s).1 _ _ h2
  have h4 : ∀ (q : State) (f : EventEntry → EventEntry) (b : Bool),
      (if b = true then modifyEvent eventEntry f
          (obtainDispatchEntry eventEntry inputTarget.flags inputTarget.xOffset
            inputTarget.yOffset inputTarget.timeout q).2
        else (obtainDispatchEntry eventEntry inputTarget.flags inputTarget.xOffset
            inputTarget.yOffset inputTarget.timeout q).2).mConnections = q.mConnections := by
    intro q f b
    split <;> rfl
  rw [heq]
  unfold prepareDispatchCycleEnqueue
  cases resumeWithAppendedMotionSample with
  | false =>
    simp only [hsync, if_true, Bool.false_eq_true, if_false]
    refine ⟨_, none, rfl, ?_, fun _ => rfl, hcount⟩
    show (modifyAt _ connection _)[connection]? = _
    rw [getElem?_modifyAt, if_pos rfl, h4, h3]
    simp only [Option.map_some', List.append_assoc]
    rfl
  | true =>
    simp only [hsync, if_true]
    refine ⟨_, some (State.lastSampleOf
      (if (obtainDispatchEntry eventEntry inputTarget.flags inputTarget.xOffset
            inputTarget.yOffset inputTarget.timeout
            (enqueueCancelationEvents connection inputTarget
              (c.inputState.synthesizeCancelationEvents env.now s).1
              (modifyConnection connection (fun c =>
                { c with inputState := c.inputState.resetOutOfSync })
                (c.inputState.synthesizeCancelationEvents env.now s).2))).1.isSyncTarget = true
        then
          modifyEvent eventEntry (fun e =>
            { e with pendingSyncDispatches := e.pendingSyncDispatches + 1 })
            (obtainDispatchEntry eventEntry inputTarget.flags inputTarget.xOffset
              inputTarget.yOffset inputTarget.timeout
              (enqueueCancelationEvents connection inputTarget
                (c.inputState.synthesizeCancelationEvents env.now s).1
                (modifyConnection connection (fun c =>
                  { c with inputState := c.inputState.resetOutOfSync })
                  (c.inputState.synthesizeCancelationEvents env.now s).2))).2
        else
          (obtainDispatchEntry eventEntry inputTarget.flags inputTarget.xOffset
            inputTarget.yOffset inputTarget.timeout
            (enqueueCancelationEvents connection inputTarget
              (c.inputState.synthesizeCancelationEvents env.now s).1
              (modifyConnection connection (fun c =>
                { c with inputState := c.inputState.resetOutOfSync })
                (c.inputState.synthesizeCancelationEvents env.now s).2))).2) eventEntry),
      rfl, ?_, (fun h => by cases h), hcount⟩
    show (modifyAt _ connection _)[connection]? = _
    rw [getElem?_modifyAt, if_pos rfl, h4, h3]
    simp only [Option.map_some', List.append_assoc]
    rfl

/-- After `driftTrace` the event 0 is prepared for the target of the window: the queue
gets the entry of the cancelation event (the new event 1, flags 0) and behind it the entry
of event 0 with the flags of the target, and the input state is in sync again. -/
theorem prepareDispatchCycleLocked_cancels_first_witness :
    (run driftTrace (State.initial 60)).mConnections[0]? = some driftedConnection
      ∧ (run driftTrace (State.initial 60)).mEvents.length = 1
      ∧ ∃ (prepared : State) (headMotionSample : Option Nat),
          prepareDispatchCycleLocked quietEnv 1000 0 0 appTarget false
              (run driftTrace (State.initial 60))
            = startDispatchCycleLocked quietEnv 1000 0 0 (activateConnectionLocked 0 prepared)
          ∧ prepared.mConnections[0]?
              = some
                  { driftedConnection with
                    inputState := { driftedConnection.inputState with mIsOutOfSync := false }
                    outboundQueue :=
                      [{ eventEntry := 1, targetFlags := 0, xOffset := -5, yOffset := -6,
                         timeout := 5000, inProgress := false, headMotionSample := none,
                         tailMotionSample := none },
                       { eventEntry := 0, targetFlags := 1, xOffset := -5, yOffset := -6,
                         timeout := 5000, inProgress := false,
                         headMotionSample := headMotionSample, tailMotionSample := none }] }
          ∧ headMotionSample = none := by
  refine ⟨by decide, by decide, ?_⟩
  obtain ⟨prepared, hms, h1, h2, h3, h4⟩ :=
    prepareDispatchCycleLocked_cancels_first quietEnv 1000 0 0 appTarget false
      (run driftTrace (State.initial 60)) driftedConnection (by decide) rfl rfl
      (fun h => by cases h)
  refine ⟨prepared, hms, h1, ?_, h3 rfl⟩
  rw [h2, h4]
  rfl

/-- C29, as the claim has it, fails: the connection of `stalledState`, a state that the
operations reach, is NOT_RESPONDING and its input state holds no memento.  It is resumed
without a new timeout: the timeout is cleared, and the input state is not out of sync. -/
theorem resume_keeps_neutral_state_in_sync :
    Reachable stalledState
      ∧ stalledState.mConnections[0]? = some stalledConnection
      ∧ stalledConnection.status = Status.STATUS_NOT_RESPONDING
      ∧ stalledConnection.inputState.isNeutral = true
      ∧ ((resumeAfterTimeoutDispatchCycleLocked 2000 0 0 stalledState).mConnections[0]?).map
          (fun c => (c.nextTimeoutTime, c.inputState.isOutOfSync, c.outboundQueue.length))
          = some (LONG_LONG_MAX, false, 1) :=
  ⟨⟨60, _, rfl⟩, by decide, by decide, by decide, by decide⟩

/-- C29, amended: for a connection that is not NOT_RESPONDING,
`resumeAfterTimeoutDispatchCycleLocked` changes nothing.  For one that is, a positive
`newTimeout` makes the status NORMAL and the next timeout time `currentTime + newTimeout`
and leaves the outbound queue and everything else as it was; otherwise the timeout is
cleared, the input state is out of sync afterwards exactly when it was so before or holds
a memento (a neutral input state stays as it is, the mementos are kept), and the outbound
queue holds exactly its former head with FLAG_SYNC cleared, the entries behind it having
been drained and released (each drops one reference of its event, and one pending
synchronous dispatch if it was a synchronous target); the other connections and the
registries are not touched. -/
theorem resumeAfterTimeoutDispatchCycleLocked_spec (currentTime : Int) (connection : Nat)
    (newTimeout : Int) (s : State) (c : Connection)
    (hc : s.mConnections[connection]? = some c) :
    (c.status ≠ Status.STATUS_NOT_RESPONDING →
        resumeAfterTimeoutDispatchCycleLocked currentTime connection newTimeout s = s)
      ∧ (c.status = Status.STATUS_NOT_RESPONDING → newTimeout > 0 →
          resumeAfterTimeoutDispatchCycleLocked currentTime connection newTimeout s
              = { s with
                  mConnections := modifyAt (fun _ =>
                    { c with
                      status := Status.STATUS_NORMAL
                      nextTimeoutTime := currentTime + newTimeout }) connection s.mConnections }
            ∧ (resumeAfterTimeoutDispatchCycleLocked currentTime connection newTimeout
                s).mConnections[connection]?
              = some
                  { c with
                    status := Status.STATUS_NORMAL
                    nextTimeoutTime := currentTime + newTimeout })
      ∧ (c.status = Status.STATUS_NOT_RESPONDING → newTimeout ≤ 0 →
          (resumeAfterTimeoutDispatchCycleLocked currentTime connection newTimeout
              s).mConnections[connection]?
            = some
                { c with
                  nextTimeoutTime := LONG_LONG_MAX
                  inputState :=
                    { mIsOutOfSync := c.inputState.mIsOutOfSync || ! c.inputState.isNeutral
                      mKeyMementos := c.inputState.mKeyMementos
                      mMotionMementos := c.inputState.mMotionMementos }
                  outboundQueue :=
                    (c.outboundQueue.head?.map DispatchEntry.preemptSyncTarget).toList }
          ∧ (∀ c1, (resumeAfterTimeoutDispatchCycleLocked currentTime connection newTimeout
                s).mConnections[connection]? = some c1 →
              (c1.inputState.isOutOfSync = true
                  ↔ c.inputState.isOutOfSync = true ∨ c.inputState.isNeutral = false)
                ∧ (c.inputState.isNeutral = true → c1.inputState = c.inputState))
          ∧ (∀ entry : Nat,
              (resumeAfterTimeoutDispatchCycleLocked currentTime connection newTimeout
                  s).mEvents[entry]?
                = (s.mEvents[entry]?).map (EventEntry.afterDrain c.outboundQueue.tail entry)))
      ∧ (∀ i : Nat, i ≠ connection →
          (resumeAfterTimeoutDispatchCycleLocked currentTime connection newTimeout
              s).mConnections[i]? = s.mConnections[i]?)
      ∧ (resumeAfterTimeoutDispatchCycleLocked currentTime connection newTimeout s).directory
          = s.directory
      ∧ resumeAfterTimeoutDispatchCycleLocked currentTime connection newTimeout s
          = { s with
              mConnections :=
                (resumeAfterTimeoutDispatchCycleLocked currentTime connection newTimeout
                  s).mConnections
              mEvents :=
                (resumeAfterTimeoutDispatchCycleLocked currentTime connection newTimeout
                  s).mEvents
              mActiveConnections :=
                (resumeAfterTimeoutDispatchCycleLocked currentTime connection newTimeout
                  s).mActiveConnections } := by
  have hold := resumeAfterTimeoutDispatchCycleLocked_cases currentTime connection newTimeout s c hc
  refine ⟨hold.1, hold.2.1, ?_, hold.2.2.2.1, hold.2.2.2.2.1, hold.2.2.2.2.2⟩
  intro hst hneg
  have h := hold.2.2.1 hst hneg
  have h1 := h.1
  rw [setOutOfSync_eq] at h1
  refine ⟨h1, ?_, h.2⟩
  intro c1 hc1
  rw [h1] at hc1
  cases hc1
  constructor
  · show (c.inputState.mIsOutOfSync || ! c.inputState.isNeutral) = true ↔ _
    unfold InputState.isOutOfSync
    cases c.inputState.mIsOutOfSync <;> cases c.inputState.isNeutral <;> simp
  · intro hn
    show ({ mIsOutOfSync := c.inputState.mIsOutOfSync || ! c.inputState.isNeutral,
            mKeyMementos := c.inputState.mKeyMementos,
            mMotionMementos := c.inputState.mMotionMementos } : InputState) = c.inputState
    rw [hn]
    cases c.inputState
    simp

/-- The connection of `stalledState` is resumed without a new timeout: it keeps the entry
it is stuck on, now asynchronous, and the entry of the monitor is released; its input
state holds no memento and stays in sync.  The connection of `stalledDownState` holds the
key that is down: its input state is out of sync afterwards. -/
theorem resumeAfterTimeoutDispatchCycleLocked_spec_witness :
    stalledState.mConnections[0]? = some stalledConnection
      ∧ (resumeAfterTimeoutDispatchCycleLocked 2000 0 0 stalledState).mConnections[0]?
          = some
              { stalledConnection with
                nextTimeoutTime := LONG_LONG_MAX
                outboundQueue :=
                  [{ eventEntry := 0, targetFlags := 0, xOffset := -5, yOffset := -6,
                     timeout := 5000, inProgress := true, headMotionSample := none,
                     tailMotionSample := none }] }
      ∧ (stalledState.mEvents.map (fun e => e.refCount) = [2])
      ∧ ((resumeAfterTimeoutDispatchCycleLocked 2000 0 0 stalledState).mEvents.map
          (fun e => e.refCount) = [1])
      ∧ stalledDownState.mConnections.map
          (fun c => (c.status, c.inputState.isOutOfSync, c.inputState.mKeyMementos.length))
          = [(Status.STATUS_NOT_RESPONDING, false, 1)]
      ∧ (resumeAfterTimeoutDispatchCycleLocked 2000 0 0 stalledDownState).mConnections.map
          (fun c => (c.nextTimeoutTime, c.inputState.isOutOfSync,
            c.inputState.mKeyMementos.length, c.outboundQueue.map (fun d => d.targetFlags)))
          = [(LONG_LONG_MAX, true, 1, [0])] :=
  ⟨by decide,
    ((resumeAfterTimeoutDispatchCycleLocked_spec 2000 0 0 stalledState stalledConnection
      (by decide)).2.2.1 rfl (by decide)).1,
    by decide, by decide, by decide, by decide⟩

/-- C30: `abortDispatchCycleLocked` leaves the connection with `nextTimeoutTime`
LONG_LONG_MAX, the input state marked out of sync and an empty outbound queue; the
connection is erased from the active list (and is absent from it in every reachable
state); each event loses one reference per drained entry and one pending synchronous
dispatch per drained synchronous entry. With `broken` set, a NORMAL or NOT_RESPONDING
connection becomes BROKEN and exactly one broken-channel command for it is posted; in
every other case the status is kept and no command is posted. The other connections are
not touched. -/
theorem abortDispatchCycleLocked_spec (connection : Nat) (broken : Bool) (s : State)
    (c : Connection) (hc : s.mConnections[connection]? = some c) :
    (abortDispatchCycleLocked connection broken s).mConnections[connection]?
        = some
            { c with
              nextTimeoutTime := LONG_LONG_MAX
              inputState := c.inputState.setOutOfSync
              outboundQueue := []
              status :=
                if broken = true ∧ (c.status = Status.STATUS_NORMAL
                    ∨ c.status = Status.STATUS_NOT_RESPONDING)
                then Status.STATUS_BROKEN else c.status }
      ∧ (∀ i : Nat, i ≠ connection →
          (abortDispatchCycleLocked connection broken s).mConnections[i]? = s.mConnections[i]?)
      ∧ (abortDispatchCycleLocked connection broken s).mActiveConnections
          = s.mActiveConnections.erase connection
      ∧ (Reachable s → connection ∉ (abortDispatchCycleLocked connection broken s).mActiveConnections)
      ∧ (∀ entry : Nat,
          (abortDispatchCycleLocked connection broken s).mEvents[entry]?
            = (s.mEvents[entry]?).map (EventEntry.afterDrain c.outboundQueue entry))
      ∧ (abortDispatchCycleLocked connection broken s).mCommandQueue
          = s.mCommandQueue ++
              (if broken = true ∧ (c.status = Status.STATUS_NORMAL
                  ∨ c.status = Status.STATUS_NOT_RESPONDING)
               then [{ obtainCommandEntry Command.doNotifyInputChannelBrokenLockedInterruptible with
                       connection := some connection }]
               else []) := by
  have hc1 : (modifyConnection connection (fun c =>
      { c with nextTimeoutTime := LONG_LONG_MAX, inputState := c.inputState.setOutOfSync })
      s).mConnections[connection]?
      = some { c with nextTimeoutTime := LONG_LONG_MAX, inputState := c.inputState.setOutOfSync } := by
    show (modifyAt _ connection s.mConnections)[connection]? = _
    rw [getElem?_modifyAt, if_pos rfl, hc]
    rfl
  have hc2 := abortDispatchCycleLocked_drained connection s c hc
  have hact : (drainOutboundQueueLocked connection 0
        (modifyConnection connection (fun c =>
          { c with nextTimeoutTime := LONG_LONG_MAX, inputState := c.inputState.setOutOfSync })
          s)).mActiveConnections = s.mActiveConnections.erase connection := by
    rw [drainOutboundQueueLocked_mActiveConnections _ _ _ _ hc1]
    rfl
  have hev : ∀ entry : Nat, (drainOutboundQueueLocked connection 0
        (modifyConnection connection (fun c =>
          { c with nextTimeoutTime := LONG_LONG_MAX, inputState := c.inputState.setOutOfSync })
          s)).mEvents[entry]?
      = (s.mEvents[entry]?).map (EventEntry.afterDrain c.outboundQueue entry) := by
    intro entry
    rw [drainOutboundQueueLocked_mEvents _ _ _ _ hc1]
    rfl
  have hoth : ∀ i : Nat, i ≠ connection → (drainOutboundQueueLocked connection 0
        (modifyConnection connection (fun c =>
          { c with nextTimeoutTime := LONG_LONG_MAX, inputState := c.inputState.setOutOfSync })
          s)).mConnections[i]? = s.mConnections[i]? := by
    intro i hi
    rw [drainOutboundQueueLocked_getElem? _ _ _ _ hi]
    show (modifyAt _ connection s.mConnections)[i]? = _
    rw [getElem?_modifyAt, if_neg hi]
  have hcmd : (drainOutboundQueueLocked connection 0
        (modifyConnection connection (fun c =>
          { c with nextTimeoutTime := LONG_LONG_MAX, inputState := c.inputState.setOutOfSync })
          s)).mCommandQueue = s.mCommandQueue := by
    rw [drainOutboundQueueLocked_mCommandQueue]
    rfl
  have hmain : ∀ r : State, r = abortDispatchCycleLocked connection broken s →
      r.mConnections[connection]?
        = some
            { c with
              nextTimeoutTime := LONG_LONG_MAX
              inputState := c.inputState.setOutOfSync
              outboundQueue := []
              status :=
                if broken = true ∧ (c.status = Status.STATUS_NORMAL
                    ∨ c.status = Status.STATUS_NOT_RESPONDING)
                then Status.STATUS_BROKEN else c.status }
      ∧ (∀ i : Nat, i ≠ connection → r.mConnections[i]? = s.mConnections[i]?)
      ∧ r.mActiveConnections = s.mActiveConnections.erase connection
      ∧ (∀ entry : Nat,
          r.mEvents[entry]?
            = (s.mEvents[entry]?).map (EventEntry.afterDrain c.outboundQueue entry))
      ∧ r.mCommandQueue
          = s.mCommandQueue ++
              (if broken = true ∧ (c.status = Status.STATUS_NORMAL
                  ∨ c.status = Status.STATUS_NOT_RESPONDING)
               then [{ obtainCommandEntry Command.doNotifyInputChannelBrokenLockedInterruptible with
                       connection := some connection }]
               else []) := by
    intro r hr
    unfold abortDispatchCycleLocked at hr
    simp only [hc2] at hr
    by_cases hb : broken = true ∧ (c.status = Status.STATUS_NORMAL
        ∨ c.status = Status.STATUS_NOT_RESPONDING)
    · have hcond : (broken && (c.status == Status.STATUS_NORMAL
          || c.status == Status.STATUS_NOT_RESPONDING)) = true := by
        obtain ⟨h1, h2⟩ := hb
        rcases h2 with h2 | h2 <;> simp [h1, h2]
      rw [if_pos hcond] at hr
      subst hr
      rw [if_pos hb, if_pos hb]
      refine ⟨?_, ?_, hact, hev, ?_⟩
      · show (modifyAt _ connection _)[connection]? = _
        rw [getElem?_modifyAt, if_pos rfl, hc2]
        rfl
      · intro i hi
        show (modifyAt _ connection _)[i]? = _
        rw [getElem?_modifyAt, if_neg hi]
        exact hoth i hi
      · show _ ++ [_] = _
        rw [← hcmd]
        rfl
    · have hcond : ¬ (broken && (c.status == Status.STATUS_NORMAL
          || c.status == Status.STATUS_NOT_RESPONDING)) = true := by
        intro h
        apply hb
        simp only [Bool.and_eq_true, Bool.or_eq_true, beq_iff_eq] at h
        exact h
      rw [if_neg hcond] at hr
      subst hr
      rw [if_neg hb, if_neg hb]
      refine ⟨?_, hoth, hact, hev, ?_⟩
      · rw [hc2]
      · rw [hcmd, List.append_nil]
  obtain ⟨h1, h2, h3, h4, h5⟩ := hmain _ rfl
  refine ⟨h1, h2, h3, ?_, h4, h5⟩
  intro hs
  rw [h3]
  exact List.Nodup.not_mem_erase (nodupActive_of_reachable s hs)

/-- The connection of `stalledState` is aborted as broken: it becomes BROKEN with an
empty queue and no timeout, leaves the active list, the key loses both references and
its pending synchronous dispatch, and one command is posted. -/
theorem abortDispatchCycleLocked_spec_witness :
    stalledState.mConnections[0]? = some stalledConnection
      ∧ Reachable stalledState
      ∧ stalledState.mActiveConnections = [0]
      ∧ (abortDispatchCycleLocked 0 true stalledState).mConnections[0]?
          = some
              { stalledConnection with
                status := Status.STATUS_BROKEN
                nextTimeoutTime := LONG_LONG_MAX
                outboundQueue := [] }
      ∧ 0 ∉ (abortDispatchCycleLocked 0 true stalledState).mActiveConnections
      ∧ stalledState.mEvents.map (fun e => (e.refCount, e.pendingSyncDispatches)) = [(2, 1)]
      ∧ (abortDispatchCycleLocked 0 true stalledState).mEvents.map
          (fun e => (e.refCount, e.pendingSyncDispatches)) = [(0, 0)]
      ∧ (abortDispatchCycleLocked 0 true stalledState).mCommandQueue.length
          = stalledState.mCommandQueue.length + 1 :=
  ⟨by decide, ⟨60, _, rfl⟩, by decide,
    (abortDispatchCycleLocked_spec 0 true stalledState stalledConnection (by decide)).1,
    (abortDispatchCycleLocked_spec 0 true stalledState stalledConnection
      (by decide)).2.2.2.1 ⟨60, _, rfl⟩,
    by decide, by decide, by decide⟩

/-- C31: let `s` be a dispatcher that waits for the cause of the call (as it does after
every call of `handleTargetsNotReadyLocked` for that cause, as long as nothing ends the
wait).  The call keeps the wait cause, the wait start time, the timeout time and the
expired flag, so the start time stays the time of the call that entered the wait.  It
returns TIMED_OUT when the expired flag is set, and only then, and PENDING otherwise; it
posts one targets-not-ready timeout command exactly when the flag is not set and
`currentTime` has reached the timeout time.  After
`resumeAfterTargetsNotReadyTimeoutLocked` with a new timeout `≤ 0` the call returns
TIMED_OUT.  A call that enters the wait, because the dispatcher waited for another cause
or, after `startFindingTargetsLocked`, for none, starts the wait at its own time, clears
the flag and returns PENDING. -/
theorem handleTargetsNotReadyLocked_same_wait (currentTime : Int)
    (application : Option InputApplication) (window : Option Nat) (s : State) (env : Env)
    (newTimeout : Int)
    (hcause : s.mInputTargetWaitCause = waitCauseOf application window) :
    (handleTargetsNotReadyLocked currentTime application window s).2.mInputTargetWaitCause
        = s.mInputTargetWaitCause
      ∧ (handleTargetsNotReadyLocked currentTime application window
          s).2.mInputTargetWaitStartTime = s.mInputTargetWaitStartTime
      ∧ (handleTargetsNotReadyLocked currentTime application window
          s).2.mInputTargetWaitTimeoutTime = s.mInputTargetWaitTimeoutTime
      ∧ (handleTargetsNotReadyLocked currentTime application window
          s).2.mInputTargetWaitTimeoutExpired = s.mInputTargetWaitTimeoutExpired
      ∧ ((handleTargetsNotReadyLocked currentTime application window s).1
            = INPUT_EVENT_INJECTION_TIMED_OUT ↔ s.mInputTargetWaitTimeoutExpired = true)
      ∧ (s.mInputTargetWaitTimeoutExpired = false →
          (handleTargetsNotReadyLocked currentTime application window s).1
            = INPUT_EVENT_INJECTION_PENDING)
      ∧ (handleTargetsNotReadyLocked currentTime application window s).2.mCommandQueue
          = s.mCommandQueue
            ++ (if s.mInputTargetWaitTimeoutExpired = false
                  ∧ currentTime ≥ s.mInputTargetWaitTimeoutTime then
                [targetsNotReadyCommand application window s] else [])
      ∧ (newTimeout ≤ 0 →
          (handleTargetsNotReadyLocked currentTime application window
            (resumeAfterTargetsNotReadyTimeoutLocked env newTimeout s)).1
            = INPUT_EVENT_INJECTION_TIMED_OUT)
      ∧ (∀ (t0 : Int) (s0 : State),
          (handleTargetsNotReadyLocked t0 application window s0).2.mInputTargetWaitCause
              = waitCauseOf application window
            ∧ (s0.mInputTargetWaitCause ≠ waitCauseOf application window →
                (handleTargetsNotReadyLocked t0 application window s0).1
                    = INPUT_EVENT_INJECTION_PENDING
                  ∧ (handleTargetsNotReadyLocked t0 application window
                      s0).2.mInputTargetWaitStartTime = t0
                  ∧ (handleTargetsNotReadyLocked t0 application window
                      s0).2.mInputTargetWaitTimeoutExpired = false))
      ∧ (handleTargetsNotReadyLocked currentTime application window
          (startFindingTargetsLocked s)).2.mInputTargetWaitStartTime = currentTime := by
  have h := handleTargetsNotReadyLocked_again currentTime application window s hcause
  have hne : (startFindingTargetsLocked s).mInputTargetWaitCause
      ≠ waitCauseOf application window := by
    show InputTargetWaitCause.INPUT_TARGET_WAIT_CAUSE_NONE ≠ _
    unfold waitCauseOf
    split <;> exact fun h => by cases h
  have hfirst : (handleTargetsNotReadyLocked currentTime application window
        s).2.mInputTargetWaitCause = s.mInputTargetWaitCause
      ∧ (handleTargetsNotReadyLocked currentTime application window
          s).2.mInputTargetWaitStartTime = s.mInputTargetWaitStartTime
      ∧ (handleTargetsNotReadyLocked currentTime application window
          s).2.mInputTargetWaitTimeoutTime = s.mInputTargetWaitTimeoutTime
      ∧ (handleTargetsNotReadyLocked currentTime application window
          s).2.mInputTargetWaitTimeoutExpired = s.mInputTargetWaitTimeoutExpired
      ∧ ((handleTargetsNotReadyLocked currentTime application window s).1
            = INPUT_EVENT_INJECTION_TIMED_OUT ↔ s.mInputTargetWaitTimeoutExpired = true)
      ∧ (s.mInputTargetWaitTimeoutExpired = false →
          (handleTargetsNotReadyLocked currentTime application window s).1
            = INPUT_EVENT_INJECTION_PENDING)
      ∧ (handleTargetsNotReadyLocked currentTime application window s).2.mCommandQueue
          = s.mCommandQueue
            ++ (if s.mInputTargetWaitTimeoutExpired = false
                  ∧ currentTime ≥ s.mInputTargetWaitTimeoutTime then
                [targetsNotReadyCommand application window s] else []) := by
    by_cases hx : s.mInputTargetWaitTimeoutExpired = true
    · rw [if_pos hx] at h
      rw [h]
      refine ⟨rfl, rfl, rfl, rfl, ⟨fun _ => hx, fun _ => rfl⟩, ?_, ?_⟩
      · intro hf
        rw [hf] at hx
        cases hx
      · rw [if_neg (fun hp => by rw [hp.1] at hx; cases hx)]
        exact (List.append_nil _).symm
    · rw [if_neg hx] at h
      have hf : s.mInputTargetWaitTimeoutExpired = false := by
        cases hq : s.mInputTargetWaitTimeoutExpired
        · rfl
        · exact absurd hq hx
      by_cases ht : currentTime ≥ s.mInputTargetWaitTimeoutTime
      · rw [if_pos ht] at h
        rw [h]
        refine ⟨rfl, rfl, rfl, rfl, ⟨fun hp => (by cases hp), fun hp => absurd hp hx⟩,
          fun _ => rfl, ?_⟩
        rw [if_pos ⟨hf, ht⟩]
      · rw [if_neg ht] at h
        rw [h]
        refine ⟨rfl, rfl, rfl, rfl, ⟨fun hp => (by cases hp), fun hp => absurd hp hx⟩,
          fun _ => rfl, ?_⟩
        show s.mCommandQueue = s.mCommandQueue ++ _
        rw [if_neg (fun hp => ht hp.2)]
        exact (List.append_nil _).symm
  obtain ⟨h1, h2, h3, h4, h5, h6, h7⟩ := hfirst
  refine ⟨h1, h2, h3, h4, h5, h6, h7, ?_, ?_, ?_⟩
  · intro hle
    have h1 : resumeAfterTargetsNotReadyTimeoutLocked env newTimeout s
        = { s with mInputTargetWaitTimeoutExpired := true } := by
      unfold resumeAfterTargetsNotReadyTimeoutLocked
      rw [if_neg (not_lt.mpr hle)]
    rw [h1, handleTargetsNotReadyLocked_again currentTime application window
      { s with mInputTargetWaitTimeoutExpired := true } hcause]
    rfl
  · intro t0 s0
    exact ⟨handleTargetsNotReadyLocked_cause t0 application window s0,
      handleTargetsNotReadyLocked_enter t0 application window s0⟩
  · exact (handleTargetsNotReadyLocked_enter currentTime application window _ hne).2.1

/-- The key of `waitingState` waits for the application since time 1000, until 1001000.
A call at time 2000 for the same cause returns PENDING and keeps both times; after the
policy has answered the timeout with 0, the call returns TIMED_OUT. -/
theorem handleTargetsNotReadyLocked_same_wait_witness :
    waitingState.mInputTargetWaitCause
        = waitCauseOf (some { dispatchingTimeout := 1000000, handle := 1 }) none
      ∧ waitingState.mInputTargetWaitStartTime = 1000
      ∧ waitingState.mInputTargetWaitTimeoutTime = 1001000
      ∧ (handleTargetsNotReadyLocked 2000 (some { dispatchingTimeout := 1000000, handle := 1 })
          none waitingState).2.mInputTargetWaitStartTime = waitingState.mInputTargetWaitStartTime
      ∧ (handleTargetsNotReadyLocked 2000 (some { dispatchingTimeout := 1000000, handle := 1 })
          none waitingState).1 = INPUT_EVENT_INJECTION_PENDING
      ∧ (handleTargetsNotReadyLocked 2000 (some { dispatchingTimeout := 1000000, handle := 1 })
          none (resumeAfterTargetsNotReadyTimeoutLocked quietEnv 0 waitingState)).1
          = INPUT_EVENT_INJECTION_TIMED_OUT :=
  ⟨by decide, by decide, by decide,
    (handleTargetsNotReadyLocked_same_wait 2000 _ none waitingState quietEnv 0
      (by decide)).2.1,
    (handleTargetsNotReadyLocked_same_wait 2000 _ none waitingState quietEnv 0
      (by decide)).2.2.2.2.2.1 (by decide),
    (handleTargetsNotReadyLocked_same_wait 2000 _ none waitingState quietEnv 0
      (by decide)).2.2.2.2.2.2.2.1 (by decide)⟩

/-- C32: in a pass with dispatch enabled and not frozen, let the app switch not be due
and let an active connection have a pending sync target, that is, a synchronous entry at
the tail of its outbound queue.  Then the pass ends where `passBeforeEvent` ends, without
picking an event: the pending event and the inbound queue are unchanged, the event pool
and the key repeat state are those of the start (but for the release of the last key by
`resetKeyRepeatLocked` when the key repeat timeout is negative), so no key repeat is
made, and the outbound queue of every connection is unchanged.  The connections whose
timeout has passed are still processed: the state is that of `timeoutConnections` for the
active connections that are timed out.  When the app switch is due, the scan reports no
pending sync target, the tail of every active connection that had one is made
asynchronous, no active connection has a pending sync target any more, and the pass goes
on to pick and dispatch an event. -/
theorem pending_sync_target_holds_pass (env : Env) (keyRepeatTimeout keyRepeatDelay : Int)
    (s : State) (henabled : s.mDispatchEnabled = true) (hfrozen : s.mDispatchFrozen = false) :
    (env.now < s.mAppSwitchDueTime →
      (∃ connection ∈ s.mActiveConnections, s.hasPendingSyncTarget connection = true) →
      dispatchOnceInnerLocked env keyRepeatTimeout keyRepeatDelay s
          = (passBeforeEvent env keyRepeatTimeout s).2
        ∧ (dispatchOnceInnerLocked env keyRepeatTimeout keyRepeatDelay s).mPendingEvent
          = s.mPendingEvent
        ∧ (dispatchOnceInnerLocked env keyRepeatTimeout keyRepeatDelay s).mInboundQueue
          = s.mInboundQueue
        ∧ (dispatchOnceInnerLocked env keyRepeatTimeout keyRepeatDelay s).mEvents
          = (if keyRepeatTimeout < 0 then resetKeyRepeatLocked s else s).mEvents
        ∧ (dispatchOnceInnerLocked env keyRepeatTimeout keyRepeatDelay s).mKeyRepeatState
          = (if keyRepeatTimeout < 0 then resetKeyRepeatLocked s else s).mKeyRepeatState
        ∧ (dispatchOnceInnerLocked env keyRepeatTimeout keyRepeatDelay s).mEvents.length
          = s.mEvents.length
        ∧ (∀ i : Nat,
            ((dispatchOnceInnerLocked env keyRepeatTimeout keyRepeatDelay
                s).mConnections[i]?).map (fun c : Connection => c.outboundQueue)
              = (s.mConnections[i]?).map (fun c : Connection => c.outboundQueue))
        ∧ ∃ w, dispatchOnceInnerLocked env keyRepeatTimeout keyRepeatDelay s
            = timeoutConnections env.now
                (s.mActiveConnections.filter (fun i => s.isTimedOut env.now i))
                { (if keyRepeatTimeout < 0 then resetKeyRepeatLocked s else s) with
                  nextWakeupTime := w })
      ∧ (s.mAppSwitchDueTime ≤ env.now →
        (passBeforeEvent env keyRepeatTimeout s).1.havePendingSyncTarget = false
          ∧ (∀ i : Nat,
              ((passBeforeEvent env keyRepeatTimeout s).2.mConnections[i]?).map
                  (fun c : Connection => c.outboundQueue)
                = (s.mConnections[i]?).map (fun c : Connection =>
                    (if i ∈ s.mActiveConnections ∧ c.hasPendingSyncTarget = true then
                      c.preemptSyncTarget else c).outboundQueue))
          ∧ (∀ i ∈ s.mActiveConnections,
              (passBeforeEvent env keyRepeatTimeout s).2.hasPendingSyncTarget i = false)
          ∧ dispatchOnceInnerLocked env keyRepeatTimeout keyRepeatDelay s
            = if (passBeforeEvent env keyRepeatTimeout s).2.mPendingEvent.isNone then
                if (pickPendingEvent env.now keyRepeatDelay true
                    (passBeforeEvent env keyRepeatTimeout s).2).1 then
                  dispatchPendingEvent env env.now keyRepeatTimeout
                    (pickPendingEvent env.now keyRepeatDelay true
                      (passBeforeEvent env keyRepeatTimeout s).2).2.1
                    (pickPendingEvent env.now keyRepeatDelay true
                      (passBeforeEvent env keyRepeatTimeout s).2).2.2
                else
                  (pickPendingEvent env.now keyRepeatDelay true
                    (passBeforeEvent env keyRepeatTimeout s).2).2.2
              else
                dispatchPendingEvent env env.now keyRepeatTimeout true
                  (passBeforeEvent env keyRepeatTimeout s).2) := by
  have hpass := dispatchOnceInnerLocked_pass env keyRepeatTimeout keyRepeatDelay s henabled
    hfrozen
  have hside := passBeforeEvent_eventSide env keyRepeatTimeout s
  have hs1 := resetKeyRepeatLocked_side keyRepeatTimeout s
  constructor
  · intro hnot hsync
    obtain ⟨w, hw⟩ := passBeforeEvent_notDue env keyRepeatTimeout s hnot
    have hhave : (passBeforeEvent env keyRepeatTimeout s).1.havePendingSyncTarget = true := by
      rw [hw]
      show s.mActiveConnections.any (fun i => s.hasPendingSyncTarget i) = true
      rw [List.any_eq_true]
      exact hsync
    rw [hhave, if_pos rfl] at hpass
    rw [hpass]
    refine ⟨rfl, ?_, ?_, ?_, ?_, ?_, ?_, ?_⟩
    · have h := congrArg (fun t : State => t.mPendingEvent) hside
      have h2 := congrArg (fun t : State => t.mPendingEvent) hs1
      exact h.trans h2
    · have h := congrArg (fun t : State => t.mInboundQueue) hside
      have h2 := congrArg (fun t : State => t.mInboundQueue) hs1
      exact h.trans h2
    · have h := congrArg (fun t : State => t.mEvents) hside
      exact h
    · have h := congrArg (fun t : State => t.mKeyRepeatState) hside
      exact h
    · have h := congrArg (fun t : State => t.mEvents.length) hside
      refine Eq.trans h ?_
      show (if keyRepeatTimeout < 0 then resetKeyRepeatLocked s else s).mEvents.length = _
      split
      · exact resetKeyRepeatLocked_length s
      · rfl
    · intro i
      rw [hw]
      show ((timeoutConnections env.now _ _).mConnections[i]?).map _ = _
      rw [timeoutConnections_queue]
      have h0 := congrArg (fun t : State => t.mConnections) hs1
      have h : (if keyRepeatTimeout < 0 then resetKeyRepeatLocked s else s).mConnections
          = s.mConnections := h0
      show (((if keyRepeatTimeout < 0 then resetKeyRepeatLocked s else s).mConnections)[i]?).map _
        = _
      rw [h]
    · exact ⟨w, by rw [hw]⟩
  · intro hdue
    have hhave := passBeforeEvent_due env keyRepeatTimeout s hdue
    have hq : ∀ i : Nat,
        ((passBeforeEvent env keyRepeatTimeout s).2.mConnections[i]?).map
            (fun c : Connection => c.outboundQueue)
          = (s.mConnections[i]?).map (fun c : Connection =>
              (if i ∈ s.mActiveConnections ∧ c.hasPendingSyncTarget = true then
                c.preemptSyncTarget else c).outboundQueue) := by
      intro i
      rw [passBeforeEvent_due_queue env keyRepeatTimeout s hdue i]
      cases hc : s.mConnections[i]? with
      | none =>
        have hlen := preemptConnections_length s.mActiveConnections s
        have : (preemptConnections s.mActiveConnections s).2.mConnections[i]? = none := by
          rw [List.getElem?_eq_none_iff] at hc ⊢
          rw [hlen]
          exact hc
        rw [this]
        rfl
      | some c =>
        rw [preemptConnections_getElem? _ s i c hc]
        rfl
    refine ⟨hhave, hq, ?_, ?_⟩
    · intro i hi
      unfold State.hasPendingSyncTarget
      have h := hq i
      cases hp : (passBeforeEvent env keyRepeatTimeout s).2.mConnections[i]? with
      | none => rfl
      | some c1 =>
        rw [hp] at h
        cases hc : s.mConnections[i]? with
        | none =>
          rw [hc] at h
          cases h
        | some c =>
          rw [hc] at h
          simp only [Option.map_some', Option.some.injEq] at h
          simp only []
          rw [hasPendingSyncTarget_of_queue c1 _ h]
          by_cases hx : c.hasPendingSyncTarget = true
          · rw [if_pos ⟨hi, hx⟩]
            exact connection_preemptSyncTarget_hasPendingSyncTarget c
          · rw [if_neg (fun hh => hx hh.2)]
            cases hy : c.hasPendingSyncTarget
            · rfl
            · exact absurd hy hx
    · rw [hpass, hhave]
      simp only [Bool.false_eq_true, if_false, decide_eq_true hdue]

/-- In `repeatQueuedState` the connection of channel 7 has a pending sync target and no
app switch is due: the pass takes no event.  In `dueSyncState` the app switch is due at
the time of `lateEnv`: the scan reports no pending sync target and the connection has
none after the pass. -/
theorem pending_sync_target_holds_pass_witness :
    repeatQueuedState.mActiveConnections = [0]
      ∧ repeatQueuedState.hasPendingSyncTarget 0 = true
      ∧ dispatchOnceInnerLocked quietEnv 500000000 50000000 repeatQueuedState
          = (passBeforeEvent quietEnv 500000000 repeatQueuedState).2
      ∧ (dispatchOnceInnerLocked quietEnv 500000000 50000000 repeatQueuedState).mInboundQueue
          = repeatQueuedState.mInboundQueue
      ∧ dueSyncState.mActiveConnections = [0]
      ∧ dueSyncState.hasPendingSyncTarget 0 = true
      ∧ (passBeforeEvent lateEnv 500000000 dueSyncState).1.havePendingSyncTarget = false
      ∧ (passBeforeEvent lateEnv 500000000 dueSyncState).2.hasPendingSyncTarget 0 = false := by
  have h1 := (pending_sync_target_holds_pass quietEnv 500000000 50000000 repeatQueuedState
    (by decide) (by decide)).1 (by decide) ⟨0, by decide, by decide⟩
  have h2 := (pending_sync_target_holds_pass lateEnv 500000000 50000000 dueSyncState
    (by decide) (by decide)).2 (by decide)
  exact ⟨by decide, by decide, h1.1, h1.2.2.1, by decide, by decide, h2.1,
    h2.2.2.1 0 (by decide)⟩

/-- C33, as the claim has it, fails: in `dueMoveState` dispatch is enabled and not frozen,
no connection is active, no event is pending, and the inbound queue holds one event, a
MOVE of the device and source of the throttle state; the pass runs at time 600000000,
before 590000000 + 16666666.  The app switch is due, so the pass does not throttle: it
takes the MOVE off the queue (and drops it), and the throttle state gets the event time
595000000. -/
theorem due_app_switch_takes_throttled_move :
    dueMoveState.mDispatchEnabled = true ∧ dueMoveState.mDispatchFrozen = false
      ∧ dueMoveState.mActiveConnections = []
      ∧ dueMoveState.mPendingEvent = none ∧ dueMoveState.mInboundQueue = [2]
      ∧ dueMoveState.mEvents[2]? = some (initializeEventEntry (EventBody.motion queuedMove) 595000000)
      ∧ dueMoveState.mThrottleState
          = { minTimeBetweenEvents := 16666666, lastEventTime := 590000000, lastDeviceId := 1,
              lastSource := 0x1002, originalSampleCount := 0 }
      ∧ lateEnv.now = 600000000 ∧ dueMoveState.mAppSwitchDueTime = 500000010
      ∧ (dispatchOnceInnerLocked lateEnv 500000000 50000000 dueMoveState).mInboundQueue = []
      ∧ (dispatchOnceInnerLocked lateEnv 500000000 50000000 dueMoveState).mPendingEvent = none
      ∧ (dispatchOnceInnerLocked lateEnv 500000000 50000000 dueMoveState).mThrottleState
          = { minTimeBetweenEvents := 16666666, lastEventTime := 595000000, lastDeviceId := 1,
              lastSource := 0x1002, originalSampleCount := 0 }
      ∧ (dispatchOnceInnerLocked lateEnv 500000000 50000000 dueMoveState).mEvents.map
          (fun e => e.refCount) = [0, 0, 0] := by
  decide

/-- C33, amended: let the pass reach the selection of an event with no pending event,
the motion event `m` at the head of the inbound queue and `rest` behind it.  When the
app switch is not due, `rest` is empty, `m` is a MOVE of the device and source of the
throttle state and `currentTime` is before the last event time plus the minimal time
between events, the pass takes no event: the inbound queue, the pending event and the
last time, device and source of the throttle state are unchanged, and the next wake-up
time is at most the last event time plus the minimal time.  In every other case, also
when the app switch is due, the event is taken off the queue as the pending event and
the throttle state gets the smaller of its event time and `currentTime`, its device and
its source.  With dispatch enabled and not frozen, no pending sync target and no
pending event, this is how `dispatchOnceInnerLocked` selects its event. -/
theorem pickPendingEvent_motion_throttling (currentTime keyRepeatDelay : Int)
    (isAppSwitchDue : Bool) (s : State) (entry : Nat) (rest : List Nat) (e : EventEntry)
    (m : MotionEntry)
    (hq : s.mInboundQueue = entry :: rest) (he : s.mEvents[entry]? = some e)
    (hb : e.body = EventBody.motion m) :
    (isAppSwitchDue = false ∧ rest = [] ∧ m.action = AMOTION_EVENT_ACTION_MOVE
        ∧ m.deviceId = s.mThrottleState.lastDeviceId ∧ m.source = s.mThrottleState.lastSource
        ∧ currentTime < s.mThrottleState.lastEventTime + s.mThrottleState.minTimeBetweenEvents →
      (pickPendingEvent currentTime keyRepeatDelay isAppSwitchDue s).1 = false
        ∧ (pickPendingEvent currentTime keyRepeatDelay isAppSwitchDue s).2.2.mInboundQueue
            = s.mInboundQueue
        ∧ (pickPendingEvent currentTime keyRepeatDelay isAppSwitchDue s).2.2.mPendingEvent
            = s.mPendingEvent
        ∧ (pickPendingEvent currentTime keyRepeatDelay isAppSwitchDue
            s).2.2.mThrottleState.lastEventTime = s.mThrottleState.lastEventTime
        ∧ (pickPendingEvent currentTime keyRepeatDelay isAppSwitchDue
            s).2.2.mThrottleState.lastDeviceId = s.mThrottleState.lastDeviceId
        ∧ (pickPendingEvent currentTime keyRepeatDelay isAppSwitchDue
            s).2.2.mThrottleState.lastSource = s.mThrottleState.lastSource
        ∧ (pickPendingEvent currentTime keyRepeatDelay isAppSwitchDue s).2.2.nextWakeupTime
            ≤ s.mThrottleState.lastEventTime + s.mThrottleState.minTimeBetweenEvents
        ∧ (pickPendingEvent currentTime keyRepeatDelay isAppSwitchDue s).2.2.nextWakeupTime
            ≤ s.nextWakeupTime)
      ∧ (¬ (isAppSwitchDue = false ∧ rest = [] ∧ m.action = AMOTION_EVENT_ACTION_MOVE
          ∧ m.deviceId = s.mThrottleState.lastDeviceId
          ∧ m.source = s.mThrottleState.lastSource
          ∧ currentTime
              < s.mThrottleState.lastEventTime + s.mThrottleState.minTimeBetweenEvents) →
        (pickPendingEvent currentTime keyRepeatDelay isAppSwitchDue s).1 = true
          ∧ (pickPendingEvent currentTime keyRepeatDelay isAppSwitchDue s).2.2
            = { s with
                mInboundQueue := rest
                mPendingEvent := some entry
                mThrottleState :=
                  { s.mThrottleState with
                    lastEventTime :=
                      if e.eventTime < currentTime then e.eventTime else currentTime
                    lastDeviceId := m.deviceId
                    lastSource := m.source } })
      ∧ (∀ (env : Env) (keyRepeatTimeout : Int) (s0 : State),
          s0.mDispatchEnabled = true → s0.mDispatchFrozen = false →
          (passBeforeEvent env keyRepeatTimeout s0).1.havePendingSyncTarget = false →
          (passBeforeEvent env keyRepeatTimeout s0).2.mPendingEvent = none →
          dispatchOnceInnerLocked env keyRepeatTimeout keyRepeatDelay s0
            = if (pickPendingEvent env.now keyRepeatDelay
                  (decide (s0.mAppSwitchDueTime ≤ env.now))
                  (passBeforeEvent env keyRepeatTimeout s0).2).1 then
                dispatchPendingEvent env env.now keyRepeatTimeout
                  (pickPendingEvent env.now keyRepeatDelay
                    (decide (s0.mAppSwitchDueTime ≤ env.now))
                    (passBeforeEvent env keyRepeatTimeout s0).2).2.1
                  (pickPendingEvent env.now keyRepeatDelay
                    (decide (s0.mAppSwitchDueTime ≤ env.now))
                    (passBeforeEvent env keyRepeatTimeout s0).2).2.2
              else
                (pickPendingEvent env.now keyRepeatDelay
                  (decide (s0.mAppSwitchDueTime ≤ env.now))
                  (passBeforeEvent env keyRepeatTimeout s0).2).2.2) := by
  refine ⟨?_, ?_, ?_⟩
  · intro h
    rw [pickPendingEvent_throttled currentTime keyRepeatDelay isAppSwitchDue s entry rest e m hq
      he hb h]
    refine ⟨rfl, rfl, rfl, rfl, rfl, rfl, ?_, ?_⟩
    · show (if _ then _ else _) ≤ _
      split
      · exact le_refl _
      · rename_i hlt
        exact not_lt.mp hlt
    · show (if _ then _ else _) ≤ _
      split
      · rename_i hlt
        exact le_of_lt hlt
      · exact le_refl _
  · intro h
    rw [pickPendingEvent_taken currentTime keyRepeatDelay isAppSwitchDue s entry rest e m hq he
      hb h]
    exact ⟨rfl, rfl⟩
  · intro env keyRepeatTimeout s0 henabled hfrozen hsync hpending
    rw [dispatchOnceInnerLocked_pass env keyRepeatTimeout keyRepeatDelay s0 henabled hfrozen,
      hsync, hpending]
    rfl

/-- In `quietMoveState` the app switch is not due and the MOVE is throttled: it stays in
the inbound queue.  In `dueMoveState` the app switch is due and the MOVE is taken. -/
theorem pickPendingEvent_motion_throttling_witness :
    quietMoveState.mInboundQueue = [1]
      ∧ quietMoveState.mEvents[1]?
          = some (initializeEventEntry (EventBody.motion queuedMove) 595000000)
      ∧ (pickPendingEvent 600000000 50000000 false quietMoveState).1 = false
      ∧ (pickPendingEvent 600000000 50000000 false quietMoveState).2.2.mInboundQueue
          = quietMoveState.mInboundQueue
      ∧ (pickPendingEvent 600000000 50000000 true dueMoveState).1 = true
      ∧ (pickPendingEvent 600000000 50000000 true dueMoveState).2.2.mPendingEvent = some 2 := by
  have h1 := (pickPendingEvent_motion_throttling 600000000 50000000 false quietMoveState 1 []
    (initializeEventEntry (EventBody.motion queuedMove) 595000000) queuedMove
    (by decide) (by decide) rfl).1 (by decide)
  have h2 := (pickPendingEvent_motion_throttling 600000000 50000000 true dueMoveState 2 []
    (initializeEventEntry (EventBody.motion queuedMove) 595000000) queuedMove
    (by decide) (by decide) rfl).2.1 (by decide)
  refine ⟨by decide, by decide, h1.1, h1.2.1, h2.1, ?_⟩
  rw [h2.2]

/-- C34: let `entry` be the last key of the key repeat state, with the key fields `k`.
`synthesizeKeyRepeatLocked` returns the entry itself when its `refCount` is 1 and a new
entry of the pool otherwise, and in both cases the returned entry is the same key: the
device, source, action, key code, scan code, meta state and down time of `k`, the repeat
count of `k` plus 1, the policy flags of `k` masked to the raw ones, `syntheticRepeat`
set, `interceptKeyResult` UNKNOWN, the flags of `k` with LONG_PRESS added when the new
repeat count is 1; its event time is `currentTime`, it is not in progress, its injection
result is PENDING, it has no pending sync dispatches, and it is not injected when the
last key was not.  Afterwards it is the last key of the key repeat state, has
`refCount` 2, and the next repeat is due at `currentTime + keyRepeatDelay`.  A last key
that was not reused has lost the reference of the key repeat state; no other entry and
nothing else of the dispatcher has changed. -/
theorem synthesizeKeyRepeatLocked_same_key (currentTime keyRepeatDelay : Int) (s : State)
    (entry : Nat) (e : EventEntry) (k : KeyEntry)
    (hlast : s.mKeyRepeatState.lastKeyEntry = some entry)
    (he : s.mEvents[entry]? = some e) (hb : e.body = EventBody.key k) :
    ∃ (repeated : Nat) (e1 : EventEntry),
      (synthesizeKeyRepeatLocked currentTime keyRepeatDelay s).1 = some repeated
        ∧ repeated = (if e.refCount = 1 then entry else s.mEvents.length)
        ∧ (synthesizeKeyRepeatLocked currentTime keyRepeatDelay s).2.mEvents[repeated]? = some e1
        ∧ e1.body = EventBody.key
            { k with
              policyFlags := k.policyFlags &&& POLICY_FLAG_RAW_MASK
              repeatCount := k.repeatCount + 1
              syntheticRepeat := true
              interceptKeyResult := InterceptKeyResult.INTERCEPT_KEY_RESULT_UNKNOWN
              flags :=
                if k.repeatCount + 1 = 1 then k.flags ||| AKEY_EVENT_FLAG_LONG_PRESS
                else k.flags }
        ∧ e1.eventTime = currentTime
        ∧ e1.refCount = 2
        ∧ e1.dispatchInProgress = false
        ∧ e1.injectionResult = INPUT_EVENT_INJECTION_PENDING
        ∧ e1.pendingSyncDispatches = 0
        ∧ (e.isInjected = false → e1.isInjected = false)
        ∧ (synthesizeKeyRepeatLocked currentTime keyRepeatDelay s).2.mKeyRepeatState
            = { lastKeyEntry := some repeated, nextRepeatTime := currentTime + keyRepeatDelay }
        ∧ (e.refCount ≠ 1 →
            (synthesizeKeyRepeatLocked currentTime keyRepeatDelay s).2.mEvents[entry]?
              = some { e with refCount := e.refCount - 1 })
        ∧ (∀ j, j ≠ entry → j ≠ repeated →
            (synthesizeKeyRepeatLocked currentTime keyRepeatDelay s).2.mEvents[j]?
              = s.mEvents[j]?)
        ∧ (synthesizeKeyRepeatLocked currentTime keyRepeatDelay s).2
            = { s with
                mEvents := (synthesizeKeyRepeatLocked currentTime keyRepeatDelay s).2.mEvents
                mKeyRepeatState :=
                  (synthesizeKeyRepeatLocked currentTime keyRepeatDelay s).2.mKeyRepeatState } := by
  have hlt : entry < s.mEvents.length := by
    by_contra hge
    rw [List.getElem?_eq_none (Nat.le_of_not_lt hge)] at he
    cases he
  by_cases hr : e.refCount = 1
  · rw [synthesizeKeyRepeatLocked_inPlace currentTime keyRepeatDelay s entry e k hlast he hb hr,
      if_pos hr]
    refine ⟨entry, _, rfl, rfl, getElem?_modifyAt_self _ _ _ _ he, rfl, rfl, rfl, rfl, rfl,
      rfl, fun h => h, rfl, fun h => absurd hr h, ?_, rfl⟩
    intro j hj _
    exact getElem?_modifyAt_ne _ _ _ _ hj
  · rw [synthesizeKeyRepeatLocked_fresh currentTime keyRepeatDelay s entry e k hlast he hb hr,
      if_neg hr]
    have hlen : (modifyAt (fun _ => { e with refCount := e.refCount - 1 }) entry
        s.mEvents).length = s.mEvents.length := length_modifyAt _ _ _
    refine ⟨s.mEvents.length,
      { initializeEventEntry (EventBody.key k.nextRepeat) currentTime with refCount := 2 },
      rfl, rfl, ?_, rfl, rfl, rfl, rfl, rfl, rfl, fun _ => rfl, rfl, fun _ => ?_, ?_, rfl⟩
    · show (modifyAt _ entry s.mEvents ++ [_])[s.mEvents.length]? = _
      rw [← hlen, getElem?_length_append]
    · show (modifyAt _ entry s.mEvents ++ [_])[entry]? = _
      rw [List.getElem?_append_left (by rw [hlen]; exact hlt)]
      exact getElem?_modifyAt_self _ _ _ _ he
    · intro j hj hjl
      show (modifyAt _ entry s.mEvents ++ [_])[j]? = _
      by_cases hjlt : j < s.mEvents.length
      · rw [List.getElem?_append_left (by rw [hlen]; exact hjlt)]
        exact getElem?_modifyAt_ne _ _ _ _ hj
      · have hgt : s.mEvents.length < j := by omega
        rw [List.getElem?_eq_none, List.getElem?_eq_none (Nat.le_of_lt hgt)]
        rw [List.length_append, hlen]
        exact hgt

/-- In `repeatArmedState` the last key has the one reference of the key repeat state and
is reused: the repeat is entry 0.  In `repeatQueuedState` the outbound queue refers to it
as well, and the repeat is the new entry 1.  Both are the same key, the first repeat of
key 42, a long press. -/
theorem synthesizeKeyRepeatLocked_same_key_witness :
    repeatArmedState.mKeyRepeatState.lastKeyEntry = some 0
      ∧ repeatArmedState.mEvents.map (fun e => e.refCount) = [1]
      ∧ (∃ repeated e1,
          (synthesizeKeyRepeatLocked 700000000 50000000 repeatArmedState).1 = some repeated
            ∧ repeated = 0
            ∧ (synthesizeKeyRepeatLocked 700000000 50000000
                repeatArmedState).2.mEvents[repeated]? = some e1
            ∧ e1.refCount = 2)
      ∧ repeatQueuedState.mKeyRepeatState.lastKeyEntry = some 0
      ∧ repeatQueuedState.mEvents.map (fun e => e.refCount) = [2]
      ∧ (∃ repeated e1,
          (synthesizeKeyRepeatLocked 700000000 50000000 repeatQueuedState).1 = some repeated
            ∧ repeated = 1
            ∧ (synthesizeKeyRepeatLocked 700000000 50000000
                repeatQueuedState).2.mEvents[repeated]? = some e1
            ∧ e1.refCount = 2)
      ∧ (synthesizeKeyRepeatLocked 700000000 50000000 repeatArmedState).2.mEvents.map
          (fun e => e.body)
        = ((synthesizeKeyRepeatLocked 700000000 50000000 repeatQueuedState).2.mEvents.drop 1).map
          (fun e => e.body) := by
  refine ⟨by decide, by decide, ?_, by decide, by decide, ?_, by decide⟩
  · obtain ⟨repeated, e1, h1, h2, h3, _, _, h6, _⟩ :=
      synthesizeKeyRepeatLocked_same_key 700000000 50000000 repeatArmedState 0
        { initializeEventEntry (EventBody.key dispatchedKeyDown) 10 with
          dispatchInProgress := true }
        dispatchedKeyDown
        (by decide) (by decide) (by decide)
    exact ⟨repeated, e1, h1, h2, h3, h6⟩
  · obtain ⟨repeated, e1, h1, h2, h3, _, _, h6, _⟩ :=
      synthesizeKeyRepeatLocked_same_key 700000000 50000000 repeatQueuedState 0
        { initializeEventEntry (EventBody.key dispatchedKeyDown) 10 with
          refCount := 2, dispatchInProgress := true, pendingSyncDispatches := 1 }
        dispatchedKeyDown
        (by decide) (by decide) (by decide)
    exact ⟨repeated, e1, h1, h2, h3, h6⟩

/-- C35, as the claim has it, fails: in `firstDownState` the key DOWN with event time 10
is dispatched for the first time at the current time 1000, with the key repeat timeout
500000000 and no stored key.  The next repeat is due at 500000010, the event time plus
the timeout, and not at 500001000, the current time plus the timeout. -/
theorem key_repeat_armed_at_event_time :
    firstDownState.mPendingEvent = some 0
      ∧ firstDownState.mKeyRepeatState.lastKeyEntry = none
      ∧ firstDownState.mEvents.map
          (fun e => (e.eventTime, e.dispatchInProgress, e.isInjected)) = [(10, false, false)]
      ∧ (dispatchKeyLocked quietEnv 1000 0 500000000 firstDownState).2.mKeyRepeatState
          = { lastKeyEntry := some 0, nextRepeatTime := 500000010 }
      ∧ (1000 : Int) + 500000000 = 500001000 := by
  decide

/-- C35, amended: let `entry` be a key DOWN with repeat count 0 that is not injected and
not yet in progress.  `dispatchKeyLocked` first runs its preprocessing block and is then
what it is on the state `p` that the block leaves.  In `p` the entry is in progress and
is the last key of the key repeat state.  When no key is stored, or the stored key has
another key code, the next repeat is due at the event time of the entry (not the current
time) plus `keyRepeatTimeout`, the key fields of the entry are unchanged and the entry
has one more reference.  When the stored key has the same key code, the entry gets the
repeat count of the stored key plus 1 and the next repeat time is LONG_LONG_MAX; the
entry has one more reference unless it was the stored key itself.  A stored key other
than the entry has lost one reference. -/
theorem dispatchKeyLocked_arms_key_repeat (env : Env) (currentTime : Int) (entry : Nat)
    (keyRepeatTimeout : Int) (s : State) (e : EventEntry) (k : KeyEntry)
    (he : s.mEvents[entry]? = some e) (hb : e.body = EventBody.key k)
    (hfirst : e.dispatchInProgress = false)
    (hcount : k.repeatCount = 0) (hdown : k.action = AKEY_EVENT_ACTION_DOWN)
    (hinj : e.isInjected = false) :
    dispatchKeyLocked env currentTime entry keyRepeatTimeout s
        = dispatchKeyLocked env currentTime entry keyRepeatTimeout
            (dispatchKeyPreprocess entry keyRepeatTimeout s)
      ∧ (dispatchKeyPreprocess entry keyRepeatTimeout s).mKeyRepeatState.lastKeyEntry
          = some entry
      ∧ ((∀ lastKey, s.lastKey = some lastKey → lastKey.keyCode ≠ k.keyCode) →
          (dispatchKeyPreprocess entry keyRepeatTimeout s).mKeyRepeatState.nextRepeatTime
              = e.eventTime + keyRepeatTimeout
            ∧ (dispatchKeyPreprocess entry keyRepeatTimeout s).mEvents[entry]?
              = some { e with refCount := e.refCount + 1, dispatchInProgress := true })
      ∧ (∀ lastKey, s.lastKey = some lastKey → lastKey.keyCode = k.keyCode →
          (dispatchKeyPreprocess entry keyRepeatTimeout s).mKeyRepeatState.nextRepeatTime
              = LONG_LONG_MAX
            ∧ (dispatchKeyPreprocess entry keyRepeatTimeout s).mEvents[entry]?
              = some
                  { e with
                    refCount :=
                      if s.mKeyRepeatState.lastKeyEntry = some entry then e.refCount - 1 + 1
                      else e.refCount + 1
                    dispatchInProgress := true
                    body := EventBody.key { k with repeatCount := lastKey.repeatCount + 1 } })
      ∧ (∀ last eL, s.mKeyRepeatState.lastKeyEntry = some last → last ≠ entry →
          s.mEvents[last]? = some eL →
          (dispatchKeyPreprocess entry keyRepeatTimeout s).mEvents[last]?
            = some { eL with refCount := eL.refCount - 1 }) := by
  have hcases : (∀ lastKey, s.lastKey = some lastKey → lastKey.keyCode ≠ k.keyCode)
      ∨ ∃ lastKey, s.lastKey = some lastKey ∧ lastKey.keyCode = k.keyCode := by
    cases hl : s.lastKey with
    | none => exact Or.inl (fun _ h => by cases h)
    | some lastKey =>
      by_cases hc : lastKey.keyCode = k.keyCode
      · exact Or.inr ⟨lastKey, rfl, hc⟩
      · exact Or.inl (fun x hx => by cases hx; exact hc)
  have hnot : (∀ lastKey, s.lastKey = some lastKey → lastKey.keyCode ≠ k.keyCode) →
      (dispatchKeyPreprocess entry keyRepeatTimeout s).mKeyRepeatState.nextRepeatTime
          = e.eventTime + keyRepeatTimeout
        ∧ (dispatchKeyPreprocess entry keyRepeatTimeout s).mEvents[entry]?
          = some { e with refCount := e.refCount + 1, dispatchInProgress := true } := by
    intro hnew
    have hne : s.mKeyRepeatState.lastKeyEntry ≠ some entry :=
      fun hl => hnew k (lastKey_of_entry s entry e k he hb hl) rfl
    rw [dispatchKeyPreprocess_notRepeat entry keyRepeatTimeout s e k he hb hcount hdown hinj
      hnew]
    refine ⟨rfl, ?_⟩
    rw [armed_mEvents, if_pos rfl, resetKeyRepeatLocked_mEvents, if_neg hne, he]
    rfl
  have hrep : ∀ lastKey, s.lastKey = some lastKey → lastKey.keyCode = k.keyCode →
      (dispatchKeyPreprocess entry keyRepeatTimeout s).mKeyRepeatState.nextRepeatTime
          = LONG_LONG_MAX
        ∧ (dispatchKeyPreprocess entry keyRepeatTimeout s).mEvents[entry]?
          = some
              { e with
                refCount :=
                  if s.mKeyRepeatState.lastKeyEntry = some entry then e.refCount - 1 + 1
                  else e.refCount + 1
                dispatchInProgress := true
                body := EventBody.key { k with repeatCount := lastKey.repeatCount + 1 } } := by
    intro lastKey hl hcode
    rw [dispatchKeyPreprocess_driverRepeat entry keyRepeatTimeout s e k lastKey he hb hcount
      hdown hinj hl hcode]
    refine ⟨rfl, ?_⟩
    have hm : (modifyKey entry (fun k => { k with repeatCount := lastKey.repeatCount + 1 })
        s).mEvents[entry]?
          = some { e with
              body := EventBody.key { k with repeatCount := lastKey.repeatCount + 1 } } := by
      show (modifyAt _ entry s.mEvents)[entry]? = _
      rw [getElem?_modifyAt_self _ _ _ _ he]
      simp only [hb]
    rw [armed_mEvents, if_pos rfl, resetKeyRepeatLocked_mEvents, hm]
    show Option.map _ (if s.mKeyRepeatState.lastKeyEntry = some entry then _ else _) = _
    by_cases hx : s.mKeyRepeatState.lastKeyEntry = some entry
    · rw [if_pos hx, if_pos hx]
      rfl
    · rw [if_neg hx, if_neg hx]
      rfl
  have hin : ∃ e1, (dispatchKeyPreprocess entry keyRepeatTimeout s).mEvents[entry]? = some e1
      ∧ e1.dispatchInProgress = true := by
    rcases hcases with hnew | ⟨lastKey, hl, hcode⟩
    · exact ⟨_, (hnot hnew).2, rfl⟩
    · exact ⟨_, (hrep lastKey hl hcode).2, rfl⟩
  obtain ⟨e1, he1, hp1⟩ := hin
  refine ⟨dispatchKeyLocked_preprocessed env currentTime entry keyRepeatTimeout s e e1 he
    hfirst he1 hp1, ?_, hnot, hrep, ?_⟩
  · rw [dispatchKeyPreprocess_down entry keyRepeatTimeout s e k he hb hcount hdown hinj]
    rfl
  · intro last eL hlast hne heL
    rcases hcases with hnew | ⟨lastKey, hl, hcode⟩
    · rw [dispatchKeyPreprocess_notRepeat entry keyRepeatTimeout s e k he hb hcount hdown hinj
        hnew]
      rw [armed_mEvents, if_neg hne, resetKeyRepeatLocked_mEvents, hlast, if_pos rfl, heL]
      rfl
    · rw [dispatchKeyPreprocess_driverRepeat entry keyRepeatTimeout s e k lastKey he hb hcount
        hdown hinj hl hcode]
      rw [armed_mEvents, if_neg hne, resetKeyRepeatLocked_mEvents]
      show (if s.mKeyRepeatState.lastKeyEntry = some last then _ else _) = _
      rw [hlast, if_pos rfl]
      show Option.map _ ((modifyAt _ entry s.mEvents)[last]?) = _
      rw [getElem?_modifyAt_ne _ _ _ _ hne, heL]
      rfl

/-- In `firstDownState` no key is stored: the next repeat of the DOWN with event time 10
is due at 500000010.  In `secondDownState` the stored key has the key code of the DOWN:
the DOWN becomes its first repeat, the next repeat time is LONG_LONG_MAX and the stored
key is released. -/
theorem dispatchKeyLocked_arms_key_repeat_witness :
    firstDownState.mEvents[0]?
        = some (initializeEventEntry (EventBody.key dispatchedKeyDownFresh) 10)
      ∧ firstDownState.lastKey = none
      ∧ (dispatchKeyPreprocess 0 500000000 firstDownState).mKeyRepeatState
          = { lastKeyEntry := some 0, nextRepeatTime := 500000010 }
      ∧ secondDownState.mEvents[1]?
          = some (initializeEventEntry (EventBody.key dispatchedKeyDownFresh) 20)
      ∧ (secondDownState.lastKey.map (fun k => (k.keyCode, k.repeatCount))) = some (42, 0)
      ∧ (dispatchKeyPreprocess 1 500000000 secondDownState).mKeyRepeatState
          = { lastKeyEntry := some 1, nextRepeatTime := LONG_LONG_MAX }
      ∧ (dispatchKeyPreprocess 1 500000000 secondDownState).mEvents.map
          (fun e => e.refCount) = [0, 2] := by
  have h1 := dispatchKeyLocked_arms_key_repeat quietEnv 1000 0 500000000 firstDownState
    (initializeEventEntry (EventBody.key dispatchedKeyDownFresh) 10) dispatchedKeyDownFresh
    (by decide) rfl rfl rfl rfl (by decide)
  refine ⟨by decide, by decide, ?_, by decide, by decide, by decide, by decide⟩
  have h2 := (h1.2.2.1 (by decide)).1
  have h3 := h1.2.1
  revert h2 h3
  generalize (dispatchKeyPreprocess 0 500000000 firstDownState).mKeyRepeatState = ks
  intro h2 h3
  cases ks
  simp only at h2 h3
  rw [h2, h3]
  decide

/-- C36: take the motion entry that `obtainMotionEntry` makes with pointer count
`pointerCount`, and call `appendMotionSample` on it for each element of `appended`, in
order.  On the pointers (with any cells in the sample pool before, and enough fuel for
the loops): the chain walked from `firstSample` along `next` holds the initial sample and
then the appended samples in the order of the calls, each with its event time and the
first `pointerCount` coords given; the last node of the walk is the one `lastSample`
points to, and its `next` is NULL; `countSamples` returns the number of calls plus one;
`pointerCount` and `pointerIds` are as made; and one more call leaves the walk as it is,
with the same addresses and samples, and adds its sample at the new `lastSample`.  In the
pool of events the entry holds the same samples, and the other entries are unchanged. -/
theorem motion_sample_chain (eventTime deviceId : Int) (source policyFlags action flags : Nat)
    (metaState edgeFlags xPrecision yPrecision downTime : Int) (pointerCount : Nat)
    (pointerIds : List Int) (pointerCoords : List PointerCoords)
    (appended : List (Int × List PointerCoords)) (pool : List SampleNode) (s : State)
    (extra : Nat) :
    (((SampleChain.obtainMotionEntry eventTime pointerCount pointerIds pointerCoords
        pool).appendAll appended).walk (appended.length + 1 + extra)).map
          (fun nodes => nodes.map (fun node => node.2))
        = some (storedSample pointerCount (eventTime, pointerCoords)
            :: appended.map (storedSample pointerCount))
      ∧ (((SampleChain.obtainMotionEntry eventTime pointerCount pointerIds pointerCoords
          pool).appendAll appended).walk (appended.length + 1 + extra)).bind
            (fun nodes => nodes.getLast?.map (fun node => node.1))
        = some ((SampleChain.obtainMotionEntry eventTime pointerCount pointerIds pointerCoords
            pool).appendAll appended).lastSample
      ∧ (((SampleChain.obtainMotionEntry eventTime pointerCount pointerIds pointerCoords
          pool).appendAll appended).read
            ((SampleChain.obtainMotionEntry eventTime pointerCount pointerIds pointerCoords
              pool).appendAll appended).lastSample).map (fun node => (node.next, node.sample))
        = (storedSample pointerCount (eventTime, pointerCoords)
            :: appended.map (storedSample pointerCount)).getLast?.map (fun x => (none, x))
      ∧ ((SampleChain.obtainMotionEntry eventTime pointerCount pointerIds pointerCoords
          pool).appendAll appended).countSamples (appended.length + extra)
        = some (appended.length + 1)
      ∧ ((SampleChain.obtainMotionEntry eventTime pointerCount pointerIds pointerCoords
          pool).appendAll appended).pointerCount = pointerCount
      ∧ ((SampleChain.obtainMotionEntry eventTime pointerCount pointerIds pointerCoords
          pool).appendAll appended).pointerIds = pointerIds.take pointerCount
      ∧ (∀ a : Int × List PointerCoords,
          ((SampleChain.obtainMotionEntry eventTime pointerCount pointerIds pointerCoords
              pool).appendAll (appended ++ [a])
            = ((SampleChain.obtainMotionEntry eventTime pointerCount pointerIds pointerCoords
                pool).appendAll appended).appendMotionSample a.1 a.2)
          ∧ ((SampleChain.obtainMotionEntry eventTime pointerCount pointerIds pointerCoords
              pool).appendAll (appended ++ [a])).walk (appended.length + 2 + extra)
            = (((SampleChain.obtainMotionEntry eventTime pointerCount pointerIds pointerCoords
                pool).appendAll appended).walk (appended.length + 1 + extra)).map
                  (fun nodes => nodes ++
                    [(((SampleChain.obtainMotionEntry eventTime pointerCount pointerIds
                        pointerCoords pool).appendAll (appended ++ [a])).lastSample,
                      storedSample pointerCount a)]))
      ∧ (obtainMotionEntry eventTime deviceId source policyFlags action flags metaState
          edgeFlags xPrecision yPrecision downTime pointerCount pointerIds pointerCoords s).1
        = s.mEvents.length
      ∧ (∃ e m,
          (appendMotionSamples s.mEvents.length appended
            (obtainMotionEntry eventTime deviceId source policyFlags action flags metaState
              edgeFlags xPrecision yPrecision downTime pointerCount pointerIds pointerCoords
              s).2).mEvents = s.mEvents ++ [e]
          ∧ e.body = EventBody.motion m
          ∧ m.firstSample :: m.nextSamples
            = storedSample pointerCount (eventTime, pointerCoords)
              :: appended.map (storedSample pointerCount)
          ∧ m.pointerCount = pointerCount
          ∧ m.pointerIds = pointerIds.take pointerCount
          ∧ m.countSamples = appended.length + 1
          ∧ m.sampleAt m.lastSample
            = (storedSample pointerCount (eventTime, pointerCoords)
                :: appended.map (storedSample pointerCount)).getLast?
          ∧ m.nextOf m.lastSample = none) := by
  have hchain := obtainedChain_eq eventTime pointerCount pointerIds pointerCoords pool
  have hlen : (appended.map (storedSample pointerCount)).length = appended.length :=
    List.length_map _ _
  have hwalk := walk_chainOf pool pointerCount (pointerIds.take pointerCount)
    (storedSample pointerCount (eventTime, pointerCoords))
    (appended.map (storedSample pointerCount)) extra
  rw [hlen] at hwalk
  have hsnd : ∀ (base : Nat) (xs : List MotionSample),
      (cellsFrom base xs).map (fun node => node.2) = xs := by
    intro base xs
    induction xs generalizing base with
    | nil => rfl
    | cons x rest ih =>
      simp only [cellsFrom, List.enumFrom_cons, List.map_cons] at ih ⊢
      rw [ih]
  refine ⟨?_, ?_, ?_, ?_, ?_, ?_, ?_, rfl, ?_⟩
  · rw [hchain, hwalk]
    simp only [Option.map_some', List.map_cons, hsnd]
  · rw [hchain, hwalk]
    simp only [Option.some_bind, getLast?_cellsFrom]
    cases h : (storedSample pointerCount (eventTime, pointerCoords)
        :: appended.map (storedSample pointerCount)).getLast? with
    | none => simp at h
    | some x =>
      simp only [Option.map_some', chainOf, hlen, List.length_map]
  · rw [hchain, read_lastSample_chainOf]
    cases (storedSample pointerCount (eventTime, pointerCoords)
        :: appended.map (storedSample pointerCount)).getLast? <;> rfl
  · have h := countSamples_chainOf pool pointerCount (pointerIds.take pointerCount)
      (storedSample pointerCount (eventTime, pointerCoords))
      (appended.map (storedSample pointerCount)) extra
    rw [hlen] at h
    rw [hchain, h]
  · rw [hchain]
    rfl
  · rw [hchain]
    rfl
  · intro a
    refine ⟨?_, ?_⟩
    · simp only [SampleChain.appendAll, List.foldl_append, List.foldl_cons, List.foldl_nil]
    · have hw2 := walk_chainOf pool pointerCount (pointerIds.take pointerCount)
        (storedSample pointerCount (eventTime, pointerCoords))
        ((appended ++ [a]).map (storedSample pointerCount)) extra
      have hlen2 : ((appended ++ [a]).map (storedSample pointerCount)).length + 1 + extra
          = appended.length + 2 + extra := by
        simp only [List.length_map, List.length_append, List.length_singleton]
      rw [hlen2] at hw2
      rw [hchain (appended ++ [a]), hw2, hchain appended, hwalk]
      simp only [Option.map_some', List.map_append, List.map_cons, List.map_nil, cellsFrom,
        List.enumFrom_append, List.enumFrom_cons, List.enumFrom_nil, List.cons_append, chainOf,
        List.length_map, List.length_append, List.length_singleton]
      congr 3
      cases h : (appended.map (storedSample pointerCount) ++ [storedSample pointerCount a]).isEmpty
      · simp
      · simp at h
  · have h := appendMotionSamples_last s
      (initializeEventEntry (EventBody.motion
        { deviceId := deviceId, source := source, policyFlags := policyFlags, action := action,
          flags := flags, metaState := metaState, edgeFlags := edgeFlags,
          xPrecision := xPrecision, yPrecision := yPrecision, downTime := downTime,
          pointerCount := pointerCount, pointerIds := pointerIds.take pointerCount,
          firstSample := { eventTime := eventTime,
                           pointerCoords := pointerCoords.take pointerCount },
          nextSamples := [] }) eventTime) appended
      { deviceId := deviceId, source := source, policyFlags := policyFlags, action := action,
        flags := flags, metaState := metaState, edgeFlags := edgeFlags,
        xPrecision := xPrecision, yPrecision := yPrecision, downTime := downTime,
        pointerCount := pointerCount, pointerIds := pointerIds.take pointerCount,
        firstSample := { eventTime := eventTime,
                         pointerCoords := pointerCoords.take pointerCount },
        nextSamples := [] }
    refine ⟨_,
      { deviceId := deviceId, source := source, policyFlags := policyFlags, action := action,
        flags := flags, metaState := metaState, edgeFlags := edgeFlags,
        xPrecision := xPrecision, yPrecision := yPrecision, downTime := downTime,
        pointerCount := pointerCount, pointerIds := pointerIds.take pointerCount,
        firstSample := { eventTime := eventTime,
                         pointerCoords := pointerCoords.take pointerCount },
        nextSamples := appended.map (storedSample pointerCount) },
      congrArg (fun t : State => t.mEvents) h, rfl, rfl, rfl, rfl, ?_, ?_, ?_⟩
    · simp [MotionEntry.countSamples, Nat.add_comm]
    · exact sampleAt_lastSample _
    · simp [MotionEntry.nextOf, MotionEntry.lastSample]

/-- The chain of `threeSamples`: the walk from `firstSample` visits the first sample and the
cells 1 and 2, with one pointer each; `lastSample` is cell 2; `countSamples` returns 3
when it has the fuel for two steps, and no result with less. -/
theorem motion_sample_chain_witness :
    threeSamples.walk 3
        = some [(SamplePtr.first, { eventTime := 5, pointerCoords := [pointerAt 7 8] }),
                (SamplePtr.cell 1, { eventTime := 6, pointerCoords := [pointerAt 8 8] }),
                (SamplePtr.cell 2, { eventTime := 7, pointerCoords := [pointerAt 9 8] })]
      ∧ threeSamples.lastSample = SamplePtr.cell 2
      ∧ threeSamples.countSamples 2 = some 3
      ∧ threeSamples.countSamples 1 = none :=
  ⟨by decide, by decide,
    (motion_sample_chain 5 1 0x1002 0 AMOTION_EVENT_ACTION_MOVE 0 0 0 1 1 5 1 [0]
      [pointerAt 7 8, pointerAt 1 1] [(6, [pointerAt 8 8, pointerAt 2 2]), (7, [pointerAt 9 8])]
      [{ next := none, eventTime := 1, pointerCoords := [] }] (State.initial 60) 0).2.2.2.1,
    by decide⟩

/-- C37: in every state that the operations reach from the state of the constructor, also
between the two critical sections of an injection and between the commands of a run of
the command queue, no connection is in `mActiveConnections` twice, every member of the
list is a connection of the pool, and a connection is in the list if and only if its
outbound queue is not empty. -/
theorem active_connections_have_outbound_entries (s : State) (h : Reachable s) :
    ActiveOk s
      ∧ s.mActiveConnections.Nodup
      ∧ (∀ connection : Nat, s.mActiveConnections.count connection ≤ 1)
      ∧ (∀ connection ∈ s.mActiveConnections, connection < s.mConnections.length)
      ∧ (∀ (connection : Nat) (c : Connection), s.mConnections[connection]? = some c →
          (connection ∈ s.mActiveConnections ↔ c.outboundQueue ≠ [])) := by
  have hok : ActiveOk s := (activeOk_iff_actOk s).mpr (actOk_of_reachable s h)
  refine ⟨hok, hok.1, ?_, ?_, ?_⟩
  · intro connection
    exact List.nodup_iff_count_le_one.mp hok.1 connection
  · intro connection hm
    obtain ⟨c, hc, _⟩ := (hok.2 connection).mp hm
    exact (List.getElem?_eq_some_iff.mp hc).1
  · intro connection c hc
    rw [hok.2 connection]
    constructor
    · rintro ⟨c1, hc1, hq⟩
      rw [hc] at hc1
      cases hc1
      exact hq
    · intro hq
      exact ⟨c, hc, hq⟩

/-- The state `repeatQueuedState` is reached by five operations: the connection of
channel 7 holds the key in its outbound queue and is the one active connection.  In
`repeatArmedState` the window has finished the key: the queue is empty and no connection
is active. -/
theorem active_connections_have_outbound_entries_witness :
    Reachable repeatQueuedState
      ∧ repeatQueuedState.mActiveConnections = [0]
      ∧ repeatQueuedState.mConnections.map (fun c => c.outboundQueue.length) = [1]
      ∧ (∀ (connection : Nat) (c : Connection),
          repeatQueuedState.mConnections[connection]? = some c →
            (connection ∈ repeatQueuedState.mActiveConnections ↔ c.outboundQueue ≠ []))
      ∧ Reachable repeatArmedState
      ∧ repeatArmedState.mActiveConnections = []
      ∧ repeatArmedState.mConnections.map (fun c => c.outboundQueue.length) = [0]
      ∧ ActiveOk repeatArmedState :=
  ⟨⟨60, _, rfl⟩, by decide, by decide,
    (active_connections_have_outbound_entries repeatQueuedState ⟨60, _, rfl⟩).2.2.2.2,
    ⟨60, _, rfl⟩, by decide, by decide,
    (active_connections_have_outbound_entries repeatArmedState ⟨60, _, rfl⟩).1⟩

/-- C38: let `trackedState entries` be the input state after any calls of `trackEvent` on
the state of the constructor.  The events that `synthesizeCancelationEvents` produces for
it are in the pool, one for each key memento and then one for each motion memento.  Fed
back through `trackEvent` in that order, every one of them is classified CONSISTENT, and
the state after the last one is neutral and not out of sync.  In the state no two key
mementos have the same device, source, key code and scan code and no two motion mementos
have the same device and source, and a call of `trackKey`, `trackMotion` or `trackEvent`
keeps this. -/
theorem cancelation_events_round_trip (entries : List EventEntry) (now : Int) (s : State) :
    ∃ produced : List EventEntry,
      ((trackedState entries).synthesizeCancelationEvents now s).1.map
          (fun event =>
            ((trackedState entries).synthesizeCancelationEvents now s).2.mEvents[event]?)
        = produced.map some
      ∧ produced = (trackedState entries).mKeyMementos.map (keyCancelationEntry now)
          ++ (trackedState entries).mMotionMementos.map (motionCancelationEntry now)
      ∧ ((trackedState entries).trackEvents produced).1
        = List.replicate produced.length Consistency.CONSISTENT
      ∧ ((trackedState entries).trackEvents produced).2.isNeutral = true
      ∧ ((trackedState entries).trackEvents produced).2.isOutOfSync = false
      ∧ (trackedState entries).Distinct
      ∧ (∀ (st : InputState) (entry : EventEntry), st.Distinct →
          (st.trackEvent entry).2.Distinct)
      ∧ (∀ (st : InputState) (entry : KeyEntry), st.Distinct → (st.trackKey entry).2.Distinct)
      ∧ (∀ (st : InputState) (entry : MotionEntry), st.Distinct →
          (st.trackMotion entry).2.Distinct) := by
  have hinv := trackEvents_invariant entries
    { mIsOutOfSync := false, mKeyMementos := [], mMotionMementos := [] }
    ⟨List.Pairwise.nil, List.Pairwise.nil⟩ rfl
  refine ⟨_, ?_, rfl, ?_, ?_, ?_, hinv.1, distinct_trackEvent, distinct_trackKey,
    distinct_trackMotion⟩
  · simp only [InputState.synthesizeCancelationEvents, synthesizeKeyCancelationEvents_eq,
      synthesizeMotionCancelationEvents_eq, List.map_append, List.length_append,
      List.length_map]
    congr 1
    · have h := map_getElem?_range' s.mEvents
        ((trackedState entries).mKeyMementos.map (keyCancelationEntry now))
        ((trackedState entries).mMotionMementos.map (motionCancelationEntry now))
      simp only [List.length_map, ← List.append_assoc] at h
      exact h
    · have h := map_getElem?_range'
        (s.mEvents ++ (trackedState entries).mKeyMementos.map (keyCancelationEntry now))
        ((trackedState entries).mMotionMementos.map (motionCancelationEntry now)) []
      simp only [List.length_append, List.length_map, List.append_nil] at h
      exact h
  · rw [trackEvents_cancelations]
    simp only [List.length_append, List.length_map]
  · rw [trackEvents_cancelations]
    rfl
  · rw [trackEvents_cancelations]
    have h : (trackedState entries).mIsOutOfSync = false := hinv.2
    simp only [InputState.isOutOfSync, h, Bool.false_and]

/-- After `heldInputs` the state holds one key memento and one motion memento; the two
cancelation events made for it at time 1000 are CONSISTENT and leave the neutral state. -/
theorem cancelation_events_round_trip_witness :
    (InputState.trackEvents
        { mIsOutOfSync := false, mKeyMementos := [], mMotionMementos := [] } heldInputs).1
        = [Consistency.CONSISTENT, Consistency.CONSISTENT, Consistency.TOLERABLE]
      ∧ (trackedState heldInputs).mKeyMementos.length = 1
      ∧ (trackedState heldInputs).mMotionMementos.length = 1
      ∧ ((trackedState heldInputs).synthesizeCancelationEvents 1000 (State.initial 60)).1 = [0, 1]
      ∧ ∃ produced : List EventEntry,
          produced = (trackedState heldInputs).mKeyMementos.map (keyCancelationEntry 1000)
            ++ (trackedState heldInputs).mMotionMementos.map (motionCancelationEntry 1000)
          ∧ ((trackedState heldInputs).trackEvents produced).1
            = List.replicate produced.length Consistency.CONSISTENT
          ∧ ((trackedState heldInputs).trackEvents produced).2.isNeutral = true
          ∧ ((trackedState heldInputs).trackEvents produced).2.isOutOfSync = false := by
  obtain ⟨produced, _, h2, h3, h4, h5, _⟩ :=
    cancelation_events_round_trip heldInputs 1000 (State.initial 60)
  exact ⟨by decide, by decide, by decide, by decide, produced, h2, h3, h4, h5⟩

/-- C39: every operation of `InputState` keeps the invariant that a state which is out
of sync is not neutral, that is, holds a key or motion memento: `trackEvent`, `trackKey`
and `trackMotion` for every entry, `setOutOfSync`, `resetOutOfSync` and `clear`.  In
particular `setOutOfSync` leaves the flag of a neutral state false.  The state of the
constructor has the invariant. -/
theorem inputState_outOfSync_not_neutral (st : InputState) (h : st.SyncOk) :
    (∀ entry : EventEntry, (st.trackEvent entry).2.SyncOk)
      ∧ (∀ entry : KeyEntry, (st.trackKey entry).2.SyncOk)
      ∧ (∀ entry : MotionEntry, (st.trackMotion entry).2.SyncOk)
      ∧ st.setOutOfSync.SyncOk
      ∧ st.resetOutOfSync.SyncOk
      ∧ st.clear.SyncOk
      ∧ (st.isNeutral = true → st.setOutOfSync.isOutOfSync = false)
      ∧ InputState.SyncOk { mIsOutOfSync := false, mKeyMementos := [], mMotionMementos := [] } := by
  refine ⟨fun e => syncOk_trackEvent st e h, fun k => syncOk_trackKey st k h,
    fun m => syncOk_trackMotion st m h, ?_, syncOk_of_flag _ rfl, syncOk_of_flag _ rfl, ?_,
    syncOk_of_flag _ rfl⟩
  · unfold InputState.setOutOfSync
    split
    · rename_i hn
      refine syncOk_of_not_neutral _ ?_
      cases hx : st.isNeutral
      · exact hx
      · rw [hx] at hn
        cases hn
    · exact h
  · intro hn
    unfold InputState.setOutOfSync
    rw [hn]
    cases hs : st.isOutOfSync
    · exact hs
    · have := h hs
      rw [hn] at this
      cases this

/-- The state of `heldKeyState` is out of sync and holds a memento; the UP of its key
leaves the neutral state with the flag cleared, and `setOutOfSync` does not set the flag
of that state again. -/
theorem inputState_outOfSync_not_neutral_witness :
    heldKeyState.SyncOk
      ∧ (heldKeyState.trackKey keyUp).2.SyncOk
      ∧ (heldKeyState.trackKey keyUp).2
          = { mIsOutOfSync := false, mKeyMementos := [], mMotionMementos := [] }
      ∧ ((heldKeyState.trackKey keyUp).2.setOutOfSync).isOutOfSync = false :=
  ⟨fun _ => by decide, (inputState_outOfSync_not_neutral heldKeyState (fun _ => by decide)).2.1 keyUp,
    by decide, by decide⟩

/-- C40: the touched wallpaper windows that `setInputWindows` leaves are those of
`touchedWallpaperPushes`: the wallpaper window at position `i` of the new list is pushed
once for every saved channel when the saved channel at position `i` is its own, and not
at all otherwise.  After `touchedTrace` the wallpaper windows 0 and 1 are touched, and
the same list again leaves `[0, 0, 1, 1]`: each of them twice.  After
`touchedBehindTrace` the wallpaper windows 1 and 2 are touched, and the same list again
leaves none of them; the loop reads the two saved channels at the positions 1, 1, 2, 2,
the last two past the end. -/
theorem setInputWindows_touched_wallpapers_by_position :
    (∀ (x : List InputWindow) (s : State),
        (setInputWindows x s).mTouchedWallpaperWindows
          = touchedWallpaperPushes
              (s.mTouchedWallpaperWindows.map (fun w => (s.window w).inputChannel)) x 0)
      ∧ (run touchedTrace (State.initial 60)).mWindows = twoWallpapers
      ∧ (run touchedTrace (State.initial 60)).mTouchedWallpaperWindows = [0, 1]
      ∧ (setInputWindows twoWallpapers
          (run touchedTrace (State.initial 60))).mTouchedWallpaperWindows = [0, 0, 1, 1]
      ∧ (run touchedBehindTrace (State.initial 60)).mWindows = wallpapersBehind
      ∧ (run touchedBehindTrace (State.initial 60)).mTouchedWallpaperWindows = [1, 2]
      ∧ (setInputWindows wallpapersBehind
          (run touchedBehindTrace (State.initial 60))).mTouchedWallpaperWindows = []
      ∧ tempChannelReads (run touchedBehindTrace (State.initial 60)).mTouchedWallpaperWindows.length
          wallpapersBehind 0 = [1, 1, 2, 2] := by
  refine ⟨?_, by decide, by decide, by decide, by decide, by decide, by decide, by decide⟩
  intro x s
  rw [setInputWindows_fields]
  rfl

end InputDispatcher
